import Mathlib

/-!
# WNET uploader: adaptive transfer monitors and multipart upload

A shallow embedding of

* `src/network-profiles/{dsl,cable,fiber,enterprise,gigabit,ultra}.js`: the six profile
  tables, the `create*UploadStrategy` constructors and the body of the `setInterval`
  callback of each `create*AdaptiveMonitor`;
* `src/backup 5.24.25/vps-upload-proxy.js`: `multipartUploadToR2`.

Conventions of the embedding.

* JavaScript numbers that carry speeds, throughputs and parallelism are exact rationals
  (`ℚ`); clock readings (`Date.now()`), durations and byte counts are integers (`Int`).
  Floating-point rounding is not modelled.
* One tick reads the clock once: every `Date.now()` inside one run of the callback is the
  field `now` of the tick input.
* The closure variables of a monitor, together with the two shared objects it writes
  (`context.maxParallel`, `strategy.partSize`), form `MonitorState`.
* Every `console.log` / `console.warn` / `console.error` of the callback and every call of
  `performanceTracker.updateStrategy` is recorded in `TickEvents`, so that "the emergency
  reset fired on this tick" is a statement about the value a tick returns.
* `null` is `none`; JavaScript truthiness and numeric coercion of `null` are `truthyInt`,
  `truthyNum` and `toNumber`.
-/

namespace WNET

/-! ## Profile tables -/

/-- The `stagingConfig` object of a profile table. -/
structure StagingConfig where
  immediateFullCapacity : Bool
  initialBatch : Nat
  preflightParts : Nat
  preflightTimeoutMs : Int
  skipStaging : Bool
  maxParallelImmediate : Bool
  aggressiveStart : Bool
  timingInterval : Int
  deriving DecidableEq, Repr

/-- The fields every one of the six `*_PROFILE` tables has. -/
structure Profile where
  name : String
  partSize : Int
  parallel : ℚ
  maxCap : ℚ
  minParallel : ℚ
  targetSpeed : ℚ
  rampUpThreshold : ℚ
  rampDownThreshold : ℚ
  backpressureThreshold : ℚ
  staggerDelay : Option Int
  warmupCount : Nat
  scaleUpCooldown : Int
  scaleDownCooldown : Int
  lowSpeedSampleThreshold : Nat
  degradationThreshold : ℚ
  throttleAmount : ℚ
  enableSweetSpotProtection : Bool
  peakDetectionThreshold : ℚ
  sweetSpotProtectionDuration : Int
  stagingConfig : StagingConfig
  deriving DecidableEq, Repr

/-- The tables of DSL, enterprise, fiber, gigabit and ultra add the stall-protection and
reinforcement fields; `CABLE_PROFILE` has none of them. -/
structure StallProfile extends Profile where
  minPartSpeed : ℚ
  minPartTimeout : Int
  noProgressTimeout : Int
  reinforcementSampleCount : Nat
  emergencyResetThreshold : ℚ
  deriving DecidableEq, Repr

/-- The tables of gigabit and ultra further add `rampStep`, `strongSampleThresholdMbps`
and `minSamplesToLock`. -/
structure LockProfile extends StallProfile where
  rampStep : ℚ
  strongSampleThresholdMbps : ℚ
  minSamplesToLock : Nat
  deriving DecidableEq, Repr

/-- One mebibyte, the `1024 * 1024` of the sources. -/
def MiB : Int := 1024 * 1024

/-- The table `DSL_PROFILE` of dsl.js, lines 5-59. -/
def DSL_PROFILE : StallProfile where
  name := "DSL"
  partSize := 8 * 1024 * 1024
  parallel := 2
  maxCap := 2
  minParallel := 1
  targetSpeed := 25
  rampUpThreshold := 1.5
  rampDownThreshold := 0.8
  backpressureThreshold := 30.0
  staggerDelay := some 200
  warmupCount := 8
  scaleUpCooldown := 12000
  scaleDownCooldown := 20000
  lowSpeedSampleThreshold := 3
  degradationThreshold := 0.5
  throttleAmount := 1
  enableSweetSpotProtection := true
  peakDetectionThreshold := 30
  sweetSpotProtectionDuration := 25000
  minPartSpeed := 0.15
  minPartTimeout := 25000
  noProgressTimeout := 60000
  reinforcementSampleCount := 3
  emergencyResetThreshold := 5
  stagingConfig :=
    { immediateFullCapacity := true, initialBatch := 2, preflightParts := 0
      preflightTimeoutMs := 0, skipStaging := true, maxParallelImmediate := true
      aggressiveStart := true, timingInterval := 3000 }

/-- The table `CABLE_PROFILE` of cable.js, lines 5-54. -/
def CABLE_PROFILE : Profile where
  name := "CABLE"
  partSize := 20 * 1024 * 1024
  parallel := 6
  maxCap := 10
  targetSpeed := 75
  rampUpThreshold := 2.0
  rampDownThreshold := 1.2
  backpressureThreshold := 30.0
  staggerDelay := some 100
  warmupCount := 12
  minParallel := 2
  degradationThreshold := 0.6
  throttleAmount := 1
  scaleUpCooldown := 8000
  scaleDownCooldown := 25000
  lowSpeedSampleThreshold := 4
  enableSweetSpotProtection := true
  peakDetectionThreshold := 60
  sweetSpotProtectionDuration := 30000
  stagingConfig :=
    { immediateFullCapacity := true, initialBatch := 4, preflightParts := 0
      preflightTimeoutMs := 0, skipStaging := true, maxParallelImmediate := true
      aggressiveStart := true, timingInterval := 2000 }

/-- The table `FIBER_PROFILE` of fiber.js, lines 5-60. -/
def FIBER_PROFILE : StallProfile where
  name := "FIBER"
  partSize := 75 * 1024 * 1024
  parallel := 8
  maxCap := 16
  minParallel := 6
  targetSpeed := 400
  rampUpThreshold := 2.7
  rampDownThreshold := 1.2
  backpressureThreshold := 30.0
  staggerDelay := some 50
  warmupCount := 16
  scaleUpCooldown := 10000
  scaleDownCooldown := 30000
  lowSpeedSampleThreshold := 4
  degradationThreshold := 0.6
  throttleAmount := 2
  enableSweetSpotProtection := true
  peakDetectionThreshold := 80
  sweetSpotProtectionDuration := 45000
  minPartSpeed := 0.35
  minPartTimeout := 15000
  noProgressTimeout := 40000
  reinforcementSampleCount := 4
  emergencyResetThreshold := 12
  stagingConfig :=
    { immediateFullCapacity := true, initialBatch := 8, preflightParts := 0
      preflightTimeoutMs := 0, skipStaging := true, maxParallelImmediate := true
      aggressiveStart := true, timingInterval := 1000 }

/-- The table `ENTERPRISE_PROFILE` of enterprise.js, lines 5-60. -/
def ENTERPRISE_PROFILE : StallProfile where
  name := "ENTERPRISE"
  partSize := 40 * 1024 * 1024
  parallel := 6
  maxCap := 10
  minParallel := 4
  targetSpeed := 100
  rampUpThreshold := 4.0
  rampDownThreshold := 1.2
  backpressureThreshold := 30.0
  staggerDelay := some 75
  warmupCount := 20
  scaleUpCooldown := 12000
  scaleDownCooldown := 45000
  lowSpeedSampleThreshold := 5
  degradationThreshold := 0.5
  throttleAmount := 2
  enableSweetSpotProtection := true
  peakDetectionThreshold := 100
  sweetSpotProtectionDuration := 60000
  minPartSpeed := 0.5
  minPartTimeout := 20000
  noProgressTimeout := 50000
  reinforcementSampleCount := 5
  emergencyResetThreshold := 15
  stagingConfig :=
    { immediateFullCapacity := true, initialBatch := 6, preflightParts := 0
      preflightTimeoutMs := 0, skipStaging := true, maxParallelImmediate := true
      aggressiveStart := true, timingInterval := 1500 }

/-- The table `GIGABIT_PROFILE` of gigabit.js, lines 5-61. -/
def GIGABIT_PROFILE : LockProfile where
  name := "GIGABIT"
  partSize := 250 * 1024 * 1024
  parallel := 16
  maxCap := 20
  minParallel := 14
  targetSpeed := 850
  rampUpThreshold := 15.0
  rampDownThreshold := 8.0
  backpressureThreshold := 5.0
  warmupCount := 24
  scaleUpCooldown := 500
  scaleDownCooldown := 8000
  lowSpeedSampleThreshold := 2
  rampStep := 2
  degradationThreshold := 0.3
  throttleAmount := 1
  enableSweetSpotProtection := true
  peakDetectionThreshold := 500
  sweetSpotProtectionDuration := 3000
  strongSampleThresholdMbps := 25.0
  minSamplesToLock := 2
  minPartSpeed := 2.0
  minPartTimeout := 20000
  noProgressTimeout := 60000
  reinforcementSampleCount := 2
  emergencyResetThreshold := 100
  staggerDelay := none
  stagingConfig :=
    { immediateFullCapacity := true, initialBatch := 16, preflightParts := 0
      preflightTimeoutMs := 0, skipStaging := true, maxParallelImmediate := true
      aggressiveStart := true, timingInterval := 250 }

/-- The table `ULTRA_PROFILE` of ultra.js, lines 5-61. -/
def ULTRA_PROFILE : LockProfile where
  name := "ULTRA"
  partSize := 200 * 1024 * 1024
  parallel := 18
  maxCap := 24
  minParallel := 16
  targetSpeed := 150
  rampUpThreshold := 4.0
  rampDownThreshold := 2.0
  backpressureThreshold := 1.0
  warmupCount := 20
  scaleUpCooldown := 250
  scaleDownCooldown := 5000
  lowSpeedSampleThreshold := 3
  rampStep := 4
  degradationThreshold := 0.5
  throttleAmount := 2
  enableSweetSpotProtection := true
  peakDetectionThreshold := 100
  sweetSpotProtectionDuration := 1000
  strongSampleThresholdMbps := 5.0
  minSamplesToLock := 2
  minPartSpeed := 0.25
  minPartTimeout := 30000
  noProgressTimeout := 90000
  reinforcementSampleCount := 3
  emergencyResetThreshold := 30
  staggerDelay := none
  stagingConfig :=
    { immediateFullCapacity := true, initialBatch := 14, preflightParts := 0
      preflightTimeoutMs := 0, skipStaging := true, maxParallelImmediate := true
      aggressiveStart := true, timingInterval := 500 }

/-! ## Strategies -/

/-- The object `create*UploadStrategy` returns (its `profile` back-reference is the table
the constructor belongs to and is not repeated here). -/
structure Strategy where
  partSize : Int
  maxParallel : ℚ
  maxParallelCap : ℚ
  immediateFullCapacity : Bool
  skipGradualRampUp : Bool
  launchAllPartsImmediately : Bool
  deriving DecidableEq, Repr

/-- The argument `connectionInfo`; the constructors only print `bandwidth`. -/
structure ConnectionInfo where
  bandwidth : ℚ
  deriving DecidableEq, Repr

/-- The function `createDslUploadStrategy` of dsl.js, lines 62-79. -/
def createDslUploadStrategy (_connectionInfo : ConnectionInfo) : Strategy :=
  { partSize := DSL_PROFILE.partSize, maxParallel := DSL_PROFILE.parallel
    maxParallelCap := DSL_PROFILE.maxCap, immediateFullCapacity := true
    skipGradualRampUp := true, launchAllPartsImmediately := true }

/-- The function `createCableUploadStrategy` of cable.js, lines 57-74. -/
def createCableUploadStrategy (_connectionInfo : ConnectionInfo) : Strategy :=
  { partSize := CABLE_PROFILE.partSize, maxParallel := CABLE_PROFILE.parallel
    maxParallelCap := CABLE_PROFILE.maxCap, immediateFullCapacity := true
    skipGradualRampUp := true, launchAllPartsImmediately := true }

/-- The function `createFiberUploadStrategy` of fiber.js, lines 63-80. -/
def createFiberUploadStrategy (_connectionInfo : ConnectionInfo) : Strategy :=
  { partSize := FIBER_PROFILE.partSize, maxParallel := FIBER_PROFILE.parallel
    maxParallelCap := FIBER_PROFILE.maxCap, immediateFullCapacity := true
    skipGradualRampUp := true, launchAllPartsImmediately := true }

/-- The function `createEnterpriseUploadStrategy` of enterprise.js, lines 63-80. -/
def createEnterpriseUploadStrategy (_connectionInfo : ConnectionInfo) : Strategy :=
  { partSize := ENTERPRISE_PROFILE.partSize, maxParallel := ENTERPRISE_PROFILE.parallel
    maxParallelCap := ENTERPRISE_PROFILE.maxCap, immediateFullCapacity := true
    skipGradualRampUp := true, launchAllPartsImmediately := true }

/-- The function `createGigabitUploadStrategy` of gigabit.js, lines 64-82. -/
def createGigabitUploadStrategy (_connectionInfo : ConnectionInfo) : Strategy :=
  { partSize := GIGABIT_PROFILE.partSize, maxParallel := GIGABIT_PROFILE.parallel
    maxParallelCap := GIGABIT_PROFILE.maxCap, immediateFullCapacity := true
    skipGradualRampUp := true, launchAllPartsImmediately := true }

/-- The function `createUltraUploadStrategy` of ultra.js, lines 64-82. -/
def createUltraUploadStrategy (_connectionInfo : ConnectionInfo) : Strategy :=
  { partSize := ULTRA_PROFILE.partSize, maxParallel := ULTRA_PROFILE.parallel
    maxParallelCap := ULTRA_PROFILE.maxCap, immediateFullCapacity := true
    skipGradualRampUp := true, launchAllPartsImmediately := true }

/-! ## Monitor state, tick input, tick events -/

/-- The values of the closure variable `peakResetState`. -/
inductive PeakResetState where
  | stable
  | warning
  | dropping
  | locked
  deriving DecidableEq, Repr

/-- An entry of `performanceTracker.partTimes`. -/
structure PartTime where
  partNumber : Nat
  speed : ℚ
  timestamp : Int
  deriving DecidableEq, Repr

/-- An entry pushed to `parallelAdjustmentHistory` (the `reason` text is left out). The
source reads `context.maxParallel` for `from` after it has been overwritten, so `from`
and `to` coincide. -/
structure Adjustment where
  timestamp : Int
  fromParallel : ℚ
  toParallel : ℚ
  partSpeed : ℚ
  deriving DecidableEq, Repr

/-- The closure variables of a `create*AdaptiveMonitor` call and the shared fields the
callback writes. `maxParallel` is the closure-local variable of cable.js and fiber.js,
`contextMaxParallel` is `context.maxParallel`, `partSize` and `maxParallelCap` are the
fields of `strategy`, and `cleared` records that `clearInterval(monitorInterval)` ran.
cable.js declares no `lastProgress`, `emergencyResetCounter` or `lockedPerformance`; the
cable tick never touches these fields. -/
structure MonitorState where
  avgPartSpeedHistory : List ℚ
  parallelAdjustmentHistory : List Adjustment
  lastParallelAdjustment : Int
  lastScaleDown : Int
  lowSpeedSamples : Nat
  peakPerformanceDetected : Bool
  maxParallel : ℚ
  optimalParallel : ℚ
  peakTimestamp : Option Int
  initialPeakThroughput : Option ℚ
  lastScaleTime : Int
  peakThroughputHistory : List ℚ
  throughputSmoothingHistory : List ℚ
  peakResetState : PeakResetState
  strongPerformanceSamples : Nat
  lastProgress : Int
  emergencyResetCounter : Nat
  lockedPerformance : Bool
  contextMaxParallel : ℚ
  partSize : Int
  maxParallelCap : ℚ
  cleared : Bool
  deriving DecidableEq, Repr

/-- What one run of the interval callback reads from outside the closure. -/
structure TickInput where
  now : Int
  partTimes : List PartTime
  isUploadActive : Bool
  isUploadCancelled : Bool
  activeUploads : Nat
  totalUploaded : ℚ
  uploadStartTime : Int
  fileSize : Int
  deriving DecidableEq, Repr

/-- The arguments of one `performanceTracker.updateStrategy` call. -/
structure UpdateCall where
  partSize : Int
  parallel : ℚ
  totalParts : Int
  deriving DecidableEq, Repr

/-- What one run of the callback did: one flag per log statement, the part numbers the
zombie step printed, and the `updateStrategy` calls in order. -/
structure TickEvents where
  stopping : Bool := false
  evaluated : Bool := false
  peakDetected : Bool := false
  peakUpdated : Bool := false
  performanceReinforced : Bool := false
  performanceWarning : Bool := false
  peakReinforcement : Bool := false
  peakReinforced : Bool := false
  peakLost : Bool := false
  sustainedDrop : Bool := false
  smartReset : Bool := false
  sweetSpotKept : Bool := false
  performanceDecay : Bool := false
  scaleUp : Bool := false
  scaleDown : Bool := false
  sweetSpotProtection : Bool := false
  scaleCooldown : Bool := false
  degradationUnlock : Bool := false
  lockedSkip : Bool := false
  unlocking : Bool := false
  rampUpDecided : Bool := false
  rampDownDecided : Bool := false
  adjustment : Bool := false
  zombies : List Nat := []
  noProgress : Bool := false
  stallRecovery : Bool := false
  stallIgnored : Bool := false
  emergencyReset : Bool := false
  throttled : Bool := false
  fallbackMode : Bool := false
  monitorError : Bool := false
  updates : List UpdateCall := []
  deriving DecidableEq, Repr

/-! ## JavaScript helpers -/

/-- Truthiness of a value that is `null` or a clock reading. -/
def truthyInt : Option Int → Bool
  | some t => t != 0
  | none => false

/-- Truthiness of a value that is `null` or a number. -/
def truthyNum : Option ℚ → Bool
  | some x => x != 0
  | none => false

/-- Numeric coercion: `null` becomes `0`. -/
def toNumber : Option ℚ → ℚ
  | some x => x
  | none => 0

/-- The call `xs.slice(-k)`: the last `k` entries. -/
def sliceLast {α : Type} (xs : List α) (k : Nat) : List α :=
  xs.drop (xs.length - k)

/-- The pair `h.push(x); if (h.length > n) h.shift()`. -/
def pushShift (h : List ℚ) (x : ℚ) (n : Nat) : List ℚ :=
  if (h ++ [x]).length > n then (h ++ [x]).tail else h ++ [x]

/-- The expression `Math.max(...h)` for a non-empty `h`. -/
def maxOf (h : List ℚ) : ℚ :=
  h.foldl max (h.headD 0)

/-- The expression `weights[i] || 0.05`. -/
def weightAt (weights : List ℚ) (i : Nat) : ℚ :=
  match weights.get? i with
  | some w => if w = 0 then 0.05 else w
  | none => 0.05

/-- The loop that accumulates `weightedSum`: entry `i` counted from the newest. -/
def weightedSum (weights : List ℚ) (h : List ℚ) : ℚ :=
  ((List.range h.length).map (fun i => h.reverse.getD i 0 * weightAt weights i)).sum

/-- The loop that accumulates `totalWeight`. -/
def totalWeight (weights : List ℚ) (h : List ℚ) : ℚ :=
  ((List.range h.length).map (fun i => weightAt weights i)).sum

/-- The value `averageThroughput = weightedSum / totalWeight`. -/
def averageThroughput (weights : List ℚ) (h : List ℚ) : ℚ :=
  weightedSum weights h / totalWeight weights h

/-- The value `avgPartSpeed`: mean speed of the recent parts. -/
def avgPartSpeed (recentParts : List PartTime) : ℚ :=
  (recentParts.map (fun part => part.speed)).sum / recentParts.length

/-- The value `realThroughputMbps`, also called `currentThroughput`. The speeds are added
as exact rationals, where the code adds IEEE doubles. -/
def realThroughputMbps (recentParts : List PartTime) : ℚ :=
  (recentParts.map (fun part => part.speed * 8)).sum

/-- The value `smoothedPartSpeed`: mean of `avgPartSpeedHistory`. -/
def smoothedPartSpeed (s : MonitorState) : ℚ :=
  s.avgPartSpeedHistory.sum / s.avgPartSpeedHistory.length

/-- The third argument of `updateStrategy`: `Math.ceil(fileSize / partSize)`. -/
def totalPartsOf (fileSize partSize : Int) : Int :=
  Int.ceil ((fileSize : ℚ) / (partSize : ℚ))

/-- The `updateStrategy` call a step makes after it changed `context.maxParallel`. -/
def updateCall (i : TickInput) (s : MonitorState) : UpdateCall :=
  { partSize := s.partSize, parallel := s.contextMaxParallel
    totalParts := totalPartsOf i.fileSize s.partSize }

/-! ## Steps shared by several monitors

Each step is one commented block of the callback. A step returns the state after it and
the flags of the log statements it ran. -/

/-- The statements `avgPartSpeedHistory.push(avgPartSpeed)` and the bounded `shift()`. -/
def recordAvgPartSpeed (historyMax : Nat) (recentParts : List PartTime)
    (s : MonitorState) : MonitorState :=
  { s with
    avgPartSpeedHistory := pushShift s.avgPartSpeedHistory (avgPartSpeed recentParts) historyMax }

/-- The block "PEAK PERFORMANCE DETECTION" of dsl.js 127-134, enterprise.js 128-135 and
fiber.js 129-136. -/
def peakDetection (P : StallProfile) (peakSamples : Nat) (now : Int) (currentThroughput : ℚ)
    (count : Nat) (s : MonitorState) : MonitorState × Bool :=
  if currentThroughput ≥ P.peakDetectionThreshold ∧ s.peakPerformanceDetected = false
      ∧ count ≥ peakSamples then
    ({ s with
       peakPerformanceDetected := true
       optimalParallel := s.contextMaxParallel
       peakTimestamp := some now
       initialPeakThroughput := some currentThroughput
       lastProgress := now }, true)
  else (s, false)

/-- The block "REINFORCEMENT LOCK-IN" (dsl.js 137-144, enterprise.js 138-145, fiber.js
139-146, gigabit.js / ultra.js 146-153). -/
def reinforcementLock (lockThreshold : ℚ) (sampleCount : Nat) (currentThroughput : ℚ)
    (s : MonitorState) : MonitorState × Bool :=
  if s.peakPerformanceDetected = true ∧ s.peakResetState = PeakResetState.stable
      ∧ currentThroughput > lockThreshold then
    if s.strongPerformanceSamples + 1 ≥ sampleCount ∧ s.lockedPerformance = false then
      ({ s with
         strongPerformanceSamples := s.strongPerformanceSamples + 1
         lockedPerformance := true
         peakResetState := PeakResetState.locked }, true)
    else ({ s with strongPerformanceSamples := s.strongPerformanceSamples + 1 }, false)
  else (s, false)

/-- The guard `peakPerformanceDetected && peakTimestamp && initialPeakThroughput` of the
block "SMART PEAK DECAY". -/
def decayGuard (s : MonitorState) : Bool :=
  s.peakPerformanceDetected && truthyInt s.peakTimestamp && truthyNum s.initialPeakThroughput

/-- The statements `throughputSmoothingHistory.push(currentThroughput)` and the bounded
`shift()`. -/
def recordThroughput (smoothingMax : Nat) (currentThroughput : ℚ)
    (s : MonitorState) : MonitorState :=
  { s with
    throughputSmoothingHistory :=
      pushShift s.throughputSmoothingHistory currentThroughput smoothingMax }

/-- The "State machine for hysteresis": the three-way `if` on `averageThroughput`. -/
def hysteresis (dropFraction recoveryFraction warningFraction : ℚ)
    (initialPeak average : ℚ) (s : MonitorState) : MonitorState :=
  if average < dropFraction * initialPeak then
    { s with peakResetState := PeakResetState.dropping }
  else if average > recoveryFraction * initialPeak then
    { s with
      peakResetState := PeakResetState.stable
      strongPerformanceSamples := s.strongPerformanceSamples + 1 }
  else if average < warningFraction * initialPeak
      ∧ s.peakResetState = PeakResetState.stable then
    { s with peakResetState := PeakResetState.warning, strongPerformanceSamples := 0 }
  else s

/-- The block "Peak Reinforcement" that rewinds `peakTimestamp` ("extending sweet spot
protection"). -/
def peakReinforcement (fraction : ℚ) (after : Int) (strong : Nat) (rewind : Int)
    (now timeSincePeak : Int) (initialPeak average : ℚ)
    (s : MonitorState) : MonitorState × Bool :=
  if average > fraction * initialPeak ∧ timeSincePeak > after
      ∧ s.strongPerformanceSamples ≥ strong then
    ({ s with peakTimestamp := some (now - rewind), strongPerformanceSamples := 0 }, true)
  else (s, false)

/-- The second "Peak Reinforcement" block of dsl.js 192-196 and enterprise.js 193-197
("maintaining sweet spot"). -/
def peakReinforced (recoveryFraction : ℚ) (strong : Nat) (now : Int)
    (initialPeak average : ℚ) (s : MonitorState) : MonitorState × Bool :=
  if average ≥ recoveryFraction * initialPeak ∧ s.strongPerformanceSamples ≥ strong then
    ({ s with peakTimestamp := some now }, true)
  else (s, false)

/-- The block "Drop peak detection if performance has degraded for too long" of dsl.js
199-206 and enterprise.js 200-207. -/
def peakLost (P : StallProfile) (timeSincePeak : Int) (s : MonitorState) :
    MonitorState × Bool :=
  if s.peakResetState = PeakResetState.dropping
      ∧ timeSincePeak > P.sweetSpotProtectionDuration then
    ({ s with
       peakPerformanceDetected := false
       initialPeakThroughput := none
       peakTimestamp := none
       strongPerformanceSamples := 0
       lockedPerformance := false }, true)
  else (s, false)

/-- The block "Enhanced reset logic with hysteresis" of dsl.js 209-228 and enterprise.js
210-228: past the ceiling and in phase "dropping", reduce the parallelism if the
scale-down cooldown has passed. The flags are (sustained drop applied, protection kept). -/
def sustainedDrop (P : StallProfile) (ceiling : Int) (now timeSincePeak : Int)
    (s : MonitorState) : MonitorState × Bool × Bool :=
  if timeSincePeak > ceiling then
    if s.peakResetState = PeakResetState.dropping then
      if now - s.lastScaleDown > P.scaleDownCooldown then
        ({ s with
           contextMaxParallel := max (s.contextMaxParallel - P.throttleAmount) P.minParallel
           lastScaleDown := now
           peakPerformanceDetected := false
           lockedPerformance := false
           strongPerformanceSamples := 0
           peakResetState := PeakResetState.stable
           throughputSmoothingHistory := [] }, true, false)
      else (s, false, false)
    else (s, false, true)
  else (s, false, false)

/-- The reset of cable.js 174-188 and gigabit.js / ultra.js 203-219: past the ceiling and
in phase "dropping", forget the peak. The flags are (smart reset, protection kept). -/
def smartReset (ceiling : Int) (timeSincePeak : Int) (s : MonitorState) :
    MonitorState × Bool × Bool :=
  if timeSincePeak > ceiling then
    if s.peakResetState = PeakResetState.dropping then
      ({ s with
         peakPerformanceDetected := false
         peakTimestamp := none
         initialPeakThroughput := none
         peakResetState := PeakResetState.stable
         strongPerformanceSamples := 0
         throughputSmoothingHistory := [] }, true, false)
    else (s, false, true)
  else (s, false, false)

/-- The block "THRASHING PROTECTION"; `current` is the parallelism the monitor reads
(`context.maxParallel`, in cable.js the local `maxParallel`). -/
def thrashingProtection (parallelDefault : ℚ) (historyMax window : Nat) (fraction : ℚ)
    (currentThroughput current : ℚ) (s : MonitorState) : MonitorState × Bool :=
  if s.peakPerformanceDetected = true
      ∧ (pushShift s.peakThroughputHistory currentThroughput historyMax).length ≥ window then
    if (sliceLast (pushShift s.peakThroughputHistory currentThroughput historyMax) window).sum
          / (window : ℚ)
        < maxOf (pushShift s.peakThroughputHistory currentThroughput historyMax) * fraction
        ∧ current > s.optimalParallel then
      ({ s with
         peakThroughputHistory := pushShift s.peakThroughputHistory currentThroughput historyMax
         optimalParallel := max (s.optimalParallel - 1) parallelDefault }, true)
    else
      ({ s with
         peakThroughputHistory :=
           pushShift s.peakThroughputHistory currentThroughput historyMax }, false)
  else
    ({ s with
       peakThroughputHistory :=
         pushShift s.peakThroughputHistory currentThroughput historyMax }, false)

/-- The block "ZOMBIE PART KILLER": the part numbers it prints. -/
def zombieParts (P : StallProfile) (now : Int) (partTimes : List PartTime) : List Nat :=
  (partTimes.filter
    (fun part => part.speed < P.minPartSpeed ∧ now - part.timestamp > P.minPartTimeout)).map
    (fun part => part.partNumber)

/-- The block "NO-PROGRESS WATCHDOG" of dsl.js 282-291, enterprise.js 281-290 and fiber.js
303-312. The flags are (watchdog fired, parallelism reduced). -/
def noProgressWatchdog (P : StallProfile) (stallStep : ℚ) (now : Int)
    (s : MonitorState) : MonitorState × Bool × Bool :=
  if now - s.lastProgress > P.noProgressTimeout then
    if s.contextMaxParallel > P.minParallel then
      ({ s with
         contextMaxParallel := max (s.contextMaxParallel - stallStep) P.minParallel
         lastProgress := now }, true, true)
    else ({ s with lastProgress := now }, true, false)
  else (s, false, false)

/-- The block "EMERGENCY RESET" (dsl.js 294-313, enterprise.js 293-312, fiber.js 315-334,
gigabit.js / ultra.js 356-375); `count` is `recentParts.length`. -/
def emergencyReset (P : StallProfile) (now : Int) (currentThroughput : ℚ) (count : Nat)
    (s : MonitorState) : MonitorState × Bool :=
  if currentThroughput < P.emergencyResetThreshold then
    if s.emergencyResetCounter + 1 ≥ 3 then
      ({ s with
         peakPerformanceDetected := false
         lockedPerformance := false
         peakResetState := PeakResetState.stable
         strongPerformanceSamples := 0
         emergencyResetCounter := 0
         contextMaxParallel := P.parallel }, true)
    else ({ s with emergencyResetCounter := s.emergencyResetCounter + 1 }, false)
  else if count > 0 then
    ({ s with emergencyResetCounter := 0, lastProgress := now }, false)
  else ({ s with emergencyResetCounter := 0 }, false)

/-- Whether the fallback makes parts smaller (`partSize > guard`, `Math.max(partSize -
step, bound)`) or larger (`partSize < guard`, `Math.min(partSize + step, bound)`). -/
inductive FallbackDirection where
  | shrink
  | grow
  deriving DecidableEq, Repr

/-- The constants of one "THROTTLED NETWORK AUTO-FALLBACK" block. -/
structure FallbackRule where
  graceMinutes : ℚ
  realExpectedSpeed : ℚ
  speedFraction : ℚ
  direction : FallbackDirection
  guard : Int
  step : Int
  bound : Int
  capFactor : ℚ
  capFloor : ℚ
  deriving DecidableEq, Repr

/-- The value `elapsedMinutes`. -/
def elapsedMinutes (i : TickInput) : ℚ :=
  ((i.now - i.uploadStartTime : Int) : ℚ) / 60000

/-- The value `overallSpeed` in MB/s. -/
def overallSpeed (i : TickInput) : ℚ :=
  (i.totalUploaded / 1024 / 1024) / (((i.now - i.uploadStartTime : Int) : ℚ) / 1000)

/-- The outer condition of the fallback block. -/
def throttledDetected (R : FallbackRule) (i : TickInput) : Prop :=
  elapsedMinutes i > R.graceMinutes ∧ overallSpeed i < R.realExpectedSpeed * R.speedFraction

instance (R : FallbackRule) (i : TickInput) : Decidable (throttledDetected R i) := by
  unfold throttledDetected; infer_instance

/-- The inner condition of the fallback block on `strategy.partSize`. -/
def fallbackGuard (R : FallbackRule) (s : MonitorState) : Prop :=
  match R.direction with
  | FallbackDirection.shrink => s.partSize > R.guard
  | FallbackDirection.grow => s.partSize < R.guard

instance (R : FallbackRule) (s : MonitorState) : Decidable (fallbackGuard R s) := by
  unfold fallbackGuard; cases R.direction <;> infer_instance

/-- The new `strategy.partSize` of the fallback block. -/
def fallbackPartSize (R : FallbackRule) (partSize : Int) : Int :=
  match R.direction with
  | FallbackDirection.shrink => max (partSize - R.step) R.bound
  | FallbackDirection.grow => min (partSize + R.step) R.bound

/-- The block "THROTTLED NETWORK AUTO-FALLBACK" of every monitor but cable. The flags are
(throttled network detected, fallback applied). -/
def throttledFallback (R : FallbackRule) (i : TickInput) (s : MonitorState) :
    MonitorState × Bool × Bool :=
  if throttledDetected R i then
    if fallbackGuard R s then
      ({ s with
         partSize := fallbackPartSize R s.partSize
         contextMaxParallel :=
           min s.contextMaxParallel (max (s.maxParallelCap * R.capFactor) R.capFloor) },
        true, true)
    else (s, true, false)
  else (s, false, false)

/-! ## DSL and enterprise monitors

dsl.js 82-340 and enterprise.js 83-339 are the same text up to the constants collected in
`DETuning` and the table they read. -/

/-- The literal constants in the body of the DSL / enterprise callback. -/
structure DETuning where
  recentWindow : Nat
  minSamples : Nat
  speedHistoryMax : Nat
  peakSamples : Nat
  smoothingMax : Nat
  weights : List ℚ
  dropFraction : ℚ
  recoveryFraction : ℚ
  warningFraction : ℚ
  warningAfter : Int
  reinforcementFraction : ℚ
  reinforcementAfter : Int
  reinforcementStrong : Nat
  reinforcementRewind : Int
  reinforcedStrong : Nat
  decayCeiling : Int
  thrashMax : Nat
  thrashWindow : Nat
  thrashFraction : ℚ
  stallStep : ℚ
  fallback : FallbackRule
  deriving DecidableEq, Repr

/-- The constants of dsl.js: `slice(-5)`, `>= 2`, history 4, peak at 3 samples, weights
`[0.5, 0.3, 0.15, 0.05]`, band 0.60 / 0.70 / 0.65, warning after 20 s, reinforcement
`0.75`, 30 s, 2 samples, rewind 10 s, ceiling 45 s, thrashing 6 / 3 / 0.75, stall step 1,
fallback after 1.0 min below `3.1 * 0.5` MB/s: parts above 3 MB shrink by 1 MB, cap
`max(cap * 0.6, 1)`. -/
def dslTuning : DETuning where
  recentWindow := 5
  minSamples := 2
  speedHistoryMax := 4
  peakSamples := 3
  smoothingMax := 4
  weights := [0.5, 0.3, 0.15, 0.05]
  dropFraction := 0.60
  recoveryFraction := 0.70
  warningFraction := 0.65
  warningAfter := 20000
  reinforcementFraction := 0.75
  reinforcementAfter := 30000
  reinforcementStrong := 2
  reinforcementRewind := 10000
  reinforcedStrong := 2
  decayCeiling := 45000
  thrashMax := 6
  thrashWindow := 3
  thrashFraction := 0.75
  stallStep := 1
  fallback :=
    { graceMinutes := 1.0, realExpectedSpeed := 3.1, speedFraction := 0.5
      direction := FallbackDirection.shrink, guard := 3 * 1024 * 1024
      step := 1 * 1024 * 1024, bound := 3 * 1024 * 1024, capFactor := 0.6, capFloor := 1 }

/-- The constants of enterprise.js: `slice(-12)`, `>= 4`, history 6, peak at 6 samples,
weights `[0.4, 0.25, 0.15, 0.1, 0.05, 0.05]`, band 0.65 / 0.75 / 0.70, warning after 40 s,
reinforcement `0.8`, 60 s, 4 samples, rewind 30 s, second reinforcement at 3 samples,
ceiling 120 s, thrashing 12 / 6 / 0.8, stall step 2, fallback after 0.5 min below
`6.25 * 0.4` MB/s: parts below 40 MB grow by 5 MB up to 50 MB, cap `max(cap * 0.8, 6)`. -/
def enterpriseTuning : DETuning where
  recentWindow := 12
  minSamples := 4
  speedHistoryMax := 6
  peakSamples := 6
  smoothingMax := 6
  weights := [0.4, 0.25, 0.15, 0.1, 0.05, 0.05]
  dropFraction := 0.65
  recoveryFraction := 0.75
  warningFraction := 0.70
  warningAfter := 40000
  reinforcementFraction := 0.8
  reinforcementAfter := 60000
  reinforcementStrong := 4
  reinforcementRewind := 30000
  reinforcedStrong := 3
  decayCeiling := 120000
  thrashMax := 12
  thrashWindow := 6
  thrashFraction := 0.8
  stallStep := 2
  fallback :=
    { graceMinutes := 0.5, realExpectedSpeed := 6.25, speedFraction := 0.4
      direction := FallbackDirection.grow, guard := 40 * 1024 * 1024
      step := 5 * 1024 * 1024, bound := 50 * 1024 * 1024, capFactor := 0.8, capFloor := 6 }

/-- The flags of a "SMART PEAK DECAY" block. -/
structure DecayEvents where
  performanceWarning : Bool := false
  peakReinforcement : Bool := false
  peakReinforced : Bool := false
  peakLost : Bool := false
  sustainedDrop : Bool := false
  smartReset : Bool := false
  sweetSpotKept : Bool := false
  threw : Bool := false
  deriving DecidableEq, Repr

/-- The block "SMART PEAK DECAY" of dsl.js 147-229 and enterprise.js 148-229.
`timeSincePeak` and the three thresholds are computed once, before the block changes
`peakTimestamp` or `initialPeakThroughput`. -/
def deDecay (P : StallProfile) (T : DETuning) (now : Int) (currentThroughput : ℚ)
    (s : MonitorState) : MonitorState × DecayEvents :=
  if decayGuard s = true then
    let timeSincePeak := now - s.peakTimestamp.getD 0
    let initialPeak := toNumber s.initialPeakThroughput
    let s1 := recordThroughput T.smoothingMax currentThroughput s
    let average := averageThroughput T.weights s1.throughputSmoothingHistory
    let s2 := hysteresis T.dropFraction T.recoveryFraction T.warningFraction
      initialPeak average s1
    let r3 := peakReinforcement T.reinforcementFraction T.reinforcementAfter
      T.reinforcementStrong T.reinforcementRewind now timeSincePeak initialPeak average s2
    let r4 := peakReinforced T.recoveryFraction T.reinforcedStrong now initialPeak average r3.1
    let r5 := peakLost P timeSincePeak r4.1
    let r6 := sustainedDrop P T.decayCeiling now timeSincePeak r5.1
    (r6.1,
      { performanceWarning :=
          decide (s2.peakResetState = PeakResetState.warning ∧ timeSincePeak > T.warningAfter)
        peakReinforcement := r3.2
        peakReinforced := r4.2
        peakLost := r5.2
        sustainedDrop := r6.2.1
        sweetSpotKept := r6.2.2 })
  else (s, {})

/-- The block "Adaptive scaling logic (only if not in sweet spot)" of dsl.js 246-268 and
enterprise.js 246-268. The flags are (scale up, scale down). -/
def deScaling (P : StallProfile) (now : Int) (avgSpeedPerPart : ℚ) (s : MonitorState) :
    MonitorState × Bool × Bool :=
  if s.peakPerformanceDetected = false ∨ s.lockedPerformance = false then
    if avgSpeedPerPart ≥ P.rampUpThreshold ∧ s.contextMaxParallel < s.maxParallelCap
        ∧ now - s.lastParallelAdjustment > P.scaleUpCooldown then
      ({ s with
         contextMaxParallel := s.contextMaxParallel + 1
         lastParallelAdjustment := now }, true, false)
    else if avgSpeedPerPart ≤ P.rampDownThreshold then
      if s.lowSpeedSamples + 1 ≥ P.lowSpeedSampleThreshold
          ∧ now - s.lastScaleDown > P.scaleDownCooldown then
        ({ s with
           contextMaxParallel := max (s.contextMaxParallel - P.throttleAmount) P.minParallel
           lowSpeedSamples := 0
           lastScaleDown := now
           lastParallelAdjustment := now }, false, true)
      else ({ s with lowSpeedSamples := s.lowSpeedSamples + 1 }, false, false)
    else ({ s with lowSpeedSamples := 0 }, false, false)
  else (s, false, false)

/-- The evaluated body of the DSL / enterprise callback (`recentParts.length` has passed
the sample check), in source order: smoothing, peak detection, reinforcement lock-in, peak decay,
thrashing protection, scaling, zombie killer, watchdog, emergency reset, fallback. -/
def deBody (P : StallProfile) (T : DETuning) (i : TickInput) (recentParts : List PartTime)
    (s : MonitorState) : MonitorState × TickEvents :=
  let s1 := recordAvgPartSpeed T.speedHistoryMax recentParts s
  let smoothed := smoothedPartSpeed s1
  let currentThroughput := realThroughputMbps recentParts
  let r2 := peakDetection P T.peakSamples i.now currentThroughput recentParts.length s1
  let r3 := reinforcementLock P.peakDetectionThreshold P.reinforcementSampleCount
    currentThroughput r2.1
  let r4 := deDecay P T i.now currentThroughput r3.1
  let r5 := thrashingProtection P.parallel T.thrashMax T.thrashWindow T.thrashFraction
    currentThroughput r4.1.contextMaxParallel r4.1
  let r6 := deScaling P i.now smoothed r5.1
  let r7 := noProgressWatchdog P T.stallStep i.now r6.1
  let r8 := emergencyReset P i.now currentThroughput recentParts.length r7.1
  let r9 := throttledFallback T.fallback i r8.1
  (r9.1,
    { evaluated := true
      peakDetected := r2.2
      performanceReinforced := r3.2
      performanceWarning := r4.2.performanceWarning
      peakReinforcement := r4.2.peakReinforcement
      peakReinforced := r4.2.peakReinforced
      peakLost := r4.2.peakLost
      sustainedDrop := r4.2.sustainedDrop
      sweetSpotKept := r4.2.sweetSpotKept
      performanceDecay := r5.2
      scaleUp := r6.2.1
      scaleDown := r6.2.2
      zombies := zombieParts P i.now i.partTimes
      noProgress := r7.2.1
      stallRecovery := r7.2.2
      emergencyReset := r8.2
      throttled := r9.2.1
      fallbackMode := r9.2.2
      updates :=
        (if r4.2.sustainedDrop then [updateCall i r4.1] else [])
          ++ (if r6.2.1 ∨ r6.2.2 then [updateCall i r6.1] else [])
          ++ (if r7.2.2 then [updateCall i r7.1] else [])
          ++ (if r8.2 then [updateCall i r8.1] else [])
          ++ (if r9.2.2 then [updateCall i r9.1] else []) })

/-- One run of the DSL / enterprise interval callback. A cleared interval runs no more;
a cancelled or inactive upload clears it; with no active upload and no recorded part, or
with fewer recent parts than `minSamples`, the callback returns without doing anything. -/
def deTick (P : StallProfile) (T : DETuning) (s : MonitorState) (i : TickInput) :
    MonitorState × TickEvents :=
  if s.cleared = true then (s, {})
  else if i.isUploadActive = false ∨ i.isUploadCancelled = true then
    ({ s with cleared := true }, { stopping := true })
  else if i.activeUploads = 0 ∧ i.partTimes.length = 0 then (s, {})
  else if (sliceLast i.partTimes T.recentWindow).length ≥ T.minSamples then
    deBody P T i (sliceLast i.partTimes T.recentWindow) s
  else (s, {})

/-- The closure variables right after `createDslAdaptiveMonitor`,
`createEnterpriseAdaptiveMonitor`, `createFiberAdaptiveMonitor` or
`createCableAdaptiveMonitor` ran at clock `createdAt`, with `context.maxParallel` as the
caller left it. -/
def createMonitorState (strategy : Strategy) (contextMaxParallel : ℚ) (createdAt : Int) :
    MonitorState where
  avgPartSpeedHistory := []
  parallelAdjustmentHistory := []
  lastParallelAdjustment := 0
  lastScaleDown := 0
  lowSpeedSamples := 0
  peakPerformanceDetected := false
  maxParallel := strategy.maxParallel
  optimalParallel := strategy.maxParallel
  peakTimestamp := none
  initialPeakThroughput := none
  lastScaleTime := 0
  peakThroughputHistory := []
  throughputSmoothingHistory := []
  peakResetState := PeakResetState.stable
  strongPerformanceSamples := 0
  lastProgress := createdAt
  emergencyResetCounter := 0
  lockedPerformance := false
  contextMaxParallel := contextMaxParallel
  partSize := strategy.partSize
  maxParallelCap := strategy.maxParallelCap
  cleared := false

/-- The monitor `createDslAdaptiveMonitor` of dsl.js 82-340: its initial state. -/
def createDslAdaptiveMonitor (strategy : Strategy) (contextMaxParallel : ℚ)
    (createdAt : Int) : MonitorState :=
  createMonitorState strategy contextMaxParallel createdAt

/-- One run of the callback of `createDslAdaptiveMonitor`. -/
def dslTick (s : MonitorState) (i : TickInput) : MonitorState × TickEvents :=
  deTick DSL_PROFILE dslTuning s i

/-- The monitor `createEnterpriseAdaptiveMonitor` of enterprise.js 83-339: its initial
state. -/
def createEnterpriseAdaptiveMonitor (strategy : Strategy) (contextMaxParallel : ℚ)
    (createdAt : Int) : MonitorState :=
  createMonitorState strategy contextMaxParallel createdAt

/-- One run of the callback of `createEnterpriseAdaptiveMonitor`. -/
def enterpriseTick (s : MonitorState) (i : TickInput) : MonitorState × TickEvents :=
  deTick ENTERPRISE_PROFILE enterpriseTuning s i

/-! ## Ramp decisions of the fiber, cable, gigabit and ultra monitors -/

/-- The locals `shouldAdjust` and `newParallel` and the log statements of a ramp block. -/
structure RampDecision where
  shouldAdjust : Bool := false
  newParallel : ℚ
  sweetSpotProtection : Bool := false
  scaleCooldown : Bool := false
  rampUp : Bool := false
  rampDown : Bool := false
  degradationUnlock : Bool := false
  lockedSkip : Bool := false
  unlocking : Bool := false
  deriving DecidableEq, Repr

/-- The block "Apply adjustment with throttling" of fiber.js 274-290 and gigabit.js /
ultra.js 307-324: write `context.maxParallel` unless the debounce window is open. -/
def applyAdjustment (debounce : Int) (now : Int) (partSpeed : ℚ) (d : RampDecision)
    (s : MonitorState) : MonitorState × Bool :=
  if d.shouldAdjust = true ∧ now - s.lastParallelAdjustment ≥ debounce then
    ({ s with
       contextMaxParallel := d.newParallel
       lastParallelAdjustment := now
       parallelAdjustmentHistory := s.parallelAdjustmentHistory ++
         [{ timestamp := now, fromParallel := d.newParallel, toParallel := d.newParallel
            partSpeed := partSpeed }] }, true)
  else (s, false)

/-! ## Fiber monitor -/

/-- The block "SMART PEAK DECAY" of fiber.js 149-213. Past 90 s in phase "dropping" the
source evaluates `now - lastScaleDown` (line 196) although `const now` is declared only at
line 230 of the same block: the read throws a `ReferenceError`, reported as `threw`. -/
def fiberDecay (now : Int) (currentThroughput : ℚ) (s : MonitorState) :
    MonitorState × DecayEvents :=
  if decayGuard s = true then
    let timeSincePeak := now - s.peakTimestamp.getD 0
    let initialPeak := toNumber s.initialPeakThroughput
    let s1 := recordThroughput 5 currentThroughput s
    let average := averageThroughput [0.4, 0.3, 0.15, 0.1, 0.05] s1.throughputSmoothingHistory
    let s2 := hysteresis 0.70 0.80 0.75 initialPeak average s1
    let r3 := peakReinforcement 0.85 45000 3 20000 now timeSincePeak initialPeak average s2
    (r3.1,
      { performanceWarning :=
          decide (s2.peakResetState = PeakResetState.warning ∧ timeSincePeak > 30000)
        peakReinforcement := r3.2
        threw :=
          decide (timeSincePeak > 90000 ∧ r3.1.peakResetState = PeakResetState.dropping)
        sweetSpotKept :=
          decide (timeSincePeak > 90000 ∧ r3.1.peakResetState ≠ PeakResetState.dropping) })
  else (s, {})

/-- The statement "Track sustained low performance" of fiber.js 241-245. -/
def fiberTrackLow (smoothed : ℚ) (s : MonitorState) : MonitorState :=
  if smoothed < FIBER_PROFILE.rampDownThreshold then
    { s with lowSpeedSamples := s.lowSpeedSamples + 1 }
  else { s with lowSpeedSamples := 0 }

/-- The blocks "Ramp UP logic" and "Ramp DOWN logic (but not if locked)" of fiber.js
248-271. -/
def fiberRamp (now : Int) (smoothed : ℚ) (s : MonitorState) : MonitorState × RampDecision :=
  if smoothed > FIBER_PROFILE.rampUpThreshold ∧ s.contextMaxParallel < s.maxParallelCap then
    if s.peakPerformanceDetected = true ∧ s.contextMaxParallel ≥ s.optimalParallel then
      (s, { newParallel := s.contextMaxParallel, sweetSpotProtection := true })
    else if now - s.lastScaleTime < FIBER_PROFILE.scaleUpCooldown then
      (s, { newParallel := s.contextMaxParallel, scaleCooldown := true })
    else
      ({ s with lowSpeedSamples := 0, lastScaleTime := now },
        { shouldAdjust := true
          newParallel :=
            min (s.contextMaxParallel + (if s.peakPerformanceDetected = true then 1 else 2))
              s.maxParallelCap
          rampUp := true })
  else if s.lowSpeedSamples ≥ FIBER_PROFILE.lowSpeedSampleThreshold
      ∧ s.contextMaxParallel > FIBER_PROFILE.minParallel
      ∧ now - s.lastScaleDown ≥ FIBER_PROFILE.scaleDownCooldown
      ∧ s.lockedPerformance = false then
    ({ s with lastScaleDown := now, lowSpeedSamples := 0 },
      { shouldAdjust := true
        newParallel := max (s.contextMaxParallel - 2) FIBER_PROFILE.minParallel
        rampDown := true })
  else (s, { newParallel := s.contextMaxParallel })

/-- The constants of the fallback block of fiber.js 337-353. -/
def fiberFallbackRule : FallbackRule :=
  { graceMinutes := 0.5, realExpectedSpeed := 6.3, speedFraction := 0.4
    direction := FallbackDirection.grow, guard := 40 * 1024 * 1024
    step := 5 * 1024 * 1024, bound := 50 * 1024 * 1024, capFactor := 0.7, capFloor := 8 }

/-- The part of the fiber callback after the decay block, fiber.js 215-353: thrashing
protection, ramp logic, adjustment, zombie killer, watchdog, emergency reset, fallback. -/
def fiberAfterDecay (i : TickInput) (recentParts : List PartTime)
    (smoothed currentThroughput : ℚ) (s : MonitorState) : MonitorState × TickEvents :=
  let r5 := thrashingProtection FIBER_PROFILE.parallel 10 5 0.85
    currentThroughput s.contextMaxParallel s
  let r6 := fiberRamp i.now smoothed (fiberTrackLow smoothed r5.1)
  let r7 := applyAdjustment 5000 i.now smoothed r6.2 r6.1
  let r8 := noProgressWatchdog FIBER_PROFILE 2 i.now r7.1
  let r9 := emergencyReset FIBER_PROFILE i.now currentThroughput recentParts.length r8.1
  let r10 := throttledFallback fiberFallbackRule i r9.1
  (r10.1,
    { evaluated := true
      performanceDecay := r5.2
      sweetSpotProtection := r6.2.sweetSpotProtection
      scaleCooldown := r6.2.scaleCooldown
      rampUpDecided := r6.2.rampUp
      rampDownDecided := r6.2.rampDown
      adjustment := r7.2
      zombies := zombieParts FIBER_PROFILE i.now i.partTimes
      noProgress := r8.2.1
      stallRecovery := r8.2.2
      emergencyReset := r9.2
      throttled := r10.2.1
      fallbackMode := r10.2.2
      updates :=
        (if r7.2 then [updateCall i r7.1] else [])
          ++ (if r8.2.2 then [updateCall i r8.1] else [])
          ++ (if r9.2 then [updateCall i r9.1] else [])
          ++ (if r10.2.2 then [updateCall i r10.1] else []) })

/-- The evaluated body of the fiber callback, fiber.js 119-353. When the decay block
throws, the `catch` of line 355 ends the run: later steps do not happen. -/
def fiberBody (i : TickInput) (recentParts : List PartTime) (s : MonitorState) :
    MonitorState × TickEvents :=
  let s1 := recordAvgPartSpeed 5 recentParts s
  let smoothed := smoothedPartSpeed s1
  let currentThroughput := realThroughputMbps recentParts
  let r2 := peakDetection FIBER_PROFILE 6 i.now currentThroughput recentParts.length s1
  let r3 := reinforcementLock FIBER_PROFILE.peakDetectionThreshold
    FIBER_PROFILE.reinforcementSampleCount currentThroughput r2.1
  let r4 := fiberDecay i.now currentThroughput r3.1
  if r4.2.threw = true then
    (r4.1,
      { evaluated := true
        peakDetected := r2.2
        performanceReinforced := r3.2
        performanceWarning := r4.2.performanceWarning
        peakReinforcement := r4.2.peakReinforcement
        monitorError := true })
  else
    ((fiberAfterDecay i recentParts smoothed currentThroughput r4.1).1,
      { (fiberAfterDecay i recentParts smoothed currentThroughput r4.1).2 with
        peakDetected := r2.2
        performanceReinforced := r3.2
        performanceWarning := r4.2.performanceWarning
        peakReinforcement := r4.2.peakReinforcement
        sweetSpotKept := r4.2.sweetSpotKept })

/-- One run of the callback of `createFiberAdaptiveMonitor`, fiber.js 103-358. -/
def fiberTick (s : MonitorState) (i : TickInput) : MonitorState × TickEvents :=
  if s.cleared = true then (s, {})
  else if i.isUploadActive = false ∨ i.isUploadCancelled = true then
    ({ s with cleared := true }, { stopping := true })
  else if i.activeUploads = 0 ∧ i.partTimes.length = 0 then (s, {})
  else if (sliceLast i.partTimes 8).length ≥ 3 then
    fiberBody i (sliceLast i.partTimes 8) s
  else (s, {})

/-- The monitor `createFiberAdaptiveMonitor` of fiber.js 83-361: its initial state. -/
def createFiberAdaptiveMonitor (strategy : Strategy) (contextMaxParallel : ℚ)
    (createdAt : Int) : MonitorState :=
  createMonitorState strategy contextMaxParallel createdAt

/-! ## Cable monitor

cable.js keeps the parallelism in its own variable `maxParallel`; it never reads or writes
`context.maxParallel`. -/

/-- The block "PEAK PERFORMANCE DETECTION" of cable.js 120-126. -/
def cablePeakDetection (now : Int) (currentThroughput : ℚ) (count : Nat)
    (s : MonitorState) : MonitorState × Bool :=
  if currentThroughput ≥ CABLE_PROFILE.peakDetectionThreshold
      ∧ s.peakPerformanceDetected = false ∧ count ≥ 4 then
    ({ s with
       peakPerformanceDetected := true
       optimalParallel := s.maxParallel
       peakTimestamp := some now
       initialPeakThroughput := some currentThroughput }, true)
  else (s, false)

/-- The block "SMART PEAK DECAY" of cable.js 129-189. -/
def cableDecay (now : Int) (currentThroughput : ℚ) (s : MonitorState) :
    MonitorState × DecayEvents :=
  if decayGuard s = true then
    let timeSincePeak := now - s.peakTimestamp.getD 0
    let initialPeak := toNumber s.initialPeakThroughput
    let s1 := recordThroughput 5 currentThroughput s
    let average := averageThroughput [0.4, 0.3, 0.15, 0.1, 0.05] s1.throughputSmoothingHistory
    let s2 := hysteresis 0.65 0.75 0.70 initialPeak average s1
    let r3 := peakReinforcement 0.8 35000 3 15000 now timeSincePeak initialPeak average s2
    let r4 := smartReset 60000 timeSincePeak r3.1
    (r4.1,
      { performanceWarning :=
          decide (s2.peakResetState = PeakResetState.warning ∧ timeSincePeak > 25000)
        peakReinforcement := r3.2
        smartReset := r4.2.1
        sweetSpotKept := r4.2.2 })
  else (s, {})

/-- Each of the two identical statements that track low speed, cable.js 212-216 and
224-228; the callback runs both. -/
def cableTrackLow (smoothed : ℚ) (s : MonitorState) : MonitorState :=
  if smoothed < CABLE_PROFILE.rampDownThreshold then
    { s with lowSpeedSamples := s.lowSpeedSamples + 1 }
  else { s with lowSpeedSamples := 0 }

/-- The blocks "Ramp UP logic" and "Ramp DOWN logic" of cable.js 231-253. -/
def cableRamp (now : Int) (smoothed : ℚ) (s : MonitorState) : MonitorState × RampDecision :=
  if smoothed > CABLE_PROFILE.rampUpThreshold ∧ s.maxParallel < s.maxParallelCap then
    if s.peakPerformanceDetected = true ∧ s.maxParallel ≥ s.optimalParallel then
      (s, { newParallel := s.maxParallel, sweetSpotProtection := true })
    else if now - s.lastScaleTime < CABLE_PROFILE.scaleUpCooldown then
      (s, { newParallel := s.maxParallel, scaleCooldown := true })
    else
      ({ s with lowSpeedSamples := 0, lastScaleTime := now },
        { shouldAdjust := true
          newParallel :=
            min (s.maxParallel + (if s.peakPerformanceDetected = true then 1 else 2))
              s.maxParallelCap
          rampUp := true })
  else if s.lowSpeedSamples ≥ CABLE_PROFILE.lowSpeedSampleThreshold
      ∧ s.maxParallel > CABLE_PROFILE.minParallel
      ∧ now - s.lastScaleDown ≥ CABLE_PROFILE.scaleDownCooldown then
    ({ s with lastScaleDown := now, lowSpeedSamples := 0 },
      { shouldAdjust := true
        newParallel := max (s.maxParallel - 2) CABLE_PROFILE.minParallel
        rampDown := true })
  else (s, { newParallel := s.maxParallel })

/-- The block "Apply adjustment with throttling" of cable.js 256-272: it writes the local
`maxParallel`. -/
def cableApplyAdjustment (now : Int) (partSpeed : ℚ) (d : RampDecision)
    (s : MonitorState) : MonitorState × Bool :=
  if d.shouldAdjust = true ∧ now - s.lastParallelAdjustment ≥ 5000 then
    ({ s with
       maxParallel := d.newParallel
       lastParallelAdjustment := now
       parallelAdjustmentHistory := s.parallelAdjustmentHistory ++
         [{ timestamp := now, fromParallel := d.newParallel, toParallel := d.newParallel
            partSpeed := partSpeed }] }, true)
  else (s, false)

/-- The block "THROTTLED NETWORK AUTO-FALLBACK" of cable.js 275-292: the part size grows
only while it is at most 20 MB, the cap `max(cap * 0.7, 2)` is applied every time. -/
def cableFallback (i : TickInput) (s : MonitorState) : MonitorState × Bool :=
  if elapsedMinutes i > 0.5 ∧ overallSpeed i < 9.4 * 0.4 then
    ({ s with
       partSize :=
         if s.partSize ≤ 20 * 1024 * 1024 then
           min (s.partSize + 3 * 1024 * 1024) (25 * 1024 * 1024)
         else s.partSize
       maxParallel := min s.maxParallel (max (s.maxParallelCap * 0.7) 2) }, true)
  else (s, false)

/-- The `updateStrategy` call of the cable callback: its parallelism argument is the
local `maxParallel`. -/
def cableUpdateCall (i : TickInput) (s : MonitorState) : UpdateCall :=
  { partSize := s.partSize, parallel := s.maxParallel
    totalParts := totalPartsOf i.fileSize s.partSize }

/-- The evaluated body of the cable callback, cable.js 110-292. -/
def cableBody (i : TickInput) (recentParts : List PartTime) (s : MonitorState) :
    MonitorState × TickEvents :=
  let s1 := recordAvgPartSpeed 5 recentParts s
  let smoothed := smoothedPartSpeed s1
  let currentThroughput := realThroughputMbps recentParts
  let r2 := cablePeakDetection i.now currentThroughput recentParts.length s1
  let r3 := cableDecay i.now currentThroughput r2.1
  let r4 := thrashingProtection CABLE_PROFILE.parallel 8 4 0.8
    currentThroughput r3.1.maxParallel r3.1
  let r5 := cableRamp i.now smoothed (cableTrackLow smoothed (cableTrackLow smoothed r4.1))
  let r6 := cableApplyAdjustment i.now smoothed r5.2 r5.1
  let r7 := cableFallback i r6.1
  (r7.1,
    { evaluated := true
      peakDetected := r2.2
      performanceWarning := r3.2.performanceWarning
      peakReinforcement := r3.2.peakReinforcement
      smartReset := r3.2.smartReset
      sweetSpotKept := r3.2.sweetSpotKept
      performanceDecay := r4.2
      sweetSpotProtection := r5.2.sweetSpotProtection
      scaleCooldown := r5.2.scaleCooldown
      rampUpDecided := r5.2.rampUp
      rampDownDecided := r5.2.rampDown
      adjustment := r6.2
      throttled := r7.2
      fallbackMode := r7.2
      updates :=
        (if r6.2 then [cableUpdateCall i r6.1] else [])
          ++ (if r7.2 then [cableUpdateCall i r7.1] else []) })

/-- One run of the callback of `createCableAdaptiveMonitor`, cable.js 94-297. -/
def cableTick (s : MonitorState) (i : TickInput) : MonitorState × TickEvents :=
  if s.cleared = true then (s, {})
  else if i.isUploadActive = false ∨ i.isUploadCancelled = true then
    ({ s with cleared := true }, { stopping := true })
  else if i.activeUploads = 0 ∧ i.partTimes.length = 0 then (s, {})
  else if (sliceLast i.partTimes 6).length ≥ 3 then
    cableBody i (sliceLast i.partTimes 6) s
  else (s, {})

/-- The monitor `createCableAdaptiveMonitor` of cable.js 77-300: its initial state. The
fields `lastProgress`, `emergencyResetCounter` and `lockedPerformance` have no counterpart
in cable.js. -/
def createCableAdaptiveMonitor (strategy : Strategy) (contextMaxParallel : ℚ)
    (createdAt : Int) : MonitorState :=
  createMonitorState strategy contextMaxParallel createdAt

/-! ## Gigabit and ultra monitors

gigabit.js 85-406 and ultra.js 85-406 are the same text up to the constants collected in
`GUTuning`, the table they read, and the speed the ramp logic compares: gigabit.js uses
`smoothedPartSpeed`, ultra.js uses `avgPartSpeedMbps`. Both start locked. -/

/-- The literal constants in the body of the gigabit / ultra callback. -/
structure GUTuning where
  assumedPeak : ℚ
  lockThreshold : ℚ
  warningAfter : Int
  reinforcementAfter : Int
  reinforcementStrong : Nat
  reinforcementRewind : Int
  decayCeiling : Int
  rampUpThreshold : ℚ
  rampDownThreshold : ℚ
  lowTotalMbps : ℚ
  rampUsesMbps : Bool
  rampDownStep : ℚ
  debounce : Int
  stallStep : ℚ
  fallback : FallbackRule
  deriving DecidableEq, Repr

/-- The constants of gigabit.js: assumed peak 600, lock above 400 Mbps, warning after 20 s,
reinforcement after 30 s with 2 samples rewinding 15 s, ceiling 60 s, ramp thresholds 25.0
and 15.0 on `smoothedPartSpeed`, no low count at 600 Mbps or more, steps
`GIGABIT_PROFILE.throttleAmount`, debounce 2 s, fallback below `100.0 * 0.3` MB/s: parts
above 150 MB shrink by 50 MB, cap `max(cap * 0.8, 12)`. -/
def gigabitTuning : GUTuning where
  assumedPeak := 600
  lockThreshold := 400
  warningAfter := 20000
  reinforcementAfter := 30000
  reinforcementStrong := 2
  reinforcementRewind := 15000
  decayCeiling := 60000
  rampUpThreshold := 25.0
  rampDownThreshold := 15.0
  lowTotalMbps := 600
  rampUsesMbps := false
  rampDownStep := GIGABIT_PROFILE.throttleAmount
  debounce := 2000
  stallStep := GIGABIT_PROFILE.throttleAmount
  fallback :=
    { graceMinutes := 0.5, realExpectedSpeed := 100.0, speedFraction := 0.3
      direction := FallbackDirection.shrink, guard := 150 * 1024 * 1024
      step := 50 * 1024 * 1024, bound := 150 * 1024 * 1024, capFactor := 0.8, capFloor := 12 }

/-- The constants of ultra.js: assumed peak 120, lock above 80 Mbps, warning after 45 s,
reinforcement after 60 s with 3 samples rewinding 30 s, ceiling 120 s, ramp thresholds 8.0
and 5.0 on `avgPartSpeedMbps`, no low count at 120 Mbps or more, steps `2`, debounce 5 s,
fallback below `15.0 * 0.3` MB/s: parts below 12 MB grow by 2 MB up to 15 MB, cap
`max(cap * 0.6, 20)`. -/
def ultraTuning : GUTuning where
  assumedPeak := 120
  lockThreshold := 80
  warningAfter := 45000
  reinforcementAfter := 60000
  reinforcementStrong := 3
  reinforcementRewind := 30000
  decayCeiling := 120000
  rampUpThreshold := 8.0
  rampDownThreshold := 5.0
  lowTotalMbps := 120
  rampUsesMbps := true
  rampDownStep := 2
  debounce := 5000
  stallStep := 2
  fallback :=
    { graceMinutes := 0.5, realExpectedSpeed := 15.0, speedFraction := 0.3
      direction := FallbackDirection.grow, guard := 12 * 1024 * 1024
      step := 2 * 1024 * 1024, bound := 15 * 1024 * 1024, capFactor := 0.6, capFloor := 20 }

/-- The block "PEAK PERFORMANCE UPDATE" of gigabit.js / ultra.js 133-143. -/
def peakUpdate (P : LockProfile) (now : Int) (currentThroughput avgPartSpeedMbps : ℚ)
    (s : MonitorState) : MonitorState × Bool :=
  if currentThroughput ≥ P.peakDetectionThreshold
      ∧ avgPartSpeedMbps ≥ P.strongSampleThresholdMbps
      ∧ s.peakPerformanceDetected = true
      ∧ currentThroughput > toNumber s.initialPeakThroughput then
    ({ s with
       initialPeakThroughput := some currentThroughput
       peakTimestamp := some now
       lastProgress := now
       strongPerformanceSamples := P.reinforcementSampleCount }, true)
  else (s, false)

/-- The block "NEXT-LEVEL SMART PEAK DECAY" of gigabit.js / ultra.js 156-220. -/
def guDecay (T : GUTuning) (now : Int) (currentThroughput : ℚ) (s : MonitorState) :
    MonitorState × DecayEvents :=
  if decayGuard s = true then
    let timeSincePeak := now - s.peakTimestamp.getD 0
    let initialPeak := toNumber s.initialPeakThroughput
    let s1 := recordThroughput 5 currentThroughput s
    let average := averageThroughput [0.4, 0.3, 0.15, 0.1, 0.05] s1.throughputSmoothingHistory
    let s2 := hysteresis 0.75 0.85 0.80 initialPeak average s1
    let r3 := peakReinforcement 0.9 T.reinforcementAfter T.reinforcementStrong
      T.reinforcementRewind now timeSincePeak initialPeak average s2
    let r4 := smartReset T.decayCeiling timeSincePeak r3.1
    (r4.1,
      { performanceWarning :=
          decide (s2.peakResetState = PeakResetState.warning ∧ timeSincePeak > T.warningAfter)
        peakReinforcement := r3.2
        smartReset := r4.2.1
        sweetSpotKept := r4.2.2 })
  else (s, {})

/-- The statement "Track sustained low performance" of gigabit.js / ultra.js 249-253. -/
def guTrackLow (T : GUTuning) (speed currentThroughput : ℚ) (s : MonitorState) :
    MonitorState :=
  if speed < T.rampDownThreshold ∧ currentThroughput < T.lowTotalMbps then
    { s with lowSpeedSamples := s.lowSpeedSamples + 1 }
  else { s with lowSpeedSamples := 0 }

/-- The block "ADAPTIVE LOCK MODE" of gigabit.js / ultra.js 256-283: while locked, unlock
on severe degradation (below 60% of the peak) and otherwise skip the ramp-up; while not
locked, the ramp-up logic. The log line of the unlock branch calls
`initialPeakThroughput.toFixed(0)`, which throws when the peak is `null`; the branch is
entered with a `null` peak only on a negative throughput, and this error path is left
out. -/
def guLockMode (P : LockProfile) (T : GUTuning) (now : Int) (speed currentThroughput : ℚ)
    (s : MonitorState) : MonitorState × RampDecision :=
  if s.lockedPerformance = true then
    if currentThroughput < toNumber s.initialPeakThroughput * 0.6 then
      ({ s with
         lockedPerformance := false
         peakPerformanceDetected := false
         peakResetState := PeakResetState.stable
         strongPerformanceSamples := 0 },
        { newParallel := s.contextMaxParallel, degradationUnlock := true })
    else if speed > T.rampUpThreshold ∧ s.contextMaxParallel < s.maxParallelCap then
      (s, { newParallel := s.contextMaxParallel, lockedSkip := true })
    else (s, { newParallel := s.contextMaxParallel })
  else if speed > T.rampUpThreshold ∧ s.contextMaxParallel < s.maxParallelCap then
    if s.peakPerformanceDetected = true ∧ s.contextMaxParallel ≥ s.optimalParallel then
      (s, { newParallel := s.contextMaxParallel, sweetSpotProtection := true })
    else if now - s.lastScaleTime < P.scaleUpCooldown then
      (s, { newParallel := s.contextMaxParallel, scaleCooldown := true })
    else
      ({ s with lowSpeedSamples := 0, lastScaleTime := now },
        { shouldAdjust := true
          newParallel := min (s.contextMaxParallel + P.rampStep) s.maxParallelCap
          rampUp := true })
  else (s, { newParallel := s.contextMaxParallel })

/-- The block "Ramp DOWN when performance is consistently poor" of gigabit.js / ultra.js
286-304; `d` is the decision the lock-mode block left. -/
def guRampDown (P : LockProfile) (T : GUTuning) (now : Int) (currentThroughput : ℚ)
    (d : RampDecision) (s : MonitorState) : MonitorState × RampDecision :=
  if s.lowSpeedSamples ≥ P.lowSpeedSampleThreshold
      ∧ s.contextMaxParallel > P.minParallel
      ∧ now - s.lastScaleDown ≥ P.scaleDownCooldown then
    if s.lockedPerformance = false
        ∨ currentThroughput < toNumber s.initialPeakThroughput * 0.5 then
      if s.lockedPerformance = true then
        ({ s with
           lastScaleDown := now
           lowSpeedSamples := 0
           lockedPerformance := false
           peakPerformanceDetected := false },
          { d with
            shouldAdjust := true
            newParallel := max (s.contextMaxParallel - T.rampDownStep) P.minParallel
            rampDown := true
            unlocking := true })
      else
        ({ s with lastScaleDown := now, lowSpeedSamples := 0 },
          { d with
            shouldAdjust := true
            newParallel := max (s.contextMaxParallel - T.rampDownStep) P.minParallel
            rampDown := true })
    else (s, d)
  else (s, d)

/-- The block "NO-PROGRESS WATCHDOG" of gigabit.js / ultra.js 337-348. The flags are
(watchdog fired, parallelism reduced, stall ignored because locked). -/
def guWatchdog (P : LockProfile) (stallStep : ℚ) (now : Int) (s : MonitorState) :
    MonitorState × Bool × Bool × Bool :=
  if now - s.lastProgress > P.noProgressTimeout then
    if s.contextMaxParallel > P.minParallel ∧ s.lockedPerformance = false then
      ({ s with
         contextMaxParallel := max (s.contextMaxParallel - stallStep) P.minParallel
         lastProgress := now }, true, true, false)
    else if s.lockedPerformance = true then
      ({ s with lastProgress := now }, true, false, true)
    else ({ s with lastProgress := now }, true, false, false)
  else (s, false, false, false)

/-- The block "CONTINUOUS PROGRESS TRACKING" of gigabit.js / ultra.js 351-353. -/
def continuousProgress (i : TickInput) (count : Nat) (s : MonitorState) : MonitorState :=
  if i.activeUploads > 0 ∨ count > 0 then { s with lastProgress := i.now } else s

/-- The evaluated body of the gigabit / ultra callback, lines 122-398. -/
def guBody (P : LockProfile) (T : GUTuning) (i : TickInput) (recentParts : List PartTime)
    (s : MonitorState) : MonitorState × TickEvents :=
  let avgPartSpeedMbps := avgPartSpeed recentParts * 8
  let s1 := recordAvgPartSpeed 5 recentParts s
  let smoothed := smoothedPartSpeed s1
  let currentThroughput := realThroughputMbps recentParts
  let speed := if T.rampUsesMbps = true then avgPartSpeedMbps else smoothed
  let r2 := peakUpdate P i.now currentThroughput avgPartSpeedMbps s1
  let r3 := reinforcementLock T.lockThreshold P.reinforcementSampleCount currentThroughput r2.1
  let r4 := guDecay T i.now currentThroughput r3.1
  let r5 := thrashingProtection P.parallel 10 5 0.9 currentThroughput
    r4.1.contextMaxParallel r4.1
  let r6 := guLockMode P T i.now speed currentThroughput
    (guTrackLow T speed currentThroughput r5.1)
  let r7 := guRampDown P T i.now currentThroughput r6.2 r6.1
  let r8 := applyAdjustment T.debounce i.now smoothed r7.2 r7.1
  let r9 := guWatchdog P T.stallStep i.now r8.1
  let r10 := emergencyReset P.toStallProfile i.now currentThroughput recentParts.length
    (continuousProgress i recentParts.length r9.1)
  let r11 := throttledFallback T.fallback i r10.1
  (r11.1,
    { evaluated := true
      peakUpdated := r2.2
      performanceReinforced := r3.2
      performanceWarning := r4.2.performanceWarning
      peakReinforcement := r4.2.peakReinforcement
      smartReset := r4.2.smartReset
      sweetSpotKept := r4.2.sweetSpotKept
      performanceDecay := r5.2
      degradationUnlock := r6.2.degradationUnlock
      lockedSkip := r6.2.lockedSkip
      sweetSpotProtection := r6.2.sweetSpotProtection
      scaleCooldown := r6.2.scaleCooldown
      rampUpDecided := r7.2.rampUp
      rampDownDecided := r7.2.rampDown
      unlocking := r7.2.unlocking
      adjustment := r8.2
      zombies := zombieParts P.toStallProfile i.now i.partTimes
      noProgress := r9.2.1
      stallRecovery := r9.2.2.1
      stallIgnored := r9.2.2.2
      emergencyReset := r10.2
      throttled := r11.2.1
      fallbackMode := r11.2.2
      updates :=
        (if r8.2 then [updateCall i r8.1] else [])
          ++ (if r9.2.2.1 then [updateCall i r9.1] else [])
          ++ (if r10.2 then [updateCall i r10.1] else [])
          ++ (if r11.2.2 then [updateCall i r11.1] else []) })

/-- One run of the gigabit / ultra interval callback, lines 106-403. -/
def guTick (P : LockProfile) (T : GUTuning) (s : MonitorState) (i : TickInput) :
    MonitorState × TickEvents :=
  if s.cleared = true then (s, {})
  else if i.isUploadActive = false ∨ i.isUploadCancelled = true then
    ({ s with cleared := true }, { stopping := true })
  else if i.activeUploads = 0 ∧ i.partTimes.length = 0 then (s, {})
  else if (sliceLast i.partTimes 10).length ≥ 3 then
    guBody P T i (sliceLast i.partTimes 10) s
  else (s, {})

/-- The closure variables right after `createGigabitAdaptiveMonitor` or
`createUltraAdaptiveMonitor` ran at clock `createdAt`: the monitor starts locked, with an
assumed peak. -/
def createLockedMonitorState (T : GUTuning) (strategy : Strategy) (contextMaxParallel : ℚ)
    (createdAt : Int) : MonitorState where
  avgPartSpeedHistory := []
  parallelAdjustmentHistory := []
  lastParallelAdjustment := 0
  lastScaleDown := 0
  lowSpeedSamples := 0
  peakPerformanceDetected := true
  maxParallel := strategy.maxParallel
  optimalParallel := strategy.maxParallel
  peakTimestamp := some createdAt
  initialPeakThroughput := some T.assumedPeak
  lastScaleTime := 0
  peakThroughputHistory := []
  throughputSmoothingHistory := []
  peakResetState := PeakResetState.locked
  strongPerformanceSamples := 3
  lastProgress := createdAt
  emergencyResetCounter := 0
  lockedPerformance := true
  contextMaxParallel := contextMaxParallel
  partSize := strategy.partSize
  maxParallelCap := strategy.maxParallelCap
  cleared := false

/-- The monitor `createGigabitAdaptiveMonitor` of gigabit.js 85-406: its initial state. -/
def createGigabitAdaptiveMonitor (strategy : Strategy) (contextMaxParallel : ℚ)
    (createdAt : Int) : MonitorState :=
  createLockedMonitorState gigabitTuning strategy contextMaxParallel createdAt

/-- One run of the callback of `createGigabitAdaptiveMonitor`. -/
def gigabitTick (s : MonitorState) (i : TickInput) : MonitorState × TickEvents :=
  guTick GIGABIT_PROFILE gigabitTuning s i

/-- The monitor `createUltraAdaptiveMonitor` of ultra.js 85-406: its initial state. -/
def createUltraAdaptiveMonitor (strategy : Strategy) (contextMaxParallel : ℚ)
    (createdAt : Int) : MonitorState :=
  createLockedMonitorState ultraTuning strategy contextMaxParallel createdAt

/-- One run of the callback of `createUltraAdaptiveMonitor`. -/
def ultraTick (s : MonitorState) (i : TickInput) : MonitorState × TickEvents :=
  guTick ULTRA_PROFILE ultraTuning s i

/-- Running a monitor over a sequence of tick inputs: the states after each tick and what
each tick did. -/
def runTicks (tick : MonitorState → TickInput → MonitorState × TickEvents) :
    MonitorState → List TickInput → List (MonitorState × TickEvents)
  | _, [] => []
  | s, i :: rest => tick s i :: runTicks tick (tick s i).1 rest

/-- The state after a sequence of ticks. -/
def finalState (tick : MonitorState → TickInput → MonitorState × TickEvents) :
    MonitorState → List TickInput → MonitorState
  | s, [] => s
  | s, i :: rest => finalState tick (tick s i).1 rest

/-! ## Multipart upload, vps-upload-proxy.js -/

/-- The value `partCount = Math.ceil(fileSize / partSize)` of `multipartUploadToR2`,
line 189. -/
def partCount (fileSize partSize : Int) : Int :=
  Int.ceil ((fileSize : ℚ) / (partSize : ℚ))

/-- The local `start = (partNumber - 1) * partSize` of `uploadPart`, line 207. -/
def partStart (partSize partNumber : Int) : Int :=
  (partNumber - 1) * partSize

/-- The local `end = Math.min(start + partSize, fileSize)` of `uploadPart`, line 208; the
part is the byte range from `start` up to but excluding `end` (the stream is opened on
`start .. end - 1`). -/
def partEnd (fileSize partSize partNumber : Int) : Int :=
  min (partStart partSize partNumber + partSize) fileSize

/-- The local `partBytes = end - start` of `uploadPart`, line 224. -/
def partBytes (fileSize partSize partNumber : Int) : Int :=
  partEnd fileSize partSize partNumber - partStart partSize partNumber

/-- An element of the array `parts`: what `uploadPart` stores at lines 227-230. -/
structure CompletedPart where
  ETag : String
  PartNumber : Nat
  deriving DecidableEq, Repr

/-- The assignment `parts[index] = value` on a JavaScript array: an index past the end
extends the array, leaving holes. -/
def assignAt (parts : List (Option CompletedPart)) (index : Nat) (value : CompletedPart) :
    List (Option CompletedPart) :=
  if index < parts.length then parts.set index (some value)
  else parts ++ List.replicate (index - parts.length) none ++ [some value]

/-- The assignment `parts[partNumber - 1] = { ETag: result.ETag, PartNumber: partNumber }`
of `uploadPart`; `etag` is the ETag the store returns for each part number. -/
def recordPart (etag : Nat → String) (parts : List (Option CompletedPart))
    (partNumber : Nat) : List (Option CompletedPart) :=
  assignAt parts (partNumber - 1) { ETag := etag partNumber, PartNumber := partNumber }

/-- The array `parts` once the uploads have completed in the order `completionOrder`. -/
def partsAfter (etag : Nat → String) (completionOrder : List Nat) :
    List (Option CompletedPart) :=
  completionOrder.foldl (recordPart etag) []

/-- The list `Parts` of `completeParams`, lines 296-298:
`parts.filter(Boolean).sort((a, b) => a.PartNumber - b.PartNumber)`. -/
def completeParts (parts : List (Option CompletedPart)) : List CompletedPart :=
  (parts.filterMap id).mergeSort (fun a b => decide (a.PartNumber ≤ b.PartNumber))

/-! ## The six monitors, uniformly -/

/-- The six profile monitors. -/
inductive Monitor where
  | dsl
  | cable
  | fiber
  | enterprise
  | gigabit
  | ultra
  deriving DecidableEq, Repr

/-- The profile table a monitor reads. -/
def Monitor.profile : Monitor → Profile
  | Monitor.dsl => DSL_PROFILE.toProfile
  | Monitor.cable => CABLE_PROFILE
  | Monitor.fiber => FIBER_PROFILE.toProfile
  | Monitor.enterprise => ENTERPRISE_PROFILE.toProfile
  | Monitor.gigabit => GIGABIT_PROFILE.toProfile
  | Monitor.ultra => ULTRA_PROFILE.toProfile

/-- The strategy constructor that belongs to a monitor. -/
def Monitor.strategy : Monitor → ConnectionInfo → Strategy
  | Monitor.dsl => createDslUploadStrategy
  | Monitor.cable => createCableUploadStrategy
  | Monitor.fiber => createFiberUploadStrategy
  | Monitor.enterprise => createEnterpriseUploadStrategy
  | Monitor.gigabit => createGigabitUploadStrategy
  | Monitor.ultra => createUltraUploadStrategy

/-- The initial closure state of a monitor. -/
def Monitor.create : Monitor → Strategy → ℚ → Int → MonitorState
  | Monitor.dsl => createDslAdaptiveMonitor
  | Monitor.cable => createCableAdaptiveMonitor
  | Monitor.fiber => createFiberAdaptiveMonitor
  | Monitor.enterprise => createEnterpriseAdaptiveMonitor
  | Monitor.gigabit => createGigabitAdaptiveMonitor
  | Monitor.ultra => createUltraAdaptiveMonitor

/-- One run of the interval callback of a monitor. -/
def Monitor.tick : Monitor → MonitorState → TickInput → MonitorState × TickEvents
  | Monitor.dsl => dslTick
  | Monitor.cable => cableTick
  | Monitor.fiber => fiberTick
  | Monitor.enterprise => enterpriseTick
  | Monitor.gigabit => gigabitTick
  | Monitor.ultra => ultraTick

/-- The current parallelism a monitor controls: the local `maxParallel` in cable.js,
`context.maxParallel` in the others. -/
def Monitor.parallelism : Monitor → MonitorState → ℚ
  | Monitor.cable => fun s => s.maxParallel
  | _ => fun s => s.contextMaxParallel

/-- A monitor started from the strategy its own constructor returns, with the current
parallelism equal to `strategy.maxParallel`, at clock `createdAt`. -/
def Monitor.start (m : Monitor) (connectionInfo : ConnectionInfo) (createdAt : Int) :
    MonitorState :=
  m.create (m.strategy connectionInfo) (m.strategy connectionInfo).maxParallel createdAt

/-- A tick sequence whose clock never goes back. -/
def clockNonDecreasing (inputs : List TickInput) : Prop :=
  inputs.Pairwise (fun a b => a.now ≤ b.now)

/-- The ramp decision raised the parallelism on this tick: the branch "SCALE UP" of dsl.js
and enterprise.js, or a "RAMP UP" decision that "Apply adjustment" then wrote. -/
def rampUpApplied (ev : TickEvents) : Prop :=
  ev.scaleUp = true ∨ (ev.rampUpDecided = true ∧ ev.adjustment = true)

/-- The ramp-down logic lowered the parallelism on this tick: the sustained-drop reduction
or the branch "SCALE DOWN" of dsl.js and enterprise.js, or a "SUSTAINED LOW" decision that
"Apply adjustment" then wrote. -/
def rampDownApplied (ev : TickEvents) : Prop :=
  ev.sustainedDrop = true ∨ ev.scaleDown = true
    ∨ (ev.rampDownDecided = true ∧ ev.adjustment = true)

instance (inputs : List TickInput) : Decidable (clockNonDecreasing inputs) :=
  inferInstanceAs (Decidable (inputs.Pairwise (fun (a b : TickInput) => a.now ≤ b.now)))

instance (ev : TickEvents) : Decidable (rampUpApplied ev) :=
  inferInstanceAs
    (Decidable (ev.scaleUp = true ∨ (ev.rampUpDecided = true ∧ ev.adjustment = true)))

instance (ev : TickEvents) : Decidable (rampDownApplied ev) :=
  inferInstanceAs (Decidable (ev.sustainedDrop = true ∨ ev.scaleDown = true
    ∨ (ev.rampDownDecided = true ∧ ev.adjustment = true)))

/-! ## Example inputs -/

/-- A tracker holding `n` samples of one speed. -/
def sampleParts (n : Nat) (speed : ℚ) (timestamp : Int) : List PartTime :=
  (List.range n).map (fun k => { partNumber := k + 1, speed := speed, timestamp := timestamp })

/-- A tick of an active upload of a 2 GiB file that started at clock 0. -/
def sampleInput (now : Int) (partTimes : List PartTime) (totalUploaded : ℚ) : TickInput where
  now := now
  partTimes := partTimes
  isUploadActive := true
  isUploadCancelled := false
  activeUploads := 1
  totalUploaded := totalUploaded
  uploadStartTime := 0
  fileSize := 2147483648

/-- Two enterprise ticks, 20 s apart, each seeing four samples of 4 MB/s. -/
def twoScaleUps : List TickInput :=
  [sampleInput 20000 (sampleParts 4 4 10000) 10000000000,
   sampleInput 40000 (sampleParts 4 4 10000) 10000000000]

/-- Four gigabit ticks seeing ten samples of 2 MB/s. -/
def fourLowTicks : List TickInput :=
  [sampleInput 10000 (sampleParts 10 2 5000) 100000000000,
   sampleInput 10250 (sampleParts 10 2 5000) 100000000000,
   sampleInput 18250 (sampleParts 10 2 5000) 100000000000,
   sampleInput 18500 (sampleParts 10 2 5000) 100000000000]

/-- What tick number `k` (from 0) of a run did; nothing when the run is shorter. -/
def eventsAt (tick : MonitorState → TickInput → MonitorState × TickEvents)
    (s0 : MonitorState) (inputs : List TickInput) (k : Nat) : TickEvents :=
  match (runTicks tick s0 inputs)[k]? with
  | some r => r.2
  | none => {}

/-- The state after tick number `k` (from 0) of a run; the start state when the run is
shorter. -/
def stateAt (tick : MonitorState → TickInput → MonitorState × TickEvents)
    (s0 : MonitorState) (inputs : List TickInput) (k : Nat) : MonitorState :=
  match (runTicks tick s0 inputs)[k]? with
  | some r => r.1
  | none => s0

/-- The value `currentThroughput` a tick computes from the last `window` samples. -/
def currentThroughputOf (window : Nat) (i : TickInput) : ℚ :=
  realThroughputMbps (sliceLast i.partTimes window)

/-- The number of samples `partTimes.slice(-k)` takes in each monitor. -/
def Monitor.window : Monitor → Nat
  | Monitor.dsl => 5
  | Monitor.cable => 6
  | Monitor.fiber => 8
  | Monitor.enterprise => 12
  | Monitor.gigabit => 10
  | Monitor.ultra => 10

/-- The value `currentThroughput` of a tick of the given monitor. -/
def Monitor.currentThroughput (m : Monitor) (i : TickInput) : ℚ :=
  currentThroughputOf m.window i

/-- The table with the stall and emergency fields, for the five monitors that have one. -/
def Monitor.stallProfile : Monitor → Option StallProfile
  | Monitor.dsl => some DSL_PROFILE
  | Monitor.cable => none
  | Monitor.fiber => some FIBER_PROFILE
  | Monitor.enterprise => some ENTERPRISE_PROFILE
  | Monitor.gigabit => some GIGABIT_PROFILE.toStallProfile
  | Monitor.ultra => some ULTRA_PROFILE.toStallProfile

/-- Scenario C as written: throughput 500 Mbps, then three ticks at 20 Mbps. -/
def collapseTo20 : List TickInput :=
  [sampleInput 2500 (sampleParts 10 6.25 1000) 10000000000,
   sampleInput 5000 (sampleParts 10 0.25 4000) 10000000000,
   sampleInput 7500 (sampleParts 10 0.25 4000) 10000000000,
   sampleInput 10000 (sampleParts 10 0.25 4000) 10000000000]

/-- Throughput 512 Mbps seen by the fiber monitor, then three ticks at 4 Mbps more than
90 s later. -/
def fiberCollapse : List TickInput :=
  [sampleInput 3000 (sampleParts 8 8 1000) 10000000000,
   sampleInput 100000 (sampleParts 8 0.0625 90000) 10000000000,
   sampleInput 103000 (sampleParts 8 0.0625 90000) 10000000000,
   sampleInput 106000 (sampleParts 8 0.0625 90000) 10000000000]

/-- Three DSL ticks at 1.6 Mbps while only 1000 bytes were uploaded in more than a
minute. -/
def dslSlowStart : List TickInput :=
  [sampleInput 64000 (sampleParts 2 0.1 60000) 1000,
   sampleInput 68000 (sampleParts 2 0.1 60000) 1000,
   sampleInput 72000 (sampleParts 2 0.1 60000) 1000]

/-- A DSL tick on which the fallback fires, then a tick with healthy part speed. -/
def dslFallbackThenScaleUp : List TickInput :=
  [sampleInput 70000 (sampleParts 2 1.5 60000) 1000,
   sampleInput 90000 (sampleParts 2 1.5 60000) 10000000000]

/-- Four ticks, 20 s apart, that all see the same four samples of 10 MB/s: nothing
completes between them. -/
def stalledTicks : List TickInput :=
  [sampleInput 20000 (sampleParts 4 10 10000) 10000000000,
   sampleInput 40000 (sampleParts 4 10 10000) 10000000000,
   sampleInput 60000 (sampleParts 4 10 10000) 10000000000,
   sampleInput 80000 (sampleParts 4 10 10000) 10000000000]

/-- A gigabit tick at 80 Mbps, which unlocks the assumed peak, then a tick at 800 Mbps. -/
def gigabitRecovery : List TickInput :=
  [sampleInput 10000 (sampleParts 10 1 5000) 100000000000,
   sampleInput 10250 (sampleParts 10 10 5000) 100000000000]

/-- The result of the decay block in a fiber tick on recent parts `recentParts`: the state
the steps before line 215 of fiber.js leave, and whether the block threw. -/
def fiberDecayResult (i : TickInput) (recentParts : List PartTime) (s : MonitorState) :
    MonitorState × DecayEvents :=
  fiberDecay i.now (realThroughputMbps recentParts)
    (reinforcementLock FIBER_PROFILE.peakDetectionThreshold
      FIBER_PROFILE.reinforcementSampleCount (realThroughputMbps recentParts)
      (peakDetection FIBER_PROFILE 6 i.now (realThroughputMbps recentParts)
        recentParts.length (recordAvgPartSpeed 5 recentParts s)).1).1

/-- The state a monitor, started from its own strategy at clock `createdAt`, is in after
the ticks `inputs`. -/
def Monitor.reached (m : Monitor) (connectionInfo : ConnectionInfo) (createdAt : Int)
    (inputs : List TickInput) : MonitorState :=
  finalState m.tick (m.start connectionInfo createdAt) inputs

/-- Scenario C with a collapse below the threshold: 500 Mbps, then three ticks at
10 Mbps. -/
def collapseTo10 : List TickInput :=
  [sampleInput 2500 (sampleParts 10 6.25 1000) 10000000000,
   sampleInput 5000 (sampleParts 10 0.125 4000) 10000000000,
   sampleInput 7500 (sampleParts 10 0.125 4000) 10000000000,
   sampleInput 10000 (sampleParts 10 0.125 4000) 10000000000]

/-- The number of recent samples the block "PEAK PERFORMANCE DETECTION" asks for
(`recentParts.length >= 3` in dsl.js 127, `>= 4` in cable.js 120, `>= 6` in fiber.js 129
and enterprise.js 128). gigabit.js and ultra.js have no such block: they start with the
peak assumed and only update it. -/
def Monitor.peakSamples : Monitor → Option Nat
  | Monitor.dsl => some 3
  | Monitor.cable => some 4
  | Monitor.fiber => some 6
  | Monitor.enterprise => some 6
  | Monitor.gigabit => none
  | Monitor.ultra => none

/-- What a tick that starts with the peak not detected does about the peak: the detection
branch runs exactly when the throughput is at or above `threshold` with at least `samples`
recent samples; then the tick ends with the peak detected, recorded at this tick's
throughput and clock; otherwise the tick ends with the peak still not detected. -/
def PeakOutcome (threshold : ℚ) (samples : Nat) (now : Int) (currentThroughput : ℚ)
    (count : Nat) (r : MonitorState × TickEvents) : Prop :=
  (r.2.peakDetected = true ↔ currentThroughput ≥ threshold ∧ count ≥ samples)
    ∧ (r.2.peakDetected = true →
        r.1.peakPerformanceDetected = true
          ∧ r.1.initialPeakThroughput = some currentThroughput
          ∧ r.1.peakTimestamp = some now)
    ∧ (r.2.peakDetected = false → r.1.peakPerformanceDetected = false)

/-- What the end of a tick on which the emergency reset fired looks like: the peak is
unlocked, the phase is "stable", both counters are 0, and the parallelism is the profile
default unless the fallback block of the same tick lowered it. -/
structure ResetOutcome (P : StallProfile) (r : MonitorState × TickEvents) : Prop where
  peak : r.1.peakPerformanceDetected = false
  locked : r.1.lockedPerformance = false
  phase : r.1.peakResetState = PeakResetState.stable
  strong : r.1.strongPerformanceSamples = 0
  counter : r.1.emergencyResetCounter = 0
  parallel : r.2.fallbackMode = false → r.1.contextMaxParallel = P.parallel

/-- The minimum number of recent samples a callback asks for before it evaluates anything
(`recentParts.length >= 2` in dsl.js 116, `>= 4` in enterprise.js 117, `>= 3` in cable.js,
fiber.js, gigabit.js and ultra.js). -/
def Monitor.minSamples : Monitor → Nat
  | Monitor.dsl => 2
  | Monitor.cable => 3
  | Monitor.fiber => 3
  | Monitor.enterprise => 4
  | Monitor.gigabit => 3
  | Monitor.ultra => 3

/-- The time since the peak after which the decay block of a monitor may drop the peak in
phase "dropping": `sweetSpotProtectionDuration` in dsl.js 199 and enterprise.js 200 (their
ceilings of 45 s and 120 s are longer), the ceiling of 60 s in cable.js 174 and gigabit.js
203, of 90 s in fiber.js 194 and of 120 s in ultra.js 203. -/
def Monitor.decayAfter : Monitor → Int
  | Monitor.dsl => min DSL_PROFILE.sweetSpotProtectionDuration dslTuning.decayCeiling
  | Monitor.cable => 60000
  | Monitor.fiber => 90000
  | Monitor.enterprise =>
    min ENTERPRISE_PROFILE.sweetSpotProtectionDuration enterpriseTuning.decayCeiling
  | Monitor.gigabit => gigabitTuning.decayCeiling
  | Monitor.ultra => ultraTuning.decayCeiling

/-- The ceiling of the "Enhanced reset logic" of a decay block: `timeSincePeak > 45000` in
dsl.js 209, `> 120000` in enterprise.js 210 and ultra.js 203, `> 60000` in cable.js 174 and
gigabit.js 203, `> 90000` in fiber.js 194. -/
def Monitor.decayCeiling : Monitor → Int
  | Monitor.dsl => dslTuning.decayCeiling
  | Monitor.cable => 60000
  | Monitor.fiber => 90000
  | Monitor.enterprise => enterpriseTuning.decayCeiling
  | Monitor.gigabit => gigabitTuning.decayCeiling
  | Monitor.ultra => ultraTuning.decayCeiling

/-- The state in which the decay block of dsl.js / enterprise.js is entered on an
evaluated tick: after the smoothing, the peak detection and the reinforcement lock-in. -/
def deBeforeDecay (P : StallProfile) (T : DETuning) (i : TickInput)
    (recentParts : List PartTime) (s : MonitorState) : MonitorState :=
  (reinforcementLock P.peakDetectionThreshold P.reinforcementSampleCount
    (realThroughputMbps recentParts)
    (peakDetection P T.peakSamples i.now (realThroughputMbps recentParts) recentParts.length
      (recordAvgPartSpeed T.speedHistoryMax recentParts s)).1).1

/-- The state in which the decay block of fiber.js is entered on an evaluated tick. -/
def fiberBeforeDecay (i : TickInput) (recentParts : List PartTime) (s : MonitorState) :
    MonitorState :=
  (reinforcementLock FIBER_PROFILE.peakDetectionThreshold
    FIBER_PROFILE.reinforcementSampleCount (realThroughputMbps recentParts)
    (peakDetection FIBER_PROFILE 6 i.now (realThroughputMbps recentParts)
      recentParts.length (recordAvgPartSpeed 5 recentParts s)).1).1

/-- The state in which the decay block of cable.js is entered on an evaluated tick. -/
def cableBeforeDecay (i : TickInput) (recentParts : List PartTime) (s : MonitorState) :
    MonitorState :=
  (cablePeakDetection i.now (realThroughputMbps recentParts) recentParts.length
    (recordAvgPartSpeed 5 recentParts s)).1

/-- The state in which the decay block of gigabit.js / ultra.js is entered on an evaluated
tick: after the smoothing, the peak update and the reinforcement lock-in. -/
def guBeforeDecay (P : LockProfile) (T : GUTuning) (i : TickInput)
    (recentParts : List PartTime) (s : MonitorState) : MonitorState :=
  (reinforcementLock T.lockThreshold P.reinforcementSampleCount
    (realThroughputMbps recentParts)
    (peakUpdate P i.now (realThroughputMbps recentParts) (avgPartSpeed recentParts * 8)
      (recordAvgPartSpeed 5 recentParts s)).1).1

/-- The state in which a monitor's decay block is entered on an evaluated tick. -/
def Monitor.beforeDecay (m : Monitor) (s : MonitorState) (i : TickInput) : MonitorState :=
  match m with
  | Monitor.dsl => deBeforeDecay DSL_PROFILE dslTuning i (sliceLast i.partTimes 5) s
  | Monitor.cable => cableBeforeDecay i (sliceLast i.partTimes 6) s
  | Monitor.fiber => fiberBeforeDecay i (sliceLast i.partTimes 8) s
  | Monitor.enterprise =>
    deBeforeDecay ENTERPRISE_PROFILE enterpriseTuning i (sliceLast i.partTimes 12) s
  | Monitor.gigabit =>
    guBeforeDecay GIGABIT_PROFILE gigabitTuning i (sliceLast i.partTimes 10) s
  | Monitor.ultra => guBeforeDecay ULTRA_PROFILE ultraTuning i (sliceLast i.partTimes 10) s

/-- The value `timeSincePeak = Date.now() - peakTimestamp` the decay block computes. -/
def Monitor.timeSincePeak (m : Monitor) (s : MonitorState) (i : TickInput) : Int :=
  i.now - (m.beforeDecay s i).peakTimestamp.getD 0

/-- The phase a decay block is in after its "State machine for hysteresis": the new
throughput is pushed to the smoothing history (at most `smoothingMax` entries), the
weighted average is compared with the three fractions of the peak. -/
def hysteresisPhase (smoothingMax : Nat) (weights : List ℚ)
    (dropFraction recoveryFraction warningFraction : ℚ) (currentThroughput : ℚ)
    (s : MonitorState) : PeakResetState :=
  (hysteresis dropFraction recoveryFraction warningFraction
    (toNumber s.initialPeakThroughput)
    (averageThroughput weights
      (recordThroughput smoothingMax currentThroughput s).throughputSmoothingHistory)
    (recordThroughput smoothingMax currentThroughput s)).peakResetState

/-- The phase after the hysteresis update of a monitor's decay block, with the constants
of that monitor (dsl.js 151-177, enterprise.js 152-178, cable.js 133-158, fiber.js 153-178,
gigabit.js / ultra.js 160-186). -/
def Monitor.phaseAfterHysteresis (m : Monitor) (s : MonitorState) (i : TickInput) :
    PeakResetState :=
  match m with
  | Monitor.dsl =>
    hysteresisPhase dslTuning.smoothingMax dslTuning.weights dslTuning.dropFraction
      dslTuning.recoveryFraction dslTuning.warningFraction (m.currentThroughput i)
      (m.beforeDecay s i)
  | Monitor.cable =>
    hysteresisPhase 5 [0.4, 0.3, 0.15, 0.1, 0.05] 0.65 0.75 0.70 (m.currentThroughput i)
      (m.beforeDecay s i)
  | Monitor.fiber =>
    hysteresisPhase 5 [0.4, 0.3, 0.15, 0.1, 0.05] 0.70 0.80 0.75 (m.currentThroughput i)
      (m.beforeDecay s i)
  | Monitor.enterprise =>
    hysteresisPhase enterpriseTuning.smoothingMax enterpriseTuning.weights
      enterpriseTuning.dropFraction enterpriseTuning.recoveryFraction
      enterpriseTuning.warningFraction (m.currentThroughput i) (m.beforeDecay s i)
  | Monitor.gigabit =>
    hysteresisPhase 5 [0.4, 0.3, 0.15, 0.1, 0.05] 0.75 0.85 0.80 (m.currentThroughput i)
      (m.beforeDecay s i)
  | Monitor.ultra =>
    hysteresisPhase 5 [0.4, 0.3, 0.15, 0.1, 0.05] 0.75 0.85 0.80 (m.currentThroughput i)
      (m.beforeDecay s i)

/-- A DSL run that locks the peak at 40 Mbps (three ticks), falls to 8 Mbps for two ticks,
which puts the decay block in phase "dropping", and then sees 26 Mbps, 30 s after the last
peak reinforcement. -/
def dslLockLost : List TickInput :=
  [sampleInput 10000 (sampleParts 5 1 9000) 10000000000,
   sampleInput 20000 (sampleParts 5 1 19000) 10000000000,
   sampleInput 30000 (sampleParts 5 1 29000) 10000000000,
   sampleInput 40000 (sampleParts 5 0.2 39000) 10000000000,
   sampleInput 45000 (sampleParts 5 0.2 44000) 10000000000,
   sampleInput 60000 (sampleParts 5 0.65 59000) 10000000000]

/-- A gigabit tick at 400 Mbps, 69 s after the monitor was created with its assumed peak
of 600 Mbps. -/
def gigabitDecayTick : TickInput :=
  sampleInput 70000 (sampleParts 10 5 69000) 100000000000

/-- The block "THROTTLED NETWORK AUTO-FALLBACK" of a monitor, as a step on the state. -/
def Monitor.fallback (m : Monitor) (i : TickInput) (s : MonitorState) : MonitorState :=
  match m with
  | Monitor.dsl => (throttledFallback dslTuning.fallback i s).1
  | Monitor.cable => (cableFallback i s).1
  | Monitor.fiber => (throttledFallback fiberFallbackRule i s).1
  | Monitor.enterprise => (throttledFallback enterpriseTuning.fallback i s).1
  | Monitor.gigabit => (throttledFallback gigabitTuning.fallback i s).1
  | Monitor.ultra => (throttledFallback ultraTuning.fallback i s).1

/-- Which way the fallback block of a monitor moves `strategy.partSize`: dsl.js 325 and
gigabit.js 390 subtract (`Math.max(partSize - step, bound)`), cable.js 285, enterprise.js
324, fiber.js 346 and ultra.js 390 add (`Math.min(partSize + step, bound)`). -/
def Monitor.fallbackDirection : Monitor → FallbackDirection
  | Monitor.dsl => dslTuning.fallback.direction
  | Monitor.cable => FallbackDirection.grow
  | Monitor.fiber => fiberFallbackRule.direction
  | Monitor.enterprise => enterpriseTuning.fallback.direction
  | Monitor.gigabit => gigabitTuning.fallback.direction
  | Monitor.ultra => ultraTuning.fallback.direction

/-- Scenario A: every recorded sample has speed 6 MB/s and the sample list only grows
(4 samples at the first tick, 10 at the second and third). -/
def fiberScenarioA : List TickInput :=
  [sampleInput 3000 (sampleParts 4 6 1000) 100000000,
   sampleInput 6000 (sampleParts 10 6 1000) 300000000,
   sampleInput 9000 (sampleParts 10 6 1000) 500000000]

/-! ## The upload session of vps-upload-proxy.js

`runParallelUploads` (lines 258-287) runs on the event loop: `startNextBatch` and the
`.then` / `.catch` handlers run one at a time, each to its end. A session is modelled by
its closure variables and by the order in which the pending `uploadPart` promises
settle. -/

/-- A call to the object store. `abortMultipartUpload` belongs to the store's interface:
server-vps-compatible.js 310-324 sends `AbortMultipartUploadCommand` from its endpoint
`/api/multipart/abort`. No statement of vps-upload-proxy.js calls it. -/
inductive StoreCall where
  | createMultipartUpload
  | uploadPart (partNumber : Nat)
  | completeMultipartUpload (parts : List CompletedPart)
  | abortMultipartUpload
  deriving DecidableEq, Repr

/-- How the promise returned by `runParallelUploads` stands. -/
inductive Settlement where
  | pending
  | resolved
  | rejected
  deriving DecidableEq, Repr

/-- The closure variables `parts`, `completedParts`, `activeUploads`, `partIndex` (lines
190-202) and `finished` (line 260), the promise of `runParallelUploads`, the store calls
made so far, and the part numbers whose `r2.uploadPart(...).promise()` is still pending. -/
structure UploadSession where
  parts : List (Option CompletedPart)
  completedParts : Nat
  activeUploads : Int
  partIndex : Nat
  finished : Nat
  promise : Settlement
  calls : List StoreCall
  inFlight : List Nat
  deriving DecidableEq, Repr

/-- The `while` loop of `startNextBatch`, lines 263-282: as long as
`activeUploads < maxParallel && partIndex < partCount`, count one more active upload and
call `uploadPart(partIndex + 1)`, which issues `r2.uploadPart` before its first `await`.
`fuel` bounds the iterations. -/
def startNextBatchLoop (maxParallel partCount : Nat) : Nat → UploadSession → UploadSession
  | 0, st => st
  | fuel + 1, st =>
    if st.activeUploads < (maxParallel : Int) ∧ st.partIndex < partCount then
      startNextBatchLoop maxParallel partCount fuel
        { st with
          activeUploads := st.activeUploads + 1
          partIndex := st.partIndex + 1
          calls := st.calls ++ [StoreCall.uploadPart (st.partIndex + 1)]
          inFlight := st.inFlight ++ [st.partIndex + 1] }
    else st

/-- The function `startNextBatch`: the loop can run at most `partCount - partIndex`
times, since every iteration increments `partIndex`. -/
def startNextBatch (maxParallel partCount : Nat) (st : UploadSession) : UploadSession :=
  startNextBatchLoop maxParallel partCount (partCount - st.partIndex) st

/-- The call `resolve()` of line 276: it settles a pending promise and does nothing to a
settled one. -/
def resolvePromise (st : UploadSession) : UploadSession :=
  if st.promise = Settlement.pending then { st with promise := Settlement.resolved } else st

/-- The call `reject(err)` of line 280. -/
def rejectPromise (st : UploadSession) : UploadSession :=
  if st.promise = Settlement.pending then { st with promise := Settlement.rejected } else st

/-- One pending `r2.uploadPart(...).promise()` settles: with an ETag, or with a rejection
(`etag = none`). -/
structure PartEvent where
  partNumber : Nat
  etag : Option String
  deriving DecidableEq, Repr

/-- A successful part: `uploadPart` stores `{ ETag, PartNumber }` at `parts[partNumber - 1]`
and counts the part (lines 227-232), then the `.then` handler runs `finished++` and
`activeUploads--` (lines 270-271). -/
def partFinished (st : UploadSession) (partNumber : Nat) (etag : String) : UploadSession :=
  { st with
    parts := assignAt st.parts (partNumber - 1) { ETag := etag, PartNumber := partNumber }
    completedParts := st.completedParts + 1
    finished := st.finished + 1
    activeUploads := st.activeUploads - 1
    inFlight := st.inFlight.erase partNumber }

/-- One pending `uploadPart` promise settles. On success (lines 223-250 and 269-278) the
part is recorded and either the next batch is started (`partIndex < partCount`) or, with
all parts finished, the promise is resolved. On failure `uploadPart` logs and rethrows
(lines 251-254) and the `.catch` handler rejects the promise (lines 279-281); nothing else
is done. An event for a part that is not pending is no event. -/
def partSettled (maxParallel partCount : Nat) (st : UploadSession) (ev : PartEvent) :
    UploadSession :=
  if ev.partNumber ∈ st.inFlight then
    match ev.etag with
    | some etag =>
      if st.partIndex < partCount then
        startNextBatch maxParallel partCount (partFinished st ev.partNumber etag)
      else if st.finished + 1 = partCount then
        resolvePromise (partFinished st ev.partNumber etag)
      else partFinished st ev.partNumber etag
    | none => rejectPromise { st with inFlight := st.inFlight.erase ev.partNumber }
  else st

/-- The session right after `multipartUploadToR2` has called `createMultipartUpload`
(line 178) and `runParallelUploads` has called `startNextBatch()` (line 285). -/
def sessionStart (maxParallel partCount : Nat) : UploadSession :=
  startNextBatch maxParallel partCount
    { parts := [], completedParts := 0, activeUploads := 0, partIndex := 0, finished := 0
      promise := Settlement.pending, calls := [StoreCall.createMultipartUpload]
      inFlight := [] }

/-- The session after the pending uploads have settled as `events` tells, in that
order. -/
def sessionAfter (maxParallel partCount : Nat) (events : List PartEvent) : UploadSession :=
  events.foldl (partSettled maxParallel partCount) (sessionStart maxParallel partCount)

/-- The store calls of the `/upload` handler for a file above 1 GiB (lines 105-106): those
of `multipartUploadToR2`, which calls `completeMultipartUpload` (lines 292-301) once
`await runParallelUploads()` has returned, that is when the promise is resolved. When the
promise is rejected the `await` throws, and the handler's `catch` (lines 122-136) deletes
the temporary file and reports the error: it makes no store call. -/
def storeCalls (st : UploadSession) : List StoreCall :=
  match st.promise with
  | Settlement.resolved =>
    st.calls ++ [StoreCall.completeMultipartUpload (completeParts st.parts)]
  | _ => st.calls

/-- The `uploadPart` calls among a list of store calls. -/
def uploadPartCalls (calls : List StoreCall) : List Nat :=
  calls.filterMap (fun c =>
    match c with
    | StoreCall.uploadPart k => some k
    | _ => none)

/-- What holds of a session whatever the uploads do: the store was asked to create the
upload and then to upload the parts `1 .. partIndex`, each once and in ascending order;
the finished and the pending parts are among the started ones; a resolved promise leaves
no part pending. -/
def SessionShape (partCount : Nat) (st : UploadSession) : Prop :=
  st.calls = StoreCall.createMultipartUpload
      :: (List.range' 1 st.partIndex).map StoreCall.uploadPart
    ∧ st.partIndex ≤ partCount
    ∧ st.finished + st.inFlight.length ≤ st.partIndex
    ∧ (st.promise = Settlement.resolved → st.inFlight = [])

/-- What holds in addition as long as every settled upload has succeeded: `activeUploads`
counts the pending parts, which with the finished ones are exactly the started ones; at
most `maxParallel` are active, and exactly `maxParallel` while parts are left to start;
the promise is resolved exactly when all parts have finished, and is never rejected. -/
def SessionBalanced (maxParallel partCount : Nat) (st : UploadSession) : Prop :=
  st.activeUploads = (st.inFlight.length : Int)
    ∧ st.finished + st.inFlight.length = st.partIndex
    ∧ st.activeUploads ≤ (maxParallel : Int)
    ∧ (st.partIndex < partCount → st.activeUploads = (maxParallel : Int))
    ∧ (st.promise = Settlement.resolved ↔ st.finished = partCount)
    ∧ st.promise ≠ Settlement.rejected

/-! ## The steps of a tick, monitor by monitor

The bodies above are compositions of steps. The functions below name, for each of the six
monitors, the intermediate values and states of one evaluated tick, with the constants the
monitor's source holds. -/

/-- The recent samples of a tick: `performanceTracker.partTimes.slice(-k)`. -/
def Monitor.recentParts (m : Monitor) (i : TickInput) : List PartTime :=
  sliceLast i.partTimes m.window

/-- The value `avgPartSpeed` of a tick: the mean speed of the recent samples. -/
def Monitor.avgPartSpeed (m : Monitor) (i : TickInput) : ℚ :=
  WNET.avgPartSpeed (m.recentParts i)

/-- The bound of `avgPartSpeedHistory`: `length > 4` in dsl.js 120, `> 6` in enterprise.js
121, `> 5` in cable.js, fiber.js, gigabit.js and ultra.js. -/
def Monitor.speedHistoryMax : Monitor → Nat
  | Monitor.dsl => dslTuning.speedHistoryMax
  | Monitor.enterprise => enterpriseTuning.speedHistoryMax
  | Monitor.cable => 5
  | Monitor.fiber => 5
  | Monitor.gigabit => 5
  | Monitor.ultra => 5

/-- The value `smoothedPartSpeed` of a tick: `avgPartSpeed` is pushed to
`avgPartSpeedHistory`, the oldest entry is shifted out when the history is over its bound,
and the history is averaged. -/
def Monitor.smoothedPartSpeed (m : Monitor) (s : MonitorState) (i : TickInput) : ℚ :=
  WNET.smoothedPartSpeed (recordAvgPartSpeed m.speedHistoryMax (m.recentParts i) s)

/-- The array `weights` of a monitor's decay block (dsl.js 154, enterprise.js 155, cable.js
136, fiber.js 156, gigabit.js / ultra.js 163). -/
def Monitor.weights : Monitor → List ℚ
  | Monitor.dsl => dslTuning.weights
  | Monitor.enterprise => enterpriseTuning.weights
  | Monitor.cable => [0.4, 0.3, 0.15, 0.1, 0.05]
  | Monitor.fiber => [0.4, 0.3, 0.15, 0.1, 0.05]
  | Monitor.gigabit => [0.4, 0.3, 0.15, 0.1, 0.05]
  | Monitor.ultra => [0.4, 0.3, 0.15, 0.1, 0.05]

/-- The bound of `throughputSmoothingHistory` in a monitor's decay block. -/
def Monitor.smoothingMax : Monitor → Nat
  | Monitor.dsl => dslTuning.smoothingMax
  | Monitor.enterprise => enterpriseTuning.smoothingMax
  | Monitor.cable => 5
  | Monitor.fiber => 5
  | Monitor.gigabit => 5
  | Monitor.ultra => 5

/-- The factor of `dropThreshold` in a monitor's decay block. -/
def Monitor.dropFraction : Monitor → ℚ
  | Monitor.dsl => dslTuning.dropFraction
  | Monitor.enterprise => enterpriseTuning.dropFraction
  | Monitor.cable => 0.65
  | Monitor.fiber => 0.70
  | Monitor.gigabit => 0.75
  | Monitor.ultra => 0.75

/-- The factor of `recoveryThreshold` in a monitor's decay block. -/
def Monitor.recoveryFraction : Monitor → ℚ
  | Monitor.dsl => dslTuning.recoveryFraction
  | Monitor.enterprise => enterpriseTuning.recoveryFraction
  | Monitor.cable => 0.75
  | Monitor.fiber => 0.80
  | Monitor.gigabit => 0.85
  | Monitor.ultra => 0.85

/-- The factor of `warningThreshold` in a monitor's decay block. -/
def Monitor.warningFraction : Monitor → ℚ
  | Monitor.dsl => dslTuning.warningFraction
  | Monitor.enterprise => enterpriseTuning.warningFraction
  | Monitor.cable => 0.70
  | Monitor.fiber => 0.75
  | Monitor.gigabit => 0.80
  | Monitor.ultra => 0.80

/-- The value `initialPeakThroughput` the decay block of a tick multiplies its three
factors with. -/
def Monitor.initialPeak (m : Monitor) (s : MonitorState) (i : TickInput) : ℚ :=
  toNumber (m.beforeDecay s i).initialPeakThroughput

/-- The state in which the "State machine for hysteresis" of a tick runs: the tick's
throughput has been pushed to `throughputSmoothingHistory`. -/
def Monitor.beforeHysteresis (m : Monitor) (s : MonitorState) (i : TickInput) :
    MonitorState :=
  recordThroughput m.smoothingMax (m.currentThroughput i) (m.beforeDecay s i)

/-- The value `averageThroughput` of a tick's decay block. -/
def Monitor.averageThroughput (m : Monitor) (s : MonitorState) (i : TickInput) : ℚ :=
  WNET.averageThroughput m.weights (m.beforeHysteresis s i).throughputSmoothingHistory

/-- The "State machine for hysteresis" of a tick, with the monitor's three factors. -/
def Monitor.hysteresis (m : Monitor) (s : MonitorState) (i : TickInput) : MonitorState :=
  WNET.hysteresis m.dropFraction m.recoveryFraction m.warningFraction (m.initialPeak s i)
    (m.averageThroughput s i) (m.beforeHysteresis s i)

/-- The state a tick is in after its decay block. -/
def Monitor.afterDecay (m : Monitor) (s : MonitorState) (i : TickInput) : MonitorState :=
  match m with
  | Monitor.dsl =>
    (deDecay DSL_PROFILE dslTuning i.now (m.currentThroughput i) (m.beforeDecay s i)).1
  | Monitor.cable => (cableDecay i.now (m.currentThroughput i) (m.beforeDecay s i)).1
  | Monitor.fiber => (fiberDecay i.now (m.currentThroughput i) (m.beforeDecay s i)).1
  | Monitor.enterprise =>
    (deDecay ENTERPRISE_PROFILE enterpriseTuning i.now (m.currentThroughput i)
      (m.beforeDecay s i)).1
  | Monitor.gigabit =>
    (guDecay gigabitTuning i.now (m.currentThroughput i) (m.beforeDecay s i)).1
  | Monitor.ultra => (guDecay ultraTuning i.now (m.currentThroughput i) (m.beforeDecay s i)).1

/-- The block "THRASHING PROTECTION" of a tick: the state after it and whether the guard
fired ("PERFORMANCE DECAY: Lowering optimal"). The constants are the history bound, the
window and the factor of dsl.js 232-239 (6, 3, 0.75), enterprise.js 232-239 (12, 6, 0.8),
cable.js 192-199 (8, 4, 0.8), fiber.js 216-223 (10, 5, 0.85) and gigabit.js / ultra.js
223-230 (10, 5, 0.9); the floor is the `parallel` field of the monitor's table. -/
def Monitor.thrashingGuard (m : Monitor) (s : MonitorState) (i : TickInput) :
    MonitorState × Bool :=
  match m with
  | Monitor.dsl =>
    thrashingProtection DSL_PROFILE.parallel dslTuning.thrashMax dslTuning.thrashWindow
      dslTuning.thrashFraction (m.currentThroughput i) (m.afterDecay s i).contextMaxParallel
      (m.afterDecay s i)
  | Monitor.cable =>
    thrashingProtection CABLE_PROFILE.parallel 8 4 0.8 (m.currentThroughput i)
      (m.afterDecay s i).maxParallel (m.afterDecay s i)
  | Monitor.fiber =>
    thrashingProtection FIBER_PROFILE.parallel 10 5 0.85 (m.currentThroughput i)
      (m.afterDecay s i).contextMaxParallel (m.afterDecay s i)
  | Monitor.enterprise =>
    thrashingProtection ENTERPRISE_PROFILE.parallel enterpriseTuning.thrashMax
      enterpriseTuning.thrashWindow enterpriseTuning.thrashFraction (m.currentThroughput i)
      (m.afterDecay s i).contextMaxParallel (m.afterDecay s i)
  | Monitor.gigabit =>
    thrashingProtection GIGABIT_PROFILE.parallel 10 5 0.9 (m.currentThroughput i)
      (m.afterDecay s i).contextMaxParallel (m.afterDecay s i)
  | Monitor.ultra =>
    thrashingProtection ULTRA_PROFILE.parallel 10 5 0.9 (m.currentThroughput i)
      (m.afterDecay s i).contextMaxParallel (m.afterDecay s i)

/-- The state in which the ramp logic of a tick starts: after the thrashing protection. -/
def Monitor.beforeRamp (m : Monitor) (s : MonitorState) (i : TickInput) : MonitorState :=
  (m.thrashingGuard s i).1

/-- The speed the ramp logic compares with its thresholds: `smoothedPartSpeed`, except in
ultra.js, which compares `avgPartSpeedMbps = avgPartSpeed * 8` (lines 129, 249, 269). -/
def Monitor.rampSpeed (m : Monitor) (s : MonitorState) (i : TickInput) : ℚ :=
  match m with
  | Monitor.ultra => m.avgPartSpeed i * 8
  | _ => m.smoothedPartSpeed s i

/-- The ramp-up test of a monitor on the speed: `avgSpeedPerPart >= PROFILE.rampUpThreshold`
in dsl.js 250 and enterprise.js 250, `smoothedPartSpeed > PROFILE.rampUpThreshold` in
cable.js 231 and fiber.js 248, and in gigabit.js / ultra.js 269 the comparison with the
local constant `rampUpThreshold` of line 244 (`25.0` in gigabit.js, `8.0` in ultra.js),
not with the field of the table. -/
def Monitor.rampUpTest (m : Monitor) (s : MonitorState) (i : TickInput) : Prop :=
  match m with
  | Monitor.dsl => m.rampSpeed s i ≥ DSL_PROFILE.rampUpThreshold
  | Monitor.enterprise => m.rampSpeed s i ≥ ENTERPRISE_PROFILE.rampUpThreshold
  | Monitor.cable => m.rampSpeed s i > CABLE_PROFILE.rampUpThreshold
  | Monitor.fiber => m.rampSpeed s i > FIBER_PROFILE.rampUpThreshold
  | Monitor.gigabit => m.rampSpeed s i > gigabitTuning.rampUpThreshold
  | Monitor.ultra => m.rampSpeed s i > ultraTuning.rampUpThreshold

instance (m : Monitor) (s : MonitorState) (i : TickInput) : Decidable (m.rampUpTest s i) := by
  unfold Monitor.rampUpTest; cases m <;> infer_instance

/-- The low-speed test of a monitor's ramp logic: `avgSpeedPerPart <=
PROFILE.rampDownThreshold` in dsl.js 255 and enterprise.js 255, `smoothedPartSpeed <
PROFILE.rampDownThreshold` in cable.js 212 / 224 and fiber.js 241, and in gigabit.js /
ultra.js 249 the comparison with the local constant `rampDownThreshold` of line 245
(`15.0` in gigabit.js, `5.0` in ultra.js) together with `currentThroughput < 600`
(gigabit.js) or `< 120` (ultra.js). -/
def Monitor.lowSpeedTest (m : Monitor) (s : MonitorState) (i : TickInput) : Prop :=
  match m with
  | Monitor.dsl => m.rampSpeed s i ≤ DSL_PROFILE.rampDownThreshold
  | Monitor.enterprise => m.rampSpeed s i ≤ ENTERPRISE_PROFILE.rampDownThreshold
  | Monitor.cable => m.rampSpeed s i < CABLE_PROFILE.rampDownThreshold
  | Monitor.fiber => m.rampSpeed s i < FIBER_PROFILE.rampDownThreshold
  | Monitor.gigabit =>
    m.rampSpeed s i < gigabitTuning.rampDownThreshold
      ∧ m.currentThroughput i < gigabitTuning.lowTotalMbps
  | Monitor.ultra =>
    m.rampSpeed s i < ultraTuning.rampDownThreshold
      ∧ m.currentThroughput i < ultraTuning.lowTotalMbps

instance (m : Monitor) (s : MonitorState) (i : TickInput) : Decidable (m.lowSpeedTest s i) := by
  unfold Monitor.lowSpeedTest; cases m <;> infer_instance

/-- The ramp logic of a tick: the state after it, whether it raised the parallelism and
whether it lowered it. In dsl.js and enterprise.js it is the block "Adaptive scaling
logic"; in the other monitors it is the low-speed tracking, the ramp decision and "Apply
adjustment", and the parallelism changes only when the adjustment is applied. -/
def Monitor.rampStep (m : Monitor) (s : MonitorState) (i : TickInput) :
    MonitorState × Bool × Bool :=
  match m with
  | Monitor.dsl => deScaling DSL_PROFILE i.now (m.rampSpeed s i) (m.beforeRamp s i)
  | Monitor.enterprise =>
    deScaling ENTERPRISE_PROFILE i.now (m.rampSpeed s i) (m.beforeRamp s i)
  | Monitor.cable =>
    let r := cableRamp i.now (m.rampSpeed s i)
      (cableTrackLow (m.rampSpeed s i) (cableTrackLow (m.rampSpeed s i) (m.beforeRamp s i)))
    let a := cableApplyAdjustment i.now (m.smoothedPartSpeed s i) r.2 r.1
    (a.1, r.2.rampUp && a.2, r.2.rampDown && a.2)
  | Monitor.fiber =>
    let r := fiberRamp i.now (m.rampSpeed s i)
      (fiberTrackLow (m.rampSpeed s i) (m.beforeRamp s i))
    let a := applyAdjustment 5000 i.now (m.smoothedPartSpeed s i) r.2 r.1
    (a.1, r.2.rampUp && a.2, r.2.rampDown && a.2)
  | Monitor.gigabit =>
    let l := guLockMode GIGABIT_PROFILE gigabitTuning i.now (m.rampSpeed s i)
      (m.currentThroughput i)
      (guTrackLow gigabitTuning (m.rampSpeed s i) (m.currentThroughput i) (m.beforeRamp s i))
    let r := guRampDown GIGABIT_PROFILE gigabitTuning i.now (m.currentThroughput i) l.2 l.1
    let a := applyAdjustment gigabitTuning.debounce i.now (m.smoothedPartSpeed s i) r.2 r.1
    (a.1, r.2.rampUp && a.2, r.2.rampDown && a.2)
  | Monitor.ultra =>
    let l := guLockMode ULTRA_PROFILE ultraTuning i.now (m.rampSpeed s i)
      (m.currentThroughput i)
      (guTrackLow ultraTuning (m.rampSpeed s i) (m.currentThroughput i) (m.beforeRamp s i))
    let r := guRampDown ULTRA_PROFILE ultraTuning i.now (m.currentThroughput i) l.2 l.1
    let a := applyAdjustment ultraTuning.debounce i.now (m.smoothedPartSpeed s i) r.2 r.1
    (a.1, r.2.rampUp && a.2, r.2.rampDown && a.2)

/-- The state a tick is in after its ramp logic. -/
def Monitor.afterRamp (m : Monitor) (s : MonitorState) (i : TickInput) : MonitorState :=
  (m.rampStep s i).1

/-- A parallelism that is a whole number. -/
def isWhole (x : ℚ) : Prop := x.den = 1

instance (x : ℚ) : Decidable (isWhole x) := by unfold isWhole; infer_instance

/-- The evaluated body of a monitor's callback on the recent samples of a tick. -/
def Monitor.body (m : Monitor) (s : MonitorState) (i : TickInput) :
    MonitorState × TickEvents :=
  match m with
  | Monitor.dsl => deBody DSL_PROFILE dslTuning i (m.recentParts i) s
  | Monitor.cable => cableBody i (m.recentParts i) s
  | Monitor.fiber => fiberBody i (m.recentParts i) s
  | Monitor.enterprise => deBody ENTERPRISE_PROFILE enterpriseTuning i (m.recentParts i) s
  | Monitor.gigabit => guBody GIGABIT_PROFILE gigabitTuning i (m.recentParts i) s
  | Monitor.ultra => guBody ULTRA_PROFILE ultraTuning i (m.recentParts i) s

/-- The ramp logic lowered the parallelism on this tick: the branch "SCALE DOWN" of dsl.js
and enterprise.js, or a "SUSTAINED LOW" decision that "Apply adjustment" then wrote. -/
def rampDecisionLowered (ev : TickEvents) : Prop :=
  ev.scaleDown = true ∨ (ev.rampDownDecided = true ∧ ev.adjustment = true)

instance (ev : TickEvents) : Decidable (rampDecisionLowered ev) :=
  inferInstanceAs
    (Decidable (ev.scaleDown = true ∨ (ev.rampDownDecided = true ∧ ev.adjustment = true)))

/-- The weighted average as the specification states it: the sum over `i < n` of
`w[i] * h[n - 1 - i]` divided by the sum over `i < n` of `w[i]`, with `n` the length of
the history `h` and `w` the weight table. -/
def specWeightedAverage (w h : List ℚ) : ℚ :=
  ((List.range h.length).map (fun i => w.getD i 0 * h.getD (h.length - 1 - i) 0)).sum
    / ((List.range h.length).map (fun i => w.getD i 0)).sum

/-- The field `limits.fileSize` of the `multer` configuration, vps-upload-proxy.js 19-23:
"10GB max file size". -/
def uploadFileSizeLimit : Int := 10 * 1024 * 1024 * 1024

/-- The smallest and the largest `strategy.partSize` a monitor started from its own
strategy can hold: the table's `partSize` and the bound of the monitor's fallback block.
DSL parts shrink from 8 MB down to 3 MB ("Don't go below 3MB for DSL"), gigabit parts from
250 MB down to 150 MB, cable parts grow from 20 MB up to at most 25 MB; the guards of
enterprise.js (`< 40 MB`), fiber.js (`< 40 MB`) and ultra.js (`< 12 MB`) never admit the
table's own part size. -/
def Monitor.partSizeRange : Monitor → Int × Int
  | Monitor.dsl => (dslTuning.fallback.bound, DSL_PROFILE.partSize)
  | Monitor.cable => (CABLE_PROFILE.partSize, 25 * 1024 * 1024)
  | Monitor.fiber => (FIBER_PROFILE.partSize, FIBER_PROFILE.partSize)
  | Monitor.enterprise => (ENTERPRISE_PROFILE.partSize, ENTERPRISE_PROFILE.partSize)
  | Monitor.gigabit => (gigabitTuning.fallback.bound, GIGABIT_PROFILE.partSize)
  | Monitor.ultra => (ULTRA_PROFILE.partSize, ULTRA_PROFILE.partSize)

/-- The plain arithmetic mean of a list of numbers. -/
def mean (xs : List ℚ) : ℚ := xs.sum / xs.length

/-- The values `avgPartSpeed` of the evaluated ticks of a run, oldest first. -/
def Monitor.evaluatedAverages (m : Monitor) : MonitorState → List TickInput → List ℚ
  | _, [] => []
  | s, i :: rest =>
    (if (m.tick s i).2.evaluated = true then [m.avgPartSpeed i] else [])
      ++ Monitor.evaluatedAverages m (m.tick s i).1 rest

/-- What a raise of the parallelism by the ramp logic of a tick takes, and what it gives:
the monitor's ramp-up test holds, the parallelism was below `strategy.maxParallelCap` and
is now higher; in dsl.js and enterprise.js it is higher by one and the peak was not both
detected and locked; in the other monitors it is at most the cap and the parallelism was
not at or beyond the optimum of a detected peak. -/
structure RampUpFacts (m : Monitor) (s : MonitorState) (i : TickInput) : Prop where
  test : m.rampUpTest s i
  belowCap : m.parallelism (m.beforeRamp s i) < s.maxParallelCap
  raised : m.parallelism (m.beforeRamp s i) < m.parallelism (m.afterRamp s i)
  capped : (m ≠ Monitor.dsl → m ≠ Monitor.enterprise →
      m.parallelism (m.afterRamp s i) ≤ s.maxParallelCap)
  byOne : (m = Monitor.dsl ∨ m = Monitor.enterprise →
      m.parallelism (m.afterRamp s i) = m.parallelism (m.beforeRamp s i) + 1)
  sweetSpot : (m ≠ Monitor.dsl → m ≠ Monitor.enterprise →
      ¬ ((m.beforeRamp s i).peakPerformanceDetected = true
        ∧ m.parallelism (m.beforeRamp s i) ≥ (m.beforeRamp s i).optimalParallel))
  unlocked : (m = Monitor.dsl ∨ m = Monitor.enterprise →
      (m.beforeRamp s i).peakPerformanceDetected = false
        ∨ (m.beforeRamp s i).lockedPerformance = false)

/-- A tick on which the ramp logic ran: the tick was evaluated and the callback did not
end in its `catch`. -/
def Monitor.rampLogicRan (m : Monitor) (s : MonitorState) (i : TickInput) : Prop :=
  (m.tick s i).2.evaluated = true ∧ (m.tick s i).2.monitorError = false

instance (m : Monitor) (s : MonitorState) (i : TickInput) : Decidable (m.rampLogicRan s i) := by
  unfold Monitor.rampLogicRan; infer_instance

/-- The length of the run of low-speed ticks a tick sequence ends with, starting the count
at `n`: a tick on which the ramp logic ran continues the run when the monitor's low-speed
test holds and restarts the count when it does not; a tick on which the ramp logic did not
run is passed over. -/
def Monitor.lowRunFrom (m : Monitor) : Nat → MonitorState → List TickInput → Nat
  | n, _, [] => n
  | n, s, i :: rest =>
    Monitor.lowRunFrom m
      (if m.rampLogicRan s i then (if m.lowSpeedTest s i then n + 1 else 0) else n)
      (m.tick s i).1 rest

/-- The number of consecutive ticks, counted back from the end of the run, on which the
ramp logic ran with the monitor's low-speed test satisfied. -/
def Monitor.lowRun (m : Monitor) (s : MonitorState) (inputs : List TickInput) : Nat :=
  m.lowRunFrom 0 s inputs

/-- Three enterprise ticks, 1.5 s apart, each seeing six samples of 4 MB/s (192 Mbps). -/
def enterpriseStrongTicks : List TickInput :=
  [sampleInput 20000 (sampleParts 6 4 19000) 10000000000,
   sampleInput 21500 (sampleParts 6 4 19000) 10000000000,
   sampleInput 23000 (sampleParts 6 4 19000) 10000000000]

/-- Six DSL ticks, 3 s apart, of an upload that has moved only 1000 bytes in more than a
minute, each seeing two samples of 1.5 MB/s. -/
def dslSlowUpload : List TickInput :=
  [sampleInput 70000 (sampleParts 2 1.5 60000) 1000,
   sampleInput 73000 (sampleParts 2 1.5 60000) 1000,
   sampleInput 76000 (sampleParts 2 1.5 60000) 1000,
   sampleInput 79000 (sampleParts 2 1.5 60000) 1000,
   sampleInput 82000 (sampleParts 2 1.5 60000) 1000,
   sampleInput 85000 (sampleParts 2 1.5 60000) 1000]

/-- Two cable ticks: four samples of 2.5 MB/s (80 Mbps), then four samples of 1.25 MB/s
(40 Mbps). -/
def cableBandTicks : List TickInput :=
  [sampleInput 10000 (sampleParts 4 2.5 9000) 10000000000,
   sampleInput 13000 (sampleParts 4 1.25 12000) 10000000000]

/-- The second tick of `cableBandTicks`. -/
def cableBandTick : TickInput :=
  sampleInput 13000 (sampleParts 4 1.25 12000) 10000000000

/-- A cable tick that sees four samples of 1 MB/s (32 Mbps). -/
def cableWarningTick : TickInput :=
  sampleInput 13000 (sampleParts 4 1 12000) 10000000000

/-- An enterprise run: five ticks at 1 MB/s per part (32 Mbps), which end in a scale-down
from 6 to 4, then three ticks at 10 MB/s per part (960 Mbps): the peak is detected at
parallelism 4, the second strong tick scales up to 5, the third one locks. -/
def enterpriseThrash : List TickInput :=
  [sampleInput 50000 (sampleParts 4 1 49000) 10000000000,
   sampleInput 52000 (sampleParts 4 1 49000) 10000000000,
   sampleInput 54000 (sampleParts 4 1 49000) 10000000000,
   sampleInput 56000 (sampleParts 4 1 49000) 10000000000,
   sampleInput 58000 (sampleParts 4 1 49000) 10000000000,
   sampleInput 71000 (sampleParts 12 10 70000) 10000000000,
   sampleInput 72500 (sampleParts 12 10 70000) 10000000000,
   sampleInput 74000 (sampleParts 12 10 70000) 10000000000]

/-- The last tick of `enterpriseThrash`. -/
def enterpriseThrashTick : TickInput :=
  sampleInput 74000 (sampleParts 12 10 70000) 10000000000

/-- An enterprise tick that sees four samples of 2 MB/s, 20 s after the first tick of
`twoScaleUps` (four samples of 4 MB/s). -/
def enterpriseSlowerTick : TickInput :=
  sampleInput 40000 (sampleParts 4 2 30000) 10000000000

/-- Two ultra ticks: ten samples of 0.5 MB/s (40 Mbps), which unlock the assumed peak, then
ten samples of 1.5 MB/s (120 Mbps): the mean speed of the tick is 1.5 MB/s, that is
12 Mbps per part, and the smoothed speed is 1 MB/s. -/
def ultraRampTicks : List TickInput :=
  [sampleInput 10000 (sampleParts 10 0.5 9000) 100000000000,
   sampleInput 10500 (sampleParts 10 1.5 10000) 100000000000]

/-- The second tick of `ultraRampTicks`. -/
def ultraRampTick : TickInput :=
  sampleInput 10500 (sampleParts 10 1.5 10000) 100000000000

/-- The first tick of `enterpriseStrongTicks`. -/
def enterprisePeakTick : TickInput :=
  sampleInput 20000 (sampleParts 6 4 19000) 10000000000

/-- Two gigabit ticks, 8 s apart, each seeing three samples of 10 MB/s (240 Mbps). -/
def gigabitSlowTicks : List TickInput :=
  [sampleInput 10000 (sampleParts 3 10 9000) 100000000000,
   sampleInput 18000 (sampleParts 3 10 17000) 100000000000]

/-- The second tick of `gigabitSlowTicks`. -/
def gigabitSlowTick : TickInput :=
  sampleInput 18000 (sampleParts 3 10 17000) 100000000000

/-! ## The steps of a tick after the ramp logic -/

/-- The test of the block "ZOMBIE PART KILLER" on one tracker sample: `part.speed <
PROFILE.minPartSpeed && (now - part.timestamp) > PROFILE.minPartTimeout`. -/
def isZombie (P : StallProfile) (now : Int) (part : PartTime) : Prop :=
  part.speed < P.minPartSpeed ∧ now - part.timestamp > P.minPartTimeout

instance (P : StallProfile) (now : Int) (part : PartTime) : Decidable (isZombie P now part) := by
  unfold isZombie; infer_instance

/-- The block "NO-PROGRESS WATCHDOG" of a tick, run on the state the ramp logic left; the
zombie block between the two only prints. The flags are (watchdog fired, parallelism
reduced, stall ignored because locked). dsl.js 283-291 subtracts `1`, enterprise.js 282-290
and fiber.js 304-312 subtract `2`, gigabit.js 338-348 subtracts
`GIGABIT_PROFILE.throttleAmount` and ultra.js 338-348 subtracts `2`; only gigabit.js and
ultra.js test `!lockedPerformance`. cable.js has no watchdog. -/
def Monitor.watchdog (m : Monitor) (s : MonitorState) (i : TickInput) :
    MonitorState × Bool × Bool × Bool :=
  match m with
  | Monitor.dsl =>
    ((noProgressWatchdog DSL_PROFILE dslTuning.stallStep i.now (m.afterRamp s i)).1,
      (noProgressWatchdog DSL_PROFILE dslTuning.stallStep i.now (m.afterRamp s i)).2.1,
      (noProgressWatchdog DSL_PROFILE dslTuning.stallStep i.now (m.afterRamp s i)).2.2, false)
  | Monitor.enterprise =>
    ((noProgressWatchdog ENTERPRISE_PROFILE enterpriseTuning.stallStep i.now
        (m.afterRamp s i)).1,
      (noProgressWatchdog ENTERPRISE_PROFILE enterpriseTuning.stallStep i.now
        (m.afterRamp s i)).2.1,
      (noProgressWatchdog ENTERPRISE_PROFILE enterpriseTuning.stallStep i.now
        (m.afterRamp s i)).2.2, false)
  | Monitor.fiber =>
    ((noProgressWatchdog FIBER_PROFILE 2 i.now (m.afterRamp s i)).1,
      (noProgressWatchdog FIBER_PROFILE 2 i.now (m.afterRamp s i)).2.1,
      (noProgressWatchdog FIBER_PROFILE 2 i.now (m.afterRamp s i)).2.2, false)
  | Monitor.cable => (m.afterRamp s i, false, false, false)
  | Monitor.gigabit =>
    guWatchdog GIGABIT_PROFILE gigabitTuning.stallStep i.now (m.afterRamp s i)
  | Monitor.ultra => guWatchdog ULTRA_PROFILE ultraTuning.stallStep i.now (m.afterRamp s i)

/-- The state a tick is in after its watchdog. -/
def Monitor.afterWatchdog (m : Monitor) (s : MonitorState) (i : TickInput) : MonitorState :=
  (m.watchdog s i).1

/-- The block "EMERGENCY RESET" of a tick and whether it fired; in gigabit.js and ultra.js
the block "CONTINUOUS PROGRESS TRACKING" runs right before it. cable.js has neither. -/
def Monitor.emergency (m : Monitor) (s : MonitorState) (i : TickInput) : MonitorState × Bool :=
  match m with
  | Monitor.dsl =>
    emergencyReset DSL_PROFILE i.now (m.currentThroughput i) (m.recentParts i).length
      (m.afterWatchdog s i)
  | Monitor.enterprise =>
    emergencyReset ENTERPRISE_PROFILE i.now (m.currentThroughput i) (m.recentParts i).length
      (m.afterWatchdog s i)
  | Monitor.fiber =>
    emergencyReset FIBER_PROFILE i.now (m.currentThroughput i) (m.recentParts i).length
      (m.afterWatchdog s i)
  | Monitor.cable => (m.afterWatchdog s i, false)
  | Monitor.gigabit =>
    emergencyReset GIGABIT_PROFILE.toStallProfile i.now (m.currentThroughput i)
      (m.recentParts i).length
      (continuousProgress i (m.recentParts i).length (m.afterWatchdog s i))
  | Monitor.ultra =>
    emergencyReset ULTRA_PROFILE.toStallProfile i.now (m.currentThroughput i)
      (m.recentParts i).length
      (continuousProgress i (m.recentParts i).length (m.afterWatchdog s i))

/-- The state a tick is in after its emergency reset block, before the fallback block. -/
def Monitor.afterEmergency (m : Monitor) (s : MonitorState) (i : TickInput) : MonitorState :=
  (m.emergency s i).1

/-- The clock of the last evaluated tick of a run, starting from `clock`. -/
def Monitor.lastEvaluatedClock (m : Monitor) : Int → MonitorState → List TickInput → Int
  | clock, _, [] => clock
  | clock, s, i :: rest =>
    Monitor.lastEvaluatedClock m
      (if (m.tick s i).2.evaluated = true then i.now else clock) (m.tick s i).1 rest

/-- Three strong enterprise ticks that lock the peak at parallelism 7, then a tick 57 s
later with the same six samples of 4 MB/s. -/
def enterpriseLockedStall : List TickInput :=
  enterpriseStrongTicks ++ [sampleInput 80000 (sampleParts 6 4 79000) 10000000000]

/-- The last tick of `enterpriseLockedStall`. -/
def enterpriseStallTick : TickInput :=
  sampleInput 80000 (sampleParts 6 4 79000) 10000000000

/-- An enterprise tick at clock 30000: a sample of part 9 at 0.05 MB/s recorded at clock
5000 (25 s old), and four samples of 4 MB/s recorded at clock 29000. -/
def zombieTick : TickInput :=
  sampleInput 30000
    ([{ partNumber := 9, speed := 0.05, timestamp := 5000 }] ++ sampleParts 4 4 29000)
    10000000000

/-- The last tick of `dslLockLost`: 26 Mbps, 15 s after the second low tick. -/
def dslLostTick : TickInput :=
  sampleInput 60000 (sampleParts 5 0.65 59000) 10000000000

/-! ## Invariants of the reachable states -/

/-- What the parallelism arithmetic of gigabit.js / ultra.js needs of its constants: the
steps and bounds are whole numbers, the cap of the fallback block `Math.max(maxParallelCap
* factor, floor)` is a whole number not below `minParallel`, and `minParallel <= parallel
<= maxCap`. -/
structure GUConstants (P : LockProfile) (T : GUTuning) : Prop where
  parallel : isWhole P.parallel
  minParallel : isWhole P.minParallel
  maxCap : isWhole P.maxCap
  rampStep : isWhole P.rampStep
  rampDownStep : isWhole T.rampDownStep
  stallStep : isWhole T.stallStep
  fallbackCap : isWhole (max (P.maxCap * T.fallback.capFactor) T.fallback.capFloor)
  fallbackLow : P.minParallel ≤ max (P.maxCap * T.fallback.capFactor) T.fallback.capFloor
  minLe : P.minParallel ≤ P.parallel
  parLe : P.parallel ≤ P.maxCap
  rampStepNonneg : 0 ≤ P.rampStep
  rampDownStepNonneg : 0 ≤ T.rampDownStep
  stallStepNonneg : 0 ≤ T.stallStep

/-- The invariant of the gigabit / ultra monitor: the cap is the table's, the parallelism
is a whole number between `minParallel` and `maxCap`, an unlocked state has no peak, and
with the peak detected the parallelism is at most the recorded optimum. -/
structure GUInvariant (P : LockProfile) (s : MonitorState) : Prop where
  cap : s.maxParallelCap = P.maxCap
  whole : isWhole s.contextMaxParallel
  lower : P.minParallel ≤ s.contextMaxParallel
  upper : s.contextMaxParallel ≤ P.maxCap
  lock : s.lockedPerformance = false → s.peakPerformanceDetected = false
  sweet : s.peakPerformanceDetected = true → s.contextMaxParallel ≤ s.optimalParallel

/-- The invariant of the fiber monitor: the cap is 16, the part size is out of the reach of
the fallback guard, the parallelism and the recorded optimum are whole numbers, and with
the peak detected the parallelism is at most the recorded optimum. -/
structure FiberInvariant (s : MonitorState) : Prop where
  cap : s.maxParallelCap = 16
  size : 40 * 1024 * 1024 ≤ s.partSize
  whole : isWhole s.contextMaxParallel
  wholeOpt : isWhole s.optimalParallel
  sweet : s.peakPerformanceDetected = true → s.contextMaxParallel ≤ s.optimalParallel

/-- The invariant of the cable monitor, on its private `maxParallel`. -/
structure CableInvariant (s : MonitorState) : Prop where
  cap : s.maxParallelCap = 10
  whole : isWhole s.maxParallel
  wholeOpt : isWhole s.optimalParallel
  sweet : s.peakPerformanceDetected = true → s.maxParallel ≤ s.optimalParallel

/-- Two gigabit ticks, after those of `gigabitSlowTicks`, each seeing ten samples of
12 MB/s (960 Mbps). -/
def gigabitStrongAgain : List TickInput :=
  [sampleInput 26000 (sampleParts 10 12 25000) 100000000000,
   sampleInput 34000 (sampleParts 10 12 33000) 100000000000]

/-! ## Frame lemmas: the fields each step leaves unchanged -/

@[simp] theorem recordAvgPartSpeed_parallelAdjustmentHistory (historyMax : Nat) (recentParts : List PartTime)
    (s : MonitorState) :
    (recordAvgPartSpeed historyMax recentParts s).parallelAdjustmentHistory = s.parallelAdjustmentHistory := by
  rfl

@[simp] theorem recordAvgPartSpeed_lastParallelAdjustment (historyMax : Nat) (recentParts : List PartTime)
    (s : MonitorState) :
    (recordAvgPartSpeed historyMax recentParts s).lastParallelAdjustment = s.lastParallelAdjustment := by
  rfl

@[simp] theorem recordAvgPartSpeed_lastScaleDown (historyMax : Nat) (recentParts : List PartTime)
    (s : MonitorState) :
    (recordAvgPartSpeed historyMax recentParts s).lastScaleDown = s.lastScaleDown := by
  rfl

@[simp] theorem recordAvgPartSpeed_lowSpeedSamples (historyMax : Nat) (recentParts : List PartTime)
    (s : MonitorState) :
    (recordAvgPartSpeed historyMax recentParts s).lowSpeedSamples = s.lowSpeedSamples := by
  rfl

@[simp] theorem recordAvgPartSpeed_peakPerformanceDetected (historyMax : Nat) (recentParts : List PartTime)
    (s : MonitorState) :
    (recordAvgPartSpeed historyMax recentParts s).peakPerformanceDetected = s.peakPerformanceDetected := by
  rfl

@[simp] theorem recordAvgPartSpeed_maxParallel (historyMax : Nat) (recentParts : List PartTime)
    (s : MonitorState) :
    (recordAvgPartSpeed historyMax recentParts s).maxParallel = s.maxParallel := by
  rfl

@[simp] theorem recordAvgPartSpeed_optimalParallel (historyMax : Nat) (recentParts : List PartTime)
    (s : MonitorState) :
    (recordAvgPartSpeed historyMax recentParts s).optimalParallel = s.optimalParallel := by
  rfl

@[simp] theorem recordAvgPartSpeed_peakTimestamp (historyMax : Nat) (recentParts : List PartTime)
    (s : MonitorState) :
    (recordAvgPartSpeed historyMax recentParts s).peakTimestamp = s.peakTimestamp := by
  rfl

@[simp] theorem recordAvgPartSpeed_initialPeakThroughput (historyMax : Nat) (recentParts : List PartTime)
    (s : MonitorState) :
    (recordAvgPartSpeed historyMax recentParts s).initialPeakThroughput = s.initialPeakThroughput := by
  rfl

@[simp] theorem recordAvgPartSpeed_lastScaleTime (historyMax : Nat) (recentParts : List PartTime)
    (s : MonitorState) :
    (recordAvgPartSpeed historyMax recentParts s).lastScaleTime = s.lastScaleTime := by
  rfl

@[simp] theorem recordAvgPartSpeed_peakThroughputHistory (historyMax : Nat) (recentParts : List PartTime)
    (s : MonitorState) :
    (recordAvgPartSpeed historyMax recentParts s).peakThroughputHistory = s.peakThroughputHistory := by
  rfl

@[simp] theorem recordAvgPartSpeed_throughputSmoothingHistory (historyMax : Nat) (recentParts : List PartTime)
    (s : MonitorState) :
    (recordAvgPartSpeed historyMax recentParts s).throughputSmoothingHistory = s.throughputSmoothingHistory := by
  rfl

@[simp] theorem recordAvgPartSpeed_peakResetState (historyMax : Nat) (recentParts : List PartTime)
    (s : MonitorState) :
    (recordAvgPartSpeed historyMax recentParts s).peakResetState = s.peakResetState := by
  rfl

@[simp] theorem recordAvgPartSpeed_strongPerformanceSamples (historyMax : Nat) (recentParts : List PartTime)
    (s : MonitorState) :
    (recordAvgPartSpeed historyMax recentParts s).strongPerformanceSamples = s.strongPerformanceSamples := by
  rfl

@[simp] theorem recordAvgPartSpeed_lastProgress (historyMax : Nat) (recentParts : List PartTime)
    (s : MonitorState) :
    (recordAvgPartSpeed historyMax recentParts s).lastProgress = s.lastProgress := by
  rfl

@[simp] theorem recordAvgPartSpeed_emergencyResetCounter (historyMax : Nat) (recentParts : List PartTime)
    (s : MonitorState) :
    (recordAvgPartSpeed historyMax recentParts s).emergencyResetCounter = s.emergencyResetCounter := by
  rfl

@[simp] theorem recordAvgPartSpeed_lockedPerformance (historyMax : Nat) (recentParts : List PartTime)
    (s : MonitorState) :
    (recordAvgPartSpeed historyMax recentParts s).lockedPerformance = s.lockedPerformance := by
  rfl

@[simp] theorem recordAvgPartSpeed_contextMaxParallel (historyMax : Nat) (recentParts : List PartTime)
    (s : MonitorState) :
    (recordAvgPartSpeed historyMax recentParts s).contextMaxParallel = s.contextMaxParallel := by
  rfl

@[simp] theorem recordAvgPartSpeed_partSize (historyMax : Nat) (recentParts : List PartTime)
    (s : MonitorState) :
    (recordAvgPartSpeed historyMax recentParts s).partSize = s.partSize := by
  rfl

@[simp] theorem recordAvgPartSpeed_maxParallelCap (historyMax : Nat) (recentParts : List PartTime)
    (s : MonitorState) :
    (recordAvgPartSpeed historyMax recentParts s).maxParallelCap = s.maxParallelCap := by
  rfl

@[simp] theorem recordAvgPartSpeed_cleared (historyMax : Nat) (recentParts : List PartTime)
    (s : MonitorState) :
    (recordAvgPartSpeed historyMax recentParts s).cleared = s.cleared := by
  rfl

@[simp] theorem peakDetection_avgPartSpeedHistory (P : StallProfile) (peakSamples : Nat) (now : Int) (currentThroughput : ℚ) (count : Nat)
    (s : MonitorState) :
    (peakDetection P peakSamples now currentThroughput count s).1.avgPartSpeedHistory = s.avgPartSpeedHistory := by
  unfold peakDetection; split_ifs <;> rfl

@[simp] theorem peakDetection_parallelAdjustmentHistory (P : StallProfile) (peakSamples : Nat) (now : Int) (currentThroughput : ℚ) (count : Nat)
    (s : MonitorState) :
    (peakDetection P peakSamples now currentThroughput count s).1.parallelAdjustmentHistory = s.parallelAdjustmentHistory := by
  unfold peakDetection; split_ifs <;> rfl

@[simp] theorem peakDetection_lastParallelAdjustment (P : StallProfile) (peakSamples : Nat) (now : Int) (currentThroughput : ℚ) (count : Nat)
    (s : MonitorState) :
    (peakDetection P peakSamples now currentThroughput count s).1.lastParallelAdjustment = s.lastParallelAdjustment := by
  unfold peakDetection; split_ifs <;> rfl

@[simp] theorem peakDetection_lastScaleDown (P : StallProfile) (peakSamples : Nat) (now : Int) (currentThroughput : ℚ) (count : Nat)
    (s : MonitorState) :
    (peakDetection P peakSamples now currentThroughput count s).1.lastScaleDown = s.lastScaleDown := by
  unfold peakDetection; split_ifs <;> rfl

@[simp] theorem peakDetection_lowSpeedSamples (P : StallProfile) (peakSamples : Nat) (now : Int) (currentThroughput : ℚ) (count : Nat)
    (s : MonitorState) :
    (peakDetection P peakSamples now currentThroughput count s).1.lowSpeedSamples = s.lowSpeedSamples := by
  unfold peakDetection; split_ifs <;> rfl

@[simp] theorem peakDetection_maxParallel (P : StallProfile) (peakSamples : Nat) (now : Int) (currentThroughput : ℚ) (count : Nat)
    (s : MonitorState) :
    (peakDetection P peakSamples now currentThroughput count s).1.maxParallel = s.maxParallel := by
  unfold peakDetection; split_ifs <;> rfl

@[simp] theorem peakDetection_lastScaleTime (P : StallProfile) (peakSamples : Nat) (now : Int) (currentThroughput : ℚ) (count : Nat)
    (s : MonitorState) :
    (peakDetection P peakSamples now currentThroughput count s).1.lastScaleTime = s.lastScaleTime := by
  unfold peakDetection; split_ifs <;> rfl

@[simp] theorem peakDetection_peakThroughputHistory (P : StallProfile) (peakSamples : Nat) (now : Int) (currentThroughput : ℚ) (count : Nat)
    (s : MonitorState) :
    (peakDetection P peakSamples now currentThroughput count s).1.peakThroughputHistory = s.peakThroughputHistory := by
  unfold peakDetection; split_ifs <;> rfl

@[simp] theorem peakDetection_throughputSmoothingHistory (P : StallProfile) (peakSamples : Nat) (now : Int) (currentThroughput : ℚ) (count : Nat)
    (s : MonitorState) :
    (peakDetection P peakSamples now currentThroughput count s).1.throughputSmoothingHistory = s.throughputSmoothingHistory := by
  unfold peakDetection; split_ifs <;> rfl

@[simp] theorem peakDetection_peakResetState (P : StallProfile) (peakSamples : Nat) (now : Int) (currentThroughput : ℚ) (count : Nat)
    (s : MonitorState) :
    (peakDetection P peakSamples now currentThroughput count s).1.peakResetState = s.peakResetState := by
  unfold peakDetection; split_ifs <;> rfl

@[simp] theorem peakDetection_strongPerformanceSamples (P : StallProfile) (peakSamples : Nat) (now : Int) (currentThroughput : ℚ) (count : Nat)
    (s : MonitorState) :
    (peakDetection P peakSamples now currentThroughput count s).1.strongPerformanceSamples = s.strongPerformanceSamples := by
  unfold peakDetection; split_ifs <;> rfl

@[simp] theorem peakDetection_emergencyResetCounter (P : StallProfile) (peakSamples : Nat) (now : Int) (currentThroughput : ℚ) (count : Nat)
    (s : MonitorState) :
    (peakDetection P peakSamples now currentThroughput count s).1.emergencyResetCounter = s.emergencyResetCounter := by
  unfold peakDetection; split_ifs <;> rfl

@[simp] theorem peakDetection_lockedPerformance (P : StallProfile) (peakSamples : Nat) (now : Int) (currentThroughput : ℚ) (count : Nat)
    (s : MonitorState) :
    (peakDetection P peakSamples now currentThroughput count s).1.lockedPerformance = s.lockedPerformance := by
  unfold peakDetection; split_ifs <;> rfl

@[simp] theorem peakDetection_contextMaxParallel (P : StallProfile) (peakSamples : Nat) (now : Int) (currentThroughput : ℚ) (count : Nat)
    (s : MonitorState) :
    (peakDetection P peakSamples now currentThroughput count s).1.contextMaxParallel = s.contextMaxParallel := by
  unfold peakDetection; split_ifs <;> rfl

@[simp] theorem peakDetection_partSize (P : StallProfile) (peakSamples : Nat) (now : Int) (currentThroughput : ℚ) (count : Nat)
    (s : MonitorState) :
    (peakDetection P peakSamples now currentThroughput count s).1.partSize = s.partSize := by
  unfold peakDetection; split_ifs <;> rfl

@[simp] theorem peakDetection_maxParallelCap (P : StallProfile) (peakSamples : Nat) (now : Int) (currentThroughput : ℚ) (count : Nat)
    (s : MonitorState) :
    (peakDetection P peakSamples now currentThroughput count s).1.maxParallelCap = s.maxParallelCap := by
  unfold peakDetection; split_ifs <;> rfl

@[simp] theorem peakDetection_cleared (P : StallProfile) (peakSamples : Nat) (now : Int) (currentThroughput : ℚ) (count : Nat)
    (s : MonitorState) :
    (peakDetection P peakSamples now currentThroughput count s).1.cleared = s.cleared := by
  unfold peakDetection; split_ifs <;> rfl

@[simp] theorem cablePeakDetection_avgPartSpeedHistory (now : Int) (currentThroughput : ℚ) (count : Nat)
    (s : MonitorState) :
    (cablePeakDetection now currentThroughput count s).1.avgPartSpeedHistory = s.avgPartSpeedHistory := by
  unfold cablePeakDetection; split_ifs <;> rfl

@[simp] theorem cablePeakDetection_parallelAdjustmentHistory (now : Int) (currentThroughput : ℚ) (count : Nat)
    (s : MonitorState) :
    (cablePeakDetection now currentThroughput count s).1.parallelAdjustmentHistory = s.parallelAdjustmentHistory := by
  unfold cablePeakDetection; split_ifs <;> rfl

@[simp] theorem cablePeakDetection_lastParallelAdjustment (now : Int) (currentThroughput : ℚ) (count : Nat)
    (s : MonitorState) :
    (cablePeakDetection now currentThroughput count s).1.lastParallelAdjustment = s.lastParallelAdjustment := by
  unfold cablePeakDetection; split_ifs <;> rfl

@[simp] theorem cablePeakDetection_lastScaleDown (now : Int) (currentThroughput : ℚ) (count : Nat)
    (s : MonitorState) :
    (cablePeakDetection now currentThroughput count s).1.lastScaleDown = s.lastScaleDown := by
  unfold cablePeakDetection; split_ifs <;> rfl

@[simp] theorem cablePeakDetection_lowSpeedSamples (now : Int) (currentThroughput : ℚ) (count : Nat)
    (s : MonitorState) :
    (cablePeakDetection now currentThroughput count s).1.lowSpeedSamples = s.lowSpeedSamples := by
  unfold cablePeakDetection; split_ifs <;> rfl

@[simp] theorem cablePeakDetection_maxParallel (now : Int) (currentThroughput : ℚ) (count : Nat)
    (s : MonitorState) :
    (cablePeakDetection now currentThroughput count s).1.maxParallel = s.maxParallel := by
  unfold cablePeakDetection; split_ifs <;> rfl

@[simp] theorem cablePeakDetection_lastScaleTime (now : Int) (currentThroughput : ℚ) (count : Nat)
    (s : MonitorState) :
    (cablePeakDetection now currentThroughput count s).1.lastScaleTime = s.lastScaleTime := by
  unfold cablePeakDetection; split_ifs <;> rfl

@[simp] theorem cablePeakDetection_peakThroughputHistory (now : Int) (currentThroughput : ℚ) (count : Nat)
    (s : MonitorState) :
    (cablePeakDetection now currentThroughput count s).1.peakThroughputHistory = s.peakThroughputHistory := by
  unfold cablePeakDetection; split_ifs <;> rfl

@[simp] theorem cablePeakDetection_throughputSmoothingHistory (now : Int) (currentThroughput : ℚ) (count : Nat)
    (s : MonitorState) :
    (cablePeakDetection now currentThroughput count s).1.throughputSmoothingHistory = s.throughputSmoothingHistory := by
  unfold cablePeakDetection; split_ifs <;> rfl

@[simp] theorem cablePeakDetection_peakResetState (now : Int) (currentThroughput : ℚ) (count : Nat)
    (s : MonitorState) :
    (cablePeakDetection now currentThroughput count s).1.peakResetState = s.peakResetState := by
  unfold cablePeakDetection; split_ifs <;> rfl

@[simp] theorem cablePeakDetection_strongPerformanceSamples (now : Int) (currentThroughput : ℚ) (count : Nat)
    (s : MonitorState) :
    (cablePeakDetection now currentThroughput count s).1.strongPerformanceSamples = s.strongPerformanceSamples := by
  unfold cablePeakDetection; split_ifs <;> rfl

@[simp] theorem cablePeakDetection_lastProgress (now : Int) (currentThroughput : ℚ) (count : Nat)
    (s : MonitorState) :
    (cablePeakDetection now currentThroughput count s).1.lastProgress = s.lastProgress := by
  unfold cablePeakDetection; split_ifs <;> rfl

@[simp] theorem cablePeakDetection_emergencyResetCounter (now : Int) (currentThroughput : ℚ) (count : Nat)
    (s : MonitorState) :
    (cablePeakDetection now currentThroughput count s).1.emergencyResetCounter = s.emergencyResetCounter := by
  unfold cablePeakDetection; split_ifs <;> rfl

@[simp] theorem cablePeakDetection_lockedPerformance (now : Int) (currentThroughput : ℚ) (count : Nat)
    (s : MonitorState) :
    (cablePeakDetection now currentThroughput count s).1.lockedPerformance = s.lockedPerformance := by
  unfold cablePeakDetection; split_ifs <;> rfl

@[simp] theorem cablePeakDetection_contextMaxParallel (now : Int) (currentThroughput : ℚ) (count : Nat)
    (s : MonitorState) :
    (cablePeakDetection now currentThroughput count s).1.contextMaxParallel = s.contextMaxParallel := by
  unfold cablePeakDetection; split_ifs <;> rfl

@[simp] theorem cablePeakDetection_partSize (now : Int) (currentThroughput : ℚ) (count : Nat)
    (s : MonitorState) :
    (cablePeakDetection now currentThroughput count s).1.partSize = s.partSize := by
  unfold cablePeakDetection; split_ifs <;> rfl

@[simp] theorem cablePeakDetection_maxParallelCap (now : Int) (currentThroughput : ℚ) (count : Nat)
    (s : MonitorState) :
    (cablePeakDetection now currentThroughput count s).1.maxParallelCap = s.maxParallelCap := by
  unfold cablePeakDetection; split_ifs <;> rfl

@[simp] theorem cablePeakDetection_cleared (now : Int) (currentThroughput : ℚ) (count : Nat)
    (s : MonitorState) :
    (cablePeakDetection now currentThroughput count s).1.cleared = s.cleared := by
  unfold cablePeakDetection; split_ifs <;> rfl

@[simp] theorem peakUpdate_avgPartSpeedHistory (P : LockProfile) (now : Int) (currentThroughput avgPartSpeedMbps : ℚ)
    (s : MonitorState) :
    (peakUpdate P now currentThroughput avgPartSpeedMbps s).1.avgPartSpeedHistory = s.avgPartSpeedHistory := by
  unfold peakUpdate; split_ifs <;> rfl

@[simp] theorem peakUpdate_parallelAdjustmentHistory (P : LockProfile) (now : Int) (currentThroughput avgPartSpeedMbps : ℚ)
    (s : MonitorState) :
    (peakUpdate P now currentThroughput avgPartSpeedMbps s).1.parallelAdjustmentHistory = s.parallelAdjustmentHistory := by
  unfold peakUpdate; split_ifs <;> rfl

@[simp] theorem peakUpdate_lastParallelAdjustment (P : LockProfile) (now : Int) (currentThroughput avgPartSpeedMbps : ℚ)
    (s : MonitorState) :
    (peakUpdate P now currentThroughput avgPartSpeedMbps s).1.lastParallelAdjustment = s.lastParallelAdjustment := by
  unfold peakUpdate; split_ifs <;> rfl

@[simp] theorem peakUpdate_lastScaleDown (P : LockProfile) (now : Int) (currentThroughput avgPartSpeedMbps : ℚ)
    (s : MonitorState) :
    (peakUpdate P now currentThroughput avgPartSpeedMbps s).1.lastScaleDown = s.lastScaleDown := by
  unfold peakUpdate; split_ifs <;> rfl

@[simp] theorem peakUpdate_lowSpeedSamples (P : LockProfile) (now : Int) (currentThroughput avgPartSpeedMbps : ℚ)
    (s : MonitorState) :
    (peakUpdate P now currentThroughput avgPartSpeedMbps s).1.lowSpeedSamples = s.lowSpeedSamples := by
  unfold peakUpdate; split_ifs <;> rfl

@[simp] theorem peakUpdate_peakPerformanceDetected (P : LockProfile) (now : Int) (currentThroughput avgPartSpeedMbps : ℚ)
    (s : MonitorState) :
    (peakUpdate P now currentThroughput avgPartSpeedMbps s).1.peakPerformanceDetected = s.peakPerformanceDetected := by
  unfold peakUpdate; split_ifs <;> rfl

@[simp] theorem peakUpdate_maxParallel (P : LockProfile) (now : Int) (currentThroughput avgPartSpeedMbps : ℚ)
    (s : MonitorState) :
    (peakUpdate P now currentThroughput avgPartSpeedMbps s).1.maxParallel = s.maxParallel := by
  unfold peakUpdate; split_ifs <;> rfl

@[simp] theorem peakUpdate_optimalParallel (P : LockProfile) (now : Int) (currentThroughput avgPartSpeedMbps : ℚ)
    (s : MonitorState) :
    (peakUpdate P now currentThroughput avgPartSpeedMbps s).1.optimalParallel = s.optimalParallel := by
  unfold peakUpdate; split_ifs <;> rfl

@[simp] theorem peakUpdate_lastScaleTime (P : LockProfile) (now : Int) (currentThroughput avgPartSpeedMbps : ℚ)
    (s : MonitorState) :
    (peakUpdate P now currentThroughput avgPartSpeedMbps s).1.lastScaleTime = s.lastScaleTime := by
  unfold peakUpdate; split_ifs <;> rfl

@[simp] theorem peakUpdate_peakThroughputHistory (P : LockProfile) (now : Int) (currentThroughput avgPartSpeedMbps : ℚ)
    (s : MonitorState) :
    (peakUpdate P now currentThroughput avgPartSpeedMbps s).1.peakThroughputHistory = s.peakThroughputHistory := by
  unfold peakUpdate; split_ifs <;> rfl

@[simp] theorem peakUpdate_throughputSmoothingHistory (P : LockProfile) (now : Int) (currentThroughput avgPartSpeedMbps : ℚ)
    (s : MonitorState) :
    (peakUpdate P now currentThroughput avgPartSpeedMbps s).1.throughputSmoothingHistory = s.throughputSmoothingHistory := by
  unfold peakUpdate; split_ifs <;> rfl

@[simp] theorem peakUpdate_peakResetState (P : LockProfile) (now : Int) (currentThroughput avgPartSpeedMbps : ℚ)
    (s : MonitorState) :
    (peakUpdate P now currentThroughput avgPartSpeedMbps s).1.peakResetState = s.peakResetState := by
  unfold peakUpdate; split_ifs <;> rfl

@[simp] theorem peakUpdate_emergencyResetCounter (P : LockProfile) (now : Int) (currentThroughput avgPartSpeedMbps : ℚ)
    (s : MonitorState) :
    (peakUpdate P now currentThroughput avgPartSpeedMbps s).1.emergencyResetCounter = s.emergencyResetCounter := by
  unfold peakUpdate; split_ifs <;> rfl

@[simp] theorem peakUpdate_lockedPerformance (P : LockProfile) (now : Int) (currentThroughput avgPartSpeedMbps : ℚ)
    (s : MonitorState) :
    (peakUpdate P now currentThroughput avgPartSpeedMbps s).1.lockedPerformance = s.lockedPerformance := by
  unfold peakUpdate; split_ifs <;> rfl

@[simp] theorem peakUpdate_contextMaxParallel (P : LockProfile) (now : Int) (currentThroughput avgPartSpeedMbps : ℚ)
    (s : MonitorState) :
    (peakUpdate P now currentThroughput avgPartSpeedMbps s).1.contextMaxParallel = s.contextMaxParallel := by
  unfold peakUpdate; split_ifs <;> rfl

@[simp] theorem peakUpdate_partSize (P : LockProfile) (now : Int) (currentThroughput avgPartSpeedMbps : ℚ)
    (s : MonitorState) :
    (peakUpdate P now currentThroughput avgPartSpeedMbps s).1.partSize = s.partSize := by
  unfold peakUpdate; split_ifs <;> rfl

@[simp] theorem peakUpdate_maxParallelCap (P : LockProfile) (now : Int) (currentThroughput avgPartSpeedMbps : ℚ)
    (s : MonitorState) :
    (peakUpdate P now currentThroughput avgPartSpeedMbps s).1.maxParallelCap = s.maxParallelCap := by
  unfold peakUpdate; split_ifs <;> rfl

@[simp] theorem peakUpdate_cleared (P : LockProfile) (now : Int) (currentThroughput avgPartSpeedMbps : ℚ)
    (s : MonitorState) :
    (peakUpdate P now currentThroughput avgPartSpeedMbps s).1.cleared = s.cleared := by
  unfold peakUpdate; split_ifs <;> rfl

@[simp] theorem reinforcementLock_avgPartSpeedHistory (lockThreshold : ℚ) (sampleCount : Nat) (currentThroughput : ℚ)
    (s : MonitorState) :
    (reinforcementLock lockThreshold sampleCount currentThroughput s).1.avgPartSpeedHistory = s.avgPartSpeedHistory := by
  unfold reinforcementLock; split_ifs <;> rfl

@[simp] theorem reinforcementLock_parallelAdjustmentHistory (lockThreshold : ℚ) (sampleCount : Nat) (currentThroughput : ℚ)
    (s : MonitorState) :
    (reinforcementLock lockThreshold sampleCount currentThroughput s).1.parallelAdjustmentHistory = s.parallelAdjustmentHistory := by
  unfold reinforcementLock; split_ifs <;> rfl

@[simp] theorem reinforcementLock_lastParallelAdjustment (lockThreshold : ℚ) (sampleCount : Nat) (currentThroughput : ℚ)
    (s : MonitorState) :
    (reinforcementLock lockThreshold sampleCount currentThroughput s).1.lastParallelAdjustment = s.lastParallelAdjustment := by
  unfold reinforcementLock; split_ifs <;> rfl

@[simp] theorem reinforcementLock_lastScaleDown (lockThreshold : ℚ) (sampleCount : Nat) (currentThroughput : ℚ)
    (s : MonitorState) :
    (reinforcementLock lockThreshold sampleCount currentThroughput s).1.lastScaleDown = s.lastScaleDown := by
  unfold reinforcementLock; split_ifs <;> rfl

@[simp] theorem reinforcementLock_lowSpeedSamples (lockThreshold : ℚ) (sampleCount : Nat) (currentThroughput : ℚ)
    (s : MonitorState) :
    (reinforcementLock lockThreshold sampleCount currentThroughput s).1.lowSpeedSamples = s.lowSpeedSamples := by
  unfold reinforcementLock; split_ifs <;> rfl

@[simp] theorem reinforcementLock_peakPerformanceDetected (lockThreshold : ℚ) (sampleCount : Nat) (currentThroughput : ℚ)
    (s : MonitorState) :
    (reinforcementLock lockThreshold sampleCount currentThroughput s).1.peakPerformanceDetected = s.peakPerformanceDetected := by
  unfold reinforcementLock; split_ifs <;> rfl

@[simp] theorem reinforcementLock_maxParallel (lockThreshold : ℚ) (sampleCount : Nat) (currentThroughput : ℚ)
    (s : MonitorState) :
    (reinforcementLock lockThreshold sampleCount currentThroughput s).1.maxParallel = s.maxParallel := by
  unfold reinforcementLock; split_ifs <;> rfl

@[simp] theorem reinforcementLock_optimalParallel (lockThreshold : ℚ) (sampleCount : Nat) (currentThroughput : ℚ)
    (s : MonitorState) :
    (reinforcementLock lockThreshold sampleCount currentThroughput s).1.optimalParallel = s.optimalParallel := by
  unfold reinforcementLock; split_ifs <;> rfl

@[simp] theorem reinforcementLock_peakTimestamp (lockThreshold : ℚ) (sampleCount : Nat) (currentThroughput : ℚ)
    (s : MonitorState) :
    (reinforcementLock lockThreshold sampleCount currentThroughput s).1.peakTimestamp = s.peakTimestamp := by
  unfold reinforcementLock; split_ifs <;> rfl

@[simp] theorem reinforcementLock_initialPeakThroughput (lockThreshold : ℚ) (sampleCount : Nat) (currentThroughput : ℚ)
    (s : MonitorState) :
    (reinforcementLock lockThreshold sampleCount currentThroughput s).1.initialPeakThroughput = s.initialPeakThroughput := by
  unfold reinforcementLock; split_ifs <;> rfl

@[simp] theorem reinforcementLock_lastScaleTime (lockThreshold : ℚ) (sampleCount : Nat) (currentThroughput : ℚ)
    (s : MonitorState) :
    (reinforcementLock lockThreshold sampleCount currentThroughput s).1.lastScaleTime = s.lastScaleTime := by
  unfold reinforcementLock; split_ifs <;> rfl

@[simp] theorem reinforcementLock_peakThroughputHistory (lockThreshold : ℚ) (sampleCount : Nat) (currentThroughput : ℚ)
    (s : MonitorState) :
    (reinforcementLock lockThreshold sampleCount currentThroughput s).1.peakThroughputHistory = s.peakThroughputHistory := by
  unfold reinforcementLock; split_ifs <;> rfl

@[simp] theorem reinforcementLock_throughputSmoothingHistory (lockThreshold : ℚ) (sampleCount : Nat) (currentThroughput : ℚ)
    (s : MonitorState) :
    (reinforcementLock lockThreshold sampleCount currentThroughput s).1.throughputSmoothingHistory = s.throughputSmoothingHistory := by
  unfold reinforcementLock; split_ifs <;> rfl

@[simp] theorem reinforcementLock_lastProgress (lockThreshold : ℚ) (sampleCount : Nat) (currentThroughput : ℚ)
    (s : MonitorState) :
    (reinforcementLock lockThreshold sampleCount currentThroughput s).1.lastProgress = s.lastProgress := by
  unfold reinforcementLock; split_ifs <;> rfl

@[simp] theorem reinforcementLock_emergencyResetCounter (lockThreshold : ℚ) (sampleCount : Nat) (currentThroughput : ℚ)
    (s : MonitorState) :
    (reinforcementLock lockThreshold sampleCount currentThroughput s).1.emergencyResetCounter = s.emergencyResetCounter := by
  unfold reinforcementLock; split_ifs <;> rfl

@[simp] theorem reinforcementLock_contextMaxParallel (lockThreshold : ℚ) (sampleCount : Nat) (currentThroughput : ℚ)
    (s : MonitorState) :
    (reinforcementLock lockThreshold sampleCount currentThroughput s).1.contextMaxParallel = s.contextMaxParallel := by
  unfold reinforcementLock; split_ifs <;> rfl

@[simp] theorem reinforcementLock_partSize (lockThreshold : ℚ) (sampleCount : Nat) (currentThroughput : ℚ)
    (s : MonitorState) :
    (reinforcementLock lockThreshold sampleCount currentThroughput s).1.partSize = s.partSize := by
  unfold reinforcementLock; split_ifs <;> rfl

@[simp] theorem reinforcementLock_maxParallelCap (lockThreshold : ℚ) (sampleCount : Nat) (currentThroughput : ℚ)
    (s : MonitorState) :
    (reinforcementLock lockThreshold sampleCount currentThroughput s).1.maxParallelCap = s.maxParallelCap := by
  unfold reinforcementLock; split_ifs <;> rfl

@[simp] theorem reinforcementLock_cleared (lockThreshold : ℚ) (sampleCount : Nat) (currentThroughput : ℚ)
    (s : MonitorState) :
    (reinforcementLock lockThreshold sampleCount currentThroughput s).1.cleared = s.cleared := by
  unfold reinforcementLock; split_ifs <;> rfl

@[simp] theorem recordThroughput_avgPartSpeedHistory (smoothingMax : Nat) (currentThroughput : ℚ)
    (s : MonitorState) :
    (recordThroughput smoothingMax currentThroughput s).avgPartSpeedHistory = s.avgPartSpeedHistory := by
  rfl

@[simp] theorem recordThroughput_parallelAdjustmentHistory (smoothingMax : Nat) (currentThroughput : ℚ)
    (s : MonitorState) :
    (recordThroughput smoothingMax currentThroughput s).parallelAdjustmentHistory = s.parallelAdjustmentHistory := by
  rfl

@[simp] theorem recordThroughput_lastParallelAdjustment (smoothingMax : Nat) (currentThroughput : ℚ)
    (s : MonitorState) :
    (recordThroughput smoothingMax currentThroughput s).lastParallelAdjustment = s.lastParallelAdjustment := by
  rfl

@[simp] theorem recordThroughput_lastScaleDown (smoothingMax : Nat) (currentThroughput : ℚ)
    (s : MonitorState) :
    (recordThroughput smoothingMax currentThroughput s).lastScaleDown = s.lastScaleDown := by
  rfl

@[simp] theorem recordThroughput_lowSpeedSamples (smoothingMax : Nat) (currentThroughput : ℚ)
    (s : MonitorState) :
    (recordThroughput smoothingMax currentThroughput s).lowSpeedSamples = s.lowSpeedSamples := by
  rfl

@[simp] theorem recordThroughput_peakPerformanceDetected (smoothingMax : Nat) (currentThroughput : ℚ)
    (s : MonitorState) :
    (recordThroughput smoothingMax currentThroughput s).peakPerformanceDetected = s.peakPerformanceDetected := by
  rfl

@[simp] theorem recordThroughput_maxParallel (smoothingMax : Nat) (currentThroughput : ℚ)
    (s : MonitorState) :
    (recordThroughput smoothingMax currentThroughput s).maxParallel = s.maxParallel := by
  rfl

@[simp] theorem recordThroughput_optimalParallel (smoothingMax : Nat) (currentThroughput : ℚ)
    (s : MonitorState) :
    (recordThroughput smoothingMax currentThroughput s).optimalParallel = s.optimalParallel := by
  rfl

@[simp] theorem recordThroughput_peakTimestamp (smoothingMax : Nat) (currentThroughput : ℚ)
    (s : MonitorState) :
    (recordThroughput smoothingMax currentThroughput s).peakTimestamp = s.peakTimestamp := by
  rfl

@[simp] theorem recordThroughput_initialPeakThroughput (smoothingMax : Nat) (currentThroughput : ℚ)
    (s : MonitorState) :
    (recordThroughput smoothingMax currentThroughput s).initialPeakThroughput = s.initialPeakThroughput := by
  rfl

@[simp] theorem recordThroughput_lastScaleTime (smoothingMax : Nat) (currentThroughput : ℚ)
    (s : MonitorState) :
    (recordThroughput smoothingMax currentThroughput s).lastScaleTime = s.lastScaleTime := by
  rfl

@[simp] theorem recordThroughput_peakThroughputHistory (smoothingMax : Nat) (currentThroughput : ℚ)
    (s : MonitorState) :
    (recordThroughput smoothingMax currentThroughput s).peakThroughputHistory = s.peakThroughputHistory := by
  rfl

@[simp] theorem recordThroughput_peakResetState (smoothingMax : Nat) (currentThroughput : ℚ)
    (s : MonitorState) :
    (recordThroughput smoothingMax currentThroughput s).peakResetState = s.peakResetState := by
  rfl

@[simp] theorem recordThroughput_strongPerformanceSamples (smoothingMax : Nat) (currentThroughput : ℚ)
    (s : MonitorState) :
    (recordThroughput smoothingMax currentThroughput s).strongPerformanceSamples = s.strongPerformanceSamples := by
  rfl

@[simp] theorem recordThroughput_lastProgress (smoothingMax : Nat) (currentThroughput : ℚ)
    (s : MonitorState) :
    (recordThroughput smoothingMax currentThroughput s).lastProgress = s.lastProgress := by
  rfl

@[simp] theorem recordThroughput_emergencyResetCounter (smoothingMax : Nat) (currentThroughput : ℚ)
    (s : MonitorState) :
    (recordThroughput smoothingMax currentThroughput s).emergencyResetCounter = s.emergencyResetCounter := by
  rfl

@[simp] theorem recordThroughput_lockedPerformance (smoothingMax : Nat) (currentThroughput : ℚ)
    (s : MonitorState) :
    (recordThroughput smoothingMax currentThroughput s).lockedPerformance = s.lockedPerformance := by
  rfl

@[simp] theorem recordThroughput_contextMaxParallel (smoothingMax : Nat) (currentThroughput : ℚ)
    (s : MonitorState) :
    (recordThroughput smoothingMax currentThroughput s).contextMaxParallel = s.contextMaxParallel := by
  rfl

@[simp] theorem recordThroughput_partSize (smoothingMax : Nat) (currentThroughput : ℚ)
    (s : MonitorState) :
    (recordThroughput smoothingMax currentThroughput s).partSize = s.partSize := by
  rfl

@[simp] theorem recordThroughput_maxParallelCap (smoothingMax : Nat) (currentThroughput : ℚ)
    (s : MonitorState) :
    (recordThroughput smoothingMax currentThroughput s).maxParallelCap = s.maxParallelCap := by
  rfl

@[simp] theorem recordThroughput_cleared (smoothingMax : Nat) (currentThroughput : ℚ)
    (s : MonitorState) :
    (recordThroughput smoothingMax currentThroughput s).cleared = s.cleared := by
  rfl

@[simp] theorem hysteresis_avgPartSpeedHistory (dropFraction recoveryFraction warningFraction initialPeak average : ℚ)
    (s : MonitorState) :
    (hysteresis dropFraction recoveryFraction warningFraction initialPeak average s).avgPartSpeedHistory = s.avgPartSpeedHistory := by
  unfold hysteresis; split_ifs <;> rfl

@[simp] theorem hysteresis_parallelAdjustmentHistory (dropFraction recoveryFraction warningFraction initialPeak average : ℚ)
    (s : MonitorState) :
    (hysteresis dropFraction recoveryFraction warningFraction initialPeak average s).parallelAdjustmentHistory = s.parallelAdjustmentHistory := by
  unfold hysteresis; split_ifs <;> rfl

@[simp] theorem hysteresis_lastParallelAdjustment (dropFraction recoveryFraction warningFraction initialPeak average : ℚ)
    (s : MonitorState) :
    (hysteresis dropFraction recoveryFraction warningFraction initialPeak average s).lastParallelAdjustment = s.lastParallelAdjustment := by
  unfold hysteresis; split_ifs <;> rfl

@[simp] theorem hysteresis_lastScaleDown (dropFraction recoveryFraction warningFraction initialPeak average : ℚ)
    (s : MonitorState) :
    (hysteresis dropFraction recoveryFraction warningFraction initialPeak average s).lastScaleDown = s.lastScaleDown := by
  unfold hysteresis; split_ifs <;> rfl

@[simp] theorem hysteresis_lowSpeedSamples (dropFraction recoveryFraction warningFraction initialPeak average : ℚ)
    (s : MonitorState) :
    (hysteresis dropFraction recoveryFraction warningFraction initialPeak average s).lowSpeedSamples = s.lowSpeedSamples := by
  unfold hysteresis; split_ifs <;> rfl

@[simp] theorem hysteresis_peakPerformanceDetected (dropFraction recoveryFraction warningFraction initialPeak average : ℚ)
    (s : MonitorState) :
    (hysteresis dropFraction recoveryFraction warningFraction initialPeak average s).peakPerformanceDetected = s.peakPerformanceDetected := by
  unfold hysteresis; split_ifs <;> rfl

@[simp] theorem hysteresis_maxParallel (dropFraction recoveryFraction warningFraction initialPeak average : ℚ)
    (s : MonitorState) :
    (hysteresis dropFraction recoveryFraction warningFraction initialPeak average s).maxParallel = s.maxParallel := by
  unfold hysteresis; split_ifs <;> rfl

@[simp] theorem hysteresis_optimalParallel (dropFraction recoveryFraction warningFraction initialPeak average : ℚ)
    (s : MonitorState) :
    (hysteresis dropFraction recoveryFraction warningFraction initialPeak average s).optimalParallel = s.optimalParallel := by
  unfold hysteresis; split_ifs <;> rfl

@[simp] theorem hysteresis_peakTimestamp (dropFraction recoveryFraction warningFraction initialPeak average : ℚ)
    (s : MonitorState) :
    (hysteresis dropFraction recoveryFraction warningFraction initialPeak average s).peakTimestamp = s.peakTimestamp := by
  unfold hysteresis; split_ifs <;> rfl

@[simp] theorem hysteresis_initialPeakThroughput (dropFraction recoveryFraction warningFraction initialPeak average : ℚ)
    (s : MonitorState) :
    (hysteresis dropFraction recoveryFraction warningFraction initialPeak average s).initialPeakThroughput = s.initialPeakThroughput := by
  unfold hysteresis; split_ifs <;> rfl

@[simp] theorem hysteresis_lastScaleTime (dropFraction recoveryFraction warningFraction initialPeak average : ℚ)
    (s : MonitorState) :
    (hysteresis dropFraction recoveryFraction warningFraction initialPeak average s).lastScaleTime = s.lastScaleTime := by
  unfold hysteresis; split_ifs <;> rfl

@[simp] theorem hysteresis_peakThroughputHistory (dropFraction recoveryFraction warningFraction initialPeak average : ℚ)
    (s : MonitorState) :
    (hysteresis dropFraction recoveryFraction warningFraction initialPeak average s).peakThroughputHistory = s.peakThroughputHistory := by
  unfold hysteresis; split_ifs <;> rfl

@[simp] theorem hysteresis_throughputSmoothingHistory (dropFraction recoveryFraction warningFraction initialPeak average : ℚ)
    (s : MonitorState) :
    (hysteresis dropFraction recoveryFraction warningFraction initialPeak average s).throughputSmoothingHistory = s.throughputSmoothingHistory := by
  unfold hysteresis; split_ifs <;> rfl

@[simp] theorem hysteresis_lastProgress (dropFraction recoveryFraction warningFraction initialPeak average : ℚ)
    (s : MonitorState) :
    (hysteresis dropFraction recoveryFraction warningFraction initialPeak average s).lastProgress = s.lastProgress := by
  unfold hysteresis; split_ifs <;> rfl

@[simp] theorem hysteresis_emergencyResetCounter (dropFraction recoveryFraction warningFraction initialPeak average : ℚ)
    (s : MonitorState) :
    (hysteresis dropFraction recoveryFraction warningFraction initialPeak average s).emergencyResetCounter = s.emergencyResetCounter := by
  unfold hysteresis; split_ifs <;> rfl

@[simp] theorem hysteresis_lockedPerformance (dropFraction recoveryFraction warningFraction initialPeak average : ℚ)
    (s : MonitorState) :
    (hysteresis dropFraction recoveryFraction warningFraction initialPeak average s).lockedPerformance = s.lockedPerformance := by
  unfold hysteresis; split_ifs <;> rfl

@[simp] theorem hysteresis_contextMaxParallel (dropFraction recoveryFraction warningFraction initialPeak average : ℚ)
    (s : MonitorState) :
    (hysteresis dropFraction recoveryFraction warningFraction initialPeak average s).contextMaxParallel = s.contextMaxParallel := by
  unfold hysteresis; split_ifs <;> rfl

@[simp] theorem hysteresis_partSize (dropFraction recoveryFraction warningFraction initialPeak average : ℚ)
    (s : MonitorState) :
    (hysteresis dropFraction recoveryFraction warningFraction initialPeak average s).partSize = s.partSize := by
  unfold hysteresis; split_ifs <;> rfl

@[simp] theorem hysteresis_maxParallelCap (dropFraction recoveryFraction warningFraction initialPeak average : ℚ)
    (s : MonitorState) :
    (hysteresis dropFraction recoveryFraction warningFraction initialPeak average s).maxParallelCap = s.maxParallelCap := by
  unfold hysteresis; split_ifs <;> rfl

@[simp] theorem hysteresis_cleared (dropFraction recoveryFraction warningFraction initialPeak average : ℚ)
    (s : MonitorState) :
    (hysteresis dropFraction recoveryFraction warningFraction initialPeak average s).cleared = s.cleared := by
  unfold hysteresis; split_ifs <;> rfl

@[simp] theorem peakReinforcement_avgPartSpeedHistory (fraction : ℚ) (after : Int) (strong : Nat) (rewind now timeSincePeak : Int) (initialPeak average : ℚ)
    (s : MonitorState) :
    (peakReinforcement fraction after strong rewind now timeSincePeak initialPeak average s).1.avgPartSpeedHistory = s.avgPartSpeedHistory := by
  unfold peakReinforcement; split_ifs <;> rfl

@[simp] theorem peakReinforcement_parallelAdjustmentHistory (fraction : ℚ) (after : Int) (strong : Nat) (rewind now timeSincePeak : Int) (initialPeak average : ℚ)
    (s : MonitorState) :
    (peakReinforcement fraction after strong rewind now timeSincePeak initialPeak average s).1.parallelAdjustmentHistory = s.parallelAdjustmentHistory := by
  unfold peakReinforcement; split_ifs <;> rfl

@[simp] theorem peakReinforcement_lastParallelAdjustment (fraction : ℚ) (after : Int) (strong : Nat) (rewind now timeSincePeak : Int) (initialPeak average : ℚ)
    (s : MonitorState) :
    (peakReinforcement fraction after strong rewind now timeSincePeak initialPeak average s).1.lastParallelAdjustment = s.lastParallelAdjustment := by
  unfold peakReinforcement; split_ifs <;> rfl

@[simp] theorem peakReinforcement_lastScaleDown (fraction : ℚ) (after : Int) (strong : Nat) (rewind now timeSincePeak : Int) (initialPeak average : ℚ)
    (s : MonitorState) :
    (peakReinforcement fraction after strong rewind now timeSincePeak initialPeak average s).1.lastScaleDown = s.lastScaleDown := by
  unfold peakReinforcement; split_ifs <;> rfl

@[simp] theorem peakReinforcement_lowSpeedSamples (fraction : ℚ) (after : Int) (strong : Nat) (rewind now timeSincePeak : Int) (initialPeak average : ℚ)
    (s : MonitorState) :
    (peakReinforcement fraction after strong rewind now timeSincePeak initialPeak average s).1.lowSpeedSamples = s.lowSpeedSamples := by
  unfold peakReinforcement; split_ifs <;> rfl

@[simp] theorem peakReinforcement_peakPerformanceDetected (fraction : ℚ) (after : Int) (strong : Nat) (rewind now timeSincePeak : Int) (initialPeak average : ℚ)
    (s : MonitorState) :
    (peakReinforcement fraction after strong rewind now timeSincePeak initialPeak average s).1.peakPerformanceDetected = s.peakPerformanceDetected := by
  unfold peakReinforcement; split_ifs <;> rfl

@[simp] theorem peakReinforcement_maxParallel (fraction : ℚ) (after : Int) (strong : Nat) (rewind now timeSincePeak : Int) (initialPeak average : ℚ)
    (s : MonitorState) :
    (peakReinforcement fraction after strong rewind now timeSincePeak initialPeak average s).1.maxParallel = s.maxParallel := by
  unfold peakReinforcement; split_ifs <;> rfl

@[simp] theorem peakReinforcement_optimalParallel (fraction : ℚ) (after : Int) (strong : Nat) (rewind now timeSincePeak : Int) (initialPeak average : ℚ)
    (s : MonitorState) :
    (peakReinforcement fraction after strong rewind now timeSincePeak initialPeak average s).1.optimalParallel = s.optimalParallel := by
  unfold peakReinforcement; split_ifs <;> rfl

@[simp] theorem peakReinforcement_initialPeakThroughput (fraction : ℚ) (after : Int) (strong : Nat) (rewind now timeSincePeak : Int) (initialPeak average : ℚ)
    (s : MonitorState) :
    (peakReinforcement fraction after strong rewind now timeSincePeak initialPeak average s).1.initialPeakThroughput = s.initialPeakThroughput := by
  unfold peakReinforcement; split_ifs <;> rfl

@[simp] theorem peakReinforcement_lastScaleTime (fraction : ℚ) (after : Int) (strong : Nat) (rewind now timeSincePeak : Int) (initialPeak average : ℚ)
    (s : MonitorState) :
    (peakReinforcement fraction after strong rewind now timeSincePeak initialPeak average s).1.lastScaleTime = s.lastScaleTime := by
  unfold peakReinforcement; split_ifs <;> rfl

@[simp] theorem peakReinforcement_peakThroughputHistory (fraction : ℚ) (after : Int) (strong : Nat) (rewind now timeSincePeak : Int) (initialPeak average : ℚ)
    (s : MonitorState) :
    (peakReinforcement fraction after strong rewind now timeSincePeak initialPeak average s).1.peakThroughputHistory = s.peakThroughputHistory := by
  unfold peakReinforcement; split_ifs <;> rfl

@[simp] theorem peakReinforcement_throughputSmoothingHistory (fraction : ℚ) (after : Int) (strong : Nat) (rewind now timeSincePeak : Int) (initialPeak average : ℚ)
    (s : MonitorState) :
    (peakReinforcement fraction after strong rewind now timeSincePeak initialPeak average s).1.throughputSmoothingHistory = s.throughputSmoothingHistory := by
  unfold peakReinforcement; split_ifs <;> rfl

@[simp] theorem peakReinforcement_peakResetState (fraction : ℚ) (after : Int) (strong : Nat) (rewind now timeSincePeak : Int) (initialPeak average : ℚ)
    (s : MonitorState) :
    (peakReinforcement fraction after strong rewind now timeSincePeak initialPeak average s).1.peakResetState = s.peakResetState := by
  unfold peakReinforcement; split_ifs <;> rfl

@[simp] theorem peakReinforcement_lastProgress (fraction : ℚ) (after : Int) (strong : Nat) (rewind now timeSincePeak : Int) (initialPeak average : ℚ)
    (s : MonitorState) :
    (peakReinforcement fraction after strong rewind now timeSincePeak initialPeak average s).1.lastProgress = s.lastProgress := by
  unfold peakReinforcement; split_ifs <;> rfl

@[simp] theorem peakReinforcement_emergencyResetCounter (fraction : ℚ) (after : Int) (strong : Nat) (rewind now timeSincePeak : Int) (initialPeak average : ℚ)
    (s : MonitorState) :
    (peakReinforcement fraction after strong rewind now timeSincePeak initialPeak average s).1.emergencyResetCounter = s.emergencyResetCounter := by
  unfold peakReinforcement; split_ifs <;> rfl

@[simp] theorem peakReinforcement_lockedPerformance (fraction : ℚ) (after : Int) (strong : Nat) (rewind now timeSincePeak : Int) (initialPeak average : ℚ)
    (s : MonitorState) :
    (peakReinforcement fraction after strong rewind now timeSincePeak initialPeak average s).1.lockedPerformance = s.lockedPerformance := by
  unfold peakReinforcement; split_ifs <;> rfl

@[simp] theorem peakReinforcement_contextMaxParallel (fraction : ℚ) (after : Int) (strong : Nat) (rewind now timeSincePeak : Int) (initialPeak average : ℚ)
    (s : MonitorState) :
    (peakReinforcement fraction after strong rewind now timeSincePeak initialPeak average s).1.contextMaxParallel = s.contextMaxParallel := by
  unfold peakReinforcement; split_ifs <;> rfl

@[simp] theorem peakReinforcement_partSize (fraction : ℚ) (after : Int) (strong : Nat) (rewind now timeSincePeak : Int) (initialPeak average : ℚ)
    (s : MonitorState) :
    (peakReinforcement fraction after strong rewind now timeSincePeak initialPeak average s).1.partSize = s.partSize := by
  unfold peakReinforcement; split_ifs <;> rfl

@[simp] theorem peakReinforcement_maxParallelCap (fraction : ℚ) (after : Int) (strong : Nat) (rewind now timeSincePeak : Int) (initialPeak average : ℚ)
    (s : MonitorState) :
    (peakReinforcement fraction after strong rewind now timeSincePeak initialPeak average s).1.maxParallelCap = s.maxParallelCap := by
  unfold peakReinforcement; split_ifs <;> rfl

@[simp] theorem peakReinforcement_cleared (fraction : ℚ) (after : Int) (strong : Nat) (rewind now timeSincePeak : Int) (initialPeak average : ℚ)
    (s : MonitorState) :
    (peakReinforcement fraction after strong rewind now timeSincePeak initialPeak average s).1.cleared = s.cleared := by
  unfold peakReinforcement; split_ifs <;> rfl

@[simp] theorem peakReinforced_avgPartSpeedHistory (recoveryFraction : ℚ) (strong : Nat) (now : Int) (initialPeak average : ℚ)
    (s : MonitorState) :
    (peakReinforced recoveryFraction strong now initialPeak average s).1.avgPartSpeedHistory = s.avgPartSpeedHistory := by
  unfold peakReinforced; split_ifs <;> rfl

@[simp] theorem peakReinforced_parallelAdjustmentHistory (recoveryFraction : ℚ) (strong : Nat) (now : Int) (initialPeak average : ℚ)
    (s : MonitorState) :
    (peakReinforced recoveryFraction strong now initialPeak average s).1.parallelAdjustmentHistory = s.parallelAdjustmentHistory := by
  unfold peakReinforced; split_ifs <;> rfl

@[simp] theorem peakReinforced_lastParallelAdjustment (recoveryFraction : ℚ) (strong : Nat) (now : Int) (initialPeak average : ℚ)
    (s : MonitorState) :
    (peakReinforced recoveryFraction strong now initialPeak average s).1.lastParallelAdjustment = s.lastParallelAdjustment := by
  unfold peakReinforced; split_ifs <;> rfl

@[simp] theorem peakReinforced_lastScaleDown (recoveryFraction : ℚ) (strong : Nat) (now : Int) (initialPeak average : ℚ)
    (s : MonitorState) :
    (peakReinforced recoveryFraction strong now initialPeak average s).1.lastScaleDown = s.lastScaleDown := by
  unfold peakReinforced; split_ifs <;> rfl

@[simp] theorem peakReinforced_lowSpeedSamples (recoveryFraction : ℚ) (strong : Nat) (now : Int) (initialPeak average : ℚ)
    (s : MonitorState) :
    (peakReinforced recoveryFraction strong now initialPeak average s).1.lowSpeedSamples = s.lowSpeedSamples := by
  unfold peakReinforced; split_ifs <;> rfl

@[simp] theorem peakReinforced_peakPerformanceDetected (recoveryFraction : ℚ) (strong : Nat) (now : Int) (initialPeak average : ℚ)
    (s : MonitorState) :
    (peakReinforced recoveryFraction strong now initialPeak average s).1.peakPerformanceDetected = s.peakPerformanceDetected := by
  unfold peakReinforced; split_ifs <;> rfl

@[simp] theorem peakReinforced_maxParallel (recoveryFraction : ℚ) (strong : Nat) (now : Int) (initialPeak average : ℚ)
    (s : MonitorState) :
    (peakReinforced recoveryFraction strong now initialPeak average s).1.maxParallel = s.maxParallel := by
  unfold peakReinforced; split_ifs <;> rfl

@[simp] theorem peakReinforced_optimalParallel (recoveryFraction : ℚ) (strong : Nat) (now : Int) (initialPeak average : ℚ)
    (s : MonitorState) :
    (peakReinforced recoveryFraction strong now initialPeak average s).1.optimalParallel = s.optimalParallel := by
  unfold peakReinforced; split_ifs <;> rfl

@[simp] theorem peakReinforced_initialPeakThroughput (recoveryFraction : ℚ) (strong : Nat) (now : Int) (initialPeak average : ℚ)
    (s : MonitorState) :
    (peakReinforced recoveryFraction strong now initialPeak average s).1.initialPeakThroughput = s.initialPeakThroughput := by
  unfold peakReinforced; split_ifs <;> rfl

@[simp] theorem peakReinforced_lastScaleTime (recoveryFraction : ℚ) (strong : Nat) (now : Int) (initialPeak average : ℚ)
    (s : MonitorState) :
    (peakReinforced recoveryFraction strong now initialPeak average s).1.lastScaleTime = s.lastScaleTime := by
  unfold peakReinforced; split_ifs <;> rfl

@[simp] theorem peakReinforced_peakThroughputHistory (recoveryFraction : ℚ) (strong : Nat) (now : Int) (initialPeak average : ℚ)
    (s : MonitorState) :
    (peakReinforced recoveryFraction strong now initialPeak average s).1.peakThroughputHistory = s.peakThroughputHistory := by
  unfold peakReinforced; split_ifs <;> rfl

@[simp] theorem peakReinforced_throughputSmoothingHistory (recoveryFraction : ℚ) (strong : Nat) (now : Int) (initialPeak average : ℚ)
    (s : MonitorState) :
    (peakReinforced recoveryFraction strong now initialPeak average s).1.throughputSmoothingHistory = s.throughputSmoothingHistory := by
  unfold peakReinforced; split_ifs <;> rfl

@[simp] theorem peakReinforced_peakResetState (recoveryFraction : ℚ) (strong : Nat) (now : Int) (initialPeak average : ℚ)
    (s : MonitorState) :
    (peakReinforced recoveryFraction strong now initialPeak average s).1.peakResetState = s.peakResetState := by
  unfold peakReinforced; split_ifs <;> rfl

@[simp] theorem peakReinforced_strongPerformanceSamples (recoveryFraction : ℚ) (strong : Nat) (now : Int) (initialPeak average : ℚ)
    (s : MonitorState) :
    (peakReinforced recoveryFraction strong now initialPeak average s).1.strongPerformanceSamples = s.strongPerformanceSamples := by
  unfold peakReinforced; split_ifs <;> rfl

@[simp] theorem peakReinforced_lastProgress (recoveryFraction : ℚ) (strong : Nat) (now : Int) (initialPeak average : ℚ)
    (s : MonitorState) :
    (peakReinforced recoveryFraction strong now initialPeak average s).1.lastProgress = s.lastProgress := by
  unfold peakReinforced; split_ifs <;> rfl

@[simp] theorem peakReinforced_emergencyResetCounter (recoveryFraction : ℚ) (strong : Nat) (now : Int) (initialPeak average : ℚ)
    (s : MonitorState) :
    (peakReinforced recoveryFraction strong now initialPeak average s).1.emergencyResetCounter = s.emergencyResetCounter := by
  unfold peakReinforced; split_ifs <;> rfl

@[simp] theorem peakReinforced_lockedPerformance (recoveryFraction : ℚ) (strong : Nat) (now : Int) (initialPeak average : ℚ)
    (s : MonitorState) :
    (peakReinforced recoveryFraction strong now initialPeak average s).1.lockedPerformance = s.lockedPerformance := by
  unfold peakReinforced; split_ifs <;> rfl

@[simp] theorem peakReinforced_contextMaxParallel (recoveryFraction : ℚ) (strong : Nat) (now : Int) (initialPeak average : ℚ)
    (s : MonitorState) :
    (peakReinforced recoveryFraction strong now initialPeak average s).1.contextMaxParallel = s.contextMaxParallel := by
  unfold peakReinforced; split_ifs <;> rfl

@[simp] theorem peakReinforced_partSize (recoveryFraction : ℚ) (strong : Nat) (now : Int) (initialPeak average : ℚ)
    (s : MonitorState) :
    (peakReinforced recoveryFraction strong now initialPeak average s).1.partSize = s.partSize := by
  unfold peakReinforced; split_ifs <;> rfl

@[simp] theorem peakReinforced_maxParallelCap (recoveryFraction : ℚ) (strong : Nat) (now : Int) (initialPeak average : ℚ)
    (s : MonitorState) :
    (peakReinforced recoveryFraction strong now initialPeak average s).1.maxParallelCap = s.maxParallelCap := by
  unfold peakReinforced; split_ifs <;> rfl

@[simp] theorem peakReinforced_cleared (recoveryFraction : ℚ) (strong : Nat) (now : Int) (initialPeak average : ℚ)
    (s : MonitorState) :
    (peakReinforced recoveryFraction strong now initialPeak average s).1.cleared = s.cleared := by
  unfold peakReinforced; split_ifs <;> rfl

@[simp] theorem peakLost_avgPartSpeedHistory (P : StallProfile) (timeSincePeak : Int)
    (s : MonitorState) :
    (peakLost P timeSincePeak s).1.avgPartSpeedHistory = s.avgPartSpeedHistory := by
  unfold peakLost; split_ifs <;> rfl

@[simp] theorem peakLost_parallelAdjustmentHistory (P : StallProfile) (timeSincePeak : Int)
    (s : MonitorState) :
    (peakLost P timeSincePeak s).1.parallelAdjustmentHistory = s.parallelAdjustmentHistory := by
  unfold peakLost; split_ifs <;> rfl

@[simp] theorem peakLost_lastParallelAdjustment (P : StallProfile) (timeSincePeak : Int)
    (s : MonitorState) :
    (peakLost P timeSincePeak s).1.lastParallelAdjustment = s.lastParallelAdjustment := by
  unfold peakLost; split_ifs <;> rfl

@[simp] theorem peakLost_lastScaleDown (P : StallProfile) (timeSincePeak : Int)
    (s : MonitorState) :
    (peakLost P timeSincePeak s).1.lastScaleDown = s.lastScaleDown := by
  unfold peakLost; split_ifs <;> rfl

@[simp] theorem peakLost_lowSpeedSamples (P : StallProfile) (timeSincePeak : Int)
    (s : MonitorState) :
    (peakLost P timeSincePeak s).1.lowSpeedSamples = s.lowSpeedSamples := by
  unfold peakLost; split_ifs <;> rfl

@[simp] theorem peakLost_maxParallel (P : StallProfile) (timeSincePeak : Int)
    (s : MonitorState) :
    (peakLost P timeSincePeak s).1.maxParallel = s.maxParallel := by
  unfold peakLost; split_ifs <;> rfl

@[simp] theorem peakLost_optimalParallel (P : StallProfile) (timeSincePeak : Int)
    (s : MonitorState) :
    (peakLost P timeSincePeak s).1.optimalParallel = s.optimalParallel := by
  unfold peakLost; split_ifs <;> rfl

@[simp] theorem peakLost_lastScaleTime (P : StallProfile) (timeSincePeak : Int)
    (s : MonitorState) :
    (peakLost P timeSincePeak s).1.lastScaleTime = s.lastScaleTime := by
  unfold peakLost; split_ifs <;> rfl

@[simp] theorem peakLost_peakThroughputHistory (P : StallProfile) (timeSincePeak : Int)
    (s : MonitorState) :
    (peakLost P timeSincePeak s).1.peakThroughputHistory = s.peakThroughputHistory := by
  unfold peakLost; split_ifs <;> rfl

@[simp] theorem peakLost_throughputSmoothingHistory (P : StallProfile) (timeSincePeak : Int)
    (s : MonitorState) :
    (peakLost P timeSincePeak s).1.throughputSmoothingHistory = s.throughputSmoothingHistory := by
  unfold peakLost; split_ifs <;> rfl

@[simp] theorem peakLost_peakResetState (P : StallProfile) (timeSincePeak : Int)
    (s : MonitorState) :
    (peakLost P timeSincePeak s).1.peakResetState = s.peakResetState := by
  unfold peakLost; split_ifs <;> rfl

@[simp] theorem peakLost_lastProgress (P : StallProfile) (timeSincePeak : Int)
    (s : MonitorState) :
    (peakLost P timeSincePeak s).1.lastProgress = s.lastProgress := by
  unfold peakLost; split_ifs <;> rfl

@[simp] theorem peakLost_emergencyResetCounter (P : StallProfile) (timeSincePeak : Int)
    (s : MonitorState) :
    (peakLost P timeSincePeak s).1.emergencyResetCounter = s.emergencyResetCounter := by
  unfold peakLost; split_ifs <;> rfl

@[simp] theorem peakLost_contextMaxParallel (P : StallProfile) (timeSincePeak : Int)
    (s : MonitorState) :
    (peakLost P timeSincePeak s).1.contextMaxParallel = s.contextMaxParallel := by
  unfold peakLost; split_ifs <;> rfl

@[simp] theorem peakLost_partSize (P : StallProfile) (timeSincePeak : Int)
    (s : MonitorState) :
    (peakLost P timeSincePeak s).1.partSize = s.partSize := by
  unfold peakLost; split_ifs <;> rfl

@[simp] theorem peakLost_maxParallelCap (P : StallProfile) (timeSincePeak : Int)
    (s : MonitorState) :
    (peakLost P timeSincePeak s).1.maxParallelCap = s.maxParallelCap := by
  unfold peakLost; split_ifs <;> rfl

@[simp] theorem peakLost_cleared (P : StallProfile) (timeSincePeak : Int)
    (s : MonitorState) :
    (peakLost P timeSincePeak s).1.cleared = s.cleared := by
  unfold peakLost; split_ifs <;> rfl

@[simp] theorem sustainedDrop_avgPartSpeedHistory (P : StallProfile) (ceiling now timeSincePeak : Int)
    (s : MonitorState) :
    (sustainedDrop P ceiling now timeSincePeak s).1.avgPartSpeedHistory = s.avgPartSpeedHistory := by
  unfold sustainedDrop; split_ifs <;> rfl

@[simp] theorem sustainedDrop_parallelAdjustmentHistory (P : StallProfile) (ceiling now timeSincePeak : Int)
    (s : MonitorState) :
    (sustainedDrop P ceiling now timeSincePeak s).1.parallelAdjustmentHistory = s.parallelAdjustmentHistory := by
  unfold sustainedDrop; split_ifs <;> rfl

@[simp] theorem sustainedDrop_lastParallelAdjustment (P : StallProfile) (ceiling now timeSincePeak : Int)
    (s : MonitorState) :
    (sustainedDrop P ceiling now timeSincePeak s).1.lastParallelAdjustment = s.lastParallelAdjustment := by
  unfold sustainedDrop; split_ifs <;> rfl

@[simp] theorem sustainedDrop_lowSpeedSamples (P : StallProfile) (ceiling now timeSincePeak : Int)
    (s : MonitorState) :
    (sustainedDrop P ceiling now timeSincePeak s).1.lowSpeedSamples = s.lowSpeedSamples := by
  unfold sustainedDrop; split_ifs <;> rfl

@[simp] theorem sustainedDrop_maxParallel (P : StallProfile) (ceiling now timeSincePeak : Int)
    (s : MonitorState) :
    (sustainedDrop P ceiling now timeSincePeak s).1.maxParallel = s.maxParallel := by
  unfold sustainedDrop; split_ifs <;> rfl

@[simp] theorem sustainedDrop_optimalParallel (P : StallProfile) (ceiling now timeSincePeak : Int)
    (s : MonitorState) :
    (sustainedDrop P ceiling now timeSincePeak s).1.optimalParallel = s.optimalParallel := by
  unfold sustainedDrop; split_ifs <;> rfl

@[simp] theorem sustainedDrop_peakTimestamp (P : StallProfile) (ceiling now timeSincePeak : Int)
    (s : MonitorState) :
    (sustainedDrop P ceiling now timeSincePeak s).1.peakTimestamp = s.peakTimestamp := by
  unfold sustainedDrop; split_ifs <;> rfl

@[simp] theorem sustainedDrop_initialPeakThroughput (P : StallProfile) (ceiling now timeSincePeak : Int)
    (s : MonitorState) :
    (sustainedDrop P ceiling now timeSincePeak s).1.initialPeakThroughput = s.initialPeakThroughput := by
  unfold sustainedDrop; split_ifs <;> rfl

@[simp] theorem sustainedDrop_lastScaleTime (P : StallProfile) (ceiling now timeSincePeak : Int)
    (s : MonitorState) :
    (sustainedDrop P ceiling now timeSincePeak s).1.lastScaleTime = s.lastScaleTime := by
  unfold sustainedDrop; split_ifs <;> rfl

@[simp] theorem sustainedDrop_peakThroughputHistory (P : StallProfile) (ceiling now timeSincePeak : Int)
    (s : MonitorState) :
    (sustainedDrop P ceiling now timeSincePeak s).1.peakThroughputHistory = s.peakThroughputHistory := by
  unfold sustainedDrop; split_ifs <;> rfl

@[simp] theorem sustainedDrop_lastProgress (P : StallProfile) (ceiling now timeSincePeak : Int)
    (s : MonitorState) :
    (sustainedDrop P ceiling now timeSincePeak s).1.lastProgress = s.lastProgress := by
  unfold sustainedDrop; split_ifs <;> rfl

@[simp] theorem sustainedDrop_emergencyResetCounter (P : StallProfile) (ceiling now timeSincePeak : Int)
    (s : MonitorState) :
    (sustainedDrop P ceiling now timeSincePeak s).1.emergencyResetCounter = s.emergencyResetCounter := by
  unfold sustainedDrop; split_ifs <;> rfl

@[simp] theorem sustainedDrop_partSize (P : StallProfile) (ceiling now timeSincePeak : Int)
    (s : MonitorState) :
    (sustainedDrop P ceiling now timeSincePeak s).1.partSize = s.partSize := by
  unfold sustainedDrop; split_ifs <;> rfl

@[simp] theorem sustainedDrop_maxParallelCap (P : StallProfile) (ceiling now timeSincePeak : Int)
    (s : MonitorState) :
    (sustainedDrop P ceiling now timeSincePeak s).1.maxParallelCap = s.maxParallelCap := by
  unfold sustainedDrop; split_ifs <;> rfl

@[simp] theorem sustainedDrop_cleared (P : StallProfile) (ceiling now timeSincePeak : Int)
    (s : MonitorState) :
    (sustainedDrop P ceiling now timeSincePeak s).1.cleared = s.cleared := by
  unfold sustainedDrop; split_ifs <;> rfl

@[simp] theorem smartReset_avgPartSpeedHistory (ceiling timeSincePeak : Int)
    (s : MonitorState) :
    (smartReset ceiling timeSincePeak s).1.avgPartSpeedHistory = s.avgPartSpeedHistory := by
  unfold smartReset; split_ifs <;> rfl

@[simp] theorem smartReset_parallelAdjustmentHistory (ceiling timeSincePeak : Int)
    (s : MonitorState) :
    (smartReset ceiling timeSincePeak s).1.parallelAdjustmentHistory = s.parallelAdjustmentHistory := by
  unfold smartReset; split_ifs <;> rfl

@[simp] theorem smartReset_lastParallelAdjustment (ceiling timeSincePeak : Int)
    (s : MonitorState) :
    (smartReset ceiling timeSincePeak s).1.lastParallelAdjustment = s.lastParallelAdjustment := by
  unfold smartReset; split_ifs <;> rfl

@[simp] theorem smartReset_lastScaleDown (ceiling timeSincePeak : Int)
    (s : MonitorState) :
    (smartReset ceiling timeSincePeak s).1.lastScaleDown = s.lastScaleDown := by
  unfold smartReset; split_ifs <;> rfl

@[simp] theorem smartReset_lowSpeedSamples (ceiling timeSincePeak : Int)
    (s : MonitorState) :
    (smartReset ceiling timeSincePeak s).1.lowSpeedSamples = s.lowSpeedSamples := by
  unfold smartReset; split_ifs <;> rfl

@[simp] theorem smartReset_maxParallel (ceiling timeSincePeak : Int)
    (s : MonitorState) :
    (smartReset ceiling timeSincePeak s).1.maxParallel = s.maxParallel := by
  unfold smartReset; split_ifs <;> rfl

@[simp] theorem smartReset_optimalParallel (ceiling timeSincePeak : Int)
    (s : MonitorState) :
    (smartReset ceiling timeSincePeak s).1.optimalParallel = s.optimalParallel := by
  unfold smartReset; split_ifs <;> rfl

@[simp] theorem smartReset_lastScaleTime (ceiling timeSincePeak : Int)
    (s : MonitorState) :
    (smartReset ceiling timeSincePeak s).1.lastScaleTime = s.lastScaleTime := by
  unfold smartReset; split_ifs <;> rfl

@[simp] theorem smartReset_peakThroughputHistory (ceiling timeSincePeak : Int)
    (s : MonitorState) :
    (smartReset ceiling timeSincePeak s).1.peakThroughputHistory = s.peakThroughputHistory := by
  unfold smartReset; split_ifs <;> rfl

@[simp] theorem smartReset_lastProgress (ceiling timeSincePeak : Int)
    (s : MonitorState) :
    (smartReset ceiling timeSincePeak s).1.lastProgress = s.lastProgress := by
  unfold smartReset; split_ifs <;> rfl

@[simp] theorem smartReset_emergencyResetCounter (ceiling timeSincePeak : Int)
    (s : MonitorState) :
    (smartReset ceiling timeSincePeak s).1.emergencyResetCounter = s.emergencyResetCounter := by
  unfold smartReset; split_ifs <;> rfl

@[simp] theorem smartReset_lockedPerformance (ceiling timeSincePeak : Int)
    (s : MonitorState) :
    (smartReset ceiling timeSincePeak s).1.lockedPerformance = s.lockedPerformance := by
  unfold smartReset; split_ifs <;> rfl

@[simp] theorem smartReset_contextMaxParallel (ceiling timeSincePeak : Int)
    (s : MonitorState) :
    (smartReset ceiling timeSincePeak s).1.contextMaxParallel = s.contextMaxParallel := by
  unfold smartReset; split_ifs <;> rfl

@[simp] theorem smartReset_partSize (ceiling timeSincePeak : Int)
    (s : MonitorState) :
    (smartReset ceiling timeSincePeak s).1.partSize = s.partSize := by
  unfold smartReset; split_ifs <;> rfl

@[simp] theorem smartReset_maxParallelCap (ceiling timeSincePeak : Int)
    (s : MonitorState) :
    (smartReset ceiling timeSincePeak s).1.maxParallelCap = s.maxParallelCap := by
  unfold smartReset; split_ifs <;> rfl

@[simp] theorem smartReset_cleared (ceiling timeSincePeak : Int)
    (s : MonitorState) :
    (smartReset ceiling timeSincePeak s).1.cleared = s.cleared := by
  unfold smartReset; split_ifs <;> rfl

@[simp] theorem deDecay_avgPartSpeedHistory (P : StallProfile) (T : DETuning) (now : Int) (currentThroughput : ℚ)
    (s : MonitorState) :
    (deDecay P T now currentThroughput s).1.avgPartSpeedHistory = s.avgPartSpeedHistory := by
  unfold deDecay; split_ifs <;> simp

@[simp] theorem deDecay_parallelAdjustmentHistory (P : StallProfile) (T : DETuning) (now : Int) (currentThroughput : ℚ)
    (s : MonitorState) :
    (deDecay P T now currentThroughput s).1.parallelAdjustmentHistory = s.parallelAdjustmentHistory := by
  unfold deDecay; split_ifs <;> simp

@[simp] theorem deDecay_lastParallelAdjustment (P : StallProfile) (T : DETuning) (now : Int) (currentThroughput : ℚ)
    (s : MonitorState) :
    (deDecay P T now currentThroughput s).1.lastParallelAdjustment = s.lastParallelAdjustment := by
  unfold deDecay; split_ifs <;> simp

@[simp] theorem deDecay_lowSpeedSamples (P : StallProfile) (T : DETuning) (now : Int) (currentThroughput : ℚ)
    (s : MonitorState) :
    (deDecay P T now currentThroughput s).1.lowSpeedSamples = s.lowSpeedSamples := by
  unfold deDecay; split_ifs <;> simp

@[simp] theorem deDecay_maxParallel (P : StallProfile) (T : DETuning) (now : Int) (currentThroughput : ℚ)
    (s : MonitorState) :
    (deDecay P T now currentThroughput s).1.maxParallel = s.maxParallel := by
  unfold deDecay; split_ifs <;> simp

@[simp] theorem deDecay_optimalParallel (P : StallProfile) (T : DETuning) (now : Int) (currentThroughput : ℚ)
    (s : MonitorState) :
    (deDecay P T now currentThroughput s).1.optimalParallel = s.optimalParallel := by
  unfold deDecay; split_ifs <;> simp

@[simp] theorem deDecay_lastScaleTime (P : StallProfile) (T : DETuning) (now : Int) (currentThroughput : ℚ)
    (s : MonitorState) :
    (deDecay P T now currentThroughput s).1.lastScaleTime = s.lastScaleTime := by
  unfold deDecay; split_ifs <;> simp

@[simp] theorem deDecay_peakThroughputHistory (P : StallProfile) (T : DETuning) (now : Int) (currentThroughput : ℚ)
    (s : MonitorState) :
    (deDecay P T now currentThroughput s).1.peakThroughputHistory = s.peakThroughputHistory := by
  unfold deDecay; split_ifs <;> simp

@[simp] theorem deDecay_lastProgress (P : StallProfile) (T : DETuning) (now : Int) (currentThroughput : ℚ)
    (s : MonitorState) :
    (deDecay P T now currentThroughput s).1.lastProgress = s.lastProgress := by
  unfold deDecay; split_ifs <;> simp

@[simp] theorem deDecay_emergencyResetCounter (P : StallProfile) (T : DETuning) (now : Int) (currentThroughput : ℚ)
    (s : MonitorState) :
    (deDecay P T now currentThroughput s).1.emergencyResetCounter = s.emergencyResetCounter := by
  unfold deDecay; split_ifs <;> simp

@[simp] theorem deDecay_partSize (P : StallProfile) (T : DETuning) (now : Int) (currentThroughput : ℚ)
    (s : MonitorState) :
    (deDecay P T now currentThroughput s).1.partSize = s.partSize := by
  unfold deDecay; split_ifs <;> simp

@[simp] theorem deDecay_maxParallelCap (P : StallProfile) (T : DETuning) (now : Int) (currentThroughput : ℚ)
    (s : MonitorState) :
    (deDecay P T now currentThroughput s).1.maxParallelCap = s.maxParallelCap := by
  unfold deDecay; split_ifs <;> simp

@[simp] theorem deDecay_cleared (P : StallProfile) (T : DETuning) (now : Int) (currentThroughput : ℚ)
    (s : MonitorState) :
    (deDecay P T now currentThroughput s).1.cleared = s.cleared := by
  unfold deDecay; split_ifs <;> simp

@[simp] theorem fiberDecay_avgPartSpeedHistory (now : Int) (currentThroughput : ℚ)
    (s : MonitorState) :
    (fiberDecay now currentThroughput s).1.avgPartSpeedHistory = s.avgPartSpeedHistory := by
  unfold fiberDecay; split_ifs <;> simp

@[simp] theorem fiberDecay_parallelAdjustmentHistory (now : Int) (currentThroughput : ℚ)
    (s : MonitorState) :
    (fiberDecay now currentThroughput s).1.parallelAdjustmentHistory = s.parallelAdjustmentHistory := by
  unfold fiberDecay; split_ifs <;> simp

@[simp] theorem fiberDecay_lastParallelAdjustment (now : Int) (currentThroughput : ℚ)
    (s : MonitorState) :
    (fiberDecay now currentThroughput s).1.lastParallelAdjustment = s.lastParallelAdjustment := by
  unfold fiberDecay; split_ifs <;> simp

@[simp] theorem fiberDecay_lastScaleDown (now : Int) (currentThroughput : ℚ)
    (s : MonitorState) :
    (fiberDecay now currentThroughput s).1.lastScaleDown = s.lastScaleDown := by
  unfold fiberDecay; split_ifs <;> simp

@[simp] theorem fiberDecay_lowSpeedSamples (now : Int) (currentThroughput : ℚ)
    (s : MonitorState) :
    (fiberDecay now currentThroughput s).1.lowSpeedSamples = s.lowSpeedSamples := by
  unfold fiberDecay; split_ifs <;> simp

@[simp] theorem fiberDecay_peakPerformanceDetected (now : Int) (currentThroughput : ℚ)
    (s : MonitorState) :
    (fiberDecay now currentThroughput s).1.peakPerformanceDetected = s.peakPerformanceDetected := by
  unfold fiberDecay; split_ifs <;> simp

@[simp] theorem fiberDecay_maxParallel (now : Int) (currentThroughput : ℚ)
    (s : MonitorState) :
    (fiberDecay now currentThroughput s).1.maxParallel = s.maxParallel := by
  unfold fiberDecay; split_ifs <;> simp

@[simp] theorem fiberDecay_optimalParallel (now : Int) (currentThroughput : ℚ)
    (s : MonitorState) :
    (fiberDecay now currentThroughput s).1.optimalParallel = s.optimalParallel := by
  unfold fiberDecay; split_ifs <;> simp

@[simp] theorem fiberDecay_initialPeakThroughput (now : Int) (currentThroughput : ℚ)
    (s : MonitorState) :
    (fiberDecay now currentThroughput s).1.initialPeakThroughput = s.initialPeakThroughput := by
  unfold fiberDecay; split_ifs <;> simp

@[simp] theorem fiberDecay_lastScaleTime (now : Int) (currentThroughput : ℚ)
    (s : MonitorState) :
    (fiberDecay now currentThroughput s).1.lastScaleTime = s.lastScaleTime := by
  unfold fiberDecay; split_ifs <;> simp

@[simp] theorem fiberDecay_peakThroughputHistory (now : Int) (currentThroughput : ℚ)
    (s : MonitorState) :
    (fiberDecay now currentThroughput s).1.peakThroughputHistory = s.peakThroughputHistory := by
  unfold fiberDecay; split_ifs <;> simp

@[simp] theorem fiberDecay_lastProgress (now : Int) (currentThroughput : ℚ)
    (s : MonitorState) :
    (fiberDecay now currentThroughput s).1.lastProgress = s.lastProgress := by
  unfold fiberDecay; split_ifs <;> simp

@[simp] theorem fiberDecay_emergencyResetCounter (now : Int) (currentThroughput : ℚ)
    (s : MonitorState) :
    (fiberDecay now currentThroughput s).1.emergencyResetCounter = s.emergencyResetCounter := by
  unfold fiberDecay; split_ifs <;> simp

@[simp] theorem fiberDecay_lockedPerformance (now : Int) (currentThroughput : ℚ)
    (s : MonitorState) :
    (fiberDecay now currentThroughput s).1.lockedPerformance = s.lockedPerformance := by
  unfold fiberDecay; split_ifs <;> simp

@[simp] theorem fiberDecay_contextMaxParallel (now : Int) (currentThroughput : ℚ)
    (s : MonitorState) :
    (fiberDecay now currentThroughput s).1.contextMaxParallel = s.contextMaxParallel := by
  unfold fiberDecay; split_ifs <;> simp

@[simp] theorem fiberDecay_partSize (now : Int) (currentThroughput : ℚ)
    (s : MonitorState) :
    (fiberDecay now currentThroughput s).1.partSize = s.partSize := by
  unfold fiberDecay; split_ifs <;> simp

@[simp] theorem fiberDecay_maxParallelCap (now : Int) (currentThroughput : ℚ)
    (s : MonitorState) :
    (fiberDecay now currentThroughput s).1.maxParallelCap = s.maxParallelCap := by
  unfold fiberDecay; split_ifs <;> simp

@[simp] theorem fiberDecay_cleared (now : Int) (currentThroughput : ℚ)
    (s : MonitorState) :
    (fiberDecay now currentThroughput s).1.cleared = s.cleared := by
  unfold fiberDecay; split_ifs <;> simp

@[simp] theorem cableDecay_avgPartSpeedHistory (now : Int) (currentThroughput : ℚ)
    (s : MonitorState) :
    (cableDecay now currentThroughput s).1.avgPartSpeedHistory = s.avgPartSpeedHistory := by
  unfold cableDecay; split_ifs <;> simp

@[simp] theorem cableDecay_parallelAdjustmentHistory (now : Int) (currentThroughput : ℚ)
    (s : MonitorState) :
    (cableDecay now currentThroughput s).1.parallelAdjustmentHistory = s.parallelAdjustmentHistory := by
  unfold cableDecay; split_ifs <;> simp

@[simp] theorem cableDecay_lastParallelAdjustment (now : Int) (currentThroughput : ℚ)
    (s : MonitorState) :
    (cableDecay now currentThroughput s).1.lastParallelAdjustment = s.lastParallelAdjustment := by
  unfold cableDecay; split_ifs <;> simp

@[simp] theorem cableDecay_lastScaleDown (now : Int) (currentThroughput : ℚ)
    (s : MonitorState) :
    (cableDecay now currentThroughput s).1.lastScaleDown = s.lastScaleDown := by
  unfold cableDecay; split_ifs <;> simp

@[simp] theorem cableDecay_lowSpeedSamples (now : Int) (currentThroughput : ℚ)
    (s : MonitorState) :
    (cableDecay now currentThroughput s).1.lowSpeedSamples = s.lowSpeedSamples := by
  unfold cableDecay; split_ifs <;> simp

@[simp] theorem cableDecay_maxParallel (now : Int) (currentThroughput : ℚ)
    (s : MonitorState) :
    (cableDecay now currentThroughput s).1.maxParallel = s.maxParallel := by
  unfold cableDecay; split_ifs <;> simp

@[simp] theorem cableDecay_optimalParallel (now : Int) (currentThroughput : ℚ)
    (s : MonitorState) :
    (cableDecay now currentThroughput s).1.optimalParallel = s.optimalParallel := by
  unfold cableDecay; split_ifs <;> simp

@[simp] theorem cableDecay_lastScaleTime (now : Int) (currentThroughput : ℚ)
    (s : MonitorState) :
    (cableDecay now currentThroughput s).1.lastScaleTime = s.lastScaleTime := by
  unfold cableDecay; split_ifs <;> simp

@[simp] theorem cableDecay_peakThroughputHistory (now : Int) (currentThroughput : ℚ)
    (s : MonitorState) :
    (cableDecay now currentThroughput s).1.peakThroughputHistory = s.peakThroughputHistory := by
  unfold cableDecay; split_ifs <;> simp

@[simp] theorem cableDecay_lastProgress (now : Int) (currentThroughput : ℚ)
    (s : MonitorState) :
    (cableDecay now currentThroughput s).1.lastProgress = s.lastProgress := by
  unfold cableDecay; split_ifs <;> simp

@[simp] theorem cableDecay_emergencyResetCounter (now : Int) (currentThroughput : ℚ)
    (s : MonitorState) :
    (cableDecay now currentThroughput s).1.emergencyResetCounter = s.emergencyResetCounter := by
  unfold cableDecay; split_ifs <;> simp

@[simp] theorem cableDecay_lockedPerformance (now : Int) (currentThroughput : ℚ)
    (s : MonitorState) :
    (cableDecay now currentThroughput s).1.lockedPerformance = s.lockedPerformance := by
  unfold cableDecay; split_ifs <;> simp

@[simp] theorem cableDecay_contextMaxParallel (now : Int) (currentThroughput : ℚ)
    (s : MonitorState) :
    (cableDecay now currentThroughput s).1.contextMaxParallel = s.contextMaxParallel := by
  unfold cableDecay; split_ifs <;> simp

@[simp] theorem cableDecay_partSize (now : Int) (currentThroughput : ℚ)
    (s : MonitorState) :
    (cableDecay now currentThroughput s).1.partSize = s.partSize := by
  unfold cableDecay; split_ifs <;> simp

@[simp] theorem cableDecay_maxParallelCap (now : Int) (currentThroughput : ℚ)
    (s : MonitorState) :
    (cableDecay now currentThroughput s).1.maxParallelCap = s.maxParallelCap := by
  unfold cableDecay; split_ifs <;> simp

@[simp] theorem cableDecay_cleared (now : Int) (currentThroughput : ℚ)
    (s : MonitorState) :
    (cableDecay now currentThroughput s).1.cleared = s.cleared := by
  unfold cableDecay; split_ifs <;> simp

@[simp] theorem guDecay_avgPartSpeedHistory (T : GUTuning) (now : Int) (currentThroughput : ℚ)
    (s : MonitorState) :
    (guDecay T now currentThroughput s).1.avgPartSpeedHistory = s.avgPartSpeedHistory := by
  unfold guDecay; split_ifs <;> simp

@[simp] theorem guDecay_parallelAdjustmentHistory (T : GUTuning) (now : Int) (currentThroughput : ℚ)
    (s : MonitorState) :
    (guDecay T now currentThroughput s).1.parallelAdjustmentHistory = s.parallelAdjustmentHistory := by
  unfold guDecay; split_ifs <;> simp

@[simp] theorem guDecay_lastParallelAdjustment (T : GUTuning) (now : Int) (currentThroughput : ℚ)
    (s : MonitorState) :
    (guDecay T now currentThroughput s).1.lastParallelAdjustment = s.lastParallelAdjustment := by
  unfold guDecay; split_ifs <;> simp

@[simp] theorem guDecay_lastScaleDown (T : GUTuning) (now : Int) (currentThroughput : ℚ)
    (s : MonitorState) :
    (guDecay T now currentThroughput s).1.lastScaleDown = s.lastScaleDown := by
  unfold guDecay; split_ifs <;> simp

@[simp] theorem guDecay_lowSpeedSamples (T : GUTuning) (now : Int) (currentThroughput : ℚ)
    (s : MonitorState) :
    (guDecay T now currentThroughput s).1.lowSpeedSamples = s.lowSpeedSamples := by
  unfold guDecay; split_ifs <;> simp

@[simp] theorem guDecay_maxParallel (T : GUTuning) (now : Int) (currentThroughput : ℚ)
    (s : MonitorState) :
    (guDecay T now currentThroughput s).1.maxParallel = s.maxParallel := by
  unfold guDecay; split_ifs <;> simp

@[simp] theorem guDecay_optimalParallel (T : GUTuning) (now : Int) (currentThroughput : ℚ)
    (s : MonitorState) :
    (guDecay T now currentThroughput s).1.optimalParallel = s.optimalParallel := by
  unfold guDecay; split_ifs <;> simp

@[simp] theorem guDecay_lastScaleTime (T : GUTuning) (now : Int) (currentThroughput : ℚ)
    (s : MonitorState) :
    (guDecay T now currentThroughput s).1.lastScaleTime = s.lastScaleTime := by
  unfold guDecay; split_ifs <;> simp

@[simp] theorem guDecay_peakThroughputHistory (T : GUTuning) (now : Int) (currentThroughput : ℚ)
    (s : MonitorState) :
    (guDecay T now currentThroughput s).1.peakThroughputHistory = s.peakThroughputHistory := by
  unfold guDecay; split_ifs <;> simp

@[simp] theorem guDecay_lastProgress (T : GUTuning) (now : Int) (currentThroughput : ℚ)
    (s : MonitorState) :
    (guDecay T now currentThroughput s).1.lastProgress = s.lastProgress := by
  unfold guDecay; split_ifs <;> simp

@[simp] theorem guDecay_emergencyResetCounter (T : GUTuning) (now : Int) (currentThroughput : ℚ)
    (s : MonitorState) :
    (guDecay T now currentThroughput s).1.emergencyResetCounter = s.emergencyResetCounter := by
  unfold guDecay; split_ifs <;> simp

@[simp] theorem guDecay_lockedPerformance (T : GUTuning) (now : Int) (currentThroughput : ℚ)
    (s : MonitorState) :
    (guDecay T now currentThroughput s).1.lockedPerformance = s.lockedPerformance := by
  unfold guDecay; split_ifs <;> simp

@[simp] theorem guDecay_contextMaxParallel (T : GUTuning) (now : Int) (currentThroughput : ℚ)
    (s : MonitorState) :
    (guDecay T now currentThroughput s).1.contextMaxParallel = s.contextMaxParallel := by
  unfold guDecay; split_ifs <;> simp

@[simp] theorem guDecay_partSize (T : GUTuning) (now : Int) (currentThroughput : ℚ)
    (s : MonitorState) :
    (guDecay T now currentThroughput s).1.partSize = s.partSize := by
  unfold guDecay; split_ifs <;> simp

@[simp] theorem guDecay_maxParallelCap (T : GUTuning) (now : Int) (currentThroughput : ℚ)
    (s : MonitorState) :
    (guDecay T now currentThroughput s).1.maxParallelCap = s.maxParallelCap := by
  unfold guDecay; split_ifs <;> simp

@[simp] theorem guDecay_cleared (T : GUTuning) (now : Int) (currentThroughput : ℚ)
    (s : MonitorState) :
    (guDecay T now currentThroughput s).1.cleared = s.cleared := by
  unfold guDecay; split_ifs <;> simp

@[simp] theorem thrashingProtection_avgPartSpeedHistory (parallelDefault : ℚ) (historyMax window : Nat) (fraction currentThroughput current : ℚ)
    (s : MonitorState) :
    (thrashingProtection parallelDefault historyMax window fraction currentThroughput current s).1.avgPartSpeedHistory = s.avgPartSpeedHistory := by
  unfold thrashingProtection; split_ifs <;> rfl

@[simp] theorem thrashingProtection_parallelAdjustmentHistory (parallelDefault : ℚ) (historyMax window : Nat) (fraction currentThroughput current : ℚ)
    (s : MonitorState) :
    (thrashingProtection parallelDefault historyMax window fraction currentThroughput current s).1.parallelAdjustmentHistory = s.parallelAdjustmentHistory := by
  unfold thrashingProtection; split_ifs <;> rfl

@[simp] theorem thrashingProtection_lastParallelAdjustment (parallelDefault : ℚ) (historyMax window : Nat) (fraction currentThroughput current : ℚ)
    (s : MonitorState) :
    (thrashingProtection parallelDefault historyMax window fraction currentThroughput current s).1.lastParallelAdjustment = s.lastParallelAdjustment := by
  unfold thrashingProtection; split_ifs <;> rfl

@[simp] theorem thrashingProtection_lastScaleDown (parallelDefault : ℚ) (historyMax window : Nat) (fraction currentThroughput current : ℚ)
    (s : MonitorState) :
    (thrashingProtection parallelDefault historyMax window fraction currentThroughput current s).1.lastScaleDown = s.lastScaleDown := by
  unfold thrashingProtection; split_ifs <;> rfl

@[simp] theorem thrashingProtection_lowSpeedSamples (parallelDefault : ℚ) (historyMax window : Nat) (fraction currentThroughput current : ℚ)
    (s : MonitorState) :
    (thrashingProtection parallelDefault historyMax window fraction currentThroughput current s).1.lowSpeedSamples = s.lowSpeedSamples := by
  unfold thrashingProtection; split_ifs <;> rfl

@[simp] theorem thrashingProtection_peakPerformanceDetected (parallelDefault : ℚ) (historyMax window : Nat) (fraction currentThroughput current : ℚ)
    (s : MonitorState) :
    (thrashingProtection parallelDefault historyMax window fraction currentThroughput current s).1.peakPerformanceDetected = s.peakPerformanceDetected := by
  unfold thrashingProtection; split_ifs <;> rfl

@[simp] theorem thrashingProtection_maxParallel (parallelDefault : ℚ) (historyMax window : Nat) (fraction currentThroughput current : ℚ)
    (s : MonitorState) :
    (thrashingProtection parallelDefault historyMax window fraction currentThroughput current s).1.maxParallel = s.maxParallel := by
  unfold thrashingProtection; split_ifs <;> rfl

@[simp] theorem thrashingProtection_peakTimestamp (parallelDefault : ℚ) (historyMax window : Nat) (fraction currentThroughput current : ℚ)
    (s : MonitorState) :
    (thrashingProtection parallelDefault historyMax window fraction currentThroughput current s).1.peakTimestamp = s.peakTimestamp := by
  unfold thrashingProtection; split_ifs <;> rfl

@[simp] theorem thrashingProtection_initialPeakThroughput (parallelDefault : ℚ) (historyMax window : Nat) (fraction currentThroughput current : ℚ)
    (s : MonitorState) :
    (thrashingProtection parallelDefault historyMax window fraction currentThroughput current s).1.initialPeakThroughput = s.initialPeakThroughput := by
  unfold thrashingProtection; split_ifs <;> rfl

@[simp] theorem thrashingProtection_lastScaleTime (parallelDefault : ℚ) (historyMax window : Nat) (fraction currentThroughput current : ℚ)
    (s : MonitorState) :
    (thrashingProtection parallelDefault historyMax window fraction currentThroughput current s).1.lastScaleTime = s.lastScaleTime := by
  unfold thrashingProtection; split_ifs <;> rfl

@[simp] theorem thrashingProtection_throughputSmoothingHistory (parallelDefault : ℚ) (historyMax window : Nat) (fraction currentThroughput current : ℚ)
    (s : MonitorState) :
    (thrashingProtection parallelDefault historyMax window fraction currentThroughput current s).1.throughputSmoothingHistory = s.throughputSmoothingHistory := by
  unfold thrashingProtection; split_ifs <;> rfl

@[simp] theorem thrashingProtection_peakResetState (parallelDefault : ℚ) (historyMax window : Nat) (fraction currentThroughput current : ℚ)
    (s : MonitorState) :
    (thrashingProtection parallelDefault historyMax window fraction currentThroughput current s).1.peakResetState = s.peakResetState := by
  unfold thrashingProtection; split_ifs <;> rfl

@[simp] theorem thrashingProtection_strongPerformanceSamples (parallelDefault : ℚ) (historyMax window : Nat) (fraction currentThroughput current : ℚ)
    (s : MonitorState) :
    (thrashingProtection parallelDefault historyMax window fraction currentThroughput current s).1.strongPerformanceSamples = s.strongPerformanceSamples := by
  unfold thrashingProtection; split_ifs <;> rfl

@[simp] theorem thrashingProtection_lastProgress (parallelDefault : ℚ) (historyMax window : Nat) (fraction currentThroughput current : ℚ)
    (s : MonitorState) :
    (thrashingProtection parallelDefault historyMax window fraction currentThroughput current s).1.lastProgress = s.lastProgress := by
  unfold thrashingProtection; split_ifs <;> rfl

@[simp] theorem thrashingProtection_emergencyResetCounter (parallelDefault : ℚ) (historyMax window : Nat) (fraction currentThroughput current : ℚ)
    (s : MonitorState) :
    (thrashingProtection parallelDefault historyMax window fraction currentThroughput current s).1.emergencyResetCounter = s.emergencyResetCounter := by
  unfold thrashingProtection; split_ifs <;> rfl

@[simp] theorem thrashingProtection_lockedPerformance (parallelDefault : ℚ) (historyMax window : Nat) (fraction currentThroughput current : ℚ)
    (s : MonitorState) :
    (thrashingProtection parallelDefault historyMax window fraction currentThroughput current s).1.lockedPerformance = s.lockedPerformance := by
  unfold thrashingProtection; split_ifs <;> rfl

@[simp] theorem thrashingProtection_contextMaxParallel (parallelDefault : ℚ) (historyMax window : Nat) (fraction currentThroughput current : ℚ)
    (s : MonitorState) :
    (thrashingProtection parallelDefault historyMax window fraction currentThroughput current s).1.contextMaxParallel = s.contextMaxParallel := by
  unfold thrashingProtection; split_ifs <;> rfl

@[simp] theorem thrashingProtection_partSize (parallelDefault : ℚ) (historyMax window : Nat) (fraction currentThroughput current : ℚ)
    (s : MonitorState) :
    (thrashingProtection parallelDefault historyMax window fraction currentThroughput current s).1.partSize = s.partSize := by
  unfold thrashingProtection; split_ifs <;> rfl

@[simp] theorem thrashingProtection_maxParallelCap (parallelDefault : ℚ) (historyMax window : Nat) (fraction currentThroughput current : ℚ)
    (s : MonitorState) :
    (thrashingProtection parallelDefault historyMax window fraction currentThroughput current s).1.maxParallelCap = s.maxParallelCap := by
  unfold thrashingProtection; split_ifs <;> rfl

@[simp] theorem thrashingProtection_cleared (parallelDefault : ℚ) (historyMax window : Nat) (fraction currentThroughput current : ℚ)
    (s : MonitorState) :
    (thrashingProtection parallelDefault historyMax window fraction currentThroughput current s).1.cleared = s.cleared := by
  unfold thrashingProtection; split_ifs <;> rfl

@[simp] theorem deScaling_avgPartSpeedHistory (P : StallProfile) (now : Int) (avgSpeedPerPart : ℚ)
    (s : MonitorState) :
    (deScaling P now avgSpeedPerPart s).1.avgPartSpeedHistory = s.avgPartSpeedHistory := by
  unfold deScaling; split_ifs <;> rfl

@[simp] theorem deScaling_parallelAdjustmentHistory (P : StallProfile) (now : Int) (avgSpeedPerPart : ℚ)
    (s : MonitorState) :
    (deScaling P now avgSpeedPerPart s).1.parallelAdjustmentHistory = s.parallelAdjustmentHistory := by
  unfold deScaling; split_ifs <;> rfl

@[simp] theorem deScaling_peakPerformanceDetected (P : StallProfile) (now : Int) (avgSpeedPerPart : ℚ)
    (s : MonitorState) :
    (deScaling P now avgSpeedPerPart s).1.peakPerformanceDetected = s.peakPerformanceDetected := by
  unfold deScaling; split_ifs <;> rfl

@[simp] theorem deScaling_maxParallel (P : StallProfile) (now : Int) (avgSpeedPerPart : ℚ)
    (s : MonitorState) :
    (deScaling P now avgSpeedPerPart s).1.maxParallel = s.maxParallel := by
  unfold deScaling; split_ifs <;> rfl

@[simp] theorem deScaling_optimalParallel (P : StallProfile) (now : Int) (avgSpeedPerPart : ℚ)
    (s : MonitorState) :
    (deScaling P now avgSpeedPerPart s).1.optimalParallel = s.optimalParallel := by
  unfold deScaling; split_ifs <;> rfl

@[simp] theorem deScaling_peakTimestamp (P : StallProfile) (now : Int) (avgSpeedPerPart : ℚ)
    (s : MonitorState) :
    (deScaling P now avgSpeedPerPart s).1.peakTimestamp = s.peakTimestamp := by
  unfold deScaling; split_ifs <;> rfl

@[simp] theorem deScaling_initialPeakThroughput (P : StallProfile) (now : Int) (avgSpeedPerPart : ℚ)
    (s : MonitorState) :
    (deScaling P now avgSpeedPerPart s).1.initialPeakThroughput = s.initialPeakThroughput := by
  unfold deScaling; split_ifs <;> rfl

@[simp] theorem deScaling_lastScaleTime (P : StallProfile) (now : Int) (avgSpeedPerPart : ℚ)
    (s : MonitorState) :
    (deScaling P now avgSpeedPerPart s).1.lastScaleTime = s.lastScaleTime := by
  unfold deScaling; split_ifs <;> rfl

@[simp] theorem deScaling_peakThroughputHistory (P : StallProfile) (now : Int) (avgSpeedPerPart : ℚ)
    (s : MonitorState) :
    (deScaling P now avgSpeedPerPart s).1.peakThroughputHistory = s.peakThroughputHistory := by
  unfold deScaling; split_ifs <;> rfl

@[simp] theorem deScaling_throughputSmoothingHistory (P : StallProfile) (now : Int) (avgSpeedPerPart : ℚ)
    (s : MonitorState) :
    (deScaling P now avgSpeedPerPart s).1.throughputSmoothingHistory = s.throughputSmoothingHistory := by
  unfold deScaling; split_ifs <;> rfl

@[simp] theorem deScaling_peakResetState (P : StallProfile) (now : Int) (avgSpeedPerPart : ℚ)
    (s : MonitorState) :
    (deScaling P now avgSpeedPerPart s).1.peakResetState = s.peakResetState := by
  unfold deScaling; split_ifs <;> rfl

@[simp] theorem deScaling_strongPerformanceSamples (P : StallProfile) (now : Int) (avgSpeedPerPart : ℚ)
    (s : MonitorState) :
    (deScaling P now avgSpeedPerPart s).1.strongPerformanceSamples = s.strongPerformanceSamples := by
  unfold deScaling; split_ifs <;> rfl

@[simp] theorem deScaling_lastProgress (P : StallProfile) (now : Int) (avgSpeedPerPart : ℚ)
    (s : MonitorState) :
    (deScaling P now avgSpeedPerPart s).1.lastProgress = s.lastProgress := by
  unfold deScaling; split_ifs <;> rfl

@[simp] theorem deScaling_emergencyResetCounter (P : StallProfile) (now : Int) (avgSpeedPerPart : ℚ)
    (s : MonitorState) :
    (deScaling P now avgSpeedPerPart s).1.emergencyResetCounter = s.emergencyResetCounter := by
  unfold deScaling; split_ifs <;> rfl

@[simp] theorem deScaling_lockedPerformance (P : StallProfile) (now : Int) (avgSpeedPerPart : ℚ)
    (s : MonitorState) :
    (deScaling P now avgSpeedPerPart s).1.lockedPerformance = s.lockedPerformance := by
  unfold deScaling; split_ifs <;> rfl

@[simp] theorem deScaling_partSize (P : StallProfile) (now : Int) (avgSpeedPerPart : ℚ)
    (s : MonitorState) :
    (deScaling P now avgSpeedPerPart s).1.partSize = s.partSize := by
  unfold deScaling; split_ifs <;> rfl

@[simp] theorem deScaling_maxParallelCap (P : StallProfile) (now : Int) (avgSpeedPerPart : ℚ)
    (s : MonitorState) :
    (deScaling P now avgSpeedPerPart s).1.maxParallelCap = s.maxParallelCap := by
  unfold deScaling; split_ifs <;> rfl

@[simp] theorem deScaling_cleared (P : StallProfile) (now : Int) (avgSpeedPerPart : ℚ)
    (s : MonitorState) :
    (deScaling P now avgSpeedPerPart s).1.cleared = s.cleared := by
  unfold deScaling; split_ifs <;> rfl

@[simp] theorem fiberTrackLow_avgPartSpeedHistory (smoothed : ℚ)
    (s : MonitorState) :
    (fiberTrackLow smoothed s).avgPartSpeedHistory = s.avgPartSpeedHistory := by
  unfold fiberTrackLow; split_ifs <;> rfl

@[simp] theorem fiberTrackLow_parallelAdjustmentHistory (smoothed : ℚ)
    (s : MonitorState) :
    (fiberTrackLow smoothed s).parallelAdjustmentHistory = s.parallelAdjustmentHistory := by
  unfold fiberTrackLow; split_ifs <;> rfl

@[simp] theorem fiberTrackLow_lastParallelAdjustment (smoothed : ℚ)
    (s : MonitorState) :
    (fiberTrackLow smoothed s).lastParallelAdjustment = s.lastParallelAdjustment := by
  unfold fiberTrackLow; split_ifs <;> rfl

@[simp] theorem fiberTrackLow_lastScaleDown (smoothed : ℚ)
    (s : MonitorState) :
    (fiberTrackLow smoothed s).lastScaleDown = s.lastScaleDown := by
  unfold fiberTrackLow; split_ifs <;> rfl

@[simp] theorem fiberTrackLow_peakPerformanceDetected (smoothed : ℚ)
    (s : MonitorState) :
    (fiberTrackLow smoothed s).peakPerformanceDetected = s.peakPerformanceDetected := by
  unfold fiberTrackLow; split_ifs <;> rfl

@[simp] theorem fiberTrackLow_maxParallel (smoothed : ℚ)
    (s : MonitorState) :
    (fiberTrackLow smoothed s).maxParallel = s.maxParallel := by
  unfold fiberTrackLow; split_ifs <;> rfl

@[simp] theorem fiberTrackLow_optimalParallel (smoothed : ℚ)
    (s : MonitorState) :
    (fiberTrackLow smoothed s).optimalParallel = s.optimalParallel := by
  unfold fiberTrackLow; split_ifs <;> rfl

@[simp] theorem fiberTrackLow_peakTimestamp (smoothed : ℚ)
    (s : MonitorState) :
    (fiberTrackLow smoothed s).peakTimestamp = s.peakTimestamp := by
  unfold fiberTrackLow; split_ifs <;> rfl

@[simp] theorem fiberTrackLow_initialPeakThroughput (smoothed : ℚ)
    (s : MonitorState) :
    (fiberTrackLow smoothed s).initialPeakThroughput = s.initialPeakThroughput := by
  unfold fiberTrackLow; split_ifs <;> rfl

@[simp] theorem fiberTrackLow_lastScaleTime (smoothed : ℚ)
    (s : MonitorState) :
    (fiberTrackLow smoothed s).lastScaleTime = s.lastScaleTime := by
  unfold fiberTrackLow; split_ifs <;> rfl

@[simp] theorem fiberTrackLow_peakThroughputHistory (smoothed : ℚ)
    (s : MonitorState) :
    (fiberTrackLow smoothed s).peakThroughputHistory = s.peakThroughputHistory := by
  unfold fiberTrackLow; split_ifs <;> rfl

@[simp] theorem fiberTrackLow_throughputSmoothingHistory (smoothed : ℚ)
    (s : MonitorState) :
    (fiberTrackLow smoothed s).throughputSmoothingHistory = s.throughputSmoothingHistory := by
  unfold fiberTrackLow; split_ifs <;> rfl

@[simp] theorem fiberTrackLow_peakResetState (smoothed : ℚ)
    (s : MonitorState) :
    (fiberTrackLow smoothed s).peakResetState = s.peakResetState := by
  unfold fiberTrackLow; split_ifs <;> rfl

@[simp] theorem fiberTrackLow_strongPerformanceSamples (smoothed : ℚ)
    (s : MonitorState) :
    (fiberTrackLow smoothed s).strongPerformanceSamples = s.strongPerformanceSamples := by
  unfold fiberTrackLow; split_ifs <;> rfl

@[simp] theorem fiberTrackLow_lastProgress (smoothed : ℚ)
    (s : MonitorState) :
    (fiberTrackLow smoothed s).lastProgress = s.lastProgress := by
  unfold fiberTrackLow; split_ifs <;> rfl

@[simp] theorem fiberTrackLow_emergencyResetCounter (smoothed : ℚ)
    (s : MonitorState) :
    (fiberTrackLow smoothed s).emergencyResetCounter = s.emergencyResetCounter := by
  unfold fiberTrackLow; split_ifs <;> rfl

@[simp] theorem fiberTrackLow_lockedPerformance (smoothed : ℚ)
    (s : MonitorState) :
    (fiberTrackLow smoothed s).lockedPerformance = s.lockedPerformance := by
  unfold fiberTrackLow; split_ifs <;> rfl

@[simp] theorem fiberTrackLow_contextMaxParallel (smoothed : ℚ)
    (s : MonitorState) :
    (fiberTrackLow smoothed s).contextMaxParallel = s.contextMaxParallel := by
  unfold fiberTrackLow; split_ifs <;> rfl

@[simp] theorem fiberTrackLow_partSize (smoothed : ℚ)
    (s : MonitorState) :
    (fiberTrackLow smoothed s).partSize = s.partSize := by
  unfold fiberTrackLow; split_ifs <;> rfl

@[simp] theorem fiberTrackLow_maxParallelCap (smoothed : ℚ)
    (s : MonitorState) :
    (fiberTrackLow smoothed s).maxParallelCap = s.maxParallelCap := by
  unfold fiberTrackLow; split_ifs <;> rfl

@[simp] theorem fiberTrackLow_cleared (smoothed : ℚ)
    (s : MonitorState) :
    (fiberTrackLow smoothed s).cleared = s.cleared := by
  unfold fiberTrackLow; split_ifs <;> rfl

@[simp] theorem cableTrackLow_avgPartSpeedHistory (smoothed : ℚ)
    (s : MonitorState) :
    (cableTrackLow smoothed s).avgPartSpeedHistory = s.avgPartSpeedHistory := by
  unfold cableTrackLow; split_ifs <;> rfl

@[simp] theorem cableTrackLow_parallelAdjustmentHistory (smoothed : ℚ)
    (s : MonitorState) :
    (cableTrackLow smoothed s).parallelAdjustmentHistory = s.parallelAdjustmentHistory := by
  unfold cableTrackLow; split_ifs <;> rfl

@[simp] theorem cableTrackLow_lastParallelAdjustment (smoothed : ℚ)
    (s : MonitorState) :
    (cableTrackLow smoothed s).lastParallelAdjustment = s.lastParallelAdjustment := by
  unfold cableTrackLow; split_ifs <;> rfl

@[simp] theorem cableTrackLow_lastScaleDown (smoothed : ℚ)
    (s : MonitorState) :
    (cableTrackLow smoothed s).lastScaleDown = s.lastScaleDown := by
  unfold cableTrackLow; split_ifs <;> rfl

@[simp] theorem cableTrackLow_peakPerformanceDetected (smoothed : ℚ)
    (s : MonitorState) :
    (cableTrackLow smoothed s).peakPerformanceDetected = s.peakPerformanceDetected := by
  unfold cableTrackLow; split_ifs <;> rfl

@[simp] theorem cableTrackLow_maxParallel (smoothed : ℚ)
    (s : MonitorState) :
    (cableTrackLow smoothed s).maxParallel = s.maxParallel := by
  unfold cableTrackLow; split_ifs <;> rfl

@[simp] theorem cableTrackLow_optimalParallel (smoothed : ℚ)
    (s : MonitorState) :
    (cableTrackLow smoothed s).optimalParallel = s.optimalParallel := by
  unfold cableTrackLow; split_ifs <;> rfl

@[simp] theorem cableTrackLow_peakTimestamp (smoothed : ℚ)
    (s : MonitorState) :
    (cableTrackLow smoothed s).peakTimestamp = s.peakTimestamp := by
  unfold cableTrackLow; split_ifs <;> rfl

@[simp] theorem cableTrackLow_initialPeakThroughput (smoothed : ℚ)
    (s : MonitorState) :
    (cableTrackLow smoothed s).initialPeakThroughput = s.initialPeakThroughput := by
  unfold cableTrackLow; split_ifs <;> rfl

@[simp] theorem cableTrackLow_lastScaleTime (smoothed : ℚ)
    (s : MonitorState) :
    (cableTrackLow smoothed s).lastScaleTime = s.lastScaleTime := by
  unfold cableTrackLow; split_ifs <;> rfl

@[simp] theorem cableTrackLow_peakThroughputHistory (smoothed : ℚ)
    (s : MonitorState) :
    (cableTrackLow smoothed s).peakThroughputHistory = s.peakThroughputHistory := by
  unfold cableTrackLow; split_ifs <;> rfl

@[simp] theorem cableTrackLow_throughputSmoothingHistory (smoothed : ℚ)
    (s : MonitorState) :
    (cableTrackLow smoothed s).throughputSmoothingHistory = s.throughputSmoothingHistory := by
  unfold cableTrackLow; split_ifs <;> rfl

@[simp] theorem cableTrackLow_peakResetState (smoothed : ℚ)
    (s : MonitorState) :
    (cableTrackLow smoothed s).peakResetState = s.peakResetState := by
  unfold cableTrackLow; split_ifs <;> rfl

@[simp] theorem cableTrackLow_strongPerformanceSamples (smoothed : ℚ)
    (s : MonitorState) :
    (cableTrackLow smoothed s).strongPerformanceSamples = s.strongPerformanceSamples := by
  unfold cableTrackLow; split_ifs <;> rfl

@[simp] theorem cableTrackLow_lastProgress (smoothed : ℚ)
    (s : MonitorState) :
    (cableTrackLow smoothed s).lastProgress = s.lastProgress := by
  unfold cableTrackLow; split_ifs <;> rfl

@[simp] theorem cableTrackLow_emergencyResetCounter (smoothed : ℚ)
    (s : MonitorState) :
    (cableTrackLow smoothed s).emergencyResetCounter = s.emergencyResetCounter := by
  unfold cableTrackLow; split_ifs <;> rfl

@[simp] theorem cableTrackLow_lockedPerformance (smoothed : ℚ)
    (s : MonitorState) :
    (cableTrackLow smoothed s).lockedPerformance = s.lockedPerformance := by
  unfold cableTrackLow; split_ifs <;> rfl

@[simp] theorem cableTrackLow_contextMaxParallel (smoothed : ℚ)
    (s : MonitorState) :
    (cableTrackLow smoothed s).contextMaxParallel = s.contextMaxParallel := by
  unfold cableTrackLow; split_ifs <;> rfl

@[simp] theorem cableTrackLow_partSize (smoothed : ℚ)
    (s : MonitorState) :
    (cableTrackLow smoothed s).partSize = s.partSize := by
  unfold cableTrackLow; split_ifs <;> rfl

@[simp] theorem cableTrackLow_maxParallelCap (smoothed : ℚ)
    (s : MonitorState) :
    (cableTrackLow smoothed s).maxParallelCap = s.maxParallelCap := by
  unfold cableTrackLow; split_ifs <;> rfl

@[simp] theorem cableTrackLow_cleared (smoothed : ℚ)
    (s : MonitorState) :
    (cableTrackLow smoothed s).cleared = s.cleared := by
  unfold cableTrackLow; split_ifs <;> rfl

@[simp] theorem guTrackLow_avgPartSpeedHistory (T : GUTuning) (speed currentThroughput : ℚ)
    (s : MonitorState) :
    (guTrackLow T speed currentThroughput s).avgPartSpeedHistory = s.avgPartSpeedHistory := by
  unfold guTrackLow; split_ifs <;> rfl

@[simp] theorem guTrackLow_parallelAdjustmentHistory (T : GUTuning) (speed currentThroughput : ℚ)
    (s : MonitorState) :
    (guTrackLow T speed currentThroughput s).parallelAdjustmentHistory = s.parallelAdjustmentHistory := by
  unfold guTrackLow; split_ifs <;> rfl

@[simp] theorem guTrackLow_lastParallelAdjustment (T : GUTuning) (speed currentThroughput : ℚ)
    (s : MonitorState) :
    (guTrackLow T speed currentThroughput s).lastParallelAdjustment = s.lastParallelAdjustment := by
  unfold guTrackLow; split_ifs <;> rfl

@[simp] theorem guTrackLow_lastScaleDown (T : GUTuning) (speed currentThroughput : ℚ)
    (s : MonitorState) :
    (guTrackLow T speed currentThroughput s).lastScaleDown = s.lastScaleDown := by
  unfold guTrackLow; split_ifs <;> rfl

@[simp] theorem guTrackLow_peakPerformanceDetected (T : GUTuning) (speed currentThroughput : ℚ)
    (s : MonitorState) :
    (guTrackLow T speed currentThroughput s).peakPerformanceDetected = s.peakPerformanceDetected := by
  unfold guTrackLow; split_ifs <;> rfl

@[simp] theorem guTrackLow_maxParallel (T : GUTuning) (speed currentThroughput : ℚ)
    (s : MonitorState) :
    (guTrackLow T speed currentThroughput s).maxParallel = s.maxParallel := by
  unfold guTrackLow; split_ifs <;> rfl

@[simp] theorem guTrackLow_optimalParallel (T : GUTuning) (speed currentThroughput : ℚ)
    (s : MonitorState) :
    (guTrackLow T speed currentThroughput s).optimalParallel = s.optimalParallel := by
  unfold guTrackLow; split_ifs <;> rfl

@[simp] theorem guTrackLow_peakTimestamp (T : GUTuning) (speed currentThroughput : ℚ)
    (s : MonitorState) :
    (guTrackLow T speed currentThroughput s).peakTimestamp = s.peakTimestamp := by
  unfold guTrackLow; split_ifs <;> rfl

@[simp] theorem guTrackLow_initialPeakThroughput (T : GUTuning) (speed currentThroughput : ℚ)
    (s : MonitorState) :
    (guTrackLow T speed currentThroughput s).initialPeakThroughput = s.initialPeakThroughput := by
  unfold guTrackLow; split_ifs <;> rfl

@[simp] theorem guTrackLow_lastScaleTime (T : GUTuning) (speed currentThroughput : ℚ)
    (s : MonitorState) :
    (guTrackLow T speed currentThroughput s).lastScaleTime = s.lastScaleTime := by
  unfold guTrackLow; split_ifs <;> rfl

@[simp] theorem guTrackLow_peakThroughputHistory (T : GUTuning) (speed currentThroughput : ℚ)
    (s : MonitorState) :
    (guTrackLow T speed currentThroughput s).peakThroughputHistory = s.peakThroughputHistory := by
  unfold guTrackLow; split_ifs <;> rfl

@[simp] theorem guTrackLow_throughputSmoothingHistory (T : GUTuning) (speed currentThroughput : ℚ)
    (s : MonitorState) :
    (guTrackLow T speed currentThroughput s).throughputSmoothingHistory = s.throughputSmoothingHistory := by
  unfold guTrackLow; split_ifs <;> rfl

@[simp] theorem guTrackLow_peakResetState (T : GUTuning) (speed currentThroughput : ℚ)
    (s : MonitorState) :
    (guTrackLow T speed currentThroughput s).peakResetState = s.peakResetState := by
  unfold guTrackLow; split_ifs <;> rfl

@[simp] theorem guTrackLow_strongPerformanceSamples (T : GUTuning) (speed currentThroughput : ℚ)
    (s : MonitorState) :
    (guTrackLow T speed currentThroughput s).strongPerformanceSamples = s.strongPerformanceSamples := by
  unfold guTrackLow; split_ifs <;> rfl

@[simp] theorem guTrackLow_lastProgress (T : GUTuning) (speed currentThroughput : ℚ)
    (s : MonitorState) :
    (guTrackLow T speed currentThroughput s).lastProgress = s.lastProgress := by
  unfold guTrackLow; split_ifs <;> rfl

@[simp] theorem guTrackLow_emergencyResetCounter (T : GUTuning) (speed currentThroughput : ℚ)
    (s : MonitorState) :
    (guTrackLow T speed currentThroughput s).emergencyResetCounter = s.emergencyResetCounter := by
  unfold guTrackLow; split_ifs <;> rfl

@[simp] theorem guTrackLow_lockedPerformance (T : GUTuning) (speed currentThroughput : ℚ)
    (s : MonitorState) :
    (guTrackLow T speed currentThroughput s).lockedPerformance = s.lockedPerformance := by
  unfold guTrackLow; split_ifs <;> rfl

@[simp] theorem guTrackLow_contextMaxParallel (T : GUTuning) (speed currentThroughput : ℚ)
    (s : MonitorState) :
    (guTrackLow T speed currentThroughput s).contextMaxParallel = s.contextMaxParallel := by
  unfold guTrackLow; split_ifs <;> rfl

@[simp] theorem guTrackLow_partSize (T : GUTuning) (speed currentThroughput : ℚ)
    (s : MonitorState) :
    (guTrackLow T speed currentThroughput s).partSize = s.partSize := by
  unfold guTrackLow; split_ifs <;> rfl

@[simp] theorem guTrackLow_maxParallelCap (T : GUTuning) (speed currentThroughput : ℚ)
    (s : MonitorState) :
    (guTrackLow T speed currentThroughput s).maxParallelCap = s.maxParallelCap := by
  unfold guTrackLow; split_ifs <;> rfl

@[simp] theorem guTrackLow_cleared (T : GUTuning) (speed currentThroughput : ℚ)
    (s : MonitorState) :
    (guTrackLow T speed currentThroughput s).cleared = s.cleared := by
  unfold guTrackLow; split_ifs <;> rfl

@[simp] theorem fiberRamp_avgPartSpeedHistory (now : Int) (smoothed : ℚ)
    (s : MonitorState) :
    (fiberRamp now smoothed s).1.avgPartSpeedHistory = s.avgPartSpeedHistory := by
  unfold fiberRamp; split_ifs <;> rfl

@[simp] theorem fiberRamp_parallelAdjustmentHistory (now : Int) (smoothed : ℚ)
    (s : MonitorState) :
    (fiberRamp now smoothed s).1.parallelAdjustmentHistory = s.parallelAdjustmentHistory := by
  unfold fiberRamp; split_ifs <;> rfl

@[simp] theorem fiberRamp_lastParallelAdjustment (now : Int) (smoothed : ℚ)
    (s : MonitorState) :
    (fiberRamp now smoothed s).1.lastParallelAdjustment = s.lastParallelAdjustment := by
  unfold fiberRamp; split_ifs <;> rfl

@[simp] theorem fiberRamp_peakPerformanceDetected (now : Int) (smoothed : ℚ)
    (s : MonitorState) :
    (fiberRamp now smoothed s).1.peakPerformanceDetected = s.peakPerformanceDetected := by
  unfold fiberRamp; split_ifs <;> rfl

@[simp] theorem fiberRamp_maxParallel (now : Int) (smoothed : ℚ)
    (s : MonitorState) :
    (fiberRamp now smoothed s).1.maxParallel = s.maxParallel := by
  unfold fiberRamp; split_ifs <;> rfl

@[simp] theorem fiberRamp_optimalParallel (now : Int) (smoothed : ℚ)
    (s : MonitorState) :
    (fiberRamp now smoothed s).1.optimalParallel = s.optimalParallel := by
  unfold fiberRamp; split_ifs <;> rfl

@[simp] theorem fiberRamp_peakTimestamp (now : Int) (smoothed : ℚ)
    (s : MonitorState) :
    (fiberRamp now smoothed s).1.peakTimestamp = s.peakTimestamp := by
  unfold fiberRamp; split_ifs <;> rfl

@[simp] theorem fiberRamp_initialPeakThroughput (now : Int) (smoothed : ℚ)
    (s : MonitorState) :
    (fiberRamp now smoothed s).1.initialPeakThroughput = s.initialPeakThroughput := by
  unfold fiberRamp; split_ifs <;> rfl

@[simp] theorem fiberRamp_peakThroughputHistory (now : Int) (smoothed : ℚ)
    (s : MonitorState) :
    (fiberRamp now smoothed s).1.peakThroughputHistory = s.peakThroughputHistory := by
  unfold fiberRamp; split_ifs <;> rfl

@[simp] theorem fiberRamp_throughputSmoothingHistory (now : Int) (smoothed : ℚ)
    (s : MonitorState) :
    (fiberRamp now smoothed s).1.throughputSmoothingHistory = s.throughputSmoothingHistory := by
  unfold fiberRamp; split_ifs <;> rfl

@[simp] theorem fiberRamp_peakResetState (now : Int) (smoothed : ℚ)
    (s : MonitorState) :
    (fiberRamp now smoothed s).1.peakResetState = s.peakResetState := by
  unfold fiberRamp; split_ifs <;> rfl

@[simp] theorem fiberRamp_strongPerformanceSamples (now : Int) (smoothed : ℚ)
    (s : MonitorState) :
    (fiberRamp now smoothed s).1.strongPerformanceSamples = s.strongPerformanceSamples := by
  unfold fiberRamp; split_ifs <;> rfl

@[simp] theorem fiberRamp_lastProgress (now : Int) (smoothed : ℚ)
    (s : MonitorState) :
    (fiberRamp now smoothed s).1.lastProgress = s.lastProgress := by
  unfold fiberRamp; split_ifs <;> rfl

@[simp] theorem fiberRamp_emergencyResetCounter (now : Int) (smoothed : ℚ)
    (s : MonitorState) :
    (fiberRamp now smoothed s).1.emergencyResetCounter = s.emergencyResetCounter := by
  unfold fiberRamp; split_ifs <;> rfl

@[simp] theorem fiberRamp_lockedPerformance (now : Int) (smoothed : ℚ)
    (s : MonitorState) :
    (fiberRamp now smoothed s).1.lockedPerformance = s.lockedPerformance := by
  unfold fiberRamp; split_ifs <;> rfl

@[simp] theorem fiberRamp_contextMaxParallel (now : Int) (smoothed : ℚ)
    (s : MonitorState) :
    (fiberRamp now smoothed s).1.contextMaxParallel = s.contextMaxParallel := by
  unfold fiberRamp; split_ifs <;> rfl

@[simp] theorem fiberRamp_partSize (now : Int) (smoothed : ℚ)
    (s : MonitorState) :
    (fiberRamp now smoothed s).1.partSize = s.partSize := by
  unfold fiberRamp; split_ifs <;> rfl

@[simp] theorem fiberRamp_maxParallelCap (now : Int) (smoothed : ℚ)
    (s : MonitorState) :
    (fiberRamp now smoothed s).1.maxParallelCap = s.maxParallelCap := by
  unfold fiberRamp; split_ifs <;> rfl

@[simp] theorem fiberRamp_cleared (now : Int) (smoothed : ℚ)
    (s : MonitorState) :
    (fiberRamp now smoothed s).1.cleared = s.cleared := by
  unfold fiberRamp; split_ifs <;> rfl

@[simp] theorem cableRamp_avgPartSpeedHistory (now : Int) (smoothed : ℚ)
    (s : MonitorState) :
    (cableRamp now smoothed s).1.avgPartSpeedHistory = s.avgPartSpeedHistory := by
  unfold cableRamp; split_ifs <;> rfl

@[simp] theorem cableRamp_parallelAdjustmentHistory (now : Int) (smoothed : ℚ)
    (s : MonitorState) :
    (cableRamp now smoothed s).1.parallelAdjustmentHistory = s.parallelAdjustmentHistory := by
  unfold cableRamp; split_ifs <;> rfl

@[simp] theorem cableRamp_lastParallelAdjustment (now : Int) (smoothed : ℚ)
    (s : MonitorState) :
    (cableRamp now smoothed s).1.lastParallelAdjustment = s.lastParallelAdjustment := by
  unfold cableRamp; split_ifs <;> rfl

@[simp] theorem cableRamp_peakPerformanceDetected (now : Int) (smoothed : ℚ)
    (s : MonitorState) :
    (cableRamp now smoothed s).1.peakPerformanceDetected = s.peakPerformanceDetected := by
  unfold cableRamp; split_ifs <;> rfl

@[simp] theorem cableRamp_maxParallel (now : Int) (smoothed : ℚ)
    (s : MonitorState) :
    (cableRamp now smoothed s).1.maxParallel = s.maxParallel := by
  unfold cableRamp; split_ifs <;> rfl

@[simp] theorem cableRamp_optimalParallel (now : Int) (smoothed : ℚ)
    (s : MonitorState) :
    (cableRamp now smoothed s).1.optimalParallel = s.optimalParallel := by
  unfold cableRamp; split_ifs <;> rfl

@[simp] theorem cableRamp_peakTimestamp (now : Int) (smoothed : ℚ)
    (s : MonitorState) :
    (cableRamp now smoothed s).1.peakTimestamp = s.peakTimestamp := by
  unfold cableRamp; split_ifs <;> rfl

@[simp] theorem cableRamp_initialPeakThroughput (now : Int) (smoothed : ℚ)
    (s : MonitorState) :
    (cableRamp now smoothed s).1.initialPeakThroughput = s.initialPeakThroughput := by
  unfold cableRamp; split_ifs <;> rfl

@[simp] theorem cableRamp_peakThroughputHistory (now : Int) (smoothed : ℚ)
    (s : MonitorState) :
    (cableRamp now smoothed s).1.peakThroughputHistory = s.peakThroughputHistory := by
  unfold cableRamp; split_ifs <;> rfl

@[simp] theorem cableRamp_throughputSmoothingHistory (now : Int) (smoothed : ℚ)
    (s : MonitorState) :
    (cableRamp now smoothed s).1.throughputSmoothingHistory = s.throughputSmoothingHistory := by
  unfold cableRamp; split_ifs <;> rfl

@[simp] theorem cableRamp_peakResetState (now : Int) (smoothed : ℚ)
    (s : MonitorState) :
    (cableRamp now smoothed s).1.peakResetState = s.peakResetState := by
  unfold cableRamp; split_ifs <;> rfl

@[simp] theorem cableRamp_strongPerformanceSamples (now : Int) (smoothed : ℚ)
    (s : MonitorState) :
    (cableRamp now smoothed s).1.strongPerformanceSamples = s.strongPerformanceSamples := by
  unfold cableRamp; split_ifs <;> rfl

@[simp] theorem cableRamp_lastProgress (now : Int) (smoothed : ℚ)
    (s : MonitorState) :
    (cableRamp now smoothed s).1.lastProgress = s.lastProgress := by
  unfold cableRamp; split_ifs <;> rfl

@[simp] theorem cableRamp_emergencyResetCounter (now : Int) (smoothed : ℚ)
    (s : MonitorState) :
    (cableRamp now smoothed s).1.emergencyResetCounter = s.emergencyResetCounter := by
  unfold cableRamp; split_ifs <;> rfl

@[simp] theorem cableRamp_lockedPerformance (now : Int) (smoothed : ℚ)
    (s : MonitorState) :
    (cableRamp now smoothed s).1.lockedPerformance = s.lockedPerformance := by
  unfold cableRamp; split_ifs <;> rfl

@[simp] theorem cableRamp_contextMaxParallel (now : Int) (smoothed : ℚ)
    (s : MonitorState) :
    (cableRamp now smoothed s).1.contextMaxParallel = s.contextMaxParallel := by
  unfold cableRamp; split_ifs <;> rfl

@[simp] theorem cableRamp_partSize (now : Int) (smoothed : ℚ)
    (s : MonitorState) :
    (cableRamp now smoothed s).1.partSize = s.partSize := by
  unfold cableRamp; split_ifs <;> rfl

@[simp] theorem cableRamp_maxParallelCap (now : Int) (smoothed : ℚ)
    (s : MonitorState) :
    (cableRamp now smoothed s).1.maxParallelCap = s.maxParallelCap := by
  unfold cableRamp; split_ifs <;> rfl

@[simp] theorem cableRamp_cleared (now : Int) (smoothed : ℚ)
    (s : MonitorState) :
    (cableRamp now smoothed s).1.cleared = s.cleared := by
  unfold cableRamp; split_ifs <;> rfl

@[simp] theorem guLockMode_avgPartSpeedHistory (P : LockProfile) (T : GUTuning) (now : Int) (speed currentThroughput : ℚ)
    (s : MonitorState) :
    (guLockMode P T now speed currentThroughput s).1.avgPartSpeedHistory = s.avgPartSpeedHistory := by
  unfold guLockMode; split_ifs <;> rfl

@[simp] theorem guLockMode_parallelAdjustmentHistory (P : LockProfile) (T : GUTuning) (now : Int) (speed currentThroughput : ℚ)
    (s : MonitorState) :
    (guLockMode P T now speed currentThroughput s).1.parallelAdjustmentHistory = s.parallelAdjustmentHistory := by
  unfold guLockMode; split_ifs <;> rfl

@[simp] theorem guLockMode_lastParallelAdjustment (P : LockProfile) (T : GUTuning) (now : Int) (speed currentThroughput : ℚ)
    (s : MonitorState) :
    (guLockMode P T now speed currentThroughput s).1.lastParallelAdjustment = s.lastParallelAdjustment := by
  unfold guLockMode; split_ifs <;> rfl

@[simp] theorem guLockMode_lastScaleDown (P : LockProfile) (T : GUTuning) (now : Int) (speed currentThroughput : ℚ)
    (s : MonitorState) :
    (guLockMode P T now speed currentThroughput s).1.lastScaleDown = s.lastScaleDown := by
  unfold guLockMode; split_ifs <;> rfl

@[simp] theorem guLockMode_maxParallel (P : LockProfile) (T : GUTuning) (now : Int) (speed currentThroughput : ℚ)
    (s : MonitorState) :
    (guLockMode P T now speed currentThroughput s).1.maxParallel = s.maxParallel := by
  unfold guLockMode; split_ifs <;> rfl

@[simp] theorem guLockMode_optimalParallel (P : LockProfile) (T : GUTuning) (now : Int) (speed currentThroughput : ℚ)
    (s : MonitorState) :
    (guLockMode P T now speed currentThroughput s).1.optimalParallel = s.optimalParallel := by
  unfold guLockMode; split_ifs <;> rfl

@[simp] theorem guLockMode_peakTimestamp (P : LockProfile) (T : GUTuning) (now : Int) (speed currentThroughput : ℚ)
    (s : MonitorState) :
    (guLockMode P T now speed currentThroughput s).1.peakTimestamp = s.peakTimestamp := by
  unfold guLockMode; split_ifs <;> rfl

@[simp] theorem guLockMode_initialPeakThroughput (P : LockProfile) (T : GUTuning) (now : Int) (speed currentThroughput : ℚ)
    (s : MonitorState) :
    (guLockMode P T now speed currentThroughput s).1.initialPeakThroughput = s.initialPeakThroughput := by
  unfold guLockMode; split_ifs <;> rfl

@[simp] theorem guLockMode_peakThroughputHistory (P : LockProfile) (T : GUTuning) (now : Int) (speed currentThroughput : ℚ)
    (s : MonitorState) :
    (guLockMode P T now speed currentThroughput s).1.peakThroughputHistory = s.peakThroughputHistory := by
  unfold guLockMode; split_ifs <;> rfl

@[simp] theorem guLockMode_throughputSmoothingHistory (P : LockProfile) (T : GUTuning) (now : Int) (speed currentThroughput : ℚ)
    (s : MonitorState) :
    (guLockMode P T now speed currentThroughput s).1.throughputSmoothingHistory = s.throughputSmoothingHistory := by
  unfold guLockMode; split_ifs <;> rfl

@[simp] theorem guLockMode_lastProgress (P : LockProfile) (T : GUTuning) (now : Int) (speed currentThroughput : ℚ)
    (s : MonitorState) :
    (guLockMode P T now speed currentThroughput s).1.lastProgress = s.lastProgress := by
  unfold guLockMode; split_ifs <;> rfl

@[simp] theorem guLockMode_emergencyResetCounter (P : LockProfile) (T : GUTuning) (now : Int) (speed currentThroughput : ℚ)
    (s : MonitorState) :
    (guLockMode P T now speed currentThroughput s).1.emergencyResetCounter = s.emergencyResetCounter := by
  unfold guLockMode; split_ifs <;> rfl

@[simp] theorem guLockMode_contextMaxParallel (P : LockProfile) (T : GUTuning) (now : Int) (speed currentThroughput : ℚ)
    (s : MonitorState) :
    (guLockMode P T now speed currentThroughput s).1.contextMaxParallel = s.contextMaxParallel := by
  unfold guLockMode; split_ifs <;> rfl

@[simp] theorem guLockMode_partSize (P : LockProfile) (T : GUTuning) (now : Int) (speed currentThroughput : ℚ)
    (s : MonitorState) :
    (guLockMode P T now speed currentThroughput s).1.partSize = s.partSize := by
  unfold guLockMode; split_ifs <;> rfl

@[simp] theorem guLockMode_maxParallelCap (P : LockProfile) (T : GUTuning) (now : Int) (speed currentThroughput : ℚ)
    (s : MonitorState) :
    (guLockMode P T now speed currentThroughput s).1.maxParallelCap = s.maxParallelCap := by
  unfold guLockMode; split_ifs <;> rfl

@[simp] theorem guLockMode_cleared (P : LockProfile) (T : GUTuning) (now : Int) (speed currentThroughput : ℚ)
    (s : MonitorState) :
    (guLockMode P T now speed currentThroughput s).1.cleared = s.cleared := by
  unfold guLockMode; split_ifs <;> rfl

@[simp] theorem guRampDown_avgPartSpeedHistory (P : LockProfile) (T : GUTuning) (now : Int) (currentThroughput : ℚ) (d : RampDecision)
    (s : MonitorState) :
    (guRampDown P T now currentThroughput d s).1.avgPartSpeedHistory = s.avgPartSpeedHistory := by
  unfold guRampDown; split_ifs <;> rfl

@[simp] theorem guRampDown_parallelAdjustmentHistory (P : LockProfile) (T : GUTuning) (now : Int) (currentThroughput : ℚ) (d : RampDecision)
    (s : MonitorState) :
    (guRampDown P T now currentThroughput d s).1.parallelAdjustmentHistory = s.parallelAdjustmentHistory := by
  unfold guRampDown; split_ifs <;> rfl

@[simp] theorem guRampDown_lastParallelAdjustment (P : LockProfile) (T : GUTuning) (now : Int) (currentThroughput : ℚ) (d : RampDecision)
    (s : MonitorState) :
    (guRampDown P T now currentThroughput d s).1.lastParallelAdjustment = s.lastParallelAdjustment := by
  unfold guRampDown; split_ifs <;> rfl

@[simp] theorem guRampDown_maxParallel (P : LockProfile) (T : GUTuning) (now : Int) (currentThroughput : ℚ) (d : RampDecision)
    (s : MonitorState) :
    (guRampDown P T now currentThroughput d s).1.maxParallel = s.maxParallel := by
  unfold guRampDown; split_ifs <;> rfl

@[simp] theorem guRampDown_optimalParallel (P : LockProfile) (T : GUTuning) (now : Int) (currentThroughput : ℚ) (d : RampDecision)
    (s : MonitorState) :
    (guRampDown P T now currentThroughput d s).1.optimalParallel = s.optimalParallel := by
  unfold guRampDown; split_ifs <;> rfl

@[simp] theorem guRampDown_peakTimestamp (P : LockProfile) (T : GUTuning) (now : Int) (currentThroughput : ℚ) (d : RampDecision)
    (s : MonitorState) :
    (guRampDown P T now currentThroughput d s).1.peakTimestamp = s.peakTimestamp := by
  unfold guRampDown; split_ifs <;> rfl

@[simp] theorem guRampDown_initialPeakThroughput (P : LockProfile) (T : GUTuning) (now : Int) (currentThroughput : ℚ) (d : RampDecision)
    (s : MonitorState) :
    (guRampDown P T now currentThroughput d s).1.initialPeakThroughput = s.initialPeakThroughput := by
  unfold guRampDown; split_ifs <;> rfl

@[simp] theorem guRampDown_lastScaleTime (P : LockProfile) (T : GUTuning) (now : Int) (currentThroughput : ℚ) (d : RampDecision)
    (s : MonitorState) :
    (guRampDown P T now currentThroughput d s).1.lastScaleTime = s.lastScaleTime := by
  unfold guRampDown; split_ifs <;> rfl

@[simp] theorem guRampDown_peakThroughputHistory (P : LockProfile) (T : GUTuning) (now : Int) (currentThroughput : ℚ) (d : RampDecision)
    (s : MonitorState) :
    (guRampDown P T now currentThroughput d s).1.peakThroughputHistory = s.peakThroughputHistory := by
  unfold guRampDown; split_ifs <;> rfl

@[simp] theorem guRampDown_throughputSmoothingHistory (P : LockProfile) (T : GUTuning) (now : Int) (currentThroughput : ℚ) (d : RampDecision)
    (s : MonitorState) :
    (guRampDown P T now currentThroughput d s).1.throughputSmoothingHistory = s.throughputSmoothingHistory := by
  unfold guRampDown; split_ifs <;> rfl

@[simp] theorem guRampDown_peakResetState (P : LockProfile) (T : GUTuning) (now : Int) (currentThroughput : ℚ) (d : RampDecision)
    (s : MonitorState) :
    (guRampDown P T now currentThroughput d s).1.peakResetState = s.peakResetState := by
  unfold guRampDown; split_ifs <;> rfl

@[simp] theorem guRampDown_strongPerformanceSamples (P : LockProfile) (T : GUTuning) (now : Int) (currentThroughput : ℚ) (d : RampDecision)
    (s : MonitorState) :
    (guRampDown P T now currentThroughput d s).1.strongPerformanceSamples = s.strongPerformanceSamples := by
  unfold guRampDown; split_ifs <;> rfl

@[simp] theorem guRampDown_lastProgress (P : LockProfile) (T : GUTuning) (now : Int) (currentThroughput : ℚ) (d : RampDecision)
    (s : MonitorState) :
    (guRampDown P T now currentThroughput d s).1.lastProgress = s.lastProgress := by
  unfold guRampDown; split_ifs <;> rfl

@[simp] theorem guRampDown_emergencyResetCounter (P : LockProfile) (T : GUTuning) (now : Int) (currentThroughput : ℚ) (d : RampDecision)
    (s : MonitorState) :
    (guRampDown P T now currentThroughput d s).1.emergencyResetCounter = s.emergencyResetCounter := by
  unfold guRampDown; split_ifs <;> rfl

@[simp] theorem guRampDown_contextMaxParallel (P : LockProfile) (T : GUTuning) (now : Int) (currentThroughput : ℚ) (d : RampDecision)
    (s : MonitorState) :
    (guRampDown P T now currentThroughput d s).1.contextMaxParallel = s.contextMaxParallel := by
  unfold guRampDown; split_ifs <;> rfl

@[simp] theorem guRampDown_partSize (P : LockProfile) (T : GUTuning) (now : Int) (currentThroughput : ℚ) (d : RampDecision)
    (s : MonitorState) :
    (guRampDown P T now currentThroughput d s).1.partSize = s.partSize := by
  unfold guRampDown; split_ifs <;> rfl

@[simp] theorem guRampDown_maxParallelCap (P : LockProfile) (T : GUTuning) (now : Int) (currentThroughput : ℚ) (d : RampDecision)
    (s : MonitorState) :
    (guRampDown P T now currentThroughput d s).1.maxParallelCap = s.maxParallelCap := by
  unfold guRampDown; split_ifs <;> rfl

@[simp] theorem guRampDown_cleared (P : LockProfile) (T : GUTuning) (now : Int) (currentThroughput : ℚ) (d : RampDecision)
    (s : MonitorState) :
    (guRampDown P T now currentThroughput d s).1.cleared = s.cleared := by
  unfold guRampDown; split_ifs <;> rfl

@[simp] theorem applyAdjustment_avgPartSpeedHistory (debounce now : Int) (partSpeed : ℚ) (d : RampDecision)
    (s : MonitorState) :
    (applyAdjustment debounce now partSpeed d s).1.avgPartSpeedHistory = s.avgPartSpeedHistory := by
  unfold applyAdjustment; split_ifs <;> rfl

@[simp] theorem applyAdjustment_lastScaleDown (debounce now : Int) (partSpeed : ℚ) (d : RampDecision)
    (s : MonitorState) :
    (applyAdjustment debounce now partSpeed d s).1.lastScaleDown = s.lastScaleDown := by
  unfold applyAdjustment; split_ifs <;> rfl

@[simp] theorem applyAdjustment_lowSpeedSamples (debounce now : Int) (partSpeed : ℚ) (d : RampDecision)
    (s : MonitorState) :
    (applyAdjustment debounce now partSpeed d s).1.lowSpeedSamples = s.lowSpeedSamples := by
  unfold applyAdjustment; split_ifs <;> rfl

@[simp] theorem applyAdjustment_peakPerformanceDetected (debounce now : Int) (partSpeed : ℚ) (d : RampDecision)
    (s : MonitorState) :
    (applyAdjustment debounce now partSpeed d s).1.peakPerformanceDetected = s.peakPerformanceDetected := by
  unfold applyAdjustment; split_ifs <;> rfl

@[simp] theorem applyAdjustment_maxParallel (debounce now : Int) (partSpeed : ℚ) (d : RampDecision)
    (s : MonitorState) :
    (applyAdjustment debounce now partSpeed d s).1.maxParallel = s.maxParallel := by
  unfold applyAdjustment; split_ifs <;> rfl

@[simp] theorem applyAdjustment_optimalParallel (debounce now : Int) (partSpeed : ℚ) (d : RampDecision)
    (s : MonitorState) :
    (applyAdjustment debounce now partSpeed d s).1.optimalParallel = s.optimalParallel := by
  unfold applyAdjustment; split_ifs <;> rfl

@[simp] theorem applyAdjustment_peakTimestamp (debounce now : Int) (partSpeed : ℚ) (d : RampDecision)
    (s : MonitorState) :
    (applyAdjustment debounce now partSpeed d s).1.peakTimestamp = s.peakTimestamp := by
  unfold applyAdjustment; split_ifs <;> rfl

@[simp] theorem applyAdjustment_initialPeakThroughput (debounce now : Int) (partSpeed : ℚ) (d : RampDecision)
    (s : MonitorState) :
    (applyAdjustment debounce now partSpeed d s).1.initialPeakThroughput = s.initialPeakThroughput := by
  unfold applyAdjustment; split_ifs <;> rfl

@[simp] theorem applyAdjustment_lastScaleTime (debounce now : Int) (partSpeed : ℚ) (d : RampDecision)
    (s : MonitorState) :
    (applyAdjustment debounce now partSpeed d s).1.lastScaleTime = s.lastScaleTime := by
  unfold applyAdjustment; split_ifs <;> rfl

@[simp] theorem applyAdjustment_peakThroughputHistory (debounce now : Int) (partSpeed : ℚ) (d : RampDecision)
    (s : MonitorState) :
    (applyAdjustment debounce now partSpeed d s).1.peakThroughputHistory = s.peakThroughputHistory := by
  unfold applyAdjustment; split_ifs <;> rfl

@[simp] theorem applyAdjustment_throughputSmoothingHistory (debounce now : Int) (partSpeed : ℚ) (d : RampDecision)
    (s : MonitorState) :
    (applyAdjustment debounce now partSpeed d s).1.throughputSmoothingHistory = s.throughputSmoothingHistory := by
  unfold applyAdjustment; split_ifs <;> rfl

@[simp] theorem applyAdjustment_peakResetState (debounce now : Int) (partSpeed : ℚ) (d : RampDecision)
    (s : MonitorState) :
    (applyAdjustment debounce now partSpeed d s).1.peakResetState = s.peakResetState := by
  unfold applyAdjustment; split_ifs <;> rfl

@[simp] theorem applyAdjustment_strongPerformanceSamples (debounce now : Int) (partSpeed : ℚ) (d : RampDecision)
    (s : MonitorState) :
    (applyAdjustment debounce now partSpeed d s).1.strongPerformanceSamples = s.strongPerformanceSamples := by
  unfold applyAdjustment; split_ifs <;> rfl

@[simp] theorem applyAdjustment_lastProgress (debounce now : Int) (partSpeed : ℚ) (d : RampDecision)
    (s : MonitorState) :
    (applyAdjustment debounce now partSpeed d s).1.lastProgress = s.lastProgress := by
  unfold applyAdjustment; split_ifs <;> rfl

@[simp] theorem applyAdjustment_emergencyResetCounter (debounce now : Int) (partSpeed : ℚ) (d : RampDecision)
    (s : MonitorState) :
    (applyAdjustment debounce now partSpeed d s).1.emergencyResetCounter = s.emergencyResetCounter := by
  unfold applyAdjustment; split_ifs <;> rfl

@[simp] theorem applyAdjustment_lockedPerformance (debounce now : Int) (partSpeed : ℚ) (d : RampDecision)
    (s : MonitorState) :
    (applyAdjustment debounce now partSpeed d s).1.lockedPerformance = s.lockedPerformance := by
  unfold applyAdjustment; split_ifs <;> rfl

@[simp] theorem applyAdjustment_partSize (debounce now : Int) (partSpeed : ℚ) (d : RampDecision)
    (s : MonitorState) :
    (applyAdjustment debounce now partSpeed d s).1.partSize = s.partSize := by
  unfold applyAdjustment; split_ifs <;> rfl

@[simp] theorem applyAdjustment_maxParallelCap (debounce now : Int) (partSpeed : ℚ) (d : RampDecision)
    (s : MonitorState) :
    (applyAdjustment debounce now partSpeed d s).1.maxParallelCap = s.maxParallelCap := by
  unfold applyAdjustment; split_ifs <;> rfl

@[simp] theorem applyAdjustment_cleared (debounce now : Int) (partSpeed : ℚ) (d : RampDecision)
    (s : MonitorState) :
    (applyAdjustment debounce now partSpeed d s).1.cleared = s.cleared := by
  unfold applyAdjustment; split_ifs <;> rfl

@[simp] theorem cableApplyAdjustment_avgPartSpeedHistory (now : Int) (partSpeed : ℚ) (d : RampDecision)
    (s : MonitorState) :
    (cableApplyAdjustment now partSpeed d s).1.avgPartSpeedHistory = s.avgPartSpeedHistory := by
  unfold cableApplyAdjustment; split_ifs <;> rfl

@[simp] theorem cableApplyAdjustment_lastScaleDown (now : Int) (partSpeed : ℚ) (d : RampDecision)
    (s : MonitorState) :
    (cableApplyAdjustment now partSpeed d s).1.lastScaleDown = s.lastScaleDown := by
  unfold cableApplyAdjustment; split_ifs <;> rfl

@[simp] theorem cableApplyAdjustment_lowSpeedSamples (now : Int) (partSpeed : ℚ) (d : RampDecision)
    (s : MonitorState) :
    (cableApplyAdjustment now partSpeed d s).1.lowSpeedSamples = s.lowSpeedSamples := by
  unfold cableApplyAdjustment; split_ifs <;> rfl

@[simp] theorem cableApplyAdjustment_peakPerformanceDetected (now : Int) (partSpeed : ℚ) (d : RampDecision)
    (s : MonitorState) :
    (cableApplyAdjustment now partSpeed d s).1.peakPerformanceDetected = s.peakPerformanceDetected := by
  unfold cableApplyAdjustment; split_ifs <;> rfl

@[simp] theorem cableApplyAdjustment_optimalParallel (now : Int) (partSpeed : ℚ) (d : RampDecision)
    (s : MonitorState) :
    (cableApplyAdjustment now partSpeed d s).1.optimalParallel = s.optimalParallel := by
  unfold cableApplyAdjustment; split_ifs <;> rfl

@[simp] theorem cableApplyAdjustment_peakTimestamp (now : Int) (partSpeed : ℚ) (d : RampDecision)
    (s : MonitorState) :
    (cableApplyAdjustment now partSpeed d s).1.peakTimestamp = s.peakTimestamp := by
  unfold cableApplyAdjustment; split_ifs <;> rfl

@[simp] theorem cableApplyAdjustment_initialPeakThroughput (now : Int) (partSpeed : ℚ) (d : RampDecision)
    (s : MonitorState) :
    (cableApplyAdjustment now partSpeed d s).1.initialPeakThroughput = s.initialPeakThroughput := by
  unfold cableApplyAdjustment; split_ifs <;> rfl

@[simp] theorem cableApplyAdjustment_lastScaleTime (now : Int) (partSpeed : ℚ) (d : RampDecision)
    (s : MonitorState) :
    (cableApplyAdjustment now partSpeed d s).1.lastScaleTime = s.lastScaleTime := by
  unfold cableApplyAdjustment; split_ifs <;> rfl

@[simp] theorem cableApplyAdjustment_peakThroughputHistory (now : Int) (partSpeed : ℚ) (d : RampDecision)
    (s : MonitorState) :
    (cableApplyAdjustment now partSpeed d s).1.peakThroughputHistory = s.peakThroughputHistory := by
  unfold cableApplyAdjustment; split_ifs <;> rfl

@[simp] theorem cableApplyAdjustment_throughputSmoothingHistory (now : Int) (partSpeed : ℚ) (d : RampDecision)
    (s : MonitorState) :
    (cableApplyAdjustment now partSpeed d s).1.throughputSmoothingHistory = s.throughputSmoothingHistory := by
  unfold cableApplyAdjustment; split_ifs <;> rfl

@[simp] theorem cableApplyAdjustment_peakResetState (now : Int) (partSpeed : ℚ) (d : RampDecision)
    (s : MonitorState) :
    (cableApplyAdjustment now partSpeed d s).1.peakResetState = s.peakResetState := by
  unfold cableApplyAdjustment; split_ifs <;> rfl

@[simp] theorem cableApplyAdjustment_strongPerformanceSamples (now : Int) (partSpeed : ℚ) (d : RampDecision)
    (s : MonitorState) :
    (cableApplyAdjustment now partSpeed d s).1.strongPerformanceSamples = s.strongPerformanceSamples := by
  unfold cableApplyAdjustment; split_ifs <;> rfl

@[simp] theorem cableApplyAdjustment_lastProgress (now : Int) (partSpeed : ℚ) (d : RampDecision)
    (s : MonitorState) :
    (cableApplyAdjustment now partSpeed d s).1.lastProgress = s.lastProgress := by
  unfold cableApplyAdjustment; split_ifs <;> rfl

@[simp] theorem cableApplyAdjustment_emergencyResetCounter (now : Int) (partSpeed : ℚ) (d : RampDecision)
    (s : MonitorState) :
    (cableApplyAdjustment now partSpeed d s).1.emergencyResetCounter = s.emergencyResetCounter := by
  unfold cableApplyAdjustment; split_ifs <;> rfl

@[simp] theorem cableApplyAdjustment_lockedPerformance (now : Int) (partSpeed : ℚ) (d : RampDecision)
    (s : MonitorState) :
    (cableApplyAdjustment now partSpeed d s).1.lockedPerformance = s.lockedPerformance := by
  unfold cableApplyAdjustment; split_ifs <;> rfl

@[simp] theorem cableApplyAdjustment_contextMaxParallel (now : Int) (partSpeed : ℚ) (d : RampDecision)
    (s : MonitorState) :
    (cableApplyAdjustment now partSpeed d s).1.contextMaxParallel = s.contextMaxParallel := by
  unfold cableApplyAdjustment; split_ifs <;> rfl

@[simp] theorem cableApplyAdjustment_partSize (now : Int) (partSpeed : ℚ) (d : RampDecision)
    (s : MonitorState) :
    (cableApplyAdjustment now partSpeed d s).1.partSize = s.partSize := by
  unfold cableApplyAdjustment; split_ifs <;> rfl

@[simp] theorem cableApplyAdjustment_maxParallelCap (now : Int) (partSpeed : ℚ) (d : RampDecision)
    (s : MonitorState) :
    (cableApplyAdjustment now partSpeed d s).1.maxParallelCap = s.maxParallelCap := by
  unfold cableApplyAdjustment; split_ifs <;> rfl

@[simp] theorem cableApplyAdjustment_cleared (now : Int) (partSpeed : ℚ) (d : RampDecision)
    (s : MonitorState) :
    (cableApplyAdjustment now partSpeed d s).1.cleared = s.cleared := by
  unfold cableApplyAdjustment; split_ifs <;> rfl

@[simp] theorem noProgressWatchdog_avgPartSpeedHistory (P : StallProfile) (stallStep : ℚ) (now : Int)
    (s : MonitorState) :
    (noProgressWatchdog P stallStep now s).1.avgPartSpeedHistory = s.avgPartSpeedHistory := by
  unfold noProgressWatchdog; split_ifs <;> rfl

@[simp] theorem noProgressWatchdog_parallelAdjustmentHistory (P : StallProfile) (stallStep : ℚ) (now : Int)
    (s : MonitorState) :
    (noProgressWatchdog P stallStep now s).1.parallelAdjustmentHistory = s.parallelAdjustmentHistory := by
  unfold noProgressWatchdog; split_ifs <;> rfl

@[simp] theorem noProgressWatchdog_lastParallelAdjustment (P : StallProfile) (stallStep : ℚ) (now : Int)
    (s : MonitorState) :
    (noProgressWatchdog P stallStep now s).1.lastParallelAdjustment = s.lastParallelAdjustment := by
  unfold noProgressWatchdog; split_ifs <;> rfl

@[simp] theorem noProgressWatchdog_lastScaleDown (P : StallProfile) (stallStep : ℚ) (now : Int)
    (s : MonitorState) :
    (noProgressWatchdog P stallStep now s).1.lastScaleDown = s.lastScaleDown := by
  unfold noProgressWatchdog; split_ifs <;> rfl

@[simp] theorem noProgressWatchdog_lowSpeedSamples (P : StallProfile) (stallStep : ℚ) (now : Int)
    (s : MonitorState) :
    (noProgressWatchdog P stallStep now s).1.lowSpeedSamples = s.lowSpeedSamples := by
  unfold noProgressWatchdog; split_ifs <;> rfl

@[simp] theorem noProgressWatchdog_peakPerformanceDetected (P : StallProfile) (stallStep : ℚ) (now : Int)
    (s : MonitorState) :
    (noProgressWatchdog P stallStep now s).1.peakPerformanceDetected = s.peakPerformanceDetected := by
  unfold noProgressWatchdog; split_ifs <;> rfl

@[simp] theorem noProgressWatchdog_maxParallel (P : StallProfile) (stallStep : ℚ) (now : Int)
    (s : MonitorState) :
    (noProgressWatchdog P stallStep now s).1.maxParallel = s.maxParallel := by
  unfold noProgressWatchdog; split_ifs <;> rfl

@[simp] theorem noProgressWatchdog_optimalParallel (P : StallProfile) (stallStep : ℚ) (now : Int)
    (s : MonitorState) :
    (noProgressWatchdog P stallStep now s).1.optimalParallel = s.optimalParallel := by
  unfold noProgressWatchdog; split_ifs <;> rfl

@[simp] theorem noProgressWatchdog_peakTimestamp (P : StallProfile) (stallStep : ℚ) (now : Int)
    (s : MonitorState) :
    (noProgressWatchdog P stallStep now s).1.peakTimestamp = s.peakTimestamp := by
  unfold noProgressWatchdog; split_ifs <;> rfl

@[simp] theorem noProgressWatchdog_initialPeakThroughput (P : StallProfile) (stallStep : ℚ) (now : Int)
    (s : MonitorState) :
    (noProgressWatchdog P stallStep now s).1.initialPeakThroughput = s.initialPeakThroughput := by
  unfold noProgressWatchdog; split_ifs <;> rfl

@[simp] theorem noProgressWatchdog_lastScaleTime (P : StallProfile) (stallStep : ℚ) (now : Int)
    (s : MonitorState) :
    (noProgressWatchdog P stallStep now s).1.lastScaleTime = s.lastScaleTime := by
  unfold noProgressWatchdog; split_ifs <;> rfl

@[simp] theorem noProgressWatchdog_peakThroughputHistory (P : StallProfile) (stallStep : ℚ) (now : Int)
    (s : MonitorState) :
    (noProgressWatchdog P stallStep now s).1.peakThroughputHistory = s.peakThroughputHistory := by
  unfold noProgressWatchdog; split_ifs <;> rfl

@[simp] theorem noProgressWatchdog_throughputSmoothingHistory (P : StallProfile) (stallStep : ℚ) (now : Int)
    (s : MonitorState) :
    (noProgressWatchdog P stallStep now s).1.throughputSmoothingHistory = s.throughputSmoothingHistory := by
  unfold noProgressWatchdog; split_ifs <;> rfl

@[simp] theorem noProgressWatchdog_peakResetState (P : StallProfile) (stallStep : ℚ) (now : Int)
    (s : MonitorState) :
    (noProgressWatchdog P stallStep now s).1.peakResetState = s.peakResetState := by
  unfold noProgressWatchdog; split_ifs <;> rfl

@[simp] theorem noProgressWatchdog_strongPerformanceSamples (P : StallProfile) (stallStep : ℚ) (now : Int)
    (s : MonitorState) :
    (noProgressWatchdog P stallStep now s).1.strongPerformanceSamples = s.strongPerformanceSamples := by
  unfold noProgressWatchdog; split_ifs <;> rfl

@[simp] theorem noProgressWatchdog_emergencyResetCounter (P : StallProfile) (stallStep : ℚ) (now : Int)
    (s : MonitorState) :
    (noProgressWatchdog P stallStep now s).1.emergencyResetCounter = s.emergencyResetCounter := by
  unfold noProgressWatchdog; split_ifs <;> rfl

@[simp] theorem noProgressWatchdog_lockedPerformance (P : StallProfile) (stallStep : ℚ) (now : Int)
    (s : MonitorState) :
    (noProgressWatchdog P stallStep now s).1.lockedPerformance = s.lockedPerformance := by
  unfold noProgressWatchdog; split_ifs <;> rfl

@[simp] theorem noProgressWatchdog_partSize (P : StallProfile) (stallStep : ℚ) (now : Int)
    (s : MonitorState) :
    (noProgressWatchdog P stallStep now s).1.partSize = s.partSize := by
  unfold noProgressWatchdog; split_ifs <;> rfl

@[simp] theorem noProgressWatchdog_maxParallelCap (P : StallProfile) (stallStep : ℚ) (now : Int)
    (s : MonitorState) :
    (noProgressWatchdog P stallStep now s).1.maxParallelCap = s.maxParallelCap := by
  unfold noProgressWatchdog; split_ifs <;> rfl

@[simp] theorem noProgressWatchdog_cleared (P : StallProfile) (stallStep : ℚ) (now : Int)
    (s : MonitorState) :
    (noProgressWatchdog P stallStep now s).1.cleared = s.cleared := by
  unfold noProgressWatchdog; split_ifs <;> rfl

@[simp] theorem guWatchdog_avgPartSpeedHistory (P : LockProfile) (stallStep : ℚ) (now : Int)
    (s : MonitorState) :
    (guWatchdog P stallStep now s).1.avgPartSpeedHistory = s.avgPartSpeedHistory := by
  unfold guWatchdog; split_ifs <;> rfl

@[simp] theorem guWatchdog_parallelAdjustmentHistory (P : LockProfile) (stallStep : ℚ) (now : Int)
    (s : MonitorState) :
    (guWatchdog P stallStep now s).1.parallelAdjustmentHistory = s.parallelAdjustmentHistory := by
  unfold guWatchdog; split_ifs <;> rfl

@[simp] theorem guWatchdog_lastParallelAdjustment (P : LockProfile) (stallStep : ℚ) (now : Int)
    (s : MonitorState) :
    (guWatchdog P stallStep now s).1.lastParallelAdjustment = s.lastParallelAdjustment := by
  unfold guWatchdog; split_ifs <;> rfl

@[simp] theorem guWatchdog_lastScaleDown (P : LockProfile) (stallStep : ℚ) (now : Int)
    (s : MonitorState) :
    (guWatchdog P stallStep now s).1.lastScaleDown = s.lastScaleDown := by
  unfold guWatchdog; split_ifs <;> rfl

@[simp] theorem guWatchdog_lowSpeedSamples (P : LockProfile) (stallStep : ℚ) (now : Int)
    (s : MonitorState) :
    (guWatchdog P stallStep now s).1.lowSpeedSamples = s.lowSpeedSamples := by
  unfold guWatchdog; split_ifs <;> rfl

@[simp] theorem guWatchdog_peakPerformanceDetected (P : LockProfile) (stallStep : ℚ) (now : Int)
    (s : MonitorState) :
    (guWatchdog P stallStep now s).1.peakPerformanceDetected = s.peakPerformanceDetected := by
  unfold guWatchdog; split_ifs <;> rfl

@[simp] theorem guWatchdog_maxParallel (P : LockProfile) (stallStep : ℚ) (now : Int)
    (s : MonitorState) :
    (guWatchdog P stallStep now s).1.maxParallel = s.maxParallel := by
  unfold guWatchdog; split_ifs <;> rfl

@[simp] theorem guWatchdog_optimalParallel (P : LockProfile) (stallStep : ℚ) (now : Int)
    (s : MonitorState) :
    (guWatchdog P stallStep now s).1.optimalParallel = s.optimalParallel := by
  unfold guWatchdog; split_ifs <;> rfl

@[simp] theorem guWatchdog_peakTimestamp (P : LockProfile) (stallStep : ℚ) (now : Int)
    (s : MonitorState) :
    (guWatchdog P stallStep now s).1.peakTimestamp = s.peakTimestamp := by
  unfold guWatchdog; split_ifs <;> rfl

@[simp] theorem guWatchdog_initialPeakThroughput (P : LockProfile) (stallStep : ℚ) (now : Int)
    (s : MonitorState) :
    (guWatchdog P stallStep now s).1.initialPeakThroughput = s.initialPeakThroughput := by
  unfold guWatchdog; split_ifs <;> rfl

@[simp] theorem guWatchdog_lastScaleTime (P : LockProfile) (stallStep : ℚ) (now : Int)
    (s : MonitorState) :
    (guWatchdog P stallStep now s).1.lastScaleTime = s.lastScaleTime := by
  unfold guWatchdog; split_ifs <;> rfl

@[simp] theorem guWatchdog_peakThroughputHistory (P : LockProfile) (stallStep : ℚ) (now : Int)
    (s : MonitorState) :
    (guWatchdog P stallStep now s).1.peakThroughputHistory = s.peakThroughputHistory := by
  unfold guWatchdog; split_ifs <;> rfl

@[simp] theorem guWatchdog_throughputSmoothingHistory (P : LockProfile) (stallStep : ℚ) (now : Int)
    (s : MonitorState) :
    (guWatchdog P stallStep now s).1.throughputSmoothingHistory = s.throughputSmoothingHistory := by
  unfold guWatchdog; split_ifs <;> rfl

@[simp] theorem guWatchdog_peakResetState (P : LockProfile) (stallStep : ℚ) (now : Int)
    (s : MonitorState) :
    (guWatchdog P stallStep now s).1.peakResetState = s.peakResetState := by
  unfold guWatchdog; split_ifs <;> rfl

@[simp] theorem guWatchdog_strongPerformanceSamples (P : LockProfile) (stallStep : ℚ) (now : Int)
    (s : MonitorState) :
    (guWatchdog P stallStep now s).1.strongPerformanceSamples = s.strongPerformanceSamples := by
  unfold guWatchdog; split_ifs <;> rfl

@[simp] theorem guWatchdog_emergencyResetCounter (P : LockProfile) (stallStep : ℚ) (now : Int)
    (s : MonitorState) :
    (guWatchdog P stallStep now s).1.emergencyResetCounter = s.emergencyResetCounter := by
  unfold guWatchdog; split_ifs <;> rfl

@[simp] theorem guWatchdog_lockedPerformance (P : LockProfile) (stallStep : ℚ) (now : Int)
    (s : MonitorState) :
    (guWatchdog P stallStep now s).1.lockedPerformance = s.lockedPerformance := by
  unfold guWatchdog; split_ifs <;> rfl

@[simp] theorem guWatchdog_partSize (P : LockProfile) (stallStep : ℚ) (now : Int)
    (s : MonitorState) :
    (guWatchdog P stallStep now s).1.partSize = s.partSize := by
  unfold guWatchdog; split_ifs <;> rfl

@[simp] theorem guWatchdog_maxParallelCap (P : LockProfile) (stallStep : ℚ) (now : Int)
    (s : MonitorState) :
    (guWatchdog P stallStep now s).1.maxParallelCap = s.maxParallelCap := by
  unfold guWatchdog; split_ifs <;> rfl

@[simp] theorem guWatchdog_cleared (P : LockProfile) (stallStep : ℚ) (now : Int)
    (s : MonitorState) :
    (guWatchdog P stallStep now s).1.cleared = s.cleared := by
  unfold guWatchdog; split_ifs <;> rfl

@[simp] theorem continuousProgress_avgPartSpeedHistory (i : TickInput) (count : Nat)
    (s : MonitorState) :
    (continuousProgress i count s).avgPartSpeedHistory = s.avgPartSpeedHistory := by
  unfold continuousProgress; split_ifs <;> rfl

@[simp] theorem continuousProgress_parallelAdjustmentHistory (i : TickInput) (count : Nat)
    (s : MonitorState) :
    (continuousProgress i count s).parallelAdjustmentHistory = s.parallelAdjustmentHistory := by
  unfold continuousProgress; split_ifs <;> rfl

@[simp] theorem continuousProgress_lastParallelAdjustment (i : TickInput) (count : Nat)
    (s : MonitorState) :
    (continuousProgress i count s).lastParallelAdjustment = s.lastParallelAdjustment := by
  unfold continuousProgress; split_ifs <;> rfl

@[simp] theorem continuousProgress_lastScaleDown (i : TickInput) (count : Nat)
    (s : MonitorState) :
    (continuousProgress i count s).lastScaleDown = s.lastScaleDown := by
  unfold continuousProgress; split_ifs <;> rfl

@[simp] theorem continuousProgress_lowSpeedSamples (i : TickInput) (count : Nat)
    (s : MonitorState) :
    (continuousProgress i count s).lowSpeedSamples = s.lowSpeedSamples := by
  unfold continuousProgress; split_ifs <;> rfl

@[simp] theorem continuousProgress_peakPerformanceDetected (i : TickInput) (count : Nat)
    (s : MonitorState) :
    (continuousProgress i count s).peakPerformanceDetected = s.peakPerformanceDetected := by
  unfold continuousProgress; split_ifs <;> rfl

@[simp] theorem continuousProgress_maxParallel (i : TickInput) (count : Nat)
    (s : MonitorState) :
    (continuousProgress i count s).maxParallel = s.maxParallel := by
  unfold continuousProgress; split_ifs <;> rfl

@[simp] theorem continuousProgress_optimalParallel (i : TickInput) (count : Nat)
    (s : MonitorState) :
    (continuousProgress i count s).optimalParallel = s.optimalParallel := by
  unfold continuousProgress; split_ifs <;> rfl

@[simp] theorem continuousProgress_peakTimestamp (i : TickInput) (count : Nat)
    (s : MonitorState) :
    (continuousProgress i count s).peakTimestamp = s.peakTimestamp := by
  unfold continuousProgress; split_ifs <;> rfl

@[simp] theorem continuousProgress_initialPeakThroughput (i : TickInput) (count : Nat)
    (s : MonitorState) :
    (continuousProgress i count s).initialPeakThroughput = s.initialPeakThroughput := by
  unfold continuousProgress; split_ifs <;> rfl

@[simp] theorem continuousProgress_lastScaleTime (i : TickInput) (count : Nat)
    (s : MonitorState) :
    (continuousProgress i count s).lastScaleTime = s.lastScaleTime := by
  unfold continuousProgress; split_ifs <;> rfl

@[simp] theorem continuousProgress_peakThroughputHistory (i : TickInput) (count : Nat)
    (s : MonitorState) :
    (continuousProgress i count s).peakThroughputHistory = s.peakThroughputHistory := by
  unfold continuousProgress; split_ifs <;> rfl

@[simp] theorem continuousProgress_throughputSmoothingHistory (i : TickInput) (count : Nat)
    (s : MonitorState) :
    (continuousProgress i count s).throughputSmoothingHistory = s.throughputSmoothingHistory := by
  unfold continuousProgress; split_ifs <;> rfl

@[simp] theorem continuousProgress_peakResetState (i : TickInput) (count : Nat)
    (s : MonitorState) :
    (continuousProgress i count s).peakResetState = s.peakResetState := by
  unfold continuousProgress; split_ifs <;> rfl

@[simp] theorem continuousProgress_strongPerformanceSamples (i : TickInput) (count : Nat)
    (s : MonitorState) :
    (continuousProgress i count s).strongPerformanceSamples = s.strongPerformanceSamples := by
  unfold continuousProgress; split_ifs <;> rfl

@[simp] theorem continuousProgress_emergencyResetCounter (i : TickInput) (count : Nat)
    (s : MonitorState) :
    (continuousProgress i count s).emergencyResetCounter = s.emergencyResetCounter := by
  unfold continuousProgress; split_ifs <;> rfl

@[simp] theorem continuousProgress_lockedPerformance (i : TickInput) (count : Nat)
    (s : MonitorState) :
    (continuousProgress i count s).lockedPerformance = s.lockedPerformance := by
  unfold continuousProgress; split_ifs <;> rfl

@[simp] theorem continuousProgress_contextMaxParallel (i : TickInput) (count : Nat)
    (s : MonitorState) :
    (continuousProgress i count s).contextMaxParallel = s.contextMaxParallel := by
  unfold continuousProgress; split_ifs <;> rfl

@[simp] theorem continuousProgress_partSize (i : TickInput) (count : Nat)
    (s : MonitorState) :
    (continuousProgress i count s).partSize = s.partSize := by
  unfold continuousProgress; split_ifs <;> rfl

@[simp] theorem continuousProgress_maxParallelCap (i : TickInput) (count : Nat)
    (s : MonitorState) :
    (continuousProgress i count s).maxParallelCap = s.maxParallelCap := by
  unfold continuousProgress; split_ifs <;> rfl

@[simp] theorem continuousProgress_cleared (i : TickInput) (count : Nat)
    (s : MonitorState) :
    (continuousProgress i count s).cleared = s.cleared := by
  unfold continuousProgress; split_ifs <;> rfl

@[simp] theorem emergencyReset_avgPartSpeedHistory (P : StallProfile) (now : Int) (currentThroughput : ℚ) (count : Nat)
    (s : MonitorState) :
    (emergencyReset P now currentThroughput count s).1.avgPartSpeedHistory = s.avgPartSpeedHistory := by
  unfold emergencyReset; split_ifs <;> rfl

@[simp] theorem emergencyReset_parallelAdjustmentHistory (P : StallProfile) (now : Int) (currentThroughput : ℚ) (count : Nat)
    (s : MonitorState) :
    (emergencyReset P now currentThroughput count s).1.parallelAdjustmentHistory = s.parallelAdjustmentHistory := by
  unfold emergencyReset; split_ifs <;> rfl

@[simp] theorem emergencyReset_lastParallelAdjustment (P : StallProfile) (now : Int) (currentThroughput : ℚ) (count : Nat)
    (s : MonitorState) :
    (emergencyReset P now currentThroughput count s).1.lastParallelAdjustment = s.lastParallelAdjustment := by
  unfold emergencyReset; split_ifs <;> rfl

@[simp] theorem emergencyReset_lastScaleDown (P : StallProfile) (now : Int) (currentThroughput : ℚ) (count : Nat)
    (s : MonitorState) :
    (emergencyReset P now currentThroughput count s).1.lastScaleDown = s.lastScaleDown := by
  unfold emergencyReset; split_ifs <;> rfl

@[simp] theorem emergencyReset_lowSpeedSamples (P : StallProfile) (now : Int) (currentThroughput : ℚ) (count : Nat)
    (s : MonitorState) :
    (emergencyReset P now currentThroughput count s).1.lowSpeedSamples = s.lowSpeedSamples := by
  unfold emergencyReset; split_ifs <;> rfl

@[simp] theorem emergencyReset_maxParallel (P : StallProfile) (now : Int) (currentThroughput : ℚ) (count : Nat)
    (s : MonitorState) :
    (emergencyReset P now currentThroughput count s).1.maxParallel = s.maxParallel := by
  unfold emergencyReset; split_ifs <;> rfl

@[simp] theorem emergencyReset_optimalParallel (P : StallProfile) (now : Int) (currentThroughput : ℚ) (count : Nat)
    (s : MonitorState) :
    (emergencyReset P now currentThroughput count s).1.optimalParallel = s.optimalParallel := by
  unfold emergencyReset; split_ifs <;> rfl

@[simp] theorem emergencyReset_peakTimestamp (P : StallProfile) (now : Int) (currentThroughput : ℚ) (count : Nat)
    (s : MonitorState) :
    (emergencyReset P now currentThroughput count s).1.peakTimestamp = s.peakTimestamp := by
  unfold emergencyReset; split_ifs <;> rfl

@[simp] theorem emergencyReset_initialPeakThroughput (P : StallProfile) (now : Int) (currentThroughput : ℚ) (count : Nat)
    (s : MonitorState) :
    (emergencyReset P now currentThroughput count s).1.initialPeakThroughput = s.initialPeakThroughput := by
  unfold emergencyReset; split_ifs <;> rfl

@[simp] theorem emergencyReset_lastScaleTime (P : StallProfile) (now : Int) (currentThroughput : ℚ) (count : Nat)
    (s : MonitorState) :
    (emergencyReset P now currentThroughput count s).1.lastScaleTime = s.lastScaleTime := by
  unfold emergencyReset; split_ifs <;> rfl

@[simp] theorem emergencyReset_peakThroughputHistory (P : StallProfile) (now : Int) (currentThroughput : ℚ) (count : Nat)
    (s : MonitorState) :
    (emergencyReset P now currentThroughput count s).1.peakThroughputHistory = s.peakThroughputHistory := by
  unfold emergencyReset; split_ifs <;> rfl

@[simp] theorem emergencyReset_throughputSmoothingHistory (P : StallProfile) (now : Int) (currentThroughput : ℚ) (count : Nat)
    (s : MonitorState) :
    (emergencyReset P now currentThroughput count s).1.throughputSmoothingHistory = s.throughputSmoothingHistory := by
  unfold emergencyReset; split_ifs <;> rfl

@[simp] theorem emergencyReset_partSize (P : StallProfile) (now : Int) (currentThroughput : ℚ) (count : Nat)
    (s : MonitorState) :
    (emergencyReset P now currentThroughput count s).1.partSize = s.partSize := by
  unfold emergencyReset; split_ifs <;> rfl

@[simp] theorem emergencyReset_maxParallelCap (P : StallProfile) (now : Int) (currentThroughput : ℚ) (count : Nat)
    (s : MonitorState) :
    (emergencyReset P now currentThroughput count s).1.maxParallelCap = s.maxParallelCap := by
  unfold emergencyReset; split_ifs <;> rfl

@[simp] theorem emergencyReset_cleared (P : StallProfile) (now : Int) (currentThroughput : ℚ) (count : Nat)
    (s : MonitorState) :
    (emergencyReset P now currentThroughput count s).1.cleared = s.cleared := by
  unfold emergencyReset; split_ifs <;> rfl

@[simp] theorem throttledFallback_avgPartSpeedHistory (R : FallbackRule) (i : TickInput)
    (s : MonitorState) :
    (throttledFallback R i s).1.avgPartSpeedHistory = s.avgPartSpeedHistory := by
  unfold throttledFallback; split_ifs <;> rfl

@[simp] theorem throttledFallback_parallelAdjustmentHistory (R : FallbackRule) (i : TickInput)
    (s : MonitorState) :
    (throttledFallback R i s).1.parallelAdjustmentHistory = s.parallelAdjustmentHistory := by
  unfold throttledFallback; split_ifs <;> rfl

@[simp] theorem throttledFallback_lastParallelAdjustment (R : FallbackRule) (i : TickInput)
    (s : MonitorState) :
    (throttledFallback R i s).1.lastParallelAdjustment = s.lastParallelAdjustment := by
  unfold throttledFallback; split_ifs <;> rfl

@[simp] theorem throttledFallback_lastScaleDown (R : FallbackRule) (i : TickInput)
    (s : MonitorState) :
    (throttledFallback R i s).1.lastScaleDown = s.lastScaleDown := by
  unfold throttledFallback; split_ifs <;> rfl

@[simp] theorem throttledFallback_lowSpeedSamples (R : FallbackRule) (i : TickInput)
    (s : MonitorState) :
    (throttledFallback R i s).1.lowSpeedSamples = s.lowSpeedSamples := by
  unfold throttledFallback; split_ifs <;> rfl

@[simp] theorem throttledFallback_peakPerformanceDetected (R : FallbackRule) (i : TickInput)
    (s : MonitorState) :
    (throttledFallback R i s).1.peakPerformanceDetected = s.peakPerformanceDetected := by
  unfold throttledFallback; split_ifs <;> rfl

@[simp] theorem throttledFallback_maxParallel (R : FallbackRule) (i : TickInput)
    (s : MonitorState) :
    (throttledFallback R i s).1.maxParallel = s.maxParallel := by
  unfold throttledFallback; split_ifs <;> rfl

@[simp] theorem throttledFallback_optimalParallel (R : FallbackRule) (i : TickInput)
    (s : MonitorState) :
    (throttledFallback R i s).1.optimalParallel = s.optimalParallel := by
  unfold throttledFallback; split_ifs <;> rfl

@[simp] theorem throttledFallback_peakTimestamp (R : FallbackRule) (i : TickInput)
    (s : MonitorState) :
    (throttledFallback R i s).1.peakTimestamp = s.peakTimestamp := by
  unfold throttledFallback; split_ifs <;> rfl

@[simp] theorem throttledFallback_initialPeakThroughput (R : FallbackRule) (i : TickInput)
    (s : MonitorState) :
    (throttledFallback R i s).1.initialPeakThroughput = s.initialPeakThroughput := by
  unfold throttledFallback; split_ifs <;> rfl

@[simp] theorem throttledFallback_lastScaleTime (R : FallbackRule) (i : TickInput)
    (s : MonitorState) :
    (throttledFallback R i s).1.lastScaleTime = s.lastScaleTime := by
  unfold throttledFallback; split_ifs <;> rfl

@[simp] theorem throttledFallback_peakThroughputHistory (R : FallbackRule) (i : TickInput)
    (s : MonitorState) :
    (throttledFallback R i s).1.peakThroughputHistory = s.peakThroughputHistory := by
  unfold throttledFallback; split_ifs <;> rfl

@[simp] theorem throttledFallback_throughputSmoothingHistory (R : FallbackRule) (i : TickInput)
    (s : MonitorState) :
    (throttledFallback R i s).1.throughputSmoothingHistory = s.throughputSmoothingHistory := by
  unfold throttledFallback; split_ifs <;> rfl

@[simp] theorem throttledFallback_peakResetState (R : FallbackRule) (i : TickInput)
    (s : MonitorState) :
    (throttledFallback R i s).1.peakResetState = s.peakResetState := by
  unfold throttledFallback; split_ifs <;> rfl

@[simp] theorem throttledFallback_strongPerformanceSamples (R : FallbackRule) (i : TickInput)
    (s : MonitorState) :
    (throttledFallback R i s).1.strongPerformanceSamples = s.strongPerformanceSamples := by
  unfold throttledFallback; split_ifs <;> rfl

@[simp] theorem throttledFallback_lastProgress (R : FallbackRule) (i : TickInput)
    (s : MonitorState) :
    (throttledFallback R i s).1.lastProgress = s.lastProgress := by
  unfold throttledFallback; split_ifs <;> rfl

@[simp] theorem throttledFallback_emergencyResetCounter (R : FallbackRule) (i : TickInput)
    (s : MonitorState) :
    (throttledFallback R i s).1.emergencyResetCounter = s.emergencyResetCounter := by
  unfold throttledFallback; split_ifs <;> rfl

@[simp] theorem throttledFallback_lockedPerformance (R : FallbackRule) (i : TickInput)
    (s : MonitorState) :
    (throttledFallback R i s).1.lockedPerformance = s.lockedPerformance := by
  unfold throttledFallback; split_ifs <;> rfl

@[simp] theorem throttledFallback_maxParallelCap (R : FallbackRule) (i : TickInput)
    (s : MonitorState) :
    (throttledFallback R i s).1.maxParallelCap = s.maxParallelCap := by
  unfold throttledFallback; split_ifs <;> rfl

@[simp] theorem throttledFallback_cleared (R : FallbackRule) (i : TickInput)
    (s : MonitorState) :
    (throttledFallback R i s).1.cleared = s.cleared := by
  unfold throttledFallback; split_ifs <;> rfl

@[simp] theorem cableFallback_avgPartSpeedHistory (i : TickInput)
    (s : MonitorState) :
    (cableFallback i s).1.avgPartSpeedHistory = s.avgPartSpeedHistory := by
  unfold cableFallback; split_ifs <;> rfl

@[simp] theorem cableFallback_parallelAdjustmentHistory (i : TickInput)
    (s : MonitorState) :
    (cableFallback i s).1.parallelAdjustmentHistory = s.parallelAdjustmentHistory := by
  unfold cableFallback; split_ifs <;> rfl

@[simp] theorem cableFallback_lastParallelAdjustment (i : TickInput)
    (s : MonitorState) :
    (cableFallback i s).1.lastParallelAdjustment = s.lastParallelAdjustment := by
  unfold cableFallback; split_ifs <;> rfl

@[simp] theorem cableFallback_lastScaleDown (i : TickInput)
    (s : MonitorState) :
    (cableFallback i s).1.lastScaleDown = s.lastScaleDown := by
  unfold cableFallback; split_ifs <;> rfl

@[simp] theorem cableFallback_lowSpeedSamples (i : TickInput)
    (s : MonitorState) :
    (cableFallback i s).1.lowSpeedSamples = s.lowSpeedSamples := by
  unfold cableFallback; split_ifs <;> rfl

@[simp] theorem cableFallback_peakPerformanceDetected (i : TickInput)
    (s : MonitorState) :
    (cableFallback i s).1.peakPerformanceDetected = s.peakPerformanceDetected := by
  unfold cableFallback; split_ifs <;> rfl

@[simp] theorem cableFallback_optimalParallel (i : TickInput)
    (s : MonitorState) :
    (cableFallback i s).1.optimalParallel = s.optimalParallel := by
  unfold cableFallback; split_ifs <;> rfl

@[simp] theorem cableFallback_peakTimestamp (i : TickInput)
    (s : MonitorState) :
    (cableFallback i s).1.peakTimestamp = s.peakTimestamp := by
  unfold cableFallback; split_ifs <;> rfl

@[simp] theorem cableFallback_initialPeakThroughput (i : TickInput)
    (s : MonitorState) :
    (cableFallback i s).1.initialPeakThroughput = s.initialPeakThroughput := by
  unfold cableFallback; split_ifs <;> rfl

@[simp] theorem cableFallback_lastScaleTime (i : TickInput)
    (s : MonitorState) :
    (cableFallback i s).1.lastScaleTime = s.lastScaleTime := by
  unfold cableFallback; split_ifs <;> rfl

@[simp] theorem cableFallback_peakThroughputHistory (i : TickInput)
    (s : MonitorState) :
    (cableFallback i s).1.peakThroughputHistory = s.peakThroughputHistory := by
  unfold cableFallback; split_ifs <;> rfl

@[simp] theorem cableFallback_throughputSmoothingHistory (i : TickInput)
    (s : MonitorState) :
    (cableFallback i s).1.throughputSmoothingHistory = s.throughputSmoothingHistory := by
  unfold cableFallback; split_ifs <;> rfl

@[simp] theorem cableFallback_peakResetState (i : TickInput)
    (s : MonitorState) :
    (cableFallback i s).1.peakResetState = s.peakResetState := by
  unfold cableFallback; split_ifs <;> rfl

@[simp] theorem cableFallback_strongPerformanceSamples (i : TickInput)
    (s : MonitorState) :
    (cableFallback i s).1.strongPerformanceSamples = s.strongPerformanceSamples := by
  unfold cableFallback; split_ifs <;> rfl

@[simp] theorem cableFallback_lastProgress (i : TickInput)
    (s : MonitorState) :
    (cableFallback i s).1.lastProgress = s.lastProgress := by
  unfold cableFallback; split_ifs <;> rfl

@[simp] theorem cableFallback_emergencyResetCounter (i : TickInput)
    (s : MonitorState) :
    (cableFallback i s).1.emergencyResetCounter = s.emergencyResetCounter := by
  unfold cableFallback; split_ifs <;> rfl

@[simp] theorem cableFallback_lockedPerformance (i : TickInput)
    (s : MonitorState) :
    (cableFallback i s).1.lockedPerformance = s.lockedPerformance := by
  unfold cableFallback; split_ifs <;> rfl

@[simp] theorem cableFallback_contextMaxParallel (i : TickInput)
    (s : MonitorState) :
    (cableFallback i s).1.contextMaxParallel = s.contextMaxParallel := by
  unfold cableFallback; split_ifs <;> rfl

@[simp] theorem cableFallback_maxParallelCap (i : TickInput)
    (s : MonitorState) :
    (cableFallback i s).1.maxParallelCap = s.maxParallelCap := by
  unfold cableFallback; split_ifs <;> rfl

@[simp] theorem cableFallback_cleared (i : TickInput)
    (s : MonitorState) :
    (cableFallback i s).1.cleared = s.cleared := by
  unfold cableFallback; split_ifs <;> rfl

theorem partCount_bounds (fileSize partSize : Int) (hp : 0 < partSize) :
    (partCount fileSize partSize - 1) * partSize < fileSize ∧
      fileSize ≤ partCount fileSize partSize * partSize := by
  unfold partCount
  have hq : (0 : ℚ) < partSize := by exact_mod_cast hp
  constructor
  · have h := Int.ceil_lt_add_one ((fileSize : ℚ) / partSize)
    have : ((⌈(fileSize : ℚ) / partSize⌉ - 1 : Int) : ℚ) * partSize < fileSize := by
      push_cast
      have h2 : ((⌈(fileSize : ℚ) / partSize⌉ : ℚ) - 1) < fileSize / partSize := by linarith
      calc ((⌈(fileSize : ℚ) / partSize⌉ : ℚ) - 1) * partSize < fileSize / partSize * partSize :=
            mul_lt_mul_of_pos_right h2 hq
        _ = fileSize := by field_simp
    exact_mod_cast this
  · have h := Int.le_ceil ((fileSize : ℚ) / partSize)
    have : (fileSize : ℚ) ≤ (⌈(fileSize : ℚ) / partSize⌉ : ℚ) * partSize := by
      calc (fileSize : ℚ) = fileSize / partSize * partSize := by field_simp
        _ ≤ _ := mul_le_mul_of_nonneg_right h hq.le
    exact_mod_cast this

theorem partCount_pos (fileSize partSize : Int) (hf : 0 < fileSize) (hp : 0 < partSize) :
    1 ≤ partCount fileSize partSize := by
  have h := (partCount_bounds fileSize partSize hp).2
  by_contra hc
  have : partCount fileSize partSize ≤ 0 := by omega
  nlinarith

theorem partBytes_full (fileSize partSize k : Int) (hp : 0 < partSize)
    (hk : k < partCount fileSize partSize) :
    partBytes fileSize partSize k = partSize := by
  have h := (partCount_bounds fileSize partSize hp).1
  have hle : k * partSize ≤ (partCount fileSize partSize - 1) * partSize :=
    mul_le_mul_of_nonneg_right (by omega) hp.le
  unfold partBytes partEnd partStart
  rw [min_eq_left (by nlinarith)]
  ring

theorem partEnd_last (fileSize partSize : Int) (hp : 0 < partSize) :
    partEnd fileSize partSize (partCount fileSize partSize) = fileSize := by
  have h := (partCount_bounds fileSize partSize hp).2
  unfold partEnd partStart
  rw [min_eq_right (by nlinarith)]

theorem sum_partBytes_prefix (fileSize partSize : Int) (hp : 0 < partSize) (m : Nat)
    (hm : (m : Int) < partCount fileSize partSize) :
    ((List.range m).map (fun k : Nat => partBytes fileSize partSize ((k : Int) + 1))).sum
      = m * partSize := by
  induction m with
  | zero => simp
  | succ n ih =>
    rw [List.sum_range_succ, ih (by push_cast at hm; omega),
      partBytes_full fileSize partSize _ hp (by push_cast at hm; omega)]
    push_cast; ring

/-- C3. For every `fileSize > 0` and `partSize > 0` the byte ranges computed by
`multipartUploadToR2` partition the file: `partCount` is `ceil(fileSize / partSize)` (it is
at least 1, `partCount - 1` parts do not cover the file and `partCount` parts do); part `k`
covers `[(k-1)*partSize, min(k*partSize, fileSize))` and is non-empty; consecutive ranges
are contiguous and every part but the last has exactly `partSize` bytes; earlier ranges end
before later ones start; the first range starts at 0, the last ends at `fileSize`; and the
byte counts of all parts sum to `fileSize`. -/
theorem multipart_ranges_partition (fileSize partSize : Int) (hf : 0 < fileSize)
    (hp : 0 < partSize) :
    1 ≤ partCount fileSize partSize
    ∧ (partCount fileSize partSize - 1) * partSize < fileSize
    ∧ fileSize ≤ partCount fileSize partSize * partSize
    ∧ (∀ k, 1 ≤ k → k ≤ partCount fileSize partSize →
        partStart partSize k = (k - 1) * partSize
        ∧ partEnd fileSize partSize k = min (k * partSize) fileSize
        ∧ partStart partSize k < partEnd fileSize partSize k)
    ∧ (∀ k, 1 ≤ k → k < partCount fileSize partSize →
        partEnd fileSize partSize k = partStart partSize (k + 1)
        ∧ partBytes fileSize partSize k = partSize)
    ∧ (∀ j k, 1 ≤ j → j < k → k ≤ partCount fileSize partSize →
        partEnd fileSize partSize j ≤ partStart partSize k)
    ∧ partStart partSize 1 = 0
    ∧ partEnd fileSize partSize (partCount fileSize partSize) = fileSize
    ∧ ((List.range (partCount fileSize partSize).toNat).map
        (fun k : Nat => partBytes fileSize partSize ((k : Int) + 1))).sum = fileSize := by
  have hb := partCount_bounds fileSize partSize hp
  have hpos := partCount_pos fileSize partSize hf hp
  refine ⟨hpos, hb.1, hb.2, ?_, ?_, ?_, ?_, partEnd_last fileSize partSize hp, ?_⟩
  · intro k hk1 hkN
    have hle : (k - 1) * partSize ≤ (partCount fileSize partSize - 1) * partSize :=
      mul_le_mul_of_nonneg_right (by omega) hp.le
    refine ⟨rfl, ?_, ?_⟩
    · unfold partEnd partStart; congr 1; ring
    · unfold partEnd partStart
      rw [lt_min_iff]
      constructor
      · linarith
      · linarith [hb.1]
  · intro k hk1 hkN
    have hfull := partBytes_full fileSize partSize k hp hkN
    refine ⟨?_, hfull⟩
    unfold partBytes at hfull
    unfold partStart at hfull ⊢
    linarith
  · intro j k hj hjk hkN
    have hfull := partBytes_full fileSize partSize j hp (by omega)
    unfold partBytes at hfull
    have hle : j * partSize ≤ (k - 1) * partSize :=
      mul_le_mul_of_nonneg_right (by omega) hp.le
    unfold partStart at hfull ⊢
    linarith
  · unfold partStart; ring
  · obtain ⟨n, hn⟩ : ∃ n : Nat, partCount fileSize partSize = (n : Int) + 1 :=
      ⟨(partCount fileSize partSize - 1).toNat, by omega⟩
    have hto : (partCount fileSize partSize).toNat = n + 1 := by omega
    rw [hto, List.sum_range_succ, sum_partBytes_prefix fileSize partSize hp n (by omega)]
    have hlast := partEnd_last fileSize partSize hp
    unfold partBytes
    rw [← hn, hlast]
    unfold partStart
    rw [hn]; ring

theorem multipart_ranges_partition_witness :
    (0 : Int) < 25 ∧ (0 : Int) < 10 ∧ partCount 25 10 = 3
      ∧ partEnd 25 10 (partCount 25 10) = 25 :=
  ⟨by decide, by decide, by decide!,
    (multipart_ranges_partition 25 10 (by decide) (by decide)).2.2.2.2.2.2.2.1⟩

theorem assignAt_length (parts : List (Option CompletedPart)) (i : Nat) (v : CompletedPart) :
    (assignAt parts i v).length = max parts.length (i + 1) := by
  unfold assignAt
  split_ifs with h
  · simp; omega
  · simp; omega

theorem assignAt_getElem? (parts : List (Option CompletedPart)) (i j : Nat)
    (v : CompletedPart) :
    ((assignAt parts i v)[j]?).join = if j = i then some v else (parts[j]?).join := by
  unfold assignAt
  split_ifs with h hji hji
  · subst hji; simp [List.getElem?_set, h]
  · simp [List.getElem?_set, Ne.symm hji]
  · subst hji
    rw [List.getElem?_append_right (by simp; omega)]
    have : j - (parts.length + (j - parts.length)) = 0 := by omega
    simp [this]
  · rw [List.append_assoc]
    by_cases hjl : j < parts.length
    · rw [List.getElem?_append_left hjl]
    · rw [List.getElem?_append_right (by omega), List.getElem?_eq_none (l := parts) (by omega)]
      by_cases hj2 : j - parts.length < i - parts.length
      · rw [List.getElem?_append_left (by simpa using hj2)]; simp [hj2]
      · rw [List.getElem?_append_right (by simp; omega), List.getElem?_eq_none]
        simp; omega

/-- The invariant of the array `parts` while uploads complete. -/
theorem partsAfter_foldl (etag : Nat → String) (order : List Nat)
    (h1 : ∀ k ∈ order, 1 ≤ k) :
    ∀ (parts : List (Option CompletedPart)) (j : Nat),
      ((order.foldl (recordPart etag) parts)[j]?).join
        = if j + 1 ∈ order then some { ETag := etag (j + 1), PartNumber := j + 1 }
          else (parts[j]?).join := by
  induction order with
  | nil => intro parts j; simp
  | cons a rest ih =>
    intro parts j
    have ha : 1 ≤ a := h1 a (List.mem_cons_self a rest)
    rw [List.foldl_cons, ih (fun k hk => h1 k (List.mem_cons_of_mem a hk))]
    by_cases hr : j + 1 ∈ rest
    · simp [hr]
    · simp only [hr, if_false, List.mem_cons, or_false]
      unfold recordPart
      rw [assignAt_getElem?]
      by_cases hja : j = a - 1
      · have : j + 1 = a := by omega
        simp [hja, this]
        subst this; simp
      · have : j + 1 ≠ a := by omega
        simp [hja, this]

theorem partsAfter_length_le (etag : Nat → String) (order : List Nat) (N : Nat)
    (h2 : ∀ k ∈ order, 1 ≤ k ∧ k ≤ N) :
    ∀ (parts : List (Option CompletedPart)), parts.length ≤ N →
      (order.foldl (recordPart etag) parts).length ≤ N := by
  induction order with
  | nil => intro parts h; simpa using h
  | cons a rest ih =>
    intro parts h
    rw [List.foldl_cons]
    apply ih (fun k hk => h2 k (List.mem_cons_of_mem a hk))
    unfold recordPart
    rw [assignAt_length]
    have := h2 a (List.mem_cons_self a rest)
    omega

theorem partsAfter_eq (etag : Nat → String) (N : Nat) (order : List Nat)
    (hperm : order.Perm (List.range' 1 N)) :
    partsAfter etag order
      = (List.range N).map (fun j => some { ETag := etag (j + 1), PartNumber := j + 1 }) := by
  have hmem : ∀ k, k ∈ order ↔ 1 ≤ k ∧ k < 1 + N := by
    intro k; rw [hperm.mem_iff, List.mem_range'_1]
  have hget := partsAfter_foldl etag order (fun k hk => ((hmem k).1 hk).1) []
  have hlen := partsAfter_length_le etag order N (fun k hk => by have := (hmem k).1 hk; omega)
    [] (by simp)
  unfold partsAfter
  apply List.ext_getElem?
  intro j
  have hj := hget j
  by_cases hjN : j < N
  · have hin : j + 1 ∈ order := (hmem _).2 (by omega)
    simp only [hin, if_true] at hj
    rw [List.getElem?_map, List.getElem?_range hjN]
    simp only [Option.map_some']
    cases hx : (List.foldl (recordPart etag) [] order)[j]? with
    | none => rw [hx] at hj; simp at hj
    | some y => rw [hx] at hj; simp at hj; rw [hj]
  · rw [List.getElem?_eq_none (by omega), List.getElem?_eq_none (by simp; omega)]

theorem completeParts_partsAfter (etag : Nat → String) (N : Nat) (order : List Nat)
    (hperm : order.Perm (List.range' 1 N)) :
    completeParts (partsAfter etag order)
      = (List.range N).map (fun j => { ETag := etag (j + 1), PartNumber := j + 1 }) := by
  rw [partsAfter_eq etag N order hperm]
  unfold completeParts
  have hfm : List.filterMap id ((List.range N).map
      (fun j => some ({ ETag := etag (j + 1), PartNumber := j + 1 } : CompletedPart)))
      = (List.range N).map (fun j => { ETag := etag (j + 1), PartNumber := j + 1 }) := by
    induction List.range N with
    | nil => rfl
    | cons a l ih => simp [ih]
  rw [hfm]
  apply List.mergeSort_of_sorted
  rw [List.pairwise_map]
  have : List.Pairwise (fun a b : Nat => a < b) (List.range N) := List.pairwise_lt_range N
  exact this.imp (fun h => by simp; omega)

/-- C2. In `multipartUploadToR2`, for every part count `N` and every order (a permutation
of `1..N`) in which the part uploads complete, the `Parts` list handed to
`completeMultipartUpload` is strictly ascending in `PartNumber`, consists of exactly the
parts `1..N`, and pairs each part number with the ETag returned for that part number. -/
theorem completion_parts_sorted (etag : Nat → String) (N : Nat)
    (order : List Nat) (hperm : order.Perm (List.range' 1 N)) :
    (completeParts (partsAfter etag order)).Pairwise
        (fun a b => a.PartNumber < b.PartNumber)
    ∧ (completeParts (partsAfter etag order)).map (fun p => p.PartNumber) = List.range' 1 N
    ∧ ∀ p ∈ completeParts (partsAfter etag order), p.ETag = etag p.PartNumber := by
  rw [completeParts_partsAfter etag N order hperm]
  refine ⟨?_, ?_, ?_⟩
  · rw [List.pairwise_map]
    exact (List.pairwise_lt_range N).imp (fun h => by simpa using h)
  · rw [List.map_map, List.range'_eq_map_range]
    apply List.map_congr_left
    intro a _; simp; omega
  · intro p hp
    rw [List.mem_map] at hp
    obtain ⟨j, _, rfl⟩ := hp
    rfl

theorem completion_parts_sorted_witness :
    [3, 1, 2].Perm (List.range' 1 3)
      ∧ (completeParts (partsAfter (fun k => toString k) [3, 1, 2])).map (fun p => p.PartNumber)
          = List.range' 1 3 :=
  ⟨by decide,
    (completion_parts_sorted (fun k => toString k) 3 [3, 1, 2] (by decide)).2.1⟩

/-! ## Cooldown spacing (claims C8 and C9) -/

theorem runTicks_tail_spaced (tick : MonitorState → TickInput → MonitorState × TickEvents)
    (timer : MonitorState → Int) (ev : TickEvents → Prop) (cd : Int)
    (hcases : ∀ s i, timer (tick s i).1 = timer s ∨ timer (tick s i).1 = i.now)
    (hev : ∀ s i, ev (tick s i).2 → cd ≤ i.now - timer s)
    (t : Int) (inputs : List TickInput) :
    ∀ (s : MonitorState), t ≤ timer s → (∀ i ∈ inputs, t ≤ i.now) →
      ∀ (b : Nat) (rb : MonitorState × TickEvents) (ib : TickInput),
        (runTicks tick s inputs)[b]? = some rb → inputs[b]? = some ib → ev rb.2 →
        cd ≤ ib.now - t := by
  induction inputs with
  | nil => intro s _ _ b rb ib hrb; simp [runTicks] at hrb
  | cons i rest ih =>
    intro s hs hall b rb ib hrb hib hevb
    cases b with
    | zero =>
      simp [runTicks] at hrb hib
      subst hrb; subst hib
      have := hev s i hevb
      omega
    | succ b =>
      simp [runTicks] at hrb hib
      have hs1 : t ≤ timer (tick s i).1 := by
        rcases hcases s i with h | h
        · omega
        · have := hall i (List.mem_cons_self i rest); omega
      exact ih (tick s i).1 hs1 (fun j hj => hall j (List.mem_cons_of_mem i hj)) b rb ib hrb hib
        hevb

theorem runTicks_spaced (tick : MonitorState → TickInput → MonitorState × TickEvents)
    (timer : MonitorState → Int) (ev : TickEvents → Prop) (cd : Int)
    (hcases : ∀ s i, timer (tick s i).1 = timer s ∨ timer (tick s i).1 = i.now)
    (hev : ∀ s i, ev (tick s i).2 → timer (tick s i).1 = i.now ∧ cd ≤ i.now - timer s)
    (inputs : List TickInput) :
    ∀ (s : MonitorState), clockNonDecreasing inputs →
      ∀ (a b : Nat), a < b →
      ∀ (ra rb : MonitorState × TickEvents) (ia ib : TickInput),
        (runTicks tick s inputs)[a]? = some ra → (runTicks tick s inputs)[b]? = some rb →
        inputs[a]? = some ia → inputs[b]? = some ib → ev ra.2 → ev rb.2 →
        cd ≤ ib.now - ia.now := by
  induction inputs with
  | nil => intro s _ a b _ ra rb ia ib hra; simp [runTicks] at hra
  | cons i rest ih =>
    intro s hclock a b hab ra rb ia ib hra hrb hia hib hea heb
    have hclock2 := List.pairwise_cons.1 hclock
    cases b with
    | zero => omega
    | succ b =>
      cases a with
      | zero =>
        simp [runTicks] at hra hia hrb hib
        subst hra; subst hia
        exact runTicks_tail_spaced tick timer ev cd hcases (fun s i h => (hev s i h).2) i.now rest
          (tick s i).1 (le_of_eq (hev s i hea).1.symm) hclock2.1 b rb ib hrb hib heb
      | succ a =>
        simp [runTicks] at hra hia hrb hib
        exact ih (tick s i).1 hclock2.2 a b (by omega) ra rb ia ib hra hrb hia hib hea heb


/-! ### Scale-up timer of the DSL / enterprise monitors -/

theorem deScaling_lastPA_cases (P : StallProfile) (now : Int) (sp : ℚ) (s : MonitorState) :
    (deScaling P now sp s).1.lastParallelAdjustment = s.lastParallelAdjustment
      ∨ (deScaling P now sp s).1.lastParallelAdjustment = now := by
  unfold deScaling; split_ifs <;> simp

theorem deScaling_up_spec (P : StallProfile) (now : Int) (sp : ℚ) (s : MonitorState)
    (h : (deScaling P now sp s).2.1 = true) :
    (deScaling P now sp s).1.lastParallelAdjustment = now
      ∧ P.scaleUpCooldown < now - s.lastParallelAdjustment := by
  unfold deScaling at h ⊢
  split_ifs at h ⊢
  all_goals simp_all

theorem deBody_lastPA_cases (P : StallProfile) (T : DETuning) (i : TickInput)
    (rp : List PartTime) (s : MonitorState) :
    (deBody P T i rp s).1.lastParallelAdjustment = s.lastParallelAdjustment
      ∨ (deBody P T i rp s).1.lastParallelAdjustment = i.now := by
  simp only [deBody, throttledFallback_lastParallelAdjustment,
    emergencyReset_lastParallelAdjustment, noProgressWatchdog_lastParallelAdjustment]
  refine (deScaling_lastPA_cases P i.now _ _).imp_left (fun h => ?_)
  rw [h]; simp

theorem deBody_scaleUp (P : StallProfile) (T : DETuning) (i : TickInput)
    (rp : List PartTime) (s : MonitorState) (h : (deBody P T i rp s).2.scaleUp = true) :
    (deBody P T i rp s).1.lastParallelAdjustment = i.now
      ∧ P.scaleUpCooldown < i.now - s.lastParallelAdjustment := by
  simp only [deBody] at h
  have := deScaling_up_spec P i.now _ _ h
  simp only [deBody, throttledFallback_lastParallelAdjustment,
    emergencyReset_lastParallelAdjustment, noProgressWatchdog_lastParallelAdjustment]
  simpa using this

theorem deBody_rampUpDecided (P : StallProfile) (T : DETuning) (i : TickInput)
    (rp : List PartTime) (s : MonitorState) :
    (deBody P T i rp s).2.rampUpDecided = false ∧ (deBody P T i rp s).2.rampDownDecided = false
      ∧ (deBody P T i rp s).2.adjustment = false := by
  simp [deBody]

theorem deTick_lastPA_cases (P : StallProfile) (T : DETuning) (s : MonitorState)
    (i : TickInput) :
    (deTick P T s i).1.lastParallelAdjustment = s.lastParallelAdjustment
      ∨ (deTick P T s i).1.lastParallelAdjustment = i.now := by
  unfold deTick
  split_ifs
  · exact Or.inl rfl
  · exact Or.inl rfl
  · exact Or.inl rfl
  · exact deBody_lastPA_cases P T i _ s
  · exact Or.inl rfl

theorem deTick_rampUp (P : StallProfile) (T : DETuning) (s : MonitorState) (i : TickInput)
    (h : rampUpApplied (deTick P T s i).2) :
    (deTick P T s i).1.lastParallelAdjustment = i.now
      ∧ P.scaleUpCooldown ≤ i.now - s.lastParallelAdjustment := by
  unfold deTick at h ⊢
  split_ifs at h ⊢
  · simp [rampUpApplied] at h
  · simp [rampUpApplied] at h
  · simp [rampUpApplied] at h
  · unfold rampUpApplied at h
    rcases h with h | h
    · have := deBody_scaleUp P T i _ s h
      exact ⟨this.1, le_of_lt this.2⟩
    · have := (deBody_rampUpDecided P T i (sliceLast i.partTimes T.recentWindow) s).1
      rw [this] at h; simp at h
  · simp [rampUpApplied] at h

/-! ### Scale-up timer of the fiber monitor -/

theorem fiberRamp_lastScaleTime_cases (now : Int) (sp : ℚ) (s : MonitorState) :
    (fiberRamp now sp s).1.lastScaleTime = s.lastScaleTime
      ∨ (fiberRamp now sp s).1.lastScaleTime = now := by
  unfold fiberRamp; split_ifs <;> simp

theorem fiberRamp_up_spec (now : Int) (sp : ℚ) (s : MonitorState)
    (h : (fiberRamp now sp s).2.rampUp = true) :
    (fiberRamp now sp s).1.lastScaleTime = now
      ∧ FIBER_PROFILE.scaleUpCooldown ≤ now - s.lastScaleTime := by
  unfold fiberRamp at h ⊢
  split_ifs at h ⊢
  all_goals simp_all

theorem fiberAfterDecay_lastScaleTime_cases (i : TickInput) (rp : List PartTime)
    (sm cT : ℚ) (s : MonitorState) :
    (fiberAfterDecay i rp sm cT s).1.lastScaleTime = s.lastScaleTime
      ∨ (fiberAfterDecay i rp sm cT s).1.lastScaleTime = i.now := by
  simp only [fiberAfterDecay, throttledFallback_lastScaleTime, emergencyReset_lastScaleTime,
    noProgressWatchdog_lastScaleTime, applyAdjustment_lastScaleTime]
  refine (fiberRamp_lastScaleTime_cases i.now _ _).imp_left (fun h => ?_)
  rw [h]; simp

theorem fiberAfterDecay_rampUp (i : TickInput) (rp : List PartTime)
    (sm cT : ℚ) (s : MonitorState) (h : (fiberAfterDecay i rp sm cT s).2.rampUpDecided = true) :
    (fiberAfterDecay i rp sm cT s).1.lastScaleTime = i.now
      ∧ FIBER_PROFILE.scaleUpCooldown ≤ i.now - s.lastScaleTime := by
  simp only [fiberAfterDecay] at h
  have := fiberRamp_up_spec i.now _ _ h
  simp only [fiberAfterDecay, throttledFallback_lastScaleTime, emergencyReset_lastScaleTime,
    noProgressWatchdog_lastScaleTime, applyAdjustment_lastScaleTime]
  simpa using this

theorem fiberBody_lastScaleTime_cases (i : TickInput) (rp : List PartTime) (s : MonitorState) :
    (fiberBody i rp s).1.lastScaleTime = s.lastScaleTime
      ∨ (fiberBody i rp s).1.lastScaleTime = i.now := by
  unfold fiberBody
  simp only []
  split_ifs
  · left; simp
  · refine (fiberAfterDecay_lastScaleTime_cases i rp _ _ _).imp_left (fun h => ?_)
    rw [h]; simp

theorem fiberBody_rampUp (i : TickInput) (rp : List PartTime) (s : MonitorState)
    (h : (fiberBody i rp s).2.rampUpDecided = true) :
    (fiberBody i rp s).1.lastScaleTime = i.now
      ∧ FIBER_PROFILE.scaleUpCooldown ≤ i.now - s.lastScaleTime := by
  unfold fiberBody at h ⊢
  simp only [] at h ⊢
  split_ifs at h ⊢
  · have := fiberAfterDecay_rampUp i rp _ _ _ h
    refine ⟨this.1.trans rfl, ?_⟩
    have h2 := this.2
    simp only [fiberDecay_lastScaleTime, reinforcementLock_lastScaleTime,
      peakDetection_lastScaleTime, recordAvgPartSpeed_lastScaleTime] at h2
    exact h2

theorem fiberBody_scaleFlags (i : TickInput) (rp : List PartTime) (s : MonitorState) :
    (fiberBody i rp s).2.scaleUp = false ∧ (fiberBody i rp s).2.scaleDown = false
      ∧ (fiberBody i rp s).2.sustainedDrop = false := by
  unfold fiberBody
  simp only []
  split_ifs <;> simp [fiberAfterDecay]

theorem fiberTick_lastScaleTime_cases (s : MonitorState) (i : TickInput) :
    (fiberTick s i).1.lastScaleTime = s.lastScaleTime
      ∨ (fiberTick s i).1.lastScaleTime = i.now := by
  unfold fiberTick
  split_ifs
  · exact Or.inl rfl
  · exact Or.inl rfl
  · exact Or.inl rfl
  · exact fiberBody_lastScaleTime_cases i _ s
  · exact Or.inl rfl

theorem fiberTick_rampUp (s : MonitorState) (i : TickInput)
    (h : rampUpApplied (fiberTick s i).2) :
    (fiberTick s i).1.lastScaleTime = i.now
      ∧ FIBER_PROFILE.scaleUpCooldown ≤ i.now - s.lastScaleTime := by
  unfold fiberTick at h ⊢
  split_ifs at h ⊢
  · simp [rampUpApplied] at h
  · simp [rampUpApplied] at h
  · simp [rampUpApplied] at h
  · unfold rampUpApplied at h
    rcases h with h | h
    · rw [(fiberBody_scaleFlags i (sliceLast i.partTimes 8) s).1] at h; simp at h
    · exact fiberBody_rampUp i _ s h.1
  · simp [rampUpApplied] at h

/-! ### Scale-up timer of the cable monitor -/

theorem cableRamp_lastScaleTime_cases (now : Int) (sp : ℚ) (s : MonitorState) :
    (cableRamp now sp s).1.lastScaleTime = s.lastScaleTime
      ∨ (cableRamp now sp s).1.lastScaleTime = now := by
  unfold cableRamp; split_ifs <;> simp

theorem cableRamp_up_spec (now : Int) (sp : ℚ) (s : MonitorState)
    (h : (cableRamp now sp s).2.rampUp = true) :
    (cableRamp now sp s).1.lastScaleTime = now
      ∧ CABLE_PROFILE.scaleUpCooldown ≤ now - s.lastScaleTime := by
  unfold cableRamp at h ⊢
  split_ifs at h ⊢
  all_goals simp_all

theorem cableBody_lastScaleTime_cases (i : TickInput) (rp : List PartTime) (s : MonitorState) :
    (cableBody i rp s).1.lastScaleTime = s.lastScaleTime
      ∨ (cableBody i rp s).1.lastScaleTime = i.now := by
  simp only [cableBody, cableFallback_lastScaleTime, cableApplyAdjustment_lastScaleTime]
  refine (cableRamp_lastScaleTime_cases i.now _ _).imp_left (fun h => ?_)
  rw [h]; simp

theorem cableBody_rampUp (i : TickInput) (rp : List PartTime) (s : MonitorState)
    (h : (cableBody i rp s).2.rampUpDecided = true) :
    (cableBody i rp s).1.lastScaleTime = i.now
      ∧ CABLE_PROFILE.scaleUpCooldown ≤ i.now - s.lastScaleTime := by
  simp only [cableBody] at h
  have := cableRamp_up_spec i.now _ _ h
  simp only [cableBody, cableFallback_lastScaleTime, cableApplyAdjustment_lastScaleTime]
  simpa using this

theorem cableBody_scaleFlags (i : TickInput) (rp : List PartTime) (s : MonitorState) :
    (cableBody i rp s).2.scaleUp = false ∧ (cableBody i rp s).2.scaleDown = false
      ∧ (cableBody i rp s).2.sustainedDrop = false := by
  simp [cableBody]

theorem cableTick_lastScaleTime_cases (s : MonitorState) (i : TickInput) :
    (cableTick s i).1.lastScaleTime = s.lastScaleTime
      ∨ (cableTick s i).1.lastScaleTime = i.now := by
  unfold cableTick
  split_ifs
  · exact Or.inl rfl
  · exact Or.inl rfl
  · exact Or.inl rfl
  · exact cableBody_lastScaleTime_cases i _ s
  · exact Or.inl rfl

theorem cableTick_rampUp (s : MonitorState) (i : TickInput)
    (h : rampUpApplied (cableTick s i).2) :
    (cableTick s i).1.lastScaleTime = i.now
      ∧ CABLE_PROFILE.scaleUpCooldown ≤ i.now - s.lastScaleTime := by
  unfold cableTick at h ⊢
  split_ifs at h ⊢
  · simp [rampUpApplied] at h
  · simp [rampUpApplied] at h
  · simp [rampUpApplied] at h
  · unfold rampUpApplied at h
    rcases h with h | h
    · rw [(cableBody_scaleFlags i (sliceLast i.partTimes 6) s).1] at h; simp at h
    · exact cableBody_rampUp i _ s h.1
  · simp [rampUpApplied] at h

/-! ### Scale-up timer of the gigabit / ultra monitors -/

theorem guLockMode_lastScaleTime_cases (P : LockProfile) (T : GUTuning) (now : Int)
    (sp cT : ℚ) (s : MonitorState) :
    (guLockMode P T now sp cT s).1.lastScaleTime = s.lastScaleTime
      ∨ (guLockMode P T now sp cT s).1.lastScaleTime = now := by
  unfold guLockMode; split_ifs <;> simp

theorem guLockMode_up_spec (P : LockProfile) (T : GUTuning) (now : Int)
    (sp cT : ℚ) (s : MonitorState) (h : (guLockMode P T now sp cT s).2.rampUp = true) :
    (guLockMode P T now sp cT s).1.lastScaleTime = now
      ∧ P.scaleUpCooldown ≤ now - s.lastScaleTime := by
  unfold guLockMode at h ⊢
  split_ifs at h ⊢
  all_goals simp_all

theorem guLockMode_rampDown (P : LockProfile) (T : GUTuning) (now : Int)
    (sp cT : ℚ) (s : MonitorState) : (guLockMode P T now sp cT s).2.rampDown = false := by
  unfold guLockMode; split_ifs <;> rfl

theorem guRampDown_rampUp (P : LockProfile) (T : GUTuning) (now : Int) (cT : ℚ)
    (d : RampDecision) (s : MonitorState) :
    (guRampDown P T now cT d s).2.rampUp = d.rampUp := by
  unfold guRampDown; split_ifs <;> rfl

theorem guBody_lastScaleTime_cases (P : LockProfile) (T : GUTuning) (i : TickInput)
    (rp : List PartTime) (s : MonitorState) :
    (guBody P T i rp s).1.lastScaleTime = s.lastScaleTime
      ∨ (guBody P T i rp s).1.lastScaleTime = i.now := by
  simp only [guBody, throttledFallback_lastScaleTime, emergencyReset_lastScaleTime,
    continuousProgress_lastScaleTime, guWatchdog_lastScaleTime, applyAdjustment_lastScaleTime,
    guRampDown_lastScaleTime]
  refine (guLockMode_lastScaleTime_cases P T i.now _ _ _).imp_left (fun h => ?_)
  rw [h]; simp

theorem guBody_rampUp (P : LockProfile) (T : GUTuning) (i : TickInput)
    (rp : List PartTime) (s : MonitorState) (h : (guBody P T i rp s).2.rampUpDecided = true) :
    (guBody P T i rp s).1.lastScaleTime = i.now
      ∧ P.scaleUpCooldown ≤ i.now - s.lastScaleTime := by
  simp only [guBody, guRampDown_rampUp] at h
  have := guLockMode_up_spec P T i.now _ _ _ h
  simp only [guBody, throttledFallback_lastScaleTime, emergencyReset_lastScaleTime,
    continuousProgress_lastScaleTime, guWatchdog_lastScaleTime, applyAdjustment_lastScaleTime,
    guRampDown_lastScaleTime]
  simpa using this

theorem guBody_scaleFlags (P : LockProfile) (T : GUTuning) (i : TickInput)
    (rp : List PartTime) (s : MonitorState) :
    (guBody P T i rp s).2.scaleUp = false ∧ (guBody P T i rp s).2.scaleDown = false
      ∧ (guBody P T i rp s).2.sustainedDrop = false := by
  simp [guBody]

theorem guTick_lastScaleTime_cases (P : LockProfile) (T : GUTuning) (s : MonitorState)
    (i : TickInput) :
    (guTick P T s i).1.lastScaleTime = s.lastScaleTime
      ∨ (guTick P T s i).1.lastScaleTime = i.now := by
  unfold guTick
  split_ifs
  · exact Or.inl rfl
  · exact Or.inl rfl
  · exact Or.inl rfl
  · exact guBody_lastScaleTime_cases P T i _ s
  · exact Or.inl rfl

theorem guTick_rampUp (P : LockProfile) (T : GUTuning) (s : MonitorState) (i : TickInput)
    (h : rampUpApplied (guTick P T s i).2) :
    (guTick P T s i).1.lastScaleTime = i.now
      ∧ P.scaleUpCooldown ≤ i.now - s.lastScaleTime := by
  unfold guTick at h ⊢
  split_ifs at h ⊢
  · simp [rampUpApplied] at h
  · simp [rampUpApplied] at h
  · simp [rampUpApplied] at h
  · unfold rampUpApplied at h
    rcases h with h | h
    · rw [(guBody_scaleFlags P T i (sliceLast i.partTimes 10) s).1] at h; simp at h
    · exact guBody_rampUp P T i _ s h.1
  · simp [rampUpApplied] at h

/-! ### Scale-down timer of the DSL / enterprise monitors -/

theorem sustainedDrop_lastSD_cases (P : StallProfile) (ceiling now tsp : Int)
    (s : MonitorState) :
    (sustainedDrop P ceiling now tsp s).1.lastScaleDown = s.lastScaleDown
      ∨ (sustainedDrop P ceiling now tsp s).1.lastScaleDown = now := by
  unfold sustainedDrop; split_ifs <;> simp

theorem sustainedDrop_spec (P : StallProfile) (ceiling now tsp : Int) (s : MonitorState)
    (h : (sustainedDrop P ceiling now tsp s).2.1 = true) :
    (sustainedDrop P ceiling now tsp s).1.lastScaleDown = now
      ∧ P.scaleDownCooldown < now - s.lastScaleDown := by
  unfold sustainedDrop at h ⊢
  split_ifs at h ⊢
  all_goals simp_all

theorem deDecay_lastSD_cases (P : StallProfile) (T : DETuning) (now : Int) (cT : ℚ)
    (s : MonitorState) :
    (deDecay P T now cT s).1.lastScaleDown = s.lastScaleDown
      ∨ (deDecay P T now cT s).1.lastScaleDown = now := by
  unfold deDecay
  split_ifs
  · simp only []
    refine (sustainedDrop_lastSD_cases P _ now _ _).imp_left (fun h => ?_)
    rw [h]; simp
  · exact Or.inl rfl

theorem deDecay_sustainedDrop_spec (P : StallProfile) (T : DETuning) (now : Int) (cT : ℚ)
    (s : MonitorState) (h : (deDecay P T now cT s).2.sustainedDrop = true) :
    (deDecay P T now cT s).1.lastScaleDown = now
      ∧ P.scaleDownCooldown < now - s.lastScaleDown := by
  unfold deDecay at h ⊢
  split_ifs at h ⊢
  · simp only [] at h ⊢
    have := sustainedDrop_spec P _ now _ _ h
    simpa using this

theorem deScaling_lastSD_cases (P : StallProfile) (now : Int) (sp : ℚ) (s : MonitorState) :
    (deScaling P now sp s).1.lastScaleDown = s.lastScaleDown
      ∨ (deScaling P now sp s).1.lastScaleDown = now := by
  unfold deScaling; split_ifs <;> simp

theorem deScaling_down_spec (P : StallProfile) (now : Int) (sp : ℚ) (s : MonitorState)
    (h : (deScaling P now sp s).2.2 = true) :
    (deScaling P now sp s).1.lastScaleDown = now
      ∧ P.scaleDownCooldown < now - s.lastScaleDown := by
  unfold deScaling at h ⊢
  split_ifs at h ⊢
  all_goals simp_all

theorem deBody_lastSD_eq (P : StallProfile) (T : DETuning) (i : TickInput)
    (rp : List PartTime) (s : MonitorState) :
    (deBody P T i rp s).1.lastScaleDown
      = (deScaling P i.now (smoothedPartSpeed (recordAvgPartSpeed T.speedHistoryMax rp s))
          (thrashingProtection P.parallel T.thrashMax T.thrashWindow T.thrashFraction
            (realThroughputMbps rp)
            (deDecay P T i.now (realThroughputMbps rp)
              (reinforcementLock P.peakDetectionThreshold P.reinforcementSampleCount
                (realThroughputMbps rp)
                (peakDetection P T.peakSamples i.now (realThroughputMbps rp) rp.length
                  (recordAvgPartSpeed T.speedHistoryMax rp s)).1).1).1.contextMaxParallel
            (deDecay P T i.now (realThroughputMbps rp)
              (reinforcementLock P.peakDetectionThreshold P.reinforcementSampleCount
                (realThroughputMbps rp)
                (peakDetection P T.peakSamples i.now (realThroughputMbps rp) rp.length
                  (recordAvgPartSpeed T.speedHistoryMax rp s)).1).1).1).1).1.lastScaleDown := by
  simp only [deBody, throttledFallback_lastScaleDown, emergencyReset_lastScaleDown,
    noProgressWatchdog_lastScaleDown]

theorem deBody_lastSD_cases (P : StallProfile) (T : DETuning) (i : TickInput)
    (rp : List PartTime) (s : MonitorState) :
    (deBody P T i rp s).1.lastScaleDown = s.lastScaleDown
      ∨ (deBody P T i rp s).1.lastScaleDown = i.now := by
  rw [deBody_lastSD_eq]
  rcases deScaling_lastSD_cases P i.now
    (smoothedPartSpeed (recordAvgPartSpeed T.speedHistoryMax rp s))
    (thrashingProtection P.parallel T.thrashMax T.thrashWindow T.thrashFraction
      (realThroughputMbps rp)
      (deDecay P T i.now (realThroughputMbps rp)
        (reinforcementLock P.peakDetectionThreshold P.reinforcementSampleCount
          (realThroughputMbps rp)
          (peakDetection P T.peakSamples i.now (realThroughputMbps rp) rp.length
            (recordAvgPartSpeed T.speedHistoryMax rp s)).1).1).1.contextMaxParallel
      (deDecay P T i.now (realThroughputMbps rp)
        (reinforcementLock P.peakDetectionThreshold P.reinforcementSampleCount
          (realThroughputMbps rp)
          (peakDetection P T.peakSamples i.now (realThroughputMbps rp) rp.length
            (recordAvgPartSpeed T.speedHistoryMax rp s)).1).1).1).1 with h | h
  · rw [h, thrashingProtection_lastScaleDown]
    refine (deDecay_lastSD_cases P T i.now _ _).imp_left (fun h2 => ?_)
    rw [h2]; simp
  · exact Or.inr h

theorem deBody_rampDown (P : StallProfile) (T : DETuning) (i : TickInput)
    (rp : List PartTime) (s : MonitorState) (hcd : 0 ≤ P.scaleDownCooldown)
    (h : (deBody P T i rp s).2.sustainedDrop = true ∨ (deBody P T i rp s).2.scaleDown = true) :
    (deBody P T i rp s).1.lastScaleDown = i.now
      ∧ P.scaleDownCooldown < i.now - s.lastScaleDown := by
  rw [deBody_lastSD_eq]
  rcases h with h | h
  · simp only [deBody] at h
    have hd := deDecay_sustainedDrop_spec P T i.now _ _ h
    simp only [reinforcementLock_lastScaleDown, peakDetection_lastScaleDown,
      recordAvgPartSpeed_lastScaleDown] at hd
    refine ⟨?_, hd.2⟩
    rcases deScaling_lastSD_cases P i.now
      (smoothedPartSpeed (recordAvgPartSpeed T.speedHistoryMax rp s))
      (thrashingProtection P.parallel T.thrashMax T.thrashWindow T.thrashFraction
        (realThroughputMbps rp)
        (deDecay P T i.now (realThroughputMbps rp)
          (reinforcementLock P.peakDetectionThreshold P.reinforcementSampleCount
            (realThroughputMbps rp)
            (peakDetection P T.peakSamples i.now (realThroughputMbps rp) rp.length
              (recordAvgPartSpeed T.speedHistoryMax rp s)).1).1).1.contextMaxParallel
        (deDecay P T i.now (realThroughputMbps rp)
          (reinforcementLock P.peakDetectionThreshold P.reinforcementSampleCount
            (realThroughputMbps rp)
            (peakDetection P T.peakSamples i.now (realThroughputMbps rp) rp.length
              (recordAvgPartSpeed T.speedHistoryMax rp s)).1).1).1).1 with h2 | h2
    · rw [h2, thrashingProtection_lastScaleDown]; exact hd.1
    · exact h2
  · simp only [deBody] at h
    have hsc := deScaling_down_spec P i.now _ _ h
    refine ⟨hsc.1, ?_⟩
    have h2 := hsc.2
    rw [thrashingProtection_lastScaleDown] at h2
    rcases deDecay_lastSD_cases P T i.now (realThroughputMbps rp)
      (reinforcementLock P.peakDetectionThreshold P.reinforcementSampleCount
        (realThroughputMbps rp)
        (peakDetection P T.peakSamples i.now (realThroughputMbps rp) rp.length
          (recordAvgPartSpeed T.speedHistoryMax rp s)).1).1 with h3 | h3
    · rw [h3] at h2
      simpa using h2
    · rw [h3] at h2
      omega

theorem deTick_lastSD_cases (P : StallProfile) (T : DETuning) (s : MonitorState)
    (i : TickInput) :
    (deTick P T s i).1.lastScaleDown = s.lastScaleDown
      ∨ (deTick P T s i).1.lastScaleDown = i.now := by
  unfold deTick
  split_ifs
  · exact Or.inl rfl
  · exact Or.inl rfl
  · exact Or.inl rfl
  · exact deBody_lastSD_cases P T i _ s
  · exact Or.inl rfl

theorem deTick_rampDown (P : StallProfile) (T : DETuning) (s : MonitorState) (i : TickInput)
    (hcd : 0 ≤ P.scaleDownCooldown) (h : rampDownApplied (deTick P T s i).2) :
    (deTick P T s i).1.lastScaleDown = i.now
      ∧ P.scaleDownCooldown ≤ i.now - s.lastScaleDown := by
  unfold deTick at h ⊢
  split_ifs at h ⊢
  · simp [rampDownApplied] at h
  · simp [rampDownApplied] at h
  · simp [rampDownApplied] at h
  · unfold rampDownApplied at h
    have hno := (deBody_rampUpDecided P T i (sliceLast i.partTimes T.recentWindow) s).2.1
    rw [hno] at h
    have := deBody_rampDown P T i _ s hcd (by tauto)
    exact ⟨this.1, le_of_lt this.2⟩
  · simp [rampDownApplied] at h

/-! ### Scale-down timer of the fiber monitor -/

theorem fiberRamp_lastSD_cases (now : Int) (sp : ℚ) (s : MonitorState) :
    (fiberRamp now sp s).1.lastScaleDown = s.lastScaleDown
      ∨ (fiberRamp now sp s).1.lastScaleDown = now := by
  unfold fiberRamp; split_ifs <;> simp

theorem fiberRamp_down_spec (now : Int) (sp : ℚ) (s : MonitorState)
    (h : (fiberRamp now sp s).2.rampDown = true) :
    (fiberRamp now sp s).1.lastScaleDown = now
      ∧ FIBER_PROFILE.scaleDownCooldown ≤ now - s.lastScaleDown := by
  unfold fiberRamp at h ⊢
  split_ifs at h ⊢
  all_goals simp_all

theorem fiberAfterDecay_lastSD_cases (i : TickInput) (rp : List PartTime)
    (sm cT : ℚ) (s : MonitorState) :
    (fiberAfterDecay i rp sm cT s).1.lastScaleDown = s.lastScaleDown
      ∨ (fiberAfterDecay i rp sm cT s).1.lastScaleDown = i.now := by
  simp only [fiberAfterDecay, throttledFallback_lastScaleDown, emergencyReset_lastScaleDown,
    noProgressWatchdog_lastScaleDown, applyAdjustment_lastScaleDown]
  refine (fiberRamp_lastSD_cases i.now _ _).imp_left (fun h => ?_)
  rw [h]; simp

theorem fiberAfterDecay_rampDown (i : TickInput) (rp : List PartTime)
    (sm cT : ℚ) (s : MonitorState)
    (h : (fiberAfterDecay i rp sm cT s).2.rampDownDecided = true) :
    (fiberAfterDecay i rp sm cT s).1.lastScaleDown = i.now
      ∧ FIBER_PROFILE.scaleDownCooldown ≤ i.now - s.lastScaleDown := by
  simp only [fiberAfterDecay] at h
  have := fiberRamp_down_spec i.now _ _ h
  simp only [fiberAfterDecay, throttledFallback_lastScaleDown, emergencyReset_lastScaleDown,
    noProgressWatchdog_lastScaleDown, applyAdjustment_lastScaleDown]
  simpa using this

theorem fiberBody_lastSD_cases (i : TickInput) (rp : List PartTime) (s : MonitorState) :
    (fiberBody i rp s).1.lastScaleDown = s.lastScaleDown
      ∨ (fiberBody i rp s).1.lastScaleDown = i.now := by
  unfold fiberBody
  simp only []
  split_ifs
  · left; simp
  · refine (fiberAfterDecay_lastSD_cases i rp _ _ _).imp_left (fun h => ?_)
    rw [h]; simp

theorem fiberBody_rampDown (i : TickInput) (rp : List PartTime) (s : MonitorState)
    (h : (fiberBody i rp s).2.rampDownDecided = true) :
    (fiberBody i rp s).1.lastScaleDown = i.now
      ∧ FIBER_PROFILE.scaleDownCooldown ≤ i.now - s.lastScaleDown := by
  unfold fiberBody at h ⊢
  simp only [] at h ⊢
  split_ifs at h ⊢
  · have := fiberAfterDecay_rampDown i rp _ _ _ h
    refine ⟨this.1.trans rfl, ?_⟩
    have h2 := this.2
    simp only [fiberDecay_lastScaleDown, reinforcementLock_lastScaleDown,
      peakDetection_lastScaleDown, recordAvgPartSpeed_lastScaleDown] at h2
    exact h2

theorem fiberTick_lastSD_cases (s : MonitorState) (i : TickInput) :
    (fiberTick s i).1.lastScaleDown = s.lastScaleDown
      ∨ (fiberTick s i).1.lastScaleDown = i.now := by
  unfold fiberTick
  split_ifs
  · exact Or.inl rfl
  · exact Or.inl rfl
  · exact Or.inl rfl
  · exact fiberBody_lastSD_cases i _ s
  · exact Or.inl rfl

theorem fiberTick_rampDown (s : MonitorState) (i : TickInput)
    (h : rampDownApplied (fiberTick s i).2) :
    (fiberTick s i).1.lastScaleDown = i.now
      ∧ FIBER_PROFILE.scaleDownCooldown ≤ i.now - s.lastScaleDown := by
  unfold fiberTick at h ⊢
  split_ifs at h ⊢
  · simp [rampDownApplied] at h
  · simp [rampDownApplied] at h
  · simp [rampDownApplied] at h
  · unfold rampDownApplied at h
    have hf := fiberBody_scaleFlags i (sliceLast i.partTimes 8) s
    rw [hf.2.1, hf.2.2] at h
    simp only [Bool.false_eq_true, false_or] at h
    exact fiberBody_rampDown i _ s h.1
  · simp [rampDownApplied] at h

/-! ### Scale-down timer of the cable monitor -/

theorem cableRamp_lastSD_cases (now : Int) (sp : ℚ) (s : MonitorState) :
    (cableRamp now sp s).1.lastScaleDown = s.lastScaleDown
      ∨ (cableRamp now sp s).1.lastScaleDown = now := by
  unfold cableRamp; split_ifs <;> simp

theorem cableRamp_down_spec (now : Int) (sp : ℚ) (s : MonitorState)
    (h : (cableRamp now sp s).2.rampDown = true) :
    (cableRamp now sp s).1.lastScaleDown = now
      ∧ CABLE_PROFILE.scaleDownCooldown ≤ now - s.lastScaleDown := by
  unfold cableRamp at h ⊢
  split_ifs at h ⊢
  all_goals simp_all

theorem cableBody_lastSD_cases (i : TickInput) (rp : List PartTime) (s : MonitorState) :
    (cableBody i rp s).1.lastScaleDown = s.lastScaleDown
      ∨ (cableBody i rp s).1.lastScaleDown = i.now := by
  simp only [cableBody, cableFallback_lastScaleDown, cableApplyAdjustment_lastScaleDown]
  refine (cableRamp_lastSD_cases i.now _ _).imp_left (fun h => ?_)
  rw [h]; simp

theorem cableBody_rampDown (i : TickInput) (rp : List PartTime) (s : MonitorState)
    (h : (cableBody i rp s).2.rampDownDecided = true) :
    (cableBody i rp s).1.lastScaleDown = i.now
      ∧ CABLE_PROFILE.scaleDownCooldown ≤ i.now - s.lastScaleDown := by
  simp only [cableBody] at h
  have := cableRamp_down_spec i.now _ _ h
  simp only [cableBody, cableFallback_lastScaleDown, cableApplyAdjustment_lastScaleDown]
  simpa using this

theorem cableTick_lastSD_cases (s : MonitorState) (i : TickInput) :
    (cableTick s i).1.lastScaleDown = s.lastScaleDown
      ∨ (cableTick s i).1.lastScaleDown = i.now := by
  unfold cableTick
  split_ifs
  · exact Or.inl rfl
  · exact Or.inl rfl
  · exact Or.inl rfl
  · exact cableBody_lastSD_cases i _ s
  · exact Or.inl rfl

theorem cableTick_rampDown (s : MonitorState) (i : TickInput)
    (h : rampDownApplied (cableTick s i).2) :
    (cableTick s i).1.lastScaleDown = i.now
      ∧ CABLE_PROFILE.scaleDownCooldown ≤ i.now - s.lastScaleDown := by
  unfold cableTick at h ⊢
  split_ifs at h ⊢
  · simp [rampDownApplied] at h
  · simp [rampDownApplied] at h
  · simp [rampDownApplied] at h
  · unfold rampDownApplied at h
    have hf := cableBody_scaleFlags i (sliceLast i.partTimes 6) s
    rw [hf.2.1, hf.2.2] at h
    simp only [Bool.false_eq_true, false_or] at h
    exact cableBody_rampDown i _ s h.1
  · simp [rampDownApplied] at h

/-! ### Scale-down timer of the gigabit / ultra monitors -/

theorem guRampDown_lastSD_cases (P : LockProfile) (T : GUTuning) (now : Int) (cT : ℚ)
    (d : RampDecision) (s : MonitorState) :
    (guRampDown P T now cT d s).1.lastScaleDown = s.lastScaleDown
      ∨ (guRampDown P T now cT d s).1.lastScaleDown = now := by
  unfold guRampDown; split_ifs <;> simp

theorem guRampDown_spec (P : LockProfile) (T : GUTuning) (now : Int) (cT : ℚ)
    (d : RampDecision) (s : MonitorState) (hd : d.rampDown = false)
    (h : (guRampDown P T now cT d s).2.rampDown = true) :
    (guRampDown P T now cT d s).1.lastScaleDown = now
      ∧ P.scaleDownCooldown ≤ now - s.lastScaleDown := by
  unfold guRampDown at h ⊢
  split_ifs at h ⊢
  all_goals simp_all

theorem guBody_lastSD_cases (P : LockProfile) (T : GUTuning) (i : TickInput)
    (rp : List PartTime) (s : MonitorState) :
    (guBody P T i rp s).1.lastScaleDown = s.lastScaleDown
      ∨ (guBody P T i rp s).1.lastScaleDown = i.now := by
  simp only [guBody, throttledFallback_lastScaleDown, emergencyReset_lastScaleDown,
    continuousProgress_lastScaleDown, guWatchdog_lastScaleDown, applyAdjustment_lastScaleDown]
  refine (guRampDown_lastSD_cases P T i.now _ _ _).imp_left (fun h => ?_)
  rw [h]; simp

theorem guBody_rampDown (P : LockProfile) (T : GUTuning) (i : TickInput)
    (rp : List PartTime) (s : MonitorState)
    (h : (guBody P T i rp s).2.rampDownDecided = true) :
    (guBody P T i rp s).1.lastScaleDown = i.now
      ∧ P.scaleDownCooldown ≤ i.now - s.lastScaleDown := by
  simp only [guBody] at h
  have := guRampDown_spec P T i.now _ _ _ (guLockMode_rampDown P T i.now _ _ _) h
  simp only [guBody, throttledFallback_lastScaleDown, emergencyReset_lastScaleDown,
    continuousProgress_lastScaleDown, guWatchdog_lastScaleDown, applyAdjustment_lastScaleDown]
  simpa using this

theorem guTick_lastSD_cases (P : LockProfile) (T : GUTuning) (s : MonitorState)
    (i : TickInput) :
    (guTick P T s i).1.lastScaleDown = s.lastScaleDown
      ∨ (guTick P T s i).1.lastScaleDown = i.now := by
  unfold guTick
  split_ifs
  · exact Or.inl rfl
  · exact Or.inl rfl
  · exact Or.inl rfl
  · exact guBody_lastSD_cases P T i _ s
  · exact Or.inl rfl

theorem guTick_rampDown (P : LockProfile) (T : GUTuning) (s : MonitorState) (i : TickInput)
    (h : rampDownApplied (guTick P T s i).2) :
    (guTick P T s i).1.lastScaleDown = i.now
      ∧ P.scaleDownCooldown ≤ i.now - s.lastScaleDown := by
  unfold guTick at h ⊢
  split_ifs at h ⊢
  · simp [rampDownApplied] at h
  · simp [rampDownApplied] at h
  · simp [rampDownApplied] at h
  · unfold rampDownApplied at h
    have hf := guBody_scaleFlags P T i (sliceLast i.partTimes 10) s
    rw [hf.2.1, hf.2.2] at h
    simp only [Bool.false_eq_true, false_or] at h
    exact guBody_rampDown P T i _ s h.1
  · simp [rampDownApplied] at h


/-! ### Claims C8 and C9 -/

/-- C8. In every profile monitor, from any state and over any tick sequence whose clock
never goes back, two ticks on which the ramp decision raised the parallelism are at least
`profile.scaleUpCooldown` milliseconds apart. -/
theorem ramp_up_once_per_cooldown (m : Monitor) (s0 : MonitorState)
    (inputs : List TickInput) (hclock : clockNonDecreasing inputs) (a b : Nat) (hab : a < b)
    (ra rb : MonitorState × TickEvents) (ia ib : TickInput)
    (hra : (runTicks m.tick s0 inputs)[a]? = some ra)
    (hrb : (runTicks m.tick s0 inputs)[b]? = some rb)
    (hia : inputs[a]? = some ia) (hib : inputs[b]? = some ib)
    (hea : rampUpApplied ra.2) (heb : rampUpApplied rb.2) :
    m.profile.scaleUpCooldown ≤ ib.now - ia.now := by
  cases m
  · exact runTicks_spaced dslTick (fun s => s.lastParallelAdjustment) rampUpApplied _
      (deTick_lastPA_cases DSL_PROFILE dslTuning)
      (fun s i h => deTick_rampUp DSL_PROFILE dslTuning s i h)
      inputs s0 hclock a b hab ra rb ia ib hra hrb hia hib hea heb
  · exact runTicks_spaced cableTick (fun s => s.lastScaleTime) rampUpApplied _
      cableTick_lastScaleTime_cases cableTick_rampUp
      inputs s0 hclock a b hab ra rb ia ib hra hrb hia hib hea heb
  · exact runTicks_spaced fiberTick (fun s => s.lastScaleTime) rampUpApplied _
      fiberTick_lastScaleTime_cases fiberTick_rampUp
      inputs s0 hclock a b hab ra rb ia ib hra hrb hia hib hea heb
  · exact runTicks_spaced enterpriseTick (fun s => s.lastParallelAdjustment) rampUpApplied _
      (deTick_lastPA_cases ENTERPRISE_PROFILE enterpriseTuning)
      (fun s i h => deTick_rampUp ENTERPRISE_PROFILE enterpriseTuning s i h)
      inputs s0 hclock a b hab ra rb ia ib hra hrb hia hib hea heb
  · exact runTicks_spaced gigabitTick (fun s => s.lastScaleTime) rampUpApplied _
      (guTick_lastScaleTime_cases GIGABIT_PROFILE gigabitTuning)
      (fun s i h => guTick_rampUp GIGABIT_PROFILE gigabitTuning s i h)
      inputs s0 hclock a b hab ra rb ia ib hra hrb hia hib hea heb
  · exact runTicks_spaced ultraTick (fun s => s.lastScaleTime) rampUpApplied _
      (guTick_lastScaleTime_cases ULTRA_PROFILE ultraTuning)
      (fun s i h => guTick_rampUp ULTRA_PROFILE ultraTuning s i h)
      inputs s0 hclock a b hab ra rb ia ib hra hrb hia hib hea heb

/-- C9. In every profile monitor, from any state and over any tick sequence whose clock
never goes back, two ticks on which the ramp-down logic (sustained-low ramp-down or
sustained-drop reduction) lowered the parallelism are at least `profile.scaleDownCooldown`
milliseconds apart. -/
theorem ramp_down_once_per_cooldown (m : Monitor) (s0 : MonitorState)
    (inputs : List TickInput) (hclock : clockNonDecreasing inputs) (a b : Nat) (hab : a < b)
    (ra rb : MonitorState × TickEvents) (ia ib : TickInput)
    (hra : (runTicks m.tick s0 inputs)[a]? = some ra)
    (hrb : (runTicks m.tick s0 inputs)[b]? = some rb)
    (hia : inputs[a]? = some ia) (hib : inputs[b]? = some ib)
    (hea : rampDownApplied ra.2) (heb : rampDownApplied rb.2) :
    m.profile.scaleDownCooldown ≤ ib.now - ia.now := by
  cases m
  · exact runTicks_spaced dslTick (fun s => s.lastScaleDown) rampDownApplied _
      (deTick_lastSD_cases DSL_PROFILE dslTuning)
      (fun s i h => deTick_rampDown DSL_PROFILE dslTuning s i (by decide) h)
      inputs s0 hclock a b hab ra rb ia ib hra hrb hia hib hea heb
  · exact runTicks_spaced cableTick (fun s => s.lastScaleDown) rampDownApplied _
      cableTick_lastSD_cases cableTick_rampDown
      inputs s0 hclock a b hab ra rb ia ib hra hrb hia hib hea heb
  · exact runTicks_spaced fiberTick (fun s => s.lastScaleDown) rampDownApplied _
      fiberTick_lastSD_cases fiberTick_rampDown
      inputs s0 hclock a b hab ra rb ia ib hra hrb hia hib hea heb
  · exact runTicks_spaced enterpriseTick (fun s => s.lastScaleDown) rampDownApplied _
      (deTick_lastSD_cases ENTERPRISE_PROFILE enterpriseTuning)
      (fun s i h => deTick_rampDown ENTERPRISE_PROFILE enterpriseTuning s i (by decide) h)
      inputs s0 hclock a b hab ra rb ia ib hra hrb hia hib hea heb
  · exact runTicks_spaced gigabitTick (fun s => s.lastScaleDown) rampDownApplied _
      (guTick_lastSD_cases GIGABIT_PROFILE gigabitTuning)
      (fun s i h => guTick_rampDown GIGABIT_PROFILE gigabitTuning s i h)
      inputs s0 hclock a b hab ra rb ia ib hra hrb hia hib hea heb
  · exact runTicks_spaced ultraTick (fun s => s.lastScaleDown) rampDownApplied _
      (guTick_lastSD_cases ULTRA_PROFILE ultraTuning)
      (fun s i h => guTick_rampDown ULTRA_PROFILE ultraTuning s i h)
      inputs s0 hclock a b hab ra rb ia ib hra hrb hia hib hea heb

theorem ramp_up_once_per_cooldown_witness :
    clockNonDecreasing twoScaleUps
      ∧ rampUpApplied
          (eventsAt Monitor.enterprise.tick (Monitor.enterprise.start ⟨100⟩ 0) twoScaleUps 0)
      ∧ rampUpApplied
          (eventsAt Monitor.enterprise.tick (Monitor.enterprise.start ⟨100⟩ 0) twoScaleUps 1)
      ∧ Monitor.enterprise.profile.scaleUpCooldown ≤ (40000 : Int) - 20000 :=
  ⟨by decide!, by decide!, by decide!,
    ramp_up_once_per_cooldown Monitor.enterprise (Monitor.enterprise.start ⟨100⟩ 0)
      twoScaleUps (by decide!) 0 1 (by decide) _ _
      (sampleInput 20000 (sampleParts 4 4 10000) 10000000000)
      (sampleInput 40000 (sampleParts 4 4 10000) 10000000000)
      rfl rfl rfl rfl (by decide!) (by decide!)⟩

theorem ramp_down_once_per_cooldown_witness :
    clockNonDecreasing fourLowTicks
      ∧ rampDownApplied
          (eventsAt Monitor.gigabit.tick (Monitor.gigabit.start ⟨100⟩ 0) fourLowTicks 1)
      ∧ rampDownApplied
          (eventsAt Monitor.gigabit.tick (Monitor.gigabit.start ⟨100⟩ 0) fourLowTicks 3)
      ∧ Monitor.gigabit.profile.scaleDownCooldown ≤ (18500 : Int) - 10250 :=
  ⟨by decide!, by decide!, by decide!,
    ramp_down_once_per_cooldown Monitor.gigabit (Monitor.gigabit.start ⟨100⟩ 0)
      fourLowTicks (by decide!) 1 3 (by decide) _ _
      (sampleInput 10250 (sampleParts 10 2 5000) 100000000000)
      (sampleInput 18500 (sampleParts 10 2 5000) 100000000000)
      rfl rfl rfl rfl (by decide!) (by decide!)⟩


/-! ## Runs and reachable states -/

theorem finalState_induction (tick : MonitorState → TickInput → MonitorState × TickEvents)
    (Q : MonitorState → Prop) (hstep : ∀ s i, Q s → Q (tick s i).1)
    (inputs : List TickInput) : ∀ s0, Q s0 → Q (finalState tick s0 inputs) := by
  induction inputs with
  | nil => intro s0 h; exact h
  | cons i rest ih => intro s0 h; exact ih _ (hstep s0 i h)

theorem stateAt_induction (tick : MonitorState → TickInput → MonitorState × TickEvents)
    (Q : MonitorState → Prop) (hstep : ∀ s i, Q s → Q (tick s i).1)
    (inputs : List TickInput) : ∀ s0 k, Q s0 → Q (stateAt tick s0 inputs k) := by
  induction inputs with
  | nil => intro s0 k h; simpa [stateAt, runTicks] using h
  | cons i rest ih =>
    intro s0 k h
    cases k with
    | zero => simpa [stateAt, runTicks] using hstep s0 i h
    | succ k =>
      have := ih (tick s0 i).1 k (hstep s0 i h)
      unfold stateAt at this ⊢
      simp only [runTicks, List.getElem?_cons_succ]
      cases hk : (runTicks tick (tick s0 i).1 rest)[k]? with
      | none =>
        rw [hk] at this
        simpa using h
      | some r =>
        rw [hk] at this
        simpa using this

/-! ### The strategy cap is never written -/

theorem deBody_maxParallelCap (P : StallProfile) (T : DETuning) (i : TickInput)
    (rp : List PartTime) (s : MonitorState) :
    (deBody P T i rp s).1.maxParallelCap = s.maxParallelCap := by
  simp [deBody]

theorem deTick_maxParallelCap (P : StallProfile) (T : DETuning) (s : MonitorState)
    (i : TickInput) : (deTick P T s i).1.maxParallelCap = s.maxParallelCap := by
  unfold deTick; split_ifs <;> simp [deBody_maxParallelCap]

theorem fiberAfterDecay_maxParallelCap (i : TickInput) (rp : List PartTime) (sm cT : ℚ)
    (s : MonitorState) : (fiberAfterDecay i rp sm cT s).1.maxParallelCap = s.maxParallelCap := by
  simp [fiberAfterDecay]

theorem fiberBody_maxParallelCap (i : TickInput) (rp : List PartTime) (s : MonitorState) :
    (fiberBody i rp s).1.maxParallelCap = s.maxParallelCap := by
  unfold fiberBody
  simp only []
  split_ifs <;> simp [fiberAfterDecay_maxParallelCap]

theorem fiberTick_maxParallelCap (s : MonitorState) (i : TickInput) :
    (fiberTick s i).1.maxParallelCap = s.maxParallelCap := by
  unfold fiberTick; split_ifs <;> simp [fiberBody_maxParallelCap]

theorem cableBody_maxParallelCap (i : TickInput) (rp : List PartTime) (s : MonitorState) :
    (cableBody i rp s).1.maxParallelCap = s.maxParallelCap := by
  simp [cableBody]

theorem cableTick_maxParallelCap (s : MonitorState) (i : TickInput) :
    (cableTick s i).1.maxParallelCap = s.maxParallelCap := by
  unfold cableTick; split_ifs <;> simp [cableBody_maxParallelCap]

theorem guBody_maxParallelCap (P : LockProfile) (T : GUTuning) (i : TickInput)
    (rp : List PartTime) (s : MonitorState) :
    (guBody P T i rp s).1.maxParallelCap = s.maxParallelCap := by
  simp [guBody]

theorem guTick_maxParallelCap (P : LockProfile) (T : GUTuning) (s : MonitorState)
    (i : TickInput) : (guTick P T s i).1.maxParallelCap = s.maxParallelCap := by
  unfold guTick; split_ifs <;> simp [guBody_maxParallelCap]

theorem Monitor.tick_maxParallelCap (m : Monitor) (s : MonitorState) (i : TickInput) :
    (m.tick s i).1.maxParallelCap = s.maxParallelCap := by
  cases m
  · exact deTick_maxParallelCap _ _ s i
  · exact cableTick_maxParallelCap s i
  · exact fiberTick_maxParallelCap s i
  · exact deTick_maxParallelCap _ _ s i
  · exact guTick_maxParallelCap _ _ s i
  · exact guTick_maxParallelCap _ _ s i

/-! ### Part sizes the fallback guard never admits -/

theorem throttledFallback_grow_noop (R : FallbackRule) (i : TickInput) (s : MonitorState)
    (hdir : R.direction = FallbackDirection.grow) (hsize : R.guard ≤ s.partSize) :
    (throttledFallback R i s).1 = s ∧ (throttledFallback R i s).2.2 = false := by
  have hg : ¬ fallbackGuard R s := by
    unfold fallbackGuard; rw [hdir]; simp; exact hsize
  unfold throttledFallback
  split_ifs <;> simp

theorem throttledFallback_grow_partSize (R : FallbackRule) (i : TickInput) (s : MonitorState)
    (hdir : R.direction = FallbackDirection.grow) (hsize : R.guard ≤ s.partSize) :
    (throttledFallback R i s).1.partSize = s.partSize := by
  rw [(throttledFallback_grow_noop R i s hdir hsize).1]

theorem throttledFallback_grow_parallel (R : FallbackRule) (i : TickInput) (s : MonitorState)
    (hdir : R.direction = FallbackDirection.grow) (hsize : R.guard ≤ s.partSize) :
    (throttledFallback R i s).1.contextMaxParallel = s.contextMaxParallel := by
  rw [(throttledFallback_grow_noop R i s hdir hsize).1]

theorem deBody_partSize_grow (P : StallProfile) (T : DETuning) (i : TickInput)
    (rp : List PartTime) (s : MonitorState)
    (hdir : T.fallback.direction = FallbackDirection.grow)
    (hsize : T.fallback.guard ≤ s.partSize) :
    (deBody P T i rp s).1.partSize = s.partSize ∧ (deBody P T i rp s).2.fallbackMode = false := by
  simp only [deBody]
  constructor
  · refine (throttledFallback_grow_partSize _ _ _ hdir ?_).trans ?_ <;> simp [hsize]
  · exact (throttledFallback_grow_noop _ _ _ hdir (by simpa using hsize)).2

theorem deTick_partSize_grow (P : StallProfile) (T : DETuning) (s : MonitorState)
    (i : TickInput) (hdir : T.fallback.direction = FallbackDirection.grow)
    (hsize : T.fallback.guard ≤ s.partSize) :
    (deTick P T s i).1.partSize = s.partSize ∧ (deTick P T s i).2.fallbackMode = false := by
  unfold deTick
  split_ifs
  · exact ⟨rfl, rfl⟩
  · exact ⟨rfl, rfl⟩
  · exact ⟨rfl, rfl⟩
  · exact deBody_partSize_grow P T i _ s hdir hsize
  · exact ⟨rfl, rfl⟩

theorem fiberAfterDecay_partSize (i : TickInput) (rp : List PartTime) (sm cT : ℚ)
    (s : MonitorState) (hsize : 40 * 1024 * 1024 ≤ s.partSize) :
    (fiberAfterDecay i rp sm cT s).1.partSize = s.partSize
      ∧ (fiberAfterDecay i rp sm cT s).2.fallbackMode = false := by
  simp only [fiberAfterDecay]
  constructor
  · refine (throttledFallback_grow_partSize _ _ _ rfl ?_).trans ?_
    · simpa [fiberFallbackRule] using hsize
    · simp
  · exact (throttledFallback_grow_noop _ _ _ rfl (by simpa [fiberFallbackRule] using hsize)).2

theorem fiberBody_partSize (i : TickInput) (rp : List PartTime) (s : MonitorState)
    (hsize : 40 * 1024 * 1024 ≤ s.partSize) :
    (fiberBody i rp s).1.partSize = s.partSize ∧ (fiberBody i rp s).2.fallbackMode = false := by
  unfold fiberBody
  simp only []
  split_ifs
  · exact ⟨by simp, rfl⟩
  · constructor
    · refine (fiberAfterDecay_partSize _ _ _ _ _ ?_).1.trans ?_
      · simpa using hsize
      · simp
    · exact (fiberAfterDecay_partSize _ _ _ _ _ (by simpa using hsize)).2

theorem fiberTick_partSize (s : MonitorState) (i : TickInput)
    (hsize : 40 * 1024 * 1024 ≤ s.partSize) :
    (fiberTick s i).1.partSize = s.partSize ∧ (fiberTick s i).2.fallbackMode = false := by
  unfold fiberTick
  split_ifs
  · exact ⟨rfl, rfl⟩
  · exact ⟨rfl, rfl⟩
  · exact ⟨rfl, rfl⟩
  · exact fiberBody_partSize i _ s hsize
  · exact ⟨rfl, rfl⟩

theorem guBody_partSize_grow (P : LockProfile) (T : GUTuning) (i : TickInput)
    (rp : List PartTime) (s : MonitorState)
    (hdir : T.fallback.direction = FallbackDirection.grow)
    (hsize : T.fallback.guard ≤ s.partSize) :
    (guBody P T i rp s).1.partSize = s.partSize ∧ (guBody P T i rp s).2.fallbackMode = false := by
  simp only [guBody]
  constructor
  · refine (throttledFallback_grow_partSize _ _ _ hdir ?_).trans ?_ <;> simp [hsize]
  · exact (throttledFallback_grow_noop _ _ _ hdir (by simpa using hsize)).2

theorem guTick_partSize_grow (P : LockProfile) (T : GUTuning) (s : MonitorState)
    (i : TickInput) (hdir : T.fallback.direction = FallbackDirection.grow)
    (hsize : T.fallback.guard ≤ s.partSize) :
    (guTick P T s i).1.partSize = s.partSize ∧ (guTick P T s i).2.fallbackMode = false := by
  unfold guTick
  split_ifs
  · exact ⟨rfl, rfl⟩
  · exact ⟨rfl, rfl⟩
  · exact ⟨rfl, rfl⟩
  · exact guBody_partSize_grow P T i _ s hdir hsize
  · exact ⟨rfl, rfl⟩

/-- The strategy fields of a state reached by the enterprise monitor. -/
theorem enterprise_strategy_constant (connectionInfo : ConnectionInfo) (createdAt : Int)
    (inputs : List TickInput) :
    (finalState enterpriseTick (Monitor.enterprise.start connectionInfo createdAt)
        inputs).partSize = 40 * 1024 * 1024
      ∧ (finalState enterpriseTick (Monitor.enterprise.start connectionInfo createdAt)
        inputs).maxParallelCap = 10 := by
  refine finalState_induction enterpriseTick
    (fun s => s.partSize = 40 * 1024 * 1024 ∧ s.maxParallelCap = 10) ?_ inputs _ ⟨rfl, rfl⟩
  intro s i h
  refine ⟨?_, (deTick_maxParallelCap _ _ s i).trans h.2⟩
  exact (deTick_partSize_grow ENTERPRISE_PROFILE enterpriseTuning s i rfl
    (by rw [h.1]; decide)).1.trans h.1

/-- The strategy fields of a state reached by the fiber monitor. -/
theorem fiber_strategy_constant (connectionInfo : ConnectionInfo) (createdAt : Int)
    (inputs : List TickInput) :
    (finalState fiberTick (Monitor.fiber.start connectionInfo createdAt)
        inputs).partSize = 75 * 1024 * 1024
      ∧ (finalState fiberTick (Monitor.fiber.start connectionInfo createdAt)
        inputs).maxParallelCap = 16 := by
  refine finalState_induction fiberTick
    (fun s => s.partSize = 75 * 1024 * 1024 ∧ s.maxParallelCap = 16) ?_ inputs _ ⟨rfl, rfl⟩
  intro s i h
  refine ⟨?_, (fiberTick_maxParallelCap s i).trans h.2⟩
  exact (fiberTick_partSize s i (by rw [h.1]; decide)).1.trans h.1

/-- The strategy fields of a state reached by the ultra monitor. -/
theorem ultra_strategy_constant (connectionInfo : ConnectionInfo) (createdAt : Int)
    (inputs : List TickInput) :
    (finalState ultraTick (Monitor.ultra.start connectionInfo createdAt)
        inputs).partSize = 200 * 1024 * 1024
      ∧ (finalState ultraTick (Monitor.ultra.start connectionInfo createdAt)
        inputs).maxParallelCap = 24 := by
  refine finalState_induction ultraTick
    (fun s => s.partSize = 200 * 1024 * 1024 ∧ s.maxParallelCap = 24) ?_ inputs _ ⟨rfl, rfl⟩
  intro s i h
  refine ⟨?_, (guTick_maxParallelCap _ _ s i).trans h.2⟩
  exact (guTick_partSize_grow ULTRA_PROFILE ultraTuning s i rfl
    (by rw [h.1]; decide)).1.trans h.1

/-- The cap of a state reached by the gigabit monitor. -/
theorem gigabit_cap_constant (connectionInfo : ConnectionInfo) (createdAt : Int)
    (inputs : List TickInput) :
    (finalState gigabitTick (Monitor.gigabit.start connectionInfo createdAt)
        inputs).maxParallelCap = 20 := by
  refine finalState_induction gigabitTick (fun s => s.maxParallelCap = 20) ?_ inputs _ rfl
  intro s i h
  exact (guTick_maxParallelCap _ _ s i).trans h


/-! ## Emergency reset (claims C5, C6, C7) -/

theorem finalState_append (tick : MonitorState → TickInput → MonitorState × TickEvents)
    (inputs : List TickInput) (i : TickInput) :
    ∀ s0, finalState tick s0 (inputs ++ [i]) = (tick (finalState tick s0 inputs) i).1 := by
  induction inputs with
  | nil => intro s0; rfl
  | cons j rest ih => intro s0; exact ih _

theorem emergencyReset_fires_iff (P : StallProfile) (now : Int) (cT : ℚ) (n : Nat)
    (s : MonitorState) :
    (emergencyReset P now cT n s).2 = true
      ↔ cT < P.emergencyResetThreshold ∧ 2 ≤ s.emergencyResetCounter := by
  unfold emergencyReset
  split_ifs with h1 h2 h3
  · simp only [true_iff]; exact ⟨h1, by omega⟩
  · simp only [Bool.false_eq_true, false_iff, not_and]; intro _; omega
  · simp [h1]
  · simp [h1]

theorem emergencyReset_counter (P : StallProfile) (now : Int) (cT : ℚ) (n : Nat)
    (s : MonitorState) :
    (emergencyReset P now cT n s).1.emergencyResetCounter
      = if cT < P.emergencyResetThreshold then
          (if 2 ≤ s.emergencyResetCounter then 0 else s.emergencyResetCounter + 1)
        else 0 := by
  unfold emergencyReset
  split_ifs <;> first | rfl | omega

theorem emergencyReset_fired (P : StallProfile) (now : Int) (cT : ℚ) (n : Nat)
    (s : MonitorState) (h : (emergencyReset P now cT n s).2 = true) :
    (emergencyReset P now cT n s).1.peakPerformanceDetected = false
      ∧ (emergencyReset P now cT n s).1.lockedPerformance = false
      ∧ (emergencyReset P now cT n s).1.peakResetState = PeakResetState.stable
      ∧ (emergencyReset P now cT n s).1.strongPerformanceSamples = 0
      ∧ (emergencyReset P now cT n s).1.emergencyResetCounter = 0
      ∧ (emergencyReset P now cT n s).1.contextMaxParallel = P.parallel := by
  unfold emergencyReset at h ⊢
  split_ifs at h ⊢
  all_goals simp_all

theorem throttledFallback_parallel_of_not_applied (R : FallbackRule) (i : TickInput)
    (s : MonitorState) (h : (throttledFallback R i s).2.2 = false) :
    (throttledFallback R i s).1.contextMaxParallel = s.contextMaxParallel := by
  unfold throttledFallback at h ⊢
  split_ifs at h ⊢
  all_goals simp_all

/-! ### DSL and enterprise -/

theorem deBody_emergency_iff (P : StallProfile) (T : DETuning) (i : TickInput)
    (rp : List PartTime) (s : MonitorState) :
    (deBody P T i rp s).2.emergencyReset = true
      ↔ realThroughputMbps rp < P.emergencyResetThreshold ∧ 2 ≤ s.emergencyResetCounter := by
  simp only [deBody]
  rw [emergencyReset_fires_iff]
  simp

theorem deBody_counter (P : StallProfile) (T : DETuning) (i : TickInput)
    (rp : List PartTime) (s : MonitorState) :
    (deBody P T i rp s).1.emergencyResetCounter
      = if realThroughputMbps rp < P.emergencyResetThreshold then
          (if 2 ≤ s.emergencyResetCounter then 0 else s.emergencyResetCounter + 1)
        else 0 := by
  simp only [deBody, throttledFallback_emergencyResetCounter]
  rw [emergencyReset_counter]
  simp

theorem deBody_reset_outcome (P : StallProfile) (T : DETuning) (i : TickInput)
    (rp : List PartTime) (s : MonitorState)
    (h : (deBody P T i rp s).2.emergencyReset = true) :
    ResetOutcome P (deBody P T i rp s) := by
  simp only [deBody] at h
  have hf := emergencyReset_fired _ _ _ _ _ h
  constructor
  · simp only [deBody, throttledFallback_peakPerformanceDetected]; exact hf.1
  · simp only [deBody, throttledFallback_lockedPerformance]; exact hf.2.1
  · simp only [deBody, throttledFallback_peakResetState]; exact hf.2.2.1
  · simp only [deBody, throttledFallback_strongPerformanceSamples]; exact hf.2.2.2.1
  · simp only [deBody, throttledFallback_emergencyResetCounter]; exact hf.2.2.2.2.1
  · intro hfb
    simp only [deBody] at hfb ⊢
    rw [throttledFallback_parallel_of_not_applied _ _ _ hfb]
    exact hf.2.2.2.2.2

theorem deTick_of_evaluated (P : StallProfile) (T : DETuning) (s : MonitorState)
    (i : TickInput) (h : (deTick P T s i).2.evaluated = true) :
    deTick P T s i = deBody P T i (sliceLast i.partTimes T.recentWindow) s := by
  unfold deTick at h ⊢
  split_ifs at h ⊢
  rfl

theorem deTick_emergency_evaluated (P : StallProfile) (T : DETuning) (s : MonitorState)
    (i : TickInput) (h : (deTick P T s i).2.emergencyReset = true) :
    (deTick P T s i).2.evaluated = true := by
  unfold deTick at h ⊢
  split_ifs at h ⊢
  all_goals rfl

/-! ### Fiber -/

theorem fiberAfterDecay_emergency_iff (i : TickInput) (rp : List PartTime) (sm cT : ℚ)
    (s : MonitorState) :
    (fiberAfterDecay i rp sm cT s).2.emergencyReset = true
      ↔ cT < FIBER_PROFILE.emergencyResetThreshold ∧ 2 ≤ s.emergencyResetCounter := by
  simp only [fiberAfterDecay]
  rw [emergencyReset_fires_iff]
  simp

theorem fiberAfterDecay_counter (i : TickInput) (rp : List PartTime) (sm cT : ℚ)
    (s : MonitorState) :
    (fiberAfterDecay i rp sm cT s).1.emergencyResetCounter
      = if cT < FIBER_PROFILE.emergencyResetThreshold then
          (if 2 ≤ s.emergencyResetCounter then 0 else s.emergencyResetCounter + 1)
        else 0 := by
  simp only [fiberAfterDecay, throttledFallback_emergencyResetCounter]
  rw [emergencyReset_counter]
  simp

theorem fiberAfterDecay_reset_outcome (i : TickInput) (rp : List PartTime) (sm cT : ℚ)
    (s : MonitorState) (h : (fiberAfterDecay i rp sm cT s).2.emergencyReset = true) :
    ResetOutcome FIBER_PROFILE (fiberAfterDecay i rp sm cT s) := by
  simp only [fiberAfterDecay] at h
  have hf := emergencyReset_fired _ _ _ _ _ h
  constructor
  · simp only [fiberAfterDecay, throttledFallback_peakPerformanceDetected]; exact hf.1
  · simp only [fiberAfterDecay, throttledFallback_lockedPerformance]; exact hf.2.1
  · simp only [fiberAfterDecay, throttledFallback_peakResetState]; exact hf.2.2.1
  · simp only [fiberAfterDecay, throttledFallback_strongPerformanceSamples]; exact hf.2.2.2.1
  · simp only [fiberAfterDecay, throttledFallback_emergencyResetCounter]; exact hf.2.2.2.2.1
  · intro hfb
    simp only [fiberAfterDecay] at hfb ⊢
    rw [throttledFallback_parallel_of_not_applied _ _ _ hfb]
    exact hf.2.2.2.2.2

theorem fiberBody_of_threw (i : TickInput) (rp : List PartTime) (s : MonitorState)
    (h : (fiberDecayResult i rp s).2.threw = true) :
    (fiberBody i rp s).1 = (fiberDecayResult i rp s).1
      ∧ (fiberBody i rp s).2.monitorError = true
      ∧ (fiberBody i rp s).2.emergencyReset = false
      ∧ (fiberBody i rp s).2.fallbackMode = false
      ∧ (fiberBody i rp s).2.noProgress = false := by
  unfold fiberDecayResult at h
  unfold fiberBody fiberDecayResult
  simp only [h, if_true]
  simp

theorem fiberBody_of_not_threw (i : TickInput) (rp : List PartTime) (s : MonitorState)
    (h : (fiberDecayResult i rp s).2.threw = false) :
    (fiberBody i rp s).1
        = (fiberAfterDecay i rp (smoothedPartSpeed (recordAvgPartSpeed 5 rp s))
            (realThroughputMbps rp) (fiberDecayResult i rp s).1).1
      ∧ (fiberBody i rp s).2.monitorError = false
      ∧ (fiberBody i rp s).2.emergencyReset
        = (fiberAfterDecay i rp (smoothedPartSpeed (recordAvgPartSpeed 5 rp s))
            (realThroughputMbps rp) (fiberDecayResult i rp s).1).2.emergencyReset
      ∧ (fiberBody i rp s).2.fallbackMode
        = (fiberAfterDecay i rp (smoothedPartSpeed (recordAvgPartSpeed 5 rp s))
            (realThroughputMbps rp) (fiberDecayResult i rp s).1).2.fallbackMode
      ∧ (fiberBody i rp s).2.noProgress
        = (fiberAfterDecay i rp (smoothedPartSpeed (recordAvgPartSpeed 5 rp s))
            (realThroughputMbps rp) (fiberDecayResult i rp s).1).2.noProgress := by
  unfold fiberDecayResult at h
  unfold fiberBody fiberDecayResult
  simp only [h, Bool.false_eq_true, if_false]
  simp [fiberAfterDecay]

theorem fiberBody_monitorError (i : TickInput) (rp : List PartTime) (s : MonitorState) :
    (fiberBody i rp s).2.monitorError = (fiberDecayResult i rp s).2.threw := by
  cases h : (fiberDecayResult i rp s).2.threw
  · exact (fiberBody_of_not_threw i rp s h).2.1
  · exact (fiberBody_of_threw i rp s h).2.1

theorem fiberDecayResult_counter (i : TickInput) (rp : List PartTime) (s : MonitorState) :
    (fiberDecayResult i rp s).1.emergencyResetCounter = s.emergencyResetCounter := by
  simp [fiberDecayResult]

theorem fiberBody_reset_outcome (i : TickInput) (rp : List PartTime) (s : MonitorState)
    (h : (fiberBody i rp s).2.emergencyReset = true) :
    ResetOutcome FIBER_PROFILE (fiberBody i rp s) := by
  cases hth : (fiberDecayResult i rp s).2.threw
  · have he := fiberBody_of_not_threw i rp s hth
    rw [he.2.2.1] at h
    have ho := fiberAfterDecay_reset_outcome i rp _ _ _ h
    refine ⟨?_, ?_, ?_, ?_, ?_, ?_⟩
    · rw [he.1]; exact ho.peak
    · rw [he.1]; exact ho.locked
    · rw [he.1]; exact ho.phase
    · rw [he.1]; exact ho.strong
    · rw [he.1]; exact ho.counter
    · rw [he.1, he.2.2.2.1]; exact ho.parallel
  · have he := fiberBody_of_threw i rp s hth
    rw [he.2.2.1] at h
    exact absurd h (by simp)

/-- In the fiber monitor a tick that throws skips the emergency step: the counter keeps
its value and no reset fires. -/
theorem fiberBody_threw (i : TickInput) (rp : List PartTime) (s : MonitorState)
    (h : (fiberBody i rp s).2.monitorError = true) :
    (fiberBody i rp s).2.emergencyReset = false
      ∧ (fiberBody i rp s).1.emergencyResetCounter = s.emergencyResetCounter := by
  rw [fiberBody_monitorError] at h
  have he := fiberBody_of_threw i rp s h
  exact ⟨he.2.2.1, by rw [he.1, fiberDecayResult_counter]⟩

/-- In the fiber monitor a tick that does not throw counts like the others. -/
theorem fiberBody_emergency_of_no_throw (i : TickInput) (rp : List PartTime)
    (s : MonitorState) (h : (fiberBody i rp s).2.monitorError = false) :
    ((fiberBody i rp s).2.emergencyReset = true
        ↔ realThroughputMbps rp < FIBER_PROFILE.emergencyResetThreshold
          ∧ 2 ≤ s.emergencyResetCounter)
      ∧ (fiberBody i rp s).1.emergencyResetCounter
        = if realThroughputMbps rp < FIBER_PROFILE.emergencyResetThreshold then
            (if 2 ≤ s.emergencyResetCounter then 0 else s.emergencyResetCounter + 1)
          else 0 := by
  rw [fiberBody_monitorError] at h
  have he := fiberBody_of_not_threw i rp s h
  constructor
  · rw [he.2.2.1, fiberAfterDecay_emergency_iff, fiberDecayResult_counter]
  · rw [he.1, fiberAfterDecay_counter, fiberDecayResult_counter]

theorem fiberTick_of_evaluated (s : MonitorState) (i : TickInput)
    (h : (fiberTick s i).2.evaluated = true) :
    fiberTick s i = fiberBody i (sliceLast i.partTimes 8) s := by
  unfold fiberTick at h ⊢
  split_ifs at h ⊢
  rfl

theorem fiberBody_evaluated (i : TickInput) (rp : List PartTime) (s : MonitorState) :
    (fiberBody i rp s).2.evaluated = true := by
  unfold fiberBody
  simp only []
  split_ifs
  · rfl
  · simp [fiberAfterDecay]

theorem fiberTick_emergency_evaluated (s : MonitorState) (i : TickInput)
    (h : (fiberTick s i).2.emergencyReset = true) : (fiberTick s i).2.evaluated = true := by
  unfold fiberTick at h ⊢
  split_ifs at h ⊢
  exact fiberBody_evaluated _ _ _

/-! ### Gigabit and ultra -/

theorem guBody_emergency_iff (P : LockProfile) (T : GUTuning) (i : TickInput)
    (rp : List PartTime) (s : MonitorState) :
    (guBody P T i rp s).2.emergencyReset = true
      ↔ realThroughputMbps rp < P.emergencyResetThreshold ∧ 2 ≤ s.emergencyResetCounter := by
  simp only [guBody]
  rw [emergencyReset_fires_iff]
  simp

theorem guBody_counter (P : LockProfile) (T : GUTuning) (i : TickInput)
    (rp : List PartTime) (s : MonitorState) :
    (guBody P T i rp s).1.emergencyResetCounter
      = if realThroughputMbps rp < P.emergencyResetThreshold then
          (if 2 ≤ s.emergencyResetCounter then 0 else s.emergencyResetCounter + 1)
        else 0 := by
  simp only [guBody, throttledFallback_emergencyResetCounter]
  rw [emergencyReset_counter]
  simp

theorem guBody_reset_outcome (P : LockProfile) (T : GUTuning) (i : TickInput)
    (rp : List PartTime) (s : MonitorState)
    (h : (guBody P T i rp s).2.emergencyReset = true) :
    ResetOutcome P.toStallProfile (guBody P T i rp s) := by
  simp only [guBody] at h
  have hf := emergencyReset_fired _ _ _ _ _ h
  constructor
  · simp only [guBody, throttledFallback_peakPerformanceDetected]; exact hf.1
  · simp only [guBody, throttledFallback_lockedPerformance]; exact hf.2.1
  · simp only [guBody, throttledFallback_peakResetState]; exact hf.2.2.1
  · simp only [guBody, throttledFallback_strongPerformanceSamples]; exact hf.2.2.2.1
  · simp only [guBody, throttledFallback_emergencyResetCounter]; exact hf.2.2.2.2.1
  · intro hfb
    simp only [guBody] at hfb ⊢
    rw [throttledFallback_parallel_of_not_applied _ _ _ hfb]
    exact hf.2.2.2.2.2

theorem guTick_of_evaluated (P : LockProfile) (T : GUTuning) (s : MonitorState)
    (i : TickInput) (h : (guTick P T s i).2.evaluated = true) :
    guTick P T s i = guBody P T i (sliceLast i.partTimes 10) s := by
  unfold guTick at h ⊢
  split_ifs at h ⊢
  rfl

theorem guTick_emergency_evaluated (P : LockProfile) (T : GUTuning) (s : MonitorState)
    (i : TickInput) (h : (guTick P T s i).2.emergencyReset = true) :
    (guTick P T s i).2.evaluated = true := by
  unfold guTick at h ⊢
  split_ifs at h ⊢
  all_goals rfl

/-- The gigabit fallback leaves the default parallelism 16 alone: its cap is
`max(20 * 0.8, 12) = 16`. -/
theorem gigabit_fallback_keeps_default (i : TickInput) (s : MonitorState)
    (hcap : s.maxParallelCap = 20) (hpar : s.contextMaxParallel = 16) :
    (throttledFallback gigabitTuning.fallback i s).1.contextMaxParallel = 16 := by
  unfold throttledFallback
  split_ifs
  · simp only [hcap, hpar, gigabitTuning]; norm_num
  · exact hpar
  · exact hpar


/-! ### One evaluated tick and the emergency counter -/

theorem deTick_emergency_step (P : StallProfile) (T : DETuning) (s : MonitorState)
    (i : TickInput) (hev : (deTick P T s i).2.evaluated = true) :
    ((deTick P T s i).2.emergencyReset = true
        ↔ currentThroughputOf T.recentWindow i < P.emergencyResetThreshold
          ∧ 2 ≤ s.emergencyResetCounter)
      ∧ (deTick P T s i).1.emergencyResetCounter
        = if currentThroughputOf T.recentWindow i < P.emergencyResetThreshold then
            (if 2 ≤ s.emergencyResetCounter then 0 else s.emergencyResetCounter + 1)
          else 0 := by
  rw [deTick_of_evaluated P T s i hev]
  exact ⟨deBody_emergency_iff P T i _ s, deBody_counter P T i _ s⟩

theorem guTick_emergency_step (P : LockProfile) (T : GUTuning) (s : MonitorState)
    (i : TickInput) (hev : (guTick P T s i).2.evaluated = true) :
    ((guTick P T s i).2.emergencyReset = true
        ↔ currentThroughputOf 10 i < P.emergencyResetThreshold
          ∧ 2 ≤ s.emergencyResetCounter)
      ∧ (guTick P T s i).1.emergencyResetCounter
        = if currentThroughputOf 10 i < P.emergencyResetThreshold then
            (if 2 ≤ s.emergencyResetCounter then 0 else s.emergencyResetCounter + 1)
          else 0 := by
  rw [guTick_of_evaluated P T s i hev]
  exact ⟨guBody_emergency_iff P T i _ s, guBody_counter P T i _ s⟩

/-- In the DSL, enterprise, gigabit and ultra monitors an evaluated tick moves the
emergency counter as follows: a tick at or above the threshold sets it to 0 and fires
nothing; a tick below the threshold fires the reset exactly when the counter already
stands at 2 or more (and then sets it to 0), and otherwise adds 1. -/
theorem emergency_counter_step (m : Monitor) (P : StallProfile)
    (hm : m = Monitor.dsl ∨ m = Monitor.enterprise ∨ m = Monitor.gigabit ∨ m = Monitor.ultra)
    (hP : m.stallProfile = some P) (s : MonitorState) (i : TickInput)
    (hev : (m.tick s i).2.evaluated = true) :
    ((m.tick s i).2.emergencyReset = true
        ↔ m.currentThroughput i < P.emergencyResetThreshold ∧ 2 ≤ s.emergencyResetCounter)
      ∧ (m.tick s i).1.emergencyResetCounter
        = if m.currentThroughput i < P.emergencyResetThreshold then
            (if 2 ≤ s.emergencyResetCounter then 0 else s.emergencyResetCounter + 1)
          else 0 := by
  rcases hm with rfl | rfl | rfl | rfl
  · simp only [Monitor.stallProfile, Option.some.injEq] at hP; subst hP
    exact deTick_emergency_step DSL_PROFILE dslTuning s i hev
  · simp only [Monitor.stallProfile, Option.some.injEq] at hP; subst hP
    exact deTick_emergency_step ENTERPRISE_PROFILE enterpriseTuning s i hev
  · simp only [Monitor.stallProfile, Option.some.injEq] at hP; subst hP
    exact guTick_emergency_step GIGABIT_PROFILE gigabitTuning s i hev
  · simp only [Monitor.stallProfile, Option.some.injEq] at hP; subst hP
    exact guTick_emergency_step ULTRA_PROFILE ultraTuning s i hev

theorem Monitor.emergency_evaluated (m : Monitor) (s : MonitorState) (i : TickInput)
    (h : (m.tick s i).2.emergencyReset = true) : (m.tick s i).2.evaluated = true := by
  cases m
  · exact deTick_emergency_evaluated _ _ s i h
  · change (cableTick s i).2.emergencyReset = true at h
    change (cableTick s i).2.evaluated = true
    unfold cableTick at h ⊢
    split_ifs at h ⊢
    simp [cableBody] at h
  · exact fiberTick_emergency_evaluated s i h
  · exact deTick_emergency_evaluated _ _ s i h
  · exact guTick_emergency_evaluated _ _ s i h
  · exact guTick_emergency_evaluated _ _ s i h

/-- In the DSL, enterprise, gigabit and ultra monitors, starting with the emergency
counter at 0 (as it is at creation, after a reset and after any evaluated tick at or above
the threshold), three consecutive evaluated ticks below the threshold fire the reset on the
third tick and not on the first two, and whatever tick comes fourth fires none. -/
theorem emergency_reset_on_third_low_tick (m : Monitor) (P : StallProfile)
    (hm : m = Monitor.dsl ∨ m = Monitor.enterprise ∨ m = Monitor.gigabit ∨ m = Monitor.ultra)
    (hP : m.stallProfile = some P) (s : MonitorState) (i1 i2 i3 : TickInput)
    (h0 : s.emergencyResetCounter = 0)
    (hev1 : (m.tick s i1).2.evaluated = true)
    (hev2 : (m.tick (m.tick s i1).1 i2).2.evaluated = true)
    (hev3 : (m.tick (m.tick (m.tick s i1).1 i2).1 i3).2.evaluated = true)
    (hlow1 : m.currentThroughput i1 < P.emergencyResetThreshold)
    (hlow2 : m.currentThroughput i2 < P.emergencyResetThreshold)
    (hlow3 : m.currentThroughput i3 < P.emergencyResetThreshold) :
    (m.tick s i1).2.emergencyReset = false
      ∧ (m.tick (m.tick s i1).1 i2).2.emergencyReset = false
      ∧ (m.tick (m.tick (m.tick s i1).1 i2).1 i3).2.emergencyReset = true
      ∧ ∀ i4, (m.tick (m.tick (m.tick (m.tick s i1).1 i2).1 i3).1 i4).2.emergencyReset
          = false := by
  have s1 := emergency_counter_step m P hm hP s i1 hev1
  have s2 := emergency_counter_step m P hm hP _ i2 hev2
  have s3 := emergency_counter_step m P hm hP _ i3 hev3
  have c1 : (m.tick s i1).1.emergencyResetCounter = 1 := by
    rw [s1.2, if_pos hlow1, h0]; rfl
  have c2 : (m.tick (m.tick s i1).1 i2).1.emergencyResetCounter = 2 := by
    rw [s2.2, if_pos hlow2, c1]; rfl
  have c3 : (m.tick (m.tick (m.tick s i1).1 i2).1 i3).1.emergencyResetCounter = 0 := by
    rw [s3.2, if_pos hlow3, c2]; rfl
  refine ⟨?_, ?_, ?_, ?_⟩
  · rw [Bool.eq_false_iff]; intro h; have := (s1.1.1 h).2; omega
  · rw [Bool.eq_false_iff]; intro h; have := (s2.1.1 h).2; omega
  · exact s3.1.2 ⟨hlow3, by omega⟩
  · intro i4
    rw [Bool.eq_false_iff]
    intro h
    have s4 := emergency_counter_step m P hm hP _ i4 (Monitor.emergency_evaluated m _ i4 h)
    have := (s4.1.1 h).2
    omega

/-! ### Claim C5: the fiber monitor misses the third low tick -/

/-- C5, at the failing input. The fiber monitor sees 512 Mbps, then three consecutive
evaluated ticks at 4 Mbps (threshold 12) more than 90 s after the peak: each of these ticks
ends in the `catch` handler before the emergency step, so no reset fires on the third (nor
on any) of them, the counter stays 0 and the peak stays detected. -/
theorem fiber_emergency_reset_missed :
    (fiberCollapse.map Monitor.fiber.currentThroughput = [512, 4, 4, 4])
      ∧ FIBER_PROFILE.emergencyResetThreshold = 12
      ∧ (eventsAt fiberTick (Monitor.fiber.start ⟨100⟩ 0) fiberCollapse 1).evaluated = true
      ∧ (eventsAt fiberTick (Monitor.fiber.start ⟨100⟩ 0) fiberCollapse 2).evaluated = true
      ∧ (eventsAt fiberTick (Monitor.fiber.start ⟨100⟩ 0) fiberCollapse 3).evaluated = true
      ∧ (eventsAt fiberTick (Monitor.fiber.start ⟨100⟩ 0) fiberCollapse 1).monitorError = true
      ∧ (eventsAt fiberTick (Monitor.fiber.start ⟨100⟩ 0) fiberCollapse 2).monitorError = true
      ∧ (eventsAt fiberTick (Monitor.fiber.start ⟨100⟩ 0) fiberCollapse 3).monitorError = true
      ∧ (eventsAt fiberTick (Monitor.fiber.start ⟨100⟩ 0) fiberCollapse 3).emergencyReset
          = false
      ∧ (stateAt fiberTick (Monitor.fiber.start ⟨100⟩ 0) fiberCollapse 3).emergencyResetCounter
          = 0
      ∧ (stateAt fiberTick (Monitor.fiber.start ⟨100⟩ 0) fiberCollapse
          3).peakPerformanceDetected = true := by
  decide!

/-! ### Claim C6 -/

theorem deTick_reset_outcome (P : StallProfile) (T : DETuning) (s : MonitorState)
    (i : TickInput) (h : (deTick P T s i).2.emergencyReset = true) :
    ResetOutcome P (deTick P T s i) := by
  have hev := deTick_emergency_evaluated P T s i h
  rw [deTick_of_evaluated P T s i hev] at h ⊢
  exact deBody_reset_outcome P T i _ s h

theorem fiberTick_reset_outcome (s : MonitorState) (i : TickInput)
    (h : (fiberTick s i).2.emergencyReset = true) :
    ResetOutcome FIBER_PROFILE (fiberTick s i) := by
  have hev := fiberTick_emergency_evaluated s i h
  rw [fiberTick_of_evaluated s i hev] at h ⊢
  exact fiberBody_reset_outcome i _ s h

theorem guTick_reset_outcome (P : LockProfile) (T : GUTuning) (s : MonitorState)
    (i : TickInput) (h : (guTick P T s i).2.emergencyReset = true) :
    ResetOutcome P.toStallProfile (guTick P T s i) := by
  have hev := guTick_emergency_evaluated P T s i h
  rw [guTick_of_evaluated P T s i hev] at h ⊢
  exact guBody_reset_outcome P T i _ s h

theorem gigabitTick_reset_parallel (s : MonitorState) (i : TickInput)
    (hcap : s.maxParallelCap = 20) (h : (gigabitTick s i).2.emergencyReset = true) :
    (gigabitTick s i).1.contextMaxParallel = 16 := by
  unfold gigabitTick at h ⊢
  have hev := guTick_emergency_evaluated _ _ s i h
  rw [guTick_of_evaluated _ _ s i hev] at h ⊢
  simp only [guBody] at h ⊢
  have hf := emergencyReset_fired _ _ _ _ _ h
  refine gigabit_fallback_keeps_default _ _ ?_ ?_
  · simpa using hcap
  · rw [hf.2.2.2.2.2]; rfl

theorem enterpriseTick_reset_reached (connectionInfo : ConnectionInfo) (createdAt : Int)
    (inputs : List TickInput) (i : TickInput)
    (hfire : (enterpriseTick (Monitor.enterprise.reached connectionInfo createdAt inputs)
      i).2.emergencyReset = true) :
    ResetOutcome ENTERPRISE_PROFILE
        (enterpriseTick (Monitor.enterprise.reached connectionInfo createdAt inputs) i)
      ∧ (enterpriseTick (Monitor.enterprise.reached connectionInfo createdAt inputs)
          i).1.contextMaxParallel = ENTERPRISE_PROFILE.parallel := by
  have ho := deTick_reset_outcome ENTERPRISE_PROFILE enterpriseTuning _ i hfire
  refine ⟨ho, ho.parallel ?_⟩
  exact (deTick_partSize_grow ENTERPRISE_PROFILE enterpriseTuning _ i rfl (by
    rw [show (Monitor.enterprise.reached connectionInfo createdAt inputs).partSize
      = 40 * 1024 * 1024 from
        (enterprise_strategy_constant connectionInfo createdAt inputs).1]
    decide)).2

theorem throttledFallback_parallel_bounds (R : FallbackRule) (i : TickInput)
    (s : MonitorState) (lo : ℚ) (h1 : lo ≤ s.contextMaxParallel) (h2 : lo ≤ R.capFloor) :
    lo ≤ (throttledFallback R i s).1.contextMaxParallel
      ∧ (throttledFallback R i s).1.contextMaxParallel ≤ s.contextMaxParallel := by
  unfold throttledFallback
  split_ifs
  · exact ⟨le_min h1 (le_trans h2 (le_max_right _ _)), min_le_left _ _⟩
  · exact ⟨h1, le_refl _⟩
  · exact ⟨h1, le_refl _⟩

/-- A DSL tick on which the emergency reset fires ends with the parallelism between
`DSL_PROFILE.minParallel` and `DSL_PROFILE.parallel`, whether or not the fallback block is
applied after the reset. -/
theorem dslTick_reset_parallel_bounds (s : MonitorState) (i : TickInput)
    (h : (dslTick s i).2.emergencyReset = true) :
    DSL_PROFILE.minParallel ≤ (dslTick s i).1.contextMaxParallel
      ∧ (dslTick s i).1.contextMaxParallel ≤ DSL_PROFILE.parallel := by
  unfold dslTick at h ⊢
  have hev := deTick_emergency_evaluated _ _ s i h
  rw [deTick_of_evaluated _ _ s i hev] at h ⊢
  simp only [deBody] at h ⊢
  have hf := emergencyReset_fired _ _ _ _ _ h
  have hb := throttledFallback_parallel_bounds dslTuning.fallback i _ DSL_PROFILE.minParallel
    (by rw [hf.2.2.2.2.2]; decide!) (by decide!)
  refine ⟨hb.1, le_trans hb.2 ?_⟩
  rw [hf.2.2.2.2.2]

theorem StallProfile.bounds_of_eq (P : StallProfile) (x : ℚ) (hP : P.minParallel ≤ P.parallel)
    (h : x = P.parallel) : P.minParallel ≤ x ∧ x ≤ P.parallel := by
  rw [h]; exact ⟨hP, le_refl _⟩

/-- C6, amended. In every monitor with an emergency reset, started from its own strategy,
at the end of any tick in which the reset fires the peak and the lock are cleared, the
phase is "stable", the strong-sample and emergency counters are 0, and the parallelism is
at least `profile.minParallel` and at most `profile.parallel`. The parallelism equals
`profile.parallel` on every such tick of the enterprise, fiber, gigabit and ultra
monitors, and on every such tick of the DSL monitor on which the throttled-network
fallback is not applied after the reset. -/
theorem emergency_reset_outcome (m : Monitor) (P : StallProfile)
    (hP : m.stallProfile = some P) (connectionInfo : ConnectionInfo) (createdAt : Int)
    (inputs : List TickInput) (i : TickInput)
    (hfire : (m.tick (m.reached connectionInfo createdAt inputs) i).2.emergencyReset = true) :
    (m.tick (m.reached connectionInfo createdAt inputs) i).1.peakPerformanceDetected = false
      ∧ (m.tick (m.reached connectionInfo createdAt inputs) i).1.lockedPerformance = false
      ∧ (m.tick (m.reached connectionInfo createdAt inputs) i).1.peakResetState
          = PeakResetState.stable
      ∧ (m.tick (m.reached connectionInfo createdAt inputs) i).1.strongPerformanceSamples = 0
      ∧ (m.tick (m.reached connectionInfo createdAt inputs) i).1.emergencyResetCounter = 0
      ∧ P.minParallel
          ≤ (m.tick (m.reached connectionInfo createdAt inputs) i).1.contextMaxParallel
      ∧ (m.tick (m.reached connectionInfo createdAt inputs) i).1.contextMaxParallel
          ≤ P.parallel
      ∧ (m ≠ Monitor.dsl →
          (m.tick (m.reached connectionInfo createdAt inputs) i).1.contextMaxParallel
            = P.parallel)
      ∧ ((m.tick (m.reached connectionInfo createdAt inputs) i).2.fallbackMode = false →
          (m.tick (m.reached connectionInfo createdAt inputs) i).1.contextMaxParallel
            = P.parallel) := by
  cases m
  · simp only [Monitor.stallProfile, Option.some.injEq] at hP; subst hP
    have ho := deTick_reset_outcome DSL_PROFILE dslTuning _ i hfire
    obtain ⟨hb1, hb2⟩ := dslTick_reset_parallel_bounds _ i hfire
    exact ⟨ho.peak, ho.locked, ho.phase, ho.strong, ho.counter, hb1, hb2,
      fun h => absurd rfl h, ho.parallel⟩
  · simp [Monitor.stallProfile] at hP
  · simp only [Monitor.stallProfile, Option.some.injEq] at hP; subst hP
    have ho := fiberTick_reset_outcome _ i hfire
    have hp : (Monitor.fiber.tick (Monitor.fiber.reached connectionInfo createdAt inputs)
        i).1.contextMaxParallel = FIBER_PROFILE.parallel :=
      ho.parallel ((fiberTick_partSize _ i (by
        rw [show (Monitor.fiber.reached connectionInfo createdAt inputs).partSize
          = 75 * 1024 * 1024 from (fiber_strategy_constant connectionInfo createdAt inputs).1]
        decide)).2)
    obtain ⟨hb1, hb2⟩ := StallProfile.bounds_of_eq FIBER_PROFILE _ (by decide!) hp
    exact ⟨ho.peak, ho.locked, ho.phase, ho.strong, ho.counter, hb1, hb2,
      fun _ => hp, fun _ => hp⟩
  · simp only [Monitor.stallProfile, Option.some.injEq] at hP; subst hP
    obtain ⟨ho, hp⟩ := enterpriseTick_reset_reached connectionInfo createdAt inputs i hfire
    obtain ⟨hb1, hb2⟩ := StallProfile.bounds_of_eq ENTERPRISE_PROFILE _ (by decide!) hp
    exact ⟨ho.peak, ho.locked, ho.phase, ho.strong, ho.counter, hb1, hb2,
      fun _ => hp, fun _ => hp⟩
  · simp only [Monitor.stallProfile, Option.some.injEq] at hP; subst hP
    have ho := guTick_reset_outcome GIGABIT_PROFILE gigabitTuning _ i hfire
    have hp : (Monitor.gigabit.tick (Monitor.gigabit.reached connectionInfo createdAt inputs)
        i).1.contextMaxParallel = GIGABIT_PROFILE.toStallProfile.parallel :=
      gigabitTick_reset_parallel _ i
        (gigabit_cap_constant connectionInfo createdAt inputs) hfire
    obtain ⟨hb1, hb2⟩ :=
      StallProfile.bounds_of_eq GIGABIT_PROFILE.toStallProfile _ (by decide!) hp
    exact ⟨ho.peak, ho.locked, ho.phase, ho.strong, ho.counter, hb1, hb2,
      fun _ => hp, fun _ => hp⟩
  · simp only [Monitor.stallProfile, Option.some.injEq] at hP; subst hP
    have ho := guTick_reset_outcome ULTRA_PROFILE ultraTuning _ i hfire
    have hp : (Monitor.ultra.tick (Monitor.ultra.reached connectionInfo createdAt inputs)
        i).1.contextMaxParallel = ULTRA_PROFILE.toStallProfile.parallel :=
      ho.parallel ((guTick_partSize_grow ULTRA_PROFILE ultraTuning _ i rfl (by
        rw [show (Monitor.ultra.reached connectionInfo createdAt inputs).partSize
          = 200 * 1024 * 1024 from (ultra_strategy_constant connectionInfo createdAt inputs).1]
        decide)).2)
    obtain ⟨hb1, hb2⟩ :=
      StallProfile.bounds_of_eq ULTRA_PROFILE.toStallProfile _ (by decide!) hp
    exact ⟨ho.peak, ho.locked, ho.phase, ho.strong, ho.counter, hb1, hb2,
      fun _ => hp, fun _ => hp⟩

/-- The theorem at two inputs. On the enterprise monitor the third tick below the
threshold fires the reset and the tick ends at the default 6. On the DSL monitor with
enough bytes uploaded (no throttled network) the third tick at 1.6 Mbps fires the reset,
the fallback is not applied, and the tick ends at the default 2. -/
theorem emergency_reset_outcome_witness :
    ((Monitor.enterprise.tick
        (Monitor.enterprise.reached ⟨100⟩ 0
          [sampleInput 2500 (sampleParts 10 6.25 1000) 10000000000,
           sampleInput 5000 (sampleParts 10 0.125 4000) 10000000000,
           sampleInput 7500 (sampleParts 10 0.125 4000) 10000000000])
        (sampleInput 10000 (sampleParts 10 0.125 4000) 10000000000)).2.emergencyReset = true
      ∧ (Monitor.enterprise.tick
        (Monitor.enterprise.reached ⟨100⟩ 0
          [sampleInput 2500 (sampleParts 10 6.25 1000) 10000000000,
           sampleInput 5000 (sampleParts 10 0.125 4000) 10000000000,
           sampleInput 7500 (sampleParts 10 0.125 4000) 10000000000])
        (sampleInput 10000 (sampleParts 10 0.125 4000) 10000000000)).1.contextMaxParallel
          = ENTERPRISE_PROFILE.parallel)
      ∧ ((Monitor.dsl.tick
        (Monitor.dsl.reached ⟨3⟩ 30000
          [sampleInput 64000 (sampleParts 2 0.1 60000) 10000000000,
           sampleInput 68000 (sampleParts 2 0.1 60000) 10000000000])
        (sampleInput 72000 (sampleParts 2 0.1 60000) 10000000000)).2.emergencyReset = true
      ∧ (Monitor.dsl.tick
        (Monitor.dsl.reached ⟨3⟩ 30000
          [sampleInput 64000 (sampleParts 2 0.1 60000) 10000000000,
           sampleInput 68000 (sampleParts 2 0.1 60000) 10000000000])
        (sampleInput 72000 (sampleParts 2 0.1 60000) 10000000000)).2.fallbackMode = false
      ∧ (Monitor.dsl.tick
        (Monitor.dsl.reached ⟨3⟩ 30000
          [sampleInput 64000 (sampleParts 2 0.1 60000) 10000000000,
           sampleInput 68000 (sampleParts 2 0.1 60000) 10000000000])
        (sampleInput 72000 (sampleParts 2 0.1 60000) 10000000000)).1.contextMaxParallel
          = DSL_PROFILE.parallel) :=
  ⟨⟨by decide!,
    (emergency_reset_outcome Monitor.enterprise ENTERPRISE_PROFILE rfl ⟨100⟩ 0
      [sampleInput 2500 (sampleParts 10 6.25 1000) 10000000000,
       sampleInput 5000 (sampleParts 10 0.125 4000) 10000000000,
       sampleInput 7500 (sampleParts 10 0.125 4000) 10000000000]
      (sampleInput 10000 (sampleParts 10 0.125 4000) 10000000000) (by decide!)).2.2.2.2.2.2.2.1
      (by decide)⟩,
   ⟨by decide!, by decide!,
    (emergency_reset_outcome Monitor.dsl DSL_PROFILE rfl ⟨3⟩ 30000
      [sampleInput 64000 (sampleParts 2 0.1 60000) 10000000000,
       sampleInput 68000 (sampleParts 2 0.1 60000) 10000000000]
      (sampleInput 72000 (sampleParts 2 0.1 60000) 10000000000) (by decide!)).2.2.2.2.2.2.2.2
      (by decide!)⟩⟩

/-- C6, counterexample. In the DSL monitor started from its own strategy, the third of
three ticks at 1.6 Mbps fires the emergency reset, and on the same tick the fallback block
lowers the parallelism again: the tick ends with parallelism 6/5, not `DSL_PROFILE.parallel`
(2). -/
theorem dsl_reset_then_fallback :
    (eventsAt dslTick (Monitor.dsl.start ⟨3⟩ 30000) dslSlowStart 2).emergencyReset = true
      ∧ (eventsAt dslTick (Monitor.dsl.start ⟨3⟩ 30000) dslSlowStart 2).fallbackMode = true
      ∧ (stateAt dslTick (Monitor.dsl.start ⟨3⟩ 30000) dslSlowStart 2).contextMaxParallel
          = 6 / 5
      ∧ (stateAt dslTick (Monitor.dsl.start ⟨3⟩ 30000) dslSlowStart 2).contextMaxParallel
          ≠ DSL_PROFILE.parallel := by
  decide!

/-! ### Claim C7 -/

/-- C7, counterexample. The enterprise monitor sees 500 Mbps and then three consecutive
evaluated ticks at 20 Mbps: 20 is not below `emergencyResetThreshold = 15`, so no reset
fires and the peak is still detected after the third tick. -/
theorem enterprise_collapse_to_20_no_reset :
    (collapseTo20.map Monitor.enterprise.currentThroughput = [500, 20, 20, 20])
      ∧ ENTERPRISE_PROFILE.emergencyResetThreshold = 15
      ∧ (eventsAt enterpriseTick (Monitor.enterprise.start ⟨100⟩ 0) collapseTo20 1).evaluated
          = true
      ∧ (eventsAt enterpriseTick (Monitor.enterprise.start ⟨100⟩ 0) collapseTo20 2).evaluated
          = true
      ∧ (eventsAt enterpriseTick (Monitor.enterprise.start ⟨100⟩ 0) collapseTo20 3).evaluated
          = true
      ∧ (eventsAt enterpriseTick (Monitor.enterprise.start ⟨100⟩ 0) collapseTo20
          3).emergencyReset = false
      ∧ (stateAt enterpriseTick (Monitor.enterprise.start ⟨100⟩ 0) collapseTo20
          3).peakPerformanceDetected = true := by
  decide!

/-- C7, amended. Scenario C on the enterprise monitor (`emergencyResetThreshold = 15`,
default parallelism 6): from any state reached by the monitor, after an evaluated tick at
500 Mbps, three consecutive evaluated ticks whose throughput is below 15 Mbps fire the
emergency reset on the third tick and on neither of the first two; after the third tick
the peak is unlocked and the parallelism is 6. -/
theorem enterprise_collapse_resets (connectionInfo : ConnectionInfo) (createdAt : Int)
    (inputs : List TickInput) (i0 i1 i2 i3 : TickInput)
    (hev0 : (enterpriseTick (Monitor.enterprise.reached connectionInfo createdAt inputs)
      i0).2.evaluated = true)
    (hhigh : Monitor.enterprise.currentThroughput i0 = 500)
    (hev1 : (enterpriseTick (Monitor.enterprise.reached connectionInfo createdAt
      (inputs ++ [i0])) i1).2.evaluated = true)
    (hev2 : (enterpriseTick (Monitor.enterprise.reached connectionInfo createdAt
      (inputs ++ [i0, i1])) i2).2.evaluated = true)
    (hev3 : (enterpriseTick (Monitor.enterprise.reached connectionInfo createdAt
      (inputs ++ [i0, i1, i2])) i3).2.evaluated = true)
    (hlow1 : Monitor.enterprise.currentThroughput i1 < 15)
    (hlow2 : Monitor.enterprise.currentThroughput i2 < 15)
    (hlow3 : Monitor.enterprise.currentThroughput i3 < 15) :
    (enterpriseTick (Monitor.enterprise.reached connectionInfo createdAt
        (inputs ++ [i0])) i1).2.emergencyReset = false
      ∧ (enterpriseTick (Monitor.enterprise.reached connectionInfo createdAt
        (inputs ++ [i0, i1])) i2).2.emergencyReset = false
      ∧ (enterpriseTick (Monitor.enterprise.reached connectionInfo createdAt
        (inputs ++ [i0, i1, i2])) i3).2.emergencyReset = true
      ∧ (Monitor.enterprise.reached connectionInfo createdAt
        (inputs ++ [i0, i1, i2, i3])).peakPerformanceDetected = false
      ∧ (Monitor.enterprise.reached connectionInfo createdAt
        (inputs ++ [i0, i1, i2, i3])).lockedPerformance = false
      ∧ (Monitor.enterprise.reached connectionInfo createdAt
        (inputs ++ [i0, i1, i2, i3])).contextMaxParallel = 6 := by
  have e1 : inputs ++ [i0, i1] = (inputs ++ [i0]) ++ [i1] := by simp
  have e2 : inputs ++ [i0, i1, i2] = ((inputs ++ [i0]) ++ [i1]) ++ [i2] := by simp
  have e3 : inputs ++ [i0, i1, i2, i3] = (((inputs ++ [i0]) ++ [i1]) ++ [i2]) ++ [i3] := by
    simp
  have r1 : Monitor.enterprise.reached connectionInfo createdAt (inputs ++ [i0, i1])
      = (enterpriseTick (Monitor.enterprise.reached connectionInfo createdAt
          (inputs ++ [i0])) i1).1 := by
    rw [e1]; exact finalState_append _ _ _ _
  have r2 : Monitor.enterprise.reached connectionInfo createdAt (inputs ++ [i0, i1, i2])
      = (enterpriseTick (enterpriseTick (Monitor.enterprise.reached connectionInfo createdAt
          (inputs ++ [i0])) i1).1 i2).1 := by
    rw [← r1, e2, ← e1]; exact finalState_append _ _ _ _
  have r3 : Monitor.enterprise.reached connectionInfo createdAt (inputs ++ [i0, i1, i2, i3])
      = (enterpriseTick (enterpriseTick (enterpriseTick
          (Monitor.enterprise.reached connectionInfo createdAt (inputs ++ [i0])) i1).1 i2).1
          i3).1 := by
    rw [← r2, e3, ← e2]; exact finalState_append _ _ _ _
  have r0 : Monitor.enterprise.reached connectionInfo createdAt (inputs ++ [i0])
      = (enterpriseTick (Monitor.enterprise.reached connectionInfo createdAt inputs) i0).1 :=
    finalState_append _ _ _ _
  have hc0 : (Monitor.enterprise.reached connectionInfo createdAt
      (inputs ++ [i0])).emergencyResetCounter = 0 := by
    rw [r0]
    have := (emergency_counter_step Monitor.enterprise ENTERPRISE_PROFILE
      (Or.inr (Or.inl rfl)) rfl _ i0 hev0).2
    rw [hhigh] at this
    refine Eq.trans this ?_
    norm_num [ENTERPRISE_PROFILE]
  rw [r2] at hev3
  rw [r1] at hev2
  have hthree := emergency_reset_on_third_low_tick Monitor.enterprise ENTERPRISE_PROFILE
    (Or.inr (Or.inl rfl)) rfl _ i1 i2 i3 hc0 hev1 hev2 hev3 hlow1 hlow2 hlow3
  rw [r1, r2, r3]
  refine ⟨hthree.1, hthree.2.1, hthree.2.2.1, ?_⟩
  obtain ⟨ho, hp⟩ := enterpriseTick_reset_reached connectionInfo createdAt
    (inputs ++ [i0, i1, i2]) i3 (by rw [r2]; exact hthree.2.2.1)
  rw [r2] at ho hp
  refine ⟨ho.peak, ho.locked, ?_⟩
  rw [hp]
  rfl

theorem enterprise_collapse_resets_witness :
    Monitor.enterprise.currentThroughput
        (sampleInput 2500 (sampleParts 10 6.25 1000) 10000000000) = 500
      ∧ Monitor.enterprise.currentThroughput
        (sampleInput 5000 (sampleParts 10 0.125 4000) 10000000000) < 15
      ∧ (Monitor.enterprise.reached ⟨100⟩ 0 ([] ++ collapseTo10)).contextMaxParallel = 6 :=
  ⟨by decide!, by decide!,
    (enterprise_collapse_resets ⟨100⟩ 0 []
      (sampleInput 2500 (sampleParts 10 6.25 1000) 10000000000)
      (sampleInput 5000 (sampleParts 10 0.125 4000) 10000000000)
      (sampleInput 7500 (sampleParts 10 0.125 4000) 10000000000)
      (sampleInput 10000 (sampleParts 10 0.125 4000) 10000000000)
      (by decide!) (by decide!) (by decide!) (by decide!) (by decide!)
      (by decide!) (by decide!) (by decide!)).2.2.2.2.2⟩

/-! ### Claim C1: the parallelism bound and the DSL fallback -/

/-- C1, failing input. The DSL monitor is started from the strategy
`createDslUploadStrategy` returns, with parallelism `strategy.maxParallel = 2`. On the
first tick the throttled-network fallback sets the parallelism to
`min(2, max(2 * 0.6, 1)) = 6/5`; on the second tick, 20 s later, the scale-up branch sees
`6/5 < maxParallelCap = 2` and increments it to `11/5`, which is above
`DSL_PROFILE.maxCap = 2`. -/
theorem dsl_parallelism_exceeds_cap :
    clockNonDecreasing dslFallbackThenScaleUp
      ∧ (Monitor.dsl.start ⟨3⟩ 30000).contextMaxParallel
          = (createDslUploadStrategy ⟨3⟩).maxParallel
      ∧ (eventsAt dslTick (Monitor.dsl.start ⟨3⟩ 30000) dslFallbackThenScaleUp 0).fallbackMode
          = true
      ∧ (stateAt dslTick (Monitor.dsl.start ⟨3⟩ 30000) dslFallbackThenScaleUp
          0).contextMaxParallel = 6 / 5
      ∧ (eventsAt dslTick (Monitor.dsl.start ⟨3⟩ 30000) dslFallbackThenScaleUp 1).scaleUp
          = true
      ∧ Monitor.dsl.parallelism
          (Monitor.dsl.reached ⟨3⟩ 30000 dslFallbackThenScaleUp) = 11 / 5
      ∧ DSL_PROFILE.maxCap = 2
      ∧ ¬ (Monitor.dsl.parallelism (Monitor.dsl.reached ⟨3⟩ 30000 dslFallbackThenScaleUp)
          ≤ DSL_PROFILE.maxCap) := by
  decide!

/-! ### Claim C10: the stall watchdog during inactivity -/

/-- C10, failing input. Four evaluated enterprise ticks, 20 s apart (less than
`noProgressTimeout = 50000`), see the very same four samples, so no part completes for
60 s (more than `noProgressTimeout`). The watchdog fires on none of them: each tick sets
`lastProgress` to its own clock, because the guard `recentParts.length > 0` holds on every
evaluated tick. -/
theorem enterprise_watchdog_silent_during_inactivity :
    stalledTicks.map (fun i => i.partTimes) = List.replicate 4 (sampleParts 4 10 10000)
      ∧ stalledTicks.map (fun i => i.now) = [20000, 40000, 60000, 80000]
      ∧ ENTERPRISE_PROFILE.noProgressTimeout = 50000
      ∧ (runTicks enterpriseTick (Monitor.enterprise.start ⟨100⟩ 0) stalledTicks).map
          (fun r => (r.2.evaluated, r.2.noProgress, r.1.lastProgress))
        = [(true, false, 20000), (true, false, 40000), (true, false, 60000),
           (true, false, 80000)] := by
  decide!

/-! ### Peak detection within one tick -/

theorem peakDetection_fires_iff (P : StallProfile) (n : Nat) (now : Int) (cT : ℚ) (c : Nat)
    (s : MonitorState) :
    (peakDetection P n now cT c s).2 = true
      ↔ cT ≥ P.peakDetectionThreshold ∧ s.peakPerformanceDetected = false ∧ c ≥ n := by
  unfold peakDetection
  split_ifs with h
  · simpa using h
  · simpa using h

theorem peakDetection_fired (P : StallProfile) (n : Nat) (now : Int) (cT : ℚ) (c : Nat)
    (s : MonitorState) (h : (peakDetection P n now cT c s).2 = true) :
    (peakDetection P n now cT c s).1.peakPerformanceDetected = true
      ∧ (peakDetection P n now cT c s).1.initialPeakThroughput = some cT
      ∧ (peakDetection P n now cT c s).1.peakTimestamp = some now := by
  unfold peakDetection at h ⊢
  split_ifs at h ⊢
  all_goals simp_all

theorem peakDetection_not_fired (P : StallProfile) (n : Nat) (now : Int) (cT : ℚ) (c : Nat)
    (s : MonitorState) (h : (peakDetection P n now cT c s).2 = false) :
    (peakDetection P n now cT c s).1 = s := by
  unfold peakDetection at h ⊢
  split_ifs at h ⊢
  all_goals simp_all

theorem cablePeakDetection_fires_iff (now : Int) (cT : ℚ) (c : Nat) (s : MonitorState) :
    (cablePeakDetection now cT c s).2 = true
      ↔ cT ≥ CABLE_PROFILE.peakDetectionThreshold ∧ s.peakPerformanceDetected = false
        ∧ c ≥ 4 := by
  unfold cablePeakDetection
  split_ifs with h
  · simpa using h
  · simpa using h

theorem cablePeakDetection_fired (now : Int) (cT : ℚ) (c : Nat) (s : MonitorState)
    (h : (cablePeakDetection now cT c s).2 = true) :
    (cablePeakDetection now cT c s).1.peakPerformanceDetected = true
      ∧ (cablePeakDetection now cT c s).1.initialPeakThroughput = some cT
      ∧ (cablePeakDetection now cT c s).1.peakTimestamp = some now := by
  unfold cablePeakDetection at h ⊢
  split_ifs at h ⊢
  all_goals simp_all

theorem cablePeakDetection_not_fired (now : Int) (cT : ℚ) (c : Nat) (s : MonitorState)
    (h : (cablePeakDetection now cT c s).2 = false) :
    (cablePeakDetection now cT c s).1 = s := by
  unfold cablePeakDetection at h ⊢
  split_ifs at h ⊢
  all_goals simp_all

theorem decayGuard_of_no_peak (s : MonitorState) (h : s.peakPerformanceDetected = false) :
    decayGuard s = false := by
  simp [decayGuard, h]

theorem peakReinforcement_of_le (fraction : ℚ) (after : Int) (strong : Nat) (rewind : Int)
    (now timeSincePeak : Int) (initialPeak average : ℚ) (s : MonitorState)
    (h : timeSincePeak ≤ after) :
    (peakReinforcement fraction after strong rewind now timeSincePeak initialPeak average
      s).1 = s := by
  unfold peakReinforcement
  rw [if_neg]
  intro hc
  omega

theorem peakReinforced_peakTimestamp (recoveryFraction : ℚ) (strong : Nat) (now : Int)
    (initialPeak average : ℚ) (s : MonitorState) (h : s.peakTimestamp = some now) :
    (peakReinforced recoveryFraction strong now initialPeak average s).1.peakTimestamp
      = some now := by
  unfold peakReinforced
  split_ifs
  · rfl
  · exact h

theorem peakLost_of_le (P : StallProfile) (timeSincePeak : Int) (s : MonitorState)
    (h : timeSincePeak ≤ P.sweetSpotProtectionDuration) : (peakLost P timeSincePeak s).1 = s := by
  unfold peakLost
  rw [if_neg]
  intro hc
  omega

theorem sustainedDrop_of_le (P : StallProfile) (ceiling : Int) (now timeSincePeak : Int)
    (s : MonitorState) (h : timeSincePeak ≤ ceiling) :
    (sustainedDrop P ceiling now timeSincePeak s).1 = s := by
  unfold sustainedDrop
  rw [if_neg]
  omega

theorem smartReset_of_le (ceiling : Int) (timeSincePeak : Int) (s : MonitorState)
    (h : timeSincePeak ≤ ceiling) : (smartReset ceiling timeSincePeak s).1 = s := by
  unfold smartReset
  rw [if_neg]
  omega

theorem emergencyReset_peak_of_ge (P : StallProfile) (now : Int) (cT : ℚ) (c : Nat)
    (s : MonitorState) (h : P.emergencyResetThreshold ≤ cT) :
    (emergencyReset P now cT c s).1.peakPerformanceDetected = s.peakPerformanceDetected := by
  unfold emergencyReset
  rw [if_neg (not_lt.mpr h)]
  split_ifs
  all_goals rfl

theorem emergencyReset_no_peak (P : StallProfile) (now : Int) (cT : ℚ) (c : Nat)
    (s : MonitorState) (h : s.peakPerformanceDetected = false) :
    (emergencyReset P now cT c s).1.peakPerformanceDetected = false := by
  unfold emergencyReset
  split_ifs
  all_goals simp [h]

theorem guLockMode_no_peak (P : LockProfile) (T : GUTuning) (now : Int)
    (speed currentThroughput : ℚ) (s : MonitorState) (h : s.peakPerformanceDetected = false) :
    (guLockMode P T now speed currentThroughput s).1.peakPerformanceDetected = false := by
  unfold guLockMode
  split_ifs
  all_goals simp [h]

theorem guRampDown_no_peak (P : LockProfile) (T : GUTuning) (now : Int)
    (currentThroughput : ℚ) (d : RampDecision) (s : MonitorState)
    (h : s.peakPerformanceDetected = false) :
    (guRampDown P T now currentThroughput d s).1.peakPerformanceDetected = false := by
  unfold guRampDown
  split_ifs
  all_goals simp [h]

/-! #### The decay blocks right after a detection -/

theorem deDecay_fresh (P : StallProfile) (T : DETuning) (now : Int) (cT : ℚ)
    (s : MonitorState) (hts : s.peakTimestamp = some now)
    (h1 : 0 ≤ T.reinforcementAfter) (h2 : 0 ≤ P.sweetSpotProtectionDuration)
    (h3 : 0 ≤ T.decayCeiling) :
    (deDecay P T now cT s).1.peakPerformanceDetected = s.peakPerformanceDetected
      ∧ (deDecay P T now cT s).1.initialPeakThroughput = s.initialPeakThroughput
      ∧ (deDecay P T now cT s).1.peakTimestamp = some now := by
  unfold deDecay
  split_ifs
  · have h0 : now - s.peakTimestamp.getD 0 = 0 := by simp [hts]
    simp only [h0]
    rw [sustainedDrop_of_le _ _ _ _ _ h3, peakLost_of_le _ _ _ h2]
    refine ⟨by simp, by simp, ?_⟩
    apply peakReinforced_peakTimestamp
    rw [peakReinforcement_of_le _ _ _ _ _ _ _ _ _ h1]
    simp [hts]
  · exact ⟨rfl, rfl, hts⟩

theorem deDecay_no_peak (P : StallProfile) (T : DETuning) (now : Int) (cT : ℚ)
    (s : MonitorState) (h : s.peakPerformanceDetected = false) :
    (deDecay P T now cT s).1 = s := by
  unfold deDecay
  rw [if_neg]
  simp [decayGuard_of_no_peak s h]

theorem fiberDecay_fresh (now : Int) (cT : ℚ) (s : MonitorState)
    (hts : s.peakTimestamp = some now) :
    (fiberDecay now cT s).1.peakPerformanceDetected = s.peakPerformanceDetected
      ∧ (fiberDecay now cT s).1.initialPeakThroughput = s.initialPeakThroughput
      ∧ (fiberDecay now cT s).1.peakTimestamp = some now := by
  refine ⟨by simp, by simp, ?_⟩
  unfold fiberDecay
  split_ifs
  · have h0 : now - s.peakTimestamp.getD 0 = 0 := by simp [hts]
    simp only [h0]
    rw [peakReinforcement_of_le _ _ _ _ _ _ _ _ _ (by norm_num)]
    simp [hts]
  · exact hts

theorem fiberDecay_no_peak (now : Int) (cT : ℚ) (s : MonitorState)
    (h : s.peakPerformanceDetected = false) : fiberDecay now cT s = (s, {}) := by
  unfold fiberDecay
  rw [if_neg]
  simp [decayGuard_of_no_peak s h]

theorem cableDecay_fresh (now : Int) (cT : ℚ) (s : MonitorState)
    (hts : s.peakTimestamp = some now) :
    (cableDecay now cT s).1.peakPerformanceDetected = s.peakPerformanceDetected
      ∧ (cableDecay now cT s).1.initialPeakThroughput = s.initialPeakThroughput
      ∧ (cableDecay now cT s).1.peakTimestamp = some now := by
  unfold cableDecay
  split_ifs
  · have h0 : now - s.peakTimestamp.getD 0 = 0 := by simp [hts]
    simp only [h0]
    rw [smartReset_of_le _ _ _ (by norm_num),
      peakReinforcement_of_le _ _ _ _ _ _ _ _ _ (by norm_num)]
    refine ⟨by simp, by simp, by simp [hts]⟩
  · exact ⟨rfl, rfl, hts⟩

theorem cableDecay_no_peak (now : Int) (cT : ℚ) (s : MonitorState)
    (h : s.peakPerformanceDetected = false) : (cableDecay now cT s).1 = s := by
  unfold cableDecay
  rw [if_neg]
  simp [decayGuard_of_no_peak s h]

theorem guDecay_no_peak (T : GUTuning) (now : Int) (cT : ℚ) (s : MonitorState)
    (h : s.peakPerformanceDetected = false) : (guDecay T now cT s).1 = s := by
  unfold guDecay
  rw [if_neg]
  simp [decayGuard_of_no_peak s h]

/-! #### The evaluated bodies -/

theorem deBody_peakOutcome (P : StallProfile) (T : DETuning) (i : TickInput)
    (rp : List PartTime) (s : MonitorState) (hs : s.peakPerformanceDetected = false)
    (h1 : 0 ≤ T.reinforcementAfter) (h2 : 0 ≤ P.sweetSpotProtectionDuration)
    (h3 : 0 ≤ T.decayCeiling) (h4 : P.emergencyResetThreshold ≤ P.peakDetectionThreshold) :
    PeakOutcome P.peakDetectionThreshold T.peakSamples i.now (realThroughputMbps rp) rp.length
      (deBody P T i rp s) := by
  have hiff := peakDetection_fires_iff P T.peakSamples i.now (realThroughputMbps rp) rp.length
    (recordAvgPartSpeed T.speedHistoryMax rp s)
  simp only [recordAvgPartSpeed_peakPerformanceDetected, hs, true_and] at hiff
  have hflag : (deBody P T i rp s).2.peakDetected
      = (peakDetection P T.peakSamples i.now (realThroughputMbps rp) rp.length
          (recordAvgPartSpeed T.speedHistoryMax rp s)).2 := rfl
  refine ⟨hflag ▸ hiff, ?_, ?_⟩
  · intro h
    rw [hflag] at h
    obtain ⟨p1, p2, p3⟩ := peakDetection_fired _ _ _ _ _ _ h
    have hge : P.emergencyResetThreshold ≤ realThroughputMbps rp :=
      le_trans h4 (hiff.mp h).1
    obtain ⟨d1, d2, d3⟩ := deDecay_fresh P T i.now (realThroughputMbps rp)
      (reinforcementLock P.peakDetectionThreshold P.reinforcementSampleCount
        (realThroughputMbps rp)
        (peakDetection P T.peakSamples i.now (realThroughputMbps rp) rp.length
          (recordAvgPartSpeed T.speedHistoryMax rp s)).1).1 (by simp [p3]) h1 h2 h3
    simp only [reinforcementLock_peakPerformanceDetected,
      reinforcementLock_initialPeakThroughput] at d1 d2
    refine ⟨?_, ?_, ?_⟩
    · simp [deBody, emergencyReset_peak_of_ge _ _ _ _ _ hge, d1, p1]
    · simp [deBody, d2, p2]
    · simp [deBody, d3]
  · intro h
    rw [hflag] at h
    have e := peakDetection_not_fired _ _ _ _ _ _ h
    simp only [deBody, e]
    simp only [throttledFallback_peakPerformanceDetected]
    apply emergencyReset_no_peak
    simp only [noProgressWatchdog_peakPerformanceDetected, deScaling_peakPerformanceDetected,
      thrashingProtection_peakPerformanceDetected]
    rw [deDecay_no_peak]
    all_goals simp [hs]

theorem fiberBody_peakOutcome (i : TickInput) (rp : List PartTime) (s : MonitorState)
    (hs : s.peakPerformanceDetected = false) :
    PeakOutcome FIBER_PROFILE.peakDetectionThreshold 6 i.now (realThroughputMbps rp) rp.length
      (fiberBody i rp s) := by
  have hiff := peakDetection_fires_iff FIBER_PROFILE 6 i.now (realThroughputMbps rp) rp.length
    (recordAvgPartSpeed 5 rp s)
  simp only [recordAvgPartSpeed_peakPerformanceDetected, hs, true_and] at hiff
  have hflag : (fiberBody i rp s).2.peakDetected
      = (peakDetection FIBER_PROFILE 6 i.now (realThroughputMbps rp) rp.length
          (recordAvgPartSpeed 5 rp s)).2 := by
    unfold fiberBody
    simp only []
    split_ifs
    all_goals rfl
  refine ⟨hflag ▸ hiff, ?_, ?_⟩
  · intro h
    rw [hflag] at h
    obtain ⟨p1, p2, p3⟩ := peakDetection_fired _ _ _ _ _ _ h
    have hge : FIBER_PROFILE.emergencyResetThreshold ≤ realThroughputMbps rp :=
      le_trans (by norm_num [FIBER_PROFILE]) (hiff.mp h).1
    obtain ⟨d1, d2, d3⟩ := fiberDecay_fresh i.now (realThroughputMbps rp)
      (reinforcementLock FIBER_PROFILE.peakDetectionThreshold
        FIBER_PROFILE.reinforcementSampleCount (realThroughputMbps rp)
        (peakDetection FIBER_PROFILE 6 i.now (realThroughputMbps rp) rp.length
          (recordAvgPartSpeed 5 rp s)).1).1 (by simp [p3])
    simp only [reinforcementLock_peakPerformanceDetected,
      reinforcementLock_initialPeakThroughput] at d1 d2
    cases hth : (fiberDecayResult i rp s).2.threw
    · have hb := (fiberBody_of_not_threw i rp s hth).1
      rw [hb]
      unfold fiberDecayResult
      refine ⟨?_, ?_, ?_⟩
      · simp [fiberAfterDecay, emergencyReset_peak_of_ge _ _ _ _ _ hge, p1]
      · simp [fiberAfterDecay, p2]
      · simp [fiberAfterDecay, d3]
    · have hb := (fiberBody_of_threw i rp s hth).1
      rw [hb]
      unfold fiberDecayResult
      exact ⟨d1.trans p1, d2.trans p2, d3⟩
  · intro h
    rw [hflag] at h
    have e := peakDetection_not_fired _ _ _ _ _ _ h
    have hd : fiberDecayResult i rp s
        = ((reinforcementLock FIBER_PROFILE.peakDetectionThreshold
            FIBER_PROFILE.reinforcementSampleCount (realThroughputMbps rp)
            (recordAvgPartSpeed 5 rp s)).1, {}) := by
      unfold fiberDecayResult
      rw [e]
      apply fiberDecay_no_peak
      simp [hs]
    have hth : (fiberDecayResult i rp s).2.threw = false := by rw [hd]
    rw [(fiberBody_of_not_threw i rp s hth).1, hd]
    simp only [fiberAfterDecay, throttledFallback_peakPerformanceDetected]
    apply emergencyReset_no_peak
    simp [hs]

theorem cableBody_peakOutcome (i : TickInput) (rp : List PartTime) (s : MonitorState)
    (hs : s.peakPerformanceDetected = false) :
    PeakOutcome CABLE_PROFILE.peakDetectionThreshold 4 i.now (realThroughputMbps rp) rp.length
      (cableBody i rp s) := by
  have hiff := cablePeakDetection_fires_iff i.now (realThroughputMbps rp) rp.length
    (recordAvgPartSpeed 5 rp s)
  simp only [recordAvgPartSpeed_peakPerformanceDetected, hs, true_and] at hiff
  have hflag : (cableBody i rp s).2.peakDetected
      = (cablePeakDetection i.now (realThroughputMbps rp) rp.length
          (recordAvgPartSpeed 5 rp s)).2 := rfl
  refine ⟨hflag ▸ hiff, ?_, ?_⟩
  · intro h
    rw [hflag] at h
    obtain ⟨p1, p2, p3⟩ := cablePeakDetection_fired _ _ _ _ h
    obtain ⟨d1, d2, d3⟩ := cableDecay_fresh i.now (realThroughputMbps rp)
      (cablePeakDetection i.now (realThroughputMbps rp) rp.length
          (recordAvgPartSpeed 5 rp s)).1 p3
    refine ⟨?_, ?_, ?_⟩
    · simp [cableBody, d1, p1]
    · simp [cableBody, d2, p2]
    · simp [cableBody, d3]
  · intro h
    rw [hflag] at h
    have e := cablePeakDetection_not_fired _ _ _ _ h
    simp only [cableBody, e]
    simp only [cableFallback_peakPerformanceDetected,
      cableApplyAdjustment_peakPerformanceDetected, cableRamp_peakPerformanceDetected,
      cableTrackLow_peakPerformanceDetected, thrashingProtection_peakPerformanceDetected]
    rw [cableDecay_no_peak]
    all_goals simp [hs]

theorem guBody_no_peak (P : LockProfile) (T : GUTuning) (i : TickInput)
    (rp : List PartTime) (s : MonitorState) (hs : s.peakPerformanceDetected = false) :
    (guBody P T i rp s).1.peakPerformanceDetected = false
      ∧ (guBody P T i rp s).2.peakUpdated = false := by
  constructor
  · simp only [guBody, throttledFallback_peakPerformanceDetected]
    apply emergencyReset_no_peak
    simp only [continuousProgress_peakPerformanceDetected,
      guWatchdog_peakPerformanceDetected, applyAdjustment_peakPerformanceDetected]
    apply guRampDown_no_peak
    apply guLockMode_no_peak
    simp only [guTrackLow_peakPerformanceDetected, thrashingProtection_peakPerformanceDetected]
    rw [guDecay_no_peak]
    all_goals simp [hs]
  · simp [guBody, peakUpdate, hs]

theorem cableTick_of_evaluated (s : MonitorState) (i : TickInput)
    (h : (cableTick s i).2.evaluated = true) :
    cableTick s i = cableBody i (sliceLast i.partTimes 6) s := by
  unfold cableTick at h ⊢
  split_ifs at h ⊢
  rfl

/-! ### Claim C4 -/

/-- C4, counterexample. The gigabit monitor, started from its own strategy, loses its
assumed peak on a tick at 80 Mbps. The next tick is evaluated, starts with the peak not
detected, and sees 800 Mbps (at least `peakDetectionThreshold = 500`) over 10 samples; it
neither detects nor updates a peak, and ends with the peak still not detected:
gigabit.js has no detection block, only "PEAK PERFORMANCE UPDATE", which asks for
`peakPerformanceDetected`. -/
theorem gigabit_peak_not_redetected :
    (stateAt gigabitTick (Monitor.gigabit.start ⟨1000⟩ 0) gigabitRecovery
        0).peakPerformanceDetected = false
      ∧ (eventsAt gigabitTick (Monitor.gigabit.start ⟨1000⟩ 0) gigabitRecovery 1).evaluated
          = true
      ∧ gigabitRecovery.map Monitor.gigabit.currentThroughput = [80, 800]
      ∧ gigabitRecovery.map (fun i => (sliceLast i.partTimes Monitor.gigabit.window).length)
          = [10, 10]
      ∧ Monitor.gigabit.profile.peakDetectionThreshold = 500
      ∧ (eventsAt gigabitTick (Monitor.gigabit.start ⟨1000⟩ 0) gigabitRecovery
          1).peakDetected = false
      ∧ (eventsAt gigabitTick (Monitor.gigabit.start ⟨1000⟩ 0) gigabitRecovery
          1).peakUpdated = false
      ∧ (stateAt gigabitTick (Monitor.gigabit.start ⟨1000⟩ 0) gigabitRecovery
          1).peakPerformanceDetected = false := by
  decide!

/-- C4, amended. On every evaluated tick that starts with the peak not detected: in the
DSL, cable, fiber and enterprise monitors (peak sample counts 3, 4, 6 and 6) the detection
branch runs if and only if `currentThroughput >= profile.peakDetectionThreshold` and the
number of recent samples has reached the peak sample count; when it runs, the tick ends
with the peak detected, `initialPeakThroughput` equal to that tick's `currentThroughput`
and `peakTimestamp` equal to the tick's clock; when it does not run, the tick ends with the
peak still not detected. In the gigabit and ultra monitors, which have no detection
branch, the tick always ends with the peak still not detected. -/
theorem peak_detected_iff (m : Monitor) (s : MonitorState) (i : TickInput)
    (hev : (m.tick s i).2.evaluated = true) (hpeak : s.peakPerformanceDetected = false) :
    (∀ n, m.peakSamples = some n →
        ((m.tick s i).2.peakDetected = true
            ↔ m.currentThroughput i ≥ m.profile.peakDetectionThreshold
              ∧ (sliceLast i.partTimes m.window).length ≥ n)
          ∧ ((m.tick s i).2.peakDetected = true →
              (m.tick s i).1.peakPerformanceDetected = true
                ∧ (m.tick s i).1.initialPeakThroughput = some (m.currentThroughput i)
                ∧ (m.tick s i).1.peakTimestamp = some i.now)
          ∧ ((m.tick s i).2.peakDetected = false →
              (m.tick s i).1.peakPerformanceDetected = false))
      ∧ (m.peakSamples = none → (m.tick s i).1.peakPerformanceDetected = false) := by
  cases m
  · refine ⟨?_, fun h => by simp [Monitor.peakSamples] at h⟩
    intro n hn
    obtain rfl : 3 = n := by simpa [Monitor.peakSamples] using hn
    have e : Monitor.dsl.tick s i
        = deBody DSL_PROFILE dslTuning i (sliceLast i.partTimes 5) s :=
      deTick_of_evaluated DSL_PROFILE dslTuning s i hev
    rw [e]
    exact deBody_peakOutcome DSL_PROFILE dslTuning i (sliceLast i.partTimes 5) s hpeak
      (by decide) (by decide) (by decide) (by norm_num [DSL_PROFILE])
  · refine ⟨?_, fun h => by simp [Monitor.peakSamples] at h⟩
    intro n hn
    obtain rfl : 4 = n := by simpa [Monitor.peakSamples] using hn
    have e : Monitor.cable.tick s i = cableBody i (sliceLast i.partTimes 6) s :=
      cableTick_of_evaluated s i hev
    rw [e]
    exact cableBody_peakOutcome i (sliceLast i.partTimes 6) s hpeak
  · refine ⟨?_, fun h => by simp [Monitor.peakSamples] at h⟩
    intro n hn
    obtain rfl : 6 = n := by simpa [Monitor.peakSamples] using hn
    have e : Monitor.fiber.tick s i = fiberBody i (sliceLast i.partTimes 8) s :=
      fiberTick_of_evaluated s i hev
    rw [e]
    exact fiberBody_peakOutcome i (sliceLast i.partTimes 8) s hpeak
  · refine ⟨?_, fun h => by simp [Monitor.peakSamples] at h⟩
    intro n hn
    obtain rfl : 6 = n := by simpa [Monitor.peakSamples] using hn
    have e : Monitor.enterprise.tick s i
        = deBody ENTERPRISE_PROFILE enterpriseTuning i (sliceLast i.partTimes 12) s :=
      deTick_of_evaluated ENTERPRISE_PROFILE enterpriseTuning s i hev
    rw [e]
    exact deBody_peakOutcome ENTERPRISE_PROFILE enterpriseTuning i
      (sliceLast i.partTimes 12) s hpeak
      (by decide) (by decide) (by decide) (by norm_num [ENTERPRISE_PROFILE])
  · refine ⟨fun n h => by simp [Monitor.peakSamples] at h, fun _ => ?_⟩
    have e : Monitor.gigabit.tick s i
        = guBody GIGABIT_PROFILE gigabitTuning i (sliceLast i.partTimes 10) s :=
      guTick_of_evaluated GIGABIT_PROFILE gigabitTuning s i hev
    rw [e]
    exact (guBody_no_peak _ _ _ _ _ hpeak).1
  · refine ⟨fun n h => by simp [Monitor.peakSamples] at h, fun _ => ?_⟩
    have e : Monitor.ultra.tick s i
        = guBody ULTRA_PROFILE ultraTuning i (sliceLast i.partTimes 10) s :=
      guTick_of_evaluated ULTRA_PROFILE ultraTuning s i hev
    rw [e]
    exact (guBody_no_peak _ _ _ _ _ hpeak).1

theorem peak_detected_iff_witness :
    (Monitor.enterprise.tick (Monitor.enterprise.start ⟨100⟩ 0)
        (sampleInput 2500 (sampleParts 10 6.25 1000) 10000000000)).2.evaluated = true
      ∧ (Monitor.enterprise.start ⟨100⟩ 0).peakPerformanceDetected = false
      ∧ (Monitor.enterprise.tick (Monitor.enterprise.start ⟨100⟩ 0)
          (sampleInput 2500 (sampleParts 10 6.25 1000) 10000000000)).1.peakTimestamp
          = some 2500 :=
  ⟨by decide!, by decide!,
    (((peak_detected_iff Monitor.enterprise (Monitor.enterprise.start ⟨100⟩ 0)
      (sampleInput 2500 (sampleParts 10 6.25 1000) 10000000000) (by decide!)
      (by decide!)).1 6 rfl).2.1 (by decide!)).2.2⟩

/-! ### Claim C20: fewer samples than the minimum -/

/-- What a callback does when there are too few recent samples: nothing, or (upload inactive
or cancelled) clearing its interval. -/
theorem Monitor.tick_below_min (m : Monitor) (s : MonitorState) (i : TickInput)
    (h : (sliceLast i.partTimes m.window).length < m.minSamples) :
    m.tick s i
      = if s.cleared = true then (s, {})
        else if i.isUploadActive = false ∨ i.isUploadCancelled = true then
          ({ s with cleared := true }, { stopping := true })
        else (s, {}) := by
  cases m
  all_goals
    simp only [Monitor.window, Monitor.minSamples] at h
    simp only [Monitor.tick, dslTick, enterpriseTick, gigabitTick,
      ultraTick, deTick, fiberTick, cableTick, guTick, dslTuning, enterpriseTuning]
    split_ifs
    all_goals first
      | rfl
      | omega

/-- C20. In every profile monitor, a tick on which fewer recent samples exist than the
monitor's minimum sample count (DSL 2, enterprise 4, cable / fiber / gigabit / ultra 3)
changes no controller-state field (only the interval handle may be cleared, when the
upload is inactive or cancelled), leaves the current parallelism and `strategy.partSize`
as they were, evaluates nothing and calls `updateStrategy` not at all; with the upload
active and not cancelled the state is exactly the state before. -/
theorem below_min_samples_noop (m : Monitor) (s : MonitorState) (i : TickInput)
    (h : (sliceLast i.partTimes m.window).length < m.minSamples) :
    (m.tick s i).1 = { s with cleared := (m.tick s i).1.cleared }
      ∧ m.parallelism (m.tick s i).1 = m.parallelism s
      ∧ (m.tick s i).1.partSize = s.partSize
      ∧ (m.tick s i).2.evaluated = false
      ∧ (m.tick s i).2.updates = []
      ∧ (i.isUploadActive = true → i.isUploadCancelled = false → (m.tick s i).1 = s) := by
  rw [Monitor.tick_below_min m s i h]
  split_ifs with h1 h2
  · refine ⟨rfl, rfl, rfl, rfl, rfl, fun _ _ => rfl⟩
  · refine ⟨rfl, ?_, rfl, rfl, rfl, ?_⟩
    · cases m <;> rfl
    · intro ha hc
      rcases h2 with h2 | h2
      · rw [ha] at h2; cases h2
      · rw [hc] at h2; cases h2
  · refine ⟨rfl, rfl, rfl, rfl, rfl, fun _ _ => rfl⟩

theorem below_min_samples_noop_witness :
    (sliceLast (sampleParts 1 5 1000) Monitor.dsl.window).length < Monitor.dsl.minSamples
      ∧ (Monitor.dsl.tick (Monitor.dsl.start ⟨3⟩ 0)
          (sampleInput 2000 (sampleParts 1 5 1000) 5000000)).1 = Monitor.dsl.start ⟨3⟩ 0 :=
  ⟨by decide,
    (below_min_samples_noop Monitor.dsl (Monitor.dsl.start ⟨3⟩ 0)
      (sampleInput 2000 (sampleParts 1 5 1000) 5000000) (by decide)).2.2.2.2.2 rfl rfl⟩

/-! ### Claim C17: the callback that throws -/

/-- Only the fiber callback has a statement that can throw on well-formed input: the
other five bodies never end in their `catch` handler. -/
theorem monitorError_only_fiber (m : Monitor) (s : MonitorState) (i : TickInput)
    (h : (m.tick s i).2.monitorError = true) : m = Monitor.fiber := by
  cases m
  case fiber => rfl
  all_goals
    exfalso
    revert h
    simp only [Monitor.tick, dslTick, enterpriseTick, gigabitTick, ultraTick, deTick,
      cableTick, guTick]
    split_ifs
    all_goals simp [deBody, cableBody, guBody]

/-- The fiber callback ends in its `catch` handler exactly on the evaluated ticks on which
the decay block, more than 90 s after the peak, is in phase "dropping". -/
theorem fiberTick_monitorError_iff (s : MonitorState) (i : TickInput) :
    (fiberTick s i).2.monitorError = true
      ↔ (fiberTick s i).2.evaluated = true
        ∧ (fiberDecayResult i (sliceLast i.partTimes 8) s).2.threw = true := by
  constructor
  · intro h
    have hev : (fiberTick s i).2.evaluated = true := by
      unfold fiberTick at h ⊢
      split_ifs at h ⊢
      exact fiberBody_evaluated _ _ _
    refine ⟨hev, ?_⟩
    rw [fiberTick_of_evaluated s i hev] at h
    cases hth : (fiberDecayResult i (sliceLast i.partTimes 8) s).2.threw
    · rw [(fiberBody_of_not_threw i _ s hth).2.1] at h
      cases h
    · rfl
  · rintro ⟨hev, hth⟩
    rw [fiberTick_of_evaluated s i hev]
    exact (fiberBody_of_threw i _ s hth).2.1

/-- C17, failing input. The fiber monitor, started from its own strategy, has seen
512 Mbps at clock 3000. The tick at clock 100000 sees eight samples with numeric,
non-negative speeds (0.0625 MB/s) and numeric timestamps; its decay block reads `now`
(fiber.js 196) before the declaration of line 230 has run, so the body ends in the `catch`
handler: thrashing protection, the watchdog, the emergency step and the fallback are
skipped (the throughput history is not extended, `lastProgress` is not touched, the
emergency counter stays 0 although 4 Mbps is below the threshold of 12). -/
theorem fiber_tick_throws :
    (∀ i ∈ fiberCollapse, ∀ p ∈ i.partTimes, 0 ≤ p.speed)
      ∧ (eventsAt fiberTick (Monitor.fiber.start ⟨100⟩ 0) fiberCollapse 1).evaluated = true
      ∧ (eventsAt fiberTick (Monitor.fiber.start ⟨100⟩ 0) fiberCollapse 1).monitorError = true
      ∧ (stateAt fiberTick (Monitor.fiber.start ⟨100⟩ 0) fiberCollapse
          0).peakThroughputHistory = [512]
      ∧ (stateAt fiberTick (Monitor.fiber.start ⟨100⟩ 0) fiberCollapse
          1).peakThroughputHistory = [512]
      ∧ (stateAt fiberTick (Monitor.fiber.start ⟨100⟩ 0) fiberCollapse 1).lastProgress = 3000
      ∧ Monitor.fiber.currentThroughput
          (sampleInput 100000 (sampleParts 8 0.0625 90000) 10000000000)
          < FIBER_PROFILE.emergencyResetThreshold
      ∧ (stateAt fiberTick (Monitor.fiber.start ⟨100⟩ 0) fiberCollapse
          1).emergencyResetCounter = 0 := by
  decide!

/-! ### How a detected peak and a set lock are lost within one tick -/

theorem realThroughputMbps_nonneg (rp : List PartTime) (h : ∀ p ∈ rp, 0 ≤ p.speed) :
    0 ≤ realThroughputMbps rp := by
  unfold realThroughputMbps
  apply List.sum_nonneg
  intro x hx
  rw [List.mem_map] at hx
  obtain ⟨p, hp, rfl⟩ := hx
  have := h p hp
  positivity

theorem sliceLast_subset {α : Type} (xs : List α) (k : Nat) : ∀ x ∈ sliceLast xs k, x ∈ xs :=
  fun _ hx => List.mem_of_mem_drop hx

theorem Monitor.currentThroughput_nonneg (m : Monitor) (i : TickInput)
    (h : ∀ p ∈ i.partTimes, 0 ≤ p.speed) : 0 ≤ m.currentThroughput i :=
  realThroughputMbps_nonneg _ (fun p hp => h p (sliceLast_subset _ _ p hp))

theorem peakDetection_of_peak (P : StallProfile) (n : Nat) (now : Int) (cT : ℚ) (c : Nat)
    (s : MonitorState) (h : s.peakPerformanceDetected = true) :
    peakDetection P n now cT c s = (s, false) := by
  unfold peakDetection
  rw [if_neg]
  simp [h]

theorem cablePeakDetection_of_peak (now : Int) (cT : ℚ) (c : Nat)
    (s : MonitorState) (h : s.peakPerformanceDetected = true) :
    cablePeakDetection now cT c s = (s, false) := by
  unfold cablePeakDetection
  rw [if_neg]
  simp [h]

theorem emergencyReset_quiet (P : StallProfile) (now : Int) (cT : ℚ) (c : Nat)
    (s : MonitorState) (h : (emergencyReset P now cT c s).2 = false) :
    (emergencyReset P now cT c s).1.peakPerformanceDetected = s.peakPerformanceDetected
      ∧ (emergencyReset P now cT c s).1.lockedPerformance = s.lockedPerformance := by
  unfold emergencyReset at h ⊢
  split_ifs at h ⊢
  all_goals exact ⟨rfl, rfl⟩

theorem peakLost_spec (P : StallProfile) (timeSincePeak : Int) (s : MonitorState) :
    ((peakLost P timeSincePeak s).2 = true →
        s.peakResetState = PeakResetState.dropping
          ∧ timeSincePeak > P.sweetSpotProtectionDuration
          ∧ (peakLost P timeSincePeak s).1.peakPerformanceDetected = false
          ∧ (peakLost P timeSincePeak s).1.lockedPerformance = false
          ∧ (peakLost P timeSincePeak s).1.peakTimestamp = none
          ∧ (peakLost P timeSincePeak s).1.initialPeakThroughput = none
          ∧ (peakLost P timeSincePeak s).1.strongPerformanceSamples = 0)
      ∧ ((peakLost P timeSincePeak s).2 = false → (peakLost P timeSincePeak s).1 = s)
      ∧ ((peakLost P timeSincePeak s).2 = true
          ↔ s.peakResetState = PeakResetState.dropping
            ∧ timeSincePeak > P.sweetSpotProtectionDuration) := by
  unfold peakLost
  split_ifs with h
  · simpa using h
  · simpa using h

theorem sustainedDrop_quiet (P : StallProfile) (ceiling : Int) (now timeSincePeak : Int)
    (s : MonitorState) (h : (sustainedDrop P ceiling now timeSincePeak s).2.1 = false) :
    (sustainedDrop P ceiling now timeSincePeak s).1 = s := by
  unfold sustainedDrop at h ⊢
  split_ifs at h ⊢
  all_goals rfl

theorem sustainedDrop_fired (P : StallProfile) (ceiling : Int) (now timeSincePeak : Int)
    (s : MonitorState) (h : (sustainedDrop P ceiling now timeSincePeak s).2.1 = true) :
    timeSincePeak > ceiling ∧ s.peakResetState = PeakResetState.dropping := by
  unfold sustainedDrop at h
  split_ifs at h with h1 h2 h3
  all_goals exact ⟨h1, h2⟩

theorem smartReset_quiet (ceiling : Int) (timeSincePeak : Int) (s : MonitorState)
    (h : (smartReset ceiling timeSincePeak s).2.1 = false) :
    (smartReset ceiling timeSincePeak s).1 = s := by
  unfold smartReset at h ⊢
  split_ifs at h ⊢
  all_goals rfl

theorem smartReset_fired (ceiling : Int) (timeSincePeak : Int) (s : MonitorState)
    (h : (smartReset ceiling timeSincePeak s).2.1 = true) :
    timeSincePeak > ceiling ∧ s.peakResetState = PeakResetState.dropping
      ∧ (smartReset ceiling timeSincePeak s).1.peakPerformanceDetected = false
      ∧ (smartReset ceiling timeSincePeak s).1.peakTimestamp = none
      ∧ (smartReset ceiling timeSincePeak s).1.initialPeakThroughput = none
      ∧ (smartReset ceiling timeSincePeak s).1.strongPerformanceSamples = 0
      ∧ (smartReset ceiling timeSincePeak s).1.lockedPerformance = s.lockedPerformance := by
  unfold smartReset at h ⊢
  split_ifs at h ⊢ with h1 h2
  all_goals exact ⟨h1, h2, rfl, rfl, rfl, rfl, rfl⟩

theorem smartReset_fires_iff (ceiling : Int) (timeSincePeak : Int) (s : MonitorState) :
    (smartReset ceiling timeSincePeak s).2.1 = true
      ↔ timeSincePeak > ceiling ∧ s.peakResetState = PeakResetState.dropping := by
  unfold smartReset
  split_ifs with h1 h2
  all_goals simp [*]

theorem guLockMode_quiet (P : LockProfile) (T : GUTuning) (now : Int)
    (speed cT : ℚ) (s : MonitorState)
    (h : (guLockMode P T now speed cT s).2.degradationUnlock = false) :
    (guLockMode P T now speed cT s).1.peakPerformanceDetected = s.peakPerformanceDetected
      ∧ (guLockMode P T now speed cT s).1.lockedPerformance = s.lockedPerformance := by
  unfold guLockMode at h ⊢
  split_ifs at h ⊢
  all_goals exact ⟨rfl, rfl⟩

theorem guLockMode_fired (P : LockProfile) (T : GUTuning) (now : Int)
    (speed cT : ℚ) (s : MonitorState)
    (h : (guLockMode P T now speed cT s).2.degradationUnlock = true) :
    s.lockedPerformance = true ∧ cT < toNumber s.initialPeakThroughput * 0.6 := by
  unfold guLockMode at h
  split_ifs at h with h1 h2
  all_goals exact ⟨h1, h2⟩

theorem guLockMode_locked_after (P : LockProfile) (T : GUTuning) (now : Int)
    (speed cT : ℚ) (s : MonitorState)
    (h : (guLockMode P T now speed cT s).1.lockedPerformance = true) :
    ¬ cT < toNumber s.initialPeakThroughput * 0.6
      ∧ (guLockMode P T now speed cT s).1.initialPeakThroughput = s.initialPeakThroughput := by
  refine ⟨?_, by simp⟩
  unfold guLockMode at h
  split_ifs at h with h1 h2
  all_goals first
    | exact h2
    | simp_all

/-- With a throughput that is not negative, the ramp-down block never finds the monitor
locked and below half the peak: the lock-mode block, which runs first, has unlocked it at
60%. -/
theorem guRampDown_after_lockMode (P : LockProfile) (T : GUTuning) (now : Int)
    (speed cT : ℚ) (d : RampDecision) (s : MonitorState) (hcT : 0 ≤ cT) :
    (guRampDown P T now cT d (guLockMode P T now speed cT s).1).1.peakPerformanceDetected
        = (guLockMode P T now speed cT s).1.peakPerformanceDetected
      ∧ (guRampDown P T now cT d (guLockMode P T now speed cT s).1).1.lockedPerformance
        = (guLockMode P T now speed cT s).1.lockedPerformance := by
  unfold guRampDown
  split_ifs with h1 h2 h3
  · exfalso
    obtain ⟨hn, hip⟩ := guLockMode_locked_after P T now speed cT s h3
    rw [hip] at h2
    rcases h2 with h2 | h2
    · rw [h3] at h2; cases h2
    · have h6 : toNumber s.initialPeakThroughput * 0.6 ≤ cT := not_lt.mp hn
      nlinarith
  · simp only [Bool.not_eq_true] at h3
    exact ⟨rfl, h3.symm ▸ rfl⟩
  · exact ⟨rfl, rfl⟩
  · exact ⟨rfl, rfl⟩

/-! #### The decay blocks: when they drop the peak, and what they leave -/

theorem sustainedDrop_keeps_cleared (P : StallProfile) (ceiling : Int)
    (now timeSincePeak : Int) (s : MonitorState) :
    (s.peakPerformanceDetected = false →
        (sustainedDrop P ceiling now timeSincePeak s).1.peakPerformanceDetected = false)
      ∧ (s.lockedPerformance = false →
        (sustainedDrop P ceiling now timeSincePeak s).1.lockedPerformance = false)
      ∧ (s.strongPerformanceSamples = 0 →
        (sustainedDrop P ceiling now timeSincePeak s).1.strongPerformanceSamples = 0) := by
  unfold sustainedDrop
  split_ifs
  all_goals simp

theorem deDecay_peakLost_iff (P : StallProfile) (T : DETuning) (now : Int) (cT : ℚ)
    (x : MonitorState) :
    (deDecay P T now cT x).2.peakLost = true
      ↔ decayGuard x = true
        ∧ hysteresisPhase T.smoothingMax T.weights T.dropFraction T.recoveryFraction
            T.warningFraction cT x = PeakResetState.dropping
        ∧ now - x.peakTimestamp.getD 0 > P.sweetSpotProtectionDuration := by
  unfold deDecay hysteresisPhase
  split_ifs with hg
  · simp only [(peakLost_spec _ _ _).2.2, peakReinforced_peakResetState,
      peakReinforcement_peakResetState, hg, true_and]
  · simp [hg]

theorem deDecay_sustainedDrop_fired (P : StallProfile) (T : DETuning) (now : Int) (cT : ℚ)
    (x : MonitorState) (h : (deDecay P T now cT x).2.sustainedDrop = true) :
    decayGuard x = true
      ∧ hysteresisPhase T.smoothingMax T.weights T.dropFraction T.recoveryFraction
          T.warningFraction cT x = PeakResetState.dropping
      ∧ now - x.peakTimestamp.getD 0 > T.decayCeiling := by
  unfold deDecay at h
  unfold hysteresisPhase
  split_ifs at h with hg
  simp only at h
  obtain ⟨h1, h2⟩ := sustainedDrop_fired _ _ _ _ _ h
  simp only [peakLost_peakResetState, peakReinforced_peakResetState,
    peakReinforcement_peakResetState] at h2
  exact ⟨hg, h2, h1⟩

theorem deDecay_quiet (P : StallProfile) (T : DETuning) (now : Int) (cT : ℚ)
    (x : MonitorState) (h1 : (deDecay P T now cT x).2.peakLost = false)
    (h2 : (deDecay P T now cT x).2.sustainedDrop = false) :
    (deDecay P T now cT x).1.peakPerformanceDetected = x.peakPerformanceDetected
      ∧ (deDecay P T now cT x).1.lockedPerformance = x.lockedPerformance := by
  unfold deDecay at h1 h2 ⊢
  split_ifs at h1 h2 ⊢ with hg
  · simp only at h1 h2 ⊢
    rw [sustainedDrop_quiet _ _ _ _ _ h2, (peakLost_spec _ _ _).2.1 h1]
    simp
  · exact ⟨rfl, rfl⟩

theorem deDecay_peakLost_fired (P : StallProfile) (T : DETuning) (now : Int) (cT : ℚ)
    (x : MonitorState) (h : (deDecay P T now cT x).2.peakLost = true) :
    (deDecay P T now cT x).1.peakPerformanceDetected = false
      ∧ (deDecay P T now cT x).1.lockedPerformance = false
      ∧ (deDecay P T now cT x).1.peakTimestamp = none
      ∧ (deDecay P T now cT x).1.initialPeakThroughput = none
      ∧ (deDecay P T now cT x).1.strongPerformanceSamples = 0 := by
  unfold deDecay at h ⊢
  split_ifs at h ⊢ with hg
  simp only at h ⊢
  obtain ⟨_, _, p1, p2, p3, p4, p5⟩ := (peakLost_spec _ _ _).1 h
  have k := sustainedDrop_keeps_cleared P T.decayCeiling now (now - x.peakTimestamp.getD 0)
    (peakLost P (now - x.peakTimestamp.getD 0)
      (peakReinforced T.recoveryFraction T.reinforcedStrong now
        (toNumber x.initialPeakThroughput)
        (averageThroughput T.weights
          (recordThroughput T.smoothingMax cT x).throughputSmoothingHistory)
        (peakReinforcement T.reinforcementFraction T.reinforcementAfter
          T.reinforcementStrong T.reinforcementRewind now (now - x.peakTimestamp.getD 0)
          (toNumber x.initialPeakThroughput)
          (averageThroughput T.weights
            (recordThroughput T.smoothingMax cT x).throughputSmoothingHistory)
          (hysteresis T.dropFraction T.recoveryFraction T.warningFraction
            (toNumber x.initialPeakThroughput)
            (averageThroughput T.weights
              (recordThroughput T.smoothingMax cT x).throughputSmoothingHistory)
            (recordThroughput T.smoothingMax cT x))).1).1).1
  refine ⟨k.1 p1, k.2.1 p2, ?_, ?_, k.2.2 p5⟩
  · rw [sustainedDrop_peakTimestamp]; exact p3
  · rw [sustainedDrop_initialPeakThroughput]; exact p4

theorem cableDecay_smartReset_iff (now : Int) (cT : ℚ) (x : MonitorState) :
    (cableDecay now cT x).2.smartReset = true
      ↔ decayGuard x = true
        ∧ hysteresisPhase 5 [0.4, 0.3, 0.15, 0.1, 0.05] 0.65 0.75 0.70 cT x
            = PeakResetState.dropping
        ∧ now - x.peakTimestamp.getD 0 > 60000 := by
  unfold cableDecay hysteresisPhase
  split_ifs with hg
  · simp only [smartReset_fires_iff, peakReinforcement_peakResetState, hg, true_and]
    exact and_comm
  · simp [hg]

theorem cableDecay_quiet (now : Int) (cT : ℚ) (x : MonitorState)
    (h : (cableDecay now cT x).2.smartReset = false) :
    (cableDecay now cT x).1.peakPerformanceDetected = x.peakPerformanceDetected := by
  unfold cableDecay at h ⊢
  split_ifs at h ⊢ with hg
  · simp only at h ⊢
    rw [smartReset_quiet _ _ _ h]
    simp
  · rfl

theorem cableDecay_fired (now : Int) (cT : ℚ) (x : MonitorState)
    (h : (cableDecay now cT x).2.smartReset = true) :
    (cableDecay now cT x).1.peakPerformanceDetected = false
      ∧ (cableDecay now cT x).1.peakTimestamp = none
      ∧ (cableDecay now cT x).1.initialPeakThroughput = none
      ∧ (cableDecay now cT x).1.strongPerformanceSamples = 0 := by
  unfold cableDecay at h ⊢
  split_ifs at h ⊢ with hg
  simp only at h ⊢
  obtain ⟨_, _, p1, p2, p3, p4, _⟩ := smartReset_fired _ _ _ h
  exact ⟨p1, p2, p3, p4⟩

theorem guDecay_smartReset_iff (T : GUTuning) (now : Int) (cT : ℚ) (x : MonitorState) :
    (guDecay T now cT x).2.smartReset = true
      ↔ decayGuard x = true
        ∧ hysteresisPhase 5 [0.4, 0.3, 0.15, 0.1, 0.05] 0.75 0.85 0.80 cT x
            = PeakResetState.dropping
        ∧ now - x.peakTimestamp.getD 0 > T.decayCeiling := by
  unfold guDecay hysteresisPhase
  split_ifs with hg
  · simp only [smartReset_fires_iff, peakReinforcement_peakResetState, hg, true_and]
    exact and_comm
  · simp [hg]

theorem guDecay_quiet (T : GUTuning) (now : Int) (cT : ℚ) (x : MonitorState)
    (h : (guDecay T now cT x).2.smartReset = false) :
    (guDecay T now cT x).1.peakPerformanceDetected = x.peakPerformanceDetected
      ∧ (guDecay T now cT x).1.initialPeakThroughput = x.initialPeakThroughput := by
  unfold guDecay at h ⊢
  split_ifs at h ⊢ with hg
  · simp only at h ⊢
    rw [smartReset_quiet _ _ _ h]
    simp
  · exact ⟨rfl, rfl⟩

theorem guDecay_fired (T : GUTuning) (now : Int) (cT : ℚ) (x : MonitorState)
    (h : (guDecay T now cT x).2.smartReset = true) :
    (guDecay T now cT x).1.peakPerformanceDetected = false
      ∧ (guDecay T now cT x).1.peakTimestamp = none
      ∧ (guDecay T now cT x).1.initialPeakThroughput = none
      ∧ (guDecay T now cT x).1.strongPerformanceSamples = 0
      ∧ (guDecay T now cT x).1.lockedPerformance = x.lockedPerformance := by
  unfold guDecay at h ⊢
  split_ifs at h ⊢ with hg
  simp only at h ⊢
  obtain ⟨_, _, p1, p2, p3, p4, p5⟩ := smartReset_fired _ _ _ h
  refine ⟨p1, p2, p3, p4, ?_⟩
  rw [p5]
  simp

/-! #### DSL and enterprise bodies -/

theorem reinforcementLock_keeps_lock (lockThreshold : ℚ) (sampleCount : Nat) (cT : ℚ)
    (s : MonitorState) (h : s.lockedPerformance = true) :
    (reinforcementLock lockThreshold sampleCount cT s).1.lockedPerformance = true := by
  unfold reinforcementLock
  split_ifs
  all_goals simp [h]

theorem emergencyReset_keeps_cleared (P : StallProfile) (now : Int) (cT : ℚ) (c : Nat)
    (s : MonitorState) :
    (s.lockedPerformance = false → (emergencyReset P now cT c s).1.lockedPerformance = false)
      ∧ (s.strongPerformanceSamples = 0 →
        (emergencyReset P now cT c s).1.strongPerformanceSamples = 0) := by
  unfold emergencyReset
  split_ifs
  all_goals simp

theorem deBeforeDecay_of_peak (P : StallProfile) (T : DETuning) (i : TickInput)
    (rp : List PartTime) (s : MonitorState) (h : s.peakPerformanceDetected = true) :
    (deBeforeDecay P T i rp s).peakPerformanceDetected = true
      ∧ (deBeforeDecay P T i rp s).peakTimestamp = s.peakTimestamp
      ∧ (deBeforeDecay P T i rp s).initialPeakThroughput = s.initialPeakThroughput := by
  unfold deBeforeDecay
  rw [peakDetection_of_peak _ _ _ _ _ _ (by simpa using h)]
  simp [h]

theorem deBeforeDecay_of_locked (P : StallProfile) (T : DETuning) (i : TickInput)
    (rp : List PartTime) (s : MonitorState) (h : s.lockedPerformance = true) :
    (deBeforeDecay P T i rp s).lockedPerformance = true := by
  unfold deBeforeDecay
  apply reinforcementLock_keeps_lock
  unfold peakDetection
  split_ifs
  all_goals simp [h]

/-- The flags of the DSL / enterprise body that tell how the peak or the lock was lost,
and the fields the steps after the decay block leave as the decay block left them. -/
theorem deBody_after_decay (P : StallProfile) (T : DETuning) (i : TickInput)
    (rp : List PartTime) (s : MonitorState) :
    (deBody P T i rp s).2.peakLost
        = (deDecay P T i.now (realThroughputMbps rp) (deBeforeDecay P T i rp s)).2.peakLost
      ∧ (deBody P T i rp s).2.sustainedDrop
        = (deDecay P T i.now (realThroughputMbps rp)
            (deBeforeDecay P T i rp s)).2.sustainedDrop
      ∧ (deBody P T i rp s).1.peakTimestamp
        = (deDecay P T i.now (realThroughputMbps rp)
            (deBeforeDecay P T i rp s)).1.peakTimestamp
      ∧ (deBody P T i rp s).1.initialPeakThroughput
        = (deDecay P T i.now (realThroughputMbps rp)
            (deBeforeDecay P T i rp s)).1.initialPeakThroughput
      ∧ ((deBody P T i rp s).2.emergencyReset = false →
          (deBody P T i rp s).1.peakPerformanceDetected
            = (deDecay P T i.now (realThroughputMbps rp)
                (deBeforeDecay P T i rp s)).1.peakPerformanceDetected
          ∧ (deBody P T i rp s).1.lockedPerformance
            = (deDecay P T i.now (realThroughputMbps rp)
                (deBeforeDecay P T i rp s)).1.lockedPerformance)
      ∧ ((deDecay P T i.now (realThroughputMbps rp)
            (deBeforeDecay P T i rp s)).1.peakPerformanceDetected = false →
          (deBody P T i rp s).1.peakPerformanceDetected = false)
      ∧ ((deDecay P T i.now (realThroughputMbps rp)
            (deBeforeDecay P T i rp s)).1.lockedPerformance = false →
          (deBody P T i rp s).1.lockedPerformance = false)
      ∧ ((deDecay P T i.now (realThroughputMbps rp)
            (deBeforeDecay P T i rp s)).1.strongPerformanceSamples = 0 →
          (deBody P T i rp s).1.strongPerformanceSamples = 0) := by
  refine ⟨rfl, rfl, ?_, ?_, ?_, ?_, ?_, ?_⟩
  · simp [deBody, deBeforeDecay]
  · simp [deBody, deBeforeDecay]
  · intro h
    have hq := emergencyReset_quiet _ _ _ _ _ h
    simp only [deBody, deBeforeDecay] at hq ⊢
    simp only [throttledFallback_peakPerformanceDetected,
      throttledFallback_lockedPerformance, hq.1, hq.2]
    simp
  · intro h
    simp only [deBody, throttledFallback_peakPerformanceDetected]
    apply emergencyReset_no_peak
    simpa [deBeforeDecay] using h
  · intro h
    simp only [deBody, throttledFallback_lockedPerformance]
    apply (emergencyReset_keeps_cleared _ _ _ _ _).1
    simpa [deBeforeDecay] using h
  · intro h
    simp only [deBody, throttledFallback_strongPerformanceSamples]
    apply (emergencyReset_keeps_cleared _ _ _ _ _).2
    simpa [deBeforeDecay] using h

theorem deBody_peak_unset (P : StallProfile) (T : DETuning) (i : TickInput)
    (rp : List PartTime) (s : MonitorState) (hs : s.peakPerformanceDetected = true)
    (hend : (deBody P T i rp s).1.peakPerformanceDetected = false) :
    (deBody P T i rp s).2.emergencyReset = true
      ∨ (hysteresisPhase T.smoothingMax T.weights T.dropFraction T.recoveryFraction
            T.warningFraction (realThroughputMbps rp) (deBeforeDecay P T i rp s)
          = PeakResetState.dropping
        ∧ i.now - (deBeforeDecay P T i rp s).peakTimestamp.getD 0
          > min P.sweetSpotProtectionDuration T.decayCeiling) := by
  obtain ⟨_, _, _, _, hq, _, _, _⟩ := deBody_after_decay P T i rp s
  cases he : (deBody P T i rp s).2.emergencyReset
  · right
    have hx := (deBeforeDecay_of_peak P T i rp s hs).1
    have hd := (hq he).1
    rw [hend] at hd
    cases h1 : (deDecay P T i.now (realThroughputMbps rp)
        (deBeforeDecay P T i rp s)).2.peakLost
    · cases h2 : (deDecay P T i.now (realThroughputMbps rp)
          (deBeforeDecay P T i rp s)).2.sustainedDrop
      · have := (deDecay_quiet P T _ _ _ h1 h2).1
        rw [← hd, hx] at this
        cases this
      · obtain ⟨_, hp, ht⟩ := deDecay_sustainedDrop_fired P T _ _ _ h2
        exact ⟨hp, lt_of_le_of_lt (min_le_right _ _) ht⟩
    · obtain ⟨_, hp, ht⟩ := (deDecay_peakLost_iff P T _ _ _).1 h1
      exact ⟨hp, lt_of_le_of_lt (min_le_left _ _) ht⟩
  · left; rfl

theorem deBody_lock_cleared (P : StallProfile) (T : DETuning) (i : TickInput)
    (rp : List PartTime) (s : MonitorState) (hs : s.lockedPerformance = true)
    (hend : (deBody P T i rp s).1.lockedPerformance = false) :
    (deBody P T i rp s).2.emergencyReset = true
      ∨ (deBody P T i rp s).2.peakLost = true
      ∨ (deBody P T i rp s).2.sustainedDrop = true := by
  obtain ⟨f1, f2, _, _, hq, _, _, _⟩ := deBody_after_decay P T i rp s
  cases he : (deBody P T i rp s).2.emergencyReset
  · right
    have hx := deBeforeDecay_of_locked P T i rp s hs
    have hd := (hq he).2
    rw [hend] at hd
    rw [f1, f2]
    cases h1 : (deDecay P T i.now (realThroughputMbps rp)
        (deBeforeDecay P T i rp s)).2.peakLost
    · cases h2 : (deDecay P T i.now (realThroughputMbps rp)
          (deBeforeDecay P T i rp s)).2.sustainedDrop
      · have := (deDecay_quiet P T _ _ _ h1 h2).2
        rw [← hd, hx] at this
        cases this
      · right; rfl
    · left; rfl
  · left; rfl

theorem deBody_timed_reset (P : StallProfile) (T : DETuning) (i : TickInput)
    (rp : List PartTime) (s : MonitorState)
    (hle : P.sweetSpotProtectionDuration ≤ T.decayCeiling)
    (hg : decayGuard (deBeforeDecay P T i rp s) = true)
    (ht : i.now - (deBeforeDecay P T i rp s).peakTimestamp.getD 0 > T.decayCeiling)
    (hp : hysteresisPhase T.smoothingMax T.weights T.dropFraction T.recoveryFraction
      T.warningFraction (realThroughputMbps rp) (deBeforeDecay P T i rp s)
        = PeakResetState.dropping) :
    (deBody P T i rp s).1.peakPerformanceDetected = false
      ∧ (deBody P T i rp s).1.lockedPerformance = false
      ∧ (deBody P T i rp s).1.peakTimestamp = none
      ∧ (deBody P T i rp s).1.initialPeakThroughput = none
      ∧ (deBody P T i rp s).1.strongPerformanceSamples = 0 := by
  obtain ⟨_, _, f3, f4, _, k1, k2, k3⟩ := deBody_after_decay P T i rp s
  have hl := (deDecay_peakLost_iff P T i.now (realThroughputMbps rp) _).2
    ⟨hg, hp, lt_of_le_of_lt hle ht⟩
  obtain ⟨p1, p2, p3, p4, p5⟩ := deDecay_peakLost_fired P T _ _ _ hl
  exact ⟨k1 p1, k2 p2, f3.trans p3, f4.trans p4, k3 p5⟩

/-! #### Gigabit and ultra bodies -/

theorem peakUpdate_initialPeak_cases (P : LockProfile) (now : Int) (cT a : ℚ)
    (s : MonitorState) :
    ((peakUpdate P now cT a s).1.initialPeakThroughput = s.initialPeakThroughput
        ∧ (peakUpdate P now cT a s).1.peakTimestamp = s.peakTimestamp)
      ∨ ((peakUpdate P now cT a s).1.initialPeakThroughput = some cT
        ∧ (peakUpdate P now cT a s).1.peakTimestamp = some now) := by
  unfold peakUpdate
  split_ifs
  · right; exact ⟨rfl, rfl⟩
  · left; exact ⟨rfl, rfl⟩

theorem guLockMode_keeps_cleared (P : LockProfile) (T : GUTuning) (now : Int)
    (speed cT : ℚ) (s : MonitorState) (h : s.strongPerformanceSamples = 0) :
    (guLockMode P T now speed cT s).1.strongPerformanceSamples = 0 := by
  unfold guLockMode
  split_ifs
  all_goals simp [h]

theorem guBeforeDecay_frame (P : LockProfile) (T : GUTuning) (i : TickInput)
    (rp : List PartTime) (s : MonitorState) :
    (guBeforeDecay P T i rp s).peakPerformanceDetected = s.peakPerformanceDetected
      ∧ (s.lockedPerformance = true → (guBeforeDecay P T i rp s).lockedPerformance = true)
      ∧ (((guBeforeDecay P T i rp s).initialPeakThroughput = s.initialPeakThroughput
          ∧ (guBeforeDecay P T i rp s).peakTimestamp = s.peakTimestamp)
        ∨ ((guBeforeDecay P T i rp s).initialPeakThroughput = some (realThroughputMbps rp)
          ∧ (guBeforeDecay P T i rp s).peakTimestamp = some i.now)) := by
  unfold guBeforeDecay
  refine ⟨by simp, ?_, ?_⟩
  · intro h
    apply reinforcementLock_keeps_lock
    simpa using h
  · simp only [reinforcementLock_initialPeakThroughput, reinforcementLock_peakTimestamp]
    rcases peakUpdate_initialPeak_cases P i.now (realThroughputMbps rp)
      (avgPartSpeed rp * 8) (recordAvgPartSpeed 5 rp s) with h | h
    · left; simpa using h
    · right; exact h

/-- The state in which the lock-mode block of gigabit.js / ultra.js is entered, given the
state `d` the decay block left. -/
theorem guBody_chain (P : LockProfile) (T : GUTuning) (i : TickInput)
    (rp : List PartTime) (s : MonitorState) (hcT : 0 ≤ realThroughputMbps rp) :
    (guBody P T i rp s).2.smartReset
        = (guDecay T i.now (realThroughputMbps rp) (guBeforeDecay P T i rp s)).2.smartReset
      ∧ (guBody P T i rp s).1.peakTimestamp
        = (guDecay T i.now (realThroughputMbps rp) (guBeforeDecay P T i rp s)).1.peakTimestamp
      ∧ (guBody P T i rp s).1.initialPeakThroughput
        = (guDecay T i.now (realThroughputMbps rp)
            (guBeforeDecay P T i rp s)).1.initialPeakThroughput
      ∧ ((guBody P T i rp s).2.degradationUnlock = true →
          (guDecay T i.now (realThroughputMbps rp)
              (guBeforeDecay P T i rp s)).1.lockedPerformance = true
            ∧ realThroughputMbps rp
              < toNumber (guDecay T i.now (realThroughputMbps rp)
                  (guBeforeDecay P T i rp s)).1.initialPeakThroughput * 0.6)
      ∧ ((guBody P T i rp s).2.emergencyReset = false →
          (guBody P T i rp s).2.degradationUnlock = false →
          (guBody P T i rp s).1.peakPerformanceDetected
            = (guDecay T i.now (realThroughputMbps rp)
                (guBeforeDecay P T i rp s)).1.peakPerformanceDetected
          ∧ (guBody P T i rp s).1.lockedPerformance
            = (guDecay T i.now (realThroughputMbps rp)
                (guBeforeDecay P T i rp s)).1.lockedPerformance)
      ∧ ((guDecay T i.now (realThroughputMbps rp)
            (guBeforeDecay P T i rp s)).1.peakPerformanceDetected = false →
          (guBody P T i rp s).1.peakPerformanceDetected = false)
      ∧ ((guDecay T i.now (realThroughputMbps rp)
            (guBeforeDecay P T i rp s)).1.strongPerformanceSamples = 0 →
          (guBody P T i rp s).1.strongPerformanceSamples = 0) := by
  refine ⟨rfl, ?_, ?_, ?_, ?_, ?_, ?_⟩
  · simp [guBody, guBeforeDecay]
  · simp [guBody, guBeforeDecay]
  · intro h
    have hf := guLockMode_fired _ _ _ _ _ _ h
    simpa [guBeforeDecay] using hf
  · intro he hd
    have hq := emergencyReset_quiet _ _ _ _ _ he
    have hl := guLockMode_quiet _ _ _ _ _ _ hd
    simp only [guBody, guBeforeDecay] at hq hl ⊢
    simp only [throttledFallback_peakPerformanceDetected,
      throttledFallback_lockedPerformance, hq.1, hq.2,
      continuousProgress_peakPerformanceDetected, continuousProgress_lockedPerformance,
      guWatchdog_peakPerformanceDetected, guWatchdog_lockedPerformance,
      applyAdjustment_peakPerformanceDetected, applyAdjustment_lockedPerformance]
    rw [(guRampDown_after_lockMode P T i.now _ _ _ _ hcT).1,
      (guRampDown_after_lockMode P T i.now _ _ _ _ hcT).2, hl.1, hl.2]
    simp
  · intro h
    simp only [guBody, throttledFallback_peakPerformanceDetected]
    apply emergencyReset_no_peak
    simp only [continuousProgress_peakPerformanceDetected,
      guWatchdog_peakPerformanceDetected, applyAdjustment_peakPerformanceDetected]
    apply guRampDown_no_peak
    apply guLockMode_no_peak
    simpa [guBeforeDecay] using h
  · intro h
    simp only [guBody, throttledFallback_strongPerformanceSamples]
    apply (emergencyReset_keeps_cleared _ _ _ _ _).2
    simp only [continuousProgress_strongPerformanceSamples,
      guWatchdog_strongPerformanceSamples, applyAdjustment_strongPerformanceSamples,
      guRampDown_strongPerformanceSamples]
    apply guLockMode_keeps_cleared
    simpa [guBeforeDecay] using h

theorem toNumber_some (x : ℚ) : toNumber (some x) = x := rfl

theorem toNumber_none : toNumber none = 0 := rfl

theorem guBody_degradation (P : LockProfile) (T : GUTuning) (i : TickInput)
    (rp : List PartTime) (s : MonitorState) (hcT : 0 ≤ realThroughputMbps rp)
    (h : (guBody P T i rp s).2.degradationUnlock = true) :
    realThroughputMbps rp < toNumber s.initialPeakThroughput * 0.6
      ∧ (guBody P T i rp s).2.smartReset = false := by
  obtain ⟨f1, _, _, hd, _, _, _⟩ := guBody_chain P T i rp s hcT
  have hlt := (hd h).2
  cases hs : (guDecay T i.now (realThroughputMbps rp) (guBeforeDecay P T i rp s)).2.smartReset
  · refine ⟨?_, f1.trans hs⟩
    rw [(guDecay_quiet T _ _ _ hs).2] at hlt
    rcases (guBeforeDecay_frame P T i rp s).2.2 with hx | hx
    · rw [hx.1] at hlt; exact hlt
    · rw [hx.1, toNumber_some] at hlt
      nlinarith
  · rw [(guDecay_fired T _ _ _ hs).2.2.1, toNumber_none] at hlt
    nlinarith

theorem guBody_peak_unset (P : LockProfile) (T : GUTuning) (i : TickInput)
    (rp : List PartTime) (s : MonitorState) (hcT : 0 ≤ realThroughputMbps rp)
    (hs : s.peakPerformanceDetected = true)
    (hend : (guBody P T i rp s).1.peakPerformanceDetected = false) :
    (guBody P T i rp s).2.emergencyReset = true
      ∨ ((guBody P T i rp s).2.degradationUnlock = true
        ∧ realThroughputMbps rp < toNumber s.initialPeakThroughput * 0.6)
      ∨ (hysteresisPhase 5 [0.4, 0.3, 0.15, 0.1, 0.05] 0.75 0.85 0.80 (realThroughputMbps rp)
            (guBeforeDecay P T i rp s) = PeakResetState.dropping
        ∧ i.now - (guBeforeDecay P T i rp s).peakTimestamp.getD 0 > T.decayCeiling) := by
  obtain ⟨_, _, _, _, hq, _, _⟩ := guBody_chain P T i rp s hcT
  cases he : (guBody P T i rp s).2.emergencyReset
  · right
    cases hd : (guBody P T i rp s).2.degradationUnlock
    · right
      have h1 := (hq he hd).1
      rw [hend] at h1
      cases hr : (guDecay T i.now (realThroughputMbps rp)
          (guBeforeDecay P T i rp s)).2.smartReset
      · have := (guDecay_quiet T _ _ _ hr).1
        rw [← h1, (guBeforeDecay_frame P T i rp s).1, hs] at this
        cases this
      · exact ((guDecay_smartReset_iff T _ _ _).1 hr).2
    · left
      exact ⟨rfl, (guBody_degradation P T i rp s hcT hd).1⟩
  · left; rfl

theorem guBody_lock_cleared (P : LockProfile) (T : GUTuning) (i : TickInput)
    (rp : List PartTime) (s : MonitorState) (hcT : 0 ≤ realThroughputMbps rp)
    (hs : s.lockedPerformance = true)
    (hend : (guBody P T i rp s).1.lockedPerformance = false) :
    (guBody P T i rp s).2.emergencyReset = true
      ∨ ((guBody P T i rp s).2.degradationUnlock = true
        ∧ realThroughputMbps rp < toNumber s.initialPeakThroughput * 0.6) := by
  obtain ⟨_, _, _, _, hq, _, _⟩ := guBody_chain P T i rp s hcT
  cases he : (guBody P T i rp s).2.emergencyReset
  · right
    cases hd : (guBody P T i rp s).2.degradationUnlock
    · have h1 := (hq he hd).2
      rw [hend, guDecay_lockedPerformance,
        (guBeforeDecay_frame P T i rp s).2.1 hs] at h1
      cases h1
    · exact ⟨rfl, (guBody_degradation P T i rp s hcT hd).1⟩
  · left; rfl

theorem guBody_timed_reset (P : LockProfile) (T : GUTuning) (i : TickInput)
    (rp : List PartTime) (s : MonitorState) (hcT : 0 ≤ realThroughputMbps rp)
    (hg : decayGuard (guBeforeDecay P T i rp s) = true)
    (ht : i.now - (guBeforeDecay P T i rp s).peakTimestamp.getD 0 > T.decayCeiling)
    (hp : hysteresisPhase 5 [0.4, 0.3, 0.15, 0.1, 0.05] 0.75 0.85 0.80 (realThroughputMbps rp)
      (guBeforeDecay P T i rp s) = PeakResetState.dropping) :
    (guBody P T i rp s).1.peakPerformanceDetected = false
      ∧ (guBody P T i rp s).1.peakTimestamp = none
      ∧ (guBody P T i rp s).1.initialPeakThroughput = none
      ∧ (guBody P T i rp s).1.strongPerformanceSamples = 0
      ∧ (s.lockedPerformance = true → (guBody P T i rp s).2.emergencyReset = false →
          (guBody P T i rp s).1.lockedPerformance = true) := by
  obtain ⟨f1, f2, f3, _, hq, k1, k2⟩ := guBody_chain P T i rp s hcT
  have hr := (guDecay_smartReset_iff T i.now (realThroughputMbps rp) _).2 ⟨hg, hp, ht⟩
  obtain ⟨p1, p2, p3, p4, p5⟩ := guDecay_fired T _ _ _ hr
  refine ⟨k1 p1, f2.trans p2, f3.trans p3, k2 p4, ?_⟩
  intro hl he
  cases hd : (guBody P T i rp s).2.degradationUnlock
  · rw [(hq he hd).2, p5]
    exact (guBeforeDecay_frame P T i rp s).2.1 hl
  · have := (guBody_degradation P T i rp s hcT hd).2
    rw [f1, hr] at this
    cases this

/-! #### Fiber and cable bodies -/

theorem fiberAfterDecay_quiet (i : TickInput) (rp : List PartTime) (smoothed cT : ℚ)
    (x : MonitorState) (h : (fiberAfterDecay i rp smoothed cT x).2.emergencyReset = false) :
    (fiberAfterDecay i rp smoothed cT x).1.peakPerformanceDetected
        = x.peakPerformanceDetected
      ∧ (fiberAfterDecay i rp smoothed cT x).1.lockedPerformance = x.lockedPerformance := by
  have hq := emergencyReset_quiet _ _ _ _ _ h
  simp only [fiberAfterDecay] at hq ⊢
  simp only [throttledFallback_peakPerformanceDetected, throttledFallback_lockedPerformance,
    hq.1, hq.2]
  simp

theorem fiberDecayResult_frame (i : TickInput) (rp : List PartTime) (s : MonitorState) :
    (s.peakPerformanceDetected = true →
        (fiberDecayResult i rp s).1.peakPerformanceDetected = true)
      ∧ (s.lockedPerformance = true →
        (fiberDecayResult i rp s).1.lockedPerformance = true) := by
  unfold fiberDecayResult
  constructor
  · intro h
    rw [peakDetection_of_peak _ _ _ _ _ _ (by simpa using h)]
    simp [h]
  · intro h
    rw [fiberDecay_lockedPerformance]
    apply reinforcementLock_keeps_lock
    unfold peakDetection
    split_ifs
    all_goals simp [h]

theorem fiberBody_unset (i : TickInput) (rp : List PartTime) (s : MonitorState) :
    (s.peakPerformanceDetected = true →
        (fiberBody i rp s).1.peakPerformanceDetected = false →
        (fiberBody i rp s).2.emergencyReset = true)
      ∧ (s.lockedPerformance = true →
        (fiberBody i rp s).1.lockedPerformance = false →
        (fiberBody i rp s).2.emergencyReset = true) := by
  obtain ⟨k1, k2⟩ := fiberDecayResult_frame i rp s
  cases hth : (fiberDecayResult i rp s).2.threw
  · obtain ⟨e1, _, e3, _⟩ := fiberBody_of_not_threw i rp s hth
    rw [e1, e3]
    constructor
    · intro hs hend
      by_contra hne
      rw [Bool.not_eq_true] at hne
      rw [(fiberAfterDecay_quiet _ _ _ _ _ hne).1, k1 hs] at hend
      cases hend
    · intro hs hend
      by_contra hne
      rw [Bool.not_eq_true] at hne
      rw [(fiberAfterDecay_quiet _ _ _ _ _ hne).2, k2 hs] at hend
      cases hend
  · obtain ⟨e1, _⟩ := fiberBody_of_threw i rp s hth
    rw [e1]
    constructor
    · intro hs hend
      rw [k1 hs] at hend
      cases hend
    · intro hs hend
      rw [k2 hs] at hend
      cases hend

theorem cableBody_after_decay (i : TickInput) (rp : List PartTime) (s : MonitorState) :
    (cableBody i rp s).2.smartReset
        = (cableDecay i.now (realThroughputMbps rp) (cableBeforeDecay i rp s)).2.smartReset
      ∧ (cableBody i rp s).1.peakPerformanceDetected
        = (cableDecay i.now (realThroughputMbps rp)
            (cableBeforeDecay i rp s)).1.peakPerformanceDetected
      ∧ (cableBody i rp s).1.peakTimestamp
        = (cableDecay i.now (realThroughputMbps rp) (cableBeforeDecay i rp s)).1.peakTimestamp
      ∧ (cableBody i rp s).1.initialPeakThroughput
        = (cableDecay i.now (realThroughputMbps rp)
            (cableBeforeDecay i rp s)).1.initialPeakThroughput
      ∧ (cableBody i rp s).1.strongPerformanceSamples
        = (cableDecay i.now (realThroughputMbps rp)
            (cableBeforeDecay i rp s)).1.strongPerformanceSamples
      ∧ (cableBody i rp s).1.lockedPerformance = s.lockedPerformance
      ∧ (cableBody i rp s).2.emergencyReset = false := by
  refine ⟨rfl, ?_, ?_, ?_, ?_, ?_, rfl⟩
  all_goals simp [cableBody, cableBeforeDecay]

theorem cableBody_peak_unset (i : TickInput) (rp : List PartTime) (s : MonitorState)
    (hs : s.peakPerformanceDetected = true)
    (hend : (cableBody i rp s).1.peakPerformanceDetected = false) :
    hysteresisPhase 5 [0.4, 0.3, 0.15, 0.1, 0.05] 0.65 0.75 0.70 (realThroughputMbps rp)
          (cableBeforeDecay i rp s) = PeakResetState.dropping
      ∧ i.now - (cableBeforeDecay i rp s).peakTimestamp.getD 0 > 60000 := by
  obtain ⟨_, f2, _⟩ := cableBody_after_decay i rp s
  rw [f2] at hend
  cases hr : (cableDecay i.now (realThroughputMbps rp) (cableBeforeDecay i rp s)).2.smartReset
  · have := cableDecay_quiet _ _ _ hr
    rw [hend] at this
    have hx : (cableBeforeDecay i rp s).peakPerformanceDetected = true := by
      unfold cableBeforeDecay
      rw [cablePeakDetection_of_peak _ _ _ _ (by simpa using hs)]
      simpa using hs
    rw [hx] at this
    cases this
  · exact ((cableDecay_smartReset_iff _ _ _).1 hr).2

theorem cableBody_timed_reset (i : TickInput) (rp : List PartTime) (s : MonitorState)
    (hg : decayGuard (cableBeforeDecay i rp s) = true)
    (ht : i.now - (cableBeforeDecay i rp s).peakTimestamp.getD 0 > 60000)
    (hp : hysteresisPhase 5 [0.4, 0.3, 0.15, 0.1, 0.05] 0.65 0.75 0.70 (realThroughputMbps rp)
      (cableBeforeDecay i rp s) = PeakResetState.dropping) :
    (cableBody i rp s).1.peakPerformanceDetected = false
      ∧ (cableBody i rp s).1.peakTimestamp = none
      ∧ (cableBody i rp s).1.initialPeakThroughput = none
      ∧ (cableBody i rp s).1.strongPerformanceSamples = 0 := by
  obtain ⟨_, f2, f3, f4, f5, _⟩ := cableBody_after_decay i rp s
  have hr := (cableDecay_smartReset_iff i.now (realThroughputMbps rp) _).2 ⟨hg, hp, ht⟩
  obtain ⟨p1, p2, p3, p4⟩ := cableDecay_fired _ _ _ hr
  exact ⟨f2.trans p1, f3.trans p2, f4.trans p3, f5.trans p4⟩

/-! #### Whole ticks -/

/-- A tick that evaluates nothing leaves the peak and the lock as they were. -/
theorem Monitor.tick_not_evaluated (m : Monitor) (s : MonitorState) (i : TickInput)
    (h : (m.tick s i).2.evaluated = false) :
    (m.tick s i).1.peakPerformanceDetected = s.peakPerformanceDetected
      ∧ (m.tick s i).1.lockedPerformance = s.lockedPerformance := by
  cases m
  all_goals
    revert h
    simp only [Monitor.tick, dslTick, enterpriseTick, gigabitTick, ultraTick, deTick,
      fiberTick, cableTick, guTick]
    split_ifs
    all_goals first
      | (intro _; exact ⟨rfl, rfl⟩)
      | (intro h; exfalso; revert h; simp [deBody, cableBody, guBody, fiberBody_evaluated])

theorem Monitor.evaluated_of_change (m : Monitor) (s : MonitorState) (i : TickInput)
    (h : (m.tick s i).1.peakPerformanceDetected ≠ s.peakPerformanceDetected
      ∨ (m.tick s i).1.lockedPerformance ≠ s.lockedPerformance) :
    (m.tick s i).2.evaluated = true := by
  by_contra hne
  rw [Bool.not_eq_true] at hne
  obtain ⟨h1, h2⟩ := Monitor.tick_not_evaluated m s i hne
  rcases h with h | h
  · exact h h1
  · exact h h2

/-! ### Claim C11: how a detected peak is unset -/

/-- C11. In every profile monitor, on any tick (its samples having non-negative speeds)
that starts with `peakPerformanceDetected = true` and ends with it false, at least one of
these happened in that tick: the emergency reset fired; the severe-degradation unlock
fired, with `currentThroughput` below 0.6 x `initialPeakThroughput`; or the decay block
was in phase "dropping" after its hysteresis update with the time since the peak beyond
the monitor's protection duration (DSL, enterprise) or decay ceiling. The warning phase
alone never unsets the peak. -/
theorem peak_unset_causes (m : Monitor) (s : MonitorState) (i : TickInput)
    (hspeed : ∀ p ∈ i.partTimes, 0 ≤ p.speed)
    (hstart : s.peakPerformanceDetected = true)
    (hend : (m.tick s i).1.peakPerformanceDetected = false) :
    (m.tick s i).2.emergencyReset = true
      ∨ ((m.tick s i).2.degradationUnlock = true
        ∧ m.currentThroughput i < toNumber s.initialPeakThroughput * 0.6)
      ∨ (m.phaseAfterHysteresis s i = PeakResetState.dropping
        ∧ m.timeSincePeak s i > m.decayAfter) := by
  have hev : (m.tick s i).2.evaluated = true :=
    Monitor.evaluated_of_change m s i (Or.inl (by rw [hend, hstart]; decide))
  have hcT := Monitor.currentThroughput_nonneg m i hspeed
  cases m
  · have e : Monitor.dsl.tick s i
        = deBody DSL_PROFILE dslTuning i (sliceLast i.partTimes 5) s :=
      deTick_of_evaluated DSL_PROFILE dslTuning s i hev
    rw [e] at hend ⊢
    rcases deBody_peak_unset DSL_PROFILE dslTuning i _ s hstart hend with h | h
    · exact Or.inl h
    · exact Or.inr (Or.inr h)
  · have e : Monitor.cable.tick s i = cableBody i (sliceLast i.partTimes 6) s :=
      cableTick_of_evaluated s i hev
    rw [e] at hend ⊢
    exact Or.inr (Or.inr (cableBody_peak_unset i _ s hstart hend))
  · have e : Monitor.fiber.tick s i = fiberBody i (sliceLast i.partTimes 8) s :=
      fiberTick_of_evaluated s i hev
    rw [e] at hend ⊢
    exact Or.inl ((fiberBody_unset i _ s).1 hstart hend)
  · have e : Monitor.enterprise.tick s i
        = deBody ENTERPRISE_PROFILE enterpriseTuning i (sliceLast i.partTimes 12) s :=
      deTick_of_evaluated ENTERPRISE_PROFILE enterpriseTuning s i hev
    rw [e] at hend ⊢
    rcases deBody_peak_unset ENTERPRISE_PROFILE enterpriseTuning i _ s hstart hend with h | h
    · exact Or.inl h
    · exact Or.inr (Or.inr h)
  · have e : Monitor.gigabit.tick s i
        = guBody GIGABIT_PROFILE gigabitTuning i (sliceLast i.partTimes 10) s :=
      guTick_of_evaluated GIGABIT_PROFILE gigabitTuning s i hev
    rw [e] at hend ⊢
    exact guBody_peak_unset GIGABIT_PROFILE gigabitTuning i _ s hcT hstart hend
  · have e : Monitor.ultra.tick s i
        = guBody ULTRA_PROFILE ultraTuning i (sliceLast i.partTimes 10) s :=
      guTick_of_evaluated ULTRA_PROFILE ultraTuning s i hev
    rw [e] at hend ⊢
    exact guBody_peak_unset ULTRA_PROFILE ultraTuning i _ s hcT hstart hend

theorem peak_unset_causes_witness :
    (stateAt dslTick (Monitor.dsl.start ⟨3⟩ 1000) dslLockLost
        4).peakPerformanceDetected = true
      ∧ (Monitor.dsl.tick (stateAt dslTick (Monitor.dsl.start ⟨3⟩ 1000) dslLockLost 4)
          (sampleInput 60000 (sampleParts 5 0.65 59000)
            10000000000)).1.peakPerformanceDetected = false
      ∧ ((Monitor.dsl.tick (stateAt dslTick (Monitor.dsl.start ⟨3⟩ 1000) dslLockLost 4)
            (sampleInput 60000 (sampleParts 5 0.65 59000) 10000000000)).2.emergencyReset
          = true
        ∨ ((Monitor.dsl.tick (stateAt dslTick (Monitor.dsl.start ⟨3⟩ 1000) dslLockLost 4)
              (sampleInput 60000 (sampleParts 5 0.65 59000)
                10000000000)).2.degradationUnlock = true
          ∧ Monitor.dsl.currentThroughput
              (sampleInput 60000 (sampleParts 5 0.65 59000) 10000000000)
            < toNumber (stateAt dslTick (Monitor.dsl.start ⟨3⟩ 1000) dslLockLost
                4).initialPeakThroughput * 0.6)
        ∨ (Monitor.dsl.phaseAfterHysteresis
              (stateAt dslTick (Monitor.dsl.start ⟨3⟩ 1000) dslLockLost 4)
              (sampleInput 60000 (sampleParts 5 0.65 59000) 10000000000)
            = PeakResetState.dropping
          ∧ Monitor.dsl.timeSincePeak
              (stateAt dslTick (Monitor.dsl.start ⟨3⟩ 1000) dslLockLost 4)
              (sampleInput 60000 (sampleParts 5 0.65 59000) 10000000000)
            > Monitor.dsl.decayAfter)) :=
  ⟨by decide!, by decide!,
    peak_unset_causes Monitor.dsl
      (stateAt dslTick (Monitor.dsl.start ⟨3⟩ 1000) dslLockLost 4)
      (sampleInput 60000 (sampleParts 5 0.65 59000) 10000000000)
      (by decide!) (by decide!) (by decide!)⟩

/-! ### Claim C15: how a set lock is cleared -/

/-- C15, counterexample. The DSL monitor has locked its peak of 40 Mbps; two ticks at
8 Mbps put the decay block in phase "dropping". The tick at clock 60000 starts locked,
sees 26 Mbps, which is not below 0.6 x 40 = 24, fires no emergency reset, and ends
unlocked: the block "Drop peak detection if performance has degraded for too long"
(dsl.js 199-206) clears `lockedPerformance`. -/
theorem dsl_lock_cleared_by_decay :
    (stateAt dslTick (Monitor.dsl.start ⟨3⟩ 1000) dslLockLost 4).lockedPerformance = true
      ∧ (stateAt dslTick (Monitor.dsl.start ⟨3⟩ 1000) dslLockLost 4).initialPeakThroughput
          = some 40
      ∧ dslLockLost.map Monitor.dsl.currentThroughput = [40, 40, 40, 8, 8, 26]
      ∧ ¬ (Monitor.dsl.currentThroughput
            (sampleInput 60000 (sampleParts 5 0.65 59000) 10000000000)
          < 0.6 * toNumber (stateAt dslTick (Monitor.dsl.start ⟨3⟩ 1000) dslLockLost
              4).initialPeakThroughput)
      ∧ (eventsAt dslTick (Monitor.dsl.start ⟨3⟩ 1000) dslLockLost 5).emergencyReset = false
      ∧ (eventsAt dslTick (Monitor.dsl.start ⟨3⟩ 1000) dslLockLost 5).peakLost = true
      ∧ (stateAt dslTick (Monitor.dsl.start ⟨3⟩ 1000) dslLockLost 5).lockedPerformance
          = false := by
  decide!

/-- C15, amended. In every profile monitor, on any tick (its samples having non-negative
speeds) that starts with `lockedPerformance = true` and ends with it false, one of these
happened in that tick: the emergency reset fired; the severe-degradation unlock fired,
with `currentThroughput` below 0.6 x `initialPeakThroughput`; or, in the DSL and
enterprise monitors only, the decay block was in phase "dropping" after its hysteresis
update with the time since the peak beyond `sweetSpotProtectionDuration`. -/
theorem lock_cleared_causes (m : Monitor) (s : MonitorState) (i : TickInput)
    (hspeed : ∀ p ∈ i.partTimes, 0 ≤ p.speed)
    (hstart : s.lockedPerformance = true)
    (hend : (m.tick s i).1.lockedPerformance = false) :
    (m.tick s i).2.emergencyReset = true
      ∨ ((m.tick s i).2.degradationUnlock = true
        ∧ m.currentThroughput i < toNumber s.initialPeakThroughput * 0.6)
      ∨ ((m = Monitor.dsl ∨ m = Monitor.enterprise)
        ∧ m.phaseAfterHysteresis s i = PeakResetState.dropping
        ∧ m.timeSincePeak s i > m.decayAfter) := by
  have hev : (m.tick s i).2.evaluated = true :=
    Monitor.evaluated_of_change m s i (Or.inr (by rw [hend, hstart]; decide))
  have hcT := Monitor.currentThroughput_nonneg m i hspeed
  have hde : ∀ (P : StallProfile) (T : DETuning) (rp : List PartTime),
      (deBody P T i rp s).1.lockedPerformance = false →
      (deBody P T i rp s).2.emergencyReset = true
        ∨ (hysteresisPhase T.smoothingMax T.weights T.dropFraction T.recoveryFraction
              T.warningFraction (realThroughputMbps rp) (deBeforeDecay P T i rp s)
            = PeakResetState.dropping
          ∧ i.now - (deBeforeDecay P T i rp s).peakTimestamp.getD 0
            > min P.sweetSpotProtectionDuration T.decayCeiling) := by
    intro P T rp h
    obtain ⟨f1, f2, _⟩ := deBody_after_decay P T i rp s
    rcases deBody_lock_cleared P T i rp s hstart h with h | h | h
    · exact Or.inl h
    · rw [f1] at h
      obtain ⟨_, hp, ht⟩ := (deDecay_peakLost_iff P T _ _ _).1 h
      exact Or.inr ⟨hp, lt_of_le_of_lt (min_le_left _ _) ht⟩
    · rw [f2] at h
      obtain ⟨_, hp, ht⟩ := deDecay_sustainedDrop_fired P T _ _ _ h
      exact Or.inr ⟨hp, lt_of_le_of_lt (min_le_right _ _) ht⟩
  cases m
  · have e : Monitor.dsl.tick s i
        = deBody DSL_PROFILE dslTuning i (sliceLast i.partTimes 5) s :=
      deTick_of_evaluated DSL_PROFILE dslTuning s i hev
    rw [e] at hend ⊢
    rcases hde DSL_PROFILE dslTuning _ hend with h | h
    · exact Or.inl h
    · exact Or.inr (Or.inr ⟨Or.inl rfl, h⟩)
  · have e : Monitor.cable.tick s i = cableBody i (sliceLast i.partTimes 6) s :=
      cableTick_of_evaluated s i hev
    rw [e, (cableBody_after_decay i _ s).2.2.2.2.2.1, hstart] at hend
    cases hend
  · have e : Monitor.fiber.tick s i = fiberBody i (sliceLast i.partTimes 8) s :=
      fiberTick_of_evaluated s i hev
    rw [e] at hend ⊢
    exact Or.inl ((fiberBody_unset i _ s).2 hstart hend)
  · have e : Monitor.enterprise.tick s i
        = deBody ENTERPRISE_PROFILE enterpriseTuning i (sliceLast i.partTimes 12) s :=
      deTick_of_evaluated ENTERPRISE_PROFILE enterpriseTuning s i hev
    rw [e] at hend ⊢
    rcases hde ENTERPRISE_PROFILE enterpriseTuning _ hend with h | h
    · exact Or.inl h
    · exact Or.inr (Or.inr ⟨Or.inr rfl, h⟩)
  · have e : Monitor.gigabit.tick s i
        = guBody GIGABIT_PROFILE gigabitTuning i (sliceLast i.partTimes 10) s :=
      guTick_of_evaluated GIGABIT_PROFILE gigabitTuning s i hev
    rw [e] at hend ⊢
    rcases guBody_lock_cleared GIGABIT_PROFILE gigabitTuning i _ s hcT hstart hend with h | h
    · exact Or.inl h
    · exact Or.inr (Or.inl h)
  · have e : Monitor.ultra.tick s i
        = guBody ULTRA_PROFILE ultraTuning i (sliceLast i.partTimes 10) s :=
      guTick_of_evaluated ULTRA_PROFILE ultraTuning s i hev
    rw [e] at hend ⊢
    rcases guBody_lock_cleared ULTRA_PROFILE ultraTuning i _ s hcT hstart hend with h | h
    · exact Or.inl h
    · exact Or.inr (Or.inl h)

/-! ### Claim C16: the timed decay reset -/

/-- C16, counterexample. The gigabit monitor, created at clock 1000 with its assumed peak
and lock, sees 400 Mbps at clock 70000: the tick is evaluated, the peak is detected, the
time since the peak (69 s) exceeds the ceiling of 60 s and the phase after the hysteresis
update is "dropping" (400 is below 0.75 x 600). The smart reset clears the peak fields,
but `lockedPerformance` is still true afterwards: gigabit.js 204-211 does not write
it. -/
theorem gigabit_smart_reset_keeps_lock :
    (Monitor.gigabit.tick (Monitor.gigabit.start ⟨1000⟩ 1000) gigabitDecayTick).2.evaluated
        = true
      ∧ decayGuard (Monitor.gigabit.beforeDecay (Monitor.gigabit.start ⟨1000⟩ 1000)
          gigabitDecayTick) = true
      ∧ Monitor.gigabit.timeSincePeak (Monitor.gigabit.start ⟨1000⟩ 1000) gigabitDecayTick
          = 69000
      ∧ Monitor.gigabit.decayCeiling = 60000
      ∧ Monitor.gigabit.phaseAfterHysteresis (Monitor.gigabit.start ⟨1000⟩ 1000)
          gigabitDecayTick = PeakResetState.dropping
      ∧ (Monitor.gigabit.tick (Monitor.gigabit.start ⟨1000⟩ 1000)
          gigabitDecayTick).2.smartReset = true
      ∧ (Monitor.gigabit.tick (Monitor.gigabit.start ⟨1000⟩ 1000)
          gigabitDecayTick).1.peakPerformanceDetected = false
      ∧ (Monitor.gigabit.tick (Monitor.gigabit.start ⟨1000⟩ 1000)
          gigabitDecayTick).1.lockedPerformance = true := by
  decide!

/-- C16, amended. In the DSL, enterprise, cable, gigabit and ultra monitors, on an
evaluated tick (its samples having non-negative speeds) on which the decay block runs (the
peak is detected, with its timestamp and throughput set), the time since the peak exceeds
the monitor's decay ceiling and the phase after the hysteresis update is "dropping", the
tick ends with `peakPerformanceDetected` false, `peakTimestamp` and
`initialPeakThroughput` cleared and the strong-sample counter 0. In DSL and enterprise
`lockedPerformance` is false as well. In gigabit and ultra the reset does not write
`lockedPerformance`: a monitor that started the tick locked ends it locked, unless the
emergency reset fires in the same tick. -/
theorem timed_decay_reset (m : Monitor) (s : MonitorState) (i : TickInput)
    (hm : m ≠ Monitor.fiber) (hspeed : ∀ p ∈ i.partTimes, 0 ≤ p.speed)
    (hev : (m.tick s i).2.evaluated = true)
    (hguard : decayGuard (m.beforeDecay s i) = true)
    (htime : m.timeSincePeak s i > m.decayCeiling)
    (hphase : m.phaseAfterHysteresis s i = PeakResetState.dropping) :
    (m.tick s i).1.peakPerformanceDetected = false
      ∧ (m.tick s i).1.peakTimestamp = none
      ∧ (m.tick s i).1.initialPeakThroughput = none
      ∧ (m.tick s i).1.strongPerformanceSamples = 0
      ∧ ((m = Monitor.dsl ∨ m = Monitor.enterprise) →
          (m.tick s i).1.lockedPerformance = false)
      ∧ ((m = Monitor.gigabit ∨ m = Monitor.ultra) → s.lockedPerformance = true →
          (m.tick s i).2.emergencyReset = false →
          (m.tick s i).1.lockedPerformance = true) := by
  have hcT := Monitor.currentThroughput_nonneg m i hspeed
  cases m
  · have e : Monitor.dsl.tick s i
        = deBody DSL_PROFILE dslTuning i (sliceLast i.partTimes 5) s :=
      deTick_of_evaluated DSL_PROFILE dslTuning s i hev
    rw [e]
    obtain ⟨p1, p2, p3, p4, p5⟩ := deBody_timed_reset DSL_PROFILE dslTuning i _ s
      (by decide) hguard htime hphase
    exact ⟨p1, p3, p4, p5, fun _ => p2, fun h => by simp at h⟩
  · have e : Monitor.cable.tick s i = cableBody i (sliceLast i.partTimes 6) s :=
      cableTick_of_evaluated s i hev
    rw [e]
    obtain ⟨p1, p2, p3, p4⟩ := cableBody_timed_reset i _ s hguard htime hphase
    exact ⟨p1, p2, p3, p4, fun h => by simp at h, fun h => by simp at h⟩
  · exact absurd rfl hm
  · have e : Monitor.enterprise.tick s i
        = deBody ENTERPRISE_PROFILE enterpriseTuning i (sliceLast i.partTimes 12) s :=
      deTick_of_evaluated ENTERPRISE_PROFILE enterpriseTuning s i hev
    rw [e]
    obtain ⟨p1, p2, p3, p4, p5⟩ := deBody_timed_reset ENTERPRISE_PROFILE enterpriseTuning
      i _ s (by decide) hguard htime hphase
    exact ⟨p1, p3, p4, p5, fun _ => p2, fun h => by simp at h⟩
  · have e : Monitor.gigabit.tick s i
        = guBody GIGABIT_PROFILE gigabitTuning i (sliceLast i.partTimes 10) s :=
      guTick_of_evaluated GIGABIT_PROFILE gigabitTuning s i hev
    rw [e]
    obtain ⟨p1, p2, p3, p4, p5⟩ := guBody_timed_reset GIGABIT_PROFILE gigabitTuning i _ s
      hcT hguard htime hphase
    exact ⟨p1, p2, p3, p4, fun h => by simp at h, fun _ => p5⟩
  · have e : Monitor.ultra.tick s i
        = guBody ULTRA_PROFILE ultraTuning i (sliceLast i.partTimes 10) s :=
      guTick_of_evaluated ULTRA_PROFILE ultraTuning s i hev
    rw [e]
    obtain ⟨p1, p2, p3, p4, p5⟩ := guBody_timed_reset ULTRA_PROFILE ultraTuning i _ s
      hcT hguard htime hphase
    exact ⟨p1, p2, p3, p4, fun h => by simp at h, fun _ => p5⟩

theorem timed_decay_reset_witness :
    (Monitor.dsl.tick (stateAt dslTick (Monitor.dsl.start ⟨3⟩ 1000) dslLockLost 4)
        (sampleInput 80000 (sampleParts 5 0.65 59000) 10000000000)).2.evaluated = true
      ∧ Monitor.dsl.timeSincePeak
          (stateAt dslTick (Monitor.dsl.start ⟨3⟩ 1000) dslLockLost 4)
          (sampleInput 80000 (sampleParts 5 0.65 59000) 10000000000)
          > Monitor.dsl.decayCeiling
      ∧ (Monitor.dsl.tick (stateAt dslTick (Monitor.dsl.start ⟨3⟩ 1000) dslLockLost 4)
          (sampleInput 80000 (sampleParts 5 0.65 59000)
            10000000000)).1.lockedPerformance = false :=
  ⟨by decide!, by decide!,
    (timed_decay_reset Monitor.dsl
      (stateAt dslTick (Monitor.dsl.start ⟨3⟩ 1000) dslLockLost 4)
      (sampleInput 80000 (sampleParts 5 0.65 59000) 10000000000)
      (by decide) (by decide!) (by decide!) (by decide!) (by decide!)
      (by decide!)).2.2.2.2.1 (Or.inl rfl)⟩

theorem lock_cleared_causes_witness :
    (stateAt dslTick (Monitor.dsl.start ⟨3⟩ 1000) dslLockLost 4).lockedPerformance = true
      ∧ (Monitor.dsl.tick (stateAt dslTick (Monitor.dsl.start ⟨3⟩ 1000) dslLockLost 4)
          (sampleInput 60000 (sampleParts 5 0.65 59000)
            10000000000)).1.lockedPerformance = false
      ∧ ((Monitor.dsl.tick (stateAt dslTick (Monitor.dsl.start ⟨3⟩ 1000) dslLockLost 4)
            (sampleInput 60000 (sampleParts 5 0.65 59000) 10000000000)).2.emergencyReset
          = true
        ∨ ((Monitor.dsl.tick (stateAt dslTick (Monitor.dsl.start ⟨3⟩ 1000) dslLockLost 4)
              (sampleInput 60000 (sampleParts 5 0.65 59000)
                10000000000)).2.degradationUnlock = true
          ∧ Monitor.dsl.currentThroughput
              (sampleInput 60000 (sampleParts 5 0.65 59000) 10000000000)
            < toNumber (stateAt dslTick (Monitor.dsl.start ⟨3⟩ 1000) dslLockLost
                4).initialPeakThroughput * 0.6)
        ∨ ((Monitor.dsl = Monitor.dsl ∨ Monitor.dsl = Monitor.enterprise)
          ∧ Monitor.dsl.phaseAfterHysteresis
              (stateAt dslTick (Monitor.dsl.start ⟨3⟩ 1000) dslLockLost 4)
              (sampleInput 60000 (sampleParts 5 0.65 59000) 10000000000)
            = PeakResetState.dropping
          ∧ Monitor.dsl.timeSincePeak
              (stateAt dslTick (Monitor.dsl.start ⟨3⟩ 1000) dslLockLost 4)
              (sampleInput 60000 (sampleParts 5 0.65 59000) 10000000000)
            > Monitor.dsl.decayAfter)) :=
  ⟨by decide!, by decide!,
    lock_cleared_causes Monitor.dsl
      (stateAt dslTick (Monitor.dsl.start ⟨3⟩ 1000) dslLockLost 4)
      (sampleInput 60000 (sampleParts 5 0.65 59000) 10000000000)
      (by decide!) (by decide!) (by decide!)⟩

/-! ### Claim C14: the throttled-network fallback -/

theorem throttledFallback_one_way (R : FallbackRule) (i : TickInput) (s : MonitorState)
    (hstep : 0 ≤ R.step) :
    (throttledFallback R i s).1.contextMaxParallel ≤ s.contextMaxParallel
      ∧ (R.direction = FallbackDirection.grow → R.guard ≤ R.bound →
          s.partSize ≤ (throttledFallback R i s).1.partSize)
      ∧ (R.direction = FallbackDirection.shrink → R.bound ≤ R.guard →
          (throttledFallback R i s).1.partSize ≤ s.partSize) := by
  unfold throttledFallback
  split_ifs with h1 h2
  · refine ⟨min_le_left _ _, ?_, ?_⟩
    · intro hd hb
      unfold fallbackGuard at h2
      rw [hd] at h2
      simp only [fallbackPartSize, hd]
      simp only at h2
      apply le_min <;> omega
    · intro hd hb
      unfold fallbackGuard at h2
      rw [hd] at h2
      simp only [fallbackPartSize, hd]
      simp only at h2
      apply max_le <;> omega
  · exact ⟨le_refl _, fun _ _ => le_refl _, fun _ _ => le_refl _⟩
  · exact ⟨le_refl _, fun _ _ => le_refl _, fun _ _ => le_refl _⟩

theorem cableFallback_one_way (i : TickInput) (s : MonitorState) :
    (cableFallback i s).1.maxParallel ≤ s.maxParallel
      ∧ s.partSize ≤ (cableFallback i s).1.partSize := by
  unfold cableFallback
  split_ifs with h1 h2
  · refine ⟨min_le_left _ _, ?_⟩
    apply le_min <;> omega
  · exact ⟨min_le_left _ _, le_refl _⟩
  · exact ⟨le_refl _, le_refl _⟩

theorem Monitor.fallback_step_one_way (m : Monitor) (i : TickInput) (s : MonitorState) :
    m.parallelism (m.fallback i s) ≤ m.parallelism s
      ∧ (m.fallbackDirection = FallbackDirection.grow →
          s.partSize ≤ (m.fallback i s).partSize)
      ∧ (m.fallbackDirection = FallbackDirection.shrink →
          (m.fallback i s).partSize ≤ s.partSize) := by
  cases m
  · obtain ⟨a, b, c⟩ := throttledFallback_one_way dslTuning.fallback i s (by decide)
    exact ⟨a, fun h => absurd h (by decide), fun h => c h (by decide)⟩
  · obtain ⟨a, b⟩ := cableFallback_one_way i s
    exact ⟨a, fun _ => b, fun h => absurd h (by decide)⟩
  · obtain ⟨a, b, c⟩ := throttledFallback_one_way fiberFallbackRule i s (by decide)
    exact ⟨a, fun h => b h (by decide), fun h => absurd h (by decide)⟩
  · obtain ⟨a, b, c⟩ := throttledFallback_one_way enterpriseTuning.fallback i s (by decide)
    exact ⟨a, fun h => b h (by decide), fun h => absurd h (by decide)⟩
  · obtain ⟨a, b, c⟩ := throttledFallback_one_way gigabitTuning.fallback i s (by decide)
    exact ⟨a, fun h => absurd h (by decide), fun h => c h (by decide)⟩
  · obtain ⟨a, b, c⟩ := throttledFallback_one_way ultraTuning.fallback i s (by decide)
    exact ⟨a, fun h => b h (by decide), fun h => absurd h (by decide)⟩

/-- Within a tick only the fallback block writes `strategy.partSize`: the tick either
leaves it alone or ends with the fallback block applied to a state that still has the
part size of the tick's start. -/
theorem Monitor.tick_ends_in_fallback (m : Monitor) (s : MonitorState) (i : TickInput) :
    (m.tick s i).1.partSize = s.partSize
      ∨ ∃ s', s'.partSize = s.partSize ∧ (m.tick s i).1 = m.fallback i s' := by
  cases m
  case fiber =>
    simp only [Monitor.tick, fiberTick]
    split_ifs
    · left; rfl
    · left; rfl
    · left; rfl
    · cases hth : (fiberDecayResult i (sliceLast i.partTimes 8) s).2.threw
      · right
        rw [(fiberBody_of_not_threw i _ s hth).1]
        refine ⟨_, ?_, rfl⟩
        simp [fiberDecayResult]
      · left
        rw [(fiberBody_of_threw i _ s hth).1]
        simp [fiberDecayResult]
    · left; rfl
  all_goals
    simp only [Monitor.tick, dslTick, enterpriseTick, gigabitTick, ultraTick, deTick,
      cableTick, guTick]
    split_ifs
    all_goals first
      | (left; rfl)
      | (right; refine ⟨_, ?_, rfl⟩; simp)

/-- C14, counterexample. On the first tick of the slow DSL start the fallback is applied
and `strategy.partSize` goes from 8 MiB down to 7 MiB: the DSL fallback makes parts
smaller ("Don't go below 3MB for DSL"). -/
theorem dsl_fallback_shrinks_parts :
    (Monitor.dsl.start ⟨3⟩ 30000).partSize = 8 * 1024 * 1024
      ∧ (eventsAt dslTick (Monitor.dsl.start ⟨3⟩ 30000) dslSlowStart 0).fallbackMode = true
      ∧ (stateAt dslTick (Monitor.dsl.start ⟨3⟩ 30000) dslSlowStart 0).partSize
          = 7 * 1024 * 1024
      ∧ ¬ ((Monitor.dsl.start ⟨3⟩ 30000).partSize
          ≤ (stateAt dslTick (Monitor.dsl.start ⟨3⟩ 30000) dslSlowStart 0).partSize) := by
  decide!

theorem throttledFallback_partSize_cases (R : FallbackRule) (i : TickInput)
    (s : MonitorState) :
    (throttledFallback R i s).1.partSize = s.partSize
      ∨ (fallbackGuard R s
        ∧ (throttledFallback R i s).1.partSize = fallbackPartSize R s.partSize) := by
  unfold throttledFallback
  split_ifs with h1 h2
  · right
    exact ⟨h2, rfl⟩
  · left; rfl
  · left; rfl

/-- The DSL fallback block (dsl.js 324-325) either leaves `strategy.partSize` alone or,
on a part size above 3 MiB, sets it to `Math.max(partSize - 1 MiB, 3 MiB)`. -/
theorem dslFallback_step (i : TickInput) (s : MonitorState) :
    (Monitor.dsl.fallback i s).partSize = s.partSize
      ∨ (3 * MiB < s.partSize
        ∧ (Monitor.dsl.fallback i s).partSize = max (s.partSize - 1 * MiB) (3 * MiB)) := by
  rcases throttledFallback_partSize_cases dslTuning.fallback i s with h | ⟨hg, h⟩
  · left; exact h
  · right; exact ⟨hg, h⟩

/-- The gigabit fallback block (gigabit.js 389-390) either leaves `strategy.partSize`
alone or, on a part size above 150 MiB, sets it to `Math.max(partSize - 50 MiB, 150 MiB)`. -/
theorem gigabitFallback_step (i : TickInput) (s : MonitorState) :
    (Monitor.gigabit.fallback i s).partSize = s.partSize
      ∨ (150 * MiB < s.partSize
        ∧ (Monitor.gigabit.fallback i s).partSize
          = max (s.partSize - 50 * MiB) (150 * MiB)) := by
  rcases throttledFallback_partSize_cases gigabitTuning.fallback i s with h | ⟨hg, h⟩
  · left; exact h
  · right; exact ⟨hg, h⟩

/-- A tick moves `strategy.partSize` exactly as the fallback block of the monitor does. -/
theorem Monitor.tick_partSize_step (m : Monitor) (guard step : Int)
    (hstep : ∀ (j : TickInput) (t : MonitorState),
      (m.fallback j t).partSize = t.partSize
        ∨ (guard < t.partSize ∧ (m.fallback j t).partSize = max (t.partSize - step) guard))
    (s : MonitorState) (i : TickInput) :
    (m.tick s i).1.partSize = s.partSize
      ∨ (guard < s.partSize ∧ (m.tick s i).1.partSize = max (s.partSize - step) guard) := by
  rcases Monitor.tick_ends_in_fallback m s i with h | ⟨s', hs, he⟩
  · left; exact h
  · rw [he, ← hs]
    exact hstep i s'

theorem Monitor.partSize_floor (m : Monitor) (guard step : Int)
    (hstep : ∀ (j : TickInput) (t : MonitorState),
      (m.fallback j t).partSize = t.partSize
        ∨ (guard < t.partSize ∧ (m.fallback j t).partSize = max (t.partSize - step) guard))
    (s : MonitorState) (inputs : List TickInput) (h : guard ≤ s.partSize) :
    guard ≤ (finalState m.tick s inputs).partSize := by
  refine finalState_induction m.tick (fun t => guard ≤ t.partSize) ?_ inputs s h
  intro t j ht
  rcases Monitor.tick_partSize_step m guard step hstep t j with e | ⟨_, e⟩
  · rw [e]; exact ht
  · rw [e]; exact le_max_right _ _

/-- C14, amended. In every profile monitor the throttled-network fallback is one-way: the
fallback block never raises the parallelism, and it moves `strategy.partSize` in one
direction only, upwards in the cable, enterprise, fiber and ultra monitors and downwards
in the DSL and gigabit monitors. Only the fallback block writes `strategy.partSize`, so
over any tick, and over any tick sequence, `strategy.partSize` is non-decreasing in cable,
enterprise, fiber and ultra and non-increasing in DSL and gigabit. The DSL block, and so a
DSL tick, either leaves the part size alone or takes a part size above 3 MiB to
`max(partSize - 1 MiB, 3 MiB)`, and a part size of at least 3 MiB never gets below 3 MiB;
the gigabit block and tick do the same with a part size above 150 MiB, a step of 50 MiB
and the floor 150 MiB. -/
theorem fallback_one_way (m : Monitor) (s : MonitorState) (i : TickInput)
    (inputs : List TickInput) :
    m.parallelism (m.fallback i s) ≤ m.parallelism s
      ∧ ((m.tick s i).1.partSize = s.partSize
        ∨ ∃ s', s'.partSize = s.partSize ∧ (m.tick s i).1 = m.fallback i s')
      ∧ (m.fallbackDirection = FallbackDirection.grow →
          s.partSize ≤ (m.fallback i s).partSize
            ∧ s.partSize ≤ (m.tick s i).1.partSize
            ∧ s.partSize ≤ (finalState m.tick s inputs).partSize)
      ∧ (m.fallbackDirection = FallbackDirection.shrink →
          (m.fallback i s).partSize ≤ s.partSize
            ∧ (m.tick s i).1.partSize ≤ s.partSize
            ∧ (finalState m.tick s inputs).partSize ≤ s.partSize)
      ∧ ((Monitor.dsl.fallback i s).partSize = s.partSize
          ∨ (3 * MiB < s.partSize
            ∧ (Monitor.dsl.fallback i s).partSize = max (s.partSize - 1 * MiB) (3 * MiB)))
      ∧ ((Monitor.dsl.tick s i).1.partSize = s.partSize
          ∨ (3 * MiB < s.partSize
            ∧ (Monitor.dsl.tick s i).1.partSize = max (s.partSize - 1 * MiB) (3 * MiB)))
      ∧ (3 * MiB ≤ s.partSize →
          3 * MiB ≤ (finalState Monitor.dsl.tick s inputs).partSize)
      ∧ ((Monitor.gigabit.fallback i s).partSize = s.partSize
          ∨ (150 * MiB < s.partSize
            ∧ (Monitor.gigabit.fallback i s).partSize
              = max (s.partSize - 50 * MiB) (150 * MiB)))
      ∧ ((Monitor.gigabit.tick s i).1.partSize = s.partSize
          ∨ (150 * MiB < s.partSize
            ∧ (Monitor.gigabit.tick s i).1.partSize
              = max (s.partSize - 50 * MiB) (150 * MiB)))
      ∧ (150 * MiB ≤ s.partSize →
          150 * MiB ≤ (finalState Monitor.gigabit.tick s inputs).partSize) := by
  have hup : m.fallbackDirection = FallbackDirection.grow →
      ∀ (t : MonitorState) (j : TickInput), t.partSize ≤ (m.tick t j).1.partSize := by
    intro hd t j
    rcases Monitor.tick_ends_in_fallback m t j with h | ⟨t', ht, he⟩
    · rw [h]
    · rw [he, ← ht]
      exact (Monitor.fallback_step_one_way m j t').2.1 hd
  have hdown : m.fallbackDirection = FallbackDirection.shrink →
      ∀ (t : MonitorState) (j : TickInput), (m.tick t j).1.partSize ≤ t.partSize := by
    intro hd t j
    rcases Monitor.tick_ends_in_fallback m t j with h | ⟨t', ht, he⟩
    · rw [h]
    · rw [he, ← ht]
      exact (Monitor.fallback_step_one_way m j t').2.2 hd
  refine ⟨(Monitor.fallback_step_one_way m i s).1, Monitor.tick_ends_in_fallback m s i, ?_, ?_,
    dslFallback_step i s,
    Monitor.tick_partSize_step Monitor.dsl _ _ dslFallback_step s i,
    Monitor.partSize_floor Monitor.dsl _ _ dslFallback_step s inputs,
    gigabitFallback_step i s,
    Monitor.tick_partSize_step Monitor.gigabit _ _ gigabitFallback_step s i,
    Monitor.partSize_floor Monitor.gigabit _ _ gigabitFallback_step s inputs⟩
  · intro hd
    refine ⟨(Monitor.fallback_step_one_way m i s).2.1 hd, hup hd s i, ?_⟩
    exact finalState_induction m.tick (fun t => s.partSize ≤ t.partSize)
      (fun t j h => le_trans h (hup hd t j)) inputs s (le_refl _)
  · intro hd
    refine ⟨(Monitor.fallback_step_one_way m i s).2.2 hd, hdown hd s i, ?_⟩
    exact finalState_induction m.tick (fun t => t.partSize ≤ s.partSize)
      (fun t j h => le_trans (hdown hd t j) h) inputs s (le_refl _)

/-! ### Claim C13: scenario A on the fiber monitor -/

theorem emergencyReset_parallel_le (P : StallProfile) (now : Int) (cT : ℚ) (c : Nat)
    (s : MonitorState) (b : ℚ) (h : s.contextMaxParallel ≤ b) (hb : P.parallel ≤ b) :
    (emergencyReset P now cT c s).1.contextMaxParallel ≤ b := by
  unfold emergencyReset
  split_ifs
  all_goals simpa using (by assumption)

theorem noProgressWatchdog_parallel_le (P : StallProfile) (stallStep : ℚ) (now : Int)
    (s : MonitorState) (b : ℚ) (h : s.contextMaxParallel ≤ b) (hb : P.minParallel ≤ b)
    (hstep : 0 ≤ stallStep) :
    (noProgressWatchdog P stallStep now s).1.contextMaxParallel ≤ b := by
  unfold noProgressWatchdog
  split_ifs
  · apply max_le
    · linarith
    · exact hb
  · exact h
  · exact h

theorem applyAdjustment_parallel_le (debounce now : Int) (partSpeed : ℚ) (d : RampDecision)
    (s : MonitorState) (b : ℚ) (h : s.contextMaxParallel ≤ b) (hd : d.newParallel ≤ b) :
    (applyAdjustment debounce now partSpeed d s).1.contextMaxParallel ≤ b := by
  unfold applyAdjustment
  split_ifs
  · exact hd
  · exact h

theorem fiberRamp_decision_le (now : Int) (smoothed : ℚ) (s : MonitorState) (b : ℚ)
    (h : s.contextMaxParallel ≤ b) (hcap : s.maxParallelCap ≤ b)
    (hmin : FIBER_PROFILE.minParallel ≤ b) :
    (fiberRamp now smoothed s).2.newParallel ≤ b
      ∧ (fiberRamp now smoothed s).1.contextMaxParallel ≤ b := by
  unfold fiberRamp
  split_ifs
  all_goals
    refine ⟨?_, h⟩
    first
      | exact h
      | exact le_trans (min_le_right _ _) hcap
      | (apply max_le
         · linarith
         · exact hmin)

theorem fiberAfterDecay_parallel_le (i : TickInput) (rp : List PartTime) (smoothed cT : ℚ)
    (s : MonitorState) (h : s.contextMaxParallel ≤ 16) (hcap : s.maxParallelCap = 16) :
    (fiberAfterDecay i rp smoothed cT s).1.contextMaxParallel ≤ 16 := by
  simp only [fiberAfterDecay]
  refine le_trans (throttledFallback_one_way fiberFallbackRule i _ (by decide)).1 ?_
  apply emergencyReset_parallel_le _ _ _ _ _ _ _ (by norm_num [FIBER_PROFILE])
  apply noProgressWatchdog_parallel_le _ _ _ _ _ _ (by norm_num [FIBER_PROFILE])
    (by norm_num)
  have hr := fiberRamp_decision_le i.now smoothed
    (fiberTrackLow smoothed
      (thrashingProtection FIBER_PROFILE.parallel 10 5 0.85 cT s.contextMaxParallel s).1) 16
    (by simpa using h) (by simp [hcap]) (by norm_num [FIBER_PROFILE])
  exact applyAdjustment_parallel_le _ _ _ _ _ _ hr.2 hr.1

theorem fiberTick_parallel_le (s : MonitorState) (i : TickInput)
    (h : s.contextMaxParallel ≤ 16 ∧ s.maxParallelCap = 16) :
    (fiberTick s i).1.contextMaxParallel ≤ 16 ∧ (fiberTick s i).1.maxParallelCap = 16 := by
  refine ⟨?_, (fiberTick_maxParallelCap s i).trans h.2⟩
  unfold fiberTick
  split_ifs
  · exact h.1
  · exact h.1
  · exact h.1
  · cases hth : (fiberDecayResult i (sliceLast i.partTimes 8) s).2.threw
    · rw [(fiberBody_of_not_threw i _ s hth).1]
      apply fiberAfterDecay_parallel_le
      · simpa [fiberDecayResult] using h.1
      · simpa [fiberDecayResult] using h.2
    · rw [(fiberBody_of_threw i _ s hth).1]
      simpa [fiberDecayResult] using h.1
  · exact h.1

theorem realThroughputMbps_of_speed_six (rp : List PartTime) (h : ∀ p ∈ rp, p.speed = 6) :
    realThroughputMbps rp = 48 * rp.length := by
  unfold realThroughputMbps
  induction rp with
  | nil => simp
  | cons p rest ih =>
    rw [List.map_cons, List.sum_cons, ih (fun q hq => h q (List.mem_cons_of_mem p hq)),
      h p (List.mem_cons_self p rest)]
    push_cast [List.length_cons]
    ring

/-- The fiber tick and the peak, from a state without a detected peak: an evaluated tick
that sees fewer than 6 recent samples leaves the peak undetected, as does a tick that is
not evaluated; an evaluated tick with at least 6 recent samples of 6 MB/s detects it. -/
theorem fiberTick_scenario_step (s : MonitorState) (i : TickInput)
    (hs : s.peakPerformanceDetected = false) :
    (((fiberTick s i).2.evaluated = true → (sliceLast i.partTimes 8).length < 6) →
        (fiberTick s i).1.peakPerformanceDetected = false)
      ∧ ((∀ p ∈ i.partTimes, p.speed = 6) → (fiberTick s i).2.evaluated = true →
          (sliceLast i.partTimes 8).length ≥ 6 →
          (fiberTick s i).2.peakDetected = true
            ∧ (fiberTick s i).1.peakPerformanceDetected = true) := by
  constructor
  · intro h
    cases hev : (fiberTick s i).2.evaluated
    · exact (Monitor.tick_not_evaluated Monitor.fiber s i hev).1.trans hs
    · have hlt := h hev
      rw [fiberTick_of_evaluated s i hev]
      obtain ⟨hiff, _, hno⟩ := fiberBody_peakOutcome i (sliceLast i.partTimes 8) s hs
      apply hno
      rw [Bool.eq_false_iff]
      intro hd
      have := (hiff.1 hd).2
      omega
  · intro hsp hev hcount
    rw [fiberTick_of_evaluated s i hev]
    obtain ⟨hiff, hyes, _⟩ := fiberBody_peakOutcome i (sliceLast i.partTimes 8) s hs
    have hd : (fiberBody i (sliceLast i.partTimes 8) s).2.peakDetected = true := by
      apply hiff.2
      refine ⟨?_, hcount⟩
      rw [realThroughputMbps_of_speed_six _
        (fun p hp => hsp p (sliceLast_subset _ _ p hp))]
      have : (6 : ℚ) ≤ ((sliceLast i.partTimes 8).length : ℚ) := by exact_mod_cast hcount
      norm_num [FIBER_PROFILE]
      linarith
    exact ⟨hd, (hyes hd).1⟩

theorem fiber_first_detection (inputs : List TickInput) :
    ∀ (s0 : MonitorState) (k : Nat) (ik : TickInput),
      s0.peakPerformanceDetected = false →
      (∀ p ∈ ik.partTimes, p.speed = 6) →
      inputs[k]? = some ik →
      (eventsAt fiberTick s0 inputs k).evaluated = true →
      (sliceLast ik.partTimes 8).length ≥ 6 →
      (∀ j, j < k → ∀ ij, inputs[j]? = some ij →
        (eventsAt fiberTick s0 inputs j).evaluated = true →
        (sliceLast ij.partTimes 8).length < 6) →
      (eventsAt fiberTick s0 inputs k).peakDetected = true
        ∧ (stateAt fiberTick s0 inputs k).peakPerformanceDetected = true := by
  induction inputs with
  | nil => intro s0 k ik _ _ hk; simp at hk
  | cons i rest ih =>
    intro s0 k ik hs hsp hk hev hcount hfirst
    cases k with
    | zero =>
      simp only [List.getElem?_cons_zero, Option.some.injEq] at hk
      subst hk
      simp only [eventsAt, stateAt, runTicks, List.getElem?_cons_zero] at hev ⊢
      exact (fiberTick_scenario_step s0 i hs).2 hsp hev hcount
    | succ k =>
      simp only [List.getElem?_cons_succ] at hk
      have h0 : (fiberTick s0 i).1.peakPerformanceDetected = false := by
        apply (fiberTick_scenario_step s0 i hs).1
        intro he
        exact hfirst 0 (Nat.succ_pos k) i (by simp)
          (by simpa [eventsAt, runTicks] using he)
      have hshiftE : ∀ j, eventsAt fiberTick s0 (i :: rest) (j + 1)
          = eventsAt fiberTick (fiberTick s0 i).1 rest j := by
        intro j; simp [eventsAt, runTicks]
      have hres := ih (fiberTick s0 i).1 k ik h0 hsp hk (by rw [← hshiftE]; exact hev) hcount
        (fun j hj ij hij he =>
          hfirst (j + 1) (Nat.succ_lt_succ hj) ij (by simpa using hij)
            (by rw [hshiftE]; exact he))
      rw [hshiftE]
      refine ⟨hres.1, ?_⟩
      have hk2 : ∃ r, (runTicks fiberTick (fiberTick s0 i).1 rest)[k]? = some r := by
        cases hr : (runTicks fiberTick (fiberTick s0 i).1 rest)[k]? with
        | none =>
          have hev2 := hev
          rw [hshiftE] at hev2
          simp [eventsAt, hr] at hev2
        | some r => exact ⟨r, rfl⟩
      obtain ⟨r, hr⟩ := hk2
      have := hres.2
      simp only [stateAt, runTicks, List.getElem?_cons_succ, hr] at this ⊢
      exact this

/-- C13. Scenario A on the fiber monitor (initial parallelism 8, `maxCap` 16,
`peakDetectionThreshold` 80), started from `createFiberUploadStrategy`: over every tick
sequence (whatever the clock does) the parallelism never exceeds 16 after any tick; and if
every recorded sample has speed 6 MB/s, the peak is detected on the first evaluated tick
that sees at least 6 recent samples, and is set when that tick ends. -/
theorem fiber_scenario_a (connectionInfo : ConnectionInfo) (createdAt : Int)
    (inputs : List TickInput)
    (hspeed : ∀ i ∈ inputs, ∀ p ∈ i.partTimes, p.speed = 6) :
    (Monitor.fiber.start connectionInfo createdAt).contextMaxParallel = 8
      ∧ FIBER_PROFILE.maxCap = 16
      ∧ FIBER_PROFILE.peakDetectionThreshold = 80
      ∧ (∀ k, (stateAt fiberTick (Monitor.fiber.start connectionInfo createdAt) inputs
          k).contextMaxParallel ≤ FIBER_PROFILE.maxCap)
      ∧ ∀ (k : Nat) (ik : TickInput), inputs[k]? = some ik →
          (eventsAt fiberTick (Monitor.fiber.start connectionInfo createdAt) inputs
            k).evaluated = true →
          (sliceLast ik.partTimes 8).length ≥ 6 →
          (∀ j, j < k → ∀ ij, inputs[j]? = some ij →
            (eventsAt fiberTick (Monitor.fiber.start connectionInfo createdAt) inputs
              j).evaluated = true →
            (sliceLast ij.partTimes 8).length < 6) →
          (eventsAt fiberTick (Monitor.fiber.start connectionInfo createdAt) inputs
              k).peakDetected = true
            ∧ (stateAt fiberTick (Monitor.fiber.start connectionInfo createdAt) inputs
              k).peakPerformanceDetected = true := by
  refine ⟨rfl, rfl, rfl, ?_, ?_⟩
  · intro k
    have := stateAt_induction fiberTick
      (fun s => s.contextMaxParallel ≤ 16 ∧ s.maxParallelCap = 16)
      fiberTick_parallel_le inputs (Monitor.fiber.start connectionInfo createdAt) k
      ⟨by norm_num [Monitor.start, Monitor.create, Monitor.strategy,
          createFiberAdaptiveMonitor, createMonitorState, createFiberUploadStrategy,
          FIBER_PROFILE], rfl⟩
    exact this.1
  · intro k ik hk hev hcount hfirst
    exact fiber_first_detection inputs _ k ik rfl
      (hspeed ik (List.getElem?_mem hk)) hk hev hcount hfirst

theorem fiber_scenario_a_witness :
    (∀ i ∈ fiberScenarioA, ∀ p ∈ i.partTimes, p.speed = 6)
      ∧ (eventsAt fiberTick (Monitor.fiber.start ⟨100⟩ 0) fiberScenarioA 0).evaluated = true
      ∧ (eventsAt fiberTick (Monitor.fiber.start ⟨100⟩ 0) fiberScenarioA 0).peakDetected
          = false
      ∧ (eventsAt fiberTick (Monitor.fiber.start ⟨100⟩ 0) fiberScenarioA 1).evaluated = true
      ∧ (eventsAt fiberTick (Monitor.fiber.start ⟨100⟩ 0) fiberScenarioA 1).peakDetected
          = true
      ∧ (stateAt fiberTick (Monitor.fiber.start ⟨100⟩ 0) fiberScenarioA
          1).peakPerformanceDetected = true :=
  ⟨by decide!, by decide!, by decide!, by decide!,
    (fiber_scenario_a ⟨100⟩ 0 fiberScenarioA (by decide!)).2.2.2.2 1
      (sampleInput 6000 (sampleParts 10 6 1000) 300000000) rfl (by decide!) (by decide)
      (fun j hj ij hij _ => by
        have h0 : j = 0 := by omega
        subst h0
        simp only [fiberScenarioA, List.getElem?_cons_zero, Option.some.injEq] at hij
        subst hij
        decide)⟩

/-! ## The upload session: `startNextBatch` -/

/-- What the loop of `startNextBatch` does, given enough fuel: it starts the next parts in
ascending order, one `uploadPart` call each, until `maxParallel` uploads are active or no
part is left, and touches nothing else. -/
theorem startNextBatchLoop_spec (maxParallel partCount : Nat) :
    ∀ (fuel : Nat) (st : UploadSession), partCount - st.partIndex ≤ fuel →
      st.partIndex ≤ partCount →
      (startNextBatchLoop maxParallel partCount fuel st).partIndex ≤ partCount
        ∧ st.partIndex ≤ (startNextBatchLoop maxParallel partCount fuel st).partIndex
        ∧ (startNextBatchLoop maxParallel partCount fuel st).calls
          = st.calls ++ (List.range' (st.partIndex + 1)
              ((startNextBatchLoop maxParallel partCount fuel st).partIndex
                - st.partIndex)).map StoreCall.uploadPart
        ∧ (startNextBatchLoop maxParallel partCount fuel st).inFlight
          = st.inFlight ++ List.range' (st.partIndex + 1)
              ((startNextBatchLoop maxParallel partCount fuel st).partIndex - st.partIndex)
        ∧ (startNextBatchLoop maxParallel partCount fuel st).activeUploads
          = st.activeUploads
            + (((startNextBatchLoop maxParallel partCount fuel st).partIndex
                - st.partIndex : Nat) : Int)
        ∧ (startNextBatchLoop maxParallel partCount fuel st).finished = st.finished
        ∧ (startNextBatchLoop maxParallel partCount fuel st).promise = st.promise
        ∧ (startNextBatchLoop maxParallel partCount fuel st).parts = st.parts
        ∧ ¬ ((startNextBatchLoop maxParallel partCount fuel st).activeUploads
              < (maxParallel : Int)
            ∧ (startNextBatchLoop maxParallel partCount fuel st).partIndex < partCount)
        ∧ (st.activeUploads ≤ (maxParallel : Int) →
            (startNextBatchLoop maxParallel partCount fuel st).activeUploads
              ≤ (maxParallel : Int)) := by
  intro fuel
  induction fuel with
  | zero =>
    intro st hf hle
    have hp : st.partIndex = partCount := by omega
    have e : startNextBatchLoop maxParallel partCount 0 st = st := rfl
    rw [e]
    refine ⟨hle, le_refl _, by simp, by simp, by simp, rfl, rfl, rfl, ?_, fun h => h⟩
    intro h
    omega
  | succ fuel ih =>
    intro st hf hle
    unfold startNextBatchLoop
    split_ifs with hc
    · obtain ⟨h1, h2, h3, h4, h5, h6, h7, h8, h9, h10⟩ := ih
        { st with
          activeUploads := st.activeUploads + 1
          partIndex := st.partIndex + 1
          calls := st.calls ++ [StoreCall.uploadPart (st.partIndex + 1)]
          inFlight := st.inFlight ++ [st.partIndex + 1] }
        (by simp only; omega) (by simp only; omega)
      simp only at h1 h2 h3 h4 h5 h6 h7 h8 h9 h10
      have hsplit : ∀ q, st.partIndex + 1 ≤ q →
          List.range' (st.partIndex + 1) (q - st.partIndex)
            = (st.partIndex + 1) :: List.range' (st.partIndex + 1 + 1)
                (q - (st.partIndex + 1)) := by
        intro q hq
        have : q - st.partIndex = (q - (st.partIndex + 1)) + 1 := by omega
        rw [this, List.range'_succ]
      refine ⟨h1, by omega, ?_, ?_, ?_, h6, h7, h8, h9, ?_⟩
      · rw [h3, hsplit _ h2]
        simp
      · rw [h4, hsplit _ h2]
        simp
      · rw [h5, show (startNextBatchLoop maxParallel partCount fuel
            { st with
              activeUploads := st.activeUploads + 1
              partIndex := st.partIndex + 1
              calls := st.calls ++ [StoreCall.uploadPart (st.partIndex + 1)]
              inFlight := st.inFlight ++ [st.partIndex + 1] }).partIndex - st.partIndex
          = ((startNextBatchLoop maxParallel partCount fuel
            { st with
              activeUploads := st.activeUploads + 1
              partIndex := st.partIndex + 1
              calls := st.calls ++ [StoreCall.uploadPart (st.partIndex + 1)]
              inFlight := st.inFlight ++ [st.partIndex + 1] }).partIndex
            - (st.partIndex + 1)) + 1 by omega]
        push_cast
        ring
      · intro _
        exact h10 (by omega)
    · refine ⟨hle, le_refl _, by simp, by simp, by simp, rfl, rfl, rfl, hc, fun h => h⟩

theorem startNextBatch_spec (maxParallel partCount : Nat) (st : UploadSession)
    (hle : st.partIndex ≤ partCount) :
    (startNextBatch maxParallel partCount st).partIndex ≤ partCount
      ∧ st.partIndex ≤ (startNextBatch maxParallel partCount st).partIndex
      ∧ (startNextBatch maxParallel partCount st).calls
        = st.calls ++ (List.range' (st.partIndex + 1)
            ((startNextBatch maxParallel partCount st).partIndex
              - st.partIndex)).map StoreCall.uploadPart
      ∧ (startNextBatch maxParallel partCount st).inFlight
        = st.inFlight ++ List.range' (st.partIndex + 1)
            ((startNextBatch maxParallel partCount st).partIndex - st.partIndex)
      ∧ (startNextBatch maxParallel partCount st).activeUploads
        = st.activeUploads
          + (((startNextBatch maxParallel partCount st).partIndex - st.partIndex : Nat) : Int)
      ∧ (startNextBatch maxParallel partCount st).finished = st.finished
      ∧ (startNextBatch maxParallel partCount st).promise = st.promise
      ∧ (startNextBatch maxParallel partCount st).parts = st.parts
      ∧ ¬ ((startNextBatch maxParallel partCount st).activeUploads < (maxParallel : Int)
          ∧ (startNextBatch maxParallel partCount st).partIndex < partCount)
      ∧ (st.activeUploads ≤ (maxParallel : Int) →
          (startNextBatch maxParallel partCount st).activeUploads ≤ (maxParallel : Int)) :=
  startNextBatchLoop_spec maxParallel partCount (partCount - st.partIndex) st (le_refl _) hle

theorem range'_one_append (p q : Nat) (h : p ≤ q) :
    List.range' 1 p ++ List.range' (p + 1) (q - p) = List.range' 1 q := by
  have := List.range'_append_1 1 p (q - p)
  rw [show 1 + p = p + 1 by omega, show q - p + p = q by omega] at this
  exact this

theorem startNextBatch_shape (maxParallel partCount : Nat) (st : UploadSession)
    (h : SessionShape partCount st)
    (hpend : st.promise = Settlement.resolved →
      (startNextBatch maxParallel partCount st).partIndex = st.partIndex) :
    SessionShape partCount (startNextBatch maxParallel partCount st) := by
  obtain ⟨j1, j2, j3, j4⟩ := h
  obtain ⟨h1, h2, h3, h4, _, h6, h7, _, _, _⟩ := startNextBatch_spec maxParallel partCount st j2
  refine ⟨?_, h1, ?_, ?_⟩
  · rw [h3, j1, List.cons_append, ← List.map_append, range'_one_append _ _ h2]
  · rw [h4, h6, List.length_append, List.length_range']
    omega
  · intro hr
    rw [h7] at hr
    rw [h4, j4 hr, hpend hr]
    simp

theorem sessionStart_shape (maxParallel partCount : Nat) :
    SessionShape partCount (sessionStart maxParallel partCount) := by
  unfold sessionStart
  apply startNextBatch_shape
  · exact ⟨rfl, Nat.zero_le _, le_refl _, fun h => by cases h⟩
  · intro h
    cases h

theorem resolvePromise_fields (st : UploadSession) :
    (resolvePromise st).calls = st.calls ∧ (resolvePromise st).partIndex = st.partIndex
      ∧ (resolvePromise st).finished = st.finished
      ∧ (resolvePromise st).inFlight = st.inFlight
      ∧ (resolvePromise st).activeUploads = st.activeUploads
      ∧ (resolvePromise st).parts = st.parts
      ∧ (st.promise = Settlement.pending → (resolvePromise st).promise = Settlement.resolved)
      ∧ (st.promise ≠ Settlement.pending → (resolvePromise st).promise = st.promise) := by
  unfold resolvePromise
  split_ifs with h
  · exact ⟨rfl, rfl, rfl, rfl, rfl, rfl, fun _ => rfl, fun hn => absurd h hn⟩
  · exact ⟨rfl, rfl, rfl, rfl, rfl, rfl, fun hp => absurd hp h, fun _ => rfl⟩

theorem rejectPromise_fields (st : UploadSession) :
    (rejectPromise st).calls = st.calls ∧ (rejectPromise st).partIndex = st.partIndex
      ∧ (rejectPromise st).finished = st.finished
      ∧ (rejectPromise st).inFlight = st.inFlight
      ∧ (rejectPromise st).parts = st.parts
      ∧ (st.promise = Settlement.pending → (rejectPromise st).promise = Settlement.rejected)
      ∧ (st.promise ≠ Settlement.pending → (rejectPromise st).promise = st.promise) := by
  unfold rejectPromise
  split_ifs with h
  · exact ⟨rfl, rfl, rfl, rfl, rfl, fun _ => rfl, fun hn => absurd h hn⟩
  · exact ⟨rfl, rfl, rfl, rfl, rfl, fun hp => absurd hp h, fun _ => rfl⟩

theorem partSettled_cases (maxParallel partCount : Nat) (st : UploadSession)
    (ev : PartEvent) :
    (ev.partNumber ∉ st.inFlight → partSettled maxParallel partCount st ev = st)
      ∧ (ev.partNumber ∈ st.inFlight → ev.etag = none →
          partSettled maxParallel partCount st ev
            = rejectPromise { st with inFlight := st.inFlight.erase ev.partNumber })
      ∧ (∀ etag, ev.partNumber ∈ st.inFlight → ev.etag = some etag →
          st.partIndex < partCount →
          partSettled maxParallel partCount st ev
            = startNextBatch maxParallel partCount (partFinished st ev.partNumber etag))
      ∧ (∀ etag, ev.partNumber ∈ st.inFlight → ev.etag = some etag →
          ¬ st.partIndex < partCount → st.finished + 1 = partCount →
          partSettled maxParallel partCount st ev
            = resolvePromise (partFinished st ev.partNumber etag))
      ∧ (∀ etag, ev.partNumber ∈ st.inFlight → ev.etag = some etag →
          ¬ st.partIndex < partCount → st.finished + 1 ≠ partCount →
          partSettled maxParallel partCount st ev = partFinished st ev.partNumber etag) := by
  refine ⟨?_, ?_, ?_, ?_, ?_⟩
  · intro h
    unfold partSettled
    rw [if_neg h]
  · intro h he
    unfold partSettled
    rw [if_pos h, he]
  · intro etag h he hlt
    unfold partSettled
    rw [if_pos h, he]
    simp only [if_pos hlt]
  · intro etag h he hlt hf
    unfold partSettled
    rw [if_pos h, he]
    simp only [if_neg hlt, if_pos hf]
  · intro etag h he hlt hf
    unfold partSettled
    rw [if_pos h, he]
    simp only [if_neg hlt, if_neg hf]

theorem partFinished_fields (st : UploadSession) (k : Nat) (etag : String) :
    (partFinished st k etag).calls = st.calls
      ∧ (partFinished st k etag).partIndex = st.partIndex
      ∧ (partFinished st k etag).finished = st.finished + 1
      ∧ (partFinished st k etag).inFlight = st.inFlight.erase k
      ∧ (partFinished st k etag).activeUploads = st.activeUploads - 1
      ∧ (partFinished st k etag).promise = st.promise :=
  ⟨rfl, rfl, rfl, rfl, rfl, rfl⟩

/-- Every handler keeps the shape of the session. -/
theorem partSettled_shape (maxParallel partCount : Nat) (st : UploadSession)
    (ev : PartEvent) (h : SessionShape partCount st) :
    SessionShape partCount (partSettled maxParallel partCount st ev) := by
  obtain ⟨c0, c1, c2, c3, c4⟩ := partSettled_cases maxParallel partCount st ev
  by_cases hm : ev.partNumber ∈ st.inFlight
  swap
  · rw [c0 hm]; exact h
  obtain ⟨j1, j2, j3, j4⟩ := h
  have hlen : (st.inFlight.erase ev.partNumber).length = st.inFlight.length - 1 :=
    List.length_erase_of_mem hm
  have hpos : 0 < st.inFlight.length := List.length_pos_of_mem hm
  have hnr : st.promise ≠ Settlement.resolved := by
    intro hr
    rw [j4 hr] at hm
    cases hm
  cases he : ev.etag with
  | none =>
    rw [c1 hm he]
    obtain ⟨r1, r2, r3, r4, _, r6, r7⟩ := rejectPromise_fields
      { st with inFlight := st.inFlight.erase ev.partNumber }
    refine ⟨by rw [r1, r2]; exact j1, by rw [r2]; exact j2, ?_, ?_⟩
    · rw [r3, r4, r2]
      simp only [hlen]
      omega
    · intro hr
      exfalso
      by_cases hp : st.promise = Settlement.pending
      · rw [r6 hp] at hr
        cases hr
      · rw [r7 hp] at hr
        exact hnr hr
  | some etag =>
    obtain ⟨f1, f2, f3, f4, _, f6⟩ := partFinished_fields st ev.partNumber etag
    by_cases hlt : st.partIndex < partCount
    · rw [c2 etag hm he hlt]
      apply startNextBatch_shape
      · refine ⟨by rw [f1, f2]; exact j1, by rw [f2]; exact j2, ?_, ?_⟩
        · rw [f3, f4, f2, hlen]
          omega
        · intro hr
          rw [f6] at hr
          exact absurd hr hnr
      · intro hr
        rw [f6] at hr
        exact absurd hr hnr
    · by_cases hfin : st.finished + 1 = partCount
      · rw [c3 etag hm he hlt hfin]
        obtain ⟨r1, r2, r3, r4, _, _, _, _⟩ :=
          resolvePromise_fields (partFinished st ev.partNumber etag)
        refine ⟨by rw [r1, r2, f1, f2]; exact j1, by rw [r2, f2]; exact j2, ?_, ?_⟩
        · rw [r3, r4, r2, f3, f4, f2, hlen]
          omega
        · intro _
          rw [r4, f4]
          apply List.eq_nil_of_length_eq_zero
          rw [hlen]
          omega
      · rw [c4 etag hm he hlt hfin]
        refine ⟨by rw [f1, f2]; exact j1, by rw [f2]; exact j2, ?_, ?_⟩
        · rw [f3, f4, f2, hlen]
          omega
        · intro hr
          rw [f6] at hr
          exact absurd hr hnr

theorem sessionAfter_append (maxParallel partCount : Nat) (pre post : List PartEvent) :
    sessionAfter maxParallel partCount (pre ++ post)
      = post.foldl (partSettled maxParallel partCount)
          (sessionAfter maxParallel partCount pre) := by
  simp [sessionAfter, List.foldl_append]

theorem sessionAfter_shape (maxParallel partCount : Nat) (events : List PartEvent) :
    SessionShape partCount (sessionAfter maxParallel partCount events) := by
  induction events using List.reverseRecOn with
  | nil => exact sessionStart_shape maxParallel partCount
  | append_singleton pre ev ih =>
    rw [sessionAfter_append]
    exact partSettled_shape maxParallel partCount _ ev ih

theorem startNextBatch_balanced (maxParallel partCount : Nat) (st : UploadSession)
    (hle : st.partIndex ≤ partCount)
    (h1 : st.activeUploads = (st.inFlight.length : Int))
    (h2 : st.finished + st.inFlight.length = st.partIndex)
    (h3 : st.activeUploads ≤ (maxParallel : Int))
    (h5 : st.promise = Settlement.resolved ↔ st.finished = partCount)
    (h6 : st.promise ≠ Settlement.rejected) :
    SessionBalanced maxParallel partCount (startNextBatch maxParallel partCount st) := by
  obtain ⟨_, s2, _, s4, s5, s6, s7, _, s9, s10⟩ :=
    startNextBatch_spec maxParallel partCount st hle
  refine ⟨?_, ?_, s10 h3, ?_, ?_, ?_⟩
  · rw [s5, s4, h1, List.length_append, List.length_range']
    push_cast
    rfl
  · rw [s6, s4, List.length_append, List.length_range']
    omega
  · intro hlt
    have := s10 h3
    by_contra hne
    exact s9 ⟨lt_of_le_of_ne this hne, hlt⟩
  · rw [s7, s6]
    exact h5
  · rw [s7]
    exact h6

theorem sessionStart_balanced (maxParallel partCount : Nat) (hN : 1 ≤ partCount) :
    SessionBalanced maxParallel partCount (sessionStart maxParallel partCount) := by
  unfold sessionStart
  apply startNextBatch_balanced
  · exact Nat.zero_le _
  · rfl
  · rfl
  · exact Int.natCast_nonneg _
  · simp only
    constructor
    · intro h; cases h
    · intro h; omega
  · intro h
    cases h

/-- A successful completion keeps the balance of the counters. -/
theorem partSettled_balanced (maxParallel partCount : Nat) (st : UploadSession)
    (ev : PartEvent) (hok : ev.etag ≠ none) (hs : SessionShape partCount st)
    (h : SessionBalanced maxParallel partCount st) :
    SessionBalanced maxParallel partCount (partSettled maxParallel partCount st ev) := by
  obtain ⟨c0, _, c2, c3, c4⟩ := partSettled_cases maxParallel partCount st ev
  by_cases hm : ev.partNumber ∈ st.inFlight
  swap
  · rw [c0 hm]; exact h
  obtain ⟨_, j2, _, _⟩ := hs
  obtain ⟨k1, k2, k3, k4, k5, k6⟩ := h
  have hlen : (st.inFlight.erase ev.partNumber).length = st.inFlight.length - 1 :=
    List.length_erase_of_mem hm
  have hpos : 0 < st.inFlight.length := List.length_pos_of_mem hm
  cases he : ev.etag with
  | none => exact absurd he hok
  | some etag =>
    obtain ⟨_, f2, f3, f4, f5, f6⟩ := partFinished_fields st ev.partNumber etag
    have b1 : (partFinished st ev.partNumber etag).activeUploads
        = ((partFinished st ev.partNumber etag).inFlight.length : Int) := by
      rw [f5, f4, hlen, k1]
      omega
    have b2 : (partFinished st ev.partNumber etag).finished
        + (partFinished st ev.partNumber etag).inFlight.length
        = (partFinished st ev.partNumber etag).partIndex := by
      rw [f3, f4, f2, hlen]
      omega
    have b3 : (partFinished st ev.partNumber etag).activeUploads ≤ (maxParallel : Int) := by
      rw [f5]
      omega
    by_cases hlt : st.partIndex < partCount
    · rw [c2 etag hm he hlt]
      apply startNextBatch_balanced _ _ _ (by rw [f2]; exact j2) b1 b2 b3
      · rw [f6, f3]
        constructor
        · intro hr
          have := k5.1 hr
          omega
        · intro hf
          omega
      · rw [f6]
        exact k6
    · have hpi : st.partIndex = partCount := by omega
      by_cases hfin : st.finished + 1 = partCount
      · rw [c3 etag hm he hlt hfin]
        obtain ⟨_, r2, r3, r4, r5, _, r7, r8⟩ :=
          resolvePromise_fields (partFinished st ev.partNumber etag)
        have hpend : (partFinished st ev.partNumber etag).promise = Settlement.pending := by
          rw [f6]
          cases hp : st.promise with
          | pending => rfl
          | resolved =>
            have := k5.1 hp
            omega
          | rejected => exact absurd hp k6
        refine ⟨by rw [r5, r4]; exact b1, by rw [r3, r4, r2]; exact b2,
          by rw [r5]; exact b3, ?_, ?_, ?_⟩
        · intro hl
          rw [r2, f2] at hl
          exact absurd hl hlt
        · rw [r7 hpend, r3, f3]
          exact ⟨fun _ => hfin, fun _ => rfl⟩
        · rw [r7 hpend]
          intro hc
          cases hc
      · rw [c4 etag hm he hlt hfin]
        refine ⟨b1, b2, b3, ?_, ?_, ?_⟩
        · intro hl
          rw [f2] at hl
          exact absurd hl hlt
        · rw [f6, f3]
          constructor
          · intro hr
            have := k5.1 hr
            omega
          · intro hf
            exact absurd hf hfin
        · rw [f6]
          exact k6

theorem sessionAfter_balanced (maxParallel partCount : Nat) (hN : 1 ≤ partCount)
    (events : List PartEvent) (hok : ∀ ev ∈ events, ev.etag ≠ none) :
    SessionBalanced maxParallel partCount (sessionAfter maxParallel partCount events) := by
  induction events using List.reverseRecOn with
  | nil => exact sessionStart_balanced maxParallel partCount hN
  | append_singleton pre ev ih =>
    rw [sessionAfter_append]
    exact partSettled_balanced maxParallel partCount _ ev
      (hok ev (by simp)) (sessionAfter_shape maxParallel partCount pre)
      (ih (fun e he => hok e (by simp [he])))

theorem uploadPartCalls_started (p : Nat) :
    uploadPartCalls
        (StoreCall.createMultipartUpload :: (List.range' 1 p).map StoreCall.uploadPart)
      = List.range' 1 p := by
  unfold uploadPartCalls
  rw [List.filterMap_cons]
  simp only
  rw [List.filterMap_map]
  have : ((fun c => match c with
      | StoreCall.uploadPart k => some k
      | _ => none) ∘ StoreCall.uploadPart) = some := by
    funext k
    rfl
  rw [this, List.filterMap_some]

theorem partSettled_settled (maxParallel partCount : Nat) (st : UploadSession)
    (ev : PartEvent) (hs : SessionShape partCount st)
    (h : st.promise = Settlement.rejected) :
    (partSettled maxParallel partCount st ev).promise = Settlement.rejected := by
  obtain ⟨c0, c1, c2, c3, c4⟩ := partSettled_cases maxParallel partCount st ev
  have hnp : st.promise ≠ Settlement.pending := by rw [h]; intro hc; cases hc
  by_cases hm : ev.partNumber ∈ st.inFlight
  swap
  · rw [c0 hm]; exact h
  cases he : ev.etag with
  | none =>
    rw [c1 hm he, (rejectPromise_fields
      { st with inFlight := st.inFlight.erase ev.partNumber }).2.2.2.2.2.2 hnp]
    exact h
  | some etag =>
    by_cases hlt : st.partIndex < partCount
    · rw [c2 etag hm he hlt,
        (startNextBatch_spec maxParallel partCount _ (by exact hs.2.1)).2.2.2.2.2.2.1]
      exact h
    · by_cases hfin : st.finished + 1 = partCount
      · rw [c3 etag hm he hlt hfin,
          (resolvePromise_fields (partFinished st ev.partNumber etag)).2.2.2.2.2.2.2 hnp]
        exact h
      · rw [c4 etag hm he hlt hfin]
        exact h

theorem partSettled_failure_rejects (maxParallel partCount : Nat) (st : UploadSession)
    (ev : PartEvent) (hs : SessionShape partCount st) (hfail : ev.etag = none)
    (hpend : ev.partNumber ∈ st.inFlight) :
    (partSettled maxParallel partCount st ev).promise = Settlement.rejected := by
  rw [(partSettled_cases maxParallel partCount st ev).2.1 hpend hfail]
  unfold rejectPromise
  simp only
  split_ifs with hp
  · rfl
  · cases hq : st.promise with
    | pending => exact absurd hq hp
    | resolved =>
      rw [hs.2.2.2 hq] at hpend
      cases hpend
    | rejected => rfl

/-- The first failure of a pending part rejects the promise, and a rejected promise stays
rejected whatever settles later. -/
theorem session_rejected_after_failure (maxParallel partCount : Nat)
    (pre : List PartEvent) (ev : PartEvent) (post : List PartEvent)
    (hfail : ev.etag = none)
    (hpend : ev.partNumber ∈ (sessionAfter maxParallel partCount pre).inFlight) :
    (sessionAfter maxParallel partCount (pre ++ [ev])).promise = Settlement.rejected
      ∧ (sessionAfter maxParallel partCount (pre ++ ev :: post)).promise
        = Settlement.rejected := by
  have hs := sessionAfter_shape maxParallel partCount pre
  have h1 : (sessionAfter maxParallel partCount (pre ++ [ev])).promise
      = Settlement.rejected := by
    rw [sessionAfter_append]
    simp only [List.foldl_cons, List.foldl_nil]
    exact partSettled_failure_rejects maxParallel partCount _ ev hs hfail hpend
  refine ⟨h1, ?_⟩
  rw [show pre ++ ev :: post = (pre ++ [ev]) ++ post by simp]
  induction post using List.reverseRecOn with
  | nil => simpa using h1
  | append_singleton l e ih =>
    rw [← List.append_assoc, sessionAfter_append]
    simp only [List.foldl_cons, List.foldl_nil]
    exact partSettled_settled maxParallel partCount _ e
      (sessionAfter_shape maxParallel partCount _) ih

theorem storeCalls_of_not_resolved (st : UploadSession)
    (h : st.promise ≠ Settlement.resolved) : storeCalls st = st.calls := by
  unfold storeCalls
  cases hp : st.promise with
  | pending => rfl
  | resolved => exact absurd hp h
  | rejected => rfl

theorem uploadPartCalls_storeCalls (partCount : Nat) (st : UploadSession)
    (hs : SessionShape partCount st) :
    uploadPartCalls (storeCalls st) = List.range' 1 st.partIndex := by
  unfold storeCalls
  cases hp : st.promise with
  | resolved =>
    simp only
    unfold uploadPartCalls
    rw [List.filterMap_append]
    have := uploadPartCalls_started st.partIndex
    unfold uploadPartCalls at this
    rw [hs.1, this]
    simp
  | pending =>
    simp only
    rw [hs.1, uploadPartCalls_started]
  | rejected =>
    simp only
    rw [hs.1, uploadPartCalls_started]

/-! ### Claim C12: the worker pool -/

/-- C12. In `runParallelUploads`, for every `maxParallel >= 1` and `partCount >= 1`, in
every state reached by starting the first batch and by parts completing successfully (in
any order): `0 <= activeUploads <= maxParallel`; the parts passed to `uploadPart` so far are
`1 .. partIndex`, each once and in ascending order, with `partIndex <= partCount`; while
parts are left to start, exactly `maxParallel` are active; every pending part can complete
and its completion counts as finished; and once no part is pending, all of
`1 .. partCount` have been started, all have finished and the promise is resolved. -/
theorem parallel_uploads_bounded (maxParallel partCount : Nat) (hM : 1 ≤ maxParallel)
    (hN : 1 ≤ partCount) (events : List PartEvent) (hok : ∀ ev ∈ events, ev.etag ≠ none) :
    0 ≤ (sessionAfter maxParallel partCount events).activeUploads
      ∧ (sessionAfter maxParallel partCount events).activeUploads ≤ (maxParallel : Int)
      ∧ uploadPartCalls (sessionAfter maxParallel partCount events).calls
        = List.range' 1 (sessionAfter maxParallel partCount events).partIndex
      ∧ (sessionAfter maxParallel partCount events).partIndex ≤ partCount
      ∧ ((sessionAfter maxParallel partCount events).partIndex < partCount →
          (sessionAfter maxParallel partCount events).activeUploads = (maxParallel : Int))
      ∧ (∀ k ∈ (sessionAfter maxParallel partCount events).inFlight, ∀ etag,
          (sessionAfter maxParallel partCount (events ++ [⟨k, some etag⟩])).finished
            = (sessionAfter maxParallel partCount events).finished + 1)
      ∧ ((sessionAfter maxParallel partCount events).inFlight = [] →
          (sessionAfter maxParallel partCount events).partIndex = partCount
            ∧ (sessionAfter maxParallel partCount events).finished = partCount
            ∧ (sessionAfter maxParallel partCount events).promise = Settlement.resolved
            ∧ uploadPartCalls (sessionAfter maxParallel partCount events).calls
              = List.range' 1 partCount) := by
  obtain ⟨j1, j2, j3, j4⟩ := sessionAfter_shape maxParallel partCount events
  obtain ⟨k1, k2, k3, k4, k5, k6⟩ := sessionAfter_balanced maxParallel partCount hN events hok
  have hcalls : uploadPartCalls (sessionAfter maxParallel partCount events).calls
      = List.range' 1 (sessionAfter maxParallel partCount events).partIndex := by
    rw [j1, uploadPartCalls_started]
  refine ⟨by rw [k1]; exact Int.natCast_nonneg _, k3, hcalls, j2, k4, ?_, ?_⟩
  · intro k hk etag
    rw [sessionAfter_append]
    simp only [List.foldl_cons, List.foldl_nil]
    obtain ⟨_, _, c2, c3, c4⟩ := partSettled_cases maxParallel partCount
      (sessionAfter maxParallel partCount events) ⟨k, some etag⟩
    by_cases hlt : (sessionAfter maxParallel partCount events).partIndex < partCount
    · rw [c2 etag hk rfl hlt,
        (startNextBatch_spec maxParallel partCount _ (by exact j2)).2.2.2.2.2.1]
      rfl
    · by_cases hfin : (sessionAfter maxParallel partCount events).finished + 1 = partCount
      · rw [c3 etag hk rfl hlt hfin, (resolvePromise_fields _).2.2.1]
        rfl
      · rw [c4 etag hk rfl hlt hfin]
        rfl
  · intro hnil
    have hact : (sessionAfter maxParallel partCount events).activeUploads = 0 := by
      rw [k1, hnil]
      rfl
    have hpi : (sessionAfter maxParallel partCount events).partIndex = partCount := by
      by_contra hne
      have := k4 (lt_of_le_of_ne j2 hne)
      rw [hact] at this
      omega
    have hf : (sessionAfter maxParallel partCount events).finished = partCount := by
      rw [hnil] at k2
      simp only [List.length_nil, Nat.add_zero] at k2
      rw [k2, hpi]
    exact ⟨hpi, hf, k5.2 hf, by rw [hcalls, hpi]⟩

theorem parallel_uploads_bounded_witness :
    (∀ ev ∈ [(⟨2, some "b"⟩ : PartEvent), ⟨1, some "a"⟩], ev.etag ≠ none)
      ∧ (sessionAfter 2 3 [⟨2, some "b"⟩, ⟨1, some "a"⟩]).activeUploads = 1
      ∧ (sessionAfter 2 3 [⟨2, some "b"⟩, ⟨1, some "a"⟩]).activeUploads ≤ 2 :=
  ⟨by decide, by decide,
    (parallel_uploads_bounded 2 3 (by decide) (by decide)
      [⟨2, some "b"⟩, ⟨1, some "a"⟩] (by decide)).2.1⟩

/-! ### Claim C18: a failed part -/

/-- C18, counterexample. With three parts and two uploads in parallel, the `uploadPart`
call for part 1 fails while it is pending: the promise of `runParallelUploads` is
rejected at once, so the session fails, and the store has been asked for part 1 exactly
once, also after part 2 has completed and part 3 has been started: there is no further
attempt. -/
theorem failed_part_single_attempt :
    1 ∈ (sessionAfter 2 3 []).inFlight
      ∧ (sessionAfter 2 3 [⟨1, none⟩]).promise = Settlement.rejected
      ∧ storeCalls (sessionAfter 2 3 [⟨1, none⟩])
        = [StoreCall.createMultipartUpload, StoreCall.uploadPart 1, StoreCall.uploadPart 2]
      ∧ storeCalls (sessionAfter 2 3 [⟨1, none⟩, ⟨2, some "b"⟩])
        = [StoreCall.createMultipartUpload, StoreCall.uploadPart 1, StoreCall.uploadPart 2,
            StoreCall.uploadPart 3]
      ∧ (uploadPartCalls (storeCalls (sessionAfter 2 3 [⟨1, none⟩, ⟨2, some "b"⟩]))).count 1
        = 1 := by
  decide

/-- C18, amended. In `multipartUploadToR2` a part whose upload attempt fails is not
retried: whatever the uploads do, every part number is passed to the store's `uploadPart`
at most once, and the first failed `uploadPart` call of a pending part rejects the promise
of `runParallelUploads` at once, which fails the session; the promise stays rejected
whatever settles later. -/
theorem failed_part_fails_session (maxParallel partCount : Nat) (events : List PartEvent) :
    (uploadPartCalls (storeCalls (sessionAfter maxParallel partCount events))).Nodup
      ∧ (∀ k, (uploadPartCalls
          (storeCalls (sessionAfter maxParallel partCount events))).count k ≤ 1)
      ∧ ∀ (pre : List PartEvent) (ev : PartEvent) (post : List PartEvent),
          events = pre ++ ev :: post → ev.etag = none →
          ev.partNumber ∈ (sessionAfter maxParallel partCount pre).inFlight →
          (sessionAfter maxParallel partCount (pre ++ [ev])).promise = Settlement.rejected
            ∧ (sessionAfter maxParallel partCount events).promise = Settlement.rejected := by
  have hnd : (uploadPartCalls
      (storeCalls (sessionAfter maxParallel partCount events))).Nodup := by
    rw [uploadPartCalls_storeCalls partCount _ (sessionAfter_shape _ _ _)]
    exact List.nodup_range' 1 _
  refine ⟨hnd, fun k => List.nodup_iff_count_le_one.1 hnd k, ?_⟩
  intro pre ev post he hfail hpend
  rw [he]
  exact session_rejected_after_failure maxParallel partCount pre ev post hfail hpend

/-! ### Claim C19: the store calls of a failed upload -/

/-- C19, at the failing input. With four parts and two uploads in parallel, part 1
completes, part 2 fails, parts 3 and 4 complete. The promise is rejected, and the store
calls after `createMultipartUpload` are the four `uploadPart` calls only: there is no
`completeMultipartUpload` call, and no `abortMultipartUpload` call for the opened upload
either, which stays open at the store. -/
theorem failed_upload_not_aborted :
    (sessionAfter 2 4 [⟨1, some "a"⟩, ⟨2, none⟩, ⟨3, some "c"⟩, ⟨4, some "d"⟩]).promise
        = Settlement.rejected
      ∧ storeCalls
          (sessionAfter 2 4 [⟨1, some "a"⟩, ⟨2, none⟩, ⟨3, some "c"⟩, ⟨4, some "d"⟩])
        = [StoreCall.createMultipartUpload, StoreCall.uploadPart 1, StoreCall.uploadPart 2,
            StoreCall.uploadPart 3, StoreCall.uploadPart 4]
      ∧ StoreCall.abortMultipartUpload ∉ storeCalls
          (sessionAfter 2 4 [⟨1, some "a"⟩, ⟨2, none⟩, ⟨3, some "c"⟩, ⟨4, some "d"⟩]) := by
  decide

/-- The same on every run. For every multipart upload in which the upload of some pending
part fails, the store calls made by the `/upload` handler after `createMultipartUpload` are
`uploadPart` calls only, for the parts `1 .. partIndex` in ascending order: there is no
`completeMultipartUpload` call and no `abortMultipartUpload` call. No run of the handler,
failed or not, calls `abortMultipartUpload`: the `catch` of lines 122-136 deletes the
temporary file and reports the error, and does nothing about the opened upload. -/
theorem failed_upload_store_calls (maxParallel partCount : Nat) (events : List PartEvent) :
    StoreCall.abortMultipartUpload ∉ storeCalls (sessionAfter maxParallel partCount events)
      ∧ ∀ (pre : List PartEvent) (ev : PartEvent) (post : List PartEvent),
          events = pre ++ ev :: post → ev.etag = none →
          ev.partNumber ∈ (sessionAfter maxParallel partCount pre).inFlight →
          storeCalls (sessionAfter maxParallel partCount events)
              = StoreCall.createMultipartUpload
                :: (List.range' 1 (sessionAfter maxParallel partCount events).partIndex).map
                    StoreCall.uploadPart
            ∧ (∀ parts, StoreCall.completeMultipartUpload parts
                ∉ storeCalls (sessionAfter maxParallel partCount events)) := by
  have hs := sessionAfter_shape maxParallel partCount events
  constructor
  · unfold storeCalls
    cases (sessionAfter maxParallel partCount events).promise
    all_goals
      simp only [hs.1]
      simp
  · intro pre ev post he hfail hpend
    have hr : (sessionAfter maxParallel partCount events).promise = Settlement.rejected := by
      rw [he]
      exact (session_rejected_after_failure maxParallel partCount pre ev post hfail hpend).2
    have hc : storeCalls (sessionAfter maxParallel partCount events)
        = StoreCall.createMultipartUpload
          :: (List.range' 1 (sessionAfter maxParallel partCount events).partIndex).map
              StoreCall.uploadPart := by
      rw [storeCalls_of_not_resolved _ (by rw [hr]; intro h; cases h)]
      exact hs.1
    refine ⟨hc, ?_⟩
    intro parts
    rw [hc]
    simp

/-! ## One tick as a sequence of steps -/

/-- A tick either runs the evaluated body or does nothing but, possibly, clear the
interval. -/
theorem Monitor.tick_eq_body_or_idle (m : Monitor) (s : MonitorState) (i : TickInput) :
    m.tick s i = m.body s i
      ∨ (m.tick s i = (s, {}) ∨ m.tick s i = ({ s with cleared := true }, { stopping := true })) := by
  cases m
  all_goals
    simp only [Monitor.tick, Monitor.body, Monitor.recentParts, Monitor.window, dslTick,
      enterpriseTick, gigabitTick, ultraTick, deTick, fiberTick, cableTick, guTick]
    split_ifs
    all_goals first
      | (left; rfl)
      | (right; left; rfl)
      | (right; right; rfl)

theorem Monitor.body_evaluated (m : Monitor) (s : MonitorState) (i : TickInput) :
    (m.body s i).2.evaluated = true := by
  cases m
  case fiber => exact fiberBody_evaluated _ _ _
  all_goals rfl

theorem Monitor.tick_evaluated_iff (m : Monitor) (s : MonitorState) (i : TickInput) :
    (m.tick s i).2.evaluated = true ↔ m.tick s i = m.body s i := by
  constructor
  · intro h
    rcases Monitor.tick_eq_body_or_idle m s i with hb | hb | hb
    · exact hb
    · rw [hb] at h; cases h
    · rw [hb] at h; cases h
  · intro h
    rw [h]
    exact Monitor.body_evaluated m s i

/-- The thrashing protection of the body is `Monitor.thrashingGuard`. -/
theorem Monitor.body_performanceDecay (m : Monitor) (s : MonitorState) (i : TickInput)
    (h : (m.body s i).2.performanceDecay = true) : (m.thrashingGuard s i).2 = true := by
  cases m
  case fiber =>
    revert h
    simp only [Monitor.body, fiberBody]
    split_ifs
    · intro h; cases h
    · intro h; exact h
  all_goals exact h

theorem Monitor.tick_performanceDecay (m : Monitor) (s : MonitorState) (i : TickInput)
    (h : (m.tick s i).2.performanceDecay = true) : (m.thrashingGuard s i).2 = true := by
  rcases Monitor.tick_eq_body_or_idle m s i with hb | hb | hb
  · rw [hb] at h; exact Monitor.body_performanceDecay m s i h
  · rw [hb] at h; cases h
  · rw [hb] at h; cases h

/-! ### Claim C22: the parallelism is a number of chunks -/

/-- C22. The DSL monitor, started from its own strategy with the whole parallelism 2,
leaves a parallelism that is not a whole number: on the first tick of
`dslFallbackThenScaleUp` the fallback block sets `context.maxParallel` to
`Math.min(2, Math.max(2 * 0.6, 1)) = 1.2` and passes 1.2 to `updateStrategy`; on the second
tick the scale-up increments it to 2.2. -/
theorem dsl_parallelism_fractional :
    isWhole (Monitor.dsl.parallelism (Monitor.dsl.start ⟨3⟩ 30000))
      ∧ Monitor.dsl.parallelism
          (stateAt dslTick (Monitor.dsl.start ⟨3⟩ 30000) dslFallbackThenScaleUp 0) = 6 / 5
      ∧ ¬ isWhole (Monitor.dsl.parallelism
          (stateAt dslTick (Monitor.dsl.start ⟨3⟩ 30000) dslFallbackThenScaleUp 0))
      ∧ (eventsAt dslTick (Monitor.dsl.start ⟨3⟩ 30000) dslFallbackThenScaleUp 0).fallbackMode
          = true
      ∧ ((eventsAt dslTick (Monitor.dsl.start ⟨3⟩ 30000) dslFallbackThenScaleUp 0).updates.map
          (fun u => u.parallel)) = [6 / 5]
      ∧ Monitor.dsl.parallelism
          (stateAt dslTick (Monitor.dsl.start ⟨3⟩ 30000) dslFallbackThenScaleUp 1) = 11 / 5
      ∧ ¬ isWhole (Monitor.dsl.parallelism
          (stateAt dslTick (Monitor.dsl.start ⟨3⟩ 30000) dslFallbackThenScaleUp 1))
      ∧ ((eventsAt dslTick (Monitor.dsl.start ⟨3⟩ 30000) dslFallbackThenScaleUp 1).updates.map
          (fun u => u.parallel)) = [11 / 5] := by
  decide!

/-! ### Claim C29: how many strong ticks earn the lock -/

/-- C29. On the enterprise monitor (`reinforcementSampleCount = 5`) the peak is detected on
the first tick of `enterpriseStrongTicks` and the lock is set on the third: the block
"REINFORCEMENT LOCK-IN" and the stable branch of the hysteresis state machine both run
`strongPerformanceSamples++` on every strong tick, so the counter reads 2, 4 and 6 after
the three ticks and reaches 5 inside the third. The lock is set on tick `t + 2`, before
tick `t + reinforcementSampleCount - 1 = t + 4`. The DSL monitor
(`reinforcementSampleCount = 3`) has the same two increments: on `dslLockLost` the peak is
detected on the first tick and the lock is set on the second. -/
theorem enterprise_locks_after_three_ticks :
    ENTERPRISE_PROFILE.reinforcementSampleCount = 5
      ∧ (eventsAt enterpriseTick (Monitor.enterprise.start ⟨100⟩ 0)
          enterpriseStrongTicks 0).peakDetected = true
      ∧ (stateAt enterpriseTick (Monitor.enterprise.start ⟨100⟩ 0)
          enterpriseStrongTicks 0).lockedPerformance = false
      ∧ (stateAt enterpriseTick (Monitor.enterprise.start ⟨100⟩ 0)
          enterpriseStrongTicks 1).lockedPerformance = false
      ∧ (eventsAt enterpriseTick (Monitor.enterprise.start ⟨100⟩ 0)
          enterpriseStrongTicks 2).performanceReinforced = true
      ∧ (stateAt enterpriseTick (Monitor.enterprise.start ⟨100⟩ 0)
          enterpriseStrongTicks 2).lockedPerformance = true
      ∧ (List.range 3).map (fun k =>
          (stateAt enterpriseTick (Monitor.enterprise.start ⟨100⟩ 0)
            enterpriseStrongTicks k).strongPerformanceSamples) = [2, 4, 6]
      ∧ 0 + 2 < 0 + ENTERPRISE_PROFILE.reinforcementSampleCount - 1
      ∧ DSL_PROFILE.reinforcementSampleCount = 3
      ∧ (eventsAt dslTick (Monitor.dsl.start ⟨3⟩ 0) dslLockLost 0).peakDetected = true
      ∧ (List.range 2).map (fun k =>
          (stateAt dslTick (Monitor.dsl.start ⟨3⟩ 0) dslLockLost k).lockedPerformance)
          = [false, true] := by
  decide!

/-! ### Claim C23: the warning band of the hysteresis state machine -/

/-- The phase `Monitor.phaseAfterHysteresis` names is the phase of `Monitor.hysteresis`. -/
theorem Monitor.phaseAfterHysteresis_eq (m : Monitor) (s : MonitorState) (i : TickInput) :
    m.phaseAfterHysteresis s i = (m.hysteresis s i).peakResetState := by
  cases m <;> rfl

/-- The three branches of the state machine, and the case in which none is taken. -/
theorem hysteresis_cases (d r w peak avg : ℚ) (s : MonitorState) :
    (avg < d * peak →
        hysteresis d r w peak avg s = { s with peakResetState := PeakResetState.dropping })
      ∧ (¬ avg < d * peak → avg > r * peak →
        hysteresis d r w peak avg s
          = { s with
              peakResetState := PeakResetState.stable
              strongPerformanceSamples := s.strongPerformanceSamples + 1 })
      ∧ (¬ avg < d * peak → ¬ avg > r * peak → avg < w * peak →
          s.peakResetState = PeakResetState.stable →
        hysteresis d r w peak avg s
          = { s with peakResetState := PeakResetState.warning, strongPerformanceSamples := 0 })
      ∧ (¬ avg < d * peak → ¬ avg > r * peak →
          ¬ (avg < w * peak ∧ s.peakResetState = PeakResetState.stable) →
        hysteresis d r w peak avg s = s) := by
  unfold hysteresis
  refine ⟨fun h => ?_, fun h1 h2 => ?_, fun h1 h2 h3 h4 => ?_, fun h1 h2 h3 => ?_⟩
  · rw [if_pos h]
  · rw [if_neg h1, if_pos h2]
  · rw [if_neg h1, if_neg h2, if_pos ⟨h3, h4⟩]
  · rw [if_neg h1, if_neg h2, if_neg h3]

/-- The decay block of the cable monitor runs the state machine `Monitor.hysteresis`: with
the guard of the block satisfied, the phase the block reports in its warning is the phase
after the state machine. -/
theorem cableDecay_warning_eq (s : MonitorState) (i : TickInput)
    (hg : decayGuard (Monitor.cable.beforeDecay s i) = true) :
    (cableDecay i.now (Monitor.cable.currentThroughput i)
        (Monitor.cable.beforeDecay s i)).2.performanceWarning
      = decide ((Monitor.cable.hysteresis s i).peakResetState = PeakResetState.warning
          ∧ i.now - (Monitor.cable.beforeDecay s i).peakTimestamp.getD 0 > 25000) := by
  unfold cableDecay
  rw [if_pos hg]
  rfl

/-- C23, counterexample. The cable monitor detects its peak at 80 Mbps on the first tick
of `cableBandTicks`; on the second tick the phase is "stable" when the decay block starts,
the weighted average is 400/7 (about 57.1 Mbps), between the warning threshold
`0.70 * 80 = 56` and the recovery threshold `0.75 * 80 = 60`, and the phase stays "stable":
the state machine leaves the state as it is. -/
theorem cable_band_stays_stable :
    decayGuard (Monitor.cable.beforeDecay
        (stateAt cableTick (Monitor.cable.start ⟨50⟩ 0) cableBandTicks 0) cableBandTick) = true
      ∧ (Monitor.cable.beforeDecay
          (stateAt cableTick (Monitor.cable.start ⟨50⟩ 0) cableBandTicks 0)
          cableBandTick).peakResetState = PeakResetState.stable
      ∧ Monitor.cable.initialPeak
          (stateAt cableTick (Monitor.cable.start ⟨50⟩ 0) cableBandTicks 0) cableBandTick = 80
      ∧ Monitor.cable.averageThroughput
          (stateAt cableTick (Monitor.cable.start ⟨50⟩ 0) cableBandTicks 0) cableBandTick
          = 400 / 7
      ∧ Monitor.cable.warningFraction * 80 ≤ 400 / 7
      ∧ (400 / 7 : ℚ) ≤ Monitor.cable.recoveryFraction * 80
      ∧ (Monitor.cable.hysteresis
          (stateAt cableTick (Monitor.cable.start ⟨50⟩ 0) cableBandTicks 0)
          cableBandTick).peakResetState = PeakResetState.stable
      ∧ (Monitor.cable.hysteresis
          (stateAt cableTick (Monitor.cable.start ⟨50⟩ 0) cableBandTicks 0)
          cableBandTick).strongPerformanceSamples = 1
      ∧ (stateAt cableTick (Monitor.cable.start ⟨50⟩ 0) cableBandTicks 1).peakResetState
          = PeakResetState.stable
      ∧ (stateAt cableTick (Monitor.cable.start ⟨50⟩ 0) cableBandTicks 1).strongPerformanceSamples
          = 1 := by
  decide!

/-- C23, amended. In every profile monitor's hysteresis step, when the phase before the
step is "stable" and the weighted average throughput lies between the drop threshold and
the warning threshold (drop <= average < warning, and so not above recovery; all three are
fractions of `initialPeakThroughput`), the phase becomes "warning" and the strong-sample
counter is reset to 0. When the average lies between the warning threshold and the
recovery threshold (warning <= average <= recovery, not below drop), the step changes
nothing: the phase stays "stable" and the counter keeps its value. -/
theorem hysteresis_warning_band (m : Monitor) (s : MonitorState) (i : TickInput)
    (hstable : (m.beforeDecay s i).peakResetState = PeakResetState.stable) :
    (m.dropFraction * m.initialPeak s i ≤ m.averageThroughput s i →
      m.averageThroughput s i < m.warningFraction * m.initialPeak s i →
      m.averageThroughput s i ≤ m.recoveryFraction * m.initialPeak s i →
        (m.hysteresis s i).peakResetState = PeakResetState.warning
          ∧ (m.hysteresis s i).strongPerformanceSamples = 0)
      ∧ (m.dropFraction * m.initialPeak s i ≤ m.averageThroughput s i →
        m.warningFraction * m.initialPeak s i ≤ m.averageThroughput s i →
        m.averageThroughput s i ≤ m.recoveryFraction * m.initialPeak s i →
          m.hysteresis s i = m.beforeHysteresis s i
            ∧ (m.hysteresis s i).peakResetState = PeakResetState.stable
            ∧ (m.hysteresis s i).strongPerformanceSamples
              = (m.beforeDecay s i).strongPerformanceSamples) := by
  have hst : (m.beforeHysteresis s i).peakResetState = PeakResetState.stable := by
    simpa [Monitor.beforeHysteresis] using hstable
  have hsp : (m.beforeHysteresis s i).strongPerformanceSamples
      = (m.beforeDecay s i).strongPerformanceSamples := by
    simp [Monitor.beforeHysteresis]
  have hc := hysteresis_cases m.dropFraction m.recoveryFraction m.warningFraction
    (m.initialPeak s i) (m.averageThroughput s i) (m.beforeHysteresis s i)
  constructor
  · intro h1 h2 h3
    have := hc.2.2.1 (not_lt.mpr h1) (not_lt.mpr h3) h2 hst
    unfold Monitor.hysteresis
    rw [this]
    exact ⟨rfl, rfl⟩
  · intro h1 h2 h3
    have := hc.2.2.2 (not_lt.mpr h1) (not_lt.mpr h3) (fun h => absurd h.1 (not_lt.mpr h2))
    unfold Monitor.hysteresis
    rw [this]
    exact ⟨rfl, hst, hsp⟩

/-- C23, amended: the two cases on the cable monitor after the first tick of
`cableBandTicks`. At 32 Mbps the average is 368/7 (about 52.6 Mbps), between
`0.65 * 80 = 52` and `0.70 * 80 = 56`, and the phase becomes "warning"; at 40 Mbps the
average is between 56 and 60 and nothing changes. -/
theorem hysteresis_warning_band_witness :
    ((Monitor.cable.hysteresis
          (stateAt cableTick (Monitor.cable.start ⟨50⟩ 0) cableBandTicks 0)
          cableWarningTick).peakResetState = PeakResetState.warning
        ∧ (Monitor.cable.hysteresis
          (stateAt cableTick (Monitor.cable.start ⟨50⟩ 0) cableBandTicks 0)
          cableWarningTick).strongPerformanceSamples = 0)
      ∧ Monitor.cable.hysteresis
          (stateAt cableTick (Monitor.cable.start ⟨50⟩ 0) cableBandTicks 0) cableBandTick
        = Monitor.cable.beforeHysteresis
          (stateAt cableTick (Monitor.cable.start ⟨50⟩ 0) cableBandTicks 0) cableBandTick :=
  ⟨(hysteresis_warning_band Monitor.cable
      (stateAt cableTick (Monitor.cable.start ⟨50⟩ 0) cableBandTicks 0) cableWarningTick
      (by decide!)).1 (by decide!) (by decide!) (by decide!),
    ((hysteresis_warning_band Monitor.cable
      (stateAt cableTick (Monitor.cable.start ⟨50⟩ 0) cableBandTicks 0) cableBandTick
      (by decide!)).2 (by decide!) (by decide!) (by decide!)).1⟩

/-! ### Claim C30: the thrashing guard and the recorded optimum -/

theorem thrashingProtection_optimal (parallelDefault : ℚ) (historyMax window : Nat)
    (fraction currentThroughput current : ℚ) (s : MonitorState) :
    ((thrashingProtection parallelDefault historyMax window fraction currentThroughput
          current s).2 = true →
        (thrashingProtection parallelDefault historyMax window fraction currentThroughput
          current s).1.optimalParallel = max (s.optimalParallel - 1) parallelDefault)
      ∧ ((thrashingProtection parallelDefault historyMax window fraction currentThroughput
          current s).2 = false →
        (thrashingProtection parallelDefault historyMax window fraction currentThroughput
          current s).1.optimalParallel = s.optimalParallel) := by
  unfold thrashingProtection
  split_ifs <;> simp

/-- The floor of the guard is the field `parallel` of the monitor's table. -/
theorem Monitor.thrashingGuard_optimal (m : Monitor) (s : MonitorState) (i : TickInput) :
    ((m.thrashingGuard s i).2 = true →
        (m.beforeRamp s i).optimalParallel
          = max ((m.afterDecay s i).optimalParallel - 1) m.profile.parallel)
      ∧ ((m.thrashingGuard s i).2 = false →
        (m.beforeRamp s i).optimalParallel = (m.afterDecay s i).optimalParallel) := by
  cases m <;> exact thrashingProtection_optimal _ _ _ _ _ _ _

theorem Monitor.minParallel_le_parallel (m : Monitor) :
    m.profile.minParallel ≤ m.profile.parallel := by
  cases m <;> decide!

/-- C30, at the failing input. On the enterprise monitor (`parallel = 6`,
`minParallel = 4`) the run `enterpriseThrash` has the peak detected at parallelism 4, so
the recorded optimum is 4; the parallelism is then scaled up to 5, and on the last tick
the guard fires ("PERFORMANCE DECAY: Lowering optimal to ...") and sets the optimum to
`Math.max(4 - 1, 6) = 6`: the guard raises the recorded optimum from 4 to 6. -/
theorem enterprise_thrashing_raises_optimum :
    (List.range 8).map (fun k =>
        (stateAt enterpriseTick (Monitor.enterprise.start ⟨100⟩ 40000)
          enterpriseThrash k).contextMaxParallel) = [6, 6, 6, 6, 4, 4, 5, 5]
      ∧ (List.range 8).map (fun k =>
        (stateAt enterpriseTick (Monitor.enterprise.start ⟨100⟩ 40000)
          enterpriseThrash k).optimalParallel) = [6, 6, 6, 6, 6, 4, 4, 6]
      ∧ (eventsAt enterpriseTick (Monitor.enterprise.start ⟨100⟩ 40000)
          enterpriseThrash 7).performanceDecay = true
      ∧ (Monitor.enterprise.thrashingGuard
          (stateAt enterpriseTick (Monitor.enterprise.start ⟨100⟩ 40000) enterpriseThrash 6)
          enterpriseThrashTick).2 = true
      ∧ (Monitor.enterprise.afterDecay
          (stateAt enterpriseTick (Monitor.enterprise.start ⟨100⟩ 40000) enterpriseThrash 6)
          enterpriseThrashTick).optimalParallel = 4
      ∧ (Monitor.enterprise.beforeRamp
          (stateAt enterpriseTick (Monitor.enterprise.start ⟨100⟩ 40000) enterpriseThrash 6)
          enterpriseThrashTick).optimalParallel = 6
      ∧ ¬ ((Monitor.enterprise.beforeRamp
          (stateAt enterpriseTick (Monitor.enterprise.start ⟨100⟩ 40000) enterpriseThrash 6)
          enterpriseThrashTick).optimalParallel
        ≤ (Monitor.enterprise.afterDecay
          (stateAt enterpriseTick (Monitor.enterprise.start ⟨100⟩ 40000) enterpriseThrash 6)
          enterpriseThrashTick).optimalParallel) := by
  decide!

/-- The guard step in general. In every profile monitor, whenever the thrashing guard
fires, the new `optimalParallel` is `max(old - 1, profile.parallel)`, with the profile
default and not the profile minimum as the floor: it is at least the old value minus
one, at least the profile default `parallel` and hence at least `profile.minParallel`; it
is less than or equal to the old value whenever the old value is at least the profile
default, and it is the profile default when the old value is below it. On ticks where the
guard does not fire `optimalParallel` is unchanged by the guard. A tick that logs
"PERFORMANCE DECAY" is a tick on which the guard fired. -/
theorem thrashing_guard_step (m : Monitor) (s : MonitorState) (i : TickInput) :
    ((m.tick s i).2.performanceDecay = true → (m.thrashingGuard s i).2 = true)
      ∧ ((m.thrashingGuard s i).2 = true →
        (m.beforeRamp s i).optimalParallel
            = max ((m.afterDecay s i).optimalParallel - 1) m.profile.parallel
          ∧ (m.afterDecay s i).optimalParallel - 1 ≤ (m.beforeRamp s i).optimalParallel
          ∧ m.profile.parallel ≤ (m.beforeRamp s i).optimalParallel
          ∧ m.profile.minParallel ≤ (m.beforeRamp s i).optimalParallel
          ∧ (m.profile.parallel ≤ (m.afterDecay s i).optimalParallel →
              (m.beforeRamp s i).optimalParallel ≤ (m.afterDecay s i).optimalParallel)
          ∧ ((m.afterDecay s i).optimalParallel < m.profile.parallel →
              (m.beforeRamp s i).optimalParallel = m.profile.parallel))
      ∧ ((m.thrashingGuard s i).2 = false →
        (m.beforeRamp s i).optimalParallel = (m.afterDecay s i).optimalParallel) := by
  refine ⟨Monitor.tick_performanceDecay m s i, fun h => ?_,
    (Monitor.thrashingGuard_optimal m s i).2⟩
  have he := (Monitor.thrashingGuard_optimal m s i).1 h
  have hmin := Monitor.minParallel_le_parallel m
  rw [he]
  refine ⟨rfl, le_max_left _ _, le_max_right _ _, le_trans hmin (le_max_right _ _), ?_, ?_⟩
  · intro hp
    exact max_le (by linarith) hp
  · intro hp
    exact max_eq_right (by linarith)

/-! ### Claim C24: the weighted average of the decay blocks -/

theorem weightAt_pos (w : List ℚ) (hw : ∀ x ∈ w, 0 ≤ x) (k : Nat) : 0 < weightAt w k := by
  unfold weightAt
  cases hk : w.get? k with
  | none => norm_num
  | some x =>
    simp only
    split_ifs with h0
    · norm_num
    · exact lt_of_le_of_ne (hw x (List.get?_mem hk)) (Ne.symm h0)

theorem Monitor.weights_nonneg (m : Monitor) : ∀ x ∈ m.weights, 0 ≤ x := by
  cases m <;> decide!

theorem Monitor.weights_weightAt_pos (m : Monitor) (k : Nat) : 0 < weightAt m.weights k :=
  WNET.weightAt_pos m.weights m.weights_nonneg k

/-- Within the bound of the smoothing history every weight comes from the table: the
default `0.05` of `weights[i] || 0.05` is never used. -/
theorem Monitor.weightAt_eq (m : Monitor) (k : Nat) (hk : k < m.smoothingMax) :
    weightAt m.weights k = m.weights.getD k 0 := by
  cases m
  all_goals
    simp only [Monitor.smoothingMax, dslTuning, enterpriseTuning] at hk
    interval_cases k <;> decide!

theorem getD_reverse_of_lt (h : List ℚ) (k : Nat) (hk : k < h.length) :
    h.reverse.getD k 0 = h.getD (h.length - 1 - k) 0 := by
  rw [List.getD_eq_getElem?_getD, List.getD_eq_getElem?_getD, List.getElem?_reverse hk]

theorem getD_reverse_mem (h : List ℚ) (k : Nat) (hk : k < h.length) :
    h.reverse.getD k 0 ∈ h := by
  rw [List.getD_eq_getElem?_getD, List.getElem?_eq_getElem (by simpa using hk)]
  simp only [Option.getD_some]
  exact List.mem_reverse.mp (List.getElem_mem _)

theorem averageThroughput_eq_spec (m : Monitor) (h : List ℚ)
    (hlen : h.length ≤ m.smoothingMax) :
    averageThroughput m.weights h = specWeightedAverage m.weights h := by
  unfold averageThroughput specWeightedAverage weightedSum totalWeight
  congr 1
  · apply congrArg
    apply List.map_congr_left
    intro k hk
    have hk' : k < h.length := List.mem_range.mp hk
    rw [getD_reverse_of_lt h k hk', Monitor.weightAt_eq m k (lt_of_lt_of_le hk' hlen)]
    ring
  · apply congrArg
    apply List.map_congr_left
    intro k hk
    have hk' : k < h.length := List.mem_range.mp hk
    exact Monitor.weightAt_eq m k (lt_of_lt_of_le hk' hlen)

theorem totalWeight_pos (w h : List ℚ) (hw : ∀ k, 0 < weightAt w k) (hne : h ≠ []) :
    0 < totalWeight w h := by
  unfold totalWeight
  apply List.sum_pos
  · intro x hx
    obtain ⟨k, _, rfl⟩ := List.mem_map.mp hx
    exact hw k
  · intro he
    have hl := congrArg List.length he
    simp only [List.length_map, List.length_range, List.length_nil] at hl
    exact hne (List.length_eq_zero.mp hl)

theorem weightedSum_bounds (w h : List ℚ) (hw : ∀ k, 0 < weightAt w k) (lo hi : ℚ)
    (hlo : ∀ x ∈ h, lo ≤ x) (hhi : ∀ x ∈ h, x ≤ hi) :
    lo * totalWeight w h ≤ weightedSum w h ∧ weightedSum w h ≤ hi * totalWeight w h := by
  unfold weightedSum totalWeight
  rw [← List.sum_map_mul_left, ← List.sum_map_mul_left]
  constructor
  · apply List.sum_le_sum
    intro k hk
    have hk' : k < h.length := List.mem_range.mp hk
    exact mul_le_mul_of_nonneg_right (hlo _ (getD_reverse_mem h k hk')) (le_of_lt (hw k))
  · apply List.sum_le_sum
    intro k hk
    have hk' : k < h.length := List.mem_range.mp hk
    exact mul_le_mul_of_nonneg_right (hhi _ (getD_reverse_mem h k hk')) (le_of_lt (hw k))

theorem averageThroughput_bounds (w h : List ℚ) (hw : ∀ k, 0 < weightAt w k) (hne : h ≠ [])
    (lo hi : ℚ) (hlo : ∀ x ∈ h, lo ≤ x) (hhi : ∀ x ∈ h, x ≤ hi) :
    lo ≤ averageThroughput w h ∧ averageThroughput w h ≤ hi := by
  have hpos := totalWeight_pos w h hw hne
  obtain ⟨h1, h2⟩ := weightedSum_bounds w h hw lo hi hlo hhi
  unfold averageThroughput
  exact ⟨(le_div_iff₀ hpos).mpr h1, (div_le_iff₀ hpos).mpr h2⟩

theorem exists_min_max (h : List ℚ) (hne : h ≠ []) :
    ∃ lo ∈ h, ∃ hi ∈ h, ∀ x ∈ h, lo ≤ x ∧ x ≤ hi := by
  induction h with
  | nil => exact absurd rfl hne
  | cons a t ih =>
    by_cases ht : t = []
    · subst ht
      exact ⟨a, by simp, a, by simp, fun x hx => by simp at hx; subst hx; exact ⟨le_refl _, le_refl _⟩⟩
    · obtain ⟨lo, hlo, hi, hhi, hb⟩ := ih ht
      refine ⟨min a lo, ?_, max a hi, ?_, ?_⟩
      · rcases min_choice a lo with e | e <;> rw [e] <;> simp [hlo]
      · rcases max_choice a hi with e | e <;> rw [e] <;> simp [hhi]
      · intro x hx
        rcases List.mem_cons.mp hx with rfl | hx
        · exact ⟨min_le_left _ _, le_max_left _ _⟩
        · exact ⟨le_trans (min_le_right _ _) (hb x hx).1, le_trans (hb x hx).2 (le_max_right _ _)⟩

/-- C24. In every profile monitor, for every non-empty throughput history `h` of length
`n` at most the bound of the smoothing history, the weighted average the decay block
computes equals the sum over `i < n` of `w[i] * h[n - 1 - i]` divided by the sum over
`i < n` of `w[i]`, with the monitor's weight table `w`; in the table the weights never
increase with age, so the most recent sample has the largest weight; the average lies
between the smallest and the largest entry of `h`, and it equals `v` when every entry of
`h` is `v`. -/
theorem weighted_average_spec (m : Monitor) (h : List ℚ) (hne : h ≠ [])
    (hlen : h.length ≤ m.smoothingMax) :
    averageThroughput m.weights h = specWeightedAverage m.weights h
      ∧ m.weights.length = m.smoothingMax
      ∧ m.weights.Pairwise (fun newer older => older ≤ newer)
      ∧ (∀ x ∈ m.weights, x ≤ m.weights.headD 0)
      ∧ (∃ lo ∈ h, ∃ hi ∈ h, (∀ x ∈ h, lo ≤ x ∧ x ≤ hi)
          ∧ lo ≤ averageThroughput m.weights h ∧ averageThroughput m.weights h ≤ hi)
      ∧ (∀ v, (∀ x ∈ h, x = v) → averageThroughput m.weights h = v) := by
  refine ⟨averageThroughput_eq_spec m h hlen, by cases m <;> rfl, by cases m <;> decide!,
    by cases m <;> decide!, ?_, ?_⟩
  · obtain ⟨lo, hlo, hi, hhi, hb⟩ := exists_min_max h hne
    obtain ⟨h1, h2⟩ := averageThroughput_bounds m.weights h m.weights_weightAt_pos hne lo hi
      (fun x hx => (hb x hx).1) (fun x hx => (hb x hx).2)
    exact ⟨lo, hlo, hi, hhi, hb, h1, h2⟩
  · intro v hv
    obtain ⟨h1, h2⟩ := averageThroughput_bounds m.weights h m.weights_weightAt_pos hne v v
      (fun x hx => le_of_eq (hv x hx).symm) (fun x hx => le_of_eq (hv x hx))
    exact le_antisymm h2 h1

/-- C24 on the DSL monitor with the history 10, 20 (20 the most recent): the average is
`(0.5 * 20 + 0.3 * 10) / 0.8 = 16.25`. -/
theorem weighted_average_spec_witness :
    averageThroughput Monitor.dsl.weights [10, 20] = specWeightedAverage Monitor.dsl.weights [10, 20]
      ∧ averageThroughput Monitor.dsl.weights [10, 20] = 65 / 4 :=
  ⟨(weighted_average_spec Monitor.dsl [10, 20] (by decide) (by decide)).1, by decide!⟩

/-! ### Claim C21: the part size and the limits of the object store -/

theorem Monitor.fallback_partSize_range (m : Monitor) (i : TickInput) (s : MonitorState)
    (h : m.partSizeRange.1 ≤ s.partSize ∧ s.partSize ≤ m.partSizeRange.2) :
    m.partSizeRange.1 ≤ (m.fallback i s).partSize
      ∧ (m.fallback i s).partSize ≤ m.partSizeRange.2 := by
  cases m
  all_goals
    simp only [Monitor.partSizeRange, Monitor.fallback, throttledFallback, cableFallback,
      fallbackGuard, fallbackPartSize, dslTuning, enterpriseTuning, gigabitTuning, ultraTuning,
      fiberFallbackRule, DSL_PROFILE, CABLE_PROFILE, FIBER_PROFILE, ENTERPRISE_PROFILE,
      GIGABIT_PROFILE, ULTRA_PROFILE] at h ⊢
    split_ifs
    all_goals first
      | exact h
      | (simp only [le_min_iff, min_le_iff, le_max_iff, max_le_iff]; omega)

theorem Monitor.start_partSize_range (m : Monitor) (connectionInfo : ConnectionInfo)
    (createdAt : Int) :
    m.partSizeRange.1 ≤ (m.start connectionInfo createdAt).partSize
      ∧ (m.start connectionInfo createdAt).partSize ≤ m.partSizeRange.2 := by
  have e : (m.start connectionInfo createdAt).partSize = m.profile.partSize := by
    cases m <;> rfl
  rw [e]
  cases m <;> decide

theorem Monitor.tick_partSize_range (m : Monitor) (s : MonitorState) (i : TickInput)
    (h : m.partSizeRange.1 ≤ s.partSize ∧ s.partSize ≤ m.partSizeRange.2) :
    m.partSizeRange.1 ≤ (m.tick s i).1.partSize
      ∧ (m.tick s i).1.partSize ≤ m.partSizeRange.2 := by
  rcases Monitor.tick_ends_in_fallback m s i with he | ⟨s', hs', he⟩
  · rw [he]; exact h
  · rw [he]
    exact Monitor.fallback_partSize_range m i s' (by rw [hs']; exact h)

theorem Monitor.reached_partSize_range (m : Monitor) (connectionInfo : ConnectionInfo)
    (createdAt : Int) (inputs : List TickInput) :
    m.partSizeRange.1 ≤ (m.reached connectionInfo createdAt inputs).partSize
      ∧ (m.reached connectionInfo createdAt inputs).partSize ≤ m.partSizeRange.2 :=
  finalState_induction m.tick
    (fun s => m.partSizeRange.1 ≤ s.partSize ∧ s.partSize ≤ m.partSizeRange.2)
    (fun s i h => Monitor.tick_partSize_range m s i h) inputs _
    (Monitor.start_partSize_range m connectionInfo createdAt)

/-- C21, counterexample. On the DSL monitor the six ticks of `dslSlowUpload` each apply
the fallback: `strategy.partSize` goes from 8 MB to 7, 6, 5, 4 and 3 MB and stays there.
After the fourth tick the part size is 4 MiB, below 5 MiB. -/
theorem dsl_part_size_below_five_mib :
    (Monitor.dsl.start ⟨3⟩ 30000).partSize = 8 * MiB
      ∧ (List.range 6).map (fun k =>
          (stateAt dslTick (Monitor.dsl.start ⟨3⟩ 30000) dslSlowUpload k).partSize)
        = [7 * MiB, 6 * MiB, 5 * MiB, 4 * MiB, 3 * MiB, 3 * MiB]
      ∧ (Monitor.dsl.reached ⟨3⟩ 30000 (dslSlowUpload.take 4)).partSize = 4 * MiB
      ∧ ¬ (5 * MiB ≤ (Monitor.dsl.reached ⟨3⟩ 30000 (dslSlowUpload.take 4)).partSize) := by
  decide!

/-- C21, amended. For every profile monitor started from its own strategy and every tick
sequence, the chunk size `strategy.partSize`, including after it has been raised or
lowered by the fallback logic, stays between the bound of the monitor's fallback block and
the table's part size. In the cable, fiber, enterprise, gigabit and ultra monitors every
part size is within the object store's multipart limits (at least 5 MiB, at most 5 GiB);
in the DSL monitor the part size is at most 5 GiB and at least 3 MiB, the floor of the DSL
fallback. In all six monitors `ceil(fileSize / partSize) <= 10,000` for every file up to
the 10 GiB upload limit. -/
theorem part_size_within_limits (m : Monitor) (connectionInfo : ConnectionInfo)
    (createdAt : Int) (inputs : List TickInput) (fileSize : Int)
    (hfile : fileSize ≤ uploadFileSizeLimit) :
    m.partSizeRange.1 ≤ (m.reached connectionInfo createdAt inputs).partSize
      ∧ (m.reached connectionInfo createdAt inputs).partSize ≤ m.partSizeRange.2
      ∧ (m ≠ Monitor.dsl → 5 * MiB ≤ (m.reached connectionInfo createdAt inputs).partSize)
      ∧ 3 * MiB ≤ (m.reached connectionInfo createdAt inputs).partSize
      ∧ (m.reached connectionInfo createdAt inputs).partSize ≤ 5 * 1024 * MiB
      ∧ totalPartsOf fileSize (m.reached connectionInfo createdAt inputs).partSize ≤ 10000 := by
  obtain ⟨hlo, hhi⟩ := Monitor.reached_partSize_range m connectionInfo createdAt inputs
  have h3 : 3 * MiB ≤ (m.reached connectionInfo createdAt inputs).partSize := by
    refine le_trans ?_ hlo
    cases m <;> decide
  refine ⟨hlo, hhi, ?_, h3, ?_, ?_⟩
  · intro hm
    refine le_trans ?_ hlo
    cases m
    case dsl => exact absurd rfl hm
    all_goals decide
  · refine le_trans hhi ?_
    cases m <;> decide
  · unfold totalPartsOf
    rw [Int.ceil_le]
    have hp : (0 : ℚ) < ((m.reached connectionInfo createdAt inputs).partSize : ℚ) := by
      have : (0 : Int) < (m.reached connectionInfo createdAt inputs).partSize :=
        lt_of_lt_of_le (by decide) h3
      exact_mod_cast this
    rw [div_le_iff₀ hp]
    have hInt : fileSize ≤ 10000 * (m.reached connectionInfo createdAt inputs).partSize := by
      have e1 : uploadFileSizeLimit ≤ 10000 * (3 * MiB) := by decide
      have e2 : 10000 * (3 * MiB)
          ≤ 10000 * (m.reached connectionInfo createdAt inputs).partSize := by
        apply Int.mul_le_mul_of_nonneg_left h3 (by decide)
      exact le_trans hfile (le_trans e1 e2)
    exact_mod_cast hInt

/-- C21, amended, on the gigabit monitor after the four ticks of `fourLowTicks`, for a
file of 2 GiB. -/
theorem part_size_within_limits_witness :
    (2147483648 : Int) ≤ uploadFileSizeLimit
      ∧ 5 * MiB ≤ (Monitor.gigabit.reached ⟨1000⟩ 0 fourLowTicks).partSize
      ∧ totalPartsOf 2147483648 (Monitor.gigabit.reached ⟨1000⟩ 0 fourLowTicks).partSize
          ≤ 10000 :=
  ⟨by decide,
    (part_size_within_limits Monitor.gigabit ⟨1000⟩ 0 fourLowTicks 2147483648
      (by decide)).2.2.1 (by decide),
    (part_size_within_limits Monitor.gigabit ⟨1000⟩ 0 fourLowTicks 2147483648
      (by decide)).2.2.2.2.2⟩

/-! ### Claim C25: the smoothed part speed -/

theorem pushShift_sliceLast (xs : List ℚ) (x : ℚ) (n : Nat) (hn : 1 ≤ n) :
    pushShift (sliceLast xs n) x n = sliceLast (xs ++ [x]) n := by
  unfold pushShift sliceLast
  by_cases h : xs.length < n
  · have e : xs.length - n = 0 := by omega
    have e2 : (xs ++ [x]).length - n = 0 := by simp; omega
    rw [e, e2]
    simp only [List.drop_zero]
    rw [if_neg (by simp; omega)]
  · have hlen : (List.drop (xs.length - n) xs ++ [x]).length > n := by
      simp only [List.length_append, List.length_drop, List.length_singleton]
      omega
    rw [if_pos hlen]
    have e2 : (xs ++ [x]).length - n = (xs.length - n) + 1 := by simp; omega
    rw [e2, ← List.drop_drop, List.drop_one]
    congr 1
    rw [List.drop_append_of_le_length (by omega)]

theorem Monitor.speedHistoryMax_pos (m : Monitor) : 1 ≤ m.speedHistoryMax := by
  cases m <;> decide

/-- Only the smoothing step writes `avgPartSpeedHistory`. -/
theorem Monitor.body_avgPartSpeedHistory (m : Monitor) (s : MonitorState) (i : TickInput) :
    (m.body s i).1.avgPartSpeedHistory
      = pushShift s.avgPartSpeedHistory (m.avgPartSpeed i) m.speedHistoryMax := by
  cases m
  case fiber =>
    simp only [Monitor.body]
    cases hth : (fiberDecayResult i (Monitor.fiber.recentParts i) s).2.threw
    · rw [(fiberBody_of_not_threw i _ s hth).1]
      simp [fiberAfterDecay, fiberDecayResult, recordAvgPartSpeed, Monitor.avgPartSpeed,
        Monitor.speedHistoryMax]
    · rw [(fiberBody_of_threw i _ s hth).1]
      simp [fiberDecayResult, recordAvgPartSpeed, Monitor.avgPartSpeed,
        Monitor.speedHistoryMax]
  all_goals
    simp [Monitor.body, deBody, cableBody, guBody, recordAvgPartSpeed, Monitor.avgPartSpeed,
      Monitor.speedHistoryMax]

theorem Monitor.tick_avgPartSpeedHistory (m : Monitor) (s : MonitorState) (i : TickInput) :
    (m.tick s i).1.avgPartSpeedHistory
      = if (m.tick s i).2.evaluated = true then
          pushShift s.avgPartSpeedHistory (m.avgPartSpeed i) m.speedHistoryMax
        else s.avgPartSpeedHistory := by
  rcases Monitor.tick_eq_body_or_idle m s i with hb | hb | hb
  · rw [hb, if_pos (Monitor.body_evaluated m s i)]
    exact Monitor.body_avgPartSpeedHistory m s i
  · rw [hb]; rfl
  · rw [hb]; rfl

theorem Monitor.evaluatedAverages_append (m : Monitor) (inputs : List TickInput)
    (i : TickInput) : ∀ s0,
    m.evaluatedAverages s0 (inputs ++ [i])
      = m.evaluatedAverages s0 inputs
        ++ (if (m.tick (finalState m.tick s0 inputs) i).2.evaluated = true then
            [m.avgPartSpeed i] else []) := by
  induction inputs with
  | nil => intro s0; simp [Monitor.evaluatedAverages, finalState]
  | cons j rest ih =>
    intro s0
    have e := ih (m.tick s0 j).1
    change (if (m.tick s0 j).2.evaluated = true then [m.avgPartSpeed j] else [])
        ++ m.evaluatedAverages (m.tick s0 j).1 (rest ++ [i]) = _
    rw [e]
    simp [Monitor.evaluatedAverages, finalState]

/-- The history of average speeds holds the averages of the last evaluated ticks, at most
as many as its bound. -/
theorem Monitor.avgPartSpeedHistory_eq (m : Monitor) (s0 : MonitorState)
    (h0 : s0.avgPartSpeedHistory = []) (inputs : List TickInput) :
    (finalState m.tick s0 inputs).avgPartSpeedHistory
      = sliceLast (m.evaluatedAverages s0 inputs) m.speedHistoryMax := by
  induction inputs using List.reverseRecOn with
  | nil => simp [finalState, Monitor.evaluatedAverages, sliceLast, h0]
  | append_singleton inputs i ih =>
    rw [finalState_append, Monitor.tick_avgPartSpeedHistory, Monitor.evaluatedAverages_append]
    split_ifs with he
    · rw [ih, pushShift_sliceLast _ _ _ m.speedHistoryMax_pos]
    · rw [ih]; simp

/-- C25, counterexample. On the enterprise monitor, after a tick that saw four samples of
4 MB/s, a tick sees four samples of 2 MB/s: the plain mean of the speeds of the recent
samples is 2, and `smoothedPartSpeed` is 3, the mean of the two per-tick averages 4
and 2. -/
theorem enterprise_smoothed_is_not_plain_mean :
    (enterpriseTick (stateAt enterpriseTick (Monitor.enterprise.start ⟨100⟩ 0) twoScaleUps 0)
        enterpriseSlowerTick).2.evaluated = true
      ∧ (Monitor.enterprise.recentParts enterpriseSlowerTick).map (fun part => part.speed)
        = [2, 2, 2, 2]
      ∧ mean ((Monitor.enterprise.recentParts enterpriseSlowerTick).map
          (fun part => part.speed)) = 2
      ∧ Monitor.enterprise.smoothedPartSpeed
          (stateAt enterpriseTick (Monitor.enterprise.start ⟨100⟩ 0) twoScaleUps 0)
          enterpriseSlowerTick = 3
      ∧ (stateAt enterpriseTick (Monitor.enterprise.start ⟨100⟩ 0) twoScaleUps
          0).avgPartSpeedHistory = [4] := by
  decide!

/-- C25, amended. In every profile monitor, on every evaluated tick `avgPartSpeed` equals
the plain arithmetic mean of the speeds of the last k recorded samples (k = the monitor's
recent-sample window, e.g. 12 for enterprise, 5 for DSL), and `smoothedPartSpeed` equals
the plain arithmetic mean of the values `avgPartSpeed` of the most recent evaluated ticks,
this tick included, at most as many as the bound of the speed history (6 for enterprise, 4
for DSL, 5 for the others), for every sample list and every tick history of a monitor
started from its own strategy. -/
theorem smoothed_part_speed_mean (m : Monitor) (connectionInfo : ConnectionInfo)
    (createdAt : Int) (inputs : List TickInput) (i : TickInput)
    (hev : (m.tick (m.reached connectionInfo createdAt inputs) i).2.evaluated = true) :
    m.avgPartSpeed i = mean ((sliceLast i.partTimes m.window).map (fun part => part.speed))
      ∧ m.smoothedPartSpeed (m.reached connectionInfo createdAt inputs) i
        = mean (sliceLast
            (m.evaluatedAverages (m.start connectionInfo createdAt) (inputs ++ [i]))
            m.speedHistoryMax)
      ∧ (m.evaluatedAverages (m.start connectionInfo createdAt) (inputs ++ [i])).getLast?
        = some (m.avgPartSpeed i) := by
  have h0 : (m.start connectionInfo createdAt).avgPartSpeedHistory = [] := by
    cases m <;> rfl
  have hE := Monitor.evaluatedAverages_append m inputs i (m.start connectionInfo createdAt)
  have hev' : (m.tick (finalState m.tick (m.start connectionInfo createdAt) inputs) i).2.evaluated
      = true := hev
  rw [if_pos hev'] at hE
  refine ⟨?_, ?_, ?_⟩
  · simp [Monitor.avgPartSpeed, Monitor.recentParts, avgPartSpeed, mean]
  · rw [hE, ← pushShift_sliceLast _ _ _ m.speedHistoryMax_pos,
      ← Monitor.avgPartSpeedHistory_eq m _ h0 inputs]
    rfl
  · rw [hE]; simp

/-- C25, amended, on the second tick of `twoScaleUps`: both ticks average 4 MB/s, so the
smoothed speed is the mean of 4 and 4. -/
theorem smoothed_part_speed_mean_witness :
    Monitor.enterprise.smoothedPartSpeed (Monitor.enterprise.reached ⟨100⟩ 0 (twoScaleUps.take 1))
        (sampleInput 40000 (sampleParts 4 4 10000) 10000000000)
      = mean (sliceLast
          (Monitor.enterprise.evaluatedAverages (Monitor.enterprise.start ⟨100⟩ 0)
            (twoScaleUps.take 1 ++ [sampleInput 40000 (sampleParts 4 4 10000) 10000000000]))
          Monitor.enterprise.speedHistoryMax)
      ∧ Monitor.enterprise.evaluatedAverages (Monitor.enterprise.start ⟨100⟩ 0)
          (twoScaleUps.take 1 ++ [sampleInput 40000 (sampleParts 4 4 10000) 10000000000])
        = [4, 4] :=
  ⟨(smoothed_part_speed_mean Monitor.enterprise ⟨100⟩ 0 (twoScaleUps.take 1)
      (sampleInput 40000 (sampleParts 4 4 10000) 10000000000) (by decide!)).2.1,
    by decide!⟩

/-! ## The ramp logic within a tick -/

/-- A raise of the parallelism reported by the body is a raise by `Monitor.rampStep`. -/
theorem Monitor.body_rampUp (m : Monitor) (s : MonitorState) (i : TickInput)
    (h : rampUpApplied (m.body s i).2) : (m.rampStep s i).2.1 = true := by
  unfold rampUpApplied at h
  cases m
  case dsl =>
    rcases h with h | ⟨h, _⟩
    · exact h
    · cases h
  case enterprise =>
    rcases h with h | ⟨h, _⟩
    · exact h
    · cases h
  case fiber =>
    revert h
    simp only [Monitor.body, fiberBody]
    split_ifs
    · intro h
      rcases h with h | ⟨h, _⟩ <;> cases h
    · intro h
      rcases h with h | ⟨h1, h2⟩
      · cases h
      · exact (Bool.and_eq_true _ _).mpr ⟨h1, h2⟩
  all_goals
    rcases h with h | ⟨h1, h2⟩
    · cases h
    · exact (Bool.and_eq_true _ _).mpr ⟨h1, h2⟩

/-- A reduction of the parallelism by the ramp decision reported by the body is a
reduction by `Monitor.rampStep`. -/
theorem Monitor.body_rampDown (m : Monitor) (s : MonitorState) (i : TickInput)
    (h : rampDecisionLowered (m.body s i).2) : (m.rampStep s i).2.2 = true := by
  unfold rampDecisionLowered at h
  cases m
  case dsl =>
    rcases h with h | ⟨h, _⟩
    · exact h
    · cases h
  case enterprise =>
    rcases h with h | ⟨h, _⟩
    · exact h
    · cases h
  case fiber =>
    revert h
    simp only [Monitor.body, fiberBody]
    split_ifs
    · intro h
      rcases h with h | ⟨h, _⟩ <;> cases h
    · intro h
      rcases h with h | ⟨h1, h2⟩
      · cases h
      · exact (Bool.and_eq_true _ _).mpr ⟨h1, h2⟩
  all_goals
    rcases h with h | ⟨h1, h2⟩
    · cases h
    · exact (Bool.and_eq_true _ _).mpr ⟨h1, h2⟩

theorem Monitor.tick_rampUp (m : Monitor) (s : MonitorState) (i : TickInput)
    (h : rampUpApplied (m.tick s i).2) :
    m.tick s i = m.body s i ∧ (m.rampStep s i).2.1 = true := by
  rcases Monitor.tick_eq_body_or_idle m s i with hb | hb | hb
  · rw [hb] at h; exact ⟨hb, Monitor.body_rampUp m s i h⟩
  · rw [hb] at h; rcases h with h | ⟨h, _⟩ <;> cases h
  · rw [hb] at h; rcases h with h | ⟨h, _⟩ <;> cases h

theorem Monitor.tick_rampDown (m : Monitor) (s : MonitorState) (i : TickInput)
    (h : rampDecisionLowered (m.tick s i).2) :
    m.tick s i = m.body s i ∧ (m.rampStep s i).2.2 = true := by
  rcases Monitor.tick_eq_body_or_idle m s i with hb | hb | hb
  · rw [hb] at h; exact ⟨hb, Monitor.body_rampDown m s i h⟩
  · rw [hb] at h; rcases h with h | ⟨h, _⟩ <;> cases h
  · rw [hb] at h; rcases h with h | ⟨h, _⟩ <;> cases h

/-! ### The ramp-up branch of each monitor -/

theorem deScaling_up_parts (P : StallProfile) (now : Int) (sp : ℚ) (s : MonitorState)
    (h : (deScaling P now sp s).2.1 = true) :
    sp ≥ P.rampUpThreshold ∧ s.contextMaxParallel < s.maxParallelCap
      ∧ (deScaling P now sp s).1.contextMaxParallel = s.contextMaxParallel + 1
      ∧ (s.peakPerformanceDetected = false ∨ s.lockedPerformance = false) := by
  unfold deScaling at h ⊢
  split_ifs at h ⊢ with h1 h2
  exact ⟨h2.1, h2.2.1, rfl, h1⟩

theorem fiberRamp_up_parts (now : Int) (sp : ℚ) (s : MonitorState)
    (h : (fiberRamp now sp s).2.rampUp = true) :
    sp > FIBER_PROFILE.rampUpThreshold ∧ s.contextMaxParallel < s.maxParallelCap
      ∧ ¬ (s.peakPerformanceDetected = true ∧ s.contextMaxParallel ≥ s.optimalParallel)
      ∧ (fiberRamp now sp s).2.newParallel
        = min (s.contextMaxParallel + (if s.peakPerformanceDetected = true then 1 else 2))
            s.maxParallelCap := by
  unfold fiberRamp at h ⊢
  split_ifs at h ⊢ with h1 h2 h3 h4
  all_goals exact ⟨h1.1, h1.2, h2, rfl⟩

theorem cableRamp_up_parts (now : Int) (sp : ℚ) (s : MonitorState)
    (h : (cableRamp now sp s).2.rampUp = true) :
    sp > CABLE_PROFILE.rampUpThreshold ∧ s.maxParallel < s.maxParallelCap
      ∧ ¬ (s.peakPerformanceDetected = true ∧ s.maxParallel ≥ s.optimalParallel)
      ∧ (cableRamp now sp s).2.newParallel
        = min (s.maxParallel + (if s.peakPerformanceDetected = true then 1 else 2))
            s.maxParallelCap := by
  unfold cableRamp at h ⊢
  split_ifs at h ⊢ with h1 h2 h3 h4
  all_goals exact ⟨h1.1, h1.2, h2, rfl⟩

theorem guLockMode_up_parts (P : LockProfile) (T : GUTuning) (now : Int) (sp cT : ℚ)
    (s : MonitorState) (h : (guLockMode P T now sp cT s).2.rampUp = true) :
    sp > T.rampUpThreshold ∧ s.contextMaxParallel < s.maxParallelCap
      ∧ s.lockedPerformance = false
      ∧ ¬ (s.peakPerformanceDetected = true ∧ s.contextMaxParallel ≥ s.optimalParallel)
      ∧ (guLockMode P T now sp cT s).2.newParallel
        = min (s.contextMaxParallel + P.rampStep) s.maxParallelCap
      ∧ (guLockMode P T now sp cT s).1.lowSpeedSamples = 0
      ∧ (guLockMode P T now sp cT s).1.contextMaxParallel = s.contextMaxParallel := by
  unfold guLockMode at h ⊢
  split_ifs at h ⊢ with h1 h2 h3 h4 h5 h6
  exact ⟨h4.1, h4.2, by simpa using h1, h5, rfl, rfl, rfl⟩

theorem guRampDown_of_no_low (P : LockProfile) (T : GUTuning) (now : Int) (cT : ℚ)
    (d : RampDecision) (s : MonitorState) (hP : 1 ≤ P.lowSpeedSampleThreshold)
    (h : s.lowSpeedSamples = 0) : guRampDown P T now cT d s = (s, d) := by
  unfold guRampDown
  rw [if_neg]
  rw [h]
  intro hc
  omega

theorem applyAdjustment_applied (debounce now : Int) (sp : ℚ) (d : RampDecision)
    (s : MonitorState) (h : (applyAdjustment debounce now sp d s).2 = true) :
    (applyAdjustment debounce now sp d s).1.contextMaxParallel = d.newParallel
      ∧ d.shouldAdjust = true := by
  unfold applyAdjustment at h ⊢
  split_ifs at h ⊢ with h1
  exact ⟨rfl, h1.1⟩

theorem applyAdjustment_parallel_cases (debounce now : Int) (sp : ℚ) (d : RampDecision)
    (s : MonitorState) :
    (applyAdjustment debounce now sp d s).1.contextMaxParallel = s.contextMaxParallel
      ∨ (d.shouldAdjust = true
        ∧ (applyAdjustment debounce now sp d s).1.contextMaxParallel = d.newParallel) := by
  unfold applyAdjustment
  split_ifs with h1
  · exact Or.inr ⟨h1.1, rfl⟩
  · exact Or.inl rfl

theorem cableApplyAdjustment_applied (now : Int) (sp : ℚ) (d : RampDecision)
    (s : MonitorState) (h : (cableApplyAdjustment now sp d s).2 = true) :
    (cableApplyAdjustment now sp d s).1.maxParallel = d.newParallel
      ∧ d.shouldAdjust = true := by
  unfold cableApplyAdjustment at h ⊢
  split_ifs at h ⊢ with h1
  exact ⟨rfl, h1.1⟩

theorem cableApplyAdjustment_parallel_cases (now : Int) (sp : ℚ) (d : RampDecision)
    (s : MonitorState) :
    (cableApplyAdjustment now sp d s).1.maxParallel = s.maxParallel
      ∨ (d.shouldAdjust = true
        ∧ (cableApplyAdjustment now sp d s).1.maxParallel = d.newParallel) := by
  unfold cableApplyAdjustment
  split_ifs with h1
  · exact Or.inr ⟨h1.1, rfl⟩
  · exact Or.inl rfl

theorem fiberTrackLow_frame (sp : ℚ) (s : MonitorState) :
    (fiberTrackLow sp s).contextMaxParallel = s.contextMaxParallel
      ∧ (fiberTrackLow sp s).maxParallelCap = s.maxParallelCap
      ∧ (fiberTrackLow sp s).peakPerformanceDetected = s.peakPerformanceDetected
      ∧ (fiberTrackLow sp s).optimalParallel = s.optimalParallel
      ∧ (fiberTrackLow sp s).lockedPerformance = s.lockedPerformance := by
  unfold fiberTrackLow; split_ifs <;> exact ⟨rfl, rfl, rfl, rfl, rfl⟩

theorem cableTrackLow_frame (sp : ℚ) (s : MonitorState) :
    (cableTrackLow sp s).maxParallel = s.maxParallel
      ∧ (cableTrackLow sp s).maxParallelCap = s.maxParallelCap
      ∧ (cableTrackLow sp s).peakPerformanceDetected = s.peakPerformanceDetected
      ∧ (cableTrackLow sp s).optimalParallel = s.optimalParallel := by
  unfold cableTrackLow; split_ifs <;> exact ⟨rfl, rfl, rfl, rfl⟩

theorem guTrackLow_frame (T : GUTuning) (sp cT : ℚ) (s : MonitorState) :
    (guTrackLow T sp cT s).contextMaxParallel = s.contextMaxParallel
      ∧ (guTrackLow T sp cT s).maxParallelCap = s.maxParallelCap
      ∧ (guTrackLow T sp cT s).peakPerformanceDetected = s.peakPerformanceDetected
      ∧ (guTrackLow T sp cT s).optimalParallel = s.optimalParallel
      ∧ (guTrackLow T sp cT s).lockedPerformance = s.lockedPerformance := by
  unfold guTrackLow; split_ifs <;> exact ⟨rfl, rfl, rfl, rfl, rfl⟩

/-- The cap `strategy.maxParallelCap` reaches the ramp logic as the tick found it. -/
theorem Monitor.beforeRamp_maxParallelCap (m : Monitor) (s : MonitorState) (i : TickInput) :
    (m.beforeRamp s i).maxParallelCap = s.maxParallelCap := by
  cases m <;>
    simp [Monitor.beforeRamp, Monitor.thrashingGuard, Monitor.afterDecay, Monitor.beforeDecay,
      deBeforeDecay, fiberBeforeDecay, cableBeforeDecay, guBeforeDecay]

theorem fiberRampStep_up (now : Int) (sp sm : ℚ) (b : MonitorState)
    (h : ((fiberRamp now sp (fiberTrackLow sp b)).2.rampUp
      && (applyAdjustment 5000 now sm (fiberRamp now sp (fiberTrackLow sp b)).2
          (fiberRamp now sp (fiberTrackLow sp b)).1).2) = true) :
    sp > FIBER_PROFILE.rampUpThreshold ∧ b.contextMaxParallel < b.maxParallelCap
      ∧ ¬ (b.peakPerformanceDetected = true ∧ b.contextMaxParallel ≥ b.optimalParallel)
      ∧ b.contextMaxParallel
        < (applyAdjustment 5000 now sm (fiberRamp now sp (fiberTrackLow sp b)).2
            (fiberRamp now sp (fiberTrackLow sp b)).1).1.contextMaxParallel
      ∧ (applyAdjustment 5000 now sm (fiberRamp now sp (fiberTrackLow sp b)).2
            (fiberRamp now sp (fiberTrackLow sp b)).1).1.contextMaxParallel
        ≤ b.maxParallelCap := by
  obtain ⟨h1, h2⟩ := (Bool.and_eq_true _ _).mp h
  obtain ⟨p1, p2, p3, p4⟩ := fiberRamp_up_parts now sp _ h1
  obtain ⟨f1, f2, f3, f4, _⟩ := fiberTrackLow_frame sp b
  rw [(applyAdjustment_applied _ _ _ _ _ h2).1, p4]
  simp only [f1, f2, f3, f4] at p2 p3 ⊢
  refine ⟨p1, p2, p3, lt_min ?_ p2, min_le_right _ _⟩
  split_ifs <;> linarith

theorem cableRampStep_up (now : Int) (sp sm : ℚ) (b : MonitorState)
    (h : ((cableRamp now sp (cableTrackLow sp (cableTrackLow sp b))).2.rampUp
      && (cableApplyAdjustment now sm (cableRamp now sp (cableTrackLow sp (cableTrackLow sp b))).2
          (cableRamp now sp (cableTrackLow sp (cableTrackLow sp b))).1).2) = true) :
    sp > CABLE_PROFILE.rampUpThreshold ∧ b.maxParallel < b.maxParallelCap
      ∧ ¬ (b.peakPerformanceDetected = true ∧ b.maxParallel ≥ b.optimalParallel)
      ∧ b.maxParallel
        < (cableApplyAdjustment now sm
            (cableRamp now sp (cableTrackLow sp (cableTrackLow sp b))).2
            (cableRamp now sp (cableTrackLow sp (cableTrackLow sp b))).1).1.maxParallel
      ∧ (cableApplyAdjustment now sm
            (cableRamp now sp (cableTrackLow sp (cableTrackLow sp b))).2
            (cableRamp now sp (cableTrackLow sp (cableTrackLow sp b))).1).1.maxParallel
        ≤ b.maxParallelCap := by
  obtain ⟨h1, h2⟩ := (Bool.and_eq_true _ _).mp h
  obtain ⟨p1, p2, p3, p4⟩ := cableRamp_up_parts now sp _ h1
  obtain ⟨f1, f2, f3, f4⟩ := cableTrackLow_frame sp (cableTrackLow sp b)
  obtain ⟨g1, g2, g3, g4⟩ := cableTrackLow_frame sp b
  rw [(cableApplyAdjustment_applied _ _ _ _ h2).1, p4]
  simp only [f1, f2, f3, f4, g1, g2, g3, g4] at p2 p3 ⊢
  refine ⟨p1, p2, p3, lt_min ?_ p2, min_le_right _ _⟩
  split_ifs <;> linarith

theorem guRampStep_up (P : LockProfile) (T : GUTuning) (now : Int) (sp cT sm : ℚ)
    (b : MonitorState) (hP : 1 ≤ P.lowSpeedSampleThreshold) (hstep : 0 < P.rampStep)
    (h : ((guRampDown P T now cT (guLockMode P T now sp cT (guTrackLow T sp cT b)).2
        (guLockMode P T now sp cT (guTrackLow T sp cT b)).1).2.rampUp
      && (applyAdjustment T.debounce now sm
          (guRampDown P T now cT (guLockMode P T now sp cT (guTrackLow T sp cT b)).2
            (guLockMode P T now sp cT (guTrackLow T sp cT b)).1).2
          (guRampDown P T now cT (guLockMode P T now sp cT (guTrackLow T sp cT b)).2
            (guLockMode P T now sp cT (guTrackLow T sp cT b)).1).1).2) = true) :
    sp > T.rampUpThreshold ∧ b.contextMaxParallel < b.maxParallelCap
      ∧ ¬ (b.peakPerformanceDetected = true ∧ b.contextMaxParallel ≥ b.optimalParallel)
      ∧ b.lockedPerformance = false
      ∧ b.contextMaxParallel
        < (applyAdjustment T.debounce now sm
          (guRampDown P T now cT (guLockMode P T now sp cT (guTrackLow T sp cT b)).2
            (guLockMode P T now sp cT (guTrackLow T sp cT b)).1).2
          (guRampDown P T now cT (guLockMode P T now sp cT (guTrackLow T sp cT b)).2
            (guLockMode P T now sp cT (guTrackLow T sp cT b)).1).1).1.contextMaxParallel
      ∧ (applyAdjustment T.debounce now sm
          (guRampDown P T now cT (guLockMode P T now sp cT (guTrackLow T sp cT b)).2
            (guLockMode P T now sp cT (guTrackLow T sp cT b)).1).2
          (guRampDown P T now cT (guLockMode P T now sp cT (guTrackLow T sp cT b)).2
            (guLockMode P T now sp cT (guTrackLow T sp cT b)).1).1).1.contextMaxParallel
        ≤ b.maxParallelCap := by
  obtain ⟨h1, h2⟩ := (Bool.and_eq_true _ _).mp h
  rw [guRampDown_rampUp] at h1
  obtain ⟨p1, p2, p3, p4, p5, p6, _⟩ := guLockMode_up_parts P T now sp cT _ h1
  have e := guRampDown_of_no_low P T now cT
    (guLockMode P T now sp cT (guTrackLow T sp cT b)).2
    (guLockMode P T now sp cT (guTrackLow T sp cT b)).1 hP p6
  rw [e] at h2 ⊢
  obtain ⟨f1, f2, f3, f4, f5⟩ := guTrackLow_frame T sp cT b
  rw [(applyAdjustment_applied _ _ _ _ _ h2).1, p5]
  simp only [f1, f2, f3, f4, f5] at p2 p3 p4 ⊢
  exact ⟨p1, p2, p4, p3, lt_min (by linarith) p2, min_le_right _ _⟩

/-- A raise of the parallelism by the ramp logic: what it takes and what it gives. -/
theorem Monitor.rampStep_up (m : Monitor) (s : MonitorState) (i : TickInput)
    (h : (m.rampStep s i).2.1 = true) : RampUpFacts m s i := by
  have hcap := Monitor.beforeRamp_maxParallelCap m s i
  cases m
  case dsl =>
    obtain ⟨p1, p2, p3, p4⟩ := deScaling_up_parts _ _ _ _ h
    rw [hcap] at p2
    refine ⟨p1, p2, ?_, fun hne => absurd rfl hne, fun _ => p3, fun hne => absurd rfl hne,
      fun _ => p4⟩
    change (Monitor.dsl.beforeRamp s i).contextMaxParallel
      < (deScaling DSL_PROFILE i.now _ _).1.contextMaxParallel
    rw [p3]; linarith
  case enterprise =>
    obtain ⟨p1, p2, p3, p4⟩ := deScaling_up_parts _ _ _ _ h
    rw [hcap] at p2
    refine ⟨p1, p2, ?_, fun _ hne => absurd rfl hne, fun _ => p3, fun _ hne => absurd rfl hne,
      fun _ => p4⟩
    change (Monitor.enterprise.beforeRamp s i).contextMaxParallel
      < (deScaling ENTERPRISE_PROFILE i.now _ _).1.contextMaxParallel
    rw [p3]; linarith
  case fiber =>
    obtain ⟨p1, p2, p3, p4, p5⟩ := fiberRampStep_up _ _ _ _ h
    rw [hcap] at p2 p5
    exact ⟨p1, p2, p4, fun _ _ => p5,
      fun hm => hm.elim (fun e => Monitor.noConfusion e) (fun e => Monitor.noConfusion e),
      fun _ _ => p3,
      fun hm => hm.elim (fun e => Monitor.noConfusion e) (fun e => Monitor.noConfusion e)⟩
  case cable =>
    obtain ⟨p1, p2, p3, p4, p5⟩ := cableRampStep_up _ _ _ _ h
    rw [hcap] at p2 p5
    exact ⟨p1, p2, p4, fun _ _ => p5,
      fun hm => hm.elim (fun e => Monitor.noConfusion e) (fun e => Monitor.noConfusion e),
      fun _ _ => p3,
      fun hm => hm.elim (fun e => Monitor.noConfusion e) (fun e => Monitor.noConfusion e)⟩
  case gigabit =>
    obtain ⟨p1, p2, p3, _, p4, p5⟩ :=
      guRampStep_up GIGABIT_PROFILE gigabitTuning _ _ _ _ _ (by decide) (by decide!) h
    rw [hcap] at p2 p5
    exact ⟨p1, p2, p4, fun _ _ => p5,
      fun hm => hm.elim (fun e => Monitor.noConfusion e) (fun e => Monitor.noConfusion e),
      fun _ _ => p3,
      fun hm => hm.elim (fun e => Monitor.noConfusion e) (fun e => Monitor.noConfusion e)⟩
  case ultra =>
    obtain ⟨p1, p2, p3, _, p4, p5⟩ :=
      guRampStep_up ULTRA_PROFILE ultraTuning _ _ _ _ _ (by decide) (by decide!) h
    rw [hcap] at p2 p5
    exact ⟨p1, p2, p4, fun _ _ => p5,
      fun hm => hm.elim (fun e => Monitor.noConfusion e) (fun e => Monitor.noConfusion e),
      fun _ _ => p3,
      fun hm => hm.elim (fun e => Monitor.noConfusion e) (fun e => Monitor.noConfusion e)⟩

/-! ### Claim C26: when the ramp decision raises the parallelism -/

theorem isWhole_add_one_le (a b : ℚ) (ha : isWhole a) (hb : isWhole b) (h : a < b) :
    a + 1 ≤ b := by
  unfold isWhole at ha hb
  rw [← (Rat.den_eq_one_iff a).mp ha, ← (Rat.den_eq_one_iff b).mp hb] at h ⊢
  have h' : a.num < b.num := by exact_mod_cast h
  exact_mod_cast Int.add_one_le_iff.mpr h'

/-- In every monitor but ultra the ramp-up test bounds `smoothedPartSpeed` from below by
the table's `rampUpThreshold`; in gigabit.js the local constant 25 is above the table's
15. -/
theorem Monitor.rampUpTest_profile (m : Monitor) (s : MonitorState) (i : TickInput)
    (hm : m ≠ Monitor.ultra) (h : m.rampUpTest s i) :
    m.smoothedPartSpeed s i ≥ m.profile.rampUpThreshold := by
  cases m
  case ultra => exact absurd rfl hm
  case dsl => exact h
  case enterprise => exact h
  case cable => exact le_of_lt h
  case fiber => exact le_of_lt h
  case gigabit =>
    have h' : Monitor.gigabit.smoothedPartSpeed s i > gigabitTuning.rampUpThreshold := h
    have e : Monitor.gigabit.profile.rampUpThreshold ≤ gigabitTuning.rampUpThreshold := by
      decide!
    exact le_trans e (le_of_lt h')

/-- C26, counterexample. On the ultra monitor the first tick of `ultraRampTicks` unlocks
the assumed peak; on the second tick the ramp decision raises the parallelism from 18 to
22 although `smoothedPartSpeed` is 1 MB/s, below `ULTRA_PROFILE.rampUpThreshold = 4.0`:
ultra.js compares `avgPartSpeedMbps = 12` with its local constant `rampUpThreshold = 8.0`. -/
theorem ultra_ramps_up_below_threshold :
    rampUpApplied (ultraTick (stateAt ultraTick (Monitor.ultra.start ⟨2000⟩ 0) ultraRampTicks 0)
        ultraRampTick).2
      ∧ Monitor.ultra.smoothedPartSpeed
          (stateAt ultraTick (Monitor.ultra.start ⟨2000⟩ 0) ultraRampTicks 0) ultraRampTick = 1
      ∧ ULTRA_PROFILE.rampUpThreshold = 4
      ∧ ¬ (Monitor.ultra.smoothedPartSpeed
          (stateAt ultraTick (Monitor.ultra.start ⟨2000⟩ 0) ultraRampTicks 0) ultraRampTick
        ≥ Monitor.ultra.profile.rampUpThreshold)
      ∧ Monitor.ultra.avgPartSpeed ultraRampTick * 8 = 12
      ∧ Monitor.ultra.parallelism
          (stateAt ultraTick (Monitor.ultra.start ⟨2000⟩ 0) ultraRampTicks 0) = 18
      ∧ Monitor.ultra.parallelism
          (stateAt ultraTick (Monitor.ultra.start ⟨2000⟩ 0) ultraRampTicks 1) = 22 := by
  decide!

/-- C26, amended. In every profile monitor, the ramp decision increases parallelism on a
tick only if the monitor's ramp-up test holds on that tick, and only if parallelism before
the step is below `strategy.maxParallelCap`. In DSL, enterprise, cable, fiber and gigabit
the test implies that `smoothedPartSpeed` is at least the profile's own `rampUpThreshold`
(gigabit.js uses its local constant 25, above the table's 15); in ultra the test is
`avgPartSpeedMbps > 8` (8 x the mean speed of the tick's recent samples against the local
constant of ultra.js), whatever `smoothedPartSpeed` is. In cable, fiber, gigabit and ultra
the result never exceeds the cap; in DSL and enterprise the result is the parallelism plus
one, which does not exceed the cap when the parallelism before the step and the cap are
whole numbers. -/
theorem ramp_up_conditions (m : Monitor) (s : MonitorState) (i : TickInput)
    (h : rampUpApplied (m.tick s i).2) :
    m.rampUpTest s i
      ∧ (m ≠ Monitor.ultra → m.smoothedPartSpeed s i ≥ m.profile.rampUpThreshold)
      ∧ (m = Monitor.ultra → m.avgPartSpeed i * 8 > 8)
      ∧ m.parallelism (m.beforeRamp s i) < s.maxParallelCap
      ∧ m.parallelism (m.beforeRamp s i) < m.parallelism (m.afterRamp s i)
      ∧ (m ≠ Monitor.dsl → m ≠ Monitor.enterprise →
          m.parallelism (m.afterRamp s i) ≤ s.maxParallelCap)
      ∧ (m = Monitor.dsl ∨ m = Monitor.enterprise →
          m.parallelism (m.afterRamp s i) = m.parallelism (m.beforeRamp s i) + 1)
      ∧ (isWhole (m.parallelism (m.beforeRamp s i)) → isWhole s.maxParallelCap →
          m.parallelism (m.afterRamp s i) ≤ s.maxParallelCap) := by
  have f := Monitor.rampStep_up m s i (Monitor.tick_rampUp m s i h).2
  refine ⟨f.test, fun hm => Monitor.rampUpTest_profile m s i hm f.test, ?_, f.belowCap,
    f.raised, f.capped, f.byOne, ?_⟩
  · intro hm
    subst hm
    have h8 : ultraTuning.rampUpThreshold = 8 := by decide!
    have ht : Monitor.ultra.avgPartSpeed i * 8 > ultraTuning.rampUpThreshold := f.test
    rw [h8] at ht
    exact ht
  · intro hw hc
    by_cases hde : m = Monitor.dsl ∨ m = Monitor.enterprise
    · rw [f.byOne hde]
      exact isWhole_add_one_le _ _ hw hc f.belowCap
    · exact f.capped (fun e => hde (Or.inl e)) (fun e => hde (Or.inr e))

/-- C26, amended, on the second tick of `twoScaleUps`: the enterprise monitor scales up
from 7 to 8 at a smoothed speed of 4 MB/s. -/
theorem ramp_up_conditions_witness :
    rampUpApplied (Monitor.enterprise.tick
        (stateAt enterpriseTick (Monitor.enterprise.start ⟨100⟩ 0) twoScaleUps 0)
        (sampleInput 40000 (sampleParts 4 4 10000) 10000000000)).2
      ∧ Monitor.enterprise.smoothedPartSpeed
          (stateAt enterpriseTick (Monitor.enterprise.start ⟨100⟩ 0) twoScaleUps 0)
          (sampleInput 40000 (sampleParts 4 4 10000) 10000000000)
        ≥ Monitor.enterprise.profile.rampUpThreshold
      ∧ Monitor.enterprise.parallelism (Monitor.enterprise.afterRamp
          (stateAt enterpriseTick (Monitor.enterprise.start ⟨100⟩ 0) twoScaleUps 0)
          (sampleInput 40000 (sampleParts 4 4 10000) 10000000000))
        ≤ (stateAt enterpriseTick (Monitor.enterprise.start ⟨100⟩ 0) twoScaleUps
            0).maxParallelCap :=
  ⟨by decide!,
    (ramp_up_conditions Monitor.enterprise
      (stateAt enterpriseTick (Monitor.enterprise.start ⟨100⟩ 0) twoScaleUps 0)
      (sampleInput 40000 (sampleParts 4 4 10000) 10000000000) (by decide!)).2.1 (by decide),
    (ramp_up_conditions Monitor.enterprise
      (stateAt enterpriseTick (Monitor.enterprise.start ⟨100⟩ 0) twoScaleUps 0)
      (sampleInput 40000 (sampleParts 4 4 10000) 10000000000) (by decide!)).2.2.2.2.2.2.2
      (by decide!) (by decide!)⟩

/-! ### Claim C27: no ramp-up at or beyond the sweet spot -/

theorem fiberRamp_sweet (now : Int) (sp : ℚ) (s : MonitorState)
    (h : s.peakPerformanceDetected = true ∧ s.contextMaxParallel ≥ s.optimalParallel) :
    (fiberRamp now sp s).2.newParallel ≤ s.contextMaxParallel := by
  unfold fiberRamp
  by_cases h1 : sp > FIBER_PROFILE.rampUpThreshold ∧ s.contextMaxParallel < s.maxParallelCap
  · rw [if_pos h1, if_pos h]
  · rw [if_neg h1]
    split_ifs with h2
    · exact max_le (by linarith) (le_of_lt h2.2.1)
    · exact le_refl _

theorem cableRamp_sweet (now : Int) (sp : ℚ) (s : MonitorState)
    (h : s.peakPerformanceDetected = true ∧ s.maxParallel ≥ s.optimalParallel) :
    (cableRamp now sp s).2.newParallel ≤ s.maxParallel := by
  unfold cableRamp
  by_cases h1 : sp > CABLE_PROFILE.rampUpThreshold ∧ s.maxParallel < s.maxParallelCap
  · rw [if_pos h1, if_pos h]
  · rw [if_neg h1]
    split_ifs with h2
    · exact max_le (by linarith) (le_of_lt h2.2.1)
    · exact le_refl _

theorem guLockMode_sweet (P : LockProfile) (T : GUTuning) (now : Int) (sp cT : ℚ)
    (s : MonitorState)
    (h : s.peakPerformanceDetected = true ∧ s.contextMaxParallel ≥ s.optimalParallel) :
    (guLockMode P T now sp cT s).2.newParallel = s.contextMaxParallel := by
  unfold guLockMode
  split_ifs
  all_goals rfl

theorem guRampDown_newParallel_le (P : LockProfile) (T : GUTuning) (now : Int) (cT : ℚ)
    (d : RampDecision) (s : MonitorState) (hstep : 0 ≤ T.rampDownStep)
    (hd : d.newParallel ≤ s.contextMaxParallel) :
    (guRampDown P T now cT d s).2.newParallel ≤ s.contextMaxParallel := by
  unfold guRampDown
  by_cases h1 : s.lowSpeedSamples ≥ P.lowSpeedSampleThreshold
      ∧ s.contextMaxParallel > P.minParallel ∧ now - s.lastScaleDown ≥ P.scaleDownCooldown
  · rw [if_pos h1]
    split_ifs
    all_goals first
      | exact hd
      | exact max_le (by linarith) (le_of_lt h1.2.1)
  · rw [if_neg h1]
    exact hd

theorem deScaling_locked (P : StallProfile) (now : Int) (sp : ℚ) (s : MonitorState)
    (h : s.peakPerformanceDetected = true ∧ s.lockedPerformance = true) :
    deScaling P now sp s = (s, false, false) := by
  unfold deScaling
  rw [if_neg]
  rw [h.1, h.2]
  simp

/-- With the peak detected and the parallelism at or beyond the optimum, the ramp logic of
cable, fiber, gigabit and ultra leaves the parallelism as it is or lowers it. -/
theorem Monitor.rampStep_sweet (m : Monitor) (s : MonitorState) (i : TickInput)
    (hd : m ≠ Monitor.dsl) (he : m ≠ Monitor.enterprise)
    (hpeak : (m.beforeRamp s i).peakPerformanceDetected = true)
    (hopt : m.parallelism (m.beforeRamp s i) ≥ (m.beforeRamp s i).optimalParallel) :
    m.parallelism (m.afterRamp s i) ≤ m.parallelism (m.beforeRamp s i) := by
  cases m
  case dsl => exact absurd rfl hd
  case enterprise => exact absurd rfl he
  case fiber =>
    change (Monitor.fiber.beforeRamp s i).contextMaxParallel ≥ _ at hopt
    change (Monitor.fiber.afterRamp s i).contextMaxParallel
      ≤ (Monitor.fiber.beforeRamp s i).contextMaxParallel
    obtain ⟨f1, f2, f3, f4, _⟩ := fiberTrackLow_frame (Monitor.fiber.rampSpeed s i)
      (Monitor.fiber.beforeRamp s i)
    have hr := fiberRamp_sweet i.now (Monitor.fiber.rampSpeed s i)
      (fiberTrackLow (Monitor.fiber.rampSpeed s i) (Monitor.fiber.beforeRamp s i))
      (by rw [f1, f3, f4]; exact ⟨hpeak, hopt⟩)
    rw [f1] at hr
    exact applyAdjustment_parallel_le _ _ _ _ _ _ (by simp) hr
  case cable =>
    change (Monitor.cable.beforeRamp s i).maxParallel ≥ _ at hopt
    change (Monitor.cable.afterRamp s i).maxParallel
      ≤ (Monitor.cable.beforeRamp s i).maxParallel
    obtain ⟨g1, g2, g3, g4⟩ := cableTrackLow_frame (Monitor.cable.rampSpeed s i)
      (Monitor.cable.beforeRamp s i)
    obtain ⟨f1, f2, f3, f4⟩ := cableTrackLow_frame (Monitor.cable.rampSpeed s i)
      (cableTrackLow (Monitor.cable.rampSpeed s i) (Monitor.cable.beforeRamp s i))
    have hr := cableRamp_sweet i.now (Monitor.cable.rampSpeed s i)
      (cableTrackLow (Monitor.cable.rampSpeed s i)
        (cableTrackLow (Monitor.cable.rampSpeed s i) (Monitor.cable.beforeRamp s i)))
      (by rw [f1, f3, f4, g1, g3, g4]; exact ⟨hpeak, hopt⟩)
    rw [f1, g1] at hr
    rcases cableApplyAdjustment_parallel_cases i.now (Monitor.cable.smoothedPartSpeed s i)
      (cableRamp i.now (Monitor.cable.rampSpeed s i)
        (cableTrackLow (Monitor.cable.rampSpeed s i)
          (cableTrackLow (Monitor.cable.rampSpeed s i) (Monitor.cable.beforeRamp s i)))).2
      (cableRamp i.now (Monitor.cable.rampSpeed s i)
        (cableTrackLow (Monitor.cable.rampSpeed s i)
          (cableTrackLow (Monitor.cable.rampSpeed s i) (Monitor.cable.beforeRamp s i)))).1
      with hc | ⟨_, hc⟩
    · refine le_of_eq (hc.trans ?_)
      rw [cableRamp_maxParallel, f1, g1]
    · exact le_of_eq_of_le hc hr
  case gigabit =>
    change (Monitor.gigabit.beforeRamp s i).contextMaxParallel ≥ _ at hopt
    change (Monitor.gigabit.afterRamp s i).contextMaxParallel
      ≤ (Monitor.gigabit.beforeRamp s i).contextMaxParallel
    obtain ⟨f1, f2, f3, f4, _⟩ := guTrackLow_frame gigabitTuning
      (Monitor.gigabit.rampSpeed s i) (Monitor.gigabit.currentThroughput i)
      (Monitor.gigabit.beforeRamp s i)
    have hl := guLockMode_sweet GIGABIT_PROFILE gigabitTuning i.now
      (Monitor.gigabit.rampSpeed s i) (Monitor.gigabit.currentThroughput i)
      (guTrackLow gigabitTuning (Monitor.gigabit.rampSpeed s i)
        (Monitor.gigabit.currentThroughput i) (Monitor.gigabit.beforeRamp s i))
      (by rw [f1, f3, f4]; exact ⟨hpeak, hopt⟩)
    have hr := guRampDown_newParallel_le GIGABIT_PROFILE gigabitTuning i.now
      (Monitor.gigabit.currentThroughput i)
      (guLockMode GIGABIT_PROFILE gigabitTuning i.now (Monitor.gigabit.rampSpeed s i)
        (Monitor.gigabit.currentThroughput i)
        (guTrackLow gigabitTuning (Monitor.gigabit.rampSpeed s i)
          (Monitor.gigabit.currentThroughput i) (Monitor.gigabit.beforeRamp s i))).2
      (guLockMode GIGABIT_PROFILE gigabitTuning i.now (Monitor.gigabit.rampSpeed s i)
        (Monitor.gigabit.currentThroughput i)
        (guTrackLow gigabitTuning (Monitor.gigabit.rampSpeed s i)
          (Monitor.gigabit.currentThroughput i) (Monitor.gigabit.beforeRamp s i))).1
      (by decide!) (by rw [hl, guLockMode_contextMaxParallel])
    rw [guLockMode_contextMaxParallel, f1] at hr
    exact applyAdjustment_parallel_le _ _ _ _ _ _ (by simp) hr
  case ultra =>
    change (Monitor.ultra.beforeRamp s i).contextMaxParallel ≥ _ at hopt
    change (Monitor.ultra.afterRamp s i).contextMaxParallel
      ≤ (Monitor.ultra.beforeRamp s i).contextMaxParallel
    obtain ⟨f1, f2, f3, f4, _⟩ := guTrackLow_frame ultraTuning
      (Monitor.ultra.rampSpeed s i) (Monitor.ultra.currentThroughput i)
      (Monitor.ultra.beforeRamp s i)
    have hl := guLockMode_sweet ULTRA_PROFILE ultraTuning i.now
      (Monitor.ultra.rampSpeed s i) (Monitor.ultra.currentThroughput i)
      (guTrackLow ultraTuning (Monitor.ultra.rampSpeed s i)
        (Monitor.ultra.currentThroughput i) (Monitor.ultra.beforeRamp s i))
      (by rw [f1, f3, f4]; exact ⟨hpeak, hopt⟩)
    have hr := guRampDown_newParallel_le ULTRA_PROFILE ultraTuning i.now
      (Monitor.ultra.currentThroughput i)
      (guLockMode ULTRA_PROFILE ultraTuning i.now (Monitor.ultra.rampSpeed s i)
        (Monitor.ultra.currentThroughput i)
        (guTrackLow ultraTuning (Monitor.ultra.rampSpeed s i)
          (Monitor.ultra.currentThroughput i) (Monitor.ultra.beforeRamp s i))).2
      (guLockMode ULTRA_PROFILE ultraTuning i.now (Monitor.ultra.rampSpeed s i)
        (Monitor.ultra.currentThroughput i)
        (guTrackLow ultraTuning (Monitor.ultra.rampSpeed s i)
          (Monitor.ultra.currentThroughput i) (Monitor.ultra.beforeRamp s i))).1
      (by decide!) (by rw [hl, guLockMode_contextMaxParallel])
    rw [guLockMode_contextMaxParallel, f1] at hr
    exact applyAdjustment_parallel_le _ _ _ _ _ _ (by simp) hr

/-- With the peak detected and locked, the scaling block of dsl.js and enterprise.js is
skipped. -/
theorem Monitor.rampStep_locked (m : Monitor) (s : MonitorState) (i : TickInput)
    (hm : m = Monitor.dsl ∨ m = Monitor.enterprise)
    (hpeak : (m.beforeRamp s i).peakPerformanceDetected = true)
    (hlock : (m.beforeRamp s i).lockedPerformance = true) :
    m.afterRamp s i = m.beforeRamp s i := by
  rcases hm with rfl | rfl
  · exact congrArg Prod.fst (deScaling_locked DSL_PROFILE i.now _ _ ⟨hpeak, hlock⟩)
  · exact congrArg Prod.fst (deScaling_locked ENTERPRISE_PROFILE i.now _ _ ⟨hpeak, hlock⟩)

/-- C27, counterexample. On the first tick of `enterpriseStrongTicks` the enterprise
monitor detects its peak at parallelism 6, so `optimalParallel = 6`; at the ramp step of
the same tick the peak is detected, the parallelism 6 is at the optimum, and the block
"SCALE UP" raises the parallelism to 7: enterprise.js tests `!peakPerformanceDetected ||
!lockedPerformance` and does not compare with `optimalParallel`. -/
theorem enterprise_scales_up_at_sweet_spot :
    (Monitor.enterprise.beforeRamp (Monitor.enterprise.start ⟨100⟩ 0)
        enterprisePeakTick).peakPerformanceDetected = true
      ∧ (Monitor.enterprise.beforeRamp (Monitor.enterprise.start ⟨100⟩ 0)
        enterprisePeakTick).optimalParallel = 6
      ∧ Monitor.enterprise.parallelism (Monitor.enterprise.beforeRamp
          (Monitor.enterprise.start ⟨100⟩ 0) enterprisePeakTick) = 6
      ∧ (Monitor.enterprise.beforeRamp (Monitor.enterprise.start ⟨100⟩ 0)
        enterprisePeakTick).lockedPerformance = false
      ∧ rampUpApplied (Monitor.enterprise.tick (Monitor.enterprise.start ⟨100⟩ 0)
          enterprisePeakTick).2
      ∧ Monitor.enterprise.parallelism (Monitor.enterprise.afterRamp
          (Monitor.enterprise.start ⟨100⟩ 0) enterprisePeakTick) = 7
      ∧ Monitor.enterprise.parallelism
          (Monitor.enterprise.tick (Monitor.enterprise.start ⟨100⟩ 0) enterprisePeakTick).1
        = 7 := by
  decide!

/-- C27, amended. In the cable, fiber, gigabit and ultra monitors, while a peak is detected
the ramp decision does not ramp up at or beyond the sweet spot: on any tick where
`peakPerformanceDetected` is true at the ramp step and the current parallelism is greater
than or equal to `optimalParallel`, the ramp decision does not increase parallelism. In
the DSL and enterprise monitors the ramp decision does not increase parallelism (it is
skipped) on any tick where `peakPerformanceDetected` and `lockedPerformance` are both true
at the ramp step; these two monitors do not compare the parallelism with
`optimalParallel`. -/
theorem no_ramp_up_beyond_sweet_spot (m : Monitor) (s : MonitorState) (i : TickInput)
    (hpeak : (m.beforeRamp s i).peakPerformanceDetected = true) :
    (m ≠ Monitor.dsl → m ≠ Monitor.enterprise →
        m.parallelism (m.beforeRamp s i) ≥ (m.beforeRamp s i).optimalParallel →
          ¬ rampUpApplied (m.tick s i).2
            ∧ m.parallelism (m.afterRamp s i) ≤ m.parallelism (m.beforeRamp s i))
      ∧ (m = Monitor.dsl ∨ m = Monitor.enterprise →
        (m.beforeRamp s i).lockedPerformance = true →
          ¬ rampUpApplied (m.tick s i).2 ∧ m.afterRamp s i = m.beforeRamp s i) := by
  constructor
  · intro hd he hopt
    refine ⟨fun hup => ?_, Monitor.rampStep_sweet m s i hd he hpeak hopt⟩
    exact (Monitor.rampStep_up m s i (Monitor.tick_rampUp m s i hup).2).sweetSpot hd he
      ⟨hpeak, hopt⟩
  · intro hm hlock
    refine ⟨fun hup => ?_, Monitor.rampStep_locked m s i hm hpeak hlock⟩
    rcases (Monitor.rampStep_up m s i (Monitor.tick_rampUp m s i hup).2).unlocked hm
      with h | h
    · rw [hpeak] at h; cases h
    · rw [hlock] at h; cases h

/-- C27, amended, on the third tick of `fiberScenarioA`: the fiber monitor has its peak
detected at parallelism 8 and does not ramp up. -/
theorem no_ramp_up_beyond_sweet_spot_witness :
    (Monitor.fiber.beforeRamp (stateAt fiberTick (Monitor.fiber.start ⟨300⟩ 0) fiberScenarioA 1)
        (sampleInput 9000 (sampleParts 10 6 1000) 500000000)).peakPerformanceDetected = true
      ∧ ¬ rampUpApplied (Monitor.fiber.tick
          (stateAt fiberTick (Monitor.fiber.start ⟨300⟩ 0) fiberScenarioA 1)
          (sampleInput 9000 (sampleParts 10 6 1000) 500000000)).2 :=
  ⟨by decide!,
    ((no_ramp_up_beyond_sweet_spot Monitor.fiber
      (stateAt fiberTick (Monitor.fiber.start ⟨300⟩ 0) fiberScenarioA 1)
      (sampleInput 9000 (sampleParts 10 6 1000) 500000000) (by decide!)).1
      (by decide) (by decide) (by decide!)).1⟩

/-! ### Claim C28: how many low ticks precede a ramp-down -/

/-- Nothing before the ramp logic writes `lowSpeedSamples`. -/
theorem Monitor.beforeRamp_lowSpeedSamples (m : Monitor) (s : MonitorState) (i : TickInput) :
    (m.beforeRamp s i).lowSpeedSamples = s.lowSpeedSamples := by
  cases m <;>
    simp [Monitor.beforeRamp, Monitor.thrashingGuard, Monitor.afterDecay, Monitor.beforeDecay,
      deBeforeDecay, fiberBeforeDecay, cableBeforeDecay, guBeforeDecay]

theorem deScaling_down_parts (P : StallProfile) (now : Int) (sp : ℚ) (s : MonitorState)
    (h : (deScaling P now sp s).2.2 = true) :
    sp ≤ P.rampDownThreshold ∧ P.lowSpeedSampleThreshold ≤ s.lowSpeedSamples + 1 := by
  unfold deScaling at h
  split_ifs at h with h1 h2 h3 h4
  exact ⟨h3, h4.1⟩

theorem fiberTrackLow_count (sp : ℚ) (s : MonitorState) :
    (fiberTrackLow sp s).lowSpeedSamples
      = if sp < FIBER_PROFILE.rampDownThreshold then s.lowSpeedSamples + 1 else 0 := by
  unfold fiberTrackLow; split_ifs <;> rfl

theorem cableTrackLow_count (sp : ℚ) (s : MonitorState) :
    (cableTrackLow sp s).lowSpeedSamples
      = if sp < CABLE_PROFILE.rampDownThreshold then s.lowSpeedSamples + 1 else 0 := by
  unfold cableTrackLow; split_ifs <;> rfl

theorem guTrackLow_count (T : GUTuning) (sp cT : ℚ) (s : MonitorState) :
    (guTrackLow T sp cT s).lowSpeedSamples
      = if sp < T.rampDownThreshold ∧ cT < T.lowTotalMbps then s.lowSpeedSamples + 1
        else 0 := by
  unfold guTrackLow; split_ifs <;> rfl

theorem fiberRamp_count_cases (now : Int) (sp : ℚ) (s : MonitorState) :
    (fiberRamp now sp s).1.lowSpeedSamples = s.lowSpeedSamples
      ∨ (fiberRamp now sp s).1.lowSpeedSamples = 0 := by
  unfold fiberRamp; split_ifs <;> simp

theorem fiberRamp_down_parts (now : Int) (sp : ℚ) (s : MonitorState)
    (h : (fiberRamp now sp s).2.rampDown = true) :
    FIBER_PROFILE.lowSpeedSampleThreshold ≤ s.lowSpeedSamples := by
  unfold fiberRamp at h
  split_ifs at h
  exact (by assumption : s.lowSpeedSamples ≥ FIBER_PROFILE.lowSpeedSampleThreshold ∧ _).1

theorem cableRamp_down_parts (now : Int) (sp : ℚ) (s : MonitorState)
    (h : (cableRamp now sp s).2.rampDown = true) :
    CABLE_PROFILE.lowSpeedSampleThreshold ≤ s.lowSpeedSamples := by
  unfold cableRamp at h
  split_ifs at h
  exact (by assumption : s.lowSpeedSamples ≥ CABLE_PROFILE.lowSpeedSampleThreshold ∧ _).1

theorem guLockMode_count_cases (P : LockProfile) (T : GUTuning) (now : Int) (sp cT : ℚ)
    (s : MonitorState) :
    (guLockMode P T now sp cT s).1.lowSpeedSamples = s.lowSpeedSamples
      ∨ (guLockMode P T now sp cT s).1.lowSpeedSamples = 0 := by
  unfold guLockMode; split_ifs <;> simp

theorem guRampDown_count_cases (P : LockProfile) (T : GUTuning) (now : Int) (cT : ℚ)
    (d : RampDecision) (s : MonitorState) :
    (guRampDown P T now cT d s).1.lowSpeedSamples = s.lowSpeedSamples
      ∨ (guRampDown P T now cT d s).1.lowSpeedSamples = 0 := by
  unfold guRampDown; split_ifs <;> simp

theorem guRampDown_down_parts (P : LockProfile) (T : GUTuning) (now : Int) (cT : ℚ)
    (d : RampDecision) (s : MonitorState) (hd : d.rampDown = false)
    (h : (guRampDown P T now cT d s).2.rampDown = true) :
    P.lowSpeedSampleThreshold ≤ s.lowSpeedSamples := by
  unfold guRampDown at h
  split_ifs at h with h1 h2 h3
  · exact h1.1
  · exact h1.1
  · rw [hd] at h; cases h
  · rw [hd] at h; cases h

/-- The low-speed counter after a tick of the fiber, gigabit or ultra monitor: a tick on
which the ramp logic ran leaves at most one more than before when the low-speed test
holds and 0 when it does not; any other tick leaves the counter alone. -/
theorem guBody_count_le (P : LockProfile) (T : GUTuning) (i : TickInput)
    (rp : List PartTime) (s : MonitorState) (sp : ℚ)
    (hsp : sp = if T.rampUsesMbps = true then avgPartSpeed rp * 8
      else smoothedPartSpeed (recordAvgPartSpeed 5 rp s)) :
    (guBody P T i rp s).1.lowSpeedSamples
      ≤ if sp < T.rampDownThreshold ∧ realThroughputMbps rp < T.lowTotalMbps then
          s.lowSpeedSamples + 1 else 0 := by
  subst hsp
  simp only [guBody, throttledFallback_lowSpeedSamples, emergencyReset_lowSpeedSamples,
    continuousProgress_lowSpeedSamples, guWatchdog_lowSpeedSamples,
    applyAdjustment_lowSpeedSamples]
  have ht := guTrackLow_count T
    (if T.rampUsesMbps = true then avgPartSpeed rp * 8
      else smoothedPartSpeed (recordAvgPartSpeed 5 rp s)) (realThroughputMbps rp)
    (thrashingProtection P.parallel 10 5 0.9 (realThroughputMbps rp)
      (guDecay T i.now (realThroughputMbps rp)
        (reinforcementLock T.lockThreshold P.reinforcementSampleCount (realThroughputMbps rp)
          (peakUpdate P i.now (realThroughputMbps rp) (avgPartSpeed rp * 8)
            (recordAvgPartSpeed 5 rp s)).1).1).1.contextMaxParallel
      (guDecay T i.now (realThroughputMbps rp)
        (reinforcementLock T.lockThreshold P.reinforcementSampleCount (realThroughputMbps rp)
          (peakUpdate P i.now (realThroughputMbps rp) (avgPartSpeed rp * 8)
            (recordAvgPartSpeed 5 rp s)).1).1).1).1
  simp only [thrashingProtection_lowSpeedSamples, guDecay_lowSpeedSamples,
    reinforcementLock_lowSpeedSamples, peakUpdate_lowSpeedSamples,
    recordAvgPartSpeed_lowSpeedSamples] at ht
  rw [← ht]
  rcases guRampDown_count_cases P T i.now (realThroughputMbps rp)
      (guLockMode P T i.now _ (realThroughputMbps rp) (guTrackLow T _ (realThroughputMbps rp)
        (thrashingProtection P.parallel 10 5 0.9 (realThroughputMbps rp) _ _).1)).2
      (guLockMode P T i.now _ (realThroughputMbps rp) (guTrackLow T _ (realThroughputMbps rp)
        (thrashingProtection P.parallel 10 5 0.9 (realThroughputMbps rp) _ _).1)).1
    with h1 | h1
  · rw [h1]
    rcases guLockMode_count_cases P T i.now _ (realThroughputMbps rp)
        (guTrackLow T _ (realThroughputMbps rp)
          (thrashingProtection P.parallel 10 5 0.9 (realThroughputMbps rp) _ _).1)
      with h2 | h2
    · rw [h2]
    · rw [h2]; exact Nat.zero_le _
  · rw [h1]; exact Nat.zero_le _

theorem fiberAfterDecay_count_le (i : TickInput) (rp : List PartTime) (sm cT : ℚ)
    (s : MonitorState) :
    (fiberAfterDecay i rp sm cT s).1.lowSpeedSamples
      ≤ if sm < FIBER_PROFILE.rampDownThreshold then s.lowSpeedSamples + 1 else 0 := by
  simp only [fiberAfterDecay, throttledFallback_lowSpeedSamples, emergencyReset_lowSpeedSamples,
    noProgressWatchdog_lowSpeedSamples, applyAdjustment_lowSpeedSamples]
  have ht := fiberTrackLow_count sm
    (thrashingProtection FIBER_PROFILE.parallel 10 5 0.85 cT s.contextMaxParallel s).1
  simp only [thrashingProtection_lowSpeedSamples] at ht
  rw [← ht]
  rcases fiberRamp_count_cases i.now sm
      (fiberTrackLow sm
        (thrashingProtection FIBER_PROFILE.parallel 10 5 0.85 cT s.contextMaxParallel s).1)
    with h1 | h1
  · rw [h1]
  · rw [h1]; exact Nat.zero_le _

theorem fiberBody_count_le (i : TickInput) (rp : List PartTime) (s : MonitorState) :
    (fiberBody i rp s).1.lowSpeedSamples
      ≤ if (fiberBody i rp s).2.monitorError = false then
          (if smoothedPartSpeed (recordAvgPartSpeed 5 rp s) < FIBER_PROFILE.rampDownThreshold
            then s.lowSpeedSamples + 1 else 0)
        else s.lowSpeedSamples := by
  cases hth : (fiberDecayResult i rp s).2.threw
  · rw [if_pos (fiberBody_of_not_threw i rp s hth).2.1, (fiberBody_of_not_threw i rp s hth).1]
    refine le_trans (fiberAfterDecay_count_le i rp _ _ _) (le_of_eq ?_)
    simp [fiberDecayResult]
  · rw [if_neg (by rw [(fiberBody_of_threw i rp s hth).2.1]; simp),
      (fiberBody_of_threw i rp s hth).1]
    simp [fiberDecayResult]

/-- The low-speed counter after a tick of the fiber, gigabit or ultra monitor: a tick on
which the ramp logic ran leaves at most one more than before when the low-speed test
holds and 0 when it does not; any other tick leaves the counter alone. -/
theorem Monitor.tick_count_le (m : Monitor) (s : MonitorState) (i : TickInput)
    (hm : m = Monitor.fiber ∨ m = Monitor.gigabit ∨ m = Monitor.ultra) :
    (m.tick s i).1.lowSpeedSamples
      ≤ if m.rampLogicRan s i then
          (if m.lowSpeedTest s i then s.lowSpeedSamples + 1 else 0)
        else s.lowSpeedSamples := by
  unfold Monitor.rampLogicRan
  by_cases hr : (m.tick s i).2.evaluated = true ∧ (m.tick s i).2.monitorError = false
  · rw [if_pos hr]
    have hb := (Monitor.tick_evaluated_iff m s i).mp hr.1
    rw [hb] at hr ⊢
    rcases hm with rfl | rfl | rfl
    · have h := fiberBody_count_le i (Monitor.fiber.recentParts i) s
      have hr2 : (fiberBody i (Monitor.fiber.recentParts i) s).2.monitorError = false := hr.2
      rw [if_pos hr2] at h
      exact h
    · exact guBody_count_le GIGABIT_PROFILE gigabitTuning i (Monitor.gigabit.recentParts i) s
        (Monitor.gigabit.rampSpeed s i) rfl
    · exact guBody_count_le ULTRA_PROFILE ultraTuning i (Monitor.ultra.recentParts i) s
        (Monitor.ultra.rampSpeed s i) rfl
  · rw [if_neg hr]
    rcases Monitor.tick_eq_body_or_idle m s i with hb | hb | hb
    · rw [hb] at hr ⊢
      have hne : ¬ (m.body s i).2.monitorError = false :=
        fun hc => hr ⟨Monitor.body_evaluated m s i, hc⟩
      rcases hm with rfl | rfl | rfl
      · have h := fiberBody_count_le i (Monitor.fiber.recentParts i) s
        have hne2 : ¬ (fiberBody i (Monitor.fiber.recentParts i) s).2.monitorError = false :=
          hne
        rw [if_neg hne2] at h
        exact h
      · exact absurd rfl hne
      · exact absurd rfl hne
    · rw [hb]
    · rw [hb]

/-- A reduction of the parallelism by the ramp logic: the low-speed test holds on the tick
and, outside cable.js, the counter of the tick's start plus this tick reaches the
threshold of the table. -/
theorem Monitor.rampStep_down (m : Monitor) (s : MonitorState) (i : TickInput)
    (h : (m.rampStep s i).2.2 = true) :
    m.lowSpeedTest s i
      ∧ (m ≠ Monitor.cable → m.profile.lowSpeedSampleThreshold ≤ s.lowSpeedSamples + 1) := by
  have hb := Monitor.beforeRamp_lowSpeedSamples m s i
  cases m
  case dsl =>
    obtain ⟨p1, p2⟩ := deScaling_down_parts _ _ _ _ h
    rw [hb] at p2
    exact ⟨p1, fun _ => p2⟩
  case enterprise =>
    obtain ⟨p1, p2⟩ := deScaling_down_parts _ _ _ _ h
    rw [hb] at p2
    exact ⟨p1, fun _ => p2⟩
  case fiber =>
    have h1 := ((Bool.and_eq_true _ _).mp h).1
    have p := fiberRamp_down_parts _ _ _ h1
    rw [fiberTrackLow_count, hb] at p
    have hN : FIBER_PROFILE.lowSpeedSampleThreshold = 4 := rfl
    rw [hN] at p
    split_ifs at p with hlow
    · exact ⟨hlow, fun _ => p⟩
    · omega
  case cable =>
    have h1 := ((Bool.and_eq_true _ _).mp h).1
    have p := cableRamp_down_parts _ _ _ h1
    rw [cableTrackLow_count] at p
    have hN : CABLE_PROFILE.lowSpeedSampleThreshold = 4 := rfl
    rw [hN] at p
    split_ifs at p with hlow
    · exact ⟨hlow, fun hne => absurd rfl hne⟩
    · omega
  case gigabit =>
    have h1 := ((Bool.and_eq_true _ _).mp h).1
    have p := guRampDown_down_parts _ _ _ _ _ _ (guLockMode_rampDown _ _ _ _ _ _) h1
    have hN : GIGABIT_PROFILE.lowSpeedSampleThreshold = 2 := rfl
    rw [hN] at p
    rcases guLockMode_count_cases GIGABIT_PROFILE gigabitTuning i.now
        (Monitor.gigabit.rampSpeed s i) (Monitor.gigabit.currentThroughput i)
        (guTrackLow gigabitTuning (Monitor.gigabit.rampSpeed s i)
          (Monitor.gigabit.currentThroughput i) (Monitor.gigabit.beforeRamp s i))
      with hc | hc
    · rw [hc, guTrackLow_count, hb] at p
      split_ifs at p with hlow
      · exact ⟨hlow, fun _ => p⟩
      · omega
    · rw [hc] at p; omega
  case ultra =>
    have h1 := ((Bool.and_eq_true _ _).mp h).1
    have p := guRampDown_down_parts _ _ _ _ _ _ (guLockMode_rampDown _ _ _ _ _ _) h1
    have hN : ULTRA_PROFILE.lowSpeedSampleThreshold = 3 := rfl
    rw [hN] at p
    rcases guLockMode_count_cases ULTRA_PROFILE ultraTuning i.now
        (Monitor.ultra.rampSpeed s i) (Monitor.ultra.currentThroughput i)
        (guTrackLow ultraTuning (Monitor.ultra.rampSpeed s i)
          (Monitor.ultra.currentThroughput i) (Monitor.ultra.beforeRamp s i))
      with hc | hc
    · rw [hc, guTrackLow_count, hb] at p
      split_ifs at p with hlow
      · exact ⟨hlow, fun _ => p⟩
      · omega
    · rw [hc] at p; omega

/-- A tick on which the ramp decision lowered the parallelism did not end in the
callback's error. -/
theorem Monitor.body_rampDown_ran (m : Monitor) (s : MonitorState) (i : TickInput)
    (h : rampDecisionLowered (m.body s i).2) : (m.body s i).2.monitorError = false := by
  cases m
  case fiber =>
    cases hth : (fiberDecayResult i (Monitor.fiber.recentParts i) s).2.threw
    · exact (fiberBody_of_not_threw i _ s hth).2.1
    · exfalso
      revert h
      unfold rampDecisionLowered
      simp only [Monitor.body, fiberBody]
      unfold fiberDecayResult at hth
      simp only [hth, if_true]
      simp
  all_goals rfl

theorem Monitor.lowRunFrom_append (m : Monitor) (inputs : List TickInput) (i : TickInput) :
    ∀ n s, m.lowRunFrom n s (inputs ++ [i])
      = if m.rampLogicRan (finalState m.tick s inputs) i then
          (if m.lowSpeedTest (finalState m.tick s inputs) i then
            m.lowRunFrom n s inputs + 1 else 0)
        else m.lowRunFrom n s inputs := by
  induction inputs with
  | nil => intro n s; rfl
  | cons j rest ih =>
    intro n s
    exact ih _ _

theorem Monitor.count_le_lowRunFrom (m : Monitor)
    (hm : m = Monitor.fiber ∨ m = Monitor.gigabit ∨ m = Monitor.ultra)
    (inputs : List TickInput) :
    ∀ n s, s.lowSpeedSamples ≤ n →
      (finalState m.tick s inputs).lowSpeedSamples ≤ m.lowRunFrom n s inputs := by
  induction inputs with
  | nil => intro n s h; exact h
  | cons j rest ih =>
    intro n s h
    apply ih
    refine le_trans (Monitor.tick_count_le m s j hm) ?_
    split_ifs <;> omega

/-- Outside gigabit.js and ultra.js the low-speed test bounds `smoothedPartSpeed` by the
table's `rampDownThreshold`. -/
theorem Monitor.lowSpeedTest_profile (m : Monitor) (s : MonitorState) (i : TickInput)
    (hg : m ≠ Monitor.gigabit) (hu : m ≠ Monitor.ultra) (h : m.lowSpeedTest s i) :
    m.smoothedPartSpeed s i ≤ m.profile.rampDownThreshold := by
  cases m
  case gigabit => exact absurd rfl hg
  case ultra => exact absurd rfl hu
  case dsl => exact h
  case enterprise => exact h
  case cable => exact le_of_lt h
  case fiber => exact le_of_lt h

/-- C28, counterexample. On the gigabit monitor the first tick of `gigabitSlowTicks`
unlocks the assumed peak and the second tick ramps down from 16 to 15, although
`smoothedPartSpeed` is 10 MB/s on both ticks, not below
`GIGABIT_PROFILE.rampDownThreshold = 8`: gigabit.js counts a tick as low when
`smoothedPartSpeed` is below its local constant `rampDownThreshold = 15.0` and
`currentThroughput` is below 600. -/
theorem gigabit_ramps_down_above_threshold :
    rampDecisionLowered (Monitor.gigabit.tick
        (stateAt gigabitTick (Monitor.gigabit.start ⟨1000⟩ 0) gigabitSlowTicks 0)
        gigabitSlowTick).2
      ∧ Monitor.gigabit.smoothedPartSpeed (Monitor.gigabit.start ⟨1000⟩ 0)
          (sampleInput 10000 (sampleParts 3 10 9000) 100000000000) = 10
      ∧ Monitor.gigabit.smoothedPartSpeed
          (stateAt gigabitTick (Monitor.gigabit.start ⟨1000⟩ 0) gigabitSlowTicks 0)
          gigabitSlowTick = 10
      ∧ Monitor.gigabit.profile.rampDownThreshold = 8
      ∧ ¬ (Monitor.gigabit.smoothedPartSpeed
          (stateAt gigabitTick (Monitor.gigabit.start ⟨1000⟩ 0) gigabitSlowTicks 0)
          gigabitSlowTick < Monitor.gigabit.profile.rampDownThreshold)
      ∧ (List.range 2).map (fun k =>
          Monitor.gigabit.parallelism
            (stateAt gigabitTick (Monitor.gigabit.start ⟨1000⟩ 0) gigabitSlowTicks k))
        = [16, 15] := by
  decide!

/-- C28, amended. In every profile monitor, the ramp decision decreases parallelism on a
tick only if the monitor's low-speed test held on that tick. The test is
`smoothedPartSpeed <= profile.rampDownThreshold` in DSL and enterprise and
`smoothedPartSpeed < profile.rampDownThreshold` in cable and fiber; gigabit.js and
ultra.js test against the constants of their ramp block instead of the profile's
(gigabit: `smoothedPartSpeed < 15` and `currentThroughput < 600`; ultra:
`avgPartSpeedMbps < 5` and `currentThroughput < 120`). In fiber, gigabit and ultra, for a
monitor started from its own strategy, the test held on that tick and on each of the
immediately preceding ticks on which the ramp logic ran, for at least
`profile.lowSpeedSampleThreshold` (4, 2, 3) consecutive such ticks in total, and any such
tick on which the test fails restarts the count. In DSL and enterprise the low-speed
counter of the tick's start plus this tick has reached `profile.lowSpeedSampleThreshold`. -/
theorem ramp_down_after_low_run (m : Monitor) (connectionInfo : ConnectionInfo)
    (createdAt : Int) (inputs : List TickInput) (i : TickInput)
    (h : rampDecisionLowered (m.tick (m.reached connectionInfo createdAt inputs) i).2) :
    m.lowSpeedTest (m.reached connectionInfo createdAt inputs) i
      ∧ m.rampLogicRan (m.reached connectionInfo createdAt inputs) i
      ∧ (m ≠ Monitor.gigabit → m ≠ Monitor.ultra →
          m.smoothedPartSpeed (m.reached connectionInfo createdAt inputs) i
            ≤ m.profile.rampDownThreshold)
      ∧ (m = Monitor.gigabit →
          m.smoothedPartSpeed (m.reached connectionInfo createdAt inputs) i < 15
            ∧ m.currentThroughput i < 600)
      ∧ (m = Monitor.ultra → m.avgPartSpeed i * 8 < 5 ∧ m.currentThroughput i < 120)
      ∧ (m ≠ Monitor.cable →
          m.profile.lowSpeedSampleThreshold
            ≤ (m.reached connectionInfo createdAt inputs).lowSpeedSamples + 1)
      ∧ (m = Monitor.fiber ∨ m = Monitor.gigabit ∨ m = Monitor.ultra →
          m.profile.lowSpeedSampleThreshold
            ≤ m.lowRun (m.start connectionInfo createdAt) (inputs ++ [i]))
      ∧ (m = Monitor.fiber ∨ m = Monitor.gigabit ∨ m = Monitor.ultra →
          ∀ j, m.rampLogicRan (m.reached connectionInfo createdAt inputs) j →
            ¬ m.lowSpeedTest (m.reached connectionInfo createdAt inputs) j →
              (m.tick (m.reached connectionInfo createdAt inputs) j).1.lowSpeedSamples = 0
                ∧ m.lowRun (m.start connectionInfo createdAt) (inputs ++ [j]) = 0) := by
  obtain ⟨hb, hstep⟩ := Monitor.tick_rampDown m _ i h
  obtain ⟨hlow, hcount⟩ := Monitor.rampStep_down m _ i hstep
  have hran : m.rampLogicRan (m.reached connectionInfo createdAt inputs) i := by
    unfold Monitor.rampLogicRan
    rw [hb] at h ⊢
    exact ⟨Monitor.body_evaluated m _ i, Monitor.body_rampDown_ran m _ i h⟩
  have h0 : (m.start connectionInfo createdAt).lowSpeedSamples ≤ 0 := by
    cases m <;> exact le_refl _
  refine ⟨hlow, hran, fun hg hu => Monitor.lowSpeedTest_profile m _ i hg hu hlow, ?_, ?_,
    hcount, ?_, ?_⟩
  · intro hm
    subst hm
    have h15 : gigabitTuning.rampDownThreshold = 15 := by decide!
    have h600 : gigabitTuning.lowTotalMbps = 600 := rfl
    have ht : Monitor.gigabit.smoothedPartSpeed
          (Monitor.gigabit.reached connectionInfo createdAt inputs) i
          < gigabitTuning.rampDownThreshold
        ∧ Monitor.gigabit.currentThroughput i < gigabitTuning.lowTotalMbps := hlow
    rw [h15, h600] at ht
    exact ht
  · intro hm
    subst hm
    have h5 : ultraTuning.rampDownThreshold = 5 := by decide!
    have h120 : ultraTuning.lowTotalMbps = 120 := rfl
    have ht : Monitor.ultra.avgPartSpeed i * 8 < ultraTuning.rampDownThreshold
        ∧ Monitor.ultra.currentThroughput i < ultraTuning.lowTotalMbps := hlow
    rw [h5, h120] at ht
    exact ht
  · intro hm
    have hne : m ≠ Monitor.cable := by
      rcases hm with rfl | rfl | rfl <;> decide
    have hinv := Monitor.count_le_lowRunFrom m hm inputs 0 (m.start connectionInfo createdAt) h0
    have hran' : m.rampLogicRan (finalState m.tick (m.start connectionInfo createdAt) inputs)
        i := hran
    have hlow' : m.lowSpeedTest (finalState m.tick (m.start connectionInfo createdAt) inputs)
        i := hlow
    unfold Monitor.lowRun
    rw [Monitor.lowRunFrom_append, if_pos hran', if_pos hlow']
    have hc := hcount hne
    have hinv' : (m.reached connectionInfo createdAt inputs).lowSpeedSamples
        ≤ m.lowRunFrom 0 (m.start connectionInfo createdAt) inputs := hinv
    omega
  · intro hm j hrj hlj
    constructor
    · have := Monitor.tick_count_le m (m.reached connectionInfo createdAt inputs) j hm
      rw [if_pos hrj, if_neg hlj] at this
      exact Nat.le_zero.mp this
    · have hrj' : m.rampLogicRan
          (finalState m.tick (m.start connectionInfo createdAt) inputs) j := hrj
      have hlj' : ¬ m.lowSpeedTest
          (finalState m.tick (m.start connectionInfo createdAt) inputs) j := hlj
      unfold Monitor.lowRun
      rw [Monitor.lowRunFrom_append, if_pos hrj', if_neg hlj']

/-- C28, amended, on the gigabit monitor: the second tick of `gigabitSlowTicks` ramps down
after two consecutive ticks that are low by the test of gigabit.js. -/
theorem ramp_down_after_low_run_witness :
    rampDecisionLowered (Monitor.gigabit.tick
        (Monitor.gigabit.reached ⟨1000⟩ 0 (gigabitSlowTicks.take 1)) gigabitSlowTick).2
      ∧ Monitor.gigabit.profile.lowSpeedSampleThreshold
        ≤ Monitor.gigabit.lowRun (Monitor.gigabit.start ⟨1000⟩ 0)
            (gigabitSlowTicks.take 1 ++ [gigabitSlowTick])
      ∧ Monitor.gigabit.lowRun (Monitor.gigabit.start ⟨1000⟩ 0)
            (gigabitSlowTicks.take 1 ++ [gigabitSlowTick]) = 2 :=
  ⟨by decide!,
    (ramp_down_after_low_run Monitor.gigabit ⟨1000⟩ 0 (gigabitSlowTicks.take 1)
      gigabitSlowTick (by decide!)).2.2.2.2.2.2.1 (Or.inr (Or.inl rfl)),
    by decide!⟩

/-! ### Claim C40: the profile tables and their strategy constructors -/

/-- C40. Each of the six profile tables is internally consistent and its strategy
constructor is faithful to it: `1 <= minParallel <= parallel <= maxCap`,
`0 < rampDownThreshold < rampUpThreshold`, `partSize > 0`; and for every `connectionInfo`
the constructor returns `partSize = profile.partSize`, `maxParallel = profile.parallel` and
`maxParallelCap = profile.maxCap`. -/
theorem profile_tables_consistent (m : Monitor) (connectionInfo : ConnectionInfo) :
    1 ≤ m.profile.minParallel
      ∧ m.profile.minParallel ≤ m.profile.parallel
      ∧ m.profile.parallel ≤ m.profile.maxCap
      ∧ 0 < m.profile.rampDownThreshold
      ∧ m.profile.rampDownThreshold < m.profile.rampUpThreshold
      ∧ 0 < m.profile.partSize
      ∧ (m.strategy connectionInfo).partSize = m.profile.partSize
      ∧ (m.strategy connectionInfo).maxParallel = m.profile.parallel
      ∧ (m.strategy connectionInfo).maxParallelCap = m.profile.maxCap := by
  cases m
  all_goals
    refine ⟨?_, ?_, ?_, ?_, ?_, ?_, rfl, rfl, rfl⟩
    all_goals
      norm_num [Monitor.profile, DSL_PROFILE, CABLE_PROFILE, FIBER_PROFILE, ENTERPRISE_PROFILE,
        GIGABIT_PROFILE, ULTRA_PROFILE]

/-! ### Claim C39: the fallback of enterprise, fiber and ultra never applies -/

theorem Monitor.fallback_noop (m : Monitor)
    (hm : m = Monitor.enterprise ∨ m = Monitor.fiber ∨ m = Monitor.ultra)
    (j : TickInput) (s : MonitorState) (hs : s.partSize = m.profile.partSize) :
    m.fallback j s = s := by
  rcases hm with rfl | rfl | rfl
  · exact (throttledFallback_grow_noop enterpriseTuning.fallback j s rfl
      (by rw [hs]; decide)).1
  · exact (throttledFallback_grow_noop fiberFallbackRule j s rfl (by rw [hs]; decide)).1
  · exact (throttledFallback_grow_noop ultraTuning.fallback j s rfl (by rw [hs]; decide)).1

theorem Monitor.tick_partSize_of_grow (m : Monitor)
    (hm : m = Monitor.enterprise ∨ m = Monitor.fiber ∨ m = Monitor.ultra)
    (s : MonitorState) (i : TickInput) (hs : s.partSize = m.profile.partSize) :
    (m.tick s i).1.partSize = m.profile.partSize ∧ (m.tick s i).2.fallbackMode = false := by
  rcases hm with rfl | rfl | rfl
  · have h := deTick_partSize_grow ENTERPRISE_PROFILE enterpriseTuning s i rfl
      (by rw [hs]; decide)
    exact ⟨h.1.trans hs, h.2⟩
  · have h := fiberTick_partSize s i (by rw [hs]; decide)
    exact ⟨h.1.trans hs, h.2⟩
  · have h := guTick_partSize_grow ULTRA_PROFILE ultraTuning s i rfl (by rw [hs]; decide)
    exact ⟨h.1.trans hs, h.2⟩

theorem Monitor.reached_partSize_of_grow (m : Monitor)
    (hm : m = Monitor.enterprise ∨ m = Monitor.fiber ∨ m = Monitor.ultra)
    (connectionInfo : ConnectionInfo) (createdAt : Int) (inputs : List TickInput) :
    (m.reached connectionInfo createdAt inputs).partSize = m.profile.partSize := by
  refine finalState_induction m.tick (fun s => s.partSize = m.profile.partSize) ?_ inputs _ ?_
  · intro s i h
    exact (Monitor.tick_partSize_of_grow m hm s i h).1
  · rcases hm with rfl | rfl | rfl <;> rfl

/-- C39. In the enterprise, fiber and ultra monitors started from their own
`create*UploadStrategy` (part sizes 40 MiB, 75 MiB and 200 MiB), the throttled-network
fallback never takes effect: for every tick sequence and every overall speed,
`strategy.partSize` keeps the table's value, the guard of the fallback block (`partSize <
40 MiB`, `< 40 MiB`, `< 12 MiB`) is false in every reached state, the fallback block is the
identity on every state with that part size, and no tick takes the branch "FALLBACK MODE"
that writes the parallelism and calls `updateStrategy`. -/
theorem fallback_never_applies (m : Monitor)
    (hm : m = Monitor.enterprise ∨ m = Monitor.fiber ∨ m = Monitor.ultra)
    (connectionInfo : ConnectionInfo) (createdAt : Int) (inputs : List TickInput)
    (i : TickInput) :
    (m.reached connectionInfo createdAt inputs).partSize = m.profile.partSize
      ∧ (m.profile.partSize = 40 * MiB ∨ m.profile.partSize = 75 * MiB
          ∨ m.profile.partSize = 200 * MiB)
      ∧ (m = Monitor.enterprise →
          ¬ fallbackGuard enterpriseTuning.fallback (m.reached connectionInfo createdAt inputs))
      ∧ (m = Monitor.fiber →
          ¬ fallbackGuard fiberFallbackRule (m.reached connectionInfo createdAt inputs))
      ∧ (m = Monitor.ultra →
          ¬ fallbackGuard ultraTuning.fallback (m.reached connectionInfo createdAt inputs))
      ∧ (∀ (j : TickInput) (s : MonitorState), s.partSize = m.profile.partSize →
          m.fallback j s = s)
      ∧ (m.tick (m.reached connectionInfo createdAt inputs) i).2.fallbackMode = false
      ∧ (m.tick (m.reached connectionInfo createdAt inputs) i).1.partSize
        = m.profile.partSize := by
  have hp := Monitor.reached_partSize_of_grow m hm connectionInfo createdAt inputs
  have ht := Monitor.tick_partSize_of_grow m hm _ i hp
  refine ⟨hp, ?_, ?_, ?_, ?_, fun j s hs => Monitor.fallback_noop m hm j s hs, ht.2, ht.1⟩
  · rcases hm with rfl | rfl | rfl
    · left; rfl
    · right; left; rfl
    · right; right; rfl
  · rintro rfl
    change ¬ ((Monitor.enterprise.reached connectionInfo createdAt inputs).partSize
      < enterpriseTuning.fallback.guard)
    rw [hp]
    decide
  · rintro rfl
    change ¬ ((Monitor.fiber.reached connectionInfo createdAt inputs).partSize
      < fiberFallbackRule.guard)
    rw [hp]
    decide
  · rintro rfl
    change ¬ ((Monitor.ultra.reached connectionInfo createdAt inputs).partSize
      < ultraTuning.fallback.guard)
    rw [hp]
    decide

/-- C39 on the enterprise monitor: on the slow ticks of `collapseTo20` the part size stays
at 40 MiB and no tick takes the fallback branch. -/
theorem fallback_never_applies_witness :
    (Monitor.enterprise.reached ⟨100⟩ 0 collapseTo20).partSize = 40 * MiB
      ∧ (Monitor.enterprise.tick (Monitor.enterprise.reached ⟨100⟩ 0 collapseTo20)
          (sampleInput 90000 (sampleParts 4 1 80000) 1000)).2.fallbackMode = false :=
  ⟨(fallback_never_applies Monitor.enterprise (Or.inl rfl) ⟨100⟩ 0 collapseTo20
      (sampleInput 90000 (sampleParts 4 1 80000) 1000)).1,
    (fallback_never_applies Monitor.enterprise (Or.inl rfl) ⟨100⟩ 0 collapseTo20
      (sampleInput 90000 (sampleParts 4 1 80000) 1000)).2.2.2.2.2.2.1⟩

/-! ### Claim C36: the cable monitor and `context.maxParallel` -/

theorem cableBody_contextMaxParallel (i : TickInput) (rp : List PartTime) (s : MonitorState) :
    (cableBody i rp s).1.contextMaxParallel = s.contextMaxParallel := by
  simp [cableBody]

theorem cableTick_contextMaxParallel (s : MonitorState) (i : TickInput) :
    (cableTick s i).1.contextMaxParallel = s.contextMaxParallel := by
  unfold cableTick
  split_ifs
  · rfl
  · rfl
  · rfl
  · exact cableBody_contextMaxParallel i _ s
  · rfl

theorem cableFallback_quiet (i : TickInput) (s : MonitorState)
    (h : (cableFallback i s).2 = false) : (cableFallback i s).1 = s := by
  unfold cableFallback at h ⊢
  split_ifs at h ⊢
  rfl

theorem cableApplyAdjustment_quiet (now : Int) (sp : ℚ) (d : RampDecision) (s : MonitorState)
    (h : (cableApplyAdjustment now sp d s).2 = false) :
    (cableApplyAdjustment now sp d s).1 = s := by
  unfold cableApplyAdjustment at h ⊢
  split_ifs at h ⊢
  rfl

theorem cableBody_updates (i : TickInput) (rp : List PartTime) (s : MonitorState) :
    (∀ u, (cableBody i rp s).2.updates.getLast? = some u →
        u.parallel = (cableBody i rp s).1.maxParallel
          ∧ u.partSize = (cableBody i rp s).1.partSize)
      ∧ ((cableBody i rp s).1.maxParallel ≠ s.maxParallel →
          (cableBody i rp s).2.updates ≠ []) := by
  simp only [cableBody]
  generalize hr5 : cableRamp i.now (smoothedPartSpeed (recordAvgPartSpeed 5 rp s))
    (cableTrackLow (smoothedPartSpeed (recordAvgPartSpeed 5 rp s))
      (cableTrackLow (smoothedPartSpeed (recordAvgPartSpeed 5 rp s))
        (thrashingProtection CABLE_PROFILE.parallel 8 4 0.8 (realThroughputMbps rp)
          (cableDecay i.now (realThroughputMbps rp)
            (cablePeakDetection i.now (realThroughputMbps rp) rp.length
              (recordAvgPartSpeed 5 rp s)).1).1.maxParallel
          (cableDecay i.now (realThroughputMbps rp)
            (cablePeakDetection i.now (realThroughputMbps rp) rp.length
              (recordAvgPartSpeed 5 rp s)).1).1).1)) = r5
  have hmp : r5.1.maxParallel = s.maxParallel := by
    rw [← hr5, cableRamp_maxParallel]
    simp [(cableTrackLow_frame _ _).1]
  generalize hr6 : cableApplyAdjustment i.now (smoothedPartSpeed (recordAvgPartSpeed 5 rp s))
    r5.2 r5.1 = r6
  cases h7 : (cableFallback i r6.1).2
  · have e7 := cableFallback_quiet i r6.1 h7
    cases h6 : r6.2
    · have e6 : r6.1 = r5.1 := by
        rw [← hr6] at h6 ⊢
        exact cableApplyAdjustment_quiet _ _ _ _ h6
      refine ⟨fun u hu => ?_, fun hne => ?_⟩
      · simp at hu
      · exact absurd (by rw [e7, e6, hmp]) hne
    · refine ⟨fun u hu => ?_, fun _ => by simp⟩
      simp at hu
      subst hu
      rw [e7]
      exact ⟨rfl, rfl⟩
  · refine ⟨fun u hu => ?_, fun _ => by simp⟩
    cases h6 : r6.2
    · simp at hu
      subst hu
      exact ⟨rfl, rfl⟩
    · simp at hu
      subst hu
      exact ⟨rfl, rfl⟩

/-- C36. The cable monitor never writes the scheduler's knob: for every tick and every
input, `context.maxParallel` after the tick equals `context.maxParallel` before it, and so
after every tick sequence. Every change the tick makes to the parallelism is a change of
the private variable `maxParallel`, and it comes with a `performanceTracker.updateStrategy`
call: when `maxParallel` differs after the tick, the tick made at least one call, and the
last call of a tick carries the `maxParallel` and the part size the tick ends with. -/
theorem cable_keeps_scheduler_knob (s : MonitorState) (i : TickInput)
    (inputs : List TickInput) :
    (Monitor.cable.tick s i).1.contextMaxParallel = s.contextMaxParallel
      ∧ (finalState Monitor.cable.tick s inputs).contextMaxParallel = s.contextMaxParallel
      ∧ ((Monitor.cable.tick s i).1.maxParallel ≠ s.maxParallel →
          (Monitor.cable.tick s i).2.updates ≠ [])
      ∧ (∀ u, (Monitor.cable.tick s i).2.updates.getLast? = some u →
          u.parallel = (Monitor.cable.tick s i).1.maxParallel
            ∧ u.partSize = (Monitor.cable.tick s i).1.partSize) := by
  refine ⟨cableTick_contextMaxParallel s i, ?_, ?_, ?_⟩
  · exact finalState_induction cableTick
      (fun t => t.contextMaxParallel = s.contextMaxParallel)
      (fun t j h => (cableTick_contextMaxParallel t j).trans h) inputs s rfl
  · intro hne
    rcases Monitor.tick_eq_body_or_idle Monitor.cable s i with hb | hb | hb
    · rw [hb] at hne ⊢
      exact (cableBody_updates i _ s).2 hne
    · rw [hb] at hne; exact absurd rfl hne
    · rw [hb] at hne; exact absurd rfl hne
  · intro u hu
    rcases Monitor.tick_eq_body_or_idle Monitor.cable s i with hb | hb | hb
    · rw [hb] at hu ⊢
      exact (cableBody_updates i _ s).1 u hu
    · rw [hb] at hu; simp at hu
    · rw [hb] at hu; simp at hu

/-! ## The end of a tick: watchdog, emergency reset, fallback -/

/-- An evaluated tick that did not end in its `catch` ends with the fallback block applied
to the state the emergency reset block left. -/
theorem Monitor.body_eq_chain (m : Monitor) (s : MonitorState) (i : TickInput)
    (h : (m.body s i).2.monitorError = false) :
    (m.body s i).1 = m.fallback i (m.afterEmergency s i)
      ∧ (m.body s i).2.noProgress = (m.watchdog s i).2.1
      ∧ (m.body s i).2.stallRecovery = (m.watchdog s i).2.2.1
      ∧ (m.body s i).2.stallIgnored = (m.watchdog s i).2.2.2
      ∧ (m.body s i).2.emergencyReset = (m.emergency s i).2 := by
  cases m
  case fiber =>
    revert h
    simp only [Monitor.body, fiberBody]
    split_ifs
    · intro h; cases h
    · intro _; exact ⟨rfl, rfl, rfl, rfl, rfl⟩
  all_goals exact ⟨rfl, rfl, rfl, rfl, rfl⟩

/-- The zombie list of an evaluated tick that reached the zombie block. -/
theorem Monitor.body_zombies (m : Monitor) (P : StallProfile) (hP : m.stallProfile = some P)
    (s : MonitorState) (i : TickInput) (h : (m.body s i).2.monitorError = false) :
    (m.body s i).2.zombies = zombieParts P i.now i.partTimes := by
  cases m
  case cable => cases hP
  case fiber =>
    cases hP
    revert h
    simp only [Monitor.body, fiberBody]
    split_ifs
    · intro h; cases h
    · intro _; rfl
  all_goals
    cases hP
    rfl

theorem Monitor.tick_of_flag (m : Monitor) (s : MonitorState) (i : TickInput)
    (f : TickEvents → Bool) (hf : f {} = false) (hg : f { stopping := true } = false)
    (h : f (m.tick s i).2 = true) : m.tick s i = m.body s i := by
  rcases Monitor.tick_eq_body_or_idle m s i with hb | hb | hb
  · exact hb
  · rw [hb] at h; rw [hf] at h; cases h
  · rw [hb] at h; rw [hg] at h; cases h

theorem Monitor.body_noProgress_error (m : Monitor) (s : MonitorState) (i : TickInput)
    (h : (m.body s i).2.noProgress = true) : (m.body s i).2.monitorError = false := by
  cases m
  case fiber =>
    revert h
    simp only [Monitor.body, fiberBody]
    split_ifs
    · intro h; cases h
    · intro _; rfl
  all_goals rfl

/-! ### Claim C32: the zombie block -/

theorem zombieParts_eq (P : StallProfile) (now : Int) (partTimes : List PartTime) :
    zombieParts P now partTimes
      = (partTimes.filter (fun part => isZombie P now part)).map
          (fun part => part.partNumber) := by
  unfold zombieParts isZombie
  rfl

/-- C32. In every monitor with zombie detection (DSL, enterprise, fiber, gigabit, ultra),
on every evaluated tick that reaches the zombie block the parts flagged are exactly the
tracker samples with `speed < profile.minPartSpeed` and `now - timestamp >
profile.minPartTimeout`, in tracker order; and the zombie block only flags: the tick ends
with the watchdog, the emergency reset and the fallback run on the state the ramp logic
left, so the block changes neither the parallelism, nor the chunk size, nor any other
field of the controller state. -/
theorem zombie_step_flags_only (m : Monitor) (P : StallProfile)
    (hP : m.stallProfile = some P) (s : MonitorState) (i : TickInput)
    (hev : (m.tick s i).2.evaluated = true)
    (hreach : (m.tick s i).2.monitorError = false) :
    (m.tick s i).2.zombies
        = (i.partTimes.filter (fun part => isZombie P i.now part)).map
            (fun part => part.partNumber)
      ∧ (∀ part ∈ i.partTimes,
          part.speed < P.minPartSpeed → i.now - part.timestamp > P.minPartTimeout →
            part.partNumber ∈ (m.tick s i).2.zombies)
      ∧ (∀ n ∈ (m.tick s i).2.zombies,
          ∃ part ∈ i.partTimes, part.partNumber = n ∧ part.speed < P.minPartSpeed
            ∧ i.now - part.timestamp > P.minPartTimeout)
      ∧ (m.tick s i).1 = m.fallback i (m.afterEmergency s i) := by
  have hb := (Monitor.tick_evaluated_iff m s i).mp hev
  rw [hb] at hreach ⊢
  have hz : (m.body s i).2.zombies
      = (i.partTimes.filter (fun part => isZombie P i.now part)).map
          (fun part => part.partNumber) :=
    (Monitor.body_zombies m P hP s i hreach).trans (zombieParts_eq P i.now i.partTimes)
  refine ⟨hz, ?_, ?_, (Monitor.body_eq_chain m s i hreach).1⟩
  · intro part hpart h1 h2
    rw [hz]
    exact List.mem_map.mpr
      ⟨part, List.mem_filter.mpr ⟨hpart, by simpa using ⟨h1, h2⟩⟩, rfl⟩
  · intro n hn
    rw [hz] at hn
    obtain ⟨part, hpart, rfl⟩ := List.mem_map.mp hn
    obtain ⟨h1, h2⟩ := List.mem_filter.mp hpart
    have h3 : isZombie P i.now part := by simpa using h2
    exact ⟨part, h1, rfl, h3.1, h3.2⟩

/-- C32 on the enterprise monitor: of the five samples of `zombieTick` only part 9, at
0.05 MB/s for 25 s, is flagged. -/
theorem zombie_step_flags_only_witness :
    (Monitor.enterprise.tick (Monitor.enterprise.start ⟨100⟩ 0) zombieTick).2.zombies = [9] :=
  (zombie_step_flags_only Monitor.enterprise ENTERPRISE_PROFILE rfl
    (Monitor.enterprise.start ⟨100⟩ 0) zombieTick (by decide!) (by decide!)).1.trans
    (by decide!)

/-! ### Claim C31: the stall watchdog -/

theorem noProgressWatchdog_fired (P : StallProfile) (stallStep : ℚ) (now : Int)
    (s : MonitorState) (h : (noProgressWatchdog P stallStep now s).2.1 = true) :
    now - s.lastProgress > P.noProgressTimeout
      ∧ (noProgressWatchdog P stallStep now s).1.lastProgress = now
      ∧ (s.contextMaxParallel > P.minParallel →
          (noProgressWatchdog P stallStep now s).1
              = { s with
                  contextMaxParallel := max (s.contextMaxParallel - stallStep) P.minParallel
                  lastProgress := now }
            ∧ (noProgressWatchdog P stallStep now s).2.2 = true)
      ∧ (s.contextMaxParallel ≤ P.minParallel →
          (noProgressWatchdog P stallStep now s).1 = { s with lastProgress := now }
            ∧ (noProgressWatchdog P stallStep now s).2.2 = false) := by
  unfold noProgressWatchdog at h ⊢
  by_cases h1 : now - s.lastProgress > P.noProgressTimeout
  · rw [if_pos h1]
    by_cases h2 : s.contextMaxParallel > P.minParallel
    · rw [if_pos h2]
      exact ⟨h1, rfl, fun _ => ⟨rfl, rfl⟩, fun h3 => absurd h2 (not_lt.mpr h3)⟩
    · rw [if_neg h2]
      exact ⟨h1, rfl, fun h3 => absurd h3 h2, fun _ => ⟨rfl, rfl⟩⟩
  · rw [if_neg h1] at h
    cases h

theorem guWatchdog_fired (P : LockProfile) (stallStep : ℚ) (now : Int)
    (s : MonitorState) (h : (guWatchdog P stallStep now s).2.1 = true) :
    now - s.lastProgress > P.noProgressTimeout
      ∧ (guWatchdog P stallStep now s).1.lastProgress = now
      ∧ (s.lockedPerformance = true →
          (guWatchdog P stallStep now s).1 = { s with lastProgress := now }
            ∧ (guWatchdog P stallStep now s).2.2.1 = false
            ∧ (guWatchdog P stallStep now s).2.2.2 = true)
      ∧ (s.lockedPerformance = false → s.contextMaxParallel > P.minParallel →
          (guWatchdog P stallStep now s).1
              = { s with
                  contextMaxParallel := max (s.contextMaxParallel - stallStep) P.minParallel
                  lastProgress := now }
            ∧ (guWatchdog P stallStep now s).2.2.1 = true)
      ∧ (s.contextMaxParallel ≤ P.minParallel →
          (guWatchdog P stallStep now s).1 = { s with lastProgress := now }
            ∧ (guWatchdog P stallStep now s).2.2.1 = false) := by
  unfold guWatchdog at h ⊢
  by_cases h1 : now - s.lastProgress > P.noProgressTimeout
  · rw [if_pos h1]
    by_cases h2 : s.contextMaxParallel > P.minParallel ∧ s.lockedPerformance = false
    · rw [if_pos h2]
      refine ⟨h1, rfl, fun h3 => ?_, fun _ _ => ⟨rfl, rfl⟩,
        fun h3 => absurd h2.1 (not_lt.mpr h3)⟩
      rw [h2.2] at h3
      cases h3
    · rw [if_neg h2]
      by_cases h3 : s.lockedPerformance = true
      · rw [if_pos h3]
        refine ⟨h1, rfl, fun _ => ⟨rfl, rfl, rfl⟩, fun h4 => ?_, fun _ => ⟨rfl, rfl⟩⟩
        rw [h3] at h4
        cases h4
      · rw [if_neg h3]
        refine ⟨h1, rfl, fun h4 => absurd h4 h3, fun h4 h5 => absurd ⟨h5, h4⟩ h2,
          fun _ => ⟨rfl, rfl⟩⟩
  · rw [if_neg h1] at h
    cases h

/-- C31, counterexample. The enterprise monitor locks its peak on the third tick of
`enterpriseLockedStall`, at parallelism 7. The fourth tick comes 57 s later, more than
`noProgressTimeout = 50000`: `lockedPerformance` is true when the watchdog runs, the
watchdog fires ("NO-PROGRESS DETECTED") and reduces the parallelism from 7 to 5 ("STALL
RECOVERY"): enterprise.js 284 tests only `context.maxParallel > minParallel`. -/
theorem enterprise_watchdog_reduces_while_locked :
    (stateAt enterpriseTick (Monitor.enterprise.start ⟨100⟩ 0) enterpriseLockedStall
        2).lockedPerformance = true
      ∧ (stateAt enterpriseTick (Monitor.enterprise.start ⟨100⟩ 0) enterpriseLockedStall
        2).contextMaxParallel = 7
      ∧ (Monitor.enterprise.afterRamp
          (stateAt enterpriseTick (Monitor.enterprise.start ⟨100⟩ 0) enterpriseLockedStall 2)
          enterpriseStallTick).lockedPerformance = true
      ∧ (Monitor.enterprise.afterRamp
          (stateAt enterpriseTick (Monitor.enterprise.start ⟨100⟩ 0) enterpriseLockedStall 2)
          enterpriseStallTick).contextMaxParallel = 7
      ∧ (eventsAt enterpriseTick (Monitor.enterprise.start ⟨100⟩ 0) enterpriseLockedStall
          3).noProgress = true
      ∧ (eventsAt enterpriseTick (Monitor.enterprise.start ⟨100⟩ 0) enterpriseLockedStall
          3).stallRecovery = true
      ∧ (Monitor.enterprise.afterWatchdog
          (stateAt enterpriseTick (Monitor.enterprise.start ⟨100⟩ 0) enterpriseLockedStall 2)
          enterpriseStallTick).contextMaxParallel = 5
      ∧ (stateAt enterpriseTick (Monitor.enterprise.start ⟨100⟩ 0) enterpriseLockedStall
          3).contextMaxParallel = 5
      ∧ (stateAt enterpriseTick (Monitor.enterprise.start ⟨100⟩ 0) enterpriseLockedStall
          3).lockedPerformance = true := by
  decide!

/-- The watchdog of a tick that reports "NO-PROGRESS DETECTED" fired. -/
theorem Monitor.tick_noProgress (m : Monitor) (s : MonitorState) (i : TickInput)
    (h : (m.tick s i).2.noProgress = true) :
    m.tick s i = m.body s i ∧ (m.watchdog s i).2.1 = true
      ∧ (m.tick s i).2.stallRecovery = (m.watchdog s i).2.2.1
      ∧ (m.tick s i).2.stallIgnored = (m.watchdog s i).2.2.2 := by
  have hb := Monitor.tick_of_flag m s i (fun ev => ev.noProgress) rfl rfl h
  rw [hb] at h ⊢
  have hc := Monitor.body_eq_chain m s i (Monitor.body_noProgress_error m s i h)
  exact ⟨rfl, by rw [← hc.2.1]; exact h, hc.2.2.1, hc.2.2.2.1⟩

/-- C31, amended. In every monitor with a stall watchdog, when the watchdog fires on a tick
the time since the last progress exceeds `noProgressTimeout` and the progress timer is
reset. In the gigabit and ultra monitors, when `lockedPerformance` is true the watchdog
does not reduce the parallelism and only resets the progress timer ("Ignoring stall
detection"). In every monitor, when it fires while not locked and the parallelism is above
`minParallel`, it reduces the parallelism by exactly one throttle step
(`profile.throttleAmount`), clamped at `minParallel`. In the DSL, enterprise and fiber
monitors the watchdog does not read `lockedPerformance`: it makes the same reduction
whenever the parallelism is above `minParallel`. With the parallelism at `minParallel` the
watchdog only resets the timer. -/
theorem watchdog_step (m : Monitor) (P : StallProfile) (hP : m.stallProfile = some P)
    (s : MonitorState) (i : TickInput) (h : (m.tick s i).2.noProgress = true) :
    i.now - (m.afterRamp s i).lastProgress > P.noProgressTimeout
      ∧ (m.afterWatchdog s i).lastProgress = i.now
      ∧ (m = Monitor.gigabit ∨ m = Monitor.ultra →
          (m.afterRamp s i).lockedPerformance = true →
            m.afterWatchdog s i = { m.afterRamp s i with lastProgress := i.now }
              ∧ (m.tick s i).2.stallRecovery = false
              ∧ (m.tick s i).2.stallIgnored = true)
      ∧ ((m.afterRamp s i).lockedPerformance = false →
          (m.afterRamp s i).contextMaxParallel > P.minParallel →
            m.afterWatchdog s i
                = { m.afterRamp s i with
                    contextMaxParallel :=
                      max ((m.afterRamp s i).contextMaxParallel - P.throttleAmount)
                        P.minParallel
                    lastProgress := i.now }
              ∧ (m.tick s i).2.stallRecovery = true)
      ∧ (m = Monitor.dsl ∨ m = Monitor.enterprise ∨ m = Monitor.fiber →
          (m.afterRamp s i).contextMaxParallel > P.minParallel →
            m.afterWatchdog s i
                = { m.afterRamp s i with
                    contextMaxParallel :=
                      max ((m.afterRamp s i).contextMaxParallel - P.throttleAmount)
                        P.minParallel
                    lastProgress := i.now }
              ∧ (m.tick s i).2.stallRecovery = true)
      ∧ ((m.afterRamp s i).contextMaxParallel ≤ P.minParallel →
          m.afterWatchdog s i = { m.afterRamp s i with lastProgress := i.now }
            ∧ (m.tick s i).2.stallRecovery = false) := by
  obtain ⟨_, hw, hr, hi⟩ := Monitor.tick_noProgress m s i h
  rw [hr, hi]
  cases m
  case cable => cases hP
  case dsl =>
    cases hP
    have e : dslTuning.stallStep = DSL_PROFILE.throttleAmount := by
      norm_num [dslTuning, DSL_PROFILE]
    obtain ⟨a, b, c, d⟩ := noProgressWatchdog_fired DSL_PROFILE dslTuning.stallStep i.now
      (Monitor.dsl.afterRamp s i) hw
    rw [e] at c
    exact ⟨a, b, fun hm => hm.elim (fun x => Monitor.noConfusion x)
      (fun x => Monitor.noConfusion x), fun _ hc => c hc, fun _ hc => c hc, d⟩
  case enterprise =>
    cases hP
    have e : enterpriseTuning.stallStep = ENTERPRISE_PROFILE.throttleAmount := by
      norm_num [enterpriseTuning, ENTERPRISE_PROFILE]
    obtain ⟨a, b, c, d⟩ := noProgressWatchdog_fired ENTERPRISE_PROFILE
      enterpriseTuning.stallStep i.now (Monitor.enterprise.afterRamp s i) hw
    rw [e] at c
    exact ⟨a, b, fun hm => hm.elim (fun x => Monitor.noConfusion x)
      (fun x => Monitor.noConfusion x), fun _ hc => c hc, fun _ hc => c hc, d⟩
  case fiber =>
    cases hP
    have e : (2 : ℚ) = FIBER_PROFILE.throttleAmount := by norm_num [FIBER_PROFILE]
    obtain ⟨a, b, c, d⟩ := noProgressWatchdog_fired FIBER_PROFILE 2 i.now
      (Monitor.fiber.afterRamp s i) hw
    rw [e] at c
    exact ⟨a, b, fun hm => hm.elim (fun x => Monitor.noConfusion x)
      (fun x => Monitor.noConfusion x), fun _ hc => c hc, fun _ hc => c hc, d⟩
  case gigabit =>
    cases hP
    obtain ⟨a, b, c, d, f⟩ := guWatchdog_fired GIGABIT_PROFILE gigabitTuning.stallStep i.now
      (Monitor.gigabit.afterRamp s i) hw
    exact ⟨a, b, fun _ hl => c hl, d,
      fun hm => hm.elim (fun x => Monitor.noConfusion x)
        (fun x => x.elim (fun y => Monitor.noConfusion y) (fun y => Monitor.noConfusion y)),
      f⟩
  case ultra =>
    cases hP
    have e : ultraTuning.stallStep = ULTRA_PROFILE.throttleAmount := by
      norm_num [ultraTuning, ULTRA_PROFILE]
    obtain ⟨a, b, c, d, f⟩ := guWatchdog_fired ULTRA_PROFILE ultraTuning.stallStep i.now
      (Monitor.ultra.afterRamp s i) hw
    rw [e] at d
    exact ⟨a, b, fun _ hl => c hl, d,
      fun hm => hm.elim (fun x => Monitor.noConfusion x)
        (fun x => x.elim (fun y => Monitor.noConfusion y) (fun y => Monitor.noConfusion y)),
      f⟩

/-- C31, amended, on the gigabit monitor: 70 s after its creation the locked monitor sees
400 Mbps; the watchdog fires, ignores the stall and only resets the timer. -/
theorem watchdog_step_witness :
    (Monitor.gigabit.tick (Monitor.gigabit.start ⟨1000⟩ 0) gigabitDecayTick).2.noProgress
        = true
      ∧ (Monitor.gigabit.afterRamp (Monitor.gigabit.start ⟨1000⟩ 0)
          gigabitDecayTick).lockedPerformance = true
      ∧ Monitor.gigabit.afterWatchdog (Monitor.gigabit.start ⟨1000⟩ 0) gigabitDecayTick
          = { Monitor.gigabit.afterRamp (Monitor.gigabit.start ⟨1000⟩ 0) gigabitDecayTick with
              lastProgress := gigabitDecayTick.now }
      ∧ (Monitor.gigabit.tick (Monitor.gigabit.start ⟨1000⟩ 0)
          gigabitDecayTick).2.stallRecovery = false
      ∧ (Monitor.gigabit.tick (Monitor.gigabit.start ⟨1000⟩ 0)
          gigabitDecayTick).2.stallIgnored = true :=
  ⟨by decide!, by decide!,
    (watchdog_step Monitor.gigabit GIGABIT_PROFILE.toStallProfile rfl
      (Monitor.gigabit.start ⟨1000⟩ 0) gigabitDecayTick (by decide!)).2.2.1 (Or.inl rfl)
      (by decide!)⟩

/-! ### Claim C38: the progress timer of gigabit and ultra -/

theorem emergencyReset_lastProgress_cases (P : StallProfile) (now : Int) (cT : ℚ) (c : Nat)
    (s : MonitorState) :
    (emergencyReset P now cT c s).1.lastProgress = s.lastProgress
      ∨ (emergencyReset P now cT c s).1.lastProgress = now := by
  unfold emergencyReset
  split_ifs
  · left; rfl
  · left; rfl
  · right; rfl
  · left; rfl

theorem peakUpdate_lastProgress_cases (P : LockProfile) (now : Int) (cT sp : ℚ)
    (s : MonitorState) :
    (peakUpdate P now cT sp s).1.lastProgress = s.lastProgress
      ∨ (peakUpdate P now cT sp s).1.lastProgress = now := by
  unfold peakUpdate
  split_ifs
  · right; rfl
  · left; rfl

theorem Monitor.minSamples_pos (m : Monitor) : 0 < m.minSamples := by
  cases m <;> decide

/-- An evaluated tick saw at least the monitor's minimum number of recent samples. -/
theorem Monitor.evaluated_min_samples (m : Monitor) (s : MonitorState) (i : TickInput)
    (h : (m.tick s i).2.evaluated = true) : m.minSamples ≤ (m.recentParts i).length := by
  by_contra hlt
  have e := Monitor.tick_below_min m s i (not_le.mp hlt)
  rw [e] at h
  split_ifs at h

theorem Monitor.afterEmergency_lastProgress (m : Monitor)
    (hm : m = Monitor.gigabit ∨ m = Monitor.ultra) (s : MonitorState) (i : TickInput)
    (hlen : 0 < (m.recentParts i).length) : (m.afterEmergency s i).lastProgress = i.now := by
  have hc : ∀ t : MonitorState,
      (continuousProgress i (m.recentParts i).length t).lastProgress = i.now := by
    intro t
    unfold continuousProgress
    rw [if_pos (Or.inr hlen)]
  rcases hm with rfl | rfl
  · rcases emergencyReset_lastProgress_cases GIGABIT_PROFILE.toStallProfile i.now
      (Monitor.gigabit.currentThroughput i) (Monitor.gigabit.recentParts i).length
      (continuousProgress i (Monitor.gigabit.recentParts i).length
        (Monitor.gigabit.afterWatchdog s i)) with h | h
    · exact h.trans (hc _)
    · exact h
  · rcases emergencyReset_lastProgress_cases ULTRA_PROFILE.toStallProfile i.now
      (Monitor.ultra.currentThroughput i) (Monitor.ultra.recentParts i).length
      (continuousProgress i (Monitor.ultra.recentParts i).length
        (Monitor.ultra.afterWatchdog s i)) with h | h
    · exact h.trans (hc _)
    · exact h

theorem Monitor.fallback_lastProgress (m : Monitor) (i : TickInput) (s : MonitorState) :
    (m.fallback i s).lastProgress = s.lastProgress := by
  cases m <;> simp [Monitor.fallback]

/-- In gigabit.js and ultra.js an evaluated tick ends with `lastProgress` at its clock. -/
theorem Monitor.tick_lastProgress (m : Monitor)
    (hm : m = Monitor.gigabit ∨ m = Monitor.ultra) (s : MonitorState) (i : TickInput)
    (h : (m.tick s i).2.evaluated = true) : (m.tick s i).1.lastProgress = i.now := by
  have hlen := lt_of_lt_of_le m.minSamples_pos (Monitor.evaluated_min_samples m s i h)
  have hb := (Monitor.tick_evaluated_iff m s i).mp h
  have hne : (m.body s i).2.monitorError = false := by
    rcases hm with rfl | rfl <;> rfl
  rw [hb, (Monitor.body_eq_chain m s i hne).1, Monitor.fallback_lastProgress]
  exact Monitor.afterEmergency_lastProgress m hm s i hlen

/-- A tick that evaluates nothing leaves `lastProgress` as it was. -/
theorem Monitor.tick_lastProgress_idle (m : Monitor) (s : MonitorState) (i : TickInput)
    (h : ¬ (m.tick s i).2.evaluated = true) : (m.tick s i).1.lastProgress = s.lastProgress := by
  rcases Monitor.tick_eq_body_or_idle m s i with hb | hb | hb
  · exact absurd ((Monitor.tick_evaluated_iff m s i).mpr hb) h
  · rw [hb]
  · rw [hb]

theorem Monitor.finalState_lastProgress (m : Monitor)
    (hm : m = Monitor.gigabit ∨ m = Monitor.ultra) (inputs : List TickInput) :
    ∀ s : MonitorState,
      (finalState m.tick s inputs).lastProgress
        = m.lastEvaluatedClock s.lastProgress s inputs := by
  induction inputs with
  | nil => intro s; rfl
  | cons i rest ih =>
    intro s
    simp only [finalState, Monitor.lastEvaluatedClock]
    rw [ih]
    by_cases h : (m.tick s i).2.evaluated = true
    · rw [if_pos h, Monitor.tick_lastProgress m hm s i h]
    · rw [if_neg h, Monitor.tick_lastProgress_idle m s i h]

/-- In gigabit.js and ultra.js the watchdog reads the `lastProgress` the tick started with,
unless the peak update of the same tick has just set it to the tick's clock. -/
theorem Monitor.afterRamp_lastProgress_cases (m : Monitor)
    (hm : m = Monitor.gigabit ∨ m = Monitor.ultra) (s : MonitorState) (i : TickInput) :
    (m.afterRamp s i).lastProgress = s.lastProgress
      ∨ (m.afterRamp s i).lastProgress = i.now := by
  rcases hm with rfl | rfl
  · have h := peakUpdate_lastProgress_cases GIGABIT_PROFILE i.now
      (realThroughputMbps (sliceLast i.partTimes 10))
      (WNET.avgPartSpeed (sliceLast i.partTimes 10) * 8)
      (recordAvgPartSpeed 5 (sliceLast i.partTimes 10) s)
    simpa [Monitor.afterRamp, Monitor.rampStep, Monitor.beforeRamp, Monitor.thrashingGuard,
      Monitor.afterDecay, Monitor.beforeDecay, guBeforeDecay] using h
  · have h := peakUpdate_lastProgress_cases ULTRA_PROFILE i.now
      (realThroughputMbps (sliceLast i.partTimes 10))
      (WNET.avgPartSpeed (sliceLast i.partTimes 10) * 8)
      (recordAvgPartSpeed 5 (sliceLast i.partTimes 10) s)
    simpa [Monitor.afterRamp, Monitor.rampStep, Monitor.beforeRamp, Monitor.thrashingGuard,
      Monitor.afterDecay, Monitor.beforeDecay, guBeforeDecay] using h

/-- C38. In the gigabit and ultra monitors, at the end of every evaluated tick the progress
timer `lastProgress` equals that tick's clock value, whatever the samples are; so after
every tick sequence `lastProgress` is the clock of the last evaluated tick (the creation
time when no tick was evaluated yet), and the stall watchdog can fire on a tick only if
more than `noProgressTimeout` has elapsed since the previous evaluated tick (or since the
monitor's creation), regardless of whether any chunk completed in between. -/
theorem progress_timer_is_tick_clock (m : Monitor)
    (hm : m = Monitor.gigabit ∨ m = Monitor.ultra) (P : StallProfile)
    (hP : m.stallProfile = some P) (connectionInfo : ConnectionInfo) (createdAt : Int)
    (inputs : List TickInput) (i : TickInput) :
    (∀ s : MonitorState, (m.tick s i).2.evaluated = true → (m.tick s i).1.lastProgress = i.now)
      ∧ (m.reached connectionInfo createdAt inputs).lastProgress
        = m.lastEvaluatedClock createdAt (m.start connectionInfo createdAt) inputs
      ∧ ((m.tick (m.reached connectionInfo createdAt inputs) i).2.noProgress = true →
          i.now - m.lastEvaluatedClock createdAt (m.start connectionInfo createdAt) inputs
            > P.noProgressTimeout) := by
  have hstart : (m.start connectionInfo createdAt).lastProgress = createdAt := by
    rcases hm with rfl | rfl <;> rfl
  have hreach : (m.reached connectionInfo createdAt inputs).lastProgress
      = m.lastEvaluatedClock createdAt (m.start connectionInfo createdAt) inputs := by
    have h := Monitor.finalState_lastProgress m hm inputs (m.start connectionInfo createdAt)
    rw [hstart] at h
    exact h
  refine ⟨fun s h => Monitor.tick_lastProgress m hm s i h, hreach, fun h => ?_⟩
  obtain ⟨_, hw, _, _⟩ := Monitor.tick_noProgress m _ i h
  have hfire : i.now - (m.afterRamp (m.reached connectionInfo createdAt inputs) i).lastProgress
      > P.noProgressTimeout := by
    rcases hm with rfl | rfl
    · cases hP
      exact (guWatchdog_fired GIGABIT_PROFILE gigabitTuning.stallStep i.now _ hw).1
    · cases hP
      exact (guWatchdog_fired ULTRA_PROFILE ultraTuning.stallStep i.now _ hw).1
  have hpos : 0 ≤ P.noProgressTimeout := by
    rcases hm with rfl | rfl
    · cases hP; decide
    · cases hP; decide
  rcases Monitor.afterRamp_lastProgress_cases m hm
    (m.reached connectionInfo createdAt inputs) i with h1 | h1
  · rw [h1, hreach] at hfire
    exact hfire
  · rw [h1] at hfire
    omega

/-- C38 on the gigabit monitor: after the four ticks of `fourLowTicks` the progress timer
is 18500, the clock of the fourth tick. -/
theorem progress_timer_is_tick_clock_witness :
    (Monitor.gigabit.reached ⟨1000⟩ 0 fourLowTicks).lastProgress = 18500 :=
  (progress_timer_is_tick_clock Monitor.gigabit (Or.inl rfl) GIGABIT_PROFILE.toStallProfile
    rfl ⟨1000⟩ 0 fourLowTicks
    (sampleInput 90000 (sampleParts 10 2 5000) 100000000000)).2.1.trans
    (by decide!)

/-! ### Claim C34: phase "dropping" is sticky -/

theorem hysteresis_dropping (d r w peak avg : ℚ) (s : MonitorState)
    (hs : s.peakResetState = PeakResetState.dropping) (h : avg ≤ r * peak) :
    (hysteresis d r w peak avg s).peakResetState = PeakResetState.dropping := by
  unfold hysteresis
  split_ifs with h1 h2 h3
  · rfl
  · exact absurd h (not_le.mpr h2)
  · rw [hs] at h3
    exact absurd h3.2 (by decide)
  · exact hs

theorem reinforcementLock_of_not_stable (t : ℚ) (c : Nat) (cT : ℚ) (s : MonitorState)
    (h : s.peakResetState ≠ PeakResetState.stable) : reinforcementLock t c cT s = (s, false) := by
  unfold reinforcementLock
  rw [if_neg]
  intro hc
  exact h hc.2.1

theorem emergencyReset_phase (P : StallProfile) (now : Int) (cT : ℚ) (c : Nat)
    (s : MonitorState) (h : (emergencyReset P now cT c s).2 = false) :
    (emergencyReset P now cT c s).1.peakResetState = s.peakResetState := by
  unfold emergencyReset at h ⊢
  split_ifs at h ⊢
  all_goals rfl

theorem guLockMode_phase (P : LockProfile) (T : GUTuning) (now : Int) (speed cT : ℚ)
    (s : MonitorState) (h : (guLockMode P T now speed cT s).2.degradationUnlock = false) :
    (guLockMode P T now speed cT s).1.peakResetState = s.peakResetState := by
  unfold guLockMode at h ⊢
  split_ifs at h ⊢
  all_goals rfl

theorem deDecay_dropping (P : StallProfile) (T : DETuning) (now : Int) (cT : ℚ)
    (s : MonitorState) (hs : s.peakResetState = PeakResetState.dropping)
    (hq : (deDecay P T now cT s).2.sustainedDrop = false)
    (havg : decayGuard s = true →
      averageThroughput T.weights (recordThroughput T.smoothingMax cT s).throughputSmoothingHistory
        ≤ T.recoveryFraction * toNumber s.initialPeakThroughput) :
    (deDecay P T now cT s).1.peakResetState = PeakResetState.dropping := by
  unfold deDecay at hq ⊢
  split_ifs at hq ⊢ with hg
  · simp only at hq ⊢
    rw [sustainedDrop_quiet _ _ _ _ _ hq]
    simp only [peakLost_peakResetState, peakReinforced_peakResetState,
      peakReinforcement_peakResetState]
    exact hysteresis_dropping _ _ _ _ _ _ (by simpa using hs) (havg hg)
  · exact hs

theorem cableDecay_dropping (now : Int) (cT : ℚ) (s : MonitorState)
    (hs : s.peakResetState = PeakResetState.dropping)
    (hq : (cableDecay now cT s).2.smartReset = false)
    (havg : decayGuard s = true →
      averageThroughput [0.4, 0.3, 0.15, 0.1, 0.05]
          (recordThroughput 5 cT s).throughputSmoothingHistory
        ≤ 0.75 * toNumber s.initialPeakThroughput) :
    (cableDecay now cT s).1.peakResetState = PeakResetState.dropping := by
  unfold cableDecay at hq ⊢
  split_ifs at hq ⊢ with hg
  · simp only at hq ⊢
    rw [smartReset_quiet _ _ _ hq]
    simp only [peakReinforcement_peakResetState]
    exact hysteresis_dropping _ _ _ _ _ _ (by simpa using hs) (havg hg)
  · exact hs

theorem guDecay_dropping (T : GUTuning) (now : Int) (cT : ℚ) (s : MonitorState)
    (hs : s.peakResetState = PeakResetState.dropping)
    (hq : (guDecay T now cT s).2.smartReset = false)
    (havg : decayGuard s = true →
      averageThroughput [0.4, 0.3, 0.15, 0.1, 0.05]
          (recordThroughput 5 cT s).throughputSmoothingHistory
        ≤ 0.85 * toNumber s.initialPeakThroughput) :
    (guDecay T now cT s).1.peakResetState = PeakResetState.dropping := by
  unfold guDecay at hq ⊢
  split_ifs at hq ⊢ with hg
  · simp only at hq ⊢
    rw [smartReset_quiet _ _ _ hq]
    simp only [peakReinforcement_peakResetState]
    exact hysteresis_dropping _ _ _ _ _ _ (by simpa using hs) (havg hg)
  · exact hs

theorem fiberDecay_dropping (now : Int) (cT : ℚ) (s : MonitorState)
    (hs : s.peakResetState = PeakResetState.dropping)
    (havg : decayGuard s = true →
      averageThroughput [0.4, 0.3, 0.15, 0.1, 0.05]
          (recordThroughput 5 cT s).throughputSmoothingHistory
        ≤ 0.80 * toNumber s.initialPeakThroughput) :
    (fiberDecay now cT s).1.peakResetState = PeakResetState.dropping := by
  unfold fiberDecay
  split_ifs with hg
  · simp only [peakReinforcement_peakResetState]
    exact hysteresis_dropping _ _ _ _ _ _ (by simpa using hs) (havg hg)
  · exact hs

/-- The steps before the decay block leave the phase "dropping" alone. -/
theorem Monitor.beforeDecay_dropping (m : Monitor) (s : MonitorState) (i : TickInput)
    (hs : s.peakResetState = PeakResetState.dropping) :
    (m.beforeDecay s i).peakResetState = PeakResetState.dropping := by
  have hne : ∀ t : MonitorState, t.peakResetState = PeakResetState.dropping →
      t.peakResetState ≠ PeakResetState.stable := by
    intro t ht; rw [ht]; decide
  cases m
  case cable => simpa [Monitor.beforeDecay, cableBeforeDecay] using hs
  all_goals
    simp only [Monitor.beforeDecay, deBeforeDecay, fiberBeforeDecay, guBeforeDecay]
    rw [reinforcementLock_of_not_stable _ _ _ _ (hne _ (by simpa using hs))]
    simpa using hs

/-- The phase after the decay block of a tick that starts in phase "dropping". -/
theorem Monitor.afterDecay_dropping (m : Monitor) (s : MonitorState) (i : TickInput)
    (hs : s.peakResetState = PeakResetState.dropping)
    (h1 : (m.body s i).2.sustainedDrop = false) (h2 : (m.body s i).2.smartReset = false)
    (havg : decayGuard (m.beforeDecay s i) = true →
      m.averageThroughput s i ≤ m.recoveryFraction * m.initialPeak s i) :
    (m.afterDecay s i).peakResetState = PeakResetState.dropping := by
  have hb := Monitor.beforeDecay_dropping m s i hs
  cases m
  case dsl => exact deDecay_dropping _ _ _ _ _ hb h1 havg
  case enterprise => exact deDecay_dropping _ _ _ _ _ hb h1 havg
  case cable => exact cableDecay_dropping _ _ _ hb h2 havg
  case fiber => exact fiberDecay_dropping _ _ _ hb havg
  case gigabit => exact guDecay_dropping _ _ _ _ hb h2 havg
  case ultra => exact guDecay_dropping _ _ _ _ hb h2 havg

/-- The thrashing protection does not write the phase. -/
theorem Monitor.beforeRamp_phase (m : Monitor) (s : MonitorState) (i : TickInput) :
    (m.beforeRamp s i).peakResetState = (m.afterDecay s i).peakResetState := by
  cases m <;> simp [Monitor.beforeRamp, Monitor.thrashingGuard]

/-- The ramp logic writes the phase only in the severe-degradation unlock of gigabit.js
and ultra.js. -/
theorem Monitor.afterRamp_phase (m : Monitor) (s : MonitorState) (i : TickInput)
    (h : (m.body s i).2.degradationUnlock = false)
    (he : (m.body s i).2.monitorError = false) :
    (m.afterRamp s i).peakResetState = (m.beforeRamp s i).peakResetState := by
  cases m
  case gigabit =>
    have h' : (guLockMode GIGABIT_PROFILE gigabitTuning i.now (Monitor.gigabit.rampSpeed s i)
        (Monitor.gigabit.currentThroughput i)
        (guTrackLow gigabitTuning (Monitor.gigabit.rampSpeed s i)
          (Monitor.gigabit.currentThroughput i)
          (Monitor.gigabit.beforeRamp s i))).2.degradationUnlock = false := h
    simp only [Monitor.afterRamp, Monitor.rampStep, applyAdjustment_peakResetState,
      guRampDown_peakResetState]
    rw [guLockMode_phase _ _ _ _ _ _ h']
    simp
  case ultra =>
    have h' : (guLockMode ULTRA_PROFILE ultraTuning i.now (Monitor.ultra.rampSpeed s i)
        (Monitor.ultra.currentThroughput i)
        (guTrackLow ultraTuning (Monitor.ultra.rampSpeed s i)
          (Monitor.ultra.currentThroughput i)
          (Monitor.ultra.beforeRamp s i))).2.degradationUnlock = false := h
    simp only [Monitor.afterRamp, Monitor.rampStep, applyAdjustment_peakResetState,
      guRampDown_peakResetState]
    rw [guLockMode_phase _ _ _ _ _ _ h']
    simp
  all_goals simp [Monitor.afterRamp, Monitor.rampStep]

/-- The watchdog does not write the phase. -/
theorem Monitor.afterWatchdog_phase (m : Monitor) (s : MonitorState) (i : TickInput) :
    (m.afterWatchdog s i).peakResetState = (m.afterRamp s i).peakResetState := by
  cases m <;> simp [Monitor.afterWatchdog, Monitor.watchdog]

/-- The emergency reset block writes the phase only when it fires. -/
theorem Monitor.afterEmergency_phase (m : Monitor) (s : MonitorState) (i : TickInput)
    (h : (m.emergency s i).2 = false) :
    (m.afterEmergency s i).peakResetState = (m.afterWatchdog s i).peakResetState := by
  cases m
  case cable => rfl
  case gigabit =>
    exact (emergencyReset_phase _ _ _ _ _ h).trans (by simp)
  case ultra =>
    exact (emergencyReset_phase _ _ _ _ _ h).trans (by simp)
  all_goals exact emergencyReset_phase _ _ _ _ _ h

theorem Monitor.fallback_phase (m : Monitor) (i : TickInput) (s : MonitorState) :
    (m.fallback i s).peakResetState = s.peakResetState := by
  cases m <;> simp [Monitor.fallback]

/-- A fiber tick whose decay block threw ends in the state the decay block left. -/
theorem Monitor.body_of_error (m : Monitor) (s : MonitorState) (i : TickInput)
    (h : (m.body s i).2.monitorError = true) : (m.body s i).1 = m.afterDecay s i := by
  cases m
  case fiber =>
    revert h
    simp only [Monitor.body, fiberBody]
    split_ifs
    · intro _; rfl
    · intro h
      exfalso
      revert h
      simp [fiberAfterDecay]
  all_goals cases h

/-- An evaluated tick that starts in phase "dropping" ends in it, unless a reset fires or
the average exceeds the recovery threshold. -/
theorem Monitor.body_phase (m : Monitor) (s : MonitorState) (i : TickInput)
    (hs : s.peakResetState = PeakResetState.dropping)
    (h1 : (m.body s i).2.sustainedDrop = false) (h2 : (m.body s i).2.smartReset = false)
    (h3 : (m.body s i).2.degradationUnlock = false)
    (h4 : (m.body s i).2.emergencyReset = false)
    (havg : decayGuard (m.beforeDecay s i) = true →
      m.averageThroughput s i ≤ m.recoveryFraction * m.initialPeak s i) :
    (m.body s i).1.peakResetState = PeakResetState.dropping := by
  have hd := Monitor.afterDecay_dropping m s i hs h1 h2 havg
  cases he : (m.body s i).2.monitorError
  · obtain ⟨c1, _, _, _, c5⟩ := Monitor.body_eq_chain m s i he
    rw [c1, Monitor.fallback_phase, Monitor.afterEmergency_phase m s i (by rw [← c5]; exact h4),
      Monitor.afterWatchdog_phase, Monitor.afterRamp_phase m s i h3 he, Monitor.beforeRamp_phase]
    exact hd
  · rw [Monitor.body_of_error m s i he]
    exact hd

/-- C34. Hysteresis is sticky in every profile monitor: if the phase is "dropping" before a
tick, and during that tick no reset fires (sustained-drop reset of DSL and enterprise,
smart reset of cable, gigabit and ultra, severe-degradation unlock, emergency reset) and
the weighted average throughput of the decay block, when the block runs, does not exceed
the recovery threshold, then the phase is still "dropping" after the tick; in particular
an average at or below the recovery threshold never moves the state machine from
"dropping" back to "stable" or to "warning". -/
theorem dropping_is_sticky (m : Monitor) (s : MonitorState) (i : TickInput)
    (hdrop : s.peakResetState = PeakResetState.dropping)
    (h1 : (m.tick s i).2.sustainedDrop = false) (h2 : (m.tick s i).2.smartReset = false)
    (h3 : (m.tick s i).2.degradationUnlock = false)
    (h4 : (m.tick s i).2.emergencyReset = false)
    (havg : decayGuard (m.beforeDecay s i) = true →
      m.averageThroughput s i ≤ m.recoveryFraction * m.initialPeak s i) :
    (m.tick s i).1.peakResetState = PeakResetState.dropping
      ∧ (m.beforeDecay s i).peakResetState = PeakResetState.dropping
      ∧ (m.averageThroughput s i ≤ m.recoveryFraction * m.initialPeak s i →
          (m.hysteresis s i).peakResetState = PeakResetState.dropping
            ∧ (m.hysteresis s i).peakResetState ≠ PeakResetState.stable
            ∧ (m.hysteresis s i).peakResetState ≠ PeakResetState.warning) := by
  have hb := Monitor.beforeDecay_dropping m s i hdrop
  refine ⟨?_, hb, fun hle => ?_⟩
  · rcases Monitor.tick_eq_body_or_idle m s i with e | e | e
    · rw [e] at h1 h2 h3 h4 ⊢
      exact Monitor.body_phase m s i hdrop h1 h2 h3 h4 havg
    · rw [e]; exact hdrop
    · rw [e]; exact hdrop
  · have hh : (m.hysteresis s i).peakResetState = PeakResetState.dropping :=
      hysteresis_dropping _ _ _ _ _ _ (by simpa [Monitor.beforeHysteresis] using hb) hle
    refine ⟨hh, ?_, ?_⟩ <;> rw [hh] <;> decide

/-- C34 on the DSL monitor: after the two low ticks of `dslLockLost` the phase is
"dropping"; the next tick sees 26 Mbps, the average 18.6 Mbps stays below the recovery
threshold `0.70 * 40 = 28`, and the phase is still "dropping". -/
theorem dropping_is_sticky_witness :
    (stateAt dslTick (Monitor.dsl.start ⟨3⟩ 0) dslLockLost 4).peakResetState
        = PeakResetState.dropping
      ∧ (Monitor.dsl.tick (stateAt dslTick (Monitor.dsl.start ⟨3⟩ 0) dslLockLost 4)
          dslLostTick).1.peakResetState = PeakResetState.dropping :=
  ⟨by decide!,
    (dropping_is_sticky Monitor.dsl (stateAt dslTick (Monitor.dsl.start ⟨3⟩ 0) dslLockLost 4)
      dslLostTick (by decide!) (by decide!) (by decide!) (by decide!) (by decide!)
      (fun _ => by decide!)).1⟩

/-! ## Whole-number parallelism -/

theorem isWhole_iff (x : ℚ) : isWhole x ↔ ∃ a : ℤ, x = a := by
  unfold isWhole
  constructor
  · intro h
    exact ⟨x.num, ((Rat.den_eq_one_iff x).mp h).symm⟩
  · rintro ⟨a, rfl⟩
    exact Rat.den_intCast a

theorem isWhole_add {x y : ℚ} (hx : isWhole x) (hy : isWhole y) : isWhole (x + y) := by
  obtain ⟨a, rfl⟩ := (isWhole_iff x).mp hx
  obtain ⟨b, rfl⟩ := (isWhole_iff y).mp hy
  exact (isWhole_iff _).mpr ⟨a + b, by push_cast; rfl⟩

theorem isWhole_sub {x y : ℚ} (hx : isWhole x) (hy : isWhole y) : isWhole (x - y) := by
  obtain ⟨a, rfl⟩ := (isWhole_iff x).mp hx
  obtain ⟨b, rfl⟩ := (isWhole_iff y).mp hy
  exact (isWhole_iff _).mpr ⟨a - b, by push_cast; rfl⟩

theorem isWhole_min {x y : ℚ} (hx : isWhole x) (hy : isWhole y) : isWhole (min x y) := by
  rcases min_choice x y with h | h <;> rw [h] <;> assumption

theorem isWhole_max {x y : ℚ} (hx : isWhole x) (hy : isWhole y) : isWhole (max x y) := by
  rcases max_choice x y with h | h <;> rw [h] <;> assumption

theorem isWhole_one : isWhole 1 := by decide

theorem isWhole_two : isWhole 2 := by decide

theorem gigabit_constants : GUConstants GIGABIT_PROFILE gigabitTuning := by
  constructor <;> decide!

theorem ultra_constants : GUConstants ULTRA_PROFILE ultraTuning := by
  constructor <;> decide!

/-- With the parallelism at most the recorded optimum whenever the peak is detected, the
thrashing protection only records the throughput. -/
theorem thrashingProtection_of_sweet (pd : ℚ) (hm w : Nat) (f cT cur : ℚ) (s : MonitorState)
    (h : s.peakPerformanceDetected = true → cur ≤ s.optimalParallel) :
    thrashingProtection pd hm w f cT cur s
      = ({ s with peakThroughputHistory := pushShift s.peakThroughputHistory cT hm }, false) := by
  unfold thrashingProtection
  split_ifs with h1 h2
  · exact absurd (h h1.1) (not_le.mpr h2.2)
  · rfl
  · rfl

/-! ## The invariant of the gigabit and ultra monitors -/

theorem guBeforeDecay_inv (P : LockProfile) (T : GUTuning) (i : TickInput)
    (rp : List PartTime) (s : MonitorState) (h : GUInvariant P s) :
    GUInvariant P (guBeforeDecay P T i rp s) := by
  obtain ⟨f1, f2, _⟩ := guBeforeDecay_frame P T i rp s
  refine ⟨?_, ?_, ?_, ?_, ?_, ?_⟩
  · simpa [guBeforeDecay] using h.cap
  · simpa [guBeforeDecay] using h.whole
  · simpa [guBeforeDecay] using h.lower
  · simpa [guBeforeDecay] using h.upper
  · intro hl
    rw [f1]
    apply h.lock
    by_contra hc
    rw [Bool.not_eq_false] at hc
    rw [f2 hc] at hl
    cases hl
  · intro hp
    rw [f1] at hp
    simpa [guBeforeDecay] using h.sweet hp

theorem guDecay_inv (P : LockProfile) (T : GUTuning) (now : Int) (cT : ℚ)
    (s : MonitorState) (h : GUInvariant P s) : GUInvariant P (guDecay T now cT s).1 := by
  have hpk : (guDecay T now cT s).1.peakPerformanceDetected = true →
      s.peakPerformanceDetected = true := by
    intro hp
    by_contra hc
    rw [Bool.not_eq_true] at hc
    rw [guDecay_no_peak T now cT s hc, hc] at hp
    cases hp
  refine ⟨?_, ?_, ?_, ?_, ?_, ?_⟩
  · simpa using h.cap
  · simpa using h.whole
  · simpa using h.lower
  · simpa using h.upper
  · intro hl
    rw [guDecay_lockedPerformance] at hl
    rw [guDecay_no_peak T now cT s (h.lock hl)]
    exact h.lock hl
  · intro hp
    simpa using h.sweet (hpk hp)

theorem guThrashing_inv (P : LockProfile) (pd : ℚ) (hm w : Nat) (f cT : ℚ)
    (s : MonitorState) (h : GUInvariant P s) :
    (thrashingProtection pd hm w f cT s.contextMaxParallel s).2 = false
      ∧ GUInvariant P (thrashingProtection pd hm w f cT s.contextMaxParallel s).1 := by
  rw [thrashingProtection_of_sweet pd hm w f cT s.contextMaxParallel s h.sweet]
  exact ⟨rfl, ⟨h.cap, h.whole, h.lower, h.upper, h.lock, h.sweet⟩⟩

theorem guTrackLow_inv (P : LockProfile) (T : GUTuning) (sp cT : ℚ) (s : MonitorState)
    (h : GUInvariant P s) : GUInvariant P (guTrackLow T sp cT s) := by
  unfold guTrackLow
  split_ifs <;> exact ⟨h.cap, h.whole, h.lower, h.upper, h.lock, h.sweet⟩

theorem guLockMode_inv (P : LockProfile) (T : GUTuning) (now : Int) (sp cT : ℚ)
    (s : MonitorState) (h : GUInvariant P s) :
    GUInvariant P (guLockMode P T now sp cT s).1
      ∧ ((guLockMode P T now sp cT s).2.shouldAdjust = true →
          (guLockMode P T now sp cT s).1.peakPerformanceDetected = false
            ∧ (guLockMode P T now sp cT s).2.newParallel
              = min (s.contextMaxParallel + P.rampStep) s.maxParallelCap) := by
  unfold guLockMode
  split_ifs with h1 h2 h3 h4 h5 h6
  · exact ⟨⟨h.cap, h.whole, h.lower, h.upper, fun _ => rfl, fun hp => by cases hp⟩,
      fun hc => by cases hc⟩
  · exact ⟨h, fun hc => by cases hc⟩
  · exact ⟨h, fun hc => by cases hc⟩
  · exact ⟨h, fun hc => by cases hc⟩
  · exact ⟨h, fun hc => by cases hc⟩
  · have hl : s.lockedPerformance = false := by simpa using h1
    exact ⟨⟨h.cap, h.whole, h.lower, h.upper, h.lock, h.sweet⟩,
      fun _ => ⟨h.lock hl, rfl⟩⟩
  · exact ⟨h, fun hc => by cases hc⟩

theorem guRampDown_inv (P : LockProfile) (T : GUTuning) (now : Int) (cT : ℚ)
    (d : RampDecision) (s : MonitorState) (h : GUInvariant P s) :
    GUInvariant P (guRampDown P T now cT d s).1
      ∧ ((guRampDown P T now cT d s).2 = d
        ∨ ((guRampDown P T now cT d s).1.peakPerformanceDetected = false
          ∧ (guRampDown P T now cT d s).2.newParallel
            = max (s.contextMaxParallel - T.rampDownStep) P.minParallel)) := by
  unfold guRampDown
  split_ifs with h1 h2 h3
  · exact ⟨⟨h.cap, h.whole, h.lower, h.upper, fun _ => rfl, fun hp => by cases hp⟩,
      Or.inr ⟨rfl, rfl⟩⟩
  · have hl : s.lockedPerformance = false := by simpa using h3
    exact ⟨⟨h.cap, h.whole, h.lower, h.upper, h.lock, h.sweet⟩, Or.inr ⟨h.lock hl, rfl⟩⟩
  · exact ⟨h, Or.inl rfl⟩
  · exact ⟨h, Or.inl rfl⟩

theorem applyAdjustment_inv (P : LockProfile) (db now : Int) (sp : ℚ) (d : RampDecision)
    (s : MonitorState) (h : GUInvariant P s)
    (hd : d.shouldAdjust = true →
      s.peakPerformanceDetected = false ∧ isWhole d.newParallel
        ∧ P.minParallel ≤ d.newParallel ∧ d.newParallel ≤ P.maxCap) :
    GUInvariant P (applyAdjustment db now sp d s).1 := by
  unfold applyAdjustment
  split_ifs with hc
  · obtain ⟨hp, hw, hl, hu⟩ := hd hc.1
    exact ⟨h.cap, hw, hl, hu, fun _ => hp, fun hp' => by rw [hp] at hp'; cases hp'⟩
  · exact h

/-- The ramp logic of gigabit.js / ultra.js keeps the invariant: the parallelism is
written only in states without a detected peak. -/
theorem guRamp_inv (P : LockProfile) (T : GUTuning) (hc : GUConstants P T) (db now : Int)
    (sm sp cT : ℚ) (s : MonitorState) (h : GUInvariant P s) :
    GUInvariant P (applyAdjustment db now sm
      (guRampDown P T now cT (guLockMode P T now sp cT s).2 (guLockMode P T now sp cT s).1).2
      (guRampDown P T now cT (guLockMode P T now sp cT s).2
        (guLockMode P T now sp cT s).1).1).1 := by
  obtain ⟨hl, hld⟩ := guLockMode_inv P T now sp cT s h
  obtain ⟨hr, hrd⟩ := guRampDown_inv P T now cT (guLockMode P T now sp cT s).2
    (guLockMode P T now sp cT s).1 hl
  apply applyAdjustment_inv P db now sm _ _ hr
  intro hs
  have hcap : isWhole s.maxParallelCap := by rw [h.cap]; exact hc.maxCap
  rcases hrd with e | ⟨e1, e2⟩
  · rw [e] at hs ⊢
    obtain ⟨p1, p2⟩ := hld hs
    refine ⟨guRampDown_no_peak P T now cT _ _ p1, ?_, ?_, ?_⟩
    · rw [p2]; exact isWhole_min (isWhole_add h.whole hc.rampStep) hcap
    · rw [p2, h.cap]
      exact le_min (by linarith [h.lower, hc.rampStepNonneg])
        (hc.minLe.trans hc.parLe)
    · rw [p2, h.cap]; exact min_le_right _ _
  · refine ⟨e1, ?_, ?_, ?_⟩
    · rw [e2, guLockMode_contextMaxParallel]
      exact isWhole_max (isWhole_sub h.whole hc.rampDownStep) hc.minParallel
    · rw [e2]; exact le_max_right _ _
    · rw [e2, guLockMode_contextMaxParallel]
      exact max_le (by linarith [h.upper, hc.rampDownStepNonneg]) (hc.minLe.trans hc.parLe)

theorem guWatchdog_inv (P : LockProfile) (T : GUTuning) (hc : GUConstants P T) (now : Int)
    (s : MonitorState) (h : GUInvariant P s) :
    GUInvariant P (guWatchdog P T.stallStep now s).1 := by
  unfold guWatchdog
  split_ifs with h1 h2 h3
  · refine ⟨h.cap, isWhole_max (isWhole_sub h.whole hc.stallStep) hc.minParallel,
      le_max_right _ _, max_le (by linarith [h.upper, hc.stallStepNonneg])
        (hc.minLe.trans hc.parLe), h.lock, fun hp => ?_⟩
    exact le_trans (max_le (by linarith [hc.stallStepNonneg]) (le_of_lt h2.1)) (h.sweet hp)
  · exact ⟨h.cap, h.whole, h.lower, h.upper, h.lock, h.sweet⟩
  · exact ⟨h.cap, h.whole, h.lower, h.upper, h.lock, h.sweet⟩
  · exact h

theorem continuousProgress_inv (P : LockProfile) (i : TickInput) (c : Nat) (s : MonitorState)
    (h : GUInvariant P s) : GUInvariant P (continuousProgress i c s) := by
  unfold continuousProgress
  split_ifs
  · exact ⟨h.cap, h.whole, h.lower, h.upper, h.lock, h.sweet⟩
  · exact h

theorem guEmergency_inv (P : LockProfile) (T : GUTuning) (hc : GUConstants P T) (now : Int)
    (cT : ℚ) (c : Nat) (s : MonitorState) (h : GUInvariant P s) :
    GUInvariant P (emergencyReset P.toStallProfile now cT c s).1 := by
  unfold emergencyReset
  split_ifs
  · exact ⟨h.cap, hc.parallel, hc.minLe, hc.parLe, fun _ => rfl, fun hp => by cases hp⟩
  · exact ⟨h.cap, h.whole, h.lower, h.upper, h.lock, h.sweet⟩
  · exact ⟨h.cap, h.whole, h.lower, h.upper, h.lock, h.sweet⟩
  · exact ⟨h.cap, h.whole, h.lower, h.upper, h.lock, h.sweet⟩

theorem guFallback_inv (P : LockProfile) (T : GUTuning) (hc : GUConstants P T) (i : TickInput)
    (s : MonitorState) (h : GUInvariant P s) :
    GUInvariant P (throttledFallback T.fallback i s).1 := by
  unfold throttledFallback
  split_ifs
  · refine ⟨h.cap, ?_, ?_, ?_, h.lock, fun hp => ?_⟩
    · show isWhole (min s.contextMaxParallel
        (max (s.maxParallelCap * T.fallback.capFactor) T.fallback.capFloor))
      rw [h.cap]
      exact isWhole_min h.whole hc.fallbackCap
    · show P.minParallel ≤ min s.contextMaxParallel
        (max (s.maxParallelCap * T.fallback.capFactor) T.fallback.capFloor)
      rw [h.cap]
      exact le_min h.lower hc.fallbackLow
    · exact le_trans (min_le_left _ _) h.upper
    · exact le_trans (min_le_left _ _) (h.sweet hp)
  · exact h
  · exact h

/-- The evaluated body of gigabit.js / ultra.js keeps the invariant, and its thrashing
protection does not fire. -/
theorem guBody_inv (P : LockProfile) (T : GUTuning) (hc : GUConstants P T) (i : TickInput)
    (rp : List PartTime) (s : MonitorState) (h : GUInvariant P s) :
    GUInvariant P (guBody P T i rp s).1 ∧ (guBody P T i rp s).2.performanceDecay = false := by
  have hd := guDecay_inv P T i.now (realThroughputMbps rp) _ (guBeforeDecay_inv P T i rp s h)
  obtain ⟨hq, ht⟩ := guThrashing_inv P P.parallel 10 5 0.9 (realThroughputMbps rp) _ hd
  refine ⟨?_, hq⟩
  simp only [guBody]
  apply guFallback_inv P T hc
  apply guEmergency_inv P T hc
  apply continuousProgress_inv
  apply guWatchdog_inv P T hc
  apply guRamp_inv P T hc
  apply guTrackLow_inv
  exact ht

theorem guTick_inv (P : LockProfile) (T : GUTuning) (hc : GUConstants P T)
    (s : MonitorState) (i : TickInput) (h : GUInvariant P s) :
    GUInvariant P (guTick P T s i).1 ∧ (guTick P T s i).2.performanceDecay = false := by
  unfold guTick
  split_ifs
  · exact ⟨h, rfl⟩
  · exact ⟨⟨h.cap, h.whole, h.lower, h.upper, h.lock, h.sweet⟩, rfl⟩
  · exact ⟨h, rfl⟩
  · exact guBody_inv P T hc i _ s h
  · exact ⟨h, rfl⟩

theorem gigabit_start_inv (connectionInfo : ConnectionInfo) (createdAt : Int) :
    GUInvariant GIGABIT_PROFILE (Monitor.gigabit.start connectionInfo createdAt) :=
  ⟨rfl, gigabit_constants.parallel, gigabit_constants.minLe, gigabit_constants.parLe,
    fun h => absurd (show true = false from h) (by decide), fun _ => le_refl _⟩

theorem ultra_start_inv (connectionInfo : ConnectionInfo) (createdAt : Int) :
    GUInvariant ULTRA_PROFILE (Monitor.ultra.start connectionInfo createdAt) :=
  ⟨rfl, ultra_constants.parallel, ultra_constants.minLe, ultra_constants.parLe,
    fun h => absurd (show true = false from h) (by decide), fun _ => le_refl _⟩

theorem gigabit_reached_inv (connectionInfo : ConnectionInfo) (createdAt : Int)
    (inputs : List TickInput) :
    GUInvariant GIGABIT_PROFILE (Monitor.gigabit.reached connectionInfo createdAt inputs) :=
  finalState_induction gigabitTick (GUInvariant GIGABIT_PROFILE)
    (fun s i h => (guTick_inv _ _ gigabit_constants s i h).1) inputs _
    (gigabit_start_inv connectionInfo createdAt)

theorem ultra_reached_inv (connectionInfo : ConnectionInfo) (createdAt : Int)
    (inputs : List TickInput) :
    GUInvariant ULTRA_PROFILE (Monitor.ultra.reached connectionInfo createdAt inputs) :=
  finalState_induction ultraTick (GUInvariant ULTRA_PROFILE)
    (fun s i h => (guTick_inv _ _ ultra_constants s i h).1) inputs _
    (ultra_start_inv connectionInfo createdAt)

/-! ### Claim C33: the state invariant of the gigabit monitor -/

theorem gigabitFallback_partSize_cases (i : TickInput) (s : MonitorState) :
    (throttledFallback gigabitTuning.fallback i s).1.partSize = s.partSize
      ∨ (s.partSize > 150 * 1024 * 1024
        ∧ (throttledFallback gigabitTuning.fallback i s).1.partSize
          = max (s.partSize - 50 * 1024 * 1024) (150 * 1024 * 1024)) := by
  unfold throttledFallback
  split_ifs with h1 h2
  · right
    exact ⟨h2, rfl⟩
  · left; rfl
  · left; rfl

theorem gigabitTick_partSize (s : MonitorState) (i : TickInput)
    (h : s.partSize = 250 * MiB ∨ s.partSize = 200 * MiB ∨ s.partSize = 150 * MiB) :
    (gigabitTick s i).1.partSize = 250 * MiB ∨ (gigabitTick s i).1.partSize = 200 * MiB
      ∨ (gigabitTick s i).1.partSize = 150 * MiB := by
  rcases Monitor.tick_ends_in_fallback Monitor.gigabit s i with e | ⟨s', hs', e⟩
  · have e' : (gigabitTick s i).1.partSize = s.partSize := e
    rw [e']; exact h
  · have e' : (gigabitTick s i).1 = (throttledFallback gigabitTuning.fallback i s').1 := e
    rw [e']
    rcases gigabitFallback_partSize_cases i s' with c | ⟨_, c⟩
    · rw [c, hs']; exact h
    · rw [c, hs']
      rcases h with h | h | h
      · right; left; rw [h]; decide
      · right; right; rw [h]; decide
      · right; right; rw [h]; decide

/-- C33. Gigabit monitor state invariant: started from `createGigabitUploadStrategy` with
parallelism 16, after every tick of every tick sequence (any samples, any clock, any
overall speed, so including ticks on which the throttled-network fallback fires) the
parallelism is an integer in `[14, 20]` and `strategy.partSize` is one of 250 MiB, 200 MiB
or 150 MiB. -/
theorem gigabit_state_invariant (connectionInfo : ConnectionInfo) (createdAt : Int)
    (inputs : List TickInput) :
    (Monitor.gigabit.start connectionInfo createdAt).contextMaxParallel = 16
      ∧ isWhole (Monitor.gigabit.reached connectionInfo createdAt inputs).contextMaxParallel
      ∧ (∃ n : Int, 14 ≤ n ∧ n ≤ 20
          ∧ (Monitor.gigabit.reached connectionInfo createdAt inputs).contextMaxParallel = n)
      ∧ 14 ≤ (Monitor.gigabit.reached connectionInfo createdAt inputs).contextMaxParallel
      ∧ (Monitor.gigabit.reached connectionInfo createdAt inputs).contextMaxParallel ≤ 20
      ∧ ((Monitor.gigabit.reached connectionInfo createdAt inputs).partSize = 250 * MiB
        ∨ (Monitor.gigabit.reached connectionInfo createdAt inputs).partSize = 200 * MiB
        ∨ (Monitor.gigabit.reached connectionInfo createdAt inputs).partSize = 150 * MiB) := by
  have hinv := gigabit_reached_inv connectionInfo createdAt inputs
  have hlo : (14 : ℚ) ≤
      (Monitor.gigabit.reached connectionInfo createdAt inputs).contextMaxParallel := by
    have h := hinv.lower
    norm_num [GIGABIT_PROFILE] at h
    exact h
  have hhi : (Monitor.gigabit.reached connectionInfo createdAt inputs).contextMaxParallel
      ≤ 20 := by
    have h := hinv.upper
    norm_num [GIGABIT_PROFILE] at h
    exact h
  refine ⟨rfl, hinv.whole, ?_, hlo, hhi, ?_⟩
  · obtain ⟨n, hn⟩ := (isWhole_iff _).mp hinv.whole
    rw [hn] at hlo hhi
    exact ⟨n, by exact_mod_cast hlo, by exact_mod_cast hhi, hn⟩
  · exact finalState_induction gigabitTick
      (fun s => s.partSize = 250 * MiB ∨ s.partSize = 200 * MiB ∨ s.partSize = 150 * MiB)
      (fun s i h => gigabitTick_partSize s i h) inputs _ (Or.inl rfl)

/-! ### Claim C35: the assumed peak of gigabit and ultra is never re-acquired -/

theorem guLockMode_unlocked (P : LockProfile) (T : GUTuning) (now : Int) (sp cT : ℚ)
    (s : MonitorState) (h : s.lockedPerformance = false) :
    (guLockMode P T now sp cT s).1.lockedPerformance = false := by
  unfold guLockMode
  split_ifs
  all_goals first
    | rfl
    | exact h

theorem guRampDown_unlocked (P : LockProfile) (T : GUTuning) (now : Int) (cT : ℚ)
    (d : RampDecision) (s : MonitorState) (h : s.lockedPerformance = false) :
    (guRampDown P T now cT d s).1.lockedPerformance = false := by
  unfold guRampDown
  split_ifs
  all_goals first
    | rfl
    | exact h

theorem reinforcementLock_of_no_peak (t : ℚ) (c : Nat) (cT : ℚ) (s : MonitorState)
    (h : s.peakPerformanceDetected = false) : reinforcementLock t c cT s = (s, false) := by
  unfold reinforcementLock
  rw [if_neg]
  intro hc
  rw [h] at hc
  exact absurd hc.1 (by decide)

/-- Without a detected peak, an evaluated tick of gigabit.js / ultra.js cannot set the
lock. -/
theorem guBody_unlocked (P : LockProfile) (T : GUTuning) (i : TickInput)
    (rp : List PartTime) (s : MonitorState) (hp : s.peakPerformanceDetected = false)
    (hl : s.lockedPerformance = false) :
    (guBody P T i rp s).1.lockedPerformance = false := by
  simp only [guBody, throttledFallback_lockedPerformance]
  apply (emergencyReset_keeps_cleared _ _ _ _ _).1
  simp only [continuousProgress_lockedPerformance, guWatchdog_lockedPerformance,
    applyAdjustment_lockedPerformance]
  apply guRampDown_unlocked
  apply guLockMode_unlocked
  simp only [guTrackLow_lockedPerformance, thrashingProtection_lockedPerformance,
    guDecay_lockedPerformance]
  rw [reinforcementLock_of_no_peak _ _ _ _ (by simpa using hp)]
  simpa using hl

theorem guTick_unlocked (P : LockProfile) (T : GUTuning) (s : MonitorState) (i : TickInput)
    (hp : s.peakPerformanceDetected = false) :
    (guTick P T s i).1.peakPerformanceDetected = false
      ∧ (s.lockedPerformance = false → (guTick P T s i).1.lockedPerformance = false) := by
  unfold guTick
  split_ifs
  · exact ⟨hp, fun h => h⟩
  · exact ⟨hp, fun h => h⟩
  · exact ⟨hp, fun h => h⟩
  · exact ⟨(guBody_no_peak P T i _ s hp).1, fun h => guBody_unlocked P T i _ s hp h⟩
  · exact ⟨hp, fun h => h⟩

theorem finalState_concat (tick : MonitorState → TickInput → MonitorState × TickEvents)
    (inputs more : List TickInput) :
    ∀ s0, finalState tick s0 (inputs ++ more)
      = finalState tick (finalState tick s0 inputs) more := by
  induction inputs with
  | nil => intro s0; rfl
  | cons j rest ih => intro s0; exact ih _

theorem gu_never_reacquired (P : LockProfile) (T : GUTuning) (s : MonitorState)
    (more : List TickInput) (hinv : GUInvariant P s) :
    (s.peakPerformanceDetected = false →
        (finalState (guTick P T) s more).peakPerformanceDetected = false)
      ∧ (s.lockedPerformance = false →
        (finalState (guTick P T) s more).lockedPerformance = false) := by
  constructor
  · intro hp
    exact finalState_induction (guTick P T) (fun t => t.peakPerformanceDetected = false)
      (fun t i h => (guTick_unlocked P T t i h).1) more s hp
  · intro hl
    exact (finalState_induction (guTick P T)
      (fun t => t.peakPerformanceDetected = false ∧ t.lockedPerformance = false)
      (fun t i h => ⟨(guTick_unlocked P T t i h.1).1, (guTick_unlocked P T t i h.1).2 h.2⟩)
      more s ⟨hinv.lock hl, hl⟩).2

/-- C35. In the gigabit and ultra monitors (which start with `peakPerformanceDetected =
true`, `lockedPerformance = true` and phase "locked"), the pre-assumed peak is never
re-acquired: for every tick sequence, once `peakPerformanceDetected` is false it is false
after every later tick, and once `lockedPerformance` is false it is false after every
later tick, whatever throughput is observed afterwards. -/
theorem assumed_peak_never_reacquired (m : Monitor)
    (hm : m = Monitor.gigabit ∨ m = Monitor.ultra) (connectionInfo : ConnectionInfo)
    (createdAt : Int) (inputs more : List TickInput) :
    (m.start connectionInfo createdAt).peakPerformanceDetected = true
      ∧ (m.start connectionInfo createdAt).lockedPerformance = true
      ∧ (m.start connectionInfo createdAt).peakResetState = PeakResetState.locked
      ∧ ((m.reached connectionInfo createdAt inputs).peakPerformanceDetected = false →
          (m.reached connectionInfo createdAt (inputs ++ more)).peakPerformanceDetected = false)
      ∧ ((m.reached connectionInfo createdAt inputs).lockedPerformance = false →
          (m.reached connectionInfo createdAt (inputs ++ more)).lockedPerformance = false)
      ∧ ((m.reached connectionInfo createdAt inputs).lockedPerformance = false →
          (m.reached connectionInfo createdAt inputs).peakPerformanceDetected = false) := by
  have hcat : m.reached connectionInfo createdAt (inputs ++ more)
      = finalState m.tick (m.reached connectionInfo createdAt inputs) more :=
    finalState_concat m.tick inputs more _
  rw [hcat]
  rcases hm with rfl | rfl
  · have hinv := gigabit_reached_inv connectionInfo createdAt inputs
    obtain ⟨a, b⟩ := gu_never_reacquired GIGABIT_PROFILE gigabitTuning _ more hinv
    exact ⟨rfl, rfl, rfl, a, b, hinv.lock⟩
  · have hinv := ultra_reached_inv connectionInfo createdAt inputs
    obtain ⟨a, b⟩ := gu_never_reacquired ULTRA_PROFILE ultraTuning _ more hinv
    exact ⟨rfl, rfl, rfl, a, b, hinv.lock⟩

/-- C35 on the gigabit monitor: the second tick of `gigabitSlowTicks` finds the peak
unlocked by the first one; the two later ticks of `gigabitStrongAgain`, at 960 Mbps, leave
it unlocked. -/
theorem assumed_peak_never_reacquired_witness :
    (Monitor.gigabit.reached ⟨1000⟩ 0 gigabitSlowTicks).lockedPerformance = false
      ∧ (Monitor.gigabit.reached ⟨1000⟩ 0
          (gigabitSlowTicks ++ gigabitStrongAgain)).lockedPerformance = false :=
  ⟨by decide!,
    (assumed_peak_never_reacquired Monitor.gigabit (Or.inl rfl) ⟨1000⟩ 0 gigabitSlowTicks
      gigabitStrongAgain).2.2.2.2.1 (by decide!)⟩

/-! ## The invariant of the fiber monitor -/

theorem fiberBeforeDecay_inv (i : TickInput) (rp : List PartTime) (s : MonitorState)
    (h : FiberInvariant s) : FiberInvariant (fiberBeforeDecay i rp s) := by
  have h1 : FiberInvariant (recordAvgPartSpeed 5 rp s) :=
    ⟨h.cap, h.size, h.whole, h.wholeOpt, h.sweet⟩
  have h2 : FiberInvariant (peakDetection FIBER_PROFILE 6 i.now (realThroughputMbps rp)
      rp.length (recordAvgPartSpeed 5 rp s)).1 := by
    unfold peakDetection
    split_ifs
    · exact ⟨h1.cap, h1.size, h1.whole, h1.whole, fun _ => le_refl _⟩
    · exact h1
  unfold fiberBeforeDecay reinforcementLock
  split_ifs
  · exact ⟨h2.cap, h2.size, h2.whole, h2.wholeOpt, h2.sweet⟩
  · exact ⟨h2.cap, h2.size, h2.whole, h2.wholeOpt, h2.sweet⟩
  · exact h2

theorem fiberDecay_inv (now : Int) (cT : ℚ) (s : MonitorState) (h : FiberInvariant s) :
    FiberInvariant (fiberDecay now cT s).1 := by
  refine ⟨?_, ?_, ?_, ?_, ?_⟩
  · simpa using h.cap
  · simpa using h.size
  · simpa using h.whole
  · simpa using h.wholeOpt
  · intro hp
    rw [fiberDecay_peakPerformanceDetected] at hp
    simpa using h.sweet hp

theorem fiberThrashing_inv (pd : ℚ) (hm w : Nat) (f cT : ℚ) (s : MonitorState)
    (h : FiberInvariant s) :
    (thrashingProtection pd hm w f cT s.contextMaxParallel s).2 = false
      ∧ FiberInvariant (thrashingProtection pd hm w f cT s.contextMaxParallel s).1 := by
  rw [thrashingProtection_of_sweet pd hm w f cT s.contextMaxParallel s h.sweet]
  exact ⟨rfl, ⟨h.cap, h.size, h.whole, h.wholeOpt, h.sweet⟩⟩

theorem fiberTrackLow_inv (sp : ℚ) (s : MonitorState) (h : FiberInvariant s) :
    FiberInvariant (fiberTrackLow sp s) := by
  unfold fiberTrackLow
  split_ifs <;> exact ⟨h.cap, h.size, h.whole, h.wholeOpt, h.sweet⟩

theorem fiberRamp_inv (now : Int) (sp : ℚ) (s : MonitorState) (h : FiberInvariant s) :
    FiberInvariant (fiberRamp now sp s).1
      ∧ ((fiberRamp now sp s).2.shouldAdjust = true →
          isWhole (fiberRamp now sp s).2.newParallel
            ∧ ((fiberRamp now sp s).1.peakPerformanceDetected = true →
              (fiberRamp now sp s).2.newParallel ≤ (fiberRamp now sp s).1.optimalParallel)) := by
  have hcap : isWhole s.maxParallelCap := by rw [h.cap]; decide
  unfold fiberRamp
  by_cases h1 : sp > FIBER_PROFILE.rampUpThreshold ∧ s.contextMaxParallel < s.maxParallelCap
  · rw [if_pos h1]
    by_cases h2 : s.peakPerformanceDetected = true ∧ s.contextMaxParallel ≥ s.optimalParallel
    · rw [if_pos h2]
      exact ⟨h, fun hc => by cases hc⟩
    · rw [if_neg h2]
      by_cases h3 : now - s.lastScaleTime < FIBER_PROFILE.scaleUpCooldown
      · rw [if_pos h3]
        exact ⟨h, fun hc => by cases hc⟩
      · rw [if_neg h3]
        refine ⟨⟨h.cap, h.size, h.whole, h.wholeOpt, h.sweet⟩,
          fun _ => ⟨?_, fun hp => ?_⟩⟩
        · refine isWhole_min (isWhole_add h.whole ?_) hcap
          split_ifs
          · exact isWhole_one
          · exact isWhole_two
        · have hp' : s.peakPerformanceDetected = true := hp
          have hlt : s.contextMaxParallel < s.optimalParallel := by
            by_contra hc
            exact h2 ⟨hp', not_lt.mp hc⟩
          show min (s.contextMaxParallel + (if s.peakPerformanceDetected = true then 1 else 2))
            s.maxParallelCap ≤ s.optimalParallel
          rw [if_pos hp']
          exact le_trans (min_le_left _ _) (isWhole_add_one_le _ _ h.whole h.wholeOpt hlt)
  · rw [if_neg h1]
    split_ifs with h4
    · refine ⟨⟨h.cap, h.size, h.whole, h.wholeOpt, h.sweet⟩,
        fun _ => ⟨?_, fun hp => ?_⟩⟩
      · exact isWhole_max (isWhole_sub h.whole isWhole_two)
          (show isWhole FIBER_PROFILE.minParallel by decide)
      · exact le_trans (max_le (by linarith) (le_of_lt h4.2.1)) (h.sweet hp)
    · exact ⟨h, fun hc => by cases hc⟩

theorem fiberApply_inv (db now : Int) (sp : ℚ) (d : RampDecision) (s : MonitorState)
    (h : FiberInvariant s)
    (hd : d.shouldAdjust = true →
      isWhole d.newParallel
        ∧ (s.peakPerformanceDetected = true → d.newParallel ≤ s.optimalParallel)) :
    FiberInvariant (applyAdjustment db now sp d s).1 := by
  unfold applyAdjustment
  split_ifs with hc
  · obtain ⟨hw, hs⟩ := hd hc.1
    exact ⟨h.cap, h.size, hw, h.wholeOpt, hs⟩
  · exact h

theorem fiberWatchdog_inv (now : Int) (s : MonitorState) (h : FiberInvariant s) :
    FiberInvariant (noProgressWatchdog FIBER_PROFILE 2 now s).1 := by
  unfold noProgressWatchdog
  split_ifs with h1 h2
  · refine ⟨h.cap, h.size, isWhole_max (isWhole_sub h.whole isWhole_two)
      (show isWhole FIBER_PROFILE.minParallel by decide), h.wholeOpt, fun hp => ?_⟩
    exact le_trans (max_le (by linarith) (le_of_lt h2)) (h.sweet hp)
  · exact ⟨h.cap, h.size, h.whole, h.wholeOpt, h.sweet⟩
  · exact h

theorem fiberEmergency_inv (now : Int) (cT : ℚ) (c : Nat) (s : MonitorState)
    (h : FiberInvariant s) : FiberInvariant (emergencyReset FIBER_PROFILE now cT c s).1 := by
  unfold emergencyReset
  split_ifs
  · exact ⟨h.cap, h.size, show isWhole FIBER_PROFILE.parallel by decide, h.wholeOpt,
      fun hp => by cases hp⟩
  · exact ⟨h.cap, h.size, h.whole, h.wholeOpt, h.sweet⟩
  · exact ⟨h.cap, h.size, h.whole, h.wholeOpt, h.sweet⟩
  · exact ⟨h.cap, h.size, h.whole, h.wholeOpt, h.sweet⟩

theorem fiberFallback_inv (i : TickInput) (s : MonitorState) (h : FiberInvariant s) :
    FiberInvariant (throttledFallback fiberFallbackRule i s).1 := by
  rw [(throttledFallback_grow_noop fiberFallbackRule i s rfl h.size).1]
  exact h

theorem fiberAfterDecay_inv (i : TickInput) (rp : List PartTime) (sm cT : ℚ)
    (s : MonitorState) (h : FiberInvariant s) :
    FiberInvariant (fiberAfterDecay i rp sm cT s).1
      ∧ (fiberAfterDecay i rp sm cT s).2.performanceDecay = false := by
  obtain ⟨hq, ht⟩ := fiberThrashing_inv FIBER_PROFILE.parallel 10 5 0.85 cT s h
  refine ⟨?_, hq⟩
  simp only [fiberAfterDecay]
  apply fiberFallback_inv
  apply fiberEmergency_inv
  apply fiberWatchdog_inv
  obtain ⟨hr, hrd⟩ := fiberRamp_inv i.now sm _ (fiberTrackLow_inv sm _ ht)
  exact fiberApply_inv _ _ _ _ _ hr hrd

theorem fiberBody_inv (i : TickInput) (rp : List PartTime) (s : MonitorState)
    (h : FiberInvariant s) :
    FiberInvariant (fiberBody i rp s).1 ∧ (fiberBody i rp s).2.performanceDecay = false := by
  have hd : FiberInvariant (fiberDecay i.now (realThroughputMbps rp)
      (fiberBeforeDecay i rp s)).1 :=
    fiberDecay_inv _ _ _ (fiberBeforeDecay_inv i rp s h)
  unfold fiberBody
  simp only []
  split_ifs
  · exact ⟨hd, rfl⟩
  · exact fiberAfterDecay_inv i rp _ _ _ hd

theorem fiberTick_inv (s : MonitorState) (i : TickInput) (h : FiberInvariant s) :
    FiberInvariant (fiberTick s i).1 ∧ (fiberTick s i).2.performanceDecay = false := by
  unfold fiberTick
  split_ifs
  · exact ⟨h, rfl⟩
  · exact ⟨⟨h.cap, h.size, h.whole, h.wholeOpt, h.sweet⟩, rfl⟩
  · exact ⟨h, rfl⟩
  · exact fiberBody_inv i _ s h
  · exact ⟨h, rfl⟩

theorem fiber_reached_inv (connectionInfo : ConnectionInfo) (createdAt : Int)
    (inputs : List TickInput) :
    FiberInvariant (Monitor.fiber.reached connectionInfo createdAt inputs) :=
  finalState_induction fiberTick FiberInvariant (fun s i h => (fiberTick_inv s i h).1) inputs _
    ⟨rfl, show (40 * 1024 * 1024 : Int) ≤ FIBER_PROFILE.partSize by decide,
      show isWhole FIBER_PROFILE.parallel by decide,
      show isWhole FIBER_PROFILE.parallel by decide, fun _ => le_refl _⟩

/-! ## The invariant of the cable monitor -/

theorem cableBeforeDecay_inv (i : TickInput) (rp : List PartTime) (s : MonitorState)
    (h : CableInvariant s) : CableInvariant (cableBeforeDecay i rp s) := by
  have h1 : CableInvariant (recordAvgPartSpeed 5 rp s) :=
    ⟨h.cap, h.whole, h.wholeOpt, h.sweet⟩
  unfold cableBeforeDecay cablePeakDetection
  split_ifs
  · exact ⟨h1.cap, h1.whole, h1.whole, fun _ => le_refl _⟩
  · exact h1

theorem cableDecay_inv (now : Int) (cT : ℚ) (s : MonitorState) (h : CableInvariant s) :
    CableInvariant (cableDecay now cT s).1 := by
  refine ⟨?_, ?_, ?_, ?_⟩
  · simpa using h.cap
  · simpa using h.whole
  · simpa using h.wholeOpt
  · intro hp
    have hs : s.peakPerformanceDetected = true := by
      by_contra hc
      rw [Bool.not_eq_true] at hc
      rw [cableDecay_no_peak now cT s hc, hc] at hp
      cases hp
    simpa using h.sweet hs

theorem cableThrashing_inv (pd : ℚ) (hm w : Nat) (f cT : ℚ) (s : MonitorState)
    (h : CableInvariant s) :
    (thrashingProtection pd hm w f cT s.maxParallel s).2 = false
      ∧ CableInvariant (thrashingProtection pd hm w f cT s.maxParallel s).1 := by
  rw [thrashingProtection_of_sweet pd hm w f cT s.maxParallel s h.sweet]
  exact ⟨rfl, ⟨h.cap, h.whole, h.wholeOpt, h.sweet⟩⟩

theorem cableTrackLow_inv (sp : ℚ) (s : MonitorState) (h : CableInvariant s) :
    CableInvariant (cableTrackLow sp s) := by
  unfold cableTrackLow
  split_ifs <;> exact ⟨h.cap, h.whole, h.wholeOpt, h.sweet⟩

theorem cableRamp_inv (now : Int) (sp : ℚ) (s : MonitorState) (h : CableInvariant s) :
    CableInvariant (cableRamp now sp s).1
      ∧ ((cableRamp now sp s).2.shouldAdjust = true →
          isWhole (cableRamp now sp s).2.newParallel
            ∧ ((cableRamp now sp s).1.peakPerformanceDetected = true →
              (cableRamp now sp s).2.newParallel ≤ (cableRamp now sp s).1.optimalParallel)) := by
  have hcap : isWhole s.maxParallelCap := by rw [h.cap]; decide
  unfold cableRamp
  by_cases h1 : sp > CABLE_PROFILE.rampUpThreshold ∧ s.maxParallel < s.maxParallelCap
  · rw [if_pos h1]
    by_cases h2 : s.peakPerformanceDetected = true ∧ s.maxParallel ≥ s.optimalParallel
    · rw [if_pos h2]
      exact ⟨h, fun hc => by cases hc⟩
    · rw [if_neg h2]
      by_cases h3 : now - s.lastScaleTime < CABLE_PROFILE.scaleUpCooldown
      · rw [if_pos h3]
        exact ⟨h, fun hc => by cases hc⟩
      · rw [if_neg h3]
        refine ⟨⟨h.cap, h.whole, h.wholeOpt, h.sweet⟩, fun _ => ⟨?_, fun hp => ?_⟩⟩
        · refine isWhole_min (isWhole_add h.whole ?_) hcap
          split_ifs
          · exact isWhole_one
          · exact isWhole_two
        · have hp' : s.peakPerformanceDetected = true := hp
          have hlt : s.maxParallel < s.optimalParallel := by
            by_contra hc
            exact h2 ⟨hp', not_lt.mp hc⟩
          show min (s.maxParallel + (if s.peakPerformanceDetected = true then 1 else 2))
            s.maxParallelCap ≤ s.optimalParallel
          rw [if_pos hp']
          exact le_trans (min_le_left _ _) (isWhole_add_one_le _ _ h.whole h.wholeOpt hlt)
  · rw [if_neg h1]
    split_ifs with h4
    · refine ⟨⟨h.cap, h.whole, h.wholeOpt, h.sweet⟩, fun _ => ⟨?_, fun hp => ?_⟩⟩
      · exact isWhole_max (isWhole_sub h.whole isWhole_two)
          (show isWhole CABLE_PROFILE.minParallel by decide)
      · exact le_trans (max_le (by linarith) (le_of_lt h4.2.1)) (h.sweet hp)
    · exact ⟨h, fun hc => by cases hc⟩

theorem cableApply_inv (now : Int) (sp : ℚ) (d : RampDecision) (s : MonitorState)
    (h : CableInvariant s)
    (hd : d.shouldAdjust = true →
      isWhole d.newParallel
        ∧ (s.peakPerformanceDetected = true → d.newParallel ≤ s.optimalParallel)) :
    CableInvariant (cableApplyAdjustment now sp d s).1 := by
  unfold cableApplyAdjustment
  split_ifs with hc
  · obtain ⟨hw, hs⟩ := hd hc.1
    exact ⟨h.cap, hw, h.wholeOpt, hs⟩
  · exact h

theorem cableFallback_inv (i : TickInput) (s : MonitorState) (h : CableInvariant s) :
    CableInvariant (cableFallback i s).1 := by
  unfold cableFallback
  by_cases h1 : elapsedMinutes i > 0.5 ∧ overallSpeed i < 9.4 * 0.4
  · rw [if_pos h1]
    refine ⟨h.cap, ?_, h.wholeOpt, fun hp => le_trans (min_le_left _ _) (h.sweet hp)⟩
    show isWhole (min s.maxParallel (max (s.maxParallelCap * 0.7) 2))
    rw [h.cap]
    exact isWhole_min h.whole (show isWhole (max (CABLE_PROFILE.maxCap * 0.7) 2) by decide!)
  · rw [if_neg h1]
    exact h

theorem cableBody_inv (i : TickInput) (rp : List PartTime) (s : MonitorState)
    (h : CableInvariant s) :
    CableInvariant (cableBody i rp s).1 ∧ (cableBody i rp s).2.performanceDecay = false := by
  have hd : CableInvariant (cableDecay i.now (realThroughputMbps rp)
      (cableBeforeDecay i rp s)).1 :=
    cableDecay_inv _ _ _ (cableBeforeDecay_inv i rp s h)
  obtain ⟨hq, ht⟩ := cableThrashing_inv CABLE_PROFILE.parallel 8 4 0.8
    (realThroughputMbps rp) _ hd
  refine ⟨?_, hq⟩
  simp only [cableBody]
  apply cableFallback_inv
  obtain ⟨hr, hrd⟩ := cableRamp_inv i.now (smoothedPartSpeed (recordAvgPartSpeed 5 rp s)) _
    (cableTrackLow_inv _ _ (cableTrackLow_inv (smoothedPartSpeed (recordAvgPartSpeed 5 rp s))
      _ ht))
  exact cableApply_inv _ _ _ _ hr hrd

theorem cableTick_inv (s : MonitorState) (i : TickInput) (h : CableInvariant s) :
    CableInvariant (cableTick s i).1 ∧ (cableTick s i).2.performanceDecay = false := by
  unfold cableTick
  split_ifs
  · exact ⟨h, rfl⟩
  · exact ⟨⟨h.cap, h.whole, h.wholeOpt, h.sweet⟩, rfl⟩
  · exact ⟨h, rfl⟩
  · exact cableBody_inv i _ s h
  · exact ⟨h, rfl⟩

theorem cable_reached_inv (connectionInfo : ConnectionInfo) (createdAt : Int)
    (inputs : List TickInput) :
    CableInvariant (Monitor.cable.reached connectionInfo createdAt inputs) :=
  finalState_induction cableTick CableInvariant (fun s i h => (cableTick_inv s i h).1) inputs _
    ⟨rfl, show isWhole CABLE_PROFILE.parallel by decide,
      show isWhole CABLE_PROFILE.parallel by decide, fun _ => le_refl _⟩

/-! ### Claim C37: the parallelism never passes the recorded optimum -/

/-- In a reached state of cable, fiber, gigabit or ultra with the peak detected, the
parallelism is at most the recorded optimum; the same holds when the thrashing protection
of the next tick runs, so its guard is false. -/
theorem Monitor.sweet_spot_kept (m : Monitor)
    (hm : m = Monitor.cable ∨ m = Monitor.fiber ∨ m = Monitor.gigabit ∨ m = Monitor.ultra)
    (connectionInfo : ConnectionInfo) (createdAt : Int) (inputs : List TickInput)
    (i : TickInput) :
    ((m.reached connectionInfo createdAt inputs).peakPerformanceDetected = true →
        m.parallelism (m.reached connectionInfo createdAt inputs)
          ≤ (m.reached connectionInfo createdAt inputs).optimalParallel)
      ∧ ((m.afterDecay (m.reached connectionInfo createdAt inputs) i).peakPerformanceDetected
          = true →
        m.parallelism (m.afterDecay (m.reached connectionInfo createdAt inputs) i)
          ≤ (m.afterDecay (m.reached connectionInfo createdAt inputs) i).optimalParallel)
      ∧ (m.thrashingGuard (m.reached connectionInfo createdAt inputs) i).2 = false
      ∧ isWhole (m.parallelism (m.reached connectionInfo createdAt inputs))
      ∧ (m ≠ Monitor.cable →
          (m.reached connectionInfo createdAt inputs).contextMaxParallel
            = m.parallelism (m.reached connectionInfo createdAt inputs)) := by
  rcases hm with rfl | rfl | rfl | rfl
  · have h := cable_reached_inv connectionInfo createdAt inputs
    have hd : CableInvariant (Monitor.cable.afterDecay
        (Monitor.cable.reached connectionInfo createdAt inputs) i) :=
      cableDecay_inv _ _ _ (cableBeforeDecay_inv i _ _ h)
    exact ⟨h.sweet, hd.sweet, (cableThrashing_inv _ _ _ _ _ _ hd).1, h.whole,
      fun hne => absurd rfl hne⟩
  · have h := fiber_reached_inv connectionInfo createdAt inputs
    have hd : FiberInvariant (Monitor.fiber.afterDecay
        (Monitor.fiber.reached connectionInfo createdAt inputs) i) :=
      fiberDecay_inv _ _ _ (fiberBeforeDecay_inv i _ _ h)
    exact ⟨h.sweet, hd.sweet, (fiberThrashing_inv _ _ _ _ _ _ hd).1, h.whole, fun _ => rfl⟩
  · have h := gigabit_reached_inv connectionInfo createdAt inputs
    have hd : GUInvariant GIGABIT_PROFILE (Monitor.gigabit.afterDecay
        (Monitor.gigabit.reached connectionInfo createdAt inputs) i) :=
      guDecay_inv _ _ _ _ _ (guBeforeDecay_inv _ _ i _ _ h)
    exact ⟨h.sweet, hd.sweet, (guThrashing_inv _ _ _ _ _ _ _ hd).1, h.whole, fun _ => rfl⟩
  · have h := ultra_reached_inv connectionInfo createdAt inputs
    have hd : GUInvariant ULTRA_PROFILE (Monitor.ultra.afterDecay
        (Monitor.ultra.reached connectionInfo createdAt inputs) i) :=
      guDecay_inv _ _ _ _ _ (guBeforeDecay_inv _ _ i _ _ h)
    exact ⟨h.sweet, hd.sweet, (guThrashing_inv _ _ _ _ _ _ _ hd).1, h.whole, fun _ => rfl⟩

/-- C37. In the cable, fiber, gigabit and ultra monitors, started with current parallelism
equal to `strategy.maxParallel`, every reachable state in which `peakPerformanceDetected`
is true has current parallelism `<= optimalParallel`, and so has the state in which the
thrashing protection of any further tick runs; hence the guard's condition (parallelism
`> optimalParallel`) is never satisfied, no tick logs "PERFORMANCE DECAY", and
`optimalParallel` is never changed by the guard. -/
theorem thrashing_guard_never_fires (m : Monitor)
    (hm : m = Monitor.cable ∨ m = Monitor.fiber ∨ m = Monitor.gigabit ∨ m = Monitor.ultra)
    (connectionInfo : ConnectionInfo) (createdAt : Int) (inputs : List TickInput)
    (i : TickInput) :
    m.parallelism (m.start connectionInfo createdAt)
        = (m.strategy connectionInfo).maxParallel
      ∧ ((m.reached connectionInfo createdAt inputs).peakPerformanceDetected = true →
        m.parallelism (m.reached connectionInfo createdAt inputs)
          ≤ (m.reached connectionInfo createdAt inputs).optimalParallel)
      ∧ ((m.afterDecay (m.reached connectionInfo createdAt inputs) i).peakPerformanceDetected
          = true →
        ¬ (m.parallelism (m.afterDecay (m.reached connectionInfo createdAt inputs) i)
          > (m.afterDecay (m.reached connectionInfo createdAt inputs) i).optimalParallel))
      ∧ (m.thrashingGuard (m.reached connectionInfo createdAt inputs) i).2 = false
      ∧ (m.tick (m.reached connectionInfo createdAt inputs) i).2.performanceDecay = false
      ∧ (m.beforeRamp (m.reached connectionInfo createdAt inputs) i).optimalParallel
        = (m.afterDecay (m.reached connectionInfo createdAt inputs) i).optimalParallel := by
  obtain ⟨a, b, c, _, _⟩ := Monitor.sweet_spot_kept m hm connectionInfo createdAt inputs i
  refine ⟨?_, a, fun hp => not_lt.mpr (b hp), c, ?_,
    (Monitor.thrashingGuard_optimal m _ i).2 c⟩
  · rcases hm with rfl | rfl | rfl | rfl <;> rfl
  · by_contra hne
    rw [Bool.not_eq_false] at hne
    rw [Monitor.tick_performanceDecay m _ i hne] at c
    cases c

/-- C37 on the cable monitor: after the two ticks of `cableBandTicks` the peak is detected
and the parallelism 6 is the recorded optimum. -/
theorem thrashing_guard_never_fires_witness :
    (Monitor.cable.reached ⟨50⟩ 0 cableBandTicks).peakPerformanceDetected = true
      ∧ Monitor.cable.parallelism (Monitor.cable.reached ⟨50⟩ 0 cableBandTicks)
        ≤ (Monitor.cable.reached ⟨50⟩ 0 cableBandTicks).optimalParallel
      ∧ (Monitor.cable.reached ⟨50⟩ 0 cableBandTicks).optimalParallel = 6 :=
  ⟨by decide!,
    (thrashing_guard_never_fires Monitor.cable (Or.inl rfl) ⟨50⟩ 0 cableBandTicks
      cableWarningTick).2.1 (by decide!),
    by decide!⟩

end WNET
